/-
Verification of the Countdown numbers-game solver (countdown.py).

The source program is shallowly embedded below.  Numeric values are
modelled as rationals (Python ints and the floats produced by `/` all
denote exact rationals on the small inputs of this domain); a raised
`ZeroDivisionError` is modelled by `Option.none` from `Op.apply`; the
recursive DFS solver and the BFS work-queue loop are driven by an
explicit fuel argument that is always large enough for the recursion /
queue to run to completion (the DFS recursion depth is bounded by the
selection length, and the BFS tree of generated states is bounded by
`bfsFuel`).
-/
import Mathlib

set_option maxHeartbeats 1000000
set_option maxRecDepth 100000

attribute [local semireducible] Rat.mul Rat.add Rat.sub Rat.inv

/-- The four operators of `OPS`.  `ASSOCIATIVE_OPERATIONS` = {add, mul}. -/
inductive Op
  | add
  | sub
  | mul
  | div
  deriving DecidableEq, Repr

/-- `op(num1, num2)` in Python; a `ZeroDivisionError` is `none`. -/
def Op.apply : Op → ℚ → ℚ → Option ℚ
  | Op.add, a, b => some (a + b)
  | Op.sub, a, b => some (a - b)
  | Op.mul, a, b => some (a * b)
  | Op.div, a, b => if b = 0 then none else some (a / b)

/-- `op in ASSOCIATIVE_OPERATIONS`. -/
def Op.isAssoc : Op → Bool
  | Op.add => true
  | Op.mul => true
  | _ => false

/-- An operation tuple `(num1, operator, num2, result)`. -/
abbrev Oper := ℚ × Op × ℚ × ℚ

def Oper.res (o : Oper) : ℚ := o.2.2.2

/-- `int(q) == q` for an exact value: the value is an integer. -/
def qIsInt (q : ℚ) : Bool := decide (q.den = 1)

/-- The fixed operator enumeration order `OPS`. -/
def OPS : List Op := [Op.add, Op.sub, Op.mul, Op.div]

/-- `remove_unused_results(operations, target)`:
keep only operations whose result occurs as an operand of some
operation of the (original) list or equals the target. -/
def remove_unused_results (operations : List Oper) (target : ℚ) : List Oper :=
  let used : List ℚ :=
    operations.map (fun o => o.1) ++ operations.map (fun o => o.2.2.1) ++ [target]
  operations.filter (fun o => decide (o.2.2.2 ∈ used))

/-- `num1 in prev_pair and num2 in prev_pair` for a 2-tuple `prev_pair`. -/
def pairMem (x : ℚ) (p : ℚ × ℚ) : Bool := decide (x = p.1) || decide (x = p.2)

/-- `used_pair_already(num1, num2, already_used_pairs)`. -/
def used_pair_already (num1 num2 : ℚ) (pairs : List (ℚ × ℚ)) : Bool :=
  pairs.any (fun p => pairMem num1 p && pairMem num2 p)

/-- The ordered pairs `(num1, num2)` of values at distinct index
positions of `selection`, in the order of the two nested `for` loops of
`solve`. -/
def enumPairs (selection : List ℚ) : List (ℚ × ℚ) :=
  selection.enum.flatMap fun p1 =>
    selection.enum.filterMap fun p2 =>
      if p1.1 = p2.1 then none else some (p1.2, p2.2)

/-- `already_used_pairs` after one non-skipped iteration: the pair is
appended when (and only when) the operator is associative. -/
def dfsUsedNext (op : Op) (used : List (ℚ × ℚ)) (num1 num2 : ℚ) : List (ℚ × ℚ) :=
  if op.isAssoc then used ++ [(num1, num2)] else used

/-- The inner pair loop of `solve` for one operator `op`: iterate the
remaining `(num1, num2)` pairs, threading `already_used_pairs`
(`used`).  `recur` is the recursive call of `solve` on a smaller
selection. -/
def dfsPairLoop (recur : List ℚ → List Oper → Option (List Oper))
    (target : ℚ) (selection : List ℚ) (operations : List Oper) (op : Op) :
    List (ℚ × ℚ) → List (ℚ × ℚ) → Option (List Oper)
  | [], _ => none
  | (num1, num2) :: rest, used =>
    if op.isAssoc && used_pair_already num1 num2 used then
      dfsPairLoop recur target selection operations op rest used
    else
      match op.apply num1 num2 with
      | none => dfsPairLoop recur target selection operations op rest (dfsUsedNext op used num1 num2)
      | some result =>
        if result = target then
          some (remove_unused_results (operations ++ [(num1, op, num2, result)]) target)
        else if result < 0 ∨ ¬ qIsInt result = true ∨ result = num1 ∨ result = num2 then
          dfsPairLoop recur target selection operations op rest (dfsUsedNext op used num1 num2)
        else
          match recur (((selection.erase num1).erase num2) ++ [result])
              (operations ++ [(num1, op, num2, result)]) with
          | some sol => some sol
          | none => dfsPairLoop recur target selection operations op rest (dfsUsedNext op used num1 num2)

/-- The outer operator loop of `solve`: each operator starts with an
empty `already_used_pairs` list. -/
def dfsOpLoop (recur : List ℚ → List Oper → Option (List Oper))
    (target : ℚ) (selection : List ℚ) (operations : List Oper) :
    List Op → Option (List Oper)
  | [] => none
  | op :: ops =>
    match dfsPairLoop recur target selection operations op (enumPairs selection) [] with
    | some sol => some sol
    | none => dfsOpLoop recur target selection operations ops

/-- `solve(target, selection, operations)` with explicit fuel; each
recursive call shrinks the selection by one, so `selection.length`
fuel is always enough. -/
def solveAux : Nat → ℚ → List ℚ → List Oper → Option (List Oper)
  | 0, _, _, _ => none
  | fuel + 1, target, selection, operations =>
    if selection.length ≤ 1 then none
    else dfsOpLoop (fun sel ops => solveAux fuel target sel ops)
      target selection operations OPS

/-- The DFS solver `solve(target, selection, operations)`;
`False` is `none`. -/
def solve (target : ℚ) (selection : List ℚ) (operations : List Oper) :
    Option (List Oper) :=
  solveAux selection.length target selection operations

/-- Equality of `frozenset(p)` and `frozenset(q)`: same element sets. -/
def setEq (p q : List Oper) : Bool :=
  p.all (fun x => q.any (fun y => decide (y = x))) &&
    q.all (fun x => p.any (fun y => decide (y = x)))

/-- `frozenset(p) in used_paths`. -/
def pathSeen (used : List (List Oper)) (p : List Oper) : Bool :=
  used.any (fun q => setEq q p)

/-- `(n2.n, op, n1.n, subres)`: the operand-swapped operation tuple. -/
def swapOper (o : Oper) : Oper := (o.2.2.1, o.2.1, o.1, o.2.2.2)

/-- The dedup decision of `solve_bfs` for a candidate operation `o`
extending `path`: drop when the operator is associative and the
fingerprint of `path` extended with the swapped tuple was seen, or when
the fingerprint of the new path itself was seen. -/
def dropTest (used : List (List Oper)) (path : List Oper) (o : Oper) : Bool :=
  (o.2.1.isAssoc && pathSeen used (path ++ [swapOper o])) || pathSeen used (path ++ [o])

/-- A BFS queue entry `(so_far, numbers, path)`. -/
abbrev BState := ℚ × List ℚ × List Oper

/-- The `for op in OPS` loop of `solve_bfs` for one ordered pair
`(n1, n2)` with remaining numbers `newNumbers`; threads
`(used_paths, queue additions)`. -/
def bfsTryOps (path : List Oper) (n1 n2 : ℚ) (newNumbers : List ℚ) :
    List Op → List (List Oper) × List BState → List (List Oper) × List BState
  | [], st => st
  | op :: ops, (used, acc) =>
    match op.apply n1 n2 with
    | none => bfsTryOps path n1 n2 newNumbers ops (used, acc)
    | some subres =>
      if subres ≤ 0 ∨ ¬ qIsInt subres = true then
        bfsTryOps path n1 n2 newNumbers ops (used, acc)
      else
        if dropTest used path (n1, op, n2, subres) then
          bfsTryOps path n1 n2 newNumbers ops (used, acc)
        else
          bfsTryOps path n1 n2 newNumbers ops
            (used ++ [path ++ [(n1, op, n2, subres)]],
              acc ++ [(subres, newNumbers ++ [subres], path ++ [(n1, op, n2, subres)])])

/-- The ordered index pairs `(i, j)`, `i ≠ j`, of the two nested `for`
loops of the BFS expansion, with the pair values and the remaining
numbers `new_numbers`. -/
def bfsCandidates (numbers : List ℚ) : List (ℚ × ℚ × List ℚ) :=
  numbers.enum.flatMap fun p1 =>
    numbers.enum.filterMap fun p2 =>
      if p1.1 = p2.1 then none
      else some (p1.2, p2.2,
        ((numbers.enum.filter fun p3 => decide (p3.1 ≠ p1.1 ∧ p3.1 ≠ p2.1)).map Prod.snd))

/-- Expansion of one dequeued state over all its candidate pairs. -/
def bfsExpand (path : List Oper) :
    List (ℚ × ℚ × List ℚ) → List (List Oper) × List BState →
      List (List Oper) × List BState
  | [], st => st
  | (n1, n2, newNumbers) :: rest, st =>
    bfsExpand path rest (bfsTryOps path n1 n2 newNumbers OPS st)

/-- `_get_biggest(path)` as an optional maximum (`none` = `-inf`). -/
def pathBiggest : List Oper → Option ℚ
  | [] => none
  | o :: rest =>
    match pathBiggest rest with
    | none => some o.2.2.2
    | some m => some (max o.2.2.2 m)

/-- Strict comparison of optional maxima, with `none` as `-inf`. -/
def ltOptQ : Option ℚ → Option ℚ → Bool
  | none, none => false
  | none, some _ => true
  | some _, none => false
  | some a, some b => decide (a < b)

/-- `_get_biggest` of the sentinel (`none`) or of a stored path. -/
def largestBiggest : Option (List Oper) → Option ℚ
  | none => none
  | some p => pathBiggest p

/-- `largest_path = max(largest_path, path, key=_get_biggest)`:
replace only on a strictly larger key (ties keep the current value). -/
def updateLargest (largest : Option (List Oper)) (path : List Oper) :
    Option (List Oper) :=
  if ltOptQ (largestBiggest largest) (pathBiggest path) then some path else largest

/-- The value returned once the queue is drained (or fuel is spent):
`all_solution_paths` in `--all` mode, otherwise `[largest_path]` when a
solution replaced the sentinel and `False` (`none`) when none did. -/
def bfsFinish (findAll : Bool) (largest : Option (List Oper))
    (acc : List (List Oper)) : Option (List (List Oper)) :=
  if findAll then some acc
  else
    match largest with
    | some lp => some [lp]
    | none => none

/-- The main `while queue:` loop of `solve_bfs`. -/
def bfsAux (target : ℚ) (biggest findAll : Bool) :
    Nat → List BState → List (List Oper) → Option (List Oper) →
      List (List Oper) → Option (List (List Oper))
  | _, [], _, largest, acc => bfsFinish findAll largest acc
  | 0, _ :: _, _, largest, acc => bfsFinish findAll largest acc
  | fuel + 1, (soFar, numbers, path) :: rest, used, largest, acc =>
    if soFar = target then
      if biggest then
        bfsAux target biggest findAll fuel rest used (updateLargest largest path) acc
      else if findAll then
        bfsAux target biggest findAll fuel rest used largest (acc ++ [path])
      else some [path]
    else
      match bfsExpand path (bfsCandidates numbers) (used, []) with
      | (used2, additions) =>
        bfsAux target biggest findAll fuel (rest ++ additions) used2 largest acc

/-- A fuel bound larger than the number of states the BFS can ever
generate: the expansion tree has branching below `4·n·(n-1)` and depth
below `n` for a selection of `n` numbers. -/
def bfsFuel (selection : List ℚ) : Nat :=
  (4 * selection.length * selection.length + 1) ^ selection.length

/-- `solve_bfs(target, selection, biggest, find_all)`; `False` is
`none`. -/
def solve_bfs (target : ℚ) (selection : List ℚ) (biggest findAll : Bool) :
    Option (List (List Oper)) :=
  bfsAux target biggest findAll (bfsFuel selection) [(0, selection, [])] [] none []

/-! ## A step view of the BFS loop

`bfsStep` is the body of one iteration of the `while queue:` loop and
`bfsRun` iterates it; `bfsAux_step` and `bfsAux_run` anchor them to
`bfsAux`.  They let a concrete run of the loop be checked in bounded
portions.  `qOfNat` writes the non-negative integer rationals of such a
run in constructor form. -/

/-- A non-negative integer as a rational, in constructor form. -/
def qOfNat (n : Nat) : Rat :=
  Rat.mk' (Int.ofNat n) 1 Nat.one_ne_zero (Nat.coprime_one_right _)

/-- One iteration of the `while queue:` loop of `solve_bfs`: the loop
either finishes with the returned value or continues with a new
configuration. -/
inductive BfsStepRes
  | finished (r : Option (List (List Oper)))
  | continuing (fuel : Nat) (queue : List BState) (used : List (List Oper))
      (largest : Option (List Oper)) (acc : List (List Oper))

/-- The body of one iteration of the `while queue:` loop of
`solve_bfs` (the step function of `bfsAux`). -/
def bfsStep (target : ℚ) (biggest findAll : Bool) :
    Nat → List BState → List (List Oper) → Option (List Oper) →
      List (List Oper) → BfsStepRes
  | _, [], _, largest, acc => .finished (bfsFinish findAll largest acc)
  | 0, _ :: _, _, largest, acc => .finished (bfsFinish findAll largest acc)
  | fuel + 1, (soFar, numbers, path) :: rest, used, largest, acc =>
    if soFar = target then
      if biggest then .continuing fuel rest used (updateLargest largest path) acc
      else if findAll then .continuing fuel rest used largest (acc ++ [path])
      else .finished (some [path])
    else
      match bfsExpand path (bfsCandidates numbers) (used, []) with
      | (used2, additions) => .continuing fuel (rest ++ additions) used2 largest acc

/-- `n` iterations of the loop body (or fewer when the loop finishes
first). -/
def bfsRun (target : ℚ) (biggest findAll : Bool) :
    Nat → Nat → List BState → List (List Oper) → Option (List Oper) →
      List (List Oper) → BfsStepRes
  | 0, fuel, queue, used, largest, acc => .continuing fuel queue used largest acc
  | n + 1, fuel, queue, used, largest, acc =>
    match bfsStep target biggest findAll fuel queue used largest acc with
    | .finished r => .finished r
    | .continuing fuel' queue' used' largest' acc' =>
        bfsRun target biggest findAll n fuel' queue' used' largest' acc'

/-- `bfsAux` performs one loop iteration and continues. -/
theorem bfsAux_step (target : ℚ) (biggest findAll : Bool) (fuel : Nat)
    (queue : List BState) (used : List (List Oper)) (largest : Option (List Oper))
    (acc : List (List Oper)) :
    bfsAux target biggest findAll fuel queue used largest acc =
      match bfsStep target biggest findAll fuel queue used largest acc with
      | .finished r => r
      | .continuing fuel' queue' used' largest' acc' =>
          bfsAux target biggest findAll fuel' queue' used' largest' acc' := by
  match fuel, queue with
  | fuel, [] => rw [bfsAux, bfsStep]
  | 0, s :: rest => rw [bfsAux, bfsStep]
  | fuel + 1, (soFar, numbers, path) :: rest =>
    rw [bfsAux, bfsStep]
    by_cases h : soFar = target
    · simp only [if_pos h]
      cases biggest
      · cases findAll
        · rfl
        · rfl
      · rfl
    · simp only [if_neg h]

/-- `bfsAux` performs `n` loop iterations and continues. -/
theorem bfsAux_run (target : ℚ) (biggest findAll : Bool) (n : Nat) :
    ∀ (fuel : Nat) (queue : List BState) (used : List (List Oper))
      (largest : Option (List Oper)) (acc : List (List Oper)),
      bfsAux target biggest findAll fuel queue used largest acc =
        match bfsRun target biggest findAll n fuel queue used largest acc with
        | .finished r => r
        | .continuing fuel' queue' used' largest' acc' =>
            bfsAux target biggest findAll fuel' queue' used' largest' acc' := by
  induction n with
  | zero => intro fuel queue used largest acc; rw [bfsRun]
  | succ m ih =>
    intro fuel queue used largest acc
    rw [bfsRun]
    rcases hS : bfsStep target biggest findAll fuel queue used largest acc with
      r | ⟨f', q', u', l', a'⟩
    · have h0 := bfsAux_step target biggest findAll fuel queue used largest acc
      rw [hS] at h0
      exact h0
    · have h0 := bfsAux_step target biggest findAll fuel queue used largest acc
      rw [hS] at h0
      have h1 : bfsAux target biggest findAll fuel queue used largest acc =
          bfsAux target biggest findAll f' q' u' l' a' := h0
      exact h1.trans (ih f' q' u' l' a')

/-- A finished `bfsRun` determines the value of `bfsAux`. -/
theorem bfsAux_run_finished {target : ℚ} {biggest findAll : Bool} {n fuel : Nat}
    {queue : List BState} {used : List (List Oper)} {largest : Option (List Oper)}
    {acc : List (List Oper)} {r : Option (List (List Oper))}
    (h : bfsRun target biggest findAll n fuel queue used largest acc = .finished r) :
    bfsAux target biggest findAll fuel queue used largest acc = r := by
  have h0 := bfsAux_run target biggest findAll n fuel queue used largest acc
  rw [h] at h0
  exact h0

/-- A continuing `bfsRun` carries `bfsAux` to the new configuration. -/
theorem bfsAux_run_continuing {target : ℚ} {biggest findAll : Bool} {n fuel : Nat}
    {queue : List BState} {used : List (List Oper)} {largest : Option (List Oper)}
    {acc : List (List Oper)} {fuel' : Nat} {queue' : List BState}
    {used' : List (List Oper)} {largest' : Option (List Oper)} {acc' : List (List Oper)}
    (h : bfsRun target biggest findAll n fuel queue used largest acc =
      .continuing fuel' queue' used' largest' acc') :
    bfsAux target biggest findAll fuel queue used largest acc =
      bfsAux target biggest findAll fuel' queue' used' largest' acc' := by
  have h0 := bfsAux_run target biggest findAll n fuel queue used largest acc
  rw [h] at h0
  exact h0

/-! ## Specification-side notions

The following definitions are not translations of the source; they
follow the wording of the specification and are used to compare the
program against it. -/

/-- Following the spec (§4.1): the global admissibility filter on a
candidate result `r` of operands `a`, `b`: non-negative, integral, and
different from both operands. -/
def specAdmissible (r a b : ℚ) : Bool :=
  decide (0 ≤ r) && qIsInt r && !(decide (r = a)) && !(decide (r = b))

/-- Both operands can be taken from the bag at distinct positions. -/
def specTakeable (a b : ℚ) (bag : List ℚ) : Bool :=
  bag.any (fun x => decide (x = a)) && (bag.erase a).any (fun x => decide (x = b))

/-- Following the spec: a valid operation sequence over a bag that
reaches the target: every operation combines two numbers of the
current bag, records their exact operator result, and replaces them by
it; every result before the last is admissible (§4.1), and the last
result equals the target. -/
def specValidSeq (bag : List ℚ) (target : ℚ) : List Oper → Bool
  | [] => false
  | [(a, op, b, r)] =>
    specTakeable a b bag && decide (op.apply a b = some r) && decide (r = target)
  | (a, op, b, r) :: rest =>
    specTakeable a b bag && decide (op.apply a b = some r) && specAdmissible r a b &&
      specValidSeq (((bag.erase a).erase b) ++ [r]) target rest

/-- Following the spec (§4.3): the unordered value pair `{a, b}` was
already attempted, i.e. some previously attempted ordered pair is
`(a, b)` or `(b, a)`. -/
def specUnorderedTried (a b : ℚ) (pairs : List (ℚ × ℚ)) : Bool :=
  pairs.any (fun p =>
    (decide (p.1 = a) && decide (p.2 = b)) || (decide (p.1 = b) && decide (p.2 = a)))

/-- Following the spec (§4.3): path `q` is equivalent to path `p` when
their operation multisets are identical, or identical up to swapping
the recorded operand order of a single commutative operation of `p`. -/
def specPathEquiv (q p : List Oper) : Prop :=
  (q : Multiset Oper) = (p : Multiset Oper) ∨
    ∃ o ∈ p, o.2.1.isAssoc = true ∧
      (q : Multiset Oper) = ((p : Multiset Oper).erase o) + {swapOper o}

/-! ## Claim theorems -/

/-- C2, counterexample: the DFS solver `solve` returns, for target
`-2` and selection `[1, 3]`, a solution whose (only) operation has the
negative result `-2`; so not every operation of a returned solution
has `result ≥ 0`. -/
theorem dfs_returns_negative_result :
    solve (-2) [1, 3] [] = some [((1 : ℚ), Op.sub, 3, -2)] ∧ ((-2 : ℚ) < 0) :=
  ⟨by rfl, by decide⟩

/-- C3, counterexample: in `--all` mode on target `6`, selection
`[5, 1, 1]`, the BFS solver returns a solution containing the
non-terminal operation `(5, *, 1, 5)` whose result `5` equals its
first operand; the result became a new number of the bag (it is the
operand of the following operation).  So the BFS solver does not
reject candidate results equal to an operand. -/
theorem bfs_admits_result_equal_to_operand :
    ((solve_bfs 6 [5, 1, 1] false true).getD []).contains
        [((5 : ℚ), Op.mul, 1, 5), ((1 : ℚ), Op.add, 5, 6)] = true ∧
      (((5 : ℚ), Op.mul, (1 : ℚ), (5 : ℚ)) : Oper).2.2.2 =
        (((5 : ℚ), Op.mul, (1 : ℚ), (5 : ℚ)) : Oper).1 :=
  ⟨by rfl, by rfl⟩

/-- C4, counterexample: for target `-2` and selection `[1, 3]` the
candidate `1 - 3` equals the target, and the DFS solver accepts it as
a terminal state, but the BFS solver filters it out (`subres <= 0`)
before ever comparing it with the target and returns no solution. -/
theorem bfs_rejects_target_equal_candidate :
    Op.apply Op.sub 1 3 = some (-2) ∧
      solve_bfs (-2) [1, 3] false false = none ∧
      solve (-2) [1, 3] [] = some [((1 : ℚ), Op.sub, 3, -2)] :=
  ⟨by decide, by rfl, by rfl⟩

/-- C6, counterexample: `remove_unused_results` is not idempotent: on
this three-operation path with target `10`, the first application
keeps the first operation (its result `3` is still an operand of the
second operation of the *original* list), and the second application
removes it. -/
theorem remove_unused_results_not_idempotent :
    remove_unused_results
        (remove_unused_results
          [((1 : ℚ), Op.add, 2, 3), ((3 : ℚ), Op.add, 10, 13), ((5 : ℚ), Op.add, 5, 10)] 10) 10 ≠
      remove_unused_results
        [((1 : ℚ), Op.add, 2, 3), ((3 : ℚ), Op.add, 10, 13), ((5 : ℚ), Op.add, 5, 10)] 10 := by
  decide

/-- C7, counterexample: `used_pair_already 2 2 [(2, 3)]` is true — the
pair `(2, 2)` is skipped — although the unordered pair `{2, 2}` was
never attempted (the only attempted pair is `(2, 3)`).  This arises in
`solve` at any choice point whose selection contains `2, 3, 2`. -/
theorem used_pair_already_over_matches :
    used_pair_already 2 2 [(2, 3)] = true ∧ specUnorderedTried 2 2 [(2, 3)] = false := by
  decide

/-- C9, counterexample: with target `0` (one of the source numbers of
the selection `[0, 1, 2, 3, 4, 5]`), the BFS solver returns the
zero-operation solution `[]`: the root queue entry carries the seed
value `0`, which is compared with the target before any operation is
attempted. -/
theorem bfs_returns_empty_solution :
    solve_bfs 0 [0, 1, 2, 3, 4, 5] false false = some [[]] := by rfl

/-- C10: for every selection, target `0` in `first` mode (no `-b`, no
`-a` flag) is answered by the single empty-path solution, because the
root queue entry is seeded with the value `0` and is dequeued before
any operation is attempted. -/
theorem bfs_target_zero_empty_path (selection : List ℚ) :
    solve_bfs 0 selection false false = some [[]] := by
  unfold solve_bfs
  obtain ⟨f, hf⟩ : ∃ f, bfsFuel selection = f + 1 := by
    have h0 : 0 < bfsFuel selection := pow_pos (by omega) _
    exact ⟨bfsFuel selection - 1, by omega⟩
  rw [hf]
  simp [bfsAux]

/-- C5, counterexample: with `A = (1, *, 1, 1)`, after the path `[A]`
has been seen (as happens at level 1 for the selection `[1, 1, 1]`),
the new path `[A, A]` is dropped by the dedup — its frozenset
collapses the duplicate and equals the seen fingerprint `{A}` — yet no
seen path is equivalent to `[A, A]` in the spec's sense: the multiset
`{A}` differs from `{A, A}`, with or without swapping one commutative
operation. -/
theorem bfs_dedup_drops_without_equivalent :
    dropTest [[((1 : ℚ), Op.mul, 1, 1)]] [((1 : ℚ), Op.mul, 1, 1)] ((1 : ℚ), Op.mul, 1, 1) = true ∧
      ¬ specPathEquiv [((1 : ℚ), Op.mul, 1, 1)]
          [((1 : ℚ), Op.mul, 1, 1), ((1 : ℚ), Op.mul, 1, 1)] := by
  constructor
  · decide
  · intro h
    rcases h with h | ⟨o, ho, _, h⟩
    · exact absurd (congrArg Multiset.card h) (by decide)
    · simp only [List.mem_cons, List.not_mem_nil, or_false] at ho
      rcases ho with rfl | rfl
      all_goals exact absurd (congrArg Multiset.card h) (by decide)

/-- Membership characterisation of the fingerprint comparison: two
paths have equal frozensets exactly when they have the same
elements. -/
theorem setEq_iff (p q : List Oper) :
    setEq p q = true ↔ ∀ x : Oper, (x ∈ p ↔ x ∈ q) := by
  unfold setEq
  simp only [Bool.and_eq_true, List.all_eq_true, List.any_eq_true,
    decide_eq_true_eq, exists_eq_right]
  constructor
  · rintro ⟨h1, h2⟩ x
    exact ⟨fun hx => h1 x hx, fun hx => h2 x hx⟩
  · intro h
    exact ⟨fun x hx => (h x).1 hx, fun x hx => (h x).2 hx⟩

/-- C5, amended: the dedup decision of the BFS solver drops the
extension of `path` by the operation `o` exactly when the element set
of the new path equals the element set of a previously seen path, or
`o` is commutative and the element set of the path extended with the
operand-swapped `o` equals the element set of a seen path. -/
theorem dropTest_characterisation (used : List (List Oper)) (path : List Oper) (o : Oper) :
    dropTest used path o = true ↔
      ((o.2.1.isAssoc = true ∧ ∃ q ∈ used, ∀ x : Oper, (x ∈ q ↔ x ∈ path ++ [swapOper o])) ∨
        ∃ q ∈ used, ∀ x : Oper, (x ∈ q ↔ x ∈ path ++ [o])) := by
  unfold dropTest pathSeen
  simp only [Bool.or_eq_true, Bool.and_eq_true, List.any_eq_true, setEq_iff]

/-- C6, amended: a second application of `remove_unused_results` can
only remove further operations: it yields a subsequence of the first
application's output (shown not to be the identity in general by the
non-idempotence counterexample). -/
theorem remove_unused_results_twice_sublist (operations : List Oper) (target : ℚ) :
    (remove_unused_results (remove_unused_results operations target) target).Sublist
      (remove_unused_results operations target) := by
  conv_lhs => unfold remove_unused_results
  exact List.filter_sublist _

/-- C7, amended: for two *distinct* operand values the skip test of
the DFS associativity pruning coincides with membership of the
unordered value pair among the attempted pairs; (the counterexample
shows the two sides differ when the operand values are equal). -/
theorem used_pair_already_iff_of_ne (a b : ℚ) (prevs : List (ℚ × ℚ)) (h : a ≠ b) :
    (used_pair_already a b prevs = true ↔ specUnorderedTried a b prevs = true) := by
  unfold used_pair_already specUnorderedTried pairMem
  simp only [List.any_eq_true, Bool.and_eq_true, Bool.or_eq_true, decide_eq_true_eq]
  constructor
  · rintro ⟨p, hp, ⟨ha | ha, hb | hb⟩⟩
    · exact absurd (ha.trans hb.symm) h
    · exact ⟨p, hp, Or.inl ⟨ha.symm, hb.symm⟩⟩
    · exact ⟨p, hp, Or.inr ⟨hb.symm, ha.symm⟩⟩
    · exact absurd (ha.trans hb.symm) h
  · rintro ⟨p, hp, ⟨ha, hb⟩ | ⟨ha, hb⟩⟩
    · exact ⟨p, hp, Or.inl ha.symm, Or.inr hb.symm⟩
    · exact ⟨p, hp, Or.inr hb.symm, Or.inl ha.symm⟩

/-- Witness for `used_pair_already_iff_of_ne` at `a = 2`, `b = 3`,
`prevs = [(3, 2)]`. -/
theorem used_pair_already_iff_of_ne_witness :
    (2 : ℚ) ≠ 3 ∧
      (used_pair_already 2 3 [(3, 2)] = true ↔ specUnorderedTried 2 3 [(3, 2)] = true) :=
  ⟨by decide, used_pair_already_iff_of_ne 2 3 [(3, 2)] (by decide)⟩

/-! ## DFS output invariants -/

/-- Invariant of every operation recorded in the `operations`
accumulator of `solve`: the stored result is the exact operator value
and passed the non-negativity and integrality checks of the filter. -/
def GoodAcc (o : Oper) : Prop :=
  o.2.1.apply o.1 o.2.2.1 = some o.2.2.2 ∧ 0 ≤ o.2.2.2 ∧ qIsInt o.2.2.2 = true

/-- Shape of every path returned by the DFS solver: all operations
record exact results which are either the target (the terminal
operation) or non-negative integral numbers, and the path ends with an
operation producing the target. -/
def DfsOut (target : ℚ) (p : List Oper) : Prop :=
  (∀ o ∈ p, o.2.1.apply o.1 o.2.2.1 = some o.2.2.2 ∧
    (o.2.2.2 = target ∨ (0 ≤ o.2.2.2 ∧ qIsInt o.2.2.2 = true))) ∧
  ∃ q o, p = q ++ [o] ∧ o.2.2.2 = target

/-- Filtering a list with an appended element the filter keeps splits
off that element. -/
theorem filter_append_of_last (p : Oper → Bool) (l : List Oper) (a : Oper)
    (h : p a = true) :
    ∃ q, List.filter p (l ++ [a]) = q ++ [a] ∧ ∀ x ∈ q, x ∈ l :=
  ⟨List.filter p l,
    by rw [List.filter_append]; simp [h],
    fun x hx => (List.mem_filter.mp hx).1⟩

/-- Pruning a path whose appended final operation produces the target
keeps that operation last and only keeps operations of the original
list in front of it. -/
theorem remove_unused_append_final (ops : List Oper) (lastOp : Oper) (target : ℚ)
    (h : lastOp.2.2.2 = target) :
    ∃ q, remove_unused_results (ops ++ [lastOp]) target = q ++ [lastOp] ∧
      ∀ o ∈ q, o ∈ ops := by
  unfold remove_unused_results
  exact filter_append_of_last _ ops lastOp (by simp [h])

/-- Every `some` value produced by the inner pair loop of `solve`
satisfies `DfsOut`, provided the accumulated operations satisfy
`GoodAcc` and the recursive call does the same. -/
theorem dfsPairLoop_out (recur : List ℚ → List Oper → Option (List Oper)) (target : ℚ)
    (selection : List ℚ) (operations : List Oper) (op : Op)
    (pairs used : List (ℚ × ℚ)) (r : List Oper)
    (hrec : ∀ sel' ops' r', (∀ o ∈ ops', GoodAcc o) → recur sel' ops' = some r' →
      DfsOut target r')
    (hops : ∀ o ∈ operations, GoodAcc o)
    (h : dfsPairLoop recur target selection operations op pairs used = some r) :
    DfsOut target r := by
  induction pairs generalizing used with
  | nil => simp [dfsPairLoop] at h
  | cons hd tl ih =>
    obtain ⟨num1, num2⟩ := hd
    rw [dfsPairLoop] at h
    split at h
    · exact ih _ h
    · split at h
      · exact ih _ h
      · rename_i result happly
        split at h
        · rename_i htarget
          obtain rfl : remove_unused_results (operations ++ [(num1, op, num2, result)]) target
              = r := Option.some.inj h
          obtain ⟨q, hq, hmem⟩ :=
            remove_unused_append_final operations (num1, op, num2, result) target htarget
          rw [hq]
          constructor
          · intro o ho
            rcases List.mem_append.mp ho with ho | ho
            · obtain ⟨h1, h2, h3⟩ := hops o (hmem o ho)
              exact ⟨h1, Or.inr ⟨h2, h3⟩⟩
            · obtain rfl := List.mem_singleton.mp ho
              exact ⟨happly, Or.inl htarget⟩
          · exact ⟨q, _, rfl, htarget⟩
        · split at h
          · exact ih _ h
          · rename_i hfilter
            push_neg at hfilter
            obtain ⟨hf1, hf2, _, _⟩ := hfilter
            split at h
            · rename_i sol hsol
              obtain rfl : sol = r := Option.some.inj h
              refine hrec _ _ _ ?_ hsol
              intro o ho
              rcases List.mem_append.mp ho with ho | ho
              · exact hops o ho
              · obtain rfl := List.mem_singleton.mp ho
                exact ⟨happly, hf1, hf2⟩
            · exact ih _ h

/-- Every `some` value produced by the operator loop of `solve`
satisfies `DfsOut`. -/
theorem dfsOpLoop_out (recur : List ℚ → List Oper → Option (List Oper)) (target : ℚ)
    (selection : List ℚ) (operations : List Oper) (ops : List Op) (r : List Oper)
    (hrec : ∀ sel' ops' r', (∀ o ∈ ops', GoodAcc o) → recur sel' ops' = some r' →
      DfsOut target r')
    (hops : ∀ o ∈ operations, GoodAcc o)
    (h : dfsOpLoop recur target selection operations ops = some r) :
    DfsOut target r := by
  induction ops with
  | nil => simp [dfsOpLoop] at h
  | cons hd tl ih =>
    rw [dfsOpLoop] at h
    split at h
    · rename_i sol hsol
      obtain rfl : sol = r := Option.some.inj h
      exact dfsPairLoop_out recur target selection operations hd _ _ _ hrec hops hsol
    · exact ih h

/-- Every `some` value produced by `solveAux` satisfies `DfsOut`. -/
theorem solveAux_out (fuel : Nat) (target : ℚ) :
    ∀ (selection : List ℚ) (operations r : List Oper),
      (∀ o ∈ operations, GoodAcc o) →
      solveAux fuel target selection operations = some r → DfsOut target r := by
  induction fuel with
  | zero => intro sel ops r _ h; simp [solveAux] at h
  | succ f ih =>
    intro sel ops r hops h
    rw [solveAux] at h
    split at h
    · simp at h
    · exact dfsOpLoop_out _ target sel ops OPS r
        (fun sel' ops' r' hops' h' => ih sel' ops' r' hops' h') hops h

/-! ## BFS invariants -/

/-- Invariant of every path stored by the BFS solver: each operation
records the exact operator value, which passed the positivity and
integrality filter. -/
def BfsPathOk (p : List Oper) : Prop :=
  ∀ o ∈ p, o.2.1.apply o.1 o.2.2.1 = some o.2.2.2 ∧ 0 < o.2.2.2 ∧ qIsInt o.2.2.2 = true

/-- Every state accumulated by the operator loop of the BFS expansion
is an input state or carries a filtered candidate appended to the
expanded path. -/
theorem bfsTryOps_mem (path : List Oper) (n1 n2 : ℚ) (nn : List ℚ) (ops : List Op) :
    ∀ (used : List (List Oper)) (acc : List BState) (s : BState),
      s ∈ (bfsTryOps path n1 n2 nn ops (used, acc)).2 →
      s ∈ acc ∨ ∃ op subres, Op.apply op n1 n2 = some subres ∧ 0 < subres ∧
        qIsInt subres = true ∧
        s = (subres, nn ++ [subres], path ++ [(n1, op, n2, subres)]) := by
  induction ops with
  | nil => intro used acc s hs; exact Or.inl hs
  | cons op ops ih =>
    intro used acc s hs
    rw [bfsTryOps] at hs
    split at hs
    · exact ih _ _ s hs
    · rename_i subres happly
      split at hs
      · exact ih _ _ s hs
      · rename_i hfilter
        push_neg at hfilter
        obtain ⟨hpos, hint⟩ := hfilter
        split at hs
        · exact ih _ _ s hs
        · rcases ih _ _ s hs with hmem | shape
          · rcases List.mem_append.mp hmem with hmem | hmem
            · exact Or.inl hmem
            · obtain rfl := List.mem_singleton.mp hmem
              exact Or.inr ⟨op, subres, happly, hpos, not_not.mp (by simpa using hint), rfl⟩
          · exact Or.inr shape

/-- Every state accumulated by the BFS expansion of one dequeued state
is an input state or extends the expanded path by one filtered
candidate operation. -/
theorem bfsExpand_mem (path : List Oper) (cands : List (ℚ × ℚ × List ℚ)) :
    ∀ (st : List (List Oper) × List BState) (s : BState),
      s ∈ (bfsExpand path cands st).2 →
      s ∈ st.2 ∨ ∃ a op b subres nn, Op.apply op a b = some subres ∧ 0 < subres ∧
        qIsInt subres = true ∧
        s = (subres, nn ++ [subres], path ++ [(a, op, b, subres)]) := by
  induction cands with
  | nil => intro st s hs; exact Or.inl hs
  | cons c cs ih =>
    obtain ⟨n1, n2, nn⟩ := c
    intro st s hs
    rw [bfsExpand] at hs
    rcases ih _ s hs with hmem | shape
    · obtain ⟨used, acc⟩ := st
      rcases bfsTryOps_mem path n1 n2 nn OPS used acc s hmem with h | ⟨op, subres, h1, h2, h3, h4⟩
      · exact Or.inl h
      · exact Or.inr ⟨n1, op, n2, subres, nn, h1, h2, h3, h4⟩
    · exact Or.inr shape

/-- Shape of every solution delivered by `bfsFinish`. -/
theorem bfsFinish_out (target : ℚ) (findAll : Bool) (largest : Option (List Oper))
    (acc sols : List (List Oper))
    (hl : ∀ p, largest = some p → BfsPathOk p ∧ (p = [] → target = 0))
    (hacc : ∀ p ∈ acc, BfsPathOk p ∧ (p = [] → target = 0))
    (h : bfsFinish findAll largest acc = some sols) :
    ∀ p ∈ sols, BfsPathOk p ∧ (p = [] → target = 0) := by
  unfold bfsFinish at h
  split at h
  · obtain rfl : acc = sols := Option.some.inj h
    exact hacc
  · cases largest with
    | none => exact Option.noConfusion h
    | some lp =>
      obtain rfl : [lp] = sols := Option.some.inj h
      intro p hp
      obtain rfl := List.mem_singleton.mp hp
      exact hl p rfl

/-- Every solution returned by the BFS loop consists of operations
recording exact, positive, integral results; and the only possibly
empty solution path is the root path, delivered when the target is
`0`. -/
theorem bfsAux_out (target : ℚ) (biggest findAll : Bool) :
    ∀ (fuel : Nat) (queue : List BState) (used : List (List Oper))
      (largest : Option (List Oper)) (acc sols : List (List Oper)),
      (∀ s ∈ queue, BfsPathOk s.2.2 ∧ (s.2.2 = [] → s.1 = 0)) →
      (∀ p, largest = some p → BfsPathOk p ∧ (p = [] → target = 0)) →
      (∀ p ∈ acc, BfsPathOk p ∧ (p = [] → target = 0)) →
      bfsAux target biggest findAll fuel queue used largest acc = some sols →
      ∀ p ∈ sols, BfsPathOk p ∧ (p = [] → target = 0) := by
  intro fuel
  induction fuel with
  | zero =>
    intro queue used largest acc sols hq hl hacc h
    cases queue with
    | nil => rw [bfsAux] at h; exact bfsFinish_out target findAll largest acc sols hl hacc h
    | cons s rest => rw [bfsAux] at h; exact bfsFinish_out target findAll largest acc sols hl hacc h
  | succ f ih =>
    intro queue used largest acc sols hq hl hacc h
    cases queue with
    | nil => rw [bfsAux] at h; exact bfsFinish_out target findAll largest acc sols hl hacc h
    | cons s rest =>
      obtain ⟨soFar, numbers, path⟩ := s
      have hhead := hq (soFar, numbers, path) (List.mem_cons_self _ _)
      have hrest : ∀ s ∈ rest, BfsPathOk s.2.2 ∧ (s.2.2 = [] → s.1 = 0) :=
        fun s hs => hq s (List.mem_cons_of_mem _ hs)
      rw [bfsAux] at h
      split at h
      · rename_i htgt
        split at h
        · refine ih rest used _ acc sols hrest ?_ hacc h
          intro p hp
          unfold updateLargest at hp
          split at hp
          · obtain rfl : path = p := Option.some.inj hp
            exact ⟨hhead.1, fun he => htgt ▸ (hhead.2 he).symm ▸ rfl⟩
          · exact hl p hp
        · split at h
          · refine ih rest used largest _ sols hrest hl ?_ h
            intro p hp
            rcases List.mem_append.mp hp with hp | hp
            · exact hacc p hp
            · obtain rfl := List.mem_singleton.mp hp
              exact ⟨hhead.1, fun he => htgt ▸ (hhead.2 he).symm ▸ rfl⟩
          · obtain rfl : [path] = sols := Option.some.inj h
            intro p hp
            obtain rfl := List.mem_singleton.mp hp
            exact ⟨hhead.1, fun he => htgt ▸ (hhead.2 he).symm ▸ rfl⟩
      · rcases hE : bfsExpand path (bfsCandidates numbers) (used, []) with ⟨used2, additions⟩
        rw [hE] at h
        refine ih (rest ++ additions) used2 largest acc sols ?_ hl hacc h
        intro s hs
        rcases List.mem_append.mp hs with hs | hs
        · exact hrest s hs
        · have hmem : s ∈ (bfsExpand path (bfsCandidates numbers) (used, [])).2 := by
            rw [hE]; exact hs
          rcases bfsExpand_mem path (bfsCandidates numbers) (used, []) s hmem with h0 | shape
          · exact absurd h0 (List.not_mem_nil s)
          · obtain ⟨a, op, b, subres, nn, h1, h2, h3, rfl⟩ := shape
            constructor
            · intro o ho
              rcases List.mem_append.mp ho with ho | ho
              · exact hhead.1 o ho
              · obtain rfl := List.mem_singleton.mp ho
                exact ⟨h1, h2, h3⟩
            · intro he
              exact absurd he (by simp)

/-- In `first` mode the BFS loop never answers a negative target: the
root value is `0`, every enqueued value passed the `subres <= 0`
filter, and no solution has been saved for the final fallback. -/
theorem bfsAux_neg_none (target : ℚ) (ht : target < 0) :
    ∀ (fuel : Nat) (queue : List BState) (used : List (List Oper))
      (acc : List (List Oper)),
      (∀ s ∈ queue, 0 ≤ s.1) →
      bfsAux target false false fuel queue used none acc = none := by
  intro fuel
  induction fuel with
  | zero =>
    intro queue used acc hq
    cases queue with
    | nil => rw [bfsAux]; rfl
    | cons s rest => rw [bfsAux]; rfl
  | succ f ih =>
    intro queue used acc hq
    cases queue with
    | nil => rw [bfsAux]; rfl
    | cons s rest =>
      obtain ⟨soFar, numbers, path⟩ := s
      rw [bfsAux]
      rw [if_neg (by
        intro he
        exact absurd (he ▸ hq (soFar, numbers, path) (List.mem_cons_self _ _)) (not_le.mpr ht))]
      rcases hE : bfsExpand path (bfsCandidates numbers) (used, []) with ⟨used2, additions⟩
      show bfsAux target false false f (rest ++ additions) used2 none acc = none
      refine ih (rest ++ additions) used2 acc ?_
      intro s hs
      rcases List.mem_append.mp hs with hs | hs
      · exact hq s (List.mem_cons_of_mem _ hs)
      · have hmem : s ∈ (bfsExpand path (bfsCandidates numbers) (used, [])).2 := by
          rw [hE]; exact hs
        rcases bfsExpand_mem path (bfsCandidates numbers) (used, []) s hmem with h0 | shape
        · exact absurd h0 (List.not_mem_nil s)
        · obtain ⟨a, op, b, subres, nn, _, h2, _, rfl⟩ := shape
          exact le_of_lt h2

/-- C2, amended: every operation of every returned solution records
the exact operator value.  For the BFS solver every result is moreover
positive and integral; for the DFS solver every result is either the
target itself (and the path ends in an operation producing the target)
or a non-negative integral intermediate value — so the original claim
holds in full whenever the target is a non-negative integer, but not
for (e.g.) negative targets passed to the DFS solver. -/
theorem returned_operations_exact :
    (∀ (target : ℚ) (selection : List ℚ) (biggest findAll : Bool) sols p o,
        solve_bfs target selection biggest findAll = some sols → p ∈ sols → o ∈ p →
        o.2.1.apply o.1 o.2.2.1 = some o.2.2.2 ∧ 0 < o.2.2.2 ∧ qIsInt o.2.2.2 = true) ∧
    (∀ (target : ℚ) (selection : List ℚ) r,
        solve target selection [] = some r →
        (∀ o ∈ r, o.2.1.apply o.1 o.2.2.1 = some o.2.2.2 ∧
          (o.2.2.2 = target ∨ (0 ≤ o.2.2.2 ∧ qIsInt o.2.2.2 = true))) ∧
        ∃ q o, r = q ++ [o] ∧ o.2.2.2 = target) := by
  constructor
  · intro target selection biggest findAll sols p o hsols hp ho
    refine (bfsAux_out target biggest findAll (bfsFuel selection) [(0, selection, [])] [] none []
      sols ?_ ?_ ?_ hsols p hp).1 o ho
    · intro s hs
      obtain rfl := List.mem_singleton.mp hs
      exact ⟨fun o ho => absurd ho (List.not_mem_nil o), fun _ => rfl⟩
    · intro p hp
      exact Option.noConfusion hp
    · intro p hp
      exact absurd hp (List.not_mem_nil p)
  · intro target selection r h
    exact solveAux_out selection.length target selection [] r
      (fun o ho => absurd ho (List.not_mem_nil o)) h

/-- Witness for `returned_operations_exact`: the BFS half at target
`5`, selection `[5, 1]`, and the DFS half at target `4`, selection
`[1, 3]`. -/
theorem returned_operations_exact_witness :
    (Op.apply Op.mul 5 1 = some 5 ∧ 0 < (5 : ℚ) ∧ qIsInt 5 = true) ∧
      ((∀ o ∈ [((1 : ℚ), Op.add, 3, 4)], o.2.1.apply o.1 o.2.2.1 = some o.2.2.2 ∧
          (o.2.2.2 = 4 ∨ (0 ≤ o.2.2.2 ∧ qIsInt o.2.2.2 = true))) ∧
        ∃ (q : List Oper) (o : Oper), [((1 : ℚ), Op.add, 3, 4)] = q ++ [o] ∧ o.2.2.2 = 4) :=
  ⟨returned_operations_exact.1 5 [5, 1] false false [[(5, Op.mul, 1, 5)]]
      [(5, Op.mul, 1, 5)] (5, Op.mul, 1, 5) (by rfl) (by simp) (by simp),
    returned_operations_exact.2 4 [1, 3] [(1, Op.add, 3, 4)] (by rfl)⟩

/-- C3, amended: the BFS solver subjects every candidate result only
to the positivity and integrality checks — every operation of every
returned solution has a positive integral result — and, unlike the
§4.1 filter, does not reject a result equal to an operand: on target
`6`, selection `[5, 1, 1]`, `--all` mode, a returned solution contains
`(5, *, 1, 5)` as a non-terminal operation. -/
theorem bfs_filter_positivity_integrality :
    (∀ (target : ℚ) (selection : List ℚ) (biggest findAll : Bool) sols p o,
        solve_bfs target selection biggest findAll = some sols → p ∈ sols → o ∈ p →
        0 < o.2.2.2 ∧ qIsInt o.2.2.2 = true) ∧
      ((solve_bfs 6 [5, 1, 1] false true).getD []).contains
        [((5 : ℚ), Op.mul, 1, 5), ((1 : ℚ), Op.add, 5, 6)] = true := by
  constructor
  · intro target selection biggest findAll sols p o hsols hp ho
    refine ((bfsAux_out target biggest findAll (bfsFuel selection) [(0, selection, [])] [] none []
      sols ?_ ?_ ?_ hsols p hp).1 o ho).2
    · intro s hs
      obtain rfl := List.mem_singleton.mp hs
      exact ⟨fun o ho => absurd ho (List.not_mem_nil o), fun _ => rfl⟩
    · intro p hp
      exact Option.noConfusion hp
    · intro p hp
      exact absurd hp (List.not_mem_nil p)
  · rfl

/-- Witness for `bfs_filter_positivity_integrality` at target `5`,
selection `[5, 1]`. -/
theorem bfs_filter_positivity_integrality_witness :
    0 < (5 : ℚ) ∧ qIsInt 5 = true :=
  bfs_filter_positivity_integrality.1 5 [5, 1] false false [[(5, Op.mul, 1, 5)]]
    [(5, Op.mul, 1, 5)] (5, Op.mul, 1, 5) (by rfl) (by simp) (by simp)

/-- C4, amended: in the DFS solver a computed candidate equal to the
target is returned at once, before the admissibility filter is ever
consulted; in the BFS solver the positivity/integrality filter runs
before enqueueing while the target comparison only happens on dequeued
states, so for a negative target the BFS solver returns no solution in
`first` mode even when some candidate equals the target. -/
theorem target_terminal_acceptance :
    (∀ (recur : List ℚ → List Oper → Option (List Oper)) (target : ℚ)
        (selection : List ℚ) (operations : List Oper) (op : Op) (num1 num2 : ℚ)
        (rest used : List (ℚ × ℚ)),
        (op.isAssoc && used_pair_already num1 num2 used) = false →
        op.apply num1 num2 = some target →
        dfsPairLoop recur target selection operations op ((num1, num2) :: rest) used =
          some (remove_unused_results (operations ++ [(num1, op, num2, target)]) target)) ∧
    (∀ (target : ℚ) (selection : List ℚ), target < 0 →
        solve_bfs target selection false false = none) := by
  constructor
  · intro recur target selection operations op num1 num2 rest used hskip happly
    rw [dfsPairLoop, if_neg (by simp [hskip]), happly]
    exact if_pos rfl
  · intro target selection ht
    unfold solve_bfs
    refine bfsAux_neg_none target ht (bfsFuel selection) [(0, selection, [])] [] [] ?_
    intro s hs
    obtain rfl := List.mem_singleton.mp hs
    exact le_refl 0

/-- Witness for `target_terminal_acceptance`: the DFS half with the
candidate `1 - 3` for target `-2`, the BFS half at target `-1`,
selection `[1, 2]`. -/
theorem target_terminal_acceptance_witness :
    dfsPairLoop (fun _ _ => none) (-2) [1, 3] [] Op.sub [(1, 3)] [] =
        some [((1 : ℚ), Op.sub, 3, -2)] ∧
      solve_bfs (-1) [1, 2] false false = none := by
  constructor
  · rw [target_terminal_acceptance.1 (fun _ _ => none) (-2) [1, 3] [] Op.sub 1 3 [] []
      (by rfl) (by decide)]
    rfl
  · exact target_terminal_acceptance.2 (-1) [1, 2] (by decide)

/-- C8: a division error never escapes either solver, it only skips
the single candidate: (1) DFS, division by zero; (2) DFS, non-exact
division against an integer target; (3) BFS, division by zero;
(4) BFS, non-exact division.  Each equation says the loop continues
over the remaining candidates exactly as if the failing candidate were
absent, and both solvers are total functions whose only failure value
is the explicit `none` / empty list. -/
theorem division_errors_skip_candidate :
    (∀ (recur : List ℚ → List Oper → Option (List Oper)) (target : ℚ)
        (selection : List ℚ) (operations : List Oper) (num1 : ℚ)
        (rest used : List (ℚ × ℚ)),
        dfsPairLoop recur target selection operations Op.div ((num1, 0) :: rest) used =
          dfsPairLoop recur target selection operations Op.div rest used) ∧
    (∀ (recur : List ℚ → List Oper → Option (List Oper)) (target : ℚ)
        (selection : List ℚ) (operations : List Oper) (num1 num2 : ℚ)
        (rest used : List (ℚ × ℚ)),
        num2 ≠ 0 → qIsInt (num1 / num2) = false → qIsInt target = true →
        dfsPairLoop recur target selection operations Op.div ((num1, num2) :: rest) used =
          dfsPairLoop recur target selection operations Op.div rest used) ∧
    (∀ (path : List Oper) (num1 : ℚ) (nn : List ℚ) (ops : List Op)
        (st : List (List Oper) × List BState),
        bfsTryOps path num1 0 nn (Op.div :: ops) st = bfsTryOps path num1 0 nn ops st) ∧
    (∀ (path : List Oper) (num1 num2 : ℚ) (nn : List ℚ) (ops : List Op)
        (st : List (List Oper) × List BState),
        num2 ≠ 0 → qIsInt (num1 / num2) = false →
        bfsTryOps path num1 num2 nn (Op.div :: ops) st = bfsTryOps path num1 num2 nn ops st) := by
  refine ⟨?_, ?_, ?_, ?_⟩
  · intro recur target selection operations num1 rest used
    rw [dfsPairLoop]
    simp [Op.isAssoc, Op.apply, dfsUsedNext]
  · intro recur target selection operations num1 num2 rest used hn2 hint htint
    have hne : num1 / num2 ≠ target := by
      intro he
      rw [he, htint] at hint
      exact absurd hint (by simp)
    rw [dfsPairLoop]
    simp [Op.isAssoc, Op.apply, dfsUsedNext, hn2, hne, hint]
  · intro path num1 nn ops st
    obtain ⟨used, acc⟩ := st
    rw [bfsTryOps]
    simp [Op.apply]
  · intro path num1 num2 nn ops st hn2 hint
    obtain ⟨used, acc⟩ := st
    rw [bfsTryOps]
    simp [Op.apply, hn2, hint]

/-- Witness for `division_errors_skip_candidate`: the two conditional
halves applied at `1 / 2` (non-exact) with integer target `5`. -/
theorem division_errors_skip_candidate_witness :
    dfsPairLoop (fun _ _ => none) 5 [1, 2] [] Op.div [(1, 2)] [] =
        dfsPairLoop (fun _ _ => none) 5 [1, 2] [] Op.div [] [] ∧
      bfsTryOps [] 1 2 [] [Op.div] ([], []) = bfsTryOps [] 1 2 [] [] ([], []) :=
  ⟨division_errors_skip_candidate.2.1 (fun _ _ => none) 5 [1, 2] [] 1 2 [] []
      (by decide) (by decide) (by decide),
    division_errors_skip_candidate.2.2.2 [] 1 2 [] [] ([], []) (by decide) (by decide)⟩

/-- C9, amended: a solution returned by the DFS solver always contains
at least one operation, and so does every solution returned by the BFS
solver for every non-zero target; only target `0` produces the
zero-operation solution of the counterexample. -/
theorem solutions_nonempty :
    (∀ (target : ℚ) (selection : List ℚ) (r : List Oper),
        solve target selection [] = some r → r ≠ []) ∧
    (∀ (target : ℚ) (selection : List ℚ) (biggest findAll : Bool) sols p,
        target ≠ 0 → solve_bfs target selection biggest findAll = some sols → p ∈ sols →
        p ≠ []) := by
  constructor
  · intro target selection r h
    obtain ⟨-, q, o, rfl, -⟩ :=
      solveAux_out selection.length target selection [] r
        (fun o ho => absurd ho (List.not_mem_nil o)) h
    simp
  · intro target selection biggest findAll sols p ht hsols hp he
    refine ht ?_
    refine (bfsAux_out target biggest findAll (bfsFuel selection) [(0, selection, [])] [] none []
      sols ?_ ?_ ?_ hsols p hp).2 he
    · intro s hs
      obtain rfl := List.mem_singleton.mp hs
      exact ⟨fun o ho => absurd ho (List.not_mem_nil o), fun _ => rfl⟩
    · intro p hp
      exact Option.noConfusion hp
    · intro p hp
      exact absurd hp (List.not_mem_nil p)

/-- Witness for `solutions_nonempty`: the DFS half at target `4`,
selection `[1, 3]`, the BFS half at target `6`, selection `[5, 1]`. -/
theorem solutions_nonempty_witness :
    [((1 : ℚ), Op.add, 3, 4)] ≠ ([] : List Oper) ∧
      [((5 : ℚ), Op.add, 1, 6)] ≠ ([] : List Oper) :=
  ⟨solutions_nonempty.1 4 [1, 3] [(1, Op.add, 3, 4)] (by rfl),
    solutions_nonempty.2 6 [5, 1] false false [[(5, Op.add, 1, 6)]] [(5, Op.add, 1, 6)]
      (by decide) (by rfl) (by simp)⟩

/-! ## BFS level order -/

/-- The number of operations of a queued state's path. -/
def stLen (s : BState) : Nat := s.2.2.length

/-- Every state added by the expansion of a dequeued state extends its
path by exactly one operation. -/
theorem bfsExpand_additions_len (path : List Oper) (numbers : List ℚ)
    (used : List (List Oper)) (s : BState)
    (hs : s ∈ (bfsExpand path (bfsCandidates numbers) (used, [])).2) :
    stLen s = path.length + 1 := by
  rcases bfsExpand_mem path (bfsCandidates numbers) (used, []) s hs with h0 | shape
  · exact absurd h0 (List.not_mem_nil s)
  · obtain ⟨a, op, b, subres, nn, _, _, _, rfl⟩ := shape
    simp [stLen]

/-- The queue invariant of the level-order traversal: path lengths are
non-decreasing along the queue, and any two queued path lengths differ
by at most one. -/
def QInv (queue : List BState) : Prop :=
  (queue.map stLen).Pairwise (· ≤ ·) ∧
    ∀ a ∈ queue, ∀ b ∈ queue, stLen a ≤ stLen b + 1

/-- A list is pairwise related when the relation holds for all element
pairs. -/
theorem pairwise_of_forall_mem {α : Type} (R : α → α → Prop) (l : List α)
    (h : ∀ a ∈ l, ∀ b ∈ l, R a b) : l.Pairwise R := by
  induction l with
  | nil => exact List.Pairwise.nil
  | cons x xs ih =>
    exact List.Pairwise.cons (fun b hb => h x (by simp) b (by simp [hb]))
      (ih fun a ha b hb => h a (by simp [ha]) b (by simp [hb]))

/-- In a queue satisfying `QInv`, the head has minimal path length. -/
theorem QInv_head_min (head : BState) (rest : List BState) (hQ : QInv (head :: rest)) :
    ∀ s ∈ rest, stLen head ≤ stLen s := by
  intro s hs
  have := hQ.1
  rw [List.map_cons] at this
  exact List.rel_of_pairwise_cons this (List.mem_map_of_mem stLen hs)

/-- Dequeuing the head and appending its children (whose paths are one
operation longer) preserves the queue invariant. -/
theorem QInv_step (head : BState) (rest additions : List BState)
    (hQ : QInv (head :: rest))
    (hadd : ∀ s ∈ additions, stLen s = stLen head + 1) :
    QInv (rest ++ additions) := by
  have hmin := QInv_head_min head rest hQ
  have hband : ∀ a ∈ head :: rest, ∀ b ∈ head :: rest, stLen a ≤ stLen b + 1 := hQ.2
  constructor
  · rw [List.map_append]
    refine List.pairwise_append.mpr ⟨?_, ?_, ?_⟩
    · have := hQ.1
      rw [List.map_cons] at this
      exact this.of_cons
    · refine (List.pairwise_map).mpr (pairwise_of_forall_mem _ _ ?_)
      intro a ha b hb
      rw [hadd a ha, hadd b hb]
    · intro a ha b hb
      obtain ⟨sa, hsa, rfl⟩ := List.mem_map.mp ha
      obtain ⟨sb, hsb, rfl⟩ := List.mem_map.mp hb
      rw [hadd sb hsb]
      exact hband sa (List.mem_cons_of_mem _ hsa) head (List.mem_cons_self _ _)
  · intro a ha b hb
    rcases List.mem_append.mp ha with ha | ha
    · rcases List.mem_append.mp hb with hb | hb
      · exact hband a (List.mem_cons_of_mem _ ha) b (List.mem_cons_of_mem _ hb)
      · rw [hadd b hb]
        have := hband a (List.mem_cons_of_mem _ ha) head (List.mem_cons_self _ _)
        omega
    · rcases List.mem_append.mp hb with hb | hb
      · rw [hadd a ha]
        have := hmin b hb
        omega
      · rw [hadd a ha, hadd b hb]
        omega

/-- Every solution recorded by the `--all` BFS loop beyond the ones
already accumulated has at least the path length of some state of the
current queue. -/
theorem bfsAux_all_lower_bound (target : ℚ) :
    ∀ (fuel : Nat) (queue : List BState) (used : List (List Oper))
      (largest : Option (List Oper)) (acc sols : List (List Oper)),
      bfsAux target false true fuel queue used largest acc = some sols →
      ∃ ext, sols = acc ++ ext ∧ ∀ p ∈ ext, ∃ s ∈ queue, stLen s ≤ p.length := by
  intro fuel
  induction fuel with
  | zero =>
    intro queue used largest acc sols h
    cases queue with
    | nil =>
      rw [bfsAux] at h
      obtain rfl : acc = sols := Option.some.inj h
      exact ⟨[], by simp, by simp⟩
    | cons s rest =>
      rw [bfsAux] at h
      obtain rfl : acc = sols := Option.some.inj h
      exact ⟨[], by simp, by simp⟩
  | succ f ih =>
    intro queue used largest acc sols h
    cases queue with
    | nil =>
      rw [bfsAux] at h
      obtain rfl : acc = sols := Option.some.inj h
      exact ⟨[], by simp, by simp⟩
    | cons s rest =>
      obtain ⟨soFar, numbers, path⟩ := s
      rw [bfsAux] at h
      split at h
      · simp only [Bool.false_eq_true, if_false, if_true] at h
        obtain ⟨ext, rfl, hext⟩ := ih rest used largest (acc ++ [path]) sols h
        refine ⟨path :: ext, by simp, ?_⟩
        intro p hp
        rcases List.mem_cons.mp hp with hp | hp
        · refine ⟨(soFar, numbers, path), List.mem_cons_self _ _, ?_⟩
          rw [hp]
          exact le_refl _
        · obtain ⟨s, hs, hle⟩ := hext p hp
          exact ⟨s, List.mem_cons_of_mem _ hs, hle⟩
      · rcases hE : bfsExpand path (bfsCandidates numbers) (used, []) with ⟨used2, additions⟩
        rw [hE] at h
        obtain ⟨ext, rfl, hext⟩ := ih (rest ++ additions) used2 largest acc sols h
        refine ⟨ext, rfl, ?_⟩
        intro p hp
        obtain ⟨s, hs, hle⟩ := hext p hp
        rcases List.mem_append.mp hs with hs | hs
        · exact ⟨s, List.mem_cons_of_mem _ hs, hle⟩
        · have hlen : stLen s = path.length + 1 := by
            refine bfsExpand_additions_len path numbers used s ?_
            rw [hE]; exact hs
          refine ⟨(soFar, numbers, path), List.mem_cons_self _ _, ?_⟩
          have : stLen (soFar, numbers, path) = path.length := rfl
          omega

/-- When the `first`-mode BFS loop returns the solution `p`, every
solution the `--all` loop collects beyond its accumulator from the
same queue is at least as long as `p`. -/
theorem bfsAux_first_vs_all (target : ℚ) :
    ∀ (fuel : Nat) (queue : List BState) (used : List (List Oper))
      (acc sols : List (List Oper)) (p : List Oper),
      QInv queue →
      bfsAux target false false fuel queue used none [] = some [p] →
      bfsAux target false true fuel queue used none acc = some sols →
      ∀ q ∈ sols, q ∈ acc ∨ p.length ≤ q.length := by
  intro fuel
  induction fuel with
  | zero =>
    intro queue used acc sols p hQ h1 h2
    cases queue with
    | nil => rw [bfsAux] at h1; exact Option.noConfusion h1
    | cons s rest => rw [bfsAux] at h1; exact Option.noConfusion h1
  | succ f ih =>
    intro queue used acc sols p hQ h1 h2
    cases queue with
    | nil => rw [bfsAux] at h1; exact Option.noConfusion h1
    | cons s rest =>
      obtain ⟨soFar, numbers, path⟩ := s
      rw [bfsAux] at h1 h2
      by_cases htgt : soFar = target
      · rw [if_pos htgt] at h1 h2
        simp only [Bool.false_eq_true, if_false, if_true] at h1 h2
        have hpp : path = p := by
          have := Option.some.inj h1
          exact (List.cons.injEq _ _ _ _).mp this |>.1
        obtain ⟨ext, rfl, hext⟩ := bfsAux_all_lower_bound target f rest used none
          (acc ++ [path]) sols h2
        intro q hq
        rcases List.mem_append.mp hq with hq | hq
        · rcases List.mem_append.mp hq with hq | hq
          · exact Or.inl hq
          · obtain rfl := List.mem_singleton.mp hq
            exact Or.inr (by rw [hpp])
        · obtain ⟨s, hs, hle⟩ := hext q hq
          refine Or.inr (le_trans ?_ hle)
          rw [← hpp]
          exact QInv_head_min (soFar, numbers, path) rest hQ s hs
      · rw [if_neg htgt] at h1 h2
        rcases hE : bfsExpand path (bfsCandidates numbers) (used, []) with ⟨used2, additions⟩
        rw [hE] at h1 h2
        refine ih (rest ++ additions) used2 acc sols p ?_ h1 h2
        refine QInv_step (soFar, numbers, path) rest additions hQ ?_
        intro s hs
        have : s ∈ (bfsExpand path (bfsCandidates numbers) (used, [])).2 := by
          rw [hE]; exact hs
        exact bfsExpand_additions_len path numbers used s this

/-- C1, amended: the `first`-mode BFS solution is the shortest among
the solutions the BFS traversal itself discovers: it is no longer than
any solution returned by the same solver in `--all` mode.  (It need
not be globally minimal over all valid operation sequences — see the
counterexample — because the path-set dedup can exclude every shortest
sequence.) -/
theorem bfs_first_minimal_among_found (target : ℚ) (selection : List ℚ)
    (p : List Oper) (sols : List (List Oper))
    (h1 : solve_bfs target selection false false = some [p])
    (h2 : solve_bfs target selection false true = some sols) :
    ∀ q ∈ sols, p.length ≤ q.length := by
  have hQ : QInv [(0, selection, [])] := by
    constructor
    · exact List.pairwise_singleton _ _
    · intro a ha b hb
      obtain rfl := List.mem_singleton.mp ha
      obtain rfl := List.mem_singleton.mp hb
      exact Nat.le_succ _
  intro q hq
  rcases bfsAux_first_vs_all target (bfsFuel selection) [(0, selection, [])] [] [] sols p
      hQ h1 h2 q hq with h | h
  · exact absurd h (List.not_mem_nil q)
  · exact h

/-- Witness for `bfs_first_minimal_among_found` at target `2`,
selection `[1, 1, 1]`: the `first` solution (one operation) is no
longer than the two-operation solution of the `--all` run. -/
theorem bfs_first_minimal_among_found_witness :
    ([((1 : ℚ), Op.add, 1, 2)] : List Oper).length ≤
      ([((1 : ℚ), Op.mul, 1, 1), ((1 : ℚ), Op.add, 1, 2)] : List Oper).length :=
  bfs_first_minimal_among_found 2 [1, 1, 1] [(1, Op.add, 1, 2)]
    [[(1, Op.add, 1, 2)], [(1, Op.mul, 1, 1), (1, Op.add, 1, 2)],
      [(1, Op.div, 1, 1), (1, Op.add, 1, 2)]]
    (by rfl) (by rfl) [(1, Op.mul, 1, 1), (1, Op.add, 1, 2)] (by simp)

/-! ## A concrete trace of the BFS loop on six ones, target 6

The run of `solve_bfs 6 [1, 1, 1, 1, 1, 1] false false` takes 130
iterations of the `while queue:` loop.  The definitions below record
its configuration every 10 iterations and the `bfsTrace` lemmas check
each stretch of 10 iterations with `bfsRun`. -/

/-- Queue contents of the breadth-first loop on selection [1, 1, 1, 1, 1, 1], target 6, after 10 iterations. -/
def traceQ1 : List BState :=
  [(qOfNat 1, [qOfNat 1, qOfNat 1, qOfNat 1, qOfNat 1], [(qOfNat 1, Op.mul, qOfNat 1, qOfNat 1), (qOfNat 1, Op.div, qOfNat 1, qOfNat 1)]), (qOfNat 1, [qOfNat 2, qOfNat 1, qOfNat 1], [(qOfNat 1, Op.add, qOfNat 1, qOfNat 2), (qOfNat 1, Op.mul, qOfNat 1, qOfNat 1), (qOfNat 1, Op.div, qOfNat 1, qOfNat 1)]), (qOfNat 3, [qOfNat 1, qOfNat 1, qOfNat 3], [(qOfNat 1, Op.add, qOfNat 1, qOfNat 2), (qOfNat 1, Op.mul, qOfNat 1, qOfNat 1), (qOfNat 1, Op.add, qOfNat 2, qOfNat 3)]), (qOfNat 2, [qOfNat 1, qOfNat 1, qOfNat 2], [(qOfNat 1, Op.add, qOfNat 1, qOfNat 2), (qOfNat 1, Op.mul, qOfNat 1, qOfNat 1), (qOfNat 1, Op.mul, qOfNat 2, qOfNat 2)]), (qOfNat 1, [qOfNat 1, qOfNat 1, qOfNat 1], [(qOfNat 1, Op.add, qOfNat 1, qOfNat 2), (qOfNat 1, Op.mul, qOfNat 1, qOfNat 1), (qOfNat 2, Op.sub, qOfNat 1, qOfNat 1)]), (qOfNat 2, [qOfNat 1, qOfNat 1, qOfNat 2], [(qOfNat 1, Op.add, qOfNat 1, qOfNat 2), (qOfNat 1, Op.mul, qOfNat 1, qOfNat 1), (qOfNat 2, Op.div, qOfNat 1, qOfNat 2)]), (qOfNat 3, [qOfNat 1, qOfNat 1, qOfNat 3], [(qOfNat 1, Op.add, qOfNat 1, qOfNat 2), (qOfNat 1, Op.div, qOfNat 1, qOfNat 1), (qOfNat 1, Op.add, qOfNat 2, qOfNat 3)]), (qOfNat 2, [qOfNat 1, qOfNat 1, qOfNat 2], [(qOfNat 1, Op.add, qOfNat 1, qOfNat 2), (qOfNat 1, Op.div, qOfNat 1, qOfNat 1), (qOfNat 1, Op.mul, qOfNat 2, qOfNat 2)]), (qOfNat 1, [qOfNat 1, qOfNat 1, qOfNat 1], [(qOfNat 1, Op.add, qOfNat 1, qOfNat 2), (qOfNat 1, Op.div, qOfNat 1, qOfNat 1), (qOfNat 2, Op.sub, qOfNat 1, qOfNat 1)]), (qOfNat 2, [qOfNat 1, qOfNat 1, qOfNat 2], [(qOfNat 1, Op.add, qOfNat 1, qOfNat 2), (qOfNat 1, Op.div, qOfNat 1, qOfNat 1), (qOfNat 2, Op.div, qOfNat 1, qOfNat 2)]), (qOfNat 4, [qOfNat 1, qOfNat 1, qOfNat 4], [(qOfNat 1, Op.add, qOfNat 1, qOfNat 2), (qOfNat 1, Op.add, qOfNat 2, qOfNat 3), (qOfNat 1, Op.add, qOfNat 3, qOfNat 4)]), (qOfNat 3, [qOfNat 1, qOfNat 1, qOfNat 3], [(qOfNat 1, Op.add, qOfNat 1, qOfNat 2), (qOfNat 1, Op.add, qOfNat 2, qOfNat 3), (qOfNat 1, Op.mul, qOfNat 3, qOfNat 3)]), (qOfNat 2, [qOfNat 1, qOfNat 1, qOfNat 2], [(qOfNat 1, Op.add, qOfNat 1, qOfNat 2), (qOfNat 1, Op.add, qOfNat 2, qOfNat 3), (qOfNat 3, Op.sub, qOfNat 1, qOfNat 2)]), (qOfNat 3, [qOfNat 1, qOfNat 1, qOfNat 3], [(qOfNat 1, Op.add, qOfNat 1, qOfNat 2), (qOfNat 1, Op.add, qOfNat 2, qOfNat 3), (qOfNat 3, Op.div, qOfNat 1, qOfNat 3)]), (qOfNat 3, [qOfNat 1, qOfNat 1, qOfNat 3], [(qOfNat 1, Op.add, qOfNat 1, qOfNat 2), (qOfNat 1, Op.mul, qOfNat 2, qOfNat 2), (qOfNat 1, Op.add, qOfNat 2, qOfNat 3)]), (qOfNat 1, [qOfNat 1, qOfNat 1, qOfNat 1], [(qOfNat 1, Op.add, qOfNat 1, qOfNat 2), (qOfNat 1, Op.mul, qOfNat 2, qOfNat 2), (qOfNat 2, Op.sub, qOfNat 1, qOfNat 1)]), (qOfNat 2, [qOfNat 1, qOfNat 1, qOfNat 2], [(qOfNat 1, Op.add, qOfNat 1, qOfNat 2), (qOfNat 1, Op.mul, qOfNat 2, qOfNat 2), (qOfNat 2, Op.div, qOfNat 1, qOfNat 2)]), (qOfNat 3, [qOfNat 1, qOfNat 1, qOfNat 3], [(qOfNat 1, Op.add, qOfNat 1, qOfNat 2), (qOfNat 2, Op.div, qOfNat 1, qOfNat 2), (qOfNat 1, Op.add, qOfNat 2, qOfNat 3)]), (qOfNat 1, [qOfNat 1, qOfNat 1, qOfNat 1], [(qOfNat 1, Op.add, qOfNat 1, qOfNat 2), (qOfNat 2, Op.div, qOfNat 1, qOfNat 2), (qOfNat 2, Op.sub, qOfNat 1, qOfNat 1)])]

/-- Seen path fingerprints of the same run after 10 iterations. -/
def traceU1 : List (List Oper) :=
  [[(qOfNat 1, Op.add, qOfNat 1, qOfNat 2)], [(qOfNat 1, Op.mul, qOfNat 1, qOfNat 1)], [(qOfNat 1, Op.div, qOfNat 1, qOfNat 1)], [(qOfNat 1, Op.add, qOfNat 1, qOfNat 2), (qOfNat 1, Op.mul, qOfNat 1, qOfNat 1)], [(qOfNat 1, Op.add, qOfNat 1, qOfNat 2), (qOfNat 1, Op.div, qOfNat 1, qOfNat 1)], [(qOfNat 1, Op.add, qOfNat 1, qOfNat 2), (qOfNat 1, Op.add, qOfNat 2, qOfNat 3)], [(qOfNat 1, Op.add, qOfNat 1, qOfNat 2), (qOfNat 1, Op.mul, qOfNat 2, qOfNat 2)], [(qOfNat 1, Op.add, qOfNat 1, qOfNat 2), (qOfNat 2, Op.sub, qOfNat 1, qOfNat 1)], [(qOfNat 1, Op.add, qOfNat 1, qOfNat 2), (qOfNat 2, Op.div, qOfNat 1, qOfNat 2)], [(qOfNat 1, Op.mul, qOfNat 1, qOfNat 1), (qOfNat 1, Op.div, qOfNat 1, qOfNat 1)], [(qOfNat 1, Op.add, qOfNat 1, qOfNat 2), (qOfNat 1, Op.mul, qOfNat 1, qOfNat 1), (qOfNat 1, Op.div, qOfNat 1, qOfNat 1)], [(qOfNat 1, Op.add, qOfNat 1, qOfNat 2), (qOfNat 1, Op.mul, qOfNat 1, qOfNat 1), (qOfNat 1, Op.add, qOfNat 2, qOfNat 3)], [(qOfNat 1, Op.add, qOfNat 1, qOfNat 2), (qOfNat 1, Op.mul, qOfNat 1, qOfNat 1), (qOfNat 1, Op.mul, qOfNat 2, qOfNat 2)], [(qOfNat 1, Op.add, qOfNat 1, qOfNat 2), (qOfNat 1, Op.mul, qOfNat 1, qOfNat 1), (qOfNat 2, Op.sub, qOfNat 1, qOfNat 1)], [(qOfNat 1, Op.add, qOfNat 1, qOfNat 2), (qOfNat 1, Op.mul, qOfNat 1, qOfNat 1), (qOfNat 2, Op.div, qOfNat 1, qOfNat 2)], [(qOfNat 1, Op.add, qOfNat 1, qOfNat 2), (qOfNat 1, Op.div, qOfNat 1, qOfNat 1), (qOfNat 1, Op.add, qOfNat 2, qOfNat 3)], [(qOfNat 1, Op.add, qOfNat 1, qOfNat 2), (qOfNat 1, Op.div, qOfNat 1, qOfNat 1), (qOfNat 1, Op.mul, qOfNat 2, qOfNat 2)], [(qOfNat 1, Op.add, qOfNat 1, qOfNat 2), (qOfNat 1, Op.div, qOfNat 1, qOfNat 1), (qOfNat 2, Op.sub, qOfNat 1, qOfNat 1)], [(qOfNat 1, Op.add, qOfNat 1, qOfNat 2), (qOfNat 1, Op.div, qOfNat 1, qOfNat 1), (qOfNat 2, Op.div, qOfNat 1, qOfNat 2)], [(qOfNat 1, Op.add, qOfNat 1, qOfNat 2), (qOfNat 1, Op.add, qOfNat 2, qOfNat 3), (qOfNat 1, Op.add, qOfNat 3, qOfNat 4)], [(qOfNat 1, Op.add, qOfNat 1, qOfNat 2), (qOfNat 1, Op.add, qOfNat 2, qOfNat 3), (qOfNat 1, Op.mul, qOfNat 3, qOfNat 3)], [(qOfNat 1, Op.add, qOfNat 1, qOfNat 2), (qOfNat 1, Op.add, qOfNat 2, qOfNat 3), (qOfNat 3, Op.sub, qOfNat 1, qOfNat 2)], [(qOfNat 1, Op.add, qOfNat 1, qOfNat 2), (qOfNat 1, Op.add, qOfNat 2, qOfNat 3), (qOfNat 3, Op.div, qOfNat 1, qOfNat 3)], [(qOfNat 1, Op.add, qOfNat 1, qOfNat 2), (qOfNat 1, Op.mul, qOfNat 2, qOfNat 2), (qOfNat 1, Op.add, qOfNat 2, qOfNat 3)], [(qOfNat 1, Op.add, qOfNat 1, qOfNat 2), (qOfNat 1, Op.mul, qOfNat 2, qOfNat 2), (qOfNat 2, Op.sub, qOfNat 1, qOfNat 1)], [(qOfNat 1, Op.add, qOfNat 1, qOfNat 2), (qOfNat 1, Op.mul, qOfNat 2, qOfNat 2), (qOfNat 2, Op.div, qOfNat 1, qOfNat 2)], [(qOfNat 1, Op.add, qOfNat 1, qOfNat 2), (qOfNat 2, Op.div, qOfNat 1, qOfNat 2), (qOfNat 1, Op.add, qOfNat 2, qOfNat 3)], [(qOfNat 1, Op.add, qOfNat 1, qOfNat 2), (qOfNat 2, Op.div, qOfNat 1, qOfNat 2), (qOfNat 2, Op.sub, qOfNat 1, qOfNat 1)]]
/-- Queue contents of the breadth-first loop on selection [1, 1, 1, 1, 1, 1], target 6, after 20 iterations. -/
def traceQ2 : List BState :=
  [(qOfNat 4, [qOfNat 1, qOfNat 1, qOfNat 4], [(qOfNat 1, Op.add, qOfNat 1, qOfNat 2), (qOfNat 1, Op.add, qOfNat 2, qOfNat 3), (qOfNat 1, Op.add, qOfNat 3, qOfNat 4)]), (qOfNat 3, [qOfNat 1, qOfNat 1, qOfNat 3], [(qOfNat 1, Op.add, qOfNat 1, qOfNat 2), (qOfNat 1, Op.add, qOfNat 2, qOfNat 3), (qOfNat 1, Op.mul, qOfNat 3, qOfNat 3)]), (qOfNat 2, [qOfNat 1, qOfNat 1, qOfNat 2], [(qOfNat 1, Op.add, qOfNat 1, qOfNat 2), (qOfNat 1, Op.add, qOfNat 2, qOfNat 3), (qOfNat 3, Op.sub, qOfNat 1, qOfNat 2)]), (qOfNat 3, [qOfNat 1, qOfNat 1, qOfNat 3], [(qOfNat 1, Op.add, qOfNat 1, qOfNat 2), (qOfNat 1, Op.add, qOfNat 2, qOfNat 3), (qOfNat 3, Op.div, qOfNat 1, qOfNat 3)]), (qOfNat 3, [qOfNat 1, qOfNat 1, qOfNat 3], [(qOfNat 1, Op.add, qOfNat 1, qOfNat 2), (qOfNat 1, Op.mul, qOfNat 2, qOfNat 2), (qOfNat 1, Op.add, qOfNat 2, qOfNat 3)]), (qOfNat 1, [qOfNat 1, qOfNat 1, qOfNat 1], [(qOfNat 1, Op.add, qOfNat 1, qOfNat 2), (qOfNat 1, Op.mul, qOfNat 2, qOfNat 2), (qOfNat 2, Op.sub, qOfNat 1, qOfNat 1)]), (qOfNat 2, [qOfNat 1, qOfNat 1, qOfNat 2], [(qOfNat 1, Op.add, qOfNat 1, qOfNat 2), (qOfNat 1, Op.mul, qOfNat 2, qOfNat 2), (qOfNat 2, Op.div, qOfNat 1, qOfNat 2)]), (qOfNat 3, [qOfNat 1, qOfNat 1, qOfNat 3], [(qOfNat 1, Op.add, qOfNat 1, qOfNat 2), (qOfNat 2, Op.div, qOfNat 1, qOfNat 2), (qOfNat 1, Op.add, qOfNat 2, qOfNat 3)]), (qOfNat 1, [qOfNat 1, qOfNat 1, qOfNat 1], [(qOfNat 1, Op.add, qOfNat 1, qOfNat 2), (qOfNat 2, Op.div, qOfNat 1, qOfNat 2), (qOfNat 2, Op.sub, qOfNat 1, qOfNat 1)]), (qOfNat 3, [qOfNat 1, qOfNat 3], [(qOfNat 1, Op.add, qOfNat 1, qOfNat 2), (qOfNat 1, Op.mul, qOfNat 1, qOfNat 1), (qOfNat 1, Op.div, qOfNat 1, qOfNat 1), (qOfNat 2, Op.add, qOfNat 1, qOfNat 3)]), (qOfNat 1, [qOfNat 1, qOfNat 1], [(qOfNat 1, Op.add, qOfNat 1, qOfNat 2), (qOfNat 1, Op.mul, qOfNat 1, qOfNat 1), (qOfNat 1, Op.div, qOfNat 1, qOfNat 1), (qOfNat 2, Op.sub, qOfNat 1, qOfNat 1)]), (qOfNat 2, [qOfNat 1, qOfNat 2], [(qOfNat 1, Op.add, qOfNat 1, qOfNat 2), (qOfNat 1, Op.mul, qOfNat 1, qOfNat 1), (qOfNat 1, Op.div, qOfNat 1, qOfNat 1), (qOfNat 2, Op.mul, qOfNat 1, qOfNat 2)]), (qOfNat 2, [qOfNat 1, qOfNat 2], [(qOfNat 1, Op.add, qOfNat 1, qOfNat 2), (qOfNat 1, Op.mul, qOfNat 1, qOfNat 1), (qOfNat 1, Op.div, qOfNat 1, qOfNat 1), (qOfNat 2, Op.div, qOfNat 1, qOfNat 2)]), (qOfNat 1, [qOfNat 3, qOfNat 1], [(qOfNat 1, Op.add, qOfNat 1, qOfNat 2), (qOfNat 1, Op.mul, qOfNat 1, qOfNat 1), (qOfNat 1, Op.add, qOfNat 2, qOfNat 3), (qOfNat 1, Op.div, qOfNat 1, qOfNat 1)]), (qOfNat 4, [qOfNat 1, qOfNat 4], [(qOfNat 1, Op.add, qOfNat 1, qOfNat 2), (qOfNat 1, Op.mul, qOfNat 1, qOfNat 1), (qOfNat 1, Op.add, qOfNat 2, qOfNat 3), (qOfNat 1, Op.add, qOfNat 3, qOfNat 4)]), (qOfNat 3, [qOfNat 1, qOfNat 3], [(qOfNat 1, Op.add, qOfNat 1, qOfNat 2), (qOfNat 1, Op.mul, qOfNat 1, qOfNat 1), (qOfNat 1, Op.add, qOfNat 2, qOfNat 3), (qOfNat 1, Op.mul, qOfNat 3, qOfNat 3)]), (qOfNat 2, [qOfNat 1, qOfNat 2], [(qOfNat 1, Op.add, qOfNat 1, qOfNat 2), (qOfNat 1, Op.mul, qOfNat 1, qOfNat 1), (qOfNat 1, Op.add, qOfNat 2, qOfNat 3), (qOfNat 3, Op.sub, qOfNat 1, qOfNat 2)]), (qOfNat 3, [qOfNat 1, qOfNat 3], [(qOfNat 1, Op.add, qOfNat 1, qOfNat 2), (qOfNat 1, Op.mul, qOfNat 1, qOfNat 1), (qOfNat 1, Op.add, qOfNat 2, qOfNat 3), (qOfNat 3, Op.div, qOfNat 1, qOfNat 3)]), (qOfNat 1, [qOfNat 2, qOfNat 1], [(qOfNat 1, Op.add, qOfNat 1, qOfNat 2), (qOfNat 1, Op.mul, qOfNat 1, qOfNat 1), (qOfNat 1, Op.mul, qOfNat 2, qOfNat 2), (qOfNat 1, Op.div, qOfNat 1, qOfNat 1)]), (qOfNat 3, [qOfNat 1, qOfNat 3], [(qOfNat 1, Op.add, qOfNat 1, qOfNat 2), (qOfNat 1, Op.mul, qOfNat 1, qOfNat 1), (qOfNat 1, Op.mul, qOfNat 2, qOfNat 2), (qOfNat 1, Op.add, qOfNat 2, qOfNat 3)]), (qOfNat 1, [qOfNat 1, qOfNat 1], [(qOfNat 1, Op.add, qOfNat 1, qOfNat 2), (qOfNat 1, Op.mul, qOfNat 1, qOfNat 1), (qOfNat 1, Op.mul, qOfNat 2, qOfNat 2), (qOfNat 2, Op.sub, qOfNat 1, qOfNat 1)]), (qOfNat 2, [qOfNat 1, qOfNat 2], [(qOfNat 1, Op.add, qOfNat 1, qOfNat 2), (qOfNat 1, Op.mul, qOfNat 1, qOfNat 1), (qOfNat 1, Op.mul, qOfNat 2, qOfNat 2), (qOfNat 2, Op.div, qOfNat 1, qOfNat 2)]), (qOfNat 3, [qOfNat 1, qOfNat 3], [(qOfNat 1, Op.add, qOfNat 1, qOfNat 2), (qOfNat 1, Op.mul, qOfNat 1, qOfNat 1), (qOfNat 2, Op.div, qOfNat 1, qOfNat 2), (qOfNat 1, Op.add, qOfNat 2, qOfNat 3)]), (qOfNat 1, [qOfNat 1, qOfNat 1], [(qOfNat 1, Op.add, qOfNat 1, qOfNat 2), (qOfNat 1, Op.mul, qOfNat 1, qOfNat 1), (qOfNat 2, Op.div, qOfNat 1, qOfNat 2), (qOfNat 2, Op.sub, qOfNat 1, qOfNat 1)]), (qOfNat 4, [qOfNat 1, qOfNat 4], [(qOfNat 1, Op.add, qOfNat 1, qOfNat 2), (qOfNat 1, Op.div, qOfNat 1, qOfNat 1), (qOfNat 1, Op.add, qOfNat 2, qOfNat 3), (qOfNat 1, Op.add, qOfNat 3, qOfNat 4)]), (qOfNat 3, [qOfNat 1, qOfNat 3], [(qOfNat 1, Op.add, qOfNat 1, qOfNat 2), (qOfNat 1, Op.div, qOfNat 1, qOfNat 1), (qOfNat 1, Op.add, qOfNat 2, qOfNat 3), (qOfNat 1, Op.mul, qOfNat 3, qOfNat 3)]), (qOfNat 2, [qOfNat 1, qOfNat 2], [(qOfNat 1, Op.add, qOfNat 1, qOfNat 2), (qOfNat 1, Op.div, qOfNat 1, qOfNat 1), (qOfNat 1, Op.add, qOfNat 2, qOfNat 3), (qOfNat 3, Op.sub, qOfNat 1, qOfNat 2)]), (qOfNat 3, [qOfNat 1, qOfNat 3], [(qOfNat 1, Op.add, qOfNat 1, qOfNat 2), (qOfNat 1, Op.div, qOfNat 1, qOfNat 1), (qOfNat 1, Op.add, qOfNat 2, qOfNat 3), (qOfNat 3, Op.div, qOfNat 1, qOfNat 3)]), (qOfNat 3, [qOfNat 1, qOfNat 3], [(qOfNat 1, Op.add, qOfNat 1, qOfNat 2), (qOfNat 1, Op.div, qOfNat 1, qOfNat 1), (qOfNat 1, Op.mul, qOfNat 2, qOfNat 2), (qOfNat 1, Op.add, qOfNat 2, qOfNat 3)]), (qOfNat 1, [qOfNat 1, qOfNat 1], [(qOfNat 1, Op.add, qOfNat 1, qOfNat 2), (qOfNat 1, Op.div, qOfNat 1, qOfNat 1), (qOfNat 1, Op.mul, qOfNat 2, qOfNat 2), (qOfNat 2, Op.sub, qOfNat 1, qOfNat 1)]), (qOfNat 2, [qOfNat 1, qOfNat 2], [(qOfNat 1, Op.add, qOfNat 1, qOfNat 2), (qOfNat 1, Op.div, qOfNat 1, qOfNat 1), (qOfNat 1, Op.mul, qOfNat 2, qOfNat 2), (qOfNat 2, Op.div, qOfNat 1, qOfNat 2)]), (qOfNat 3, [qOfNat 1, qOfNat 3], [(qOfNat 1, Op.add, qOfNat 1, qOfNat 2), (qOfNat 1, Op.div, qOfNat 1, qOfNat 1), (qOfNat 2, Op.div, qOfNat 1, qOfNat 2), (qOfNat 1, Op.add, qOfNat 2, qOfNat 3)]), (qOfNat 1, [qOfNat 1, qOfNat 1], [(qOfNat 1, Op.add, qOfNat 1, qOfNat 2), (qOfNat 1, Op.div, qOfNat 1, qOfNat 1), (qOfNat 2, Op.div, qOfNat 1, qOfNat 2), (qOfNat 2, Op.sub, qOfNat 1, qOfNat 1)])]

/-- Seen path fingerprints of the same run after 20 iterations. -/
def traceU2 : List (List Oper) :=
  [[(qOfNat 1, Op.add, qOfNat 1, qOfNat 2)], [(qOfNat 1, Op.mul, qOfNat 1, qOfNat 1)], [(qOfNat 1, Op.div, qOfNat 1, qOfNat 1)], [(qOfNat 1, Op.add, qOfNat 1, qOfNat 2), (qOfNat 1, Op.mul, qOfNat 1, qOfNat 1)], [(qOfNat 1, Op.add, qOfNat 1, qOfNat 2), (qOfNat 1, Op.div, qOfNat 1, qOfNat 1)], [(qOfNat 1, Op.add, qOfNat 1, qOfNat 2), (qOfNat 1, Op.add, qOfNat 2, qOfNat 3)], [(qOfNat 1, Op.add, qOfNat 1, qOfNat 2), (qOfNat 1, Op.mul, qOfNat 2, qOfNat 2)], [(qOfNat 1, Op.add, qOfNat 1, qOfNat 2), (qOfNat 2, Op.sub, qOfNat 1, qOfNat 1)], [(qOfNat 1, Op.add, qOfNat 1, qOfNat 2), (qOfNat 2, Op.div, qOfNat 1, qOfNat 2)], [(qOfNat 1, Op.mul, qOfNat 1, qOfNat 1), (qOfNat 1, Op.div, qOfNat 1, qOfNat 1)], [(qOfNat 1, Op.add, qOfNat 1, qOfNat 2), (qOfNat 1, Op.mul, qOfNat 1, qOfNat 1), (qOfNat 1, Op.div, qOfNat 1, qOfNat 1)], [(qOfNat 1, Op.add, qOfNat 1, qOfNat 2), (qOfNat 1, Op.mul, qOfNat 1, qOfNat 1), (qOfNat 1, Op.add, qOfNat 2, qOfNat 3)], [(qOfNat 1, Op.add, qOfNat 1, qOfNat 2), (qOfNat 1, Op.mul, qOfNat 1, qOfNat 1), (qOfNat 1, Op.mul, qOfNat 2, qOfNat 2)], [(qOfNat 1, Op.add, qOfNat 1, qOfNat 2), (qOfNat 1, Op.mul, qOfNat 1, qOfNat 1), (qOfNat 2, Op.sub, qOfNat 1, qOfNat 1)], [(qOfNat 1, Op.add, qOfNat 1, qOfNat 2), (qOfNat 1, Op.mul, qOfNat 1, qOfNat 1), (qOfNat 2, Op.div, qOfNat 1, qOfNat 2)], [(qOfNat 1, Op.add, qOfNat 1, qOfNat 2), (qOfNat 1, Op.div, qOfNat 1, qOfNat 1), (qOfNat 1, Op.add, qOfNat 2, qOfNat 3)], [(qOfNat 1, Op.add, qOfNat 1, qOfNat 2), (qOfNat 1, Op.div, qOfNat 1, qOfNat 1), (qOfNat 1, Op.mul, qOfNat 2, qOfNat 2)], [(qOfNat 1, Op.add, qOfNat 1, qOfNat 2), (qOfNat 1, Op.div, qOfNat 1, qOfNat 1), (qOfNat 2, Op.sub, qOfNat 1, qOfNat 1)], [(qOfNat 1, Op.add, qOfNat 1, qOfNat 2), (qOfNat 1, Op.div, qOfNat 1, qOfNat 1), (qOfNat 2, Op.div, qOfNat 1, qOfNat 2)], [(qOfNat 1, Op.add, qOfNat 1, qOfNat 2), (qOfNat 1, Op.add, qOfNat 2, qOfNat 3), (qOfNat 1, Op.add, qOfNat 3, qOfNat 4)], [(qOfNat 1, Op.add, qOfNat 1, qOfNat 2), (qOfNat 1, Op.add, qOfNat 2, qOfNat 3), (qOfNat 1, Op.mul, qOfNat 3, qOfNat 3)], [(qOfNat 1, Op.add, qOfNat 1, qOfNat 2), (qOfNat 1, Op.add, qOfNat 2, qOfNat 3), (qOfNat 3, Op.sub, qOfNat 1, qOfNat 2)], [(qOfNat 1, Op.add, qOfNat 1, qOfNat 2), (qOfNat 1, Op.add, qOfNat 2, qOfNat 3), (qOfNat 3, Op.div, qOfNat 1, qOfNat 3)], [(qOfNat 1, Op.add, qOfNat 1, qOfNat 2), (qOfNat 1, Op.mul, qOfNat 2, qOfNat 2), (qOfNat 1, Op.add, qOfNat 2, qOfNat 3)], [(qOfNat 1, Op.add, qOfNat 1, qOfNat 2), (qOfNat 1, Op.mul, qOfNat 2, qOfNat 2), (qOfNat 2, Op.sub, qOfNat 1, qOfNat 1)], [(qOfNat 1, Op.add, qOfNat 1, qOfNat 2), (qOfNat 1, Op.mul, qOfNat 2, qOfNat 2), (qOfNat 2, Op.div, qOfNat 1, qOfNat 2)], [(qOfNat 1, Op.add, qOfNat 1, qOfNat 2), (qOfNat 2, Op.div, qOfNat 1, qOfNat 2), (qOfNat 1, Op.add, qOfNat 2, qOfNat 3)], [(qOfNat 1, Op.add, qOfNat 1, qOfNat 2), (qOfNat 2, Op.div, qOfNat 1, qOfNat 2), (qOfNat 2, Op.sub, qOfNat 1, qOfNat 1)], [(qOfNat 1, Op.add, qOfNat 1, qOfNat 2), (qOfNat 1, Op.mul, qOfNat 1, qOfNat 1), (qOfNat 1, Op.div, qOfNat 1, qOfNat 1), (qOfNat 2, Op.add, qOfNat 1, qOfNat 3)], [(qOfNat 1, Op.add, qOfNat 1, qOfNat 2), (qOfNat 1, Op.mul, qOfNat 1, qOfNat 1), (qOfNat 1, Op.div, qOfNat 1, qOfNat 1), (qOfNat 2, Op.sub, qOfNat 1, qOfNat 1)], [(qOfNat 1, Op.add, qOfNat 1, qOfNat 2), (qOfNat 1, Op.mul, qOfNat 1, qOfNat 1), (qOfNat 1, Op.div, qOfNat 1, qOfNat 1), (qOfNat 2, Op.mul, qOfNat 1, qOfNat 2)], [(qOfNat 1, Op.add, qOfNat 1, qOfNat 2), (qOfNat 1, Op.mul, qOfNat 1, qOfNat 1), (qOfNat 1, Op.div, qOfNat 1, qOfNat 1), (qOfNat 2, Op.div, qOfNat 1, qOfNat 2)], [(qOfNat 1, Op.add, qOfNat 1, qOfNat 2), (qOfNat 1, Op.mul, qOfNat 1, qOfNat 1), (qOfNat 1, Op.add, qOfNat 2, qOfNat 3), (qOfNat 1, Op.div, qOfNat 1, qOfNat 1)], [(qOfNat 1, Op.add, qOfNat 1, qOfNat 2), (qOfNat 1, Op.mul, qOfNat 1, qOfNat 1), (qOfNat 1, Op.add, qOfNat 2, qOfNat 3), (qOfNat 1, Op.add, qOfNat 3, qOfNat 4)], [(qOfNat 1, Op.add, qOfNat 1, qOfNat 2), (qOfNat 1, Op.mul, qOfNat 1, qOfNat 1), (qOfNat 1, Op.add, qOfNat 2, qOfNat 3), (qOfNat 1, Op.mul, qOfNat 3, qOfNat 3)], [(qOfNat 1, Op.add, qOfNat 1, qOfNat 2), (qOfNat 1, Op.mul, qOfNat 1, qOfNat 1), (qOfNat 1, Op.add, qOfNat 2, qOfNat 3), (qOfNat 3, Op.sub, qOfNat 1, qOfNat 2)], [(qOfNat 1, Op.add, qOfNat 1, qOfNat 2), (qOfNat 1, Op.mul, qOfNat 1, qOfNat 1), (qOfNat 1, Op.add, qOfNat 2, qOfNat 3), (qOfNat 3, Op.div, qOfNat 1, qOfNat 3)], [(qOfNat 1, Op.add, qOfNat 1, qOfNat 2), (qOfNat 1, Op.mul, qOfNat 1, qOfNat 1), (qOfNat 1, Op.mul, qOfNat 2, qOfNat 2), (qOfNat 1, Op.div, qOfNat 1, qOfNat 1)], [(qOfNat 1, Op.add, qOfNat 1, qOfNat 2), (qOfNat 1, Op.mul, qOfNat 1, qOfNat 1), (qOfNat 1, Op.mul, qOfNat 2, qOfNat 2), (qOfNat 1, Op.add, qOfNat 2, qOfNat 3)], [(qOfNat 1, Op.add, qOfNat 1, qOfNat 2), (qOfNat 1, Op.mul, qOfNat 1, qOfNat 1), (qOfNat 1, Op.mul, qOfNat 2, qOfNat 2), (qOfNat 2, Op.sub, qOfNat 1, qOfNat 1)], [(qOfNat 1, Op.add, qOfNat 1, qOfNat 2), (qOfNat 1, Op.mul, qOfNat 1, qOfNat 1), (qOfNat 1, Op.mul, qOfNat 2, qOfNat 2), (qOfNat 2, Op.div, qOfNat 1, qOfNat 2)], [(qOfNat 1, Op.add, qOfNat 1, qOfNat 2), (qOfNat 1, Op.mul, qOfNat 1, qOfNat 1), (qOfNat 2, Op.div, qOfNat 1, qOfNat 2), (qOfNat 1, Op.add, qOfNat 2, qOfNat 3)], [(qOfNat 1, Op.add, qOfNat 1, qOfNat 2), (qOfNat 1, Op.mul, qOfNat 1, qOfNat 1), (qOfNat 2, Op.div, qOfNat 1, qOfNat 2), (qOfNat 2, Op.sub, qOfNat 1, qOfNat 1)], [(qOfNat 1, Op.add, qOfNat 1, qOfNat 2), (qOfNat 1, Op.div, qOfNat 1, qOfNat 1), (qOfNat 1, Op.add, qOfNat 2, qOfNat 3), (qOfNat 1, Op.add, qOfNat 3, qOfNat 4)], [(qOfNat 1, Op.add, qOfNat 1, qOfNat 2), (qOfNat 1, Op.div, qOfNat 1, qOfNat 1), (qOfNat 1, Op.add, qOfNat 2, qOfNat 3), (qOfNat 1, Op.mul, qOfNat 3, qOfNat 3)], [(qOfNat 1, Op.add, qOfNat 1, qOfNat 2), (qOfNat 1, Op.div, qOfNat 1, qOfNat 1), (qOfNat 1, Op.add, qOfNat 2, qOfNat 3), (qOfNat 3, Op.sub, qOfNat 1, qOfNat 2)], [(qOfNat 1, Op.add, qOfNat 1, qOfNat 2), (qOfNat 1, Op.div, qOfNat 1, qOfNat 1), (qOfNat 1, Op.add, qOfNat 2, qOfNat 3), (qOfNat 3, Op.div, qOfNat 1, qOfNat 3)], [(qOfNat 1, Op.add, qOfNat 1, qOfNat 2), (qOfNat 1, Op.div, qOfNat 1, qOfNat 1), (qOfNat 1, Op.mul, qOfNat 2, qOfNat 2), (qOfNat 1, Op.add, qOfNat 2, qOfNat 3)], [(qOfNat 1, Op.add, qOfNat 1, qOfNat 2), (qOfNat 1, Op.div, qOfNat 1, qOfNat 1), (qOfNat 1, Op.mul, qOfNat 2, qOfNat 2), (qOfNat 2, Op.sub, qOfNat 1, qOfNat 1)], [(qOfNat 1, Op.add, qOfNat 1, qOfNat 2), (qOfNat 1, Op.div, qOfNat 1, qOfNat 1), (qOfNat 1, Op.mul, qOfNat 2, qOfNat 2), (qOfNat 2, Op.div, qOfNat 1, qOfNat 2)], [(qOfNat 1, Op.add, qOfNat 1, qOfNat 2), (qOfNat 1, Op.div, qOfNat 1, qOfNat 1), (qOfNat 2, Op.div, qOfNat 1, qOfNat 2), (qOfNat 1, Op.add, qOfNat 2, qOfNat 3)], [(qOfNat 1, Op.add, qOfNat 1, qOfNat 2), (qOfNat 1, Op.div, qOfNat 1, qOfNat 1), (qOfNat 2, Op.div, qOfNat 1, qOfNat 2), (qOfNat 2, Op.sub, qOfNat 1, qOfNat 1)]]
/-- Queue contents of the breadth-first loop on selection [1, 1, 1, 1, 1, 1], target 6, after 30 iterations. -/
def traceQ3 : List BState :=
  [(qOfNat 1, [qOfNat 1, qOfNat 1], [(qOfNat 1, Op.add, qOfNat 1, qOfNat 2), (qOfNat 1, Op.mul, qOfNat 1, qOfNat 1), (qOfNat 1, Op.div, qOfNat 1, qOfNat 1), (qOfNat 2, Op.sub, qOfNat 1, qOfNat 1)]), (qOfNat 2, [qOfNat 1, qOfNat 2], [(qOfNat 1, Op.add, qOfNat 1, qOfNat 2), (qOfNat 1, Op.mul, qOfNat 1, qOfNat 1), (qOfNat 1, Op.div, qOfNat 1, qOfNat 1), (qOfNat 2, Op.mul, qOfNat 1, qOfNat 2)]), (qOfNat 2, [qOfNat 1, qOfNat 2], [(qOfNat 1, Op.add, qOfNat 1, qOfNat 2), (qOfNat 1, Op.mul, qOfNat 1, qOfNat 1), (qOfNat 1, Op.div, qOfNat 1, qOfNat 1), (qOfNat 2, Op.div, qOfNat 1, qOfNat 2)]), (qOfNat 1, [qOfNat 3, qOfNat 1], [(qOfNat 1, Op.add, qOfNat 1, qOfNat 2), (qOfNat 1, Op.mul, qOfNat 1, qOfNat 1), (qOfNat 1, Op.add, qOfNat 2, qOfNat 3), (qOfNat 1, Op.div, qOfNat 1, qOfNat 1)]), (qOfNat 4, [qOfNat 1, qOfNat 4], [(qOfNat 1, Op.add, qOfNat 1, qOfNat 2), (qOfNat 1, Op.mul, qOfNat 1, qOfNat 1), (qOfNat 1, Op.add, qOfNat 2, qOfNat 3), (qOfNat 1, Op.add, qOfNat 3, qOfNat 4)]), (qOfNat 3, [qOfNat 1, qOfNat 3], [(qOfNat 1, Op.add, qOfNat 1, qOfNat 2), (qOfNat 1, Op.mul, qOfNat 1, qOfNat 1), (qOfNat 1, Op.add, qOfNat 2, qOfNat 3), (qOfNat 1, Op.mul, qOfNat 3, qOfNat 3)]), (qOfNat 2, [qOfNat 1, qOfNat 2], [(qOfNat 1, Op.add, qOfNat 1, qOfNat 2), (qOfNat 1, Op.mul, qOfNat 1, qOfNat 1), (qOfNat 1, Op.add, qOfNat 2, qOfNat 3), (qOfNat 3, Op.sub, qOfNat 1, qOfNat 2)]), (qOfNat 3, [qOfNat 1, qOfNat 3], [(qOfNat 1, Op.add, qOfNat 1, qOfNat 2), (qOfNat 1, Op.mul, qOfNat 1, qOfNat 1), (qOfNat 1, Op.add, qOfNat 2, qOfNat 3), (qOfNat 3, Op.div, qOfNat 1, qOfNat 3)]), (qOfNat 1, [qOfNat 2, qOfNat 1], [(qOfNat 1, Op.add, qOfNat 1, qOfNat 2), (qOfNat 1, Op.mul, qOfNat 1, qOfNat 1), (qOfNat 1, Op.mul, qOfNat 2, qOfNat 2), (qOfNat 1, Op.div, qOfNat 1, qOfNat 1)]), (qOfNat 3, [qOfNat 1, qOfNat 3], [(qOfNat 1, Op.add, qOfNat 1, qOfNat 2), (qOfNat 1, Op.mul, qOfNat 1, qOfNat 1), (qOfNat 1, Op.mul, qOfNat 2, qOfNat 2), (qOfNat 1, Op.add, qOfNat 2, qOfNat 3)]), (qOfNat 1, [qOfNat 1, qOfNat 1], [(qOfNat 1, Op.add, qOfNat 1, qOfNat 2), (qOfNat 1, Op.mul, qOfNat 1, qOfNat 1), (qOfNat 1, Op.mul, qOfNat 2, qOfNat 2), (qOfNat 2, Op.sub, qOfNat 1, qOfNat 1)]), (qOfNat 2, [qOfNat 1, qOfNat 2], [(qOfNat 1, Op.add, qOfNat 1, qOfNat 2), (qOfNat 1, Op.mul, qOfNat 1, qOfNat 1), (qOfNat 1, Op.mul, qOfNat 2, qOfNat 2), (qOfNat 2, Op.div, qOfNat 1, qOfNat 2)]), (qOfNat 3, [qOfNat 1, qOfNat 3], [(qOfNat 1, Op.add, qOfNat 1, qOfNat 2), (qOfNat 1, Op.mul, qOfNat 1, qOfNat 1), (qOfNat 2, Op.div, qOfNat 1, qOfNat 2), (qOfNat 1, Op.add, qOfNat 2, qOfNat 3)]), (qOfNat 1, [qOfNat 1, qOfNat 1], [(qOfNat 1, Op.add, qOfNat 1, qOfNat 2), (qOfNat 1, Op.mul, qOfNat 1, qOfNat 1), (qOfNat 2, Op.div, qOfNat 1, qOfNat 2), (qOfNat 2, Op.sub, qOfNat 1, qOfNat 1)]), (qOfNat 4, [qOfNat 1, qOfNat 4], [(qOfNat 1, Op.add, qOfNat 1, qOfNat 2), (qOfNat 1, Op.div, qOfNat 1, qOfNat 1), (qOfNat 1, Op.add, qOfNat 2, qOfNat 3), (qOfNat 1, Op.add, qOfNat 3, qOfNat 4)]), (qOfNat 3, [qOfNat 1, qOfNat 3], [(qOfNat 1, Op.add, qOfNat 1, qOfNat 2), (qOfNat 1, Op.div, qOfNat 1, qOfNat 1), (qOfNat 1, Op.add, qOfNat 2, qOfNat 3), (qOfNat 1, Op.mul, qOfNat 3, qOfNat 3)]), (qOfNat 2, [qOfNat 1, qOfNat 2], [(qOfNat 1, Op.add, qOfNat 1, qOfNat 2), (qOfNat 1, Op.div, qOfNat 1, qOfNat 1), (qOfNat 1, Op.add, qOfNat 2, qOfNat 3), (qOfNat 3, Op.sub, qOfNat 1, qOfNat 2)]), (qOfNat 3, [qOfNat 1, qOfNat 3], [(qOfNat 1, Op.add, qOfNat 1, qOfNat 2), (qOfNat 1, Op.div, qOfNat 1, qOfNat 1), (qOfNat 1, Op.add, qOfNat 2, qOfNat 3), (qOfNat 3, Op.div, qOfNat 1, qOfNat 3)]), (qOfNat 3, [qOfNat 1, qOfNat 3], [(qOfNat 1, Op.add, qOfNat 1, qOfNat 2), (qOfNat 1, Op.div, qOfNat 1, qOfNat 1), (qOfNat 1, Op.mul, qOfNat 2, qOfNat 2), (qOfNat 1, Op.add, qOfNat 2, qOfNat 3)]), (qOfNat 1, [qOfNat 1, qOfNat 1], [(qOfNat 1, Op.add, qOfNat 1, qOfNat 2), (qOfNat 1, Op.div, qOfNat 1, qOfNat 1), (qOfNat 1, Op.mul, qOfNat 2, qOfNat 2), (qOfNat 2, Op.sub, qOfNat 1, qOfNat 1)]), (qOfNat 2, [qOfNat 1, qOfNat 2], [(qOfNat 1, Op.add, qOfNat 1, qOfNat 2), (qOfNat 1, Op.div, qOfNat 1, qOfNat 1), (qOfNat 1, Op.mul, qOfNat 2, qOfNat 2), (qOfNat 2, Op.div, qOfNat 1, qOfNat 2)]), (qOfNat 3, [qOfNat 1, qOfNat 3], [(qOfNat 1, Op.add, qOfNat 1, qOfNat 2), (qOfNat 1, Op.div, qOfNat 1, qOfNat 1), (qOfNat 2, Op.div, qOfNat 1, qOfNat 2), (qOfNat 1, Op.add, qOfNat 2, qOfNat 3)]), (qOfNat 1, [qOfNat 1, qOfNat 1], [(qOfNat 1, Op.add, qOfNat 1, qOfNat 2), (qOfNat 1, Op.div, qOfNat 1, qOfNat 1), (qOfNat 2, Op.div, qOfNat 1, qOfNat 2), (qOfNat 2, Op.sub, qOfNat 1, qOfNat 1)]), (qOfNat 5, [qOfNat 1, qOfNat 5], [(qOfNat 1, Op.add, qOfNat 1, qOfNat 2), (qOfNat 1, Op.add, qOfNat 2, qOfNat 3), (qOfNat 1, Op.add, qOfNat 3, qOfNat 4), (qOfNat 1, Op.add, qOfNat 4, qOfNat 5)]), (qOfNat 4, [qOfNat 1, qOfNat 4], [(qOfNat 1, Op.add, qOfNat 1, qOfNat 2), (qOfNat 1, Op.add, qOfNat 2, qOfNat 3), (qOfNat 1, Op.add, qOfNat 3, qOfNat 4), (qOfNat 1, Op.mul, qOfNat 4, qOfNat 4)]), (qOfNat 3, [qOfNat 1, qOfNat 3], [(qOfNat 1, Op.add, qOfNat 1, qOfNat 2), (qOfNat 1, Op.add, qOfNat 2, qOfNat 3), (qOfNat 1, Op.add, qOfNat 3, qOfNat 4), (qOfNat 4, Op.sub, qOfNat 1, qOfNat 3)]), (qOfNat 4, [qOfNat 1, qOfNat 4], [(qOfNat 1, Op.add, qOfNat 1, qOfNat 2), (qOfNat 1, Op.add, qOfNat 2, qOfNat 3), (qOfNat 1, Op.add, qOfNat 3, qOfNat 4), (qOfNat 4, Op.div, qOfNat 1, qOfNat 4)]), (qOfNat 4, [qOfNat 1, qOfNat 4], [(qOfNat 1, Op.add, qOfNat 1, qOfNat 2), (qOfNat 1, Op.add, qOfNat 2, qOfNat 3), (qOfNat 1, Op.mul, qOfNat 3, qOfNat 3), (qOfNat 1, Op.add, qOfNat 3, qOfNat 4)]), (qOfNat 2, [qOfNat 1, qOfNat 2], [(qOfNat 1, Op.add, qOfNat 1, qOfNat 2), (qOfNat 1, Op.add, qOfNat 2, qOfNat 3), (qOfNat 1, Op.mul, qOfNat 3, qOfNat 3), (qOfNat 3, Op.sub, qOfNat 1, qOfNat 2)]), (qOfNat 3, [qOfNat 1, qOfNat 3], [(qOfNat 1, Op.add, qOfNat 1, qOfNat 2), (qOfNat 1, Op.add, qOfNat 2, qOfNat 3), (qOfNat 1, Op.mul, qOfNat 3, qOfNat 3), (qOfNat 3, Op.div, qOfNat 1, qOfNat 3)]), (qOfNat 2, [qOfNat 1, qOfNat 2], [(qOfNat 1, Op.add, qOfNat 1, qOfNat 2), (qOfNat 1, Op.add, qOfNat 2, qOfNat 3), (qOfNat 3, Op.sub, qOfNat 1, qOfNat 2), (qOfNat 1, Op.mul, qOfNat 2, qOfNat 2)]), (qOfNat 1, [qOfNat 1, qOfNat 1], [(qOfNat 1, Op.add, qOfNat 1, qOfNat 2), (qOfNat 1, Op.add, qOfNat 2, qOfNat 3), (qOfNat 3, Op.sub, qOfNat 1, qOfNat 2), (qOfNat 2, Op.sub, qOfNat 1, qOfNat 1)]), (qOfNat 2, [qOfNat 1, qOfNat 2], [(qOfNat 1, Op.add, qOfNat 1, qOfNat 2), (qOfNat 1, Op.add, qOfNat 2, qOfNat 3), (qOfNat 3, Op.sub, qOfNat 1, qOfNat 2), (qOfNat 2, Op.div, qOfNat 1, qOfNat 2)]), (qOfNat 4, [qOfNat 1, qOfNat 4], [(qOfNat 1, Op.add, qOfNat 1, qOfNat 2), (qOfNat 1, Op.add, qOfNat 2, qOfNat 3), (qOfNat 3, Op.div, qOfNat 1, qOfNat 3), (qOfNat 1, Op.add, qOfNat 3, qOfNat 4)]), (qOfNat 2, [qOfNat 1, qOfNat 2], [(qOfNat 1, Op.add, qOfNat 1, qOfNat 2), (qOfNat 1, Op.add, qOfNat 2, qOfNat 3), (qOfNat 3, Op.div, qOfNat 1, qOfNat 3), (qOfNat 3, Op.sub, qOfNat 1, qOfNat 2)]), (qOfNat 4, [qOfNat 1, qOfNat 4], [(qOfNat 1, Op.add, qOfNat 1, qOfNat 2), (qOfNat 1, Op.mul, qOfNat 2, qOfNat 2), (qOfNat 1, Op.add, qOfNat 2, qOfNat 3), (qOfNat 1, Op.add, qOfNat 3, qOfNat 4)]), (qOfNat 3, [qOfNat 1, qOfNat 3], [(qOfNat 1, Op.add, qOfNat 1, qOfNat 2), (qOfNat 1, Op.mul, qOfNat 2, qOfNat 2), (qOfNat 1, Op.add, qOfNat 2, qOfNat 3), (qOfNat 1, Op.mul, qOfNat 3, qOfNat 3)]), (qOfNat 3, [qOfNat 1, qOfNat 3], [(qOfNat 1, Op.add, qOfNat 1, qOfNat 2), (qOfNat 1, Op.mul, qOfNat 2, qOfNat 2), (qOfNat 1, Op.add, qOfNat 2, qOfNat 3), (qOfNat 3, Op.div, qOfNat 1, qOfNat 3)]), (qOfNat 3, [qOfNat 1, qOfNat 3], [(qOfNat 1, Op.add, qOfNat 1, qOfNat 2), (qOfNat 1, Op.mul, qOfNat 2, qOfNat 2), (qOfNat 2, Op.div, qOfNat 1, qOfNat 2), (qOfNat 1, Op.add, qOfNat 2, qOfNat 3)]), (qOfNat 1, [qOfNat 1, qOfNat 1], [(qOfNat 1, Op.add, qOfNat 1, qOfNat 2), (qOfNat 1, Op.mul, qOfNat 2, qOfNat 2), (qOfNat 2, Op.div, qOfNat 1, qOfNat 2), (qOfNat 2, Op.sub, qOfNat 1, qOfNat 1)]), (qOfNat 4, [qOfNat 1, qOfNat 4], [(qOfNat 1, Op.add, qOfNat 1, qOfNat 2), (qOfNat 2, Op.div, qOfNat 1, qOfNat 2), (qOfNat 1, Op.add, qOfNat 2, qOfNat 3), (qOfNat 1, Op.add, qOfNat 3, qOfNat 4)]), (qOfNat 3, [qOfNat 1, qOfNat 3], [(qOfNat 1, Op.add, qOfNat 1, qOfNat 2), (qOfNat 2, Op.div, qOfNat 1, qOfNat 2), (qOfNat 1, Op.add, qOfNat 2, qOfNat 3), (qOfNat 1, Op.mul, qOfNat 3, qOfNat 3)]), (qOfNat 3, [qOfNat 1, qOfNat 3], [(qOfNat 1, Op.add, qOfNat 1, qOfNat 2), (qOfNat 2, Op.div, qOfNat 1, qOfNat 2), (qOfNat 1, Op.add, qOfNat 2, qOfNat 3), (qOfNat 3, Op.div, qOfNat 1, qOfNat 3)]), (qOfNat 4, [qOfNat 4], [(qOfNat 1, Op.add, qOfNat 1, qOfNat 2), (qOfNat 1, Op.mul, qOfNat 1, qOfNat 1), (qOfNat 1, Op.div, qOfNat 1, qOfNat 1), (qOfNat 2, Op.add, qOfNat 1, qOfNat 3), (qOfNat 1, Op.add, qOfNat 3, qOfNat 4)]), (qOfNat 3, [qOfNat 3], [(qOfNat 1, Op.add, qOfNat 1, qOfNat 2), (qOfNat 1, Op.mul, qOfNat 1, qOfNat 1), (qOfNat 1, Op.div, qOfNat 1, qOfNat 1), (qOfNat 2, Op.add, qOfNat 1, qOfNat 3), (qOfNat 1, Op.mul, qOfNat 3, qOfNat 3)]), (qOfNat 2, [qOfNat 2], [(qOfNat 1, Op.add, qOfNat 1, qOfNat 2), (qOfNat 1, Op.mul, qOfNat 1, qOfNat 1), (qOfNat 1, Op.div, qOfNat 1, qOfNat 1), (qOfNat 2, Op.add, qOfNat 1, qOfNat 3), (qOfNat 3, Op.sub, qOfNat 1, qOfNat 2)]), (qOfNat 3, [qOfNat 3], [(qOfNat 1, Op.add, qOfNat 1, qOfNat 2), (qOfNat 1, Op.mul, qOfNat 1, qOfNat 1), (qOfNat 1, Op.div, qOfNat 1, qOfNat 1), (qOfNat 2, Op.add, qOfNat 1, qOfNat 3), (qOfNat 3, Op.div, qOfNat 1, qOfNat 3)])]

/-- Seen path fingerprints of the same run after 30 iterations. -/
def traceU3 : List (List Oper) :=
  [[(qOfNat 1, Op.add, qOfNat 1, qOfNat 2)], [(qOfNat 1, Op.mul, qOfNat 1, qOfNat 1)], [(qOfNat 1, Op.div, qOfNat 1, qOfNat 1)], [(qOfNat 1, Op.add, qOfNat 1, qOfNat 2), (qOfNat 1, Op.mul, qOfNat 1, qOfNat 1)], [(qOfNat 1, Op.add, qOfNat 1, qOfNat 2), (qOfNat 1, Op.div, qOfNat 1, qOfNat 1)], [(qOfNat 1, Op.add, qOfNat 1, qOfNat 2), (qOfNat 1, Op.add, qOfNat 2, qOfNat 3)], [(qOfNat 1, Op.add, qOfNat 1, qOfNat 2), (qOfNat 1, Op.mul, qOfNat 2, qOfNat 2)], [(qOfNat 1, Op.add, qOfNat 1, qOfNat 2), (qOfNat 2, Op.sub, qOfNat 1, qOfNat 1)], [(qOfNat 1, Op.add, qOfNat 1, qOfNat 2), (qOfNat 2, Op.div, qOfNat 1, qOfNat 2)], [(qOfNat 1, Op.mul, qOfNat 1, qOfNat 1), (qOfNat 1, Op.div, qOfNat 1, qOfNat 1)], [(qOfNat 1, Op.add, qOfNat 1, qOfNat 2), (qOfNat 1, Op.mul, qOfNat 1, qOfNat 1), (qOfNat 1, Op.div, qOfNat 1, qOfNat 1)], [(qOfNat 1, Op.add, qOfNat 1, qOfNat 2), (qOfNat 1, Op.mul, qOfNat 1, qOfNat 1), (qOfNat 1, Op.add, qOfNat 2, qOfNat 3)], [(qOfNat 1, Op.add, qOfNat 1, qOfNat 2), (qOfNat 1, Op.mul, qOfNat 1, qOfNat 1), (qOfNat 1, Op.mul, qOfNat 2, qOfNat 2)], [(qOfNat 1, Op.add, qOfNat 1, qOfNat 2), (qOfNat 1, Op.mul, qOfNat 1, qOfNat 1), (qOfNat 2, Op.sub, qOfNat 1, qOfNat 1)], [(qOfNat 1, Op.add, qOfNat 1, qOfNat 2), (qOfNat 1, Op.mul, qOfNat 1, qOfNat 1), (qOfNat 2, Op.div, qOfNat 1, qOfNat 2)], [(qOfNat 1, Op.add, qOfNat 1, qOfNat 2), (qOfNat 1, Op.div, qOfNat 1, qOfNat 1), (qOfNat 1, Op.add, qOfNat 2, qOfNat 3)], [(qOfNat 1, Op.add, qOfNat 1, qOfNat 2), (qOfNat 1, Op.div, qOfNat 1, qOfNat 1), (qOfNat 1, Op.mul, qOfNat 2, qOfNat 2)], [(qOfNat 1, Op.add, qOfNat 1, qOfNat 2), (qOfNat 1, Op.div, qOfNat 1, qOfNat 1), (qOfNat 2, Op.sub, qOfNat 1, qOfNat 1)], [(qOfNat 1, Op.add, qOfNat 1, qOfNat 2), (qOfNat 1, Op.div, qOfNat 1, qOfNat 1), (qOfNat 2, Op.div, qOfNat 1, qOfNat 2)], [(qOfNat 1, Op.add, qOfNat 1, qOfNat 2), (qOfNat 1, Op.add, qOfNat 2, qOfNat 3), (qOfNat 1, Op.add, qOfNat 3, qOfNat 4)], [(qOfNat 1, Op.add, qOfNat 1, qOfNat 2), (qOfNat 1, Op.add, qOfNat 2, qOfNat 3), (qOfNat 1, Op.mul, qOfNat 3, qOfNat 3)], [(qOfNat 1, Op.add, qOfNat 1, qOfNat 2), (qOfNat 1, Op.add, qOfNat 2, qOfNat 3), (qOfNat 3, Op.sub, qOfNat 1, qOfNat 2)], [(qOfNat 1, Op.add, qOfNat 1, qOfNat 2), (qOfNat 1, Op.add, qOfNat 2, qOfNat 3), (qOfNat 3, Op.div, qOfNat 1, qOfNat 3)], [(qOfNat 1, Op.add, qOfNat 1, qOfNat 2), (qOfNat 1, Op.mul, qOfNat 2, qOfNat 2), (qOfNat 1, Op.add, qOfNat 2, qOfNat 3)], [(qOfNat 1, Op.add, qOfNat 1, qOfNat 2), (qOfNat 1, Op.mul, qOfNat 2, qOfNat 2), (qOfNat 2, Op.sub, qOfNat 1, qOfNat 1)], [(qOfNat 1, Op.add, qOfNat 1, qOfNat 2), (qOfNat 1, Op.mul, qOfNat 2, qOfNat 2), (qOfNat 2, Op.div, qOfNat 1, qOfNat 2)], [(qOfNat 1, Op.add, qOfNat 1, qOfNat 2), (qOfNat 2, Op.div, qOfNat 1, qOfNat 2), (qOfNat 1, Op.add, qOfNat 2, qOfNat 3)], [(qOfNat 1, Op.add, qOfNat 1, qOfNat 2), (qOfNat 2, Op.div, qOfNat 1, qOfNat 2), (qOfNat 2, Op.sub, qOfNat 1, qOfNat 1)], [(qOfNat 1, Op.add, qOfNat 1, qOfNat 2), (qOfNat 1, Op.mul, qOfNat 1, qOfNat 1), (qOfNat 1, Op.div, qOfNat 1, qOfNat 1), (qOfNat 2, Op.add, qOfNat 1, qOfNat 3)], [(qOfNat 1, Op.add, qOfNat 1, qOfNat 2), (qOfNat 1, Op.mul, qOfNat 1, qOfNat 1), (qOfNat 1, Op.div, qOfNat 1, qOfNat 1), (qOfNat 2, Op.sub, qOfNat 1, qOfNat 1)], [(qOfNat 1, Op.add, qOfNat 1, qOfNat 2), (qOfNat 1, Op.mul, qOfNat 1, qOfNat 1), (qOfNat 1, Op.div, qOfNat 1, qOfNat 1), (qOfNat 2, Op.mul, qOfNat 1, qOfNat 2)], [(qOfNat 1, Op.add, qOfNat 1, qOfNat 2), (qOfNat 1, Op.mul, qOfNat 1, qOfNat 1), (qOfNat 1, Op.div, qOfNat 1, qOfNat 1), (qOfNat 2, Op.div, qOfNat 1, qOfNat 2)], [(qOfNat 1, Op.add, qOfNat 1, qOfNat 2), (qOfNat 1, Op.mul, qOfNat 1, qOfNat 1), (qOfNat 1, Op.add, qOfNat 2, qOfNat 3), (qOfNat 1, Op.div, qOfNat 1, qOfNat 1)], [(qOfNat 1, Op.add, qOfNat 1, qOfNat 2), (qOfNat 1, Op.mul, qOfNat 1, qOfNat 1), (qOfNat 1, Op.add, qOfNat 2, qOfNat 3), (qOfNat 1, Op.add, qOfNat 3, qOfNat 4)], [(qOfNat 1, Op.add, qOfNat 1, qOfNat 2), (qOfNat 1, Op.mul, qOfNat 1, qOfNat 1), (qOfNat 1, Op.add, qOfNat 2, qOfNat 3), (qOfNat 1, Op.mul, qOfNat 3, qOfNat 3)], [(qOfNat 1, Op.add, qOfNat 1, qOfNat 2), (qOfNat 1, Op.mul, qOfNat 1, qOfNat 1), (qOfNat 1, Op.add, qOfNat 2, qOfNat 3), (qOfNat 3, Op.sub, qOfNat 1, qOfNat 2)], [(qOfNat 1, Op.add, qOfNat 1, qOfNat 2), (qOfNat 1, Op.mul, qOfNat 1, qOfNat 1), (qOfNat 1, Op.add, qOfNat 2, qOfNat 3), (qOfNat 3, Op.div, qOfNat 1, qOfNat 3)], [(qOfNat 1, Op.add, qOfNat 1, qOfNat 2), (qOfNat 1, Op.mul, qOfNat 1, qOfNat 1), (qOfNat 1, Op.mul, qOfNat 2, qOfNat 2), (qOfNat 1, Op.div, qOfNat 1, qOfNat 1)], [(qOfNat 1, Op.add, qOfNat 1, qOfNat 2), (qOfNat 1, Op.mul, qOfNat 1, qOfNat 1), (qOfNat 1, Op.mul, qOfNat 2, qOfNat 2), (qOfNat 1, Op.add, qOfNat 2, qOfNat 3)], [(qOfNat 1, Op.add, qOfNat 1, qOfNat 2), (qOfNat 1, Op.mul, qOfNat 1, qOfNat 1), (qOfNat 1, Op.mul, qOfNat 2, qOfNat 2), (qOfNat 2, Op.sub, qOfNat 1, qOfNat 1)], [(qOfNat 1, Op.add, qOfNat 1, qOfNat 2), (qOfNat 1, Op.mul, qOfNat 1, qOfNat 1), (qOfNat 1, Op.mul, qOfNat 2, qOfNat 2), (qOfNat 2, Op.div, qOfNat 1, qOfNat 2)], [(qOfNat 1, Op.add, qOfNat 1, qOfNat 2), (qOfNat 1, Op.mul, qOfNat 1, qOfNat 1), (qOfNat 2, Op.div, qOfNat 1, qOfNat 2), (qOfNat 1, Op.add, qOfNat 2, qOfNat 3)], [(qOfNat 1, Op.add, qOfNat 1, qOfNat 2), (qOfNat 1, Op.mul, qOfNat 1, qOfNat 1), (qOfNat 2, Op.div, qOfNat 1, qOfNat 2), (qOfNat 2, Op.sub, qOfNat 1, qOfNat 1)], [(qOfNat 1, Op.add, qOfNat 1, qOfNat 2), (qOfNat 1, Op.div, qOfNat 1, qOfNat 1), (qOfNat 1, Op.add, qOfNat 2, qOfNat 3), (qOfNat 1, Op.add, qOfNat 3, qOfNat 4)], [(qOfNat 1, Op.add, qOfNat 1, qOfNat 2), (qOfNat 1, Op.div, qOfNat 1, qOfNat 1), (qOfNat 1, Op.add, qOfNat 2, qOfNat 3), (qOfNat 1, Op.mul, qOfNat 3, qOfNat 3)], [(qOfNat 1, Op.add, qOfNat 1, qOfNat 2), (qOfNat 1, Op.div, qOfNat 1, qOfNat 1), (qOfNat 1, Op.add, qOfNat 2, qOfNat 3), (qOfNat 3, Op.sub, qOfNat 1, qOfNat 2)], [(qOfNat 1, Op.add, qOfNat 1, qOfNat 2), (qOfNat 1, Op.div, qOfNat 1, qOfNat 1), (qOfNat 1, Op.add, qOfNat 2, qOfNat 3), (qOfNat 3, Op.div, qOfNat 1, qOfNat 3)], [(qOfNat 1, Op.add, qOfNat 1, qOfNat 2), (qOfNat 1, Op.div, qOfNat 1, qOfNat 1), (qOfNat 1, Op.mul, qOfNat 2, qOfNat 2), (qOfNat 1, Op.add, qOfNat 2, qOfNat 3)], [(qOfNat 1, Op.add, qOfNat 1, qOfNat 2), (qOfNat 1, Op.div, qOfNat 1, qOfNat 1), (qOfNat 1, Op.mul, qOfNat 2, qOfNat 2), (qOfNat 2, Op.sub, qOfNat 1, qOfNat 1)], [(qOfNat 1, Op.add, qOfNat 1, qOfNat 2), (qOfNat 1, Op.div, qOfNat 1, qOfNat 1), (qOfNat 1, Op.mul, qOfNat 2, qOfNat 2), (qOfNat 2, Op.div, qOfNat 1, qOfNat 2)], [(qOfNat 1, Op.add, qOfNat 1, qOfNat 2), (qOfNat 1, Op.div, qOfNat 1, qOfNat 1), (qOfNat 2, Op.div, qOfNat 1, qOfNat 2), (qOfNat 1, Op.add, qOfNat 2, qOfNat 3)], [(qOfNat 1, Op.add, qOfNat 1, qOfNat 2), (qOfNat 1, Op.div, qOfNat 1, qOfNat 1), (qOfNat 2, Op.div, qOfNat 1, qOfNat 2), (qOfNat 2, Op.sub, qOfNat 1, qOfNat 1)], [(qOfNat 1, Op.add, qOfNat 1, qOfNat 2), (qOfNat 1, Op.add, qOfNat 2, qOfNat 3), (qOfNat 1, Op.add, qOfNat 3, qOfNat 4), (qOfNat 1, Op.add, qOfNat 4, qOfNat 5)], [(qOfNat 1, Op.add, qOfNat 1, qOfNat 2), (qOfNat 1, Op.add, qOfNat 2, qOfNat 3), (qOfNat 1, Op.add, qOfNat 3, qOfNat 4), (qOfNat 1, Op.mul, qOfNat 4, qOfNat 4)], [(qOfNat 1, Op.add, qOfNat 1, qOfNat 2), (qOfNat 1, Op.add, qOfNat 2, qOfNat 3), (qOfNat 1, Op.add, qOfNat 3, qOfNat 4), (qOfNat 4, Op.sub, qOfNat 1, qOfNat 3)], [(qOfNat 1, Op.add, qOfNat 1, qOfNat 2), (qOfNat 1, Op.add, qOfNat 2, qOfNat 3), (qOfNat 1, Op.add, qOfNat 3, qOfNat 4), (qOfNat 4, Op.div, qOfNat 1, qOfNat 4)], [(qOfNat 1, Op.add, qOfNat 1, qOfNat 2), (qOfNat 1, Op.add, qOfNat 2, qOfNat 3), (qOfNat 1, Op.mul, qOfNat 3, qOfNat 3), (qOfNat 1, Op.add, qOfNat 3, qOfNat 4)], [(qOfNat 1, Op.add, qOfNat 1, qOfNat 2), (qOfNat 1, Op.add, qOfNat 2, qOfNat 3), (qOfNat 1, Op.mul, qOfNat 3, qOfNat 3), (qOfNat 3, Op.sub, qOfNat 1, qOfNat 2)], [(qOfNat 1, Op.add, qOfNat 1, qOfNat 2), (qOfNat 1, Op.add, qOfNat 2, qOfNat 3), (qOfNat 1, Op.mul, qOfNat 3, qOfNat 3), (qOfNat 3, Op.div, qOfNat 1, qOfNat 3)], [(qOfNat 1, Op.add, qOfNat 1, qOfNat 2), (qOfNat 1, Op.add, qOfNat 2, qOfNat 3), (qOfNat 3, Op.sub, qOfNat 1, qOfNat 2), (qOfNat 1, Op.mul, qOfNat 2, qOfNat 2)], [(qOfNat 1, Op.add, qOfNat 1, qOfNat 2), (qOfNat 1, Op.add, qOfNat 2, qOfNat 3), (qOfNat 3, Op.sub, qOfNat 1, qOfNat 2), (qOfNat 2, Op.sub, qOfNat 1, qOfNat 1)], [(qOfNat 1, Op.add, qOfNat 1, qOfNat 2), (qOfNat 1, Op.add, qOfNat 2, qOfNat 3), (qOfNat 3, Op.sub, qOfNat 1, qOfNat 2), (qOfNat 2, Op.div, qOfNat 1, qOfNat 2)], [(qOfNat 1, Op.add, qOfNat 1, qOfNat 2), (qOfNat 1, Op.add, qOfNat 2, qOfNat 3), (qOfNat 3, Op.div, qOfNat 1, qOfNat 3), (qOfNat 1, Op.add, qOfNat 3, qOfNat 4)], [(qOfNat 1, Op.add, qOfNat 1, qOfNat 2), (qOfNat 1, Op.add, qOfNat 2, qOfNat 3), (qOfNat 3, Op.div, qOfNat 1, qOfNat 3), (qOfNat 3, Op.sub, qOfNat 1, qOfNat 2)], [(qOfNat 1, Op.add, qOfNat 1, qOfNat 2), (qOfNat 1, Op.mul, qOfNat 2, qOfNat 2), (qOfNat 1, Op.add, qOfNat 2, qOfNat 3), (qOfNat 1, Op.add, qOfNat 3, qOfNat 4)], [(qOfNat 1, Op.add, qOfNat 1, qOfNat 2), (qOfNat 1, Op.mul, qOfNat 2, qOfNat 2), (qOfNat 1, Op.add, qOfNat 2, qOfNat 3), (qOfNat 1, Op.mul, qOfNat 3, qOfNat 3)], [(qOfNat 1, Op.add, qOfNat 1, qOfNat 2), (qOfNat 1, Op.mul, qOfNat 2, qOfNat 2), (qOfNat 1, Op.add, qOfNat 2, qOfNat 3), (qOfNat 3, Op.div, qOfNat 1, qOfNat 3)], [(qOfNat 1, Op.add, qOfNat 1, qOfNat 2), (qOfNat 1, Op.mul, qOfNat 2, qOfNat 2), (qOfNat 2, Op.div, qOfNat 1, qOfNat 2), (qOfNat 1, Op.add, qOfNat 2, qOfNat 3)], [(qOfNat 1, Op.add, qOfNat 1, qOfNat 2), (qOfNat 1, Op.mul, qOfNat 2, qOfNat 2), (qOfNat 2, Op.div, qOfNat 1, qOfNat 2), (qOfNat 2, Op.sub, qOfNat 1, qOfNat 1)], [(qOfNat 1, Op.add, qOfNat 1, qOfNat 2), (qOfNat 2, Op.div, qOfNat 1, qOfNat 2), (qOfNat 1, Op.add, qOfNat 2, qOfNat 3), (qOfNat 1, Op.add, qOfNat 3, qOfNat 4)], [(qOfNat 1, Op.add, qOfNat 1, qOfNat 2), (qOfNat 2, Op.div, qOfNat 1, qOfNat 2), (qOfNat 1, Op.add, qOfNat 2, qOfNat 3), (qOfNat 1, Op.mul, qOfNat 3, qOfNat 3)], [(qOfNat 1, Op.add, qOfNat 1, qOfNat 2), (qOfNat 2, Op.div, qOfNat 1, qOfNat 2), (qOfNat 1, Op.add, qOfNat 2, qOfNat 3), (qOfNat 3, Op.div, qOfNat 1, qOfNat 3)], [(qOfNat 1, Op.add, qOfNat 1, qOfNat 2), (qOfNat 1, Op.mul, qOfNat 1, qOfNat 1), (qOfNat 1, Op.div, qOfNat 1, qOfNat 1), (qOfNat 2, Op.add, qOfNat 1, qOfNat 3), (qOfNat 1, Op.add, qOfNat 3, qOfNat 4)], [(qOfNat 1, Op.add, qOfNat 1, qOfNat 2), (qOfNat 1, Op.mul, qOfNat 1, qOfNat 1), (qOfNat 1, Op.div, qOfNat 1, qOfNat 1), (qOfNat 2, Op.add, qOfNat 1, qOfNat 3), (qOfNat 1, Op.mul, qOfNat 3, qOfNat 3)], [(qOfNat 1, Op.add, qOfNat 1, qOfNat 2), (qOfNat 1, Op.mul, qOfNat 1, qOfNat 1), (qOfNat 1, Op.div, qOfNat 1, qOfNat 1), (qOfNat 2, Op.add, qOfNat 1, qOfNat 3), (qOfNat 3, Op.sub, qOfNat 1, qOfNat 2)], [(qOfNat 1, Op.add, qOfNat 1, qOfNat 2), (qOfNat 1, Op.mul, qOfNat 1, qOfNat 1), (qOfNat 1, Op.div, qOfNat 1, qOfNat 1), (qOfNat 2, Op.add, qOfNat 1, qOfNat 3), (qOfNat 3, Op.div, qOfNat 1, qOfNat 3)]]
/-- Queue contents of the breadth-first loop on selection [1, 1, 1, 1, 1, 1], target 6, after 40 iterations. -/
def traceQ4 : List BState :=
  [(qOfNat 1, [qOfNat 1, qOfNat 1], [(qOfNat 1, Op.add, qOfNat 1, qOfNat 2), (qOfNat 1, Op.mul, qOfNat 1, qOfNat 1), (qOfNat 1, Op.mul, qOfNat 2, qOfNat 2), (qOfNat 2, Op.sub, qOfNat 1, qOfNat 1)]), (qOfNat 2, [qOfNat 1, qOfNat 2], [(qOfNat 1, Op.add, qOfNat 1, qOfNat 2), (qOfNat 1, Op.mul, qOfNat 1, qOfNat 1), (qOfNat 1, Op.mul, qOfNat 2, qOfNat 2), (qOfNat 2, Op.div, qOfNat 1, qOfNat 2)]), (qOfNat 3, [qOfNat 1, qOfNat 3], [(qOfNat 1, Op.add, qOfNat 1, qOfNat 2), (qOfNat 1, Op.mul, qOfNat 1, qOfNat 1), (qOfNat 2, Op.div, qOfNat 1, qOfNat 2), (qOfNat 1, Op.add, qOfNat 2, qOfNat 3)]), (qOfNat 1, [qOfNat 1, qOfNat 1], [(qOfNat 1, Op.add, qOfNat 1, qOfNat 2), (qOfNat 1, Op.mul, qOfNat 1, qOfNat 1), (qOfNat 2, Op.div, qOfNat 1, qOfNat 2), (qOfNat 2, Op.sub, qOfNat 1, qOfNat 1)]), (qOfNat 4, [qOfNat 1, qOfNat 4], [(qOfNat 1, Op.add, qOfNat 1, qOfNat 2), (qOfNat 1, Op.div, qOfNat 1, qOfNat 1), (qOfNat 1, Op.add, qOfNat 2, qOfNat 3), (qOfNat 1, Op.add, qOfNat 3, qOfNat 4)]), (qOfNat 3, [qOfNat 1, qOfNat 3], [(qOfNat 1, Op.add, qOfNat 1, qOfNat 2), (qOfNat 1, Op.div, qOfNat 1, qOfNat 1), (qOfNat 1, Op.add, qOfNat 2, qOfNat 3), (qOfNat 1, Op.mul, qOfNat 3, qOfNat 3)]), (qOfNat 2, [qOfNat 1, qOfNat 2], [(qOfNat 1, Op.add, qOfNat 1, qOfNat 2), (qOfNat 1, Op.div, qOfNat 1, qOfNat 1), (qOfNat 1, Op.add, qOfNat 2, qOfNat 3), (qOfNat 3, Op.sub, qOfNat 1, qOfNat 2)]), (qOfNat 3, [qOfNat 1, qOfNat 3], [(qOfNat 1, Op.add, qOfNat 1, qOfNat 2), (qOfNat 1, Op.div, qOfNat 1, qOfNat 1), (qOfNat 1, Op.add, qOfNat 2, qOfNat 3), (qOfNat 3, Op.div, qOfNat 1, qOfNat 3)]), (qOfNat 3, [qOfNat 1, qOfNat 3], [(qOfNat 1, Op.add, qOfNat 1, qOfNat 2), (qOfNat 1, Op.div, qOfNat 1, qOfNat 1), (qOfNat 1, Op.mul, qOfNat 2, qOfNat 2), (qOfNat 1, Op.add, qOfNat 2, qOfNat 3)]), (qOfNat 1, [qOfNat 1, qOfNat 1], [(qOfNat 1, Op.add, qOfNat 1, qOfNat 2), (qOfNat 1, Op.div, qOfNat 1, qOfNat 1), (qOfNat 1, Op.mul, qOfNat 2, qOfNat 2), (qOfNat 2, Op.sub, qOfNat 1, qOfNat 1)]), (qOfNat 2, [qOfNat 1, qOfNat 2], [(qOfNat 1, Op.add, qOfNat 1, qOfNat 2), (qOfNat 1, Op.div, qOfNat 1, qOfNat 1), (qOfNat 1, Op.mul, qOfNat 2, qOfNat 2), (qOfNat 2, Op.div, qOfNat 1, qOfNat 2)]), (qOfNat 3, [qOfNat 1, qOfNat 3], [(qOfNat 1, Op.add, qOfNat 1, qOfNat 2), (qOfNat 1, Op.div, qOfNat 1, qOfNat 1), (qOfNat 2, Op.div, qOfNat 1, qOfNat 2), (qOfNat 1, Op.add, qOfNat 2, qOfNat 3)]), (qOfNat 1, [qOfNat 1, qOfNat 1], [(qOfNat 1, Op.add, qOfNat 1, qOfNat 2), (qOfNat 1, Op.div, qOfNat 1, qOfNat 1), (qOfNat 2, Op.div, qOfNat 1, qOfNat 2), (qOfNat 2, Op.sub, qOfNat 1, qOfNat 1)]), (qOfNat 5, [qOfNat 1, qOfNat 5], [(qOfNat 1, Op.add, qOfNat 1, qOfNat 2), (qOfNat 1, Op.add, qOfNat 2, qOfNat 3), (qOfNat 1, Op.add, qOfNat 3, qOfNat 4), (qOfNat 1, Op.add, qOfNat 4, qOfNat 5)]), (qOfNat 4, [qOfNat 1, qOfNat 4], [(qOfNat 1, Op.add, qOfNat 1, qOfNat 2), (qOfNat 1, Op.add, qOfNat 2, qOfNat 3), (qOfNat 1, Op.add, qOfNat 3, qOfNat 4), (qOfNat 1, Op.mul, qOfNat 4, qOfNat 4)]), (qOfNat 3, [qOfNat 1, qOfNat 3], [(qOfNat 1, Op.add, qOfNat 1, qOfNat 2), (qOfNat 1, Op.add, qOfNat 2, qOfNat 3), (qOfNat 1, Op.add, qOfNat 3, qOfNat 4), (qOfNat 4, Op.sub, qOfNat 1, qOfNat 3)]), (qOfNat 4, [qOfNat 1, qOfNat 4], [(qOfNat 1, Op.add, qOfNat 1, qOfNat 2), (qOfNat 1, Op.add, qOfNat 2, qOfNat 3), (qOfNat 1, Op.add, qOfNat 3, qOfNat 4), (qOfNat 4, Op.div, qOfNat 1, qOfNat 4)]), (qOfNat 4, [qOfNat 1, qOfNat 4], [(qOfNat 1, Op.add, qOfNat 1, qOfNat 2), (qOfNat 1, Op.add, qOfNat 2, qOfNat 3), (qOfNat 1, Op.mul, qOfNat 3, qOfNat 3), (qOfNat 1, Op.add, qOfNat 3, qOfNat 4)]), (qOfNat 2, [qOfNat 1, qOfNat 2], [(qOfNat 1, Op.add, qOfNat 1, qOfNat 2), (qOfNat 1, Op.add, qOfNat 2, qOfNat 3), (qOfNat 1, Op.mul, qOfNat 3, qOfNat 3), (qOfNat 3, Op.sub, qOfNat 1, qOfNat 2)]), (qOfNat 3, [qOfNat 1, qOfNat 3], [(qOfNat 1, Op.add, qOfNat 1, qOfNat 2), (qOfNat 1, Op.add, qOfNat 2, qOfNat 3), (qOfNat 1, Op.mul, qOfNat 3, qOfNat 3), (qOfNat 3, Op.div, qOfNat 1, qOfNat 3)]), (qOfNat 2, [qOfNat 1, qOfNat 2], [(qOfNat 1, Op.add, qOfNat 1, qOfNat 2), (qOfNat 1, Op.add, qOfNat 2, qOfNat 3), (qOfNat 3, Op.sub, qOfNat 1, qOfNat 2), (qOfNat 1, Op.mul, qOfNat 2, qOfNat 2)]), (qOfNat 1, [qOfNat 1, qOfNat 1], [(qOfNat 1, Op.add, qOfNat 1, qOfNat 2), (qOfNat 1, Op.add, qOfNat 2, qOfNat 3), (qOfNat 3, Op.sub, qOfNat 1, qOfNat 2), (qOfNat 2, Op.sub, qOfNat 1, qOfNat 1)]), (qOfNat 2, [qOfNat 1, qOfNat 2], [(qOfNat 1, Op.add, qOfNat 1, qOfNat 2), (qOfNat 1, Op.add, qOfNat 2, qOfNat 3), (qOfNat 3, Op.sub, qOfNat 1, qOfNat 2), (qOfNat 2, Op.div, qOfNat 1, qOfNat 2)]), (qOfNat 4, [qOfNat 1, qOfNat 4], [(qOfNat 1, Op.add, qOfNat 1, qOfNat 2), (qOfNat 1, Op.add, qOfNat 2, qOfNat 3), (qOfNat 3, Op.div, qOfNat 1, qOfNat 3), (qOfNat 1, Op.add, qOfNat 3, qOfNat 4)]), (qOfNat 2, [qOfNat 1, qOfNat 2], [(qOfNat 1, Op.add, qOfNat 1, qOfNat 2), (qOfNat 1, Op.add, qOfNat 2, qOfNat 3), (qOfNat 3, Op.div, qOfNat 1, qOfNat 3), (qOfNat 3, Op.sub, qOfNat 1, qOfNat 2)]), (qOfNat 4, [qOfNat 1, qOfNat 4], [(qOfNat 1, Op.add, qOfNat 1, qOfNat 2), (qOfNat 1, Op.mul, qOfNat 2, qOfNat 2), (qOfNat 1, Op.add, qOfNat 2, qOfNat 3), (qOfNat 1, Op.add, qOfNat 3, qOfNat 4)]), (qOfNat 3, [qOfNat 1, qOfNat 3], [(qOfNat 1, Op.add, qOfNat 1, qOfNat 2), (qOfNat 1, Op.mul, qOfNat 2, qOfNat 2), (qOfNat 1, Op.add, qOfNat 2, qOfNat 3), (qOfNat 1, Op.mul, qOfNat 3, qOfNat 3)]), (qOfNat 3, [qOfNat 1, qOfNat 3], [(qOfNat 1, Op.add, qOfNat 1, qOfNat 2), (qOfNat 1, Op.mul, qOfNat 2, qOfNat 2), (qOfNat 1, Op.add, qOfNat 2, qOfNat 3), (qOfNat 3, Op.div, qOfNat 1, qOfNat 3)]), (qOfNat 3, [qOfNat 1, qOfNat 3], [(qOfNat 1, Op.add, qOfNat 1, qOfNat 2), (qOfNat 1, Op.mul, qOfNat 2, qOfNat 2), (qOfNat 2, Op.div, qOfNat 1, qOfNat 2), (qOfNat 1, Op.add, qOfNat 2, qOfNat 3)]), (qOfNat 1, [qOfNat 1, qOfNat 1], [(qOfNat 1, Op.add, qOfNat 1, qOfNat 2), (qOfNat 1, Op.mul, qOfNat 2, qOfNat 2), (qOfNat 2, Op.div, qOfNat 1, qOfNat 2), (qOfNat 2, Op.sub, qOfNat 1, qOfNat 1)]), (qOfNat 4, [qOfNat 1, qOfNat 4], [(qOfNat 1, Op.add, qOfNat 1, qOfNat 2), (qOfNat 2, Op.div, qOfNat 1, qOfNat 2), (qOfNat 1, Op.add, qOfNat 2, qOfNat 3), (qOfNat 1, Op.add, qOfNat 3, qOfNat 4)]), (qOfNat 3, [qOfNat 1, qOfNat 3], [(qOfNat 1, Op.add, qOfNat 1, qOfNat 2), (qOfNat 2, Op.div, qOfNat 1, qOfNat 2), (qOfNat 1, Op.add, qOfNat 2, qOfNat 3), (qOfNat 1, Op.mul, qOfNat 3, qOfNat 3)]), (qOfNat 3, [qOfNat 1, qOfNat 3], [(qOfNat 1, Op.add, qOfNat 1, qOfNat 2), (qOfNat 2, Op.div, qOfNat 1, qOfNat 2), (qOfNat 1, Op.add, qOfNat 2, qOfNat 3), (qOfNat 3, Op.div, qOfNat 1, qOfNat 3)]), (qOfNat 4, [qOfNat 4], [(qOfNat 1, Op.add, qOfNat 1, qOfNat 2), (qOfNat 1, Op.mul, qOfNat 1, qOfNat 1), (qOfNat 1, Op.div, qOfNat 1, qOfNat 1), (qOfNat 2, Op.add, qOfNat 1, qOfNat 3), (qOfNat 1, Op.add, qOfNat 3, qOfNat 4)]), (qOfNat 3, [qOfNat 3], [(qOfNat 1, Op.add, qOfNat 1, qOfNat 2), (qOfNat 1, Op.mul, qOfNat 1, qOfNat 1), (qOfNat 1, Op.div, qOfNat 1, qOfNat 1), (qOfNat 2, Op.add, qOfNat 1, qOfNat 3), (qOfNat 1, Op.mul, qOfNat 3, qOfNat 3)]), (qOfNat 2, [qOfNat 2], [(qOfNat 1, Op.add, qOfNat 1, qOfNat 2), (qOfNat 1, Op.mul, qOfNat 1, qOfNat 1), (qOfNat 1, Op.div, qOfNat 1, qOfNat 1), (qOfNat 2, Op.add, qOfNat 1, qOfNat 3), (qOfNat 3, Op.sub, qOfNat 1, qOfNat 2)]), (qOfNat 3, [qOfNat 3], [(qOfNat 1, Op.add, qOfNat 1, qOfNat 2), (qOfNat 1, Op.mul, qOfNat 1, qOfNat 1), (qOfNat 1, Op.div, qOfNat 1, qOfNat 1), (qOfNat 2, Op.add, qOfNat 1, qOfNat 3), (qOfNat 3, Op.div, qOfNat 1, qOfNat 3)]), (qOfNat 3, [qOfNat 3], [(qOfNat 1, Op.add, qOfNat 1, qOfNat 2), (qOfNat 1, Op.mul, qOfNat 1, qOfNat 1), (qOfNat 1, Op.div, qOfNat 1, qOfNat 1), (qOfNat 2, Op.mul, qOfNat 1, qOfNat 2), (qOfNat 1, Op.add, qOfNat 2, qOfNat 3)]), (qOfNat 1, [qOfNat 1], [(qOfNat 1, Op.add, qOfNat 1, qOfNat 2), (qOfNat 1, Op.mul, qOfNat 1, qOfNat 1), (qOfNat 1, Op.div, qOfNat 1, qOfNat 1), (qOfNat 2, Op.mul, qOfNat 1, qOfNat 2), (qOfNat 2, Op.sub, qOfNat 1, qOfNat 1)]), (qOfNat 2, [qOfNat 2], [(qOfNat 1, Op.add, qOfNat 1, qOfNat 2), (qOfNat 1, Op.mul, qOfNat 1, qOfNat 1), (qOfNat 1, Op.div, qOfNat 1, qOfNat 1), (qOfNat 2, Op.mul, qOfNat 1, qOfNat 2), (qOfNat 2, Op.div, qOfNat 1, qOfNat 2)]), (qOfNat 3, [qOfNat 3], [(qOfNat 1, Op.add, qOfNat 1, qOfNat 2), (qOfNat 1, Op.mul, qOfNat 1, qOfNat 1), (qOfNat 1, Op.div, qOfNat 1, qOfNat 1), (qOfNat 2, Op.div, qOfNat 1, qOfNat 2), (qOfNat 1, Op.add, qOfNat 2, qOfNat 3)]), (qOfNat 1, [qOfNat 1], [(qOfNat 1, Op.add, qOfNat 1, qOfNat 2), (qOfNat 1, Op.mul, qOfNat 1, qOfNat 1), (qOfNat 1, Op.div, qOfNat 1, qOfNat 1), (qOfNat 2, Op.div, qOfNat 1, qOfNat 2), (qOfNat 2, Op.sub, qOfNat 1, qOfNat 1)]), (qOfNat 4, [qOfNat 4], [(qOfNat 1, Op.add, qOfNat 1, qOfNat 2), (qOfNat 1, Op.mul, qOfNat 1, qOfNat 1), (qOfNat 1, Op.add, qOfNat 2, qOfNat 3), (qOfNat 1, Op.div, qOfNat 1, qOfNat 1), (qOfNat 3, Op.add, qOfNat 1, qOfNat 4)]), (qOfNat 2, [qOfNat 2], [(qOfNat 1, Op.add, qOfNat 1, qOfNat 2), (qOfNat 1, Op.mul, qOfNat 1, qOfNat 1), (qOfNat 1, Op.add, qOfNat 2, qOfNat 3), (qOfNat 1, Op.div, qOfNat 1, qOfNat 1), (qOfNat 3, Op.sub, qOfNat 1, qOfNat 2)]), (qOfNat 3, [qOfNat 3], [(qOfNat 1, Op.add, qOfNat 1, qOfNat 2), (qOfNat 1, Op.mul, qOfNat 1, qOfNat 1), (qOfNat 1, Op.add, qOfNat 2, qOfNat 3), (qOfNat 1, Op.div, qOfNat 1, qOfNat 1), (qOfNat 3, Op.mul, qOfNat 1, qOfNat 3)]), (qOfNat 3, [qOfNat 3], [(qOfNat 1, Op.add, qOfNat 1, qOfNat 2), (qOfNat 1, Op.mul, qOfNat 1, qOfNat 1), (qOfNat 1, Op.add, qOfNat 2, qOfNat 3), (qOfNat 1, Op.div, qOfNat 1, qOfNat 1), (qOfNat 3, Op.div, qOfNat 1, qOfNat 3)]), (qOfNat 5, [qOfNat 5], [(qOfNat 1, Op.add, qOfNat 1, qOfNat 2), (qOfNat 1, Op.mul, qOfNat 1, qOfNat 1), (qOfNat 1, Op.add, qOfNat 2, qOfNat 3), (qOfNat 1, Op.add, qOfNat 3, qOfNat 4), (qOfNat 1, Op.add, qOfNat 4, qOfNat 5)]), (qOfNat 4, [qOfNat 4], [(qOfNat 1, Op.add, qOfNat 1, qOfNat 2), (qOfNat 1, Op.mul, qOfNat 1, qOfNat 1), (qOfNat 1, Op.add, qOfNat 2, qOfNat 3), (qOfNat 1, Op.add, qOfNat 3, qOfNat 4), (qOfNat 1, Op.mul, qOfNat 4, qOfNat 4)]), (qOfNat 3, [qOfNat 3], [(qOfNat 1, Op.add, qOfNat 1, qOfNat 2), (qOfNat 1, Op.mul, qOfNat 1, qOfNat 1), (qOfNat 1, Op.add, qOfNat 2, qOfNat 3), (qOfNat 1, Op.add, qOfNat 3, qOfNat 4), (qOfNat 4, Op.sub, qOfNat 1, qOfNat 3)]), (qOfNat 4, [qOfNat 4], [(qOfNat 1, Op.add, qOfNat 1, qOfNat 2), (qOfNat 1, Op.mul, qOfNat 1, qOfNat 1), (qOfNat 1, Op.add, qOfNat 2, qOfNat 3), (qOfNat 1, Op.add, qOfNat 3, qOfNat 4), (qOfNat 4, Op.div, qOfNat 1, qOfNat 4)]), (qOfNat 4, [qOfNat 4], [(qOfNat 1, Op.add, qOfNat 1, qOfNat 2), (qOfNat 1, Op.mul, qOfNat 1, qOfNat 1), (qOfNat 1, Op.add, qOfNat 2, qOfNat 3), (qOfNat 1, Op.mul, qOfNat 3, qOfNat 3), (qOfNat 1, Op.add, qOfNat 3, qOfNat 4)]), (qOfNat 2, [qOfNat 2], [(qOfNat 1, Op.add, qOfNat 1, qOfNat 2), (qOfNat 1, Op.mul, qOfNat 1, qOfNat 1), (qOfNat 1, Op.add, qOfNat 2, qOfNat 3), (qOfNat 1, Op.mul, qOfNat 3, qOfNat 3), (qOfNat 3, Op.sub, qOfNat 1, qOfNat 2)]), (qOfNat 3, [qOfNat 3], [(qOfNat 1, Op.add, qOfNat 1, qOfNat 2), (qOfNat 1, Op.mul, qOfNat 1, qOfNat 1), (qOfNat 1, Op.add, qOfNat 2, qOfNat 3), (qOfNat 1, Op.mul, qOfNat 3, qOfNat 3), (qOfNat 3, Op.div, qOfNat 1, qOfNat 3)]), (qOfNat 2, [qOfNat 2], [(qOfNat 1, Op.add, qOfNat 1, qOfNat 2), (qOfNat 1, Op.mul, qOfNat 1, qOfNat 1), (qOfNat 1, Op.add, qOfNat 2, qOfNat 3), (qOfNat 3, Op.sub, qOfNat 1, qOfNat 2), (qOfNat 1, Op.mul, qOfNat 2, qOfNat 2)]), (qOfNat 1, [qOfNat 1], [(qOfNat 1, Op.add, qOfNat 1, qOfNat 2), (qOfNat 1, Op.mul, qOfNat 1, qOfNat 1), (qOfNat 1, Op.add, qOfNat 2, qOfNat 3), (qOfNat 3, Op.sub, qOfNat 1, qOfNat 2), (qOfNat 2, Op.sub, qOfNat 1, qOfNat 1)]), (qOfNat 2, [qOfNat 2], [(qOfNat 1, Op.add, qOfNat 1, qOfNat 2), (qOfNat 1, Op.mul, qOfNat 1, qOfNat 1), (qOfNat 1, Op.add, qOfNat 2, qOfNat 3), (qOfNat 3, Op.sub, qOfNat 1, qOfNat 2), (qOfNat 2, Op.div, qOfNat 1, qOfNat 2)]), (qOfNat 4, [qOfNat 4], [(qOfNat 1, Op.add, qOfNat 1, qOfNat 2), (qOfNat 1, Op.mul, qOfNat 1, qOfNat 1), (qOfNat 1, Op.add, qOfNat 2, qOfNat 3), (qOfNat 3, Op.div, qOfNat 1, qOfNat 3), (qOfNat 1, Op.add, qOfNat 3, qOfNat 4)]), (qOfNat 2, [qOfNat 2], [(qOfNat 1, Op.add, qOfNat 1, qOfNat 2), (qOfNat 1, Op.mul, qOfNat 1, qOfNat 1), (qOfNat 1, Op.add, qOfNat 2, qOfNat 3), (qOfNat 3, Op.div, qOfNat 1, qOfNat 3), (qOfNat 3, Op.sub, qOfNat 1, qOfNat 2)]), (qOfNat 3, [qOfNat 3], [(qOfNat 1, Op.add, qOfNat 1, qOfNat 2), (qOfNat 1, Op.mul, qOfNat 1, qOfNat 1), (qOfNat 1, Op.mul, qOfNat 2, qOfNat 2), (qOfNat 1, Op.div, qOfNat 1, qOfNat 1), (qOfNat 2, Op.add, qOfNat 1, qOfNat 3)]), (qOfNat 1, [qOfNat 1], [(qOfNat 1, Op.add, qOfNat 1, qOfNat 2), (qOfNat 1, Op.mul, qOfNat 1, qOfNat 1), (qOfNat 1, Op.mul, qOfNat 2, qOfNat 2), (qOfNat 1, Op.div, qOfNat 1, qOfNat 1), (qOfNat 2, Op.sub, qOfNat 1, qOfNat 1)]), (qOfNat 2, [qOfNat 2], [(qOfNat 1, Op.add, qOfNat 1, qOfNat 2), (qOfNat 1, Op.mul, qOfNat 1, qOfNat 1), (qOfNat 1, Op.mul, qOfNat 2, qOfNat 2), (qOfNat 1, Op.div, qOfNat 1, qOfNat 1), (qOfNat 2, Op.div, qOfNat 1, qOfNat 2)]), (qOfNat 4, [qOfNat 4], [(qOfNat 1, Op.add, qOfNat 1, qOfNat 2), (qOfNat 1, Op.mul, qOfNat 1, qOfNat 1), (qOfNat 1, Op.mul, qOfNat 2, qOfNat 2), (qOfNat 1, Op.add, qOfNat 2, qOfNat 3), (qOfNat 1, Op.add, qOfNat 3, qOfNat 4)]), (qOfNat 3, [qOfNat 3], [(qOfNat 1, Op.add, qOfNat 1, qOfNat 2), (qOfNat 1, Op.mul, qOfNat 1, qOfNat 1), (qOfNat 1, Op.mul, qOfNat 2, qOfNat 2), (qOfNat 1, Op.add, qOfNat 2, qOfNat 3), (qOfNat 1, Op.mul, qOfNat 3, qOfNat 3)]), (qOfNat 3, [qOfNat 3], [(qOfNat 1, Op.add, qOfNat 1, qOfNat 2), (qOfNat 1, Op.mul, qOfNat 1, qOfNat 1), (qOfNat 1, Op.mul, qOfNat 2, qOfNat 2), (qOfNat 1, Op.add, qOfNat 2, qOfNat 3), (qOfNat 3, Op.div, qOfNat 1, qOfNat 3)])]

/-- Seen path fingerprints of the same run after 40 iterations. -/
def traceU4 : List (List Oper) :=
  [[(qOfNat 1, Op.add, qOfNat 1, qOfNat 2)], [(qOfNat 1, Op.mul, qOfNat 1, qOfNat 1)], [(qOfNat 1, Op.div, qOfNat 1, qOfNat 1)], [(qOfNat 1, Op.add, qOfNat 1, qOfNat 2), (qOfNat 1, Op.mul, qOfNat 1, qOfNat 1)], [(qOfNat 1, Op.add, qOfNat 1, qOfNat 2), (qOfNat 1, Op.div, qOfNat 1, qOfNat 1)], [(qOfNat 1, Op.add, qOfNat 1, qOfNat 2), (qOfNat 1, Op.add, qOfNat 2, qOfNat 3)], [(qOfNat 1, Op.add, qOfNat 1, qOfNat 2), (qOfNat 1, Op.mul, qOfNat 2, qOfNat 2)], [(qOfNat 1, Op.add, qOfNat 1, qOfNat 2), (qOfNat 2, Op.sub, qOfNat 1, qOfNat 1)], [(qOfNat 1, Op.add, qOfNat 1, qOfNat 2), (qOfNat 2, Op.div, qOfNat 1, qOfNat 2)], [(qOfNat 1, Op.mul, qOfNat 1, qOfNat 1), (qOfNat 1, Op.div, qOfNat 1, qOfNat 1)], [(qOfNat 1, Op.add, qOfNat 1, qOfNat 2), (qOfNat 1, Op.mul, qOfNat 1, qOfNat 1), (qOfNat 1, Op.div, qOfNat 1, qOfNat 1)], [(qOfNat 1, Op.add, qOfNat 1, qOfNat 2), (qOfNat 1, Op.mul, qOfNat 1, qOfNat 1), (qOfNat 1, Op.add, qOfNat 2, qOfNat 3)], [(qOfNat 1, Op.add, qOfNat 1, qOfNat 2), (qOfNat 1, Op.mul, qOfNat 1, qOfNat 1), (qOfNat 1, Op.mul, qOfNat 2, qOfNat 2)], [(qOfNat 1, Op.add, qOfNat 1, qOfNat 2), (qOfNat 1, Op.mul, qOfNat 1, qOfNat 1), (qOfNat 2, Op.sub, qOfNat 1, qOfNat 1)], [(qOfNat 1, Op.add, qOfNat 1, qOfNat 2), (qOfNat 1, Op.mul, qOfNat 1, qOfNat 1), (qOfNat 2, Op.div, qOfNat 1, qOfNat 2)], [(qOfNat 1, Op.add, qOfNat 1, qOfNat 2), (qOfNat 1, Op.div, qOfNat 1, qOfNat 1), (qOfNat 1, Op.add, qOfNat 2, qOfNat 3)], [(qOfNat 1, Op.add, qOfNat 1, qOfNat 2), (qOfNat 1, Op.div, qOfNat 1, qOfNat 1), (qOfNat 1, Op.mul, qOfNat 2, qOfNat 2)], [(qOfNat 1, Op.add, qOfNat 1, qOfNat 2), (qOfNat 1, Op.div, qOfNat 1, qOfNat 1), (qOfNat 2, Op.sub, qOfNat 1, qOfNat 1)], [(qOfNat 1, Op.add, qOfNat 1, qOfNat 2), (qOfNat 1, Op.div, qOfNat 1, qOfNat 1), (qOfNat 2, Op.div, qOfNat 1, qOfNat 2)], [(qOfNat 1, Op.add, qOfNat 1, qOfNat 2), (qOfNat 1, Op.add, qOfNat 2, qOfNat 3), (qOfNat 1, Op.add, qOfNat 3, qOfNat 4)], [(qOfNat 1, Op.add, qOfNat 1, qOfNat 2), (qOfNat 1, Op.add, qOfNat 2, qOfNat 3), (qOfNat 1, Op.mul, qOfNat 3, qOfNat 3)], [(qOfNat 1, Op.add, qOfNat 1, qOfNat 2), (qOfNat 1, Op.add, qOfNat 2, qOfNat 3), (qOfNat 3, Op.sub, qOfNat 1, qOfNat 2)], [(qOfNat 1, Op.add, qOfNat 1, qOfNat 2), (qOfNat 1, Op.add, qOfNat 2, qOfNat 3), (qOfNat 3, Op.div, qOfNat 1, qOfNat 3)], [(qOfNat 1, Op.add, qOfNat 1, qOfNat 2), (qOfNat 1, Op.mul, qOfNat 2, qOfNat 2), (qOfNat 1, Op.add, qOfNat 2, qOfNat 3)], [(qOfNat 1, Op.add, qOfNat 1, qOfNat 2), (qOfNat 1, Op.mul, qOfNat 2, qOfNat 2), (qOfNat 2, Op.sub, qOfNat 1, qOfNat 1)], [(qOfNat 1, Op.add, qOfNat 1, qOfNat 2), (qOfNat 1, Op.mul, qOfNat 2, qOfNat 2), (qOfNat 2, Op.div, qOfNat 1, qOfNat 2)], [(qOfNat 1, Op.add, qOfNat 1, qOfNat 2), (qOfNat 2, Op.div, qOfNat 1, qOfNat 2), (qOfNat 1, Op.add, qOfNat 2, qOfNat 3)], [(qOfNat 1, Op.add, qOfNat 1, qOfNat 2), (qOfNat 2, Op.div, qOfNat 1, qOfNat 2), (qOfNat 2, Op.sub, qOfNat 1, qOfNat 1)], [(qOfNat 1, Op.add, qOfNat 1, qOfNat 2), (qOfNat 1, Op.mul, qOfNat 1, qOfNat 1), (qOfNat 1, Op.div, qOfNat 1, qOfNat 1), (qOfNat 2, Op.add, qOfNat 1, qOfNat 3)], [(qOfNat 1, Op.add, qOfNat 1, qOfNat 2), (qOfNat 1, Op.mul, qOfNat 1, qOfNat 1), (qOfNat 1, Op.div, qOfNat 1, qOfNat 1), (qOfNat 2, Op.sub, qOfNat 1, qOfNat 1)], [(qOfNat 1, Op.add, qOfNat 1, qOfNat 2), (qOfNat 1, Op.mul, qOfNat 1, qOfNat 1), (qOfNat 1, Op.div, qOfNat 1, qOfNat 1), (qOfNat 2, Op.mul, qOfNat 1, qOfNat 2)], [(qOfNat 1, Op.add, qOfNat 1, qOfNat 2), (qOfNat 1, Op.mul, qOfNat 1, qOfNat 1), (qOfNat 1, Op.div, qOfNat 1, qOfNat 1), (qOfNat 2, Op.div, qOfNat 1, qOfNat 2)], [(qOfNat 1, Op.add, qOfNat 1, qOfNat 2), (qOfNat 1, Op.mul, qOfNat 1, qOfNat 1), (qOfNat 1, Op.add, qOfNat 2, qOfNat 3), (qOfNat 1, Op.div, qOfNat 1, qOfNat 1)], [(qOfNat 1, Op.add, qOfNat 1, qOfNat 2), (qOfNat 1, Op.mul, qOfNat 1, qOfNat 1), (qOfNat 1, Op.add, qOfNat 2, qOfNat 3), (qOfNat 1, Op.add, qOfNat 3, qOfNat 4)], [(qOfNat 1, Op.add, qOfNat 1, qOfNat 2), (qOfNat 1, Op.mul, qOfNat 1, qOfNat 1), (qOfNat 1, Op.add, qOfNat 2, qOfNat 3), (qOfNat 1, Op.mul, qOfNat 3, qOfNat 3)], [(qOfNat 1, Op.add, qOfNat 1, qOfNat 2), (qOfNat 1, Op.mul, qOfNat 1, qOfNat 1), (qOfNat 1, Op.add, qOfNat 2, qOfNat 3), (qOfNat 3, Op.sub, qOfNat 1, qOfNat 2)], [(qOfNat 1, Op.add, qOfNat 1, qOfNat 2), (qOfNat 1, Op.mul, qOfNat 1, qOfNat 1), (qOfNat 1, Op.add, qOfNat 2, qOfNat 3), (qOfNat 3, Op.div, qOfNat 1, qOfNat 3)], [(qOfNat 1, Op.add, qOfNat 1, qOfNat 2), (qOfNat 1, Op.mul, qOfNat 1, qOfNat 1), (qOfNat 1, Op.mul, qOfNat 2, qOfNat 2), (qOfNat 1, Op.div, qOfNat 1, qOfNat 1)], [(qOfNat 1, Op.add, qOfNat 1, qOfNat 2), (qOfNat 1, Op.mul, qOfNat 1, qOfNat 1), (qOfNat 1, Op.mul, qOfNat 2, qOfNat 2), (qOfNat 1, Op.add, qOfNat 2, qOfNat 3)], [(qOfNat 1, Op.add, qOfNat 1, qOfNat 2), (qOfNat 1, Op.mul, qOfNat 1, qOfNat 1), (qOfNat 1, Op.mul, qOfNat 2, qOfNat 2), (qOfNat 2, Op.sub, qOfNat 1, qOfNat 1)], [(qOfNat 1, Op.add, qOfNat 1, qOfNat 2), (qOfNat 1, Op.mul, qOfNat 1, qOfNat 1), (qOfNat 1, Op.mul, qOfNat 2, qOfNat 2), (qOfNat 2, Op.div, qOfNat 1, qOfNat 2)], [(qOfNat 1, Op.add, qOfNat 1, qOfNat 2), (qOfNat 1, Op.mul, qOfNat 1, qOfNat 1), (qOfNat 2, Op.div, qOfNat 1, qOfNat 2), (qOfNat 1, Op.add, qOfNat 2, qOfNat 3)], [(qOfNat 1, Op.add, qOfNat 1, qOfNat 2), (qOfNat 1, Op.mul, qOfNat 1, qOfNat 1), (qOfNat 2, Op.div, qOfNat 1, qOfNat 2), (qOfNat 2, Op.sub, qOfNat 1, qOfNat 1)], [(qOfNat 1, Op.add, qOfNat 1, qOfNat 2), (qOfNat 1, Op.div, qOfNat 1, qOfNat 1), (qOfNat 1, Op.add, qOfNat 2, qOfNat 3), (qOfNat 1, Op.add, qOfNat 3, qOfNat 4)], [(qOfNat 1, Op.add, qOfNat 1, qOfNat 2), (qOfNat 1, Op.div, qOfNat 1, qOfNat 1), (qOfNat 1, Op.add, qOfNat 2, qOfNat 3), (qOfNat 1, Op.mul, qOfNat 3, qOfNat 3)], [(qOfNat 1, Op.add, qOfNat 1, qOfNat 2), (qOfNat 1, Op.div, qOfNat 1, qOfNat 1), (qOfNat 1, Op.add, qOfNat 2, qOfNat 3), (qOfNat 3, Op.sub, qOfNat 1, qOfNat 2)], [(qOfNat 1, Op.add, qOfNat 1, qOfNat 2), (qOfNat 1, Op.div, qOfNat 1, qOfNat 1), (qOfNat 1, Op.add, qOfNat 2, qOfNat 3), (qOfNat 3, Op.div, qOfNat 1, qOfNat 3)], [(qOfNat 1, Op.add, qOfNat 1, qOfNat 2), (qOfNat 1, Op.div, qOfNat 1, qOfNat 1), (qOfNat 1, Op.mul, qOfNat 2, qOfNat 2), (qOfNat 1, Op.add, qOfNat 2, qOfNat 3)], [(qOfNat 1, Op.add, qOfNat 1, qOfNat 2), (qOfNat 1, Op.div, qOfNat 1, qOfNat 1), (qOfNat 1, Op.mul, qOfNat 2, qOfNat 2), (qOfNat 2, Op.sub, qOfNat 1, qOfNat 1)], [(qOfNat 1, Op.add, qOfNat 1, qOfNat 2), (qOfNat 1, Op.div, qOfNat 1, qOfNat 1), (qOfNat 1, Op.mul, qOfNat 2, qOfNat 2), (qOfNat 2, Op.div, qOfNat 1, qOfNat 2)], [(qOfNat 1, Op.add, qOfNat 1, qOfNat 2), (qOfNat 1, Op.div, qOfNat 1, qOfNat 1), (qOfNat 2, Op.div, qOfNat 1, qOfNat 2), (qOfNat 1, Op.add, qOfNat 2, qOfNat 3)], [(qOfNat 1, Op.add, qOfNat 1, qOfNat 2), (qOfNat 1, Op.div, qOfNat 1, qOfNat 1), (qOfNat 2, Op.div, qOfNat 1, qOfNat 2), (qOfNat 2, Op.sub, qOfNat 1, qOfNat 1)], [(qOfNat 1, Op.add, qOfNat 1, qOfNat 2), (qOfNat 1, Op.add, qOfNat 2, qOfNat 3), (qOfNat 1, Op.add, qOfNat 3, qOfNat 4), (qOfNat 1, Op.add, qOfNat 4, qOfNat 5)], [(qOfNat 1, Op.add, qOfNat 1, qOfNat 2), (qOfNat 1, Op.add, qOfNat 2, qOfNat 3), (qOfNat 1, Op.add, qOfNat 3, qOfNat 4), (qOfNat 1, Op.mul, qOfNat 4, qOfNat 4)], [(qOfNat 1, Op.add, qOfNat 1, qOfNat 2), (qOfNat 1, Op.add, qOfNat 2, qOfNat 3), (qOfNat 1, Op.add, qOfNat 3, qOfNat 4), (qOfNat 4, Op.sub, qOfNat 1, qOfNat 3)], [(qOfNat 1, Op.add, qOfNat 1, qOfNat 2), (qOfNat 1, Op.add, qOfNat 2, qOfNat 3), (qOfNat 1, Op.add, qOfNat 3, qOfNat 4), (qOfNat 4, Op.div, qOfNat 1, qOfNat 4)], [(qOfNat 1, Op.add, qOfNat 1, qOfNat 2), (qOfNat 1, Op.add, qOfNat 2, qOfNat 3), (qOfNat 1, Op.mul, qOfNat 3, qOfNat 3), (qOfNat 1, Op.add, qOfNat 3, qOfNat 4)], [(qOfNat 1, Op.add, qOfNat 1, qOfNat 2), (qOfNat 1, Op.add, qOfNat 2, qOfNat 3), (qOfNat 1, Op.mul, qOfNat 3, qOfNat 3), (qOfNat 3, Op.sub, qOfNat 1, qOfNat 2)], [(qOfNat 1, Op.add, qOfNat 1, qOfNat 2), (qOfNat 1, Op.add, qOfNat 2, qOfNat 3), (qOfNat 1, Op.mul, qOfNat 3, qOfNat 3), (qOfNat 3, Op.div, qOfNat 1, qOfNat 3)], [(qOfNat 1, Op.add, qOfNat 1, qOfNat 2), (qOfNat 1, Op.add, qOfNat 2, qOfNat 3), (qOfNat 3, Op.sub, qOfNat 1, qOfNat 2), (qOfNat 1, Op.mul, qOfNat 2, qOfNat 2)], [(qOfNat 1, Op.add, qOfNat 1, qOfNat 2), (qOfNat 1, Op.add, qOfNat 2, qOfNat 3), (qOfNat 3, Op.sub, qOfNat 1, qOfNat 2), (qOfNat 2, Op.sub, qOfNat 1, qOfNat 1)], [(qOfNat 1, Op.add, qOfNat 1, qOfNat 2), (qOfNat 1, Op.add, qOfNat 2, qOfNat 3), (qOfNat 3, Op.sub, qOfNat 1, qOfNat 2), (qOfNat 2, Op.div, qOfNat 1, qOfNat 2)], [(qOfNat 1, Op.add, qOfNat 1, qOfNat 2), (qOfNat 1, Op.add, qOfNat 2, qOfNat 3), (qOfNat 3, Op.div, qOfNat 1, qOfNat 3), (qOfNat 1, Op.add, qOfNat 3, qOfNat 4)], [(qOfNat 1, Op.add, qOfNat 1, qOfNat 2), (qOfNat 1, Op.add, qOfNat 2, qOfNat 3), (qOfNat 3, Op.div, qOfNat 1, qOfNat 3), (qOfNat 3, Op.sub, qOfNat 1, qOfNat 2)], [(qOfNat 1, Op.add, qOfNat 1, qOfNat 2), (qOfNat 1, Op.mul, qOfNat 2, qOfNat 2), (qOfNat 1, Op.add, qOfNat 2, qOfNat 3), (qOfNat 1, Op.add, qOfNat 3, qOfNat 4)], [(qOfNat 1, Op.add, qOfNat 1, qOfNat 2), (qOfNat 1, Op.mul, qOfNat 2, qOfNat 2), (qOfNat 1, Op.add, qOfNat 2, qOfNat 3), (qOfNat 1, Op.mul, qOfNat 3, qOfNat 3)], [(qOfNat 1, Op.add, qOfNat 1, qOfNat 2), (qOfNat 1, Op.mul, qOfNat 2, qOfNat 2), (qOfNat 1, Op.add, qOfNat 2, qOfNat 3), (qOfNat 3, Op.div, qOfNat 1, qOfNat 3)], [(qOfNat 1, Op.add, qOfNat 1, qOfNat 2), (qOfNat 1, Op.mul, qOfNat 2, qOfNat 2), (qOfNat 2, Op.div, qOfNat 1, qOfNat 2), (qOfNat 1, Op.add, qOfNat 2, qOfNat 3)], [(qOfNat 1, Op.add, qOfNat 1, qOfNat 2), (qOfNat 1, Op.mul, qOfNat 2, qOfNat 2), (qOfNat 2, Op.div, qOfNat 1, qOfNat 2), (qOfNat 2, Op.sub, qOfNat 1, qOfNat 1)], [(qOfNat 1, Op.add, qOfNat 1, qOfNat 2), (qOfNat 2, Op.div, qOfNat 1, qOfNat 2), (qOfNat 1, Op.add, qOfNat 2, qOfNat 3), (qOfNat 1, Op.add, qOfNat 3, qOfNat 4)], [(qOfNat 1, Op.add, qOfNat 1, qOfNat 2), (qOfNat 2, Op.div, qOfNat 1, qOfNat 2), (qOfNat 1, Op.add, qOfNat 2, qOfNat 3), (qOfNat 1, Op.mul, qOfNat 3, qOfNat 3)], [(qOfNat 1, Op.add, qOfNat 1, qOfNat 2), (qOfNat 2, Op.div, qOfNat 1, qOfNat 2), (qOfNat 1, Op.add, qOfNat 2, qOfNat 3), (qOfNat 3, Op.div, qOfNat 1, qOfNat 3)], [(qOfNat 1, Op.add, qOfNat 1, qOfNat 2), (qOfNat 1, Op.mul, qOfNat 1, qOfNat 1), (qOfNat 1, Op.div, qOfNat 1, qOfNat 1), (qOfNat 2, Op.add, qOfNat 1, qOfNat 3), (qOfNat 1, Op.add, qOfNat 3, qOfNat 4)], [(qOfNat 1, Op.add, qOfNat 1, qOfNat 2), (qOfNat 1, Op.mul, qOfNat 1, qOfNat 1), (qOfNat 1, Op.div, qOfNat 1, qOfNat 1), (qOfNat 2, Op.add, qOfNat 1, qOfNat 3), (qOfNat 1, Op.mul, qOfNat 3, qOfNat 3)], [(qOfNat 1, Op.add, qOfNat 1, qOfNat 2), (qOfNat 1, Op.mul, qOfNat 1, qOfNat 1), (qOfNat 1, Op.div, qOfNat 1, qOfNat 1), (qOfNat 2, Op.add, qOfNat 1, qOfNat 3), (qOfNat 3, Op.sub, qOfNat 1, qOfNat 2)], [(qOfNat 1, Op.add, qOfNat 1, qOfNat 2), (qOfNat 1, Op.mul, qOfNat 1, qOfNat 1), (qOfNat 1, Op.div, qOfNat 1, qOfNat 1), (qOfNat 2, Op.add, qOfNat 1, qOfNat 3), (qOfNat 3, Op.div, qOfNat 1, qOfNat 3)], [(qOfNat 1, Op.add, qOfNat 1, qOfNat 2), (qOfNat 1, Op.mul, qOfNat 1, qOfNat 1), (qOfNat 1, Op.div, qOfNat 1, qOfNat 1), (qOfNat 2, Op.mul, qOfNat 1, qOfNat 2), (qOfNat 1, Op.add, qOfNat 2, qOfNat 3)], [(qOfNat 1, Op.add, qOfNat 1, qOfNat 2), (qOfNat 1, Op.mul, qOfNat 1, qOfNat 1), (qOfNat 1, Op.div, qOfNat 1, qOfNat 1), (qOfNat 2, Op.mul, qOfNat 1, qOfNat 2), (qOfNat 2, Op.sub, qOfNat 1, qOfNat 1)], [(qOfNat 1, Op.add, qOfNat 1, qOfNat 2), (qOfNat 1, Op.mul, qOfNat 1, qOfNat 1), (qOfNat 1, Op.div, qOfNat 1, qOfNat 1), (qOfNat 2, Op.mul, qOfNat 1, qOfNat 2), (qOfNat 2, Op.div, qOfNat 1, qOfNat 2)], [(qOfNat 1, Op.add, qOfNat 1, qOfNat 2), (qOfNat 1, Op.mul, qOfNat 1, qOfNat 1), (qOfNat 1, Op.div, qOfNat 1, qOfNat 1), (qOfNat 2, Op.div, qOfNat 1, qOfNat 2), (qOfNat 1, Op.add, qOfNat 2, qOfNat 3)], [(qOfNat 1, Op.add, qOfNat 1, qOfNat 2), (qOfNat 1, Op.mul, qOfNat 1, qOfNat 1), (qOfNat 1, Op.div, qOfNat 1, qOfNat 1), (qOfNat 2, Op.div, qOfNat 1, qOfNat 2), (qOfNat 2, Op.sub, qOfNat 1, qOfNat 1)], [(qOfNat 1, Op.add, qOfNat 1, qOfNat 2), (qOfNat 1, Op.mul, qOfNat 1, qOfNat 1), (qOfNat 1, Op.add, qOfNat 2, qOfNat 3), (qOfNat 1, Op.div, qOfNat 1, qOfNat 1), (qOfNat 3, Op.add, qOfNat 1, qOfNat 4)], [(qOfNat 1, Op.add, qOfNat 1, qOfNat 2), (qOfNat 1, Op.mul, qOfNat 1, qOfNat 1), (qOfNat 1, Op.add, qOfNat 2, qOfNat 3), (qOfNat 1, Op.div, qOfNat 1, qOfNat 1), (qOfNat 3, Op.sub, qOfNat 1, qOfNat 2)], [(qOfNat 1, Op.add, qOfNat 1, qOfNat 2), (qOfNat 1, Op.mul, qOfNat 1, qOfNat 1), (qOfNat 1, Op.add, qOfNat 2, qOfNat 3), (qOfNat 1, Op.div, qOfNat 1, qOfNat 1), (qOfNat 3, Op.mul, qOfNat 1, qOfNat 3)], [(qOfNat 1, Op.add, qOfNat 1, qOfNat 2), (qOfNat 1, Op.mul, qOfNat 1, qOfNat 1), (qOfNat 1, Op.add, qOfNat 2, qOfNat 3), (qOfNat 1, Op.div, qOfNat 1, qOfNat 1), (qOfNat 3, Op.div, qOfNat 1, qOfNat 3)], [(qOfNat 1, Op.add, qOfNat 1, qOfNat 2), (qOfNat 1, Op.mul, qOfNat 1, qOfNat 1), (qOfNat 1, Op.add, qOfNat 2, qOfNat 3), (qOfNat 1, Op.add, qOfNat 3, qOfNat 4), (qOfNat 1, Op.add, qOfNat 4, qOfNat 5)], [(qOfNat 1, Op.add, qOfNat 1, qOfNat 2), (qOfNat 1, Op.mul, qOfNat 1, qOfNat 1), (qOfNat 1, Op.add, qOfNat 2, qOfNat 3), (qOfNat 1, Op.add, qOfNat 3, qOfNat 4), (qOfNat 1, Op.mul, qOfNat 4, qOfNat 4)], [(qOfNat 1, Op.add, qOfNat 1, qOfNat 2), (qOfNat 1, Op.mul, qOfNat 1, qOfNat 1), (qOfNat 1, Op.add, qOfNat 2, qOfNat 3), (qOfNat 1, Op.add, qOfNat 3, qOfNat 4), (qOfNat 4, Op.sub, qOfNat 1, qOfNat 3)], [(qOfNat 1, Op.add, qOfNat 1, qOfNat 2), (qOfNat 1, Op.mul, qOfNat 1, qOfNat 1), (qOfNat 1, Op.add, qOfNat 2, qOfNat 3), (qOfNat 1, Op.add, qOfNat 3, qOfNat 4), (qOfNat 4, Op.div, qOfNat 1, qOfNat 4)], [(qOfNat 1, Op.add, qOfNat 1, qOfNat 2), (qOfNat 1, Op.mul, qOfNat 1, qOfNat 1), (qOfNat 1, Op.add, qOfNat 2, qOfNat 3), (qOfNat 1, Op.mul, qOfNat 3, qOfNat 3), (qOfNat 1, Op.add, qOfNat 3, qOfNat 4)], [(qOfNat 1, Op.add, qOfNat 1, qOfNat 2), (qOfNat 1, Op.mul, qOfNat 1, qOfNat 1), (qOfNat 1, Op.add, qOfNat 2, qOfNat 3), (qOfNat 1, Op.mul, qOfNat 3, qOfNat 3), (qOfNat 3, Op.sub, qOfNat 1, qOfNat 2)], [(qOfNat 1, Op.add, qOfNat 1, qOfNat 2), (qOfNat 1, Op.mul, qOfNat 1, qOfNat 1), (qOfNat 1, Op.add, qOfNat 2, qOfNat 3), (qOfNat 1, Op.mul, qOfNat 3, qOfNat 3), (qOfNat 3, Op.div, qOfNat 1, qOfNat 3)], [(qOfNat 1, Op.add, qOfNat 1, qOfNat 2), (qOfNat 1, Op.mul, qOfNat 1, qOfNat 1), (qOfNat 1, Op.add, qOfNat 2, qOfNat 3), (qOfNat 3, Op.sub, qOfNat 1, qOfNat 2), (qOfNat 1, Op.mul, qOfNat 2, qOfNat 2)], [(qOfNat 1, Op.add, qOfNat 1, qOfNat 2), (qOfNat 1, Op.mul, qOfNat 1, qOfNat 1), (qOfNat 1, Op.add, qOfNat 2, qOfNat 3), (qOfNat 3, Op.sub, qOfNat 1, qOfNat 2), (qOfNat 2, Op.sub, qOfNat 1, qOfNat 1)], [(qOfNat 1, Op.add, qOfNat 1, qOfNat 2), (qOfNat 1, Op.mul, qOfNat 1, qOfNat 1), (qOfNat 1, Op.add, qOfNat 2, qOfNat 3), (qOfNat 3, Op.sub, qOfNat 1, qOfNat 2), (qOfNat 2, Op.div, qOfNat 1, qOfNat 2)], [(qOfNat 1, Op.add, qOfNat 1, qOfNat 2), (qOfNat 1, Op.mul, qOfNat 1, qOfNat 1), (qOfNat 1, Op.add, qOfNat 2, qOfNat 3), (qOfNat 3, Op.div, qOfNat 1, qOfNat 3), (qOfNat 1, Op.add, qOfNat 3, qOfNat 4)], [(qOfNat 1, Op.add, qOfNat 1, qOfNat 2), (qOfNat 1, Op.mul, qOfNat 1, qOfNat 1), (qOfNat 1, Op.add, qOfNat 2, qOfNat 3), (qOfNat 3, Op.div, qOfNat 1, qOfNat 3), (qOfNat 3, Op.sub, qOfNat 1, qOfNat 2)], [(qOfNat 1, Op.add, qOfNat 1, qOfNat 2), (qOfNat 1, Op.mul, qOfNat 1, qOfNat 1), (qOfNat 1, Op.mul, qOfNat 2, qOfNat 2), (qOfNat 1, Op.div, qOfNat 1, qOfNat 1), (qOfNat 2, Op.add, qOfNat 1, qOfNat 3)], [(qOfNat 1, Op.add, qOfNat 1, qOfNat 2), (qOfNat 1, Op.mul, qOfNat 1, qOfNat 1), (qOfNat 1, Op.mul, qOfNat 2, qOfNat 2), (qOfNat 1, Op.div, qOfNat 1, qOfNat 1), (qOfNat 2, Op.sub, qOfNat 1, qOfNat 1)], [(qOfNat 1, Op.add, qOfNat 1, qOfNat 2), (qOfNat 1, Op.mul, qOfNat 1, qOfNat 1), (qOfNat 1, Op.mul, qOfNat 2, qOfNat 2), (qOfNat 1, Op.div, qOfNat 1, qOfNat 1), (qOfNat 2, Op.div, qOfNat 1, qOfNat 2)], [(qOfNat 1, Op.add, qOfNat 1, qOfNat 2), (qOfNat 1, Op.mul, qOfNat 1, qOfNat 1), (qOfNat 1, Op.mul, qOfNat 2, qOfNat 2), (qOfNat 1, Op.add, qOfNat 2, qOfNat 3), (qOfNat 1, Op.add, qOfNat 3, qOfNat 4)], [(qOfNat 1, Op.add, qOfNat 1, qOfNat 2), (qOfNat 1, Op.mul, qOfNat 1, qOfNat 1), (qOfNat 1, Op.mul, qOfNat 2, qOfNat 2), (qOfNat 1, Op.add, qOfNat 2, qOfNat 3), (qOfNat 1, Op.mul, qOfNat 3, qOfNat 3)], [(qOfNat 1, Op.add, qOfNat 1, qOfNat 2), (qOfNat 1, Op.mul, qOfNat 1, qOfNat 1), (qOfNat 1, Op.mul, qOfNat 2, qOfNat 2), (qOfNat 1, Op.add, qOfNat 2, qOfNat 3), (qOfNat 3, Op.div, qOfNat 1, qOfNat 3)]]
/-- Queue contents of the breadth-first loop on selection [1, 1, 1, 1, 1, 1], target 6, after 50 iterations. -/
def traceQ5 : List BState :=
  [(qOfNat 2, [qOfNat 1, qOfNat 2], [(qOfNat 1, Op.add, qOfNat 1, qOfNat 2), (qOfNat 1, Op.div, qOfNat 1, qOfNat 1), (qOfNat 1, Op.mul, qOfNat 2, qOfNat 2), (qOfNat 2, Op.div, qOfNat 1, qOfNat 2)]), (qOfNat 3, [qOfNat 1, qOfNat 3], [(qOfNat 1, Op.add, qOfNat 1, qOfNat 2), (qOfNat 1, Op.div, qOfNat 1, qOfNat 1), (qOfNat 2, Op.div, qOfNat 1, qOfNat 2), (qOfNat 1, Op.add, qOfNat 2, qOfNat 3)]), (qOfNat 1, [qOfNat 1, qOfNat 1], [(qOfNat 1, Op.add, qOfNat 1, qOfNat 2), (qOfNat 1, Op.div, qOfNat 1, qOfNat 1), (qOfNat 2, Op.div, qOfNat 1, qOfNat 2), (qOfNat 2, Op.sub, qOfNat 1, qOfNat 1)]), (qOfNat 5, [qOfNat 1, qOfNat 5], [(qOfNat 1, Op.add, qOfNat 1, qOfNat 2), (qOfNat 1, Op.add, qOfNat 2, qOfNat 3), (qOfNat 1, Op.add, qOfNat 3, qOfNat 4), (qOfNat 1, Op.add, qOfNat 4, qOfNat 5)]), (qOfNat 4, [qOfNat 1, qOfNat 4], [(qOfNat 1, Op.add, qOfNat 1, qOfNat 2), (qOfNat 1, Op.add, qOfNat 2, qOfNat 3), (qOfNat 1, Op.add, qOfNat 3, qOfNat 4), (qOfNat 1, Op.mul, qOfNat 4, qOfNat 4)]), (qOfNat 3, [qOfNat 1, qOfNat 3], [(qOfNat 1, Op.add, qOfNat 1, qOfNat 2), (qOfNat 1, Op.add, qOfNat 2, qOfNat 3), (qOfNat 1, Op.add, qOfNat 3, qOfNat 4), (qOfNat 4, Op.sub, qOfNat 1, qOfNat 3)]), (qOfNat 4, [qOfNat 1, qOfNat 4], [(qOfNat 1, Op.add, qOfNat 1, qOfNat 2), (qOfNat 1, Op.add, qOfNat 2, qOfNat 3), (qOfNat 1, Op.add, qOfNat 3, qOfNat 4), (qOfNat 4, Op.div, qOfNat 1, qOfNat 4)]), (qOfNat 4, [qOfNat 1, qOfNat 4], [(qOfNat 1, Op.add, qOfNat 1, qOfNat 2), (qOfNat 1, Op.add, qOfNat 2, qOfNat 3), (qOfNat 1, Op.mul, qOfNat 3, qOfNat 3), (qOfNat 1, Op.add, qOfNat 3, qOfNat 4)]), (qOfNat 2, [qOfNat 1, qOfNat 2], [(qOfNat 1, Op.add, qOfNat 1, qOfNat 2), (qOfNat 1, Op.add, qOfNat 2, qOfNat 3), (qOfNat 1, Op.mul, qOfNat 3, qOfNat 3), (qOfNat 3, Op.sub, qOfNat 1, qOfNat 2)]), (qOfNat 3, [qOfNat 1, qOfNat 3], [(qOfNat 1, Op.add, qOfNat 1, qOfNat 2), (qOfNat 1, Op.add, qOfNat 2, qOfNat 3), (qOfNat 1, Op.mul, qOfNat 3, qOfNat 3), (qOfNat 3, Op.div, qOfNat 1, qOfNat 3)]), (qOfNat 2, [qOfNat 1, qOfNat 2], [(qOfNat 1, Op.add, qOfNat 1, qOfNat 2), (qOfNat 1, Op.add, qOfNat 2, qOfNat 3), (qOfNat 3, Op.sub, qOfNat 1, qOfNat 2), (qOfNat 1, Op.mul, qOfNat 2, qOfNat 2)]), (qOfNat 1, [qOfNat 1, qOfNat 1], [(qOfNat 1, Op.add, qOfNat 1, qOfNat 2), (qOfNat 1, Op.add, qOfNat 2, qOfNat 3), (qOfNat 3, Op.sub, qOfNat 1, qOfNat 2), (qOfNat 2, Op.sub, qOfNat 1, qOfNat 1)]), (qOfNat 2, [qOfNat 1, qOfNat 2], [(qOfNat 1, Op.add, qOfNat 1, qOfNat 2), (qOfNat 1, Op.add, qOfNat 2, qOfNat 3), (qOfNat 3, Op.sub, qOfNat 1, qOfNat 2), (qOfNat 2, Op.div, qOfNat 1, qOfNat 2)]), (qOfNat 4, [qOfNat 1, qOfNat 4], [(qOfNat 1, Op.add, qOfNat 1, qOfNat 2), (qOfNat 1, Op.add, qOfNat 2, qOfNat 3), (qOfNat 3, Op.div, qOfNat 1, qOfNat 3), (qOfNat 1, Op.add, qOfNat 3, qOfNat 4)]), (qOfNat 2, [qOfNat 1, qOfNat 2], [(qOfNat 1, Op.add, qOfNat 1, qOfNat 2), (qOfNat 1, Op.add, qOfNat 2, qOfNat 3), (qOfNat 3, Op.div, qOfNat 1, qOfNat 3), (qOfNat 3, Op.sub, qOfNat 1, qOfNat 2)]), (qOfNat 4, [qOfNat 1, qOfNat 4], [(qOfNat 1, Op.add, qOfNat 1, qOfNat 2), (qOfNat 1, Op.mul, qOfNat 2, qOfNat 2), (qOfNat 1, Op.add, qOfNat 2, qOfNat 3), (qOfNat 1, Op.add, qOfNat 3, qOfNat 4)]), (qOfNat 3, [qOfNat 1, qOfNat 3], [(qOfNat 1, Op.add, qOfNat 1, qOfNat 2), (qOfNat 1, Op.mul, qOfNat 2, qOfNat 2), (qOfNat 1, Op.add, qOfNat 2, qOfNat 3), (qOfNat 1, Op.mul, qOfNat 3, qOfNat 3)]), (qOfNat 3, [qOfNat 1, qOfNat 3], [(qOfNat 1, Op.add, qOfNat 1, qOfNat 2), (qOfNat 1, Op.mul, qOfNat 2, qOfNat 2), (qOfNat 1, Op.add, qOfNat 2, qOfNat 3), (qOfNat 3, Op.div, qOfNat 1, qOfNat 3)]), (qOfNat 3, [qOfNat 1, qOfNat 3], [(qOfNat 1, Op.add, qOfNat 1, qOfNat 2), (qOfNat 1, Op.mul, qOfNat 2, qOfNat 2), (qOfNat 2, Op.div, qOfNat 1, qOfNat 2), (qOfNat 1, Op.add, qOfNat 2, qOfNat 3)]), (qOfNat 1, [qOfNat 1, qOfNat 1], [(qOfNat 1, Op.add, qOfNat 1, qOfNat 2), (qOfNat 1, Op.mul, qOfNat 2, qOfNat 2), (qOfNat 2, Op.div, qOfNat 1, qOfNat 2), (qOfNat 2, Op.sub, qOfNat 1, qOfNat 1)]), (qOfNat 4, [qOfNat 1, qOfNat 4], [(qOfNat 1, Op.add, qOfNat 1, qOfNat 2), (qOfNat 2, Op.div, qOfNat 1, qOfNat 2), (qOfNat 1, Op.add, qOfNat 2, qOfNat 3), (qOfNat 1, Op.add, qOfNat 3, qOfNat 4)]), (qOfNat 3, [qOfNat 1, qOfNat 3], [(qOfNat 1, Op.add, qOfNat 1, qOfNat 2), (qOfNat 2, Op.div, qOfNat 1, qOfNat 2), (qOfNat 1, Op.add, qOfNat 2, qOfNat 3), (qOfNat 1, Op.mul, qOfNat 3, qOfNat 3)]), (qOfNat 3, [qOfNat 1, qOfNat 3], [(qOfNat 1, Op.add, qOfNat 1, qOfNat 2), (qOfNat 2, Op.div, qOfNat 1, qOfNat 2), (qOfNat 1, Op.add, qOfNat 2, qOfNat 3), (qOfNat 3, Op.div, qOfNat 1, qOfNat 3)]), (qOfNat 4, [qOfNat 4], [(qOfNat 1, Op.add, qOfNat 1, qOfNat 2), (qOfNat 1, Op.mul, qOfNat 1, qOfNat 1), (qOfNat 1, Op.div, qOfNat 1, qOfNat 1), (qOfNat 2, Op.add, qOfNat 1, qOfNat 3), (qOfNat 1, Op.add, qOfNat 3, qOfNat 4)]), (qOfNat 3, [qOfNat 3], [(qOfNat 1, Op.add, qOfNat 1, qOfNat 2), (qOfNat 1, Op.mul, qOfNat 1, qOfNat 1), (qOfNat 1, Op.div, qOfNat 1, qOfNat 1), (qOfNat 2, Op.add, qOfNat 1, qOfNat 3), (qOfNat 1, Op.mul, qOfNat 3, qOfNat 3)]), (qOfNat 2, [qOfNat 2], [(qOfNat 1, Op.add, qOfNat 1, qOfNat 2), (qOfNat 1, Op.mul, qOfNat 1, qOfNat 1), (qOfNat 1, Op.div, qOfNat 1, qOfNat 1), (qOfNat 2, Op.add, qOfNat 1, qOfNat 3), (qOfNat 3, Op.sub, qOfNat 1, qOfNat 2)]), (qOfNat 3, [qOfNat 3], [(qOfNat 1, Op.add, qOfNat 1, qOfNat 2), (qOfNat 1, Op.mul, qOfNat 1, qOfNat 1), (qOfNat 1, Op.div, qOfNat 1, qOfNat 1), (qOfNat 2, Op.add, qOfNat 1, qOfNat 3), (qOfNat 3, Op.div, qOfNat 1, qOfNat 3)]), (qOfNat 3, [qOfNat 3], [(qOfNat 1, Op.add, qOfNat 1, qOfNat 2), (qOfNat 1, Op.mul, qOfNat 1, qOfNat 1), (qOfNat 1, Op.div, qOfNat 1, qOfNat 1), (qOfNat 2, Op.mul, qOfNat 1, qOfNat 2), (qOfNat 1, Op.add, qOfNat 2, qOfNat 3)]), (qOfNat 1, [qOfNat 1], [(qOfNat 1, Op.add, qOfNat 1, qOfNat 2), (qOfNat 1, Op.mul, qOfNat 1, qOfNat 1), (qOfNat 1, Op.div, qOfNat 1, qOfNat 1), (qOfNat 2, Op.mul, qOfNat 1, qOfNat 2), (qOfNat 2, Op.sub, qOfNat 1, qOfNat 1)]), (qOfNat 2, [qOfNat 2], [(qOfNat 1, Op.add, qOfNat 1, qOfNat 2), (qOfNat 1, Op.mul, qOfNat 1, qOfNat 1), (qOfNat 1, Op.div, qOfNat 1, qOfNat 1), (qOfNat 2, Op.mul, qOfNat 1, qOfNat 2), (qOfNat 2, Op.div, qOfNat 1, qOfNat 2)]), (qOfNat 3, [qOfNat 3], [(qOfNat 1, Op.add, qOfNat 1, qOfNat 2), (qOfNat 1, Op.mul, qOfNat 1, qOfNat 1), (qOfNat 1, Op.div, qOfNat 1, qOfNat 1), (qOfNat 2, Op.div, qOfNat 1, qOfNat 2), (qOfNat 1, Op.add, qOfNat 2, qOfNat 3)]), (qOfNat 1, [qOfNat 1], [(qOfNat 1, Op.add, qOfNat 1, qOfNat 2), (qOfNat 1, Op.mul, qOfNat 1, qOfNat 1), (qOfNat 1, Op.div, qOfNat 1, qOfNat 1), (qOfNat 2, Op.div, qOfNat 1, qOfNat 2), (qOfNat 2, Op.sub, qOfNat 1, qOfNat 1)]), (qOfNat 4, [qOfNat 4], [(qOfNat 1, Op.add, qOfNat 1, qOfNat 2), (qOfNat 1, Op.mul, qOfNat 1, qOfNat 1), (qOfNat 1, Op.add, qOfNat 2, qOfNat 3), (qOfNat 1, Op.div, qOfNat 1, qOfNat 1), (qOfNat 3, Op.add, qOfNat 1, qOfNat 4)]), (qOfNat 2, [qOfNat 2], [(qOfNat 1, Op.add, qOfNat 1, qOfNat 2), (qOfNat 1, Op.mul, qOfNat 1, qOfNat 1), (qOfNat 1, Op.add, qOfNat 2, qOfNat 3), (qOfNat 1, Op.div, qOfNat 1, qOfNat 1), (qOfNat 3, Op.sub, qOfNat 1, qOfNat 2)]), (qOfNat 3, [qOfNat 3], [(qOfNat 1, Op.add, qOfNat 1, qOfNat 2), (qOfNat 1, Op.mul, qOfNat 1, qOfNat 1), (qOfNat 1, Op.add, qOfNat 2, qOfNat 3), (qOfNat 1, Op.div, qOfNat 1, qOfNat 1), (qOfNat 3, Op.mul, qOfNat 1, qOfNat 3)]), (qOfNat 3, [qOfNat 3], [(qOfNat 1, Op.add, qOfNat 1, qOfNat 2), (qOfNat 1, Op.mul, qOfNat 1, qOfNat 1), (qOfNat 1, Op.add, qOfNat 2, qOfNat 3), (qOfNat 1, Op.div, qOfNat 1, qOfNat 1), (qOfNat 3, Op.div, qOfNat 1, qOfNat 3)]), (qOfNat 5, [qOfNat 5], [(qOfNat 1, Op.add, qOfNat 1, qOfNat 2), (qOfNat 1, Op.mul, qOfNat 1, qOfNat 1), (qOfNat 1, Op.add, qOfNat 2, qOfNat 3), (qOfNat 1, Op.add, qOfNat 3, qOfNat 4), (qOfNat 1, Op.add, qOfNat 4, qOfNat 5)]), (qOfNat 4, [qOfNat 4], [(qOfNat 1, Op.add, qOfNat 1, qOfNat 2), (qOfNat 1, Op.mul, qOfNat 1, qOfNat 1), (qOfNat 1, Op.add, qOfNat 2, qOfNat 3), (qOfNat 1, Op.add, qOfNat 3, qOfNat 4), (qOfNat 1, Op.mul, qOfNat 4, qOfNat 4)]), (qOfNat 3, [qOfNat 3], [(qOfNat 1, Op.add, qOfNat 1, qOfNat 2), (qOfNat 1, Op.mul, qOfNat 1, qOfNat 1), (qOfNat 1, Op.add, qOfNat 2, qOfNat 3), (qOfNat 1, Op.add, qOfNat 3, qOfNat 4), (qOfNat 4, Op.sub, qOfNat 1, qOfNat 3)]), (qOfNat 4, [qOfNat 4], [(qOfNat 1, Op.add, qOfNat 1, qOfNat 2), (qOfNat 1, Op.mul, qOfNat 1, qOfNat 1), (qOfNat 1, Op.add, qOfNat 2, qOfNat 3), (qOfNat 1, Op.add, qOfNat 3, qOfNat 4), (qOfNat 4, Op.div, qOfNat 1, qOfNat 4)]), (qOfNat 4, [qOfNat 4], [(qOfNat 1, Op.add, qOfNat 1, qOfNat 2), (qOfNat 1, Op.mul, qOfNat 1, qOfNat 1), (qOfNat 1, Op.add, qOfNat 2, qOfNat 3), (qOfNat 1, Op.mul, qOfNat 3, qOfNat 3), (qOfNat 1, Op.add, qOfNat 3, qOfNat 4)]), (qOfNat 2, [qOfNat 2], [(qOfNat 1, Op.add, qOfNat 1, qOfNat 2), (qOfNat 1, Op.mul, qOfNat 1, qOfNat 1), (qOfNat 1, Op.add, qOfNat 2, qOfNat 3), (qOfNat 1, Op.mul, qOfNat 3, qOfNat 3), (qOfNat 3, Op.sub, qOfNat 1, qOfNat 2)]), (qOfNat 3, [qOfNat 3], [(qOfNat 1, Op.add, qOfNat 1, qOfNat 2), (qOfNat 1, Op.mul, qOfNat 1, qOfNat 1), (qOfNat 1, Op.add, qOfNat 2, qOfNat 3), (qOfNat 1, Op.mul, qOfNat 3, qOfNat 3), (qOfNat 3, Op.div, qOfNat 1, qOfNat 3)]), (qOfNat 2, [qOfNat 2], [(qOfNat 1, Op.add, qOfNat 1, qOfNat 2), (qOfNat 1, Op.mul, qOfNat 1, qOfNat 1), (qOfNat 1, Op.add, qOfNat 2, qOfNat 3), (qOfNat 3, Op.sub, qOfNat 1, qOfNat 2), (qOfNat 1, Op.mul, qOfNat 2, qOfNat 2)]), (qOfNat 1, [qOfNat 1], [(qOfNat 1, Op.add, qOfNat 1, qOfNat 2), (qOfNat 1, Op.mul, qOfNat 1, qOfNat 1), (qOfNat 1, Op.add, qOfNat 2, qOfNat 3), (qOfNat 3, Op.sub, qOfNat 1, qOfNat 2), (qOfNat 2, Op.sub, qOfNat 1, qOfNat 1)]), (qOfNat 2, [qOfNat 2], [(qOfNat 1, Op.add, qOfNat 1, qOfNat 2), (qOfNat 1, Op.mul, qOfNat 1, qOfNat 1), (qOfNat 1, Op.add, qOfNat 2, qOfNat 3), (qOfNat 3, Op.sub, qOfNat 1, qOfNat 2), (qOfNat 2, Op.div, qOfNat 1, qOfNat 2)]), (qOfNat 4, [qOfNat 4], [(qOfNat 1, Op.add, qOfNat 1, qOfNat 2), (qOfNat 1, Op.mul, qOfNat 1, qOfNat 1), (qOfNat 1, Op.add, qOfNat 2, qOfNat 3), (qOfNat 3, Op.div, qOfNat 1, qOfNat 3), (qOfNat 1, Op.add, qOfNat 3, qOfNat 4)]), (qOfNat 2, [qOfNat 2], [(qOfNat 1, Op.add, qOfNat 1, qOfNat 2), (qOfNat 1, Op.mul, qOfNat 1, qOfNat 1), (qOfNat 1, Op.add, qOfNat 2, qOfNat 3), (qOfNat 3, Op.div, qOfNat 1, qOfNat 3), (qOfNat 3, Op.sub, qOfNat 1, qOfNat 2)]), (qOfNat 3, [qOfNat 3], [(qOfNat 1, Op.add, qOfNat 1, qOfNat 2), (qOfNat 1, Op.mul, qOfNat 1, qOfNat 1), (qOfNat 1, Op.mul, qOfNat 2, qOfNat 2), (qOfNat 1, Op.div, qOfNat 1, qOfNat 1), (qOfNat 2, Op.add, qOfNat 1, qOfNat 3)]), (qOfNat 1, [qOfNat 1], [(qOfNat 1, Op.add, qOfNat 1, qOfNat 2), (qOfNat 1, Op.mul, qOfNat 1, qOfNat 1), (qOfNat 1, Op.mul, qOfNat 2, qOfNat 2), (qOfNat 1, Op.div, qOfNat 1, qOfNat 1), (qOfNat 2, Op.sub, qOfNat 1, qOfNat 1)]), (qOfNat 2, [qOfNat 2], [(qOfNat 1, Op.add, qOfNat 1, qOfNat 2), (qOfNat 1, Op.mul, qOfNat 1, qOfNat 1), (qOfNat 1, Op.mul, qOfNat 2, qOfNat 2), (qOfNat 1, Op.div, qOfNat 1, qOfNat 1), (qOfNat 2, Op.div, qOfNat 1, qOfNat 2)]), (qOfNat 4, [qOfNat 4], [(qOfNat 1, Op.add, qOfNat 1, qOfNat 2), (qOfNat 1, Op.mul, qOfNat 1, qOfNat 1), (qOfNat 1, Op.mul, qOfNat 2, qOfNat 2), (qOfNat 1, Op.add, qOfNat 2, qOfNat 3), (qOfNat 1, Op.add, qOfNat 3, qOfNat 4)]), (qOfNat 3, [qOfNat 3], [(qOfNat 1, Op.add, qOfNat 1, qOfNat 2), (qOfNat 1, Op.mul, qOfNat 1, qOfNat 1), (qOfNat 1, Op.mul, qOfNat 2, qOfNat 2), (qOfNat 1, Op.add, qOfNat 2, qOfNat 3), (qOfNat 1, Op.mul, qOfNat 3, qOfNat 3)]), (qOfNat 3, [qOfNat 3], [(qOfNat 1, Op.add, qOfNat 1, qOfNat 2), (qOfNat 1, Op.mul, qOfNat 1, qOfNat 1), (qOfNat 1, Op.mul, qOfNat 2, qOfNat 2), (qOfNat 1, Op.add, qOfNat 2, qOfNat 3), (qOfNat 3, Op.div, qOfNat 1, qOfNat 3)]), (qOfNat 3, [qOfNat 3], [(qOfNat 1, Op.add, qOfNat 1, qOfNat 2), (qOfNat 1, Op.mul, qOfNat 1, qOfNat 1), (qOfNat 1, Op.mul, qOfNat 2, qOfNat 2), (qOfNat 2, Op.div, qOfNat 1, qOfNat 2), (qOfNat 1, Op.add, qOfNat 2, qOfNat 3)]), (qOfNat 1, [qOfNat 1], [(qOfNat 1, Op.add, qOfNat 1, qOfNat 2), (qOfNat 1, Op.mul, qOfNat 1, qOfNat 1), (qOfNat 1, Op.mul, qOfNat 2, qOfNat 2), (qOfNat 2, Op.div, qOfNat 1, qOfNat 2), (qOfNat 2, Op.sub, qOfNat 1, qOfNat 1)]), (qOfNat 4, [qOfNat 4], [(qOfNat 1, Op.add, qOfNat 1, qOfNat 2), (qOfNat 1, Op.mul, qOfNat 1, qOfNat 1), (qOfNat 2, Op.div, qOfNat 1, qOfNat 2), (qOfNat 1, Op.add, qOfNat 2, qOfNat 3), (qOfNat 1, Op.add, qOfNat 3, qOfNat 4)]), (qOfNat 3, [qOfNat 3], [(qOfNat 1, Op.add, qOfNat 1, qOfNat 2), (qOfNat 1, Op.mul, qOfNat 1, qOfNat 1), (qOfNat 2, Op.div, qOfNat 1, qOfNat 2), (qOfNat 1, Op.add, qOfNat 2, qOfNat 3), (qOfNat 1, Op.mul, qOfNat 3, qOfNat 3)]), (qOfNat 3, [qOfNat 3], [(qOfNat 1, Op.add, qOfNat 1, qOfNat 2), (qOfNat 1, Op.mul, qOfNat 1, qOfNat 1), (qOfNat 2, Op.div, qOfNat 1, qOfNat 2), (qOfNat 1, Op.add, qOfNat 2, qOfNat 3), (qOfNat 3, Op.div, qOfNat 1, qOfNat 3)]), (qOfNat 5, [qOfNat 5], [(qOfNat 1, Op.add, qOfNat 1, qOfNat 2), (qOfNat 1, Op.div, qOfNat 1, qOfNat 1), (qOfNat 1, Op.add, qOfNat 2, qOfNat 3), (qOfNat 1, Op.add, qOfNat 3, qOfNat 4), (qOfNat 1, Op.add, qOfNat 4, qOfNat 5)]), (qOfNat 4, [qOfNat 4], [(qOfNat 1, Op.add, qOfNat 1, qOfNat 2), (qOfNat 1, Op.div, qOfNat 1, qOfNat 1), (qOfNat 1, Op.add, qOfNat 2, qOfNat 3), (qOfNat 1, Op.add, qOfNat 3, qOfNat 4), (qOfNat 1, Op.mul, qOfNat 4, qOfNat 4)]), (qOfNat 3, [qOfNat 3], [(qOfNat 1, Op.add, qOfNat 1, qOfNat 2), (qOfNat 1, Op.div, qOfNat 1, qOfNat 1), (qOfNat 1, Op.add, qOfNat 2, qOfNat 3), (qOfNat 1, Op.add, qOfNat 3, qOfNat 4), (qOfNat 4, Op.sub, qOfNat 1, qOfNat 3)]), (qOfNat 4, [qOfNat 4], [(qOfNat 1, Op.add, qOfNat 1, qOfNat 2), (qOfNat 1, Op.div, qOfNat 1, qOfNat 1), (qOfNat 1, Op.add, qOfNat 2, qOfNat 3), (qOfNat 1, Op.add, qOfNat 3, qOfNat 4), (qOfNat 4, Op.div, qOfNat 1, qOfNat 4)]), (qOfNat 4, [qOfNat 4], [(qOfNat 1, Op.add, qOfNat 1, qOfNat 2), (qOfNat 1, Op.div, qOfNat 1, qOfNat 1), (qOfNat 1, Op.add, qOfNat 2, qOfNat 3), (qOfNat 1, Op.mul, qOfNat 3, qOfNat 3), (qOfNat 1, Op.add, qOfNat 3, qOfNat 4)]), (qOfNat 2, [qOfNat 2], [(qOfNat 1, Op.add, qOfNat 1, qOfNat 2), (qOfNat 1, Op.div, qOfNat 1, qOfNat 1), (qOfNat 1, Op.add, qOfNat 2, qOfNat 3), (qOfNat 1, Op.mul, qOfNat 3, qOfNat 3), (qOfNat 3, Op.sub, qOfNat 1, qOfNat 2)]), (qOfNat 3, [qOfNat 3], [(qOfNat 1, Op.add, qOfNat 1, qOfNat 2), (qOfNat 1, Op.div, qOfNat 1, qOfNat 1), (qOfNat 1, Op.add, qOfNat 2, qOfNat 3), (qOfNat 1, Op.mul, qOfNat 3, qOfNat 3), (qOfNat 3, Op.div, qOfNat 1, qOfNat 3)]), (qOfNat 2, [qOfNat 2], [(qOfNat 1, Op.add, qOfNat 1, qOfNat 2), (qOfNat 1, Op.div, qOfNat 1, qOfNat 1), (qOfNat 1, Op.add, qOfNat 2, qOfNat 3), (qOfNat 3, Op.sub, qOfNat 1, qOfNat 2), (qOfNat 1, Op.mul, qOfNat 2, qOfNat 2)]), (qOfNat 1, [qOfNat 1], [(qOfNat 1, Op.add, qOfNat 1, qOfNat 2), (qOfNat 1, Op.div, qOfNat 1, qOfNat 1), (qOfNat 1, Op.add, qOfNat 2, qOfNat 3), (qOfNat 3, Op.sub, qOfNat 1, qOfNat 2), (qOfNat 2, Op.sub, qOfNat 1, qOfNat 1)]), (qOfNat 2, [qOfNat 2], [(qOfNat 1, Op.add, qOfNat 1, qOfNat 2), (qOfNat 1, Op.div, qOfNat 1, qOfNat 1), (qOfNat 1, Op.add, qOfNat 2, qOfNat 3), (qOfNat 3, Op.sub, qOfNat 1, qOfNat 2), (qOfNat 2, Op.div, qOfNat 1, qOfNat 2)]), (qOfNat 4, [qOfNat 4], [(qOfNat 1, Op.add, qOfNat 1, qOfNat 2), (qOfNat 1, Op.div, qOfNat 1, qOfNat 1), (qOfNat 1, Op.add, qOfNat 2, qOfNat 3), (qOfNat 3, Op.div, qOfNat 1, qOfNat 3), (qOfNat 1, Op.add, qOfNat 3, qOfNat 4)]), (qOfNat 2, [qOfNat 2], [(qOfNat 1, Op.add, qOfNat 1, qOfNat 2), (qOfNat 1, Op.div, qOfNat 1, qOfNat 1), (qOfNat 1, Op.add, qOfNat 2, qOfNat 3), (qOfNat 3, Op.div, qOfNat 1, qOfNat 3), (qOfNat 3, Op.sub, qOfNat 1, qOfNat 2)]), (qOfNat 4, [qOfNat 4], [(qOfNat 1, Op.add, qOfNat 1, qOfNat 2), (qOfNat 1, Op.div, qOfNat 1, qOfNat 1), (qOfNat 1, Op.mul, qOfNat 2, qOfNat 2), (qOfNat 1, Op.add, qOfNat 2, qOfNat 3), (qOfNat 1, Op.add, qOfNat 3, qOfNat 4)]), (qOfNat 3, [qOfNat 3], [(qOfNat 1, Op.add, qOfNat 1, qOfNat 2), (qOfNat 1, Op.div, qOfNat 1, qOfNat 1), (qOfNat 1, Op.mul, qOfNat 2, qOfNat 2), (qOfNat 1, Op.add, qOfNat 2, qOfNat 3), (qOfNat 1, Op.mul, qOfNat 3, qOfNat 3)]), (qOfNat 3, [qOfNat 3], [(qOfNat 1, Op.add, qOfNat 1, qOfNat 2), (qOfNat 1, Op.div, qOfNat 1, qOfNat 1), (qOfNat 1, Op.mul, qOfNat 2, qOfNat 2), (qOfNat 1, Op.add, qOfNat 2, qOfNat 3), (qOfNat 3, Op.div, qOfNat 1, qOfNat 3)])]

/-- Seen path fingerprints of the same run after 50 iterations. -/
def traceU5 : List (List Oper) :=
  [[(qOfNat 1, Op.add, qOfNat 1, qOfNat 2)], [(qOfNat 1, Op.mul, qOfNat 1, qOfNat 1)], [(qOfNat 1, Op.div, qOfNat 1, qOfNat 1)], [(qOfNat 1, Op.add, qOfNat 1, qOfNat 2), (qOfNat 1, Op.mul, qOfNat 1, qOfNat 1)], [(qOfNat 1, Op.add, qOfNat 1, qOfNat 2), (qOfNat 1, Op.div, qOfNat 1, qOfNat 1)], [(qOfNat 1, Op.add, qOfNat 1, qOfNat 2), (qOfNat 1, Op.add, qOfNat 2, qOfNat 3)], [(qOfNat 1, Op.add, qOfNat 1, qOfNat 2), (qOfNat 1, Op.mul, qOfNat 2, qOfNat 2)], [(qOfNat 1, Op.add, qOfNat 1, qOfNat 2), (qOfNat 2, Op.sub, qOfNat 1, qOfNat 1)], [(qOfNat 1, Op.add, qOfNat 1, qOfNat 2), (qOfNat 2, Op.div, qOfNat 1, qOfNat 2)], [(qOfNat 1, Op.mul, qOfNat 1, qOfNat 1), (qOfNat 1, Op.div, qOfNat 1, qOfNat 1)], [(qOfNat 1, Op.add, qOfNat 1, qOfNat 2), (qOfNat 1, Op.mul, qOfNat 1, qOfNat 1), (qOfNat 1, Op.div, qOfNat 1, qOfNat 1)], [(qOfNat 1, Op.add, qOfNat 1, qOfNat 2), (qOfNat 1, Op.mul, qOfNat 1, qOfNat 1), (qOfNat 1, Op.add, qOfNat 2, qOfNat 3)], [(qOfNat 1, Op.add, qOfNat 1, qOfNat 2), (qOfNat 1, Op.mul, qOfNat 1, qOfNat 1), (qOfNat 1, Op.mul, qOfNat 2, qOfNat 2)], [(qOfNat 1, Op.add, qOfNat 1, qOfNat 2), (qOfNat 1, Op.mul, qOfNat 1, qOfNat 1), (qOfNat 2, Op.sub, qOfNat 1, qOfNat 1)], [(qOfNat 1, Op.add, qOfNat 1, qOfNat 2), (qOfNat 1, Op.mul, qOfNat 1, qOfNat 1), (qOfNat 2, Op.div, qOfNat 1, qOfNat 2)], [(qOfNat 1, Op.add, qOfNat 1, qOfNat 2), (qOfNat 1, Op.div, qOfNat 1, qOfNat 1), (qOfNat 1, Op.add, qOfNat 2, qOfNat 3)], [(qOfNat 1, Op.add, qOfNat 1, qOfNat 2), (qOfNat 1, Op.div, qOfNat 1, qOfNat 1), (qOfNat 1, Op.mul, qOfNat 2, qOfNat 2)], [(qOfNat 1, Op.add, qOfNat 1, qOfNat 2), (qOfNat 1, Op.div, qOfNat 1, qOfNat 1), (qOfNat 2, Op.sub, qOfNat 1, qOfNat 1)], [(qOfNat 1, Op.add, qOfNat 1, qOfNat 2), (qOfNat 1, Op.div, qOfNat 1, qOfNat 1), (qOfNat 2, Op.div, qOfNat 1, qOfNat 2)], [(qOfNat 1, Op.add, qOfNat 1, qOfNat 2), (qOfNat 1, Op.add, qOfNat 2, qOfNat 3), (qOfNat 1, Op.add, qOfNat 3, qOfNat 4)], [(qOfNat 1, Op.add, qOfNat 1, qOfNat 2), (qOfNat 1, Op.add, qOfNat 2, qOfNat 3), (qOfNat 1, Op.mul, qOfNat 3, qOfNat 3)], [(qOfNat 1, Op.add, qOfNat 1, qOfNat 2), (qOfNat 1, Op.add, qOfNat 2, qOfNat 3), (qOfNat 3, Op.sub, qOfNat 1, qOfNat 2)], [(qOfNat 1, Op.add, qOfNat 1, qOfNat 2), (qOfNat 1, Op.add, qOfNat 2, qOfNat 3), (qOfNat 3, Op.div, qOfNat 1, qOfNat 3)], [(qOfNat 1, Op.add, qOfNat 1, qOfNat 2), (qOfNat 1, Op.mul, qOfNat 2, qOfNat 2), (qOfNat 1, Op.add, qOfNat 2, qOfNat 3)], [(qOfNat 1, Op.add, qOfNat 1, qOfNat 2), (qOfNat 1, Op.mul, qOfNat 2, qOfNat 2), (qOfNat 2, Op.sub, qOfNat 1, qOfNat 1)], [(qOfNat 1, Op.add, qOfNat 1, qOfNat 2), (qOfNat 1, Op.mul, qOfNat 2, qOfNat 2), (qOfNat 2, Op.div, qOfNat 1, qOfNat 2)], [(qOfNat 1, Op.add, qOfNat 1, qOfNat 2), (qOfNat 2, Op.div, qOfNat 1, qOfNat 2), (qOfNat 1, Op.add, qOfNat 2, qOfNat 3)], [(qOfNat 1, Op.add, qOfNat 1, qOfNat 2), (qOfNat 2, Op.div, qOfNat 1, qOfNat 2), (qOfNat 2, Op.sub, qOfNat 1, qOfNat 1)], [(qOfNat 1, Op.add, qOfNat 1, qOfNat 2), (qOfNat 1, Op.mul, qOfNat 1, qOfNat 1), (qOfNat 1, Op.div, qOfNat 1, qOfNat 1), (qOfNat 2, Op.add, qOfNat 1, qOfNat 3)], [(qOfNat 1, Op.add, qOfNat 1, qOfNat 2), (qOfNat 1, Op.mul, qOfNat 1, qOfNat 1), (qOfNat 1, Op.div, qOfNat 1, qOfNat 1), (qOfNat 2, Op.sub, qOfNat 1, qOfNat 1)], [(qOfNat 1, Op.add, qOfNat 1, qOfNat 2), (qOfNat 1, Op.mul, qOfNat 1, qOfNat 1), (qOfNat 1, Op.div, qOfNat 1, qOfNat 1), (qOfNat 2, Op.mul, qOfNat 1, qOfNat 2)], [(qOfNat 1, Op.add, qOfNat 1, qOfNat 2), (qOfNat 1, Op.mul, qOfNat 1, qOfNat 1), (qOfNat 1, Op.div, qOfNat 1, qOfNat 1), (qOfNat 2, Op.div, qOfNat 1, qOfNat 2)], [(qOfNat 1, Op.add, qOfNat 1, qOfNat 2), (qOfNat 1, Op.mul, qOfNat 1, qOfNat 1), (qOfNat 1, Op.add, qOfNat 2, qOfNat 3), (qOfNat 1, Op.div, qOfNat 1, qOfNat 1)], [(qOfNat 1, Op.add, qOfNat 1, qOfNat 2), (qOfNat 1, Op.mul, qOfNat 1, qOfNat 1), (qOfNat 1, Op.add, qOfNat 2, qOfNat 3), (qOfNat 1, Op.add, qOfNat 3, qOfNat 4)], [(qOfNat 1, Op.add, qOfNat 1, qOfNat 2), (qOfNat 1, Op.mul, qOfNat 1, qOfNat 1), (qOfNat 1, Op.add, qOfNat 2, qOfNat 3), (qOfNat 1, Op.mul, qOfNat 3, qOfNat 3)], [(qOfNat 1, Op.add, qOfNat 1, qOfNat 2), (qOfNat 1, Op.mul, qOfNat 1, qOfNat 1), (qOfNat 1, Op.add, qOfNat 2, qOfNat 3), (qOfNat 3, Op.sub, qOfNat 1, qOfNat 2)], [(qOfNat 1, Op.add, qOfNat 1, qOfNat 2), (qOfNat 1, Op.mul, qOfNat 1, qOfNat 1), (qOfNat 1, Op.add, qOfNat 2, qOfNat 3), (qOfNat 3, Op.div, qOfNat 1, qOfNat 3)], [(qOfNat 1, Op.add, qOfNat 1, qOfNat 2), (qOfNat 1, Op.mul, qOfNat 1, qOfNat 1), (qOfNat 1, Op.mul, qOfNat 2, qOfNat 2), (qOfNat 1, Op.div, qOfNat 1, qOfNat 1)], [(qOfNat 1, Op.add, qOfNat 1, qOfNat 2), (qOfNat 1, Op.mul, qOfNat 1, qOfNat 1), (qOfNat 1, Op.mul, qOfNat 2, qOfNat 2), (qOfNat 1, Op.add, qOfNat 2, qOfNat 3)], [(qOfNat 1, Op.add, qOfNat 1, qOfNat 2), (qOfNat 1, Op.mul, qOfNat 1, qOfNat 1), (qOfNat 1, Op.mul, qOfNat 2, qOfNat 2), (qOfNat 2, Op.sub, qOfNat 1, qOfNat 1)], [(qOfNat 1, Op.add, qOfNat 1, qOfNat 2), (qOfNat 1, Op.mul, qOfNat 1, qOfNat 1), (qOfNat 1, Op.mul, qOfNat 2, qOfNat 2), (qOfNat 2, Op.div, qOfNat 1, qOfNat 2)], [(qOfNat 1, Op.add, qOfNat 1, qOfNat 2), (qOfNat 1, Op.mul, qOfNat 1, qOfNat 1), (qOfNat 2, Op.div, qOfNat 1, qOfNat 2), (qOfNat 1, Op.add, qOfNat 2, qOfNat 3)], [(qOfNat 1, Op.add, qOfNat 1, qOfNat 2), (qOfNat 1, Op.mul, qOfNat 1, qOfNat 1), (qOfNat 2, Op.div, qOfNat 1, qOfNat 2), (qOfNat 2, Op.sub, qOfNat 1, qOfNat 1)], [(qOfNat 1, Op.add, qOfNat 1, qOfNat 2), (qOfNat 1, Op.div, qOfNat 1, qOfNat 1), (qOfNat 1, Op.add, qOfNat 2, qOfNat 3), (qOfNat 1, Op.add, qOfNat 3, qOfNat 4)], [(qOfNat 1, Op.add, qOfNat 1, qOfNat 2), (qOfNat 1, Op.div, qOfNat 1, qOfNat 1), (qOfNat 1, Op.add, qOfNat 2, qOfNat 3), (qOfNat 1, Op.mul, qOfNat 3, qOfNat 3)], [(qOfNat 1, Op.add, qOfNat 1, qOfNat 2), (qOfNat 1, Op.div, qOfNat 1, qOfNat 1), (qOfNat 1, Op.add, qOfNat 2, qOfNat 3), (qOfNat 3, Op.sub, qOfNat 1, qOfNat 2)], [(qOfNat 1, Op.add, qOfNat 1, qOfNat 2), (qOfNat 1, Op.div, qOfNat 1, qOfNat 1), (qOfNat 1, Op.add, qOfNat 2, qOfNat 3), (qOfNat 3, Op.div, qOfNat 1, qOfNat 3)], [(qOfNat 1, Op.add, qOfNat 1, qOfNat 2), (qOfNat 1, Op.div, qOfNat 1, qOfNat 1), (qOfNat 1, Op.mul, qOfNat 2, qOfNat 2), (qOfNat 1, Op.add, qOfNat 2, qOfNat 3)], [(qOfNat 1, Op.add, qOfNat 1, qOfNat 2), (qOfNat 1, Op.div, qOfNat 1, qOfNat 1), (qOfNat 1, Op.mul, qOfNat 2, qOfNat 2), (qOfNat 2, Op.sub, qOfNat 1, qOfNat 1)], [(qOfNat 1, Op.add, qOfNat 1, qOfNat 2), (qOfNat 1, Op.div, qOfNat 1, qOfNat 1), (qOfNat 1, Op.mul, qOfNat 2, qOfNat 2), (qOfNat 2, Op.div, qOfNat 1, qOfNat 2)], [(qOfNat 1, Op.add, qOfNat 1, qOfNat 2), (qOfNat 1, Op.div, qOfNat 1, qOfNat 1), (qOfNat 2, Op.div, qOfNat 1, qOfNat 2), (qOfNat 1, Op.add, qOfNat 2, qOfNat 3)], [(qOfNat 1, Op.add, qOfNat 1, qOfNat 2), (qOfNat 1, Op.div, qOfNat 1, qOfNat 1), (qOfNat 2, Op.div, qOfNat 1, qOfNat 2), (qOfNat 2, Op.sub, qOfNat 1, qOfNat 1)], [(qOfNat 1, Op.add, qOfNat 1, qOfNat 2), (qOfNat 1, Op.add, qOfNat 2, qOfNat 3), (qOfNat 1, Op.add, qOfNat 3, qOfNat 4), (qOfNat 1, Op.add, qOfNat 4, qOfNat 5)], [(qOfNat 1, Op.add, qOfNat 1, qOfNat 2), (qOfNat 1, Op.add, qOfNat 2, qOfNat 3), (qOfNat 1, Op.add, qOfNat 3, qOfNat 4), (qOfNat 1, Op.mul, qOfNat 4, qOfNat 4)], [(qOfNat 1, Op.add, qOfNat 1, qOfNat 2), (qOfNat 1, Op.add, qOfNat 2, qOfNat 3), (qOfNat 1, Op.add, qOfNat 3, qOfNat 4), (qOfNat 4, Op.sub, qOfNat 1, qOfNat 3)], [(qOfNat 1, Op.add, qOfNat 1, qOfNat 2), (qOfNat 1, Op.add, qOfNat 2, qOfNat 3), (qOfNat 1, Op.add, qOfNat 3, qOfNat 4), (qOfNat 4, Op.div, qOfNat 1, qOfNat 4)], [(qOfNat 1, Op.add, qOfNat 1, qOfNat 2), (qOfNat 1, Op.add, qOfNat 2, qOfNat 3), (qOfNat 1, Op.mul, qOfNat 3, qOfNat 3), (qOfNat 1, Op.add, qOfNat 3, qOfNat 4)], [(qOfNat 1, Op.add, qOfNat 1, qOfNat 2), (qOfNat 1, Op.add, qOfNat 2, qOfNat 3), (qOfNat 1, Op.mul, qOfNat 3, qOfNat 3), (qOfNat 3, Op.sub, qOfNat 1, qOfNat 2)], [(qOfNat 1, Op.add, qOfNat 1, qOfNat 2), (qOfNat 1, Op.add, qOfNat 2, qOfNat 3), (qOfNat 1, Op.mul, qOfNat 3, qOfNat 3), (qOfNat 3, Op.div, qOfNat 1, qOfNat 3)], [(qOfNat 1, Op.add, qOfNat 1, qOfNat 2), (qOfNat 1, Op.add, qOfNat 2, qOfNat 3), (qOfNat 3, Op.sub, qOfNat 1, qOfNat 2), (qOfNat 1, Op.mul, qOfNat 2, qOfNat 2)], [(qOfNat 1, Op.add, qOfNat 1, qOfNat 2), (qOfNat 1, Op.add, qOfNat 2, qOfNat 3), (qOfNat 3, Op.sub, qOfNat 1, qOfNat 2), (qOfNat 2, Op.sub, qOfNat 1, qOfNat 1)], [(qOfNat 1, Op.add, qOfNat 1, qOfNat 2), (qOfNat 1, Op.add, qOfNat 2, qOfNat 3), (qOfNat 3, Op.sub, qOfNat 1, qOfNat 2), (qOfNat 2, Op.div, qOfNat 1, qOfNat 2)], [(qOfNat 1, Op.add, qOfNat 1, qOfNat 2), (qOfNat 1, Op.add, qOfNat 2, qOfNat 3), (qOfNat 3, Op.div, qOfNat 1, qOfNat 3), (qOfNat 1, Op.add, qOfNat 3, qOfNat 4)], [(qOfNat 1, Op.add, qOfNat 1, qOfNat 2), (qOfNat 1, Op.add, qOfNat 2, qOfNat 3), (qOfNat 3, Op.div, qOfNat 1, qOfNat 3), (qOfNat 3, Op.sub, qOfNat 1, qOfNat 2)], [(qOfNat 1, Op.add, qOfNat 1, qOfNat 2), (qOfNat 1, Op.mul, qOfNat 2, qOfNat 2), (qOfNat 1, Op.add, qOfNat 2, qOfNat 3), (qOfNat 1, Op.add, qOfNat 3, qOfNat 4)], [(qOfNat 1, Op.add, qOfNat 1, qOfNat 2), (qOfNat 1, Op.mul, qOfNat 2, qOfNat 2), (qOfNat 1, Op.add, qOfNat 2, qOfNat 3), (qOfNat 1, Op.mul, qOfNat 3, qOfNat 3)], [(qOfNat 1, Op.add, qOfNat 1, qOfNat 2), (qOfNat 1, Op.mul, qOfNat 2, qOfNat 2), (qOfNat 1, Op.add, qOfNat 2, qOfNat 3), (qOfNat 3, Op.div, qOfNat 1, qOfNat 3)], [(qOfNat 1, Op.add, qOfNat 1, qOfNat 2), (qOfNat 1, Op.mul, qOfNat 2, qOfNat 2), (qOfNat 2, Op.div, qOfNat 1, qOfNat 2), (qOfNat 1, Op.add, qOfNat 2, qOfNat 3)], [(qOfNat 1, Op.add, qOfNat 1, qOfNat 2), (qOfNat 1, Op.mul, qOfNat 2, qOfNat 2), (qOfNat 2, Op.div, qOfNat 1, qOfNat 2), (qOfNat 2, Op.sub, qOfNat 1, qOfNat 1)], [(qOfNat 1, Op.add, qOfNat 1, qOfNat 2), (qOfNat 2, Op.div, qOfNat 1, qOfNat 2), (qOfNat 1, Op.add, qOfNat 2, qOfNat 3), (qOfNat 1, Op.add, qOfNat 3, qOfNat 4)], [(qOfNat 1, Op.add, qOfNat 1, qOfNat 2), (qOfNat 2, Op.div, qOfNat 1, qOfNat 2), (qOfNat 1, Op.add, qOfNat 2, qOfNat 3), (qOfNat 1, Op.mul, qOfNat 3, qOfNat 3)], [(qOfNat 1, Op.add, qOfNat 1, qOfNat 2), (qOfNat 2, Op.div, qOfNat 1, qOfNat 2), (qOfNat 1, Op.add, qOfNat 2, qOfNat 3), (qOfNat 3, Op.div, qOfNat 1, qOfNat 3)], [(qOfNat 1, Op.add, qOfNat 1, qOfNat 2), (qOfNat 1, Op.mul, qOfNat 1, qOfNat 1), (qOfNat 1, Op.div, qOfNat 1, qOfNat 1), (qOfNat 2, Op.add, qOfNat 1, qOfNat 3), (qOfNat 1, Op.add, qOfNat 3, qOfNat 4)], [(qOfNat 1, Op.add, qOfNat 1, qOfNat 2), (qOfNat 1, Op.mul, qOfNat 1, qOfNat 1), (qOfNat 1, Op.div, qOfNat 1, qOfNat 1), (qOfNat 2, Op.add, qOfNat 1, qOfNat 3), (qOfNat 1, Op.mul, qOfNat 3, qOfNat 3)], [(qOfNat 1, Op.add, qOfNat 1, qOfNat 2), (qOfNat 1, Op.mul, qOfNat 1, qOfNat 1), (qOfNat 1, Op.div, qOfNat 1, qOfNat 1), (qOfNat 2, Op.add, qOfNat 1, qOfNat 3), (qOfNat 3, Op.sub, qOfNat 1, qOfNat 2)], [(qOfNat 1, Op.add, qOfNat 1, qOfNat 2), (qOfNat 1, Op.mul, qOfNat 1, qOfNat 1), (qOfNat 1, Op.div, qOfNat 1, qOfNat 1), (qOfNat 2, Op.add, qOfNat 1, qOfNat 3), (qOfNat 3, Op.div, qOfNat 1, qOfNat 3)], [(qOfNat 1, Op.add, qOfNat 1, qOfNat 2), (qOfNat 1, Op.mul, qOfNat 1, qOfNat 1), (qOfNat 1, Op.div, qOfNat 1, qOfNat 1), (qOfNat 2, Op.mul, qOfNat 1, qOfNat 2), (qOfNat 1, Op.add, qOfNat 2, qOfNat 3)], [(qOfNat 1, Op.add, qOfNat 1, qOfNat 2), (qOfNat 1, Op.mul, qOfNat 1, qOfNat 1), (qOfNat 1, Op.div, qOfNat 1, qOfNat 1), (qOfNat 2, Op.mul, qOfNat 1, qOfNat 2), (qOfNat 2, Op.sub, qOfNat 1, qOfNat 1)], [(qOfNat 1, Op.add, qOfNat 1, qOfNat 2), (qOfNat 1, Op.mul, qOfNat 1, qOfNat 1), (qOfNat 1, Op.div, qOfNat 1, qOfNat 1), (qOfNat 2, Op.mul, qOfNat 1, qOfNat 2), (qOfNat 2, Op.div, qOfNat 1, qOfNat 2)], [(qOfNat 1, Op.add, qOfNat 1, qOfNat 2), (qOfNat 1, Op.mul, qOfNat 1, qOfNat 1), (qOfNat 1, Op.div, qOfNat 1, qOfNat 1), (qOfNat 2, Op.div, qOfNat 1, qOfNat 2), (qOfNat 1, Op.add, qOfNat 2, qOfNat 3)], [(qOfNat 1, Op.add, qOfNat 1, qOfNat 2), (qOfNat 1, Op.mul, qOfNat 1, qOfNat 1), (qOfNat 1, Op.div, qOfNat 1, qOfNat 1), (qOfNat 2, Op.div, qOfNat 1, qOfNat 2), (qOfNat 2, Op.sub, qOfNat 1, qOfNat 1)], [(qOfNat 1, Op.add, qOfNat 1, qOfNat 2), (qOfNat 1, Op.mul, qOfNat 1, qOfNat 1), (qOfNat 1, Op.add, qOfNat 2, qOfNat 3), (qOfNat 1, Op.div, qOfNat 1, qOfNat 1), (qOfNat 3, Op.add, qOfNat 1, qOfNat 4)], [(qOfNat 1, Op.add, qOfNat 1, qOfNat 2), (qOfNat 1, Op.mul, qOfNat 1, qOfNat 1), (qOfNat 1, Op.add, qOfNat 2, qOfNat 3), (qOfNat 1, Op.div, qOfNat 1, qOfNat 1), (qOfNat 3, Op.sub, qOfNat 1, qOfNat 2)], [(qOfNat 1, Op.add, qOfNat 1, qOfNat 2), (qOfNat 1, Op.mul, qOfNat 1, qOfNat 1), (qOfNat 1, Op.add, qOfNat 2, qOfNat 3), (qOfNat 1, Op.div, qOfNat 1, qOfNat 1), (qOfNat 3, Op.mul, qOfNat 1, qOfNat 3)], [(qOfNat 1, Op.add, qOfNat 1, qOfNat 2), (qOfNat 1, Op.mul, qOfNat 1, qOfNat 1), (qOfNat 1, Op.add, qOfNat 2, qOfNat 3), (qOfNat 1, Op.div, qOfNat 1, qOfNat 1), (qOfNat 3, Op.div, qOfNat 1, qOfNat 3)], [(qOfNat 1, Op.add, qOfNat 1, qOfNat 2), (qOfNat 1, Op.mul, qOfNat 1, qOfNat 1), (qOfNat 1, Op.add, qOfNat 2, qOfNat 3), (qOfNat 1, Op.add, qOfNat 3, qOfNat 4), (qOfNat 1, Op.add, qOfNat 4, qOfNat 5)], [(qOfNat 1, Op.add, qOfNat 1, qOfNat 2), (qOfNat 1, Op.mul, qOfNat 1, qOfNat 1), (qOfNat 1, Op.add, qOfNat 2, qOfNat 3), (qOfNat 1, Op.add, qOfNat 3, qOfNat 4), (qOfNat 1, Op.mul, qOfNat 4, qOfNat 4)], [(qOfNat 1, Op.add, qOfNat 1, qOfNat 2), (qOfNat 1, Op.mul, qOfNat 1, qOfNat 1), (qOfNat 1, Op.add, qOfNat 2, qOfNat 3), (qOfNat 1, Op.add, qOfNat 3, qOfNat 4), (qOfNat 4, Op.sub, qOfNat 1, qOfNat 3)], [(qOfNat 1, Op.add, qOfNat 1, qOfNat 2), (qOfNat 1, Op.mul, qOfNat 1, qOfNat 1), (qOfNat 1, Op.add, qOfNat 2, qOfNat 3), (qOfNat 1, Op.add, qOfNat 3, qOfNat 4), (qOfNat 4, Op.div, qOfNat 1, qOfNat 4)], [(qOfNat 1, Op.add, qOfNat 1, qOfNat 2), (qOfNat 1, Op.mul, qOfNat 1, qOfNat 1), (qOfNat 1, Op.add, qOfNat 2, qOfNat 3), (qOfNat 1, Op.mul, qOfNat 3, qOfNat 3), (qOfNat 1, Op.add, qOfNat 3, qOfNat 4)], [(qOfNat 1, Op.add, qOfNat 1, qOfNat 2), (qOfNat 1, Op.mul, qOfNat 1, qOfNat 1), (qOfNat 1, Op.add, qOfNat 2, qOfNat 3), (qOfNat 1, Op.mul, qOfNat 3, qOfNat 3), (qOfNat 3, Op.sub, qOfNat 1, qOfNat 2)], [(qOfNat 1, Op.add, qOfNat 1, qOfNat 2), (qOfNat 1, Op.mul, qOfNat 1, qOfNat 1), (qOfNat 1, Op.add, qOfNat 2, qOfNat 3), (qOfNat 1, Op.mul, qOfNat 3, qOfNat 3), (qOfNat 3, Op.div, qOfNat 1, qOfNat 3)], [(qOfNat 1, Op.add, qOfNat 1, qOfNat 2), (qOfNat 1, Op.mul, qOfNat 1, qOfNat 1), (qOfNat 1, Op.add, qOfNat 2, qOfNat 3), (qOfNat 3, Op.sub, qOfNat 1, qOfNat 2), (qOfNat 1, Op.mul, qOfNat 2, qOfNat 2)], [(qOfNat 1, Op.add, qOfNat 1, qOfNat 2), (qOfNat 1, Op.mul, qOfNat 1, qOfNat 1), (qOfNat 1, Op.add, qOfNat 2, qOfNat 3), (qOfNat 3, Op.sub, qOfNat 1, qOfNat 2), (qOfNat 2, Op.sub, qOfNat 1, qOfNat 1)], [(qOfNat 1, Op.add, qOfNat 1, qOfNat 2), (qOfNat 1, Op.mul, qOfNat 1, qOfNat 1), (qOfNat 1, Op.add, qOfNat 2, qOfNat 3), (qOfNat 3, Op.sub, qOfNat 1, qOfNat 2), (qOfNat 2, Op.div, qOfNat 1, qOfNat 2)], [(qOfNat 1, Op.add, qOfNat 1, qOfNat 2), (qOfNat 1, Op.mul, qOfNat 1, qOfNat 1), (qOfNat 1, Op.add, qOfNat 2, qOfNat 3), (qOfNat 3, Op.div, qOfNat 1, qOfNat 3), (qOfNat 1, Op.add, qOfNat 3, qOfNat 4)], [(qOfNat 1, Op.add, qOfNat 1, qOfNat 2), (qOfNat 1, Op.mul, qOfNat 1, qOfNat 1), (qOfNat 1, Op.add, qOfNat 2, qOfNat 3), (qOfNat 3, Op.div, qOfNat 1, qOfNat 3), (qOfNat 3, Op.sub, qOfNat 1, qOfNat 2)], [(qOfNat 1, Op.add, qOfNat 1, qOfNat 2), (qOfNat 1, Op.mul, qOfNat 1, qOfNat 1), (qOfNat 1, Op.mul, qOfNat 2, qOfNat 2), (qOfNat 1, Op.div, qOfNat 1, qOfNat 1), (qOfNat 2, Op.add, qOfNat 1, qOfNat 3)], [(qOfNat 1, Op.add, qOfNat 1, qOfNat 2), (qOfNat 1, Op.mul, qOfNat 1, qOfNat 1), (qOfNat 1, Op.mul, qOfNat 2, qOfNat 2), (qOfNat 1, Op.div, qOfNat 1, qOfNat 1), (qOfNat 2, Op.sub, qOfNat 1, qOfNat 1)], [(qOfNat 1, Op.add, qOfNat 1, qOfNat 2), (qOfNat 1, Op.mul, qOfNat 1, qOfNat 1), (qOfNat 1, Op.mul, qOfNat 2, qOfNat 2), (qOfNat 1, Op.div, qOfNat 1, qOfNat 1), (qOfNat 2, Op.div, qOfNat 1, qOfNat 2)], [(qOfNat 1, Op.add, qOfNat 1, qOfNat 2), (qOfNat 1, Op.mul, qOfNat 1, qOfNat 1), (qOfNat 1, Op.mul, qOfNat 2, qOfNat 2), (qOfNat 1, Op.add, qOfNat 2, qOfNat 3), (qOfNat 1, Op.add, qOfNat 3, qOfNat 4)], [(qOfNat 1, Op.add, qOfNat 1, qOfNat 2), (qOfNat 1, Op.mul, qOfNat 1, qOfNat 1), (qOfNat 1, Op.mul, qOfNat 2, qOfNat 2), (qOfNat 1, Op.add, qOfNat 2, qOfNat 3), (qOfNat 1, Op.mul, qOfNat 3, qOfNat 3)], [(qOfNat 1, Op.add, qOfNat 1, qOfNat 2), (qOfNat 1, Op.mul, qOfNat 1, qOfNat 1), (qOfNat 1, Op.mul, qOfNat 2, qOfNat 2), (qOfNat 1, Op.add, qOfNat 2, qOfNat 3), (qOfNat 3, Op.div, qOfNat 1, qOfNat 3)], [(qOfNat 1, Op.add, qOfNat 1, qOfNat 2), (qOfNat 1, Op.mul, qOfNat 1, qOfNat 1), (qOfNat 1, Op.mul, qOfNat 2, qOfNat 2), (qOfNat 2, Op.div, qOfNat 1, qOfNat 2), (qOfNat 1, Op.add, qOfNat 2, qOfNat 3)], [(qOfNat 1, Op.add, qOfNat 1, qOfNat 2), (qOfNat 1, Op.mul, qOfNat 1, qOfNat 1), (qOfNat 1, Op.mul, qOfNat 2, qOfNat 2), (qOfNat 2, Op.div, qOfNat 1, qOfNat 2), (qOfNat 2, Op.sub, qOfNat 1, qOfNat 1)], [(qOfNat 1, Op.add, qOfNat 1, qOfNat 2), (qOfNat 1, Op.mul, qOfNat 1, qOfNat 1), (qOfNat 2, Op.div, qOfNat 1, qOfNat 2), (qOfNat 1, Op.add, qOfNat 2, qOfNat 3), (qOfNat 1, Op.add, qOfNat 3, qOfNat 4)], [(qOfNat 1, Op.add, qOfNat 1, qOfNat 2), (qOfNat 1, Op.mul, qOfNat 1, qOfNat 1), (qOfNat 2, Op.div, qOfNat 1, qOfNat 2), (qOfNat 1, Op.add, qOfNat 2, qOfNat 3), (qOfNat 1, Op.mul, qOfNat 3, qOfNat 3)], [(qOfNat 1, Op.add, qOfNat 1, qOfNat 2), (qOfNat 1, Op.mul, qOfNat 1, qOfNat 1), (qOfNat 2, Op.div, qOfNat 1, qOfNat 2), (qOfNat 1, Op.add, qOfNat 2, qOfNat 3), (qOfNat 3, Op.div, qOfNat 1, qOfNat 3)], [(qOfNat 1, Op.add, qOfNat 1, qOfNat 2), (qOfNat 1, Op.div, qOfNat 1, qOfNat 1), (qOfNat 1, Op.add, qOfNat 2, qOfNat 3), (qOfNat 1, Op.add, qOfNat 3, qOfNat 4), (qOfNat 1, Op.add, qOfNat 4, qOfNat 5)], [(qOfNat 1, Op.add, qOfNat 1, qOfNat 2), (qOfNat 1, Op.div, qOfNat 1, qOfNat 1), (qOfNat 1, Op.add, qOfNat 2, qOfNat 3), (qOfNat 1, Op.add, qOfNat 3, qOfNat 4), (qOfNat 1, Op.mul, qOfNat 4, qOfNat 4)], [(qOfNat 1, Op.add, qOfNat 1, qOfNat 2), (qOfNat 1, Op.div, qOfNat 1, qOfNat 1), (qOfNat 1, Op.add, qOfNat 2, qOfNat 3), (qOfNat 1, Op.add, qOfNat 3, qOfNat 4), (qOfNat 4, Op.sub, qOfNat 1, qOfNat 3)], [(qOfNat 1, Op.add, qOfNat 1, qOfNat 2), (qOfNat 1, Op.div, qOfNat 1, qOfNat 1), (qOfNat 1, Op.add, qOfNat 2, qOfNat 3), (qOfNat 1, Op.add, qOfNat 3, qOfNat 4), (qOfNat 4, Op.div, qOfNat 1, qOfNat 4)], [(qOfNat 1, Op.add, qOfNat 1, qOfNat 2), (qOfNat 1, Op.div, qOfNat 1, qOfNat 1), (qOfNat 1, Op.add, qOfNat 2, qOfNat 3), (qOfNat 1, Op.mul, qOfNat 3, qOfNat 3), (qOfNat 1, Op.add, qOfNat 3, qOfNat 4)], [(qOfNat 1, Op.add, qOfNat 1, qOfNat 2), (qOfNat 1, Op.div, qOfNat 1, qOfNat 1), (qOfNat 1, Op.add, qOfNat 2, qOfNat 3), (qOfNat 1, Op.mul, qOfNat 3, qOfNat 3), (qOfNat 3, Op.sub, qOfNat 1, qOfNat 2)], [(qOfNat 1, Op.add, qOfNat 1, qOfNat 2), (qOfNat 1, Op.div, qOfNat 1, qOfNat 1), (qOfNat 1, Op.add, qOfNat 2, qOfNat 3), (qOfNat 1, Op.mul, qOfNat 3, qOfNat 3), (qOfNat 3, Op.div, qOfNat 1, qOfNat 3)], [(qOfNat 1, Op.add, qOfNat 1, qOfNat 2), (qOfNat 1, Op.div, qOfNat 1, qOfNat 1), (qOfNat 1, Op.add, qOfNat 2, qOfNat 3), (qOfNat 3, Op.sub, qOfNat 1, qOfNat 2), (qOfNat 1, Op.mul, qOfNat 2, qOfNat 2)], [(qOfNat 1, Op.add, qOfNat 1, qOfNat 2), (qOfNat 1, Op.div, qOfNat 1, qOfNat 1), (qOfNat 1, Op.add, qOfNat 2, qOfNat 3), (qOfNat 3, Op.sub, qOfNat 1, qOfNat 2), (qOfNat 2, Op.sub, qOfNat 1, qOfNat 1)], [(qOfNat 1, Op.add, qOfNat 1, qOfNat 2), (qOfNat 1, Op.div, qOfNat 1, qOfNat 1), (qOfNat 1, Op.add, qOfNat 2, qOfNat 3), (qOfNat 3, Op.sub, qOfNat 1, qOfNat 2), (qOfNat 2, Op.div, qOfNat 1, qOfNat 2)], [(qOfNat 1, Op.add, qOfNat 1, qOfNat 2), (qOfNat 1, Op.div, qOfNat 1, qOfNat 1), (qOfNat 1, Op.add, qOfNat 2, qOfNat 3), (qOfNat 3, Op.div, qOfNat 1, qOfNat 3), (qOfNat 1, Op.add, qOfNat 3, qOfNat 4)], [(qOfNat 1, Op.add, qOfNat 1, qOfNat 2), (qOfNat 1, Op.div, qOfNat 1, qOfNat 1), (qOfNat 1, Op.add, qOfNat 2, qOfNat 3), (qOfNat 3, Op.div, qOfNat 1, qOfNat 3), (qOfNat 3, Op.sub, qOfNat 1, qOfNat 2)], [(qOfNat 1, Op.add, qOfNat 1, qOfNat 2), (qOfNat 1, Op.div, qOfNat 1, qOfNat 1), (qOfNat 1, Op.mul, qOfNat 2, qOfNat 2), (qOfNat 1, Op.add, qOfNat 2, qOfNat 3), (qOfNat 1, Op.add, qOfNat 3, qOfNat 4)], [(qOfNat 1, Op.add, qOfNat 1, qOfNat 2), (qOfNat 1, Op.div, qOfNat 1, qOfNat 1), (qOfNat 1, Op.mul, qOfNat 2, qOfNat 2), (qOfNat 1, Op.add, qOfNat 2, qOfNat 3), (qOfNat 1, Op.mul, qOfNat 3, qOfNat 3)], [(qOfNat 1, Op.add, qOfNat 1, qOfNat 2), (qOfNat 1, Op.div, qOfNat 1, qOfNat 1), (qOfNat 1, Op.mul, qOfNat 2, qOfNat 2), (qOfNat 1, Op.add, qOfNat 2, qOfNat 3), (qOfNat 3, Op.div, qOfNat 1, qOfNat 3)]]
/-- Queue contents of the breadth-first loop on selection [1, 1, 1, 1, 1, 1], target 6, after 60 iterations. -/
def traceQ6 : List BState :=
  [(qOfNat 2, [qOfNat 1, qOfNat 2], [(qOfNat 1, Op.add, qOfNat 1, qOfNat 2), (qOfNat 1, Op.add, qOfNat 2, qOfNat 3), (qOfNat 3, Op.sub, qOfNat 1, qOfNat 2), (qOfNat 1, Op.mul, qOfNat 2, qOfNat 2)]), (qOfNat 1, [qOfNat 1, qOfNat 1], [(qOfNat 1, Op.add, qOfNat 1, qOfNat 2), (qOfNat 1, Op.add, qOfNat 2, qOfNat 3), (qOfNat 3, Op.sub, qOfNat 1, qOfNat 2), (qOfNat 2, Op.sub, qOfNat 1, qOfNat 1)]), (qOfNat 2, [qOfNat 1, qOfNat 2], [(qOfNat 1, Op.add, qOfNat 1, qOfNat 2), (qOfNat 1, Op.add, qOfNat 2, qOfNat 3), (qOfNat 3, Op.sub, qOfNat 1, qOfNat 2), (qOfNat 2, Op.div, qOfNat 1, qOfNat 2)]), (qOfNat 4, [qOfNat 1, qOfNat 4], [(qOfNat 1, Op.add, qOfNat 1, qOfNat 2), (qOfNat 1, Op.add, qOfNat 2, qOfNat 3), (qOfNat 3, Op.div, qOfNat 1, qOfNat 3), (qOfNat 1, Op.add, qOfNat 3, qOfNat 4)]), (qOfNat 2, [qOfNat 1, qOfNat 2], [(qOfNat 1, Op.add, qOfNat 1, qOfNat 2), (qOfNat 1, Op.add, qOfNat 2, qOfNat 3), (qOfNat 3, Op.div, qOfNat 1, qOfNat 3), (qOfNat 3, Op.sub, qOfNat 1, qOfNat 2)]), (qOfNat 4, [qOfNat 1, qOfNat 4], [(qOfNat 1, Op.add, qOfNat 1, qOfNat 2), (qOfNat 1, Op.mul, qOfNat 2, qOfNat 2), (qOfNat 1, Op.add, qOfNat 2, qOfNat 3), (qOfNat 1, Op.add, qOfNat 3, qOfNat 4)]), (qOfNat 3, [qOfNat 1, qOfNat 3], [(qOfNat 1, Op.add, qOfNat 1, qOfNat 2), (qOfNat 1, Op.mul, qOfNat 2, qOfNat 2), (qOfNat 1, Op.add, qOfNat 2, qOfNat 3), (qOfNat 1, Op.mul, qOfNat 3, qOfNat 3)]), (qOfNat 3, [qOfNat 1, qOfNat 3], [(qOfNat 1, Op.add, qOfNat 1, qOfNat 2), (qOfNat 1, Op.mul, qOfNat 2, qOfNat 2), (qOfNat 1, Op.add, qOfNat 2, qOfNat 3), (qOfNat 3, Op.div, qOfNat 1, qOfNat 3)]), (qOfNat 3, [qOfNat 1, qOfNat 3], [(qOfNat 1, Op.add, qOfNat 1, qOfNat 2), (qOfNat 1, Op.mul, qOfNat 2, qOfNat 2), (qOfNat 2, Op.div, qOfNat 1, qOfNat 2), (qOfNat 1, Op.add, qOfNat 2, qOfNat 3)]), (qOfNat 1, [qOfNat 1, qOfNat 1], [(qOfNat 1, Op.add, qOfNat 1, qOfNat 2), (qOfNat 1, Op.mul, qOfNat 2, qOfNat 2), (qOfNat 2, Op.div, qOfNat 1, qOfNat 2), (qOfNat 2, Op.sub, qOfNat 1, qOfNat 1)]), (qOfNat 4, [qOfNat 1, qOfNat 4], [(qOfNat 1, Op.add, qOfNat 1, qOfNat 2), (qOfNat 2, Op.div, qOfNat 1, qOfNat 2), (qOfNat 1, Op.add, qOfNat 2, qOfNat 3), (qOfNat 1, Op.add, qOfNat 3, qOfNat 4)]), (qOfNat 3, [qOfNat 1, qOfNat 3], [(qOfNat 1, Op.add, qOfNat 1, qOfNat 2), (qOfNat 2, Op.div, qOfNat 1, qOfNat 2), (qOfNat 1, Op.add, qOfNat 2, qOfNat 3), (qOfNat 1, Op.mul, qOfNat 3, qOfNat 3)]), (qOfNat 3, [qOfNat 1, qOfNat 3], [(qOfNat 1, Op.add, qOfNat 1, qOfNat 2), (qOfNat 2, Op.div, qOfNat 1, qOfNat 2), (qOfNat 1, Op.add, qOfNat 2, qOfNat 3), (qOfNat 3, Op.div, qOfNat 1, qOfNat 3)]), (qOfNat 4, [qOfNat 4], [(qOfNat 1, Op.add, qOfNat 1, qOfNat 2), (qOfNat 1, Op.mul, qOfNat 1, qOfNat 1), (qOfNat 1, Op.div, qOfNat 1, qOfNat 1), (qOfNat 2, Op.add, qOfNat 1, qOfNat 3), (qOfNat 1, Op.add, qOfNat 3, qOfNat 4)]), (qOfNat 3, [qOfNat 3], [(qOfNat 1, Op.add, qOfNat 1, qOfNat 2), (qOfNat 1, Op.mul, qOfNat 1, qOfNat 1), (qOfNat 1, Op.div, qOfNat 1, qOfNat 1), (qOfNat 2, Op.add, qOfNat 1, qOfNat 3), (qOfNat 1, Op.mul, qOfNat 3, qOfNat 3)]), (qOfNat 2, [qOfNat 2], [(qOfNat 1, Op.add, qOfNat 1, qOfNat 2), (qOfNat 1, Op.mul, qOfNat 1, qOfNat 1), (qOfNat 1, Op.div, qOfNat 1, qOfNat 1), (qOfNat 2, Op.add, qOfNat 1, qOfNat 3), (qOfNat 3, Op.sub, qOfNat 1, qOfNat 2)]), (qOfNat 3, [qOfNat 3], [(qOfNat 1, Op.add, qOfNat 1, qOfNat 2), (qOfNat 1, Op.mul, qOfNat 1, qOfNat 1), (qOfNat 1, Op.div, qOfNat 1, qOfNat 1), (qOfNat 2, Op.add, qOfNat 1, qOfNat 3), (qOfNat 3, Op.div, qOfNat 1, qOfNat 3)]), (qOfNat 3, [qOfNat 3], [(qOfNat 1, Op.add, qOfNat 1, qOfNat 2), (qOfNat 1, Op.mul, qOfNat 1, qOfNat 1), (qOfNat 1, Op.div, qOfNat 1, qOfNat 1), (qOfNat 2, Op.mul, qOfNat 1, qOfNat 2), (qOfNat 1, Op.add, qOfNat 2, qOfNat 3)]), (qOfNat 1, [qOfNat 1], [(qOfNat 1, Op.add, qOfNat 1, qOfNat 2), (qOfNat 1, Op.mul, qOfNat 1, qOfNat 1), (qOfNat 1, Op.div, qOfNat 1, qOfNat 1), (qOfNat 2, Op.mul, qOfNat 1, qOfNat 2), (qOfNat 2, Op.sub, qOfNat 1, qOfNat 1)]), (qOfNat 2, [qOfNat 2], [(qOfNat 1, Op.add, qOfNat 1, qOfNat 2), (qOfNat 1, Op.mul, qOfNat 1, qOfNat 1), (qOfNat 1, Op.div, qOfNat 1, qOfNat 1), (qOfNat 2, Op.mul, qOfNat 1, qOfNat 2), (qOfNat 2, Op.div, qOfNat 1, qOfNat 2)]), (qOfNat 3, [qOfNat 3], [(qOfNat 1, Op.add, qOfNat 1, qOfNat 2), (qOfNat 1, Op.mul, qOfNat 1, qOfNat 1), (qOfNat 1, Op.div, qOfNat 1, qOfNat 1), (qOfNat 2, Op.div, qOfNat 1, qOfNat 2), (qOfNat 1, Op.add, qOfNat 2, qOfNat 3)]), (qOfNat 1, [qOfNat 1], [(qOfNat 1, Op.add, qOfNat 1, qOfNat 2), (qOfNat 1, Op.mul, qOfNat 1, qOfNat 1), (qOfNat 1, Op.div, qOfNat 1, qOfNat 1), (qOfNat 2, Op.div, qOfNat 1, qOfNat 2), (qOfNat 2, Op.sub, qOfNat 1, qOfNat 1)]), (qOfNat 4, [qOfNat 4], [(qOfNat 1, Op.add, qOfNat 1, qOfNat 2), (qOfNat 1, Op.mul, qOfNat 1, qOfNat 1), (qOfNat 1, Op.add, qOfNat 2, qOfNat 3), (qOfNat 1, Op.div, qOfNat 1, qOfNat 1), (qOfNat 3, Op.add, qOfNat 1, qOfNat 4)]), (qOfNat 2, [qOfNat 2], [(qOfNat 1, Op.add, qOfNat 1, qOfNat 2), (qOfNat 1, Op.mul, qOfNat 1, qOfNat 1), (qOfNat 1, Op.add, qOfNat 2, qOfNat 3), (qOfNat 1, Op.div, qOfNat 1, qOfNat 1), (qOfNat 3, Op.sub, qOfNat 1, qOfNat 2)]), (qOfNat 3, [qOfNat 3], [(qOfNat 1, Op.add, qOfNat 1, qOfNat 2), (qOfNat 1, Op.mul, qOfNat 1, qOfNat 1), (qOfNat 1, Op.add, qOfNat 2, qOfNat 3), (qOfNat 1, Op.div, qOfNat 1, qOfNat 1), (qOfNat 3, Op.mul, qOfNat 1, qOfNat 3)]), (qOfNat 3, [qOfNat 3], [(qOfNat 1, Op.add, qOfNat 1, qOfNat 2), (qOfNat 1, Op.mul, qOfNat 1, qOfNat 1), (qOfNat 1, Op.add, qOfNat 2, qOfNat 3), (qOfNat 1, Op.div, qOfNat 1, qOfNat 1), (qOfNat 3, Op.div, qOfNat 1, qOfNat 3)]), (qOfNat 5, [qOfNat 5], [(qOfNat 1, Op.add, qOfNat 1, qOfNat 2), (qOfNat 1, Op.mul, qOfNat 1, qOfNat 1), (qOfNat 1, Op.add, qOfNat 2, qOfNat 3), (qOfNat 1, Op.add, qOfNat 3, qOfNat 4), (qOfNat 1, Op.add, qOfNat 4, qOfNat 5)]), (qOfNat 4, [qOfNat 4], [(qOfNat 1, Op.add, qOfNat 1, qOfNat 2), (qOfNat 1, Op.mul, qOfNat 1, qOfNat 1), (qOfNat 1, Op.add, qOfNat 2, qOfNat 3), (qOfNat 1, Op.add, qOfNat 3, qOfNat 4), (qOfNat 1, Op.mul, qOfNat 4, qOfNat 4)]), (qOfNat 3, [qOfNat 3], [(qOfNat 1, Op.add, qOfNat 1, qOfNat 2), (qOfNat 1, Op.mul, qOfNat 1, qOfNat 1), (qOfNat 1, Op.add, qOfNat 2, qOfNat 3), (qOfNat 1, Op.add, qOfNat 3, qOfNat 4), (qOfNat 4, Op.sub, qOfNat 1, qOfNat 3)]), (qOfNat 4, [qOfNat 4], [(qOfNat 1, Op.add, qOfNat 1, qOfNat 2), (qOfNat 1, Op.mul, qOfNat 1, qOfNat 1), (qOfNat 1, Op.add, qOfNat 2, qOfNat 3), (qOfNat 1, Op.add, qOfNat 3, qOfNat 4), (qOfNat 4, Op.div, qOfNat 1, qOfNat 4)]), (qOfNat 4, [qOfNat 4], [(qOfNat 1, Op.add, qOfNat 1, qOfNat 2), (qOfNat 1, Op.mul, qOfNat 1, qOfNat 1), (qOfNat 1, Op.add, qOfNat 2, qOfNat 3), (qOfNat 1, Op.mul, qOfNat 3, qOfNat 3), (qOfNat 1, Op.add, qOfNat 3, qOfNat 4)]), (qOfNat 2, [qOfNat 2], [(qOfNat 1, Op.add, qOfNat 1, qOfNat 2), (qOfNat 1, Op.mul, qOfNat 1, qOfNat 1), (qOfNat 1, Op.add, qOfNat 2, qOfNat 3), (qOfNat 1, Op.mul, qOfNat 3, qOfNat 3), (qOfNat 3, Op.sub, qOfNat 1, qOfNat 2)]), (qOfNat 3, [qOfNat 3], [(qOfNat 1, Op.add, qOfNat 1, qOfNat 2), (qOfNat 1, Op.mul, qOfNat 1, qOfNat 1), (qOfNat 1, Op.add, qOfNat 2, qOfNat 3), (qOfNat 1, Op.mul, qOfNat 3, qOfNat 3), (qOfNat 3, Op.div, qOfNat 1, qOfNat 3)]), (qOfNat 2, [qOfNat 2], [(qOfNat 1, Op.add, qOfNat 1, qOfNat 2), (qOfNat 1, Op.mul, qOfNat 1, qOfNat 1), (qOfNat 1, Op.add, qOfNat 2, qOfNat 3), (qOfNat 3, Op.sub, qOfNat 1, qOfNat 2), (qOfNat 1, Op.mul, qOfNat 2, qOfNat 2)]), (qOfNat 1, [qOfNat 1], [(qOfNat 1, Op.add, qOfNat 1, qOfNat 2), (qOfNat 1, Op.mul, qOfNat 1, qOfNat 1), (qOfNat 1, Op.add, qOfNat 2, qOfNat 3), (qOfNat 3, Op.sub, qOfNat 1, qOfNat 2), (qOfNat 2, Op.sub, qOfNat 1, qOfNat 1)]), (qOfNat 2, [qOfNat 2], [(qOfNat 1, Op.add, qOfNat 1, qOfNat 2), (qOfNat 1, Op.mul, qOfNat 1, qOfNat 1), (qOfNat 1, Op.add, qOfNat 2, qOfNat 3), (qOfNat 3, Op.sub, qOfNat 1, qOfNat 2), (qOfNat 2, Op.div, qOfNat 1, qOfNat 2)]), (qOfNat 4, [qOfNat 4], [(qOfNat 1, Op.add, qOfNat 1, qOfNat 2), (qOfNat 1, Op.mul, qOfNat 1, qOfNat 1), (qOfNat 1, Op.add, qOfNat 2, qOfNat 3), (qOfNat 3, Op.div, qOfNat 1, qOfNat 3), (qOfNat 1, Op.add, qOfNat 3, qOfNat 4)]), (qOfNat 2, [qOfNat 2], [(qOfNat 1, Op.add, qOfNat 1, qOfNat 2), (qOfNat 1, Op.mul, qOfNat 1, qOfNat 1), (qOfNat 1, Op.add, qOfNat 2, qOfNat 3), (qOfNat 3, Op.div, qOfNat 1, qOfNat 3), (qOfNat 3, Op.sub, qOfNat 1, qOfNat 2)]), (qOfNat 3, [qOfNat 3], [(qOfNat 1, Op.add, qOfNat 1, qOfNat 2), (qOfNat 1, Op.mul, qOfNat 1, qOfNat 1), (qOfNat 1, Op.mul, qOfNat 2, qOfNat 2), (qOfNat 1, Op.div, qOfNat 1, qOfNat 1), (qOfNat 2, Op.add, qOfNat 1, qOfNat 3)]), (qOfNat 1, [qOfNat 1], [(qOfNat 1, Op.add, qOfNat 1, qOfNat 2), (qOfNat 1, Op.mul, qOfNat 1, qOfNat 1), (qOfNat 1, Op.mul, qOfNat 2, qOfNat 2), (qOfNat 1, Op.div, qOfNat 1, qOfNat 1), (qOfNat 2, Op.sub, qOfNat 1, qOfNat 1)]), (qOfNat 2, [qOfNat 2], [(qOfNat 1, Op.add, qOfNat 1, qOfNat 2), (qOfNat 1, Op.mul, qOfNat 1, qOfNat 1), (qOfNat 1, Op.mul, qOfNat 2, qOfNat 2), (qOfNat 1, Op.div, qOfNat 1, qOfNat 1), (qOfNat 2, Op.div, qOfNat 1, qOfNat 2)]), (qOfNat 4, [qOfNat 4], [(qOfNat 1, Op.add, qOfNat 1, qOfNat 2), (qOfNat 1, Op.mul, qOfNat 1, qOfNat 1), (qOfNat 1, Op.mul, qOfNat 2, qOfNat 2), (qOfNat 1, Op.add, qOfNat 2, qOfNat 3), (qOfNat 1, Op.add, qOfNat 3, qOfNat 4)]), (qOfNat 3, [qOfNat 3], [(qOfNat 1, Op.add, qOfNat 1, qOfNat 2), (qOfNat 1, Op.mul, qOfNat 1, qOfNat 1), (qOfNat 1, Op.mul, qOfNat 2, qOfNat 2), (qOfNat 1, Op.add, qOfNat 2, qOfNat 3), (qOfNat 1, Op.mul, qOfNat 3, qOfNat 3)]), (qOfNat 3, [qOfNat 3], [(qOfNat 1, Op.add, qOfNat 1, qOfNat 2), (qOfNat 1, Op.mul, qOfNat 1, qOfNat 1), (qOfNat 1, Op.mul, qOfNat 2, qOfNat 2), (qOfNat 1, Op.add, qOfNat 2, qOfNat 3), (qOfNat 3, Op.div, qOfNat 1, qOfNat 3)]), (qOfNat 3, [qOfNat 3], [(qOfNat 1, Op.add, qOfNat 1, qOfNat 2), (qOfNat 1, Op.mul, qOfNat 1, qOfNat 1), (qOfNat 1, Op.mul, qOfNat 2, qOfNat 2), (qOfNat 2, Op.div, qOfNat 1, qOfNat 2), (qOfNat 1, Op.add, qOfNat 2, qOfNat 3)]), (qOfNat 1, [qOfNat 1], [(qOfNat 1, Op.add, qOfNat 1, qOfNat 2), (qOfNat 1, Op.mul, qOfNat 1, qOfNat 1), (qOfNat 1, Op.mul, qOfNat 2, qOfNat 2), (qOfNat 2, Op.div, qOfNat 1, qOfNat 2), (qOfNat 2, Op.sub, qOfNat 1, qOfNat 1)]), (qOfNat 4, [qOfNat 4], [(qOfNat 1, Op.add, qOfNat 1, qOfNat 2), (qOfNat 1, Op.mul, qOfNat 1, qOfNat 1), (qOfNat 2, Op.div, qOfNat 1, qOfNat 2), (qOfNat 1, Op.add, qOfNat 2, qOfNat 3), (qOfNat 1, Op.add, qOfNat 3, qOfNat 4)]), (qOfNat 3, [qOfNat 3], [(qOfNat 1, Op.add, qOfNat 1, qOfNat 2), (qOfNat 1, Op.mul, qOfNat 1, qOfNat 1), (qOfNat 2, Op.div, qOfNat 1, qOfNat 2), (qOfNat 1, Op.add, qOfNat 2, qOfNat 3), (qOfNat 1, Op.mul, qOfNat 3, qOfNat 3)]), (qOfNat 3, [qOfNat 3], [(qOfNat 1, Op.add, qOfNat 1, qOfNat 2), (qOfNat 1, Op.mul, qOfNat 1, qOfNat 1), (qOfNat 2, Op.div, qOfNat 1, qOfNat 2), (qOfNat 1, Op.add, qOfNat 2, qOfNat 3), (qOfNat 3, Op.div, qOfNat 1, qOfNat 3)]), (qOfNat 5, [qOfNat 5], [(qOfNat 1, Op.add, qOfNat 1, qOfNat 2), (qOfNat 1, Op.div, qOfNat 1, qOfNat 1), (qOfNat 1, Op.add, qOfNat 2, qOfNat 3), (qOfNat 1, Op.add, qOfNat 3, qOfNat 4), (qOfNat 1, Op.add, qOfNat 4, qOfNat 5)]), (qOfNat 4, [qOfNat 4], [(qOfNat 1, Op.add, qOfNat 1, qOfNat 2), (qOfNat 1, Op.div, qOfNat 1, qOfNat 1), (qOfNat 1, Op.add, qOfNat 2, qOfNat 3), (qOfNat 1, Op.add, qOfNat 3, qOfNat 4), (qOfNat 1, Op.mul, qOfNat 4, qOfNat 4)]), (qOfNat 3, [qOfNat 3], [(qOfNat 1, Op.add, qOfNat 1, qOfNat 2), (qOfNat 1, Op.div, qOfNat 1, qOfNat 1), (qOfNat 1, Op.add, qOfNat 2, qOfNat 3), (qOfNat 1, Op.add, qOfNat 3, qOfNat 4), (qOfNat 4, Op.sub, qOfNat 1, qOfNat 3)]), (qOfNat 4, [qOfNat 4], [(qOfNat 1, Op.add, qOfNat 1, qOfNat 2), (qOfNat 1, Op.div, qOfNat 1, qOfNat 1), (qOfNat 1, Op.add, qOfNat 2, qOfNat 3), (qOfNat 1, Op.add, qOfNat 3, qOfNat 4), (qOfNat 4, Op.div, qOfNat 1, qOfNat 4)]), (qOfNat 4, [qOfNat 4], [(qOfNat 1, Op.add, qOfNat 1, qOfNat 2), (qOfNat 1, Op.div, qOfNat 1, qOfNat 1), (qOfNat 1, Op.add, qOfNat 2, qOfNat 3), (qOfNat 1, Op.mul, qOfNat 3, qOfNat 3), (qOfNat 1, Op.add, qOfNat 3, qOfNat 4)]), (qOfNat 2, [qOfNat 2], [(qOfNat 1, Op.add, qOfNat 1, qOfNat 2), (qOfNat 1, Op.div, qOfNat 1, qOfNat 1), (qOfNat 1, Op.add, qOfNat 2, qOfNat 3), (qOfNat 1, Op.mul, qOfNat 3, qOfNat 3), (qOfNat 3, Op.sub, qOfNat 1, qOfNat 2)]), (qOfNat 3, [qOfNat 3], [(qOfNat 1, Op.add, qOfNat 1, qOfNat 2), (qOfNat 1, Op.div, qOfNat 1, qOfNat 1), (qOfNat 1, Op.add, qOfNat 2, qOfNat 3), (qOfNat 1, Op.mul, qOfNat 3, qOfNat 3), (qOfNat 3, Op.div, qOfNat 1, qOfNat 3)]), (qOfNat 2, [qOfNat 2], [(qOfNat 1, Op.add, qOfNat 1, qOfNat 2), (qOfNat 1, Op.div, qOfNat 1, qOfNat 1), (qOfNat 1, Op.add, qOfNat 2, qOfNat 3), (qOfNat 3, Op.sub, qOfNat 1, qOfNat 2), (qOfNat 1, Op.mul, qOfNat 2, qOfNat 2)]), (qOfNat 1, [qOfNat 1], [(qOfNat 1, Op.add, qOfNat 1, qOfNat 2), (qOfNat 1, Op.div, qOfNat 1, qOfNat 1), (qOfNat 1, Op.add, qOfNat 2, qOfNat 3), (qOfNat 3, Op.sub, qOfNat 1, qOfNat 2), (qOfNat 2, Op.sub, qOfNat 1, qOfNat 1)]), (qOfNat 2, [qOfNat 2], [(qOfNat 1, Op.add, qOfNat 1, qOfNat 2), (qOfNat 1, Op.div, qOfNat 1, qOfNat 1), (qOfNat 1, Op.add, qOfNat 2, qOfNat 3), (qOfNat 3, Op.sub, qOfNat 1, qOfNat 2), (qOfNat 2, Op.div, qOfNat 1, qOfNat 2)]), (qOfNat 4, [qOfNat 4], [(qOfNat 1, Op.add, qOfNat 1, qOfNat 2), (qOfNat 1, Op.div, qOfNat 1, qOfNat 1), (qOfNat 1, Op.add, qOfNat 2, qOfNat 3), (qOfNat 3, Op.div, qOfNat 1, qOfNat 3), (qOfNat 1, Op.add, qOfNat 3, qOfNat 4)]), (qOfNat 2, [qOfNat 2], [(qOfNat 1, Op.add, qOfNat 1, qOfNat 2), (qOfNat 1, Op.div, qOfNat 1, qOfNat 1), (qOfNat 1, Op.add, qOfNat 2, qOfNat 3), (qOfNat 3, Op.div, qOfNat 1, qOfNat 3), (qOfNat 3, Op.sub, qOfNat 1, qOfNat 2)]), (qOfNat 4, [qOfNat 4], [(qOfNat 1, Op.add, qOfNat 1, qOfNat 2), (qOfNat 1, Op.div, qOfNat 1, qOfNat 1), (qOfNat 1, Op.mul, qOfNat 2, qOfNat 2), (qOfNat 1, Op.add, qOfNat 2, qOfNat 3), (qOfNat 1, Op.add, qOfNat 3, qOfNat 4)]), (qOfNat 3, [qOfNat 3], [(qOfNat 1, Op.add, qOfNat 1, qOfNat 2), (qOfNat 1, Op.div, qOfNat 1, qOfNat 1), (qOfNat 1, Op.mul, qOfNat 2, qOfNat 2), (qOfNat 1, Op.add, qOfNat 2, qOfNat 3), (qOfNat 1, Op.mul, qOfNat 3, qOfNat 3)]), (qOfNat 3, [qOfNat 3], [(qOfNat 1, Op.add, qOfNat 1, qOfNat 2), (qOfNat 1, Op.div, qOfNat 1, qOfNat 1), (qOfNat 1, Op.mul, qOfNat 2, qOfNat 2), (qOfNat 1, Op.add, qOfNat 2, qOfNat 3), (qOfNat 3, Op.div, qOfNat 1, qOfNat 3)]), (qOfNat 3, [qOfNat 3], [(qOfNat 1, Op.add, qOfNat 1, qOfNat 2), (qOfNat 1, Op.div, qOfNat 1, qOfNat 1), (qOfNat 1, Op.mul, qOfNat 2, qOfNat 2), (qOfNat 2, Op.div, qOfNat 1, qOfNat 2), (qOfNat 1, Op.add, qOfNat 2, qOfNat 3)]), (qOfNat 1, [qOfNat 1], [(qOfNat 1, Op.add, qOfNat 1, qOfNat 2), (qOfNat 1, Op.div, qOfNat 1, qOfNat 1), (qOfNat 1, Op.mul, qOfNat 2, qOfNat 2), (qOfNat 2, Op.div, qOfNat 1, qOfNat 2), (qOfNat 2, Op.sub, qOfNat 1, qOfNat 1)]), (qOfNat 4, [qOfNat 4], [(qOfNat 1, Op.add, qOfNat 1, qOfNat 2), (qOfNat 1, Op.div, qOfNat 1, qOfNat 1), (qOfNat 2, Op.div, qOfNat 1, qOfNat 2), (qOfNat 1, Op.add, qOfNat 2, qOfNat 3), (qOfNat 1, Op.add, qOfNat 3, qOfNat 4)]), (qOfNat 3, [qOfNat 3], [(qOfNat 1, Op.add, qOfNat 1, qOfNat 2), (qOfNat 1, Op.div, qOfNat 1, qOfNat 1), (qOfNat 2, Op.div, qOfNat 1, qOfNat 2), (qOfNat 1, Op.add, qOfNat 2, qOfNat 3), (qOfNat 1, Op.mul, qOfNat 3, qOfNat 3)]), (qOfNat 3, [qOfNat 3], [(qOfNat 1, Op.add, qOfNat 1, qOfNat 2), (qOfNat 1, Op.div, qOfNat 1, qOfNat 1), (qOfNat 2, Op.div, qOfNat 1, qOfNat 2), (qOfNat 1, Op.add, qOfNat 2, qOfNat 3), (qOfNat 3, Op.div, qOfNat 1, qOfNat 3)]), (qOfNat 6, [qOfNat 6], [(qOfNat 1, Op.add, qOfNat 1, qOfNat 2), (qOfNat 1, Op.add, qOfNat 2, qOfNat 3), (qOfNat 1, Op.add, qOfNat 3, qOfNat 4), (qOfNat 1, Op.add, qOfNat 4, qOfNat 5), (qOfNat 1, Op.add, qOfNat 5, qOfNat 6)]), (qOfNat 5, [qOfNat 5], [(qOfNat 1, Op.add, qOfNat 1, qOfNat 2), (qOfNat 1, Op.add, qOfNat 2, qOfNat 3), (qOfNat 1, Op.add, qOfNat 3, qOfNat 4), (qOfNat 1, Op.add, qOfNat 4, qOfNat 5), (qOfNat 1, Op.mul, qOfNat 5, qOfNat 5)]), (qOfNat 4, [qOfNat 4], [(qOfNat 1, Op.add, qOfNat 1, qOfNat 2), (qOfNat 1, Op.add, qOfNat 2, qOfNat 3), (qOfNat 1, Op.add, qOfNat 3, qOfNat 4), (qOfNat 1, Op.add, qOfNat 4, qOfNat 5), (qOfNat 5, Op.sub, qOfNat 1, qOfNat 4)]), (qOfNat 5, [qOfNat 5], [(qOfNat 1, Op.add, qOfNat 1, qOfNat 2), (qOfNat 1, Op.add, qOfNat 2, qOfNat 3), (qOfNat 1, Op.add, qOfNat 3, qOfNat 4), (qOfNat 1, Op.add, qOfNat 4, qOfNat 5), (qOfNat 5, Op.div, qOfNat 1, qOfNat 5)]), (qOfNat 5, [qOfNat 5], [(qOfNat 1, Op.add, qOfNat 1, qOfNat 2), (qOfNat 1, Op.add, qOfNat 2, qOfNat 3), (qOfNat 1, Op.add, qOfNat 3, qOfNat 4), (qOfNat 1, Op.mul, qOfNat 4, qOfNat 4), (qOfNat 1, Op.add, qOfNat 4, qOfNat 5)]), (qOfNat 3, [qOfNat 3], [(qOfNat 1, Op.add, qOfNat 1, qOfNat 2), (qOfNat 1, Op.add, qOfNat 2, qOfNat 3), (qOfNat 1, Op.add, qOfNat 3, qOfNat 4), (qOfNat 1, Op.mul, qOfNat 4, qOfNat 4), (qOfNat 4, Op.sub, qOfNat 1, qOfNat 3)]), (qOfNat 4, [qOfNat 4], [(qOfNat 1, Op.add, qOfNat 1, qOfNat 2), (qOfNat 1, Op.add, qOfNat 2, qOfNat 3), (qOfNat 1, Op.add, qOfNat 3, qOfNat 4), (qOfNat 1, Op.mul, qOfNat 4, qOfNat 4), (qOfNat 4, Op.div, qOfNat 1, qOfNat 4)]), (qOfNat 3, [qOfNat 3], [(qOfNat 1, Op.add, qOfNat 1, qOfNat 2), (qOfNat 1, Op.add, qOfNat 2, qOfNat 3), (qOfNat 1, Op.add, qOfNat 3, qOfNat 4), (qOfNat 4, Op.sub, qOfNat 1, qOfNat 3), (qOfNat 1, Op.mul, qOfNat 3, qOfNat 3)]), (qOfNat 2, [qOfNat 2], [(qOfNat 1, Op.add, qOfNat 1, qOfNat 2), (qOfNat 1, Op.add, qOfNat 2, qOfNat 3), (qOfNat 1, Op.add, qOfNat 3, qOfNat 4), (qOfNat 4, Op.sub, qOfNat 1, qOfNat 3), (qOfNat 3, Op.sub, qOfNat 1, qOfNat 2)]), (qOfNat 3, [qOfNat 3], [(qOfNat 1, Op.add, qOfNat 1, qOfNat 2), (qOfNat 1, Op.add, qOfNat 2, qOfNat 3), (qOfNat 1, Op.add, qOfNat 3, qOfNat 4), (qOfNat 4, Op.sub, qOfNat 1, qOfNat 3), (qOfNat 3, Op.div, qOfNat 1, qOfNat 3)]), (qOfNat 5, [qOfNat 5], [(qOfNat 1, Op.add, qOfNat 1, qOfNat 2), (qOfNat 1, Op.add, qOfNat 2, qOfNat 3), (qOfNat 1, Op.add, qOfNat 3, qOfNat 4), (qOfNat 4, Op.div, qOfNat 1, qOfNat 4), (qOfNat 1, Op.add, qOfNat 4, qOfNat 5)]), (qOfNat 3, [qOfNat 3], [(qOfNat 1, Op.add, qOfNat 1, qOfNat 2), (qOfNat 1, Op.add, qOfNat 2, qOfNat 3), (qOfNat 1, Op.add, qOfNat 3, qOfNat 4), (qOfNat 4, Op.div, qOfNat 1, qOfNat 4), (qOfNat 4, Op.sub, qOfNat 1, qOfNat 3)]), (qOfNat 5, [qOfNat 5], [(qOfNat 1, Op.add, qOfNat 1, qOfNat 2), (qOfNat 1, Op.add, qOfNat 2, qOfNat 3), (qOfNat 1, Op.mul, qOfNat 3, qOfNat 3), (qOfNat 1, Op.add, qOfNat 3, qOfNat 4), (qOfNat 1, Op.add, qOfNat 4, qOfNat 5)]), (qOfNat 4, [qOfNat 4], [(qOfNat 1, Op.add, qOfNat 1, qOfNat 2), (qOfNat 1, Op.add, qOfNat 2, qOfNat 3), (qOfNat 1, Op.mul, qOfNat 3, qOfNat 3), (qOfNat 1, Op.add, qOfNat 3, qOfNat 4), (qOfNat 1, Op.mul, qOfNat 4, qOfNat 4)]), (qOfNat 4, [qOfNat 4], [(qOfNat 1, Op.add, qOfNat 1, qOfNat 2), (qOfNat 1, Op.add, qOfNat 2, qOfNat 3), (qOfNat 1, Op.mul, qOfNat 3, qOfNat 3), (qOfNat 1, Op.add, qOfNat 3, qOfNat 4), (qOfNat 4, Op.div, qOfNat 1, qOfNat 4)]), (qOfNat 2, [qOfNat 2], [(qOfNat 1, Op.add, qOfNat 1, qOfNat 2), (qOfNat 1, Op.add, qOfNat 2, qOfNat 3), (qOfNat 1, Op.mul, qOfNat 3, qOfNat 3), (qOfNat 3, Op.sub, qOfNat 1, qOfNat 2), (qOfNat 1, Op.mul, qOfNat 2, qOfNat 2)]), (qOfNat 1, [qOfNat 1], [(qOfNat 1, Op.add, qOfNat 1, qOfNat 2), (qOfNat 1, Op.add, qOfNat 2, qOfNat 3), (qOfNat 1, Op.mul, qOfNat 3, qOfNat 3), (qOfNat 3, Op.sub, qOfNat 1, qOfNat 2), (qOfNat 2, Op.sub, qOfNat 1, qOfNat 1)]), (qOfNat 2, [qOfNat 2], [(qOfNat 1, Op.add, qOfNat 1, qOfNat 2), (qOfNat 1, Op.add, qOfNat 2, qOfNat 3), (qOfNat 1, Op.mul, qOfNat 3, qOfNat 3), (qOfNat 3, Op.sub, qOfNat 1, qOfNat 2), (qOfNat 2, Op.div, qOfNat 1, qOfNat 2)]), (qOfNat 4, [qOfNat 4], [(qOfNat 1, Op.add, qOfNat 1, qOfNat 2), (qOfNat 1, Op.add, qOfNat 2, qOfNat 3), (qOfNat 1, Op.mul, qOfNat 3, qOfNat 3), (qOfNat 3, Op.div, qOfNat 1, qOfNat 3), (qOfNat 1, Op.add, qOfNat 3, qOfNat 4)]), (qOfNat 2, [qOfNat 2], [(qOfNat 1, Op.add, qOfNat 1, qOfNat 2), (qOfNat 1, Op.add, qOfNat 2, qOfNat 3), (qOfNat 1, Op.mul, qOfNat 3, qOfNat 3), (qOfNat 3, Op.div, qOfNat 1, qOfNat 3), (qOfNat 3, Op.sub, qOfNat 1, qOfNat 2)])]

/-- Seen path fingerprints of the same run after 60 iterations. -/
def traceU6 : List (List Oper) :=
  [[(qOfNat 1, Op.add, qOfNat 1, qOfNat 2)], [(qOfNat 1, Op.mul, qOfNat 1, qOfNat 1)], [(qOfNat 1, Op.div, qOfNat 1, qOfNat 1)], [(qOfNat 1, Op.add, qOfNat 1, qOfNat 2), (qOfNat 1, Op.mul, qOfNat 1, qOfNat 1)], [(qOfNat 1, Op.add, qOfNat 1, qOfNat 2), (qOfNat 1, Op.div, qOfNat 1, qOfNat 1)], [(qOfNat 1, Op.add, qOfNat 1, qOfNat 2), (qOfNat 1, Op.add, qOfNat 2, qOfNat 3)], [(qOfNat 1, Op.add, qOfNat 1, qOfNat 2), (qOfNat 1, Op.mul, qOfNat 2, qOfNat 2)], [(qOfNat 1, Op.add, qOfNat 1, qOfNat 2), (qOfNat 2, Op.sub, qOfNat 1, qOfNat 1)], [(qOfNat 1, Op.add, qOfNat 1, qOfNat 2), (qOfNat 2, Op.div, qOfNat 1, qOfNat 2)], [(qOfNat 1, Op.mul, qOfNat 1, qOfNat 1), (qOfNat 1, Op.div, qOfNat 1, qOfNat 1)], [(qOfNat 1, Op.add, qOfNat 1, qOfNat 2), (qOfNat 1, Op.mul, qOfNat 1, qOfNat 1), (qOfNat 1, Op.div, qOfNat 1, qOfNat 1)], [(qOfNat 1, Op.add, qOfNat 1, qOfNat 2), (qOfNat 1, Op.mul, qOfNat 1, qOfNat 1), (qOfNat 1, Op.add, qOfNat 2, qOfNat 3)], [(qOfNat 1, Op.add, qOfNat 1, qOfNat 2), (qOfNat 1, Op.mul, qOfNat 1, qOfNat 1), (qOfNat 1, Op.mul, qOfNat 2, qOfNat 2)], [(qOfNat 1, Op.add, qOfNat 1, qOfNat 2), (qOfNat 1, Op.mul, qOfNat 1, qOfNat 1), (qOfNat 2, Op.sub, qOfNat 1, qOfNat 1)], [(qOfNat 1, Op.add, qOfNat 1, qOfNat 2), (qOfNat 1, Op.mul, qOfNat 1, qOfNat 1), (qOfNat 2, Op.div, qOfNat 1, qOfNat 2)], [(qOfNat 1, Op.add, qOfNat 1, qOfNat 2), (qOfNat 1, Op.div, qOfNat 1, qOfNat 1), (qOfNat 1, Op.add, qOfNat 2, qOfNat 3)], [(qOfNat 1, Op.add, qOfNat 1, qOfNat 2), (qOfNat 1, Op.div, qOfNat 1, qOfNat 1), (qOfNat 1, Op.mul, qOfNat 2, qOfNat 2)], [(qOfNat 1, Op.add, qOfNat 1, qOfNat 2), (qOfNat 1, Op.div, qOfNat 1, qOfNat 1), (qOfNat 2, Op.sub, qOfNat 1, qOfNat 1)], [(qOfNat 1, Op.add, qOfNat 1, qOfNat 2), (qOfNat 1, Op.div, qOfNat 1, qOfNat 1), (qOfNat 2, Op.div, qOfNat 1, qOfNat 2)], [(qOfNat 1, Op.add, qOfNat 1, qOfNat 2), (qOfNat 1, Op.add, qOfNat 2, qOfNat 3), (qOfNat 1, Op.add, qOfNat 3, qOfNat 4)], [(qOfNat 1, Op.add, qOfNat 1, qOfNat 2), (qOfNat 1, Op.add, qOfNat 2, qOfNat 3), (qOfNat 1, Op.mul, qOfNat 3, qOfNat 3)], [(qOfNat 1, Op.add, qOfNat 1, qOfNat 2), (qOfNat 1, Op.add, qOfNat 2, qOfNat 3), (qOfNat 3, Op.sub, qOfNat 1, qOfNat 2)], [(qOfNat 1, Op.add, qOfNat 1, qOfNat 2), (qOfNat 1, Op.add, qOfNat 2, qOfNat 3), (qOfNat 3, Op.div, qOfNat 1, qOfNat 3)], [(qOfNat 1, Op.add, qOfNat 1, qOfNat 2), (qOfNat 1, Op.mul, qOfNat 2, qOfNat 2), (qOfNat 1, Op.add, qOfNat 2, qOfNat 3)], [(qOfNat 1, Op.add, qOfNat 1, qOfNat 2), (qOfNat 1, Op.mul, qOfNat 2, qOfNat 2), (qOfNat 2, Op.sub, qOfNat 1, qOfNat 1)], [(qOfNat 1, Op.add, qOfNat 1, qOfNat 2), (qOfNat 1, Op.mul, qOfNat 2, qOfNat 2), (qOfNat 2, Op.div, qOfNat 1, qOfNat 2)], [(qOfNat 1, Op.add, qOfNat 1, qOfNat 2), (qOfNat 2, Op.div, qOfNat 1, qOfNat 2), (qOfNat 1, Op.add, qOfNat 2, qOfNat 3)], [(qOfNat 1, Op.add, qOfNat 1, qOfNat 2), (qOfNat 2, Op.div, qOfNat 1, qOfNat 2), (qOfNat 2, Op.sub, qOfNat 1, qOfNat 1)], [(qOfNat 1, Op.add, qOfNat 1, qOfNat 2), (qOfNat 1, Op.mul, qOfNat 1, qOfNat 1), (qOfNat 1, Op.div, qOfNat 1, qOfNat 1), (qOfNat 2, Op.add, qOfNat 1, qOfNat 3)], [(qOfNat 1, Op.add, qOfNat 1, qOfNat 2), (qOfNat 1, Op.mul, qOfNat 1, qOfNat 1), (qOfNat 1, Op.div, qOfNat 1, qOfNat 1), (qOfNat 2, Op.sub, qOfNat 1, qOfNat 1)], [(qOfNat 1, Op.add, qOfNat 1, qOfNat 2), (qOfNat 1, Op.mul, qOfNat 1, qOfNat 1), (qOfNat 1, Op.div, qOfNat 1, qOfNat 1), (qOfNat 2, Op.mul, qOfNat 1, qOfNat 2)], [(qOfNat 1, Op.add, qOfNat 1, qOfNat 2), (qOfNat 1, Op.mul, qOfNat 1, qOfNat 1), (qOfNat 1, Op.div, qOfNat 1, qOfNat 1), (qOfNat 2, Op.div, qOfNat 1, qOfNat 2)], [(qOfNat 1, Op.add, qOfNat 1, qOfNat 2), (qOfNat 1, Op.mul, qOfNat 1, qOfNat 1), (qOfNat 1, Op.add, qOfNat 2, qOfNat 3), (qOfNat 1, Op.div, qOfNat 1, qOfNat 1)], [(qOfNat 1, Op.add, qOfNat 1, qOfNat 2), (qOfNat 1, Op.mul, qOfNat 1, qOfNat 1), (qOfNat 1, Op.add, qOfNat 2, qOfNat 3), (qOfNat 1, Op.add, qOfNat 3, qOfNat 4)], [(qOfNat 1, Op.add, qOfNat 1, qOfNat 2), (qOfNat 1, Op.mul, qOfNat 1, qOfNat 1), (qOfNat 1, Op.add, qOfNat 2, qOfNat 3), (qOfNat 1, Op.mul, qOfNat 3, qOfNat 3)], [(qOfNat 1, Op.add, qOfNat 1, qOfNat 2), (qOfNat 1, Op.mul, qOfNat 1, qOfNat 1), (qOfNat 1, Op.add, qOfNat 2, qOfNat 3), (qOfNat 3, Op.sub, qOfNat 1, qOfNat 2)], [(qOfNat 1, Op.add, qOfNat 1, qOfNat 2), (qOfNat 1, Op.mul, qOfNat 1, qOfNat 1), (qOfNat 1, Op.add, qOfNat 2, qOfNat 3), (qOfNat 3, Op.div, qOfNat 1, qOfNat 3)], [(qOfNat 1, Op.add, qOfNat 1, qOfNat 2), (qOfNat 1, Op.mul, qOfNat 1, qOfNat 1), (qOfNat 1, Op.mul, qOfNat 2, qOfNat 2), (qOfNat 1, Op.div, qOfNat 1, qOfNat 1)], [(qOfNat 1, Op.add, qOfNat 1, qOfNat 2), (qOfNat 1, Op.mul, qOfNat 1, qOfNat 1), (qOfNat 1, Op.mul, qOfNat 2, qOfNat 2), (qOfNat 1, Op.add, qOfNat 2, qOfNat 3)], [(qOfNat 1, Op.add, qOfNat 1, qOfNat 2), (qOfNat 1, Op.mul, qOfNat 1, qOfNat 1), (qOfNat 1, Op.mul, qOfNat 2, qOfNat 2), (qOfNat 2, Op.sub, qOfNat 1, qOfNat 1)], [(qOfNat 1, Op.add, qOfNat 1, qOfNat 2), (qOfNat 1, Op.mul, qOfNat 1, qOfNat 1), (qOfNat 1, Op.mul, qOfNat 2, qOfNat 2), (qOfNat 2, Op.div, qOfNat 1, qOfNat 2)], [(qOfNat 1, Op.add, qOfNat 1, qOfNat 2), (qOfNat 1, Op.mul, qOfNat 1, qOfNat 1), (qOfNat 2, Op.div, qOfNat 1, qOfNat 2), (qOfNat 1, Op.add, qOfNat 2, qOfNat 3)], [(qOfNat 1, Op.add, qOfNat 1, qOfNat 2), (qOfNat 1, Op.mul, qOfNat 1, qOfNat 1), (qOfNat 2, Op.div, qOfNat 1, qOfNat 2), (qOfNat 2, Op.sub, qOfNat 1, qOfNat 1)], [(qOfNat 1, Op.add, qOfNat 1, qOfNat 2), (qOfNat 1, Op.div, qOfNat 1, qOfNat 1), (qOfNat 1, Op.add, qOfNat 2, qOfNat 3), (qOfNat 1, Op.add, qOfNat 3, qOfNat 4)], [(qOfNat 1, Op.add, qOfNat 1, qOfNat 2), (qOfNat 1, Op.div, qOfNat 1, qOfNat 1), (qOfNat 1, Op.add, qOfNat 2, qOfNat 3), (qOfNat 1, Op.mul, qOfNat 3, qOfNat 3)], [(qOfNat 1, Op.add, qOfNat 1, qOfNat 2), (qOfNat 1, Op.div, qOfNat 1, qOfNat 1), (qOfNat 1, Op.add, qOfNat 2, qOfNat 3), (qOfNat 3, Op.sub, qOfNat 1, qOfNat 2)], [(qOfNat 1, Op.add, qOfNat 1, qOfNat 2), (qOfNat 1, Op.div, qOfNat 1, qOfNat 1), (qOfNat 1, Op.add, qOfNat 2, qOfNat 3), (qOfNat 3, Op.div, qOfNat 1, qOfNat 3)], [(qOfNat 1, Op.add, qOfNat 1, qOfNat 2), (qOfNat 1, Op.div, qOfNat 1, qOfNat 1), (qOfNat 1, Op.mul, qOfNat 2, qOfNat 2), (qOfNat 1, Op.add, qOfNat 2, qOfNat 3)], [(qOfNat 1, Op.add, qOfNat 1, qOfNat 2), (qOfNat 1, Op.div, qOfNat 1, qOfNat 1), (qOfNat 1, Op.mul, qOfNat 2, qOfNat 2), (qOfNat 2, Op.sub, qOfNat 1, qOfNat 1)], [(qOfNat 1, Op.add, qOfNat 1, qOfNat 2), (qOfNat 1, Op.div, qOfNat 1, qOfNat 1), (qOfNat 1, Op.mul, qOfNat 2, qOfNat 2), (qOfNat 2, Op.div, qOfNat 1, qOfNat 2)], [(qOfNat 1, Op.add, qOfNat 1, qOfNat 2), (qOfNat 1, Op.div, qOfNat 1, qOfNat 1), (qOfNat 2, Op.div, qOfNat 1, qOfNat 2), (qOfNat 1, Op.add, qOfNat 2, qOfNat 3)], [(qOfNat 1, Op.add, qOfNat 1, qOfNat 2), (qOfNat 1, Op.div, qOfNat 1, qOfNat 1), (qOfNat 2, Op.div, qOfNat 1, qOfNat 2), (qOfNat 2, Op.sub, qOfNat 1, qOfNat 1)], [(qOfNat 1, Op.add, qOfNat 1, qOfNat 2), (qOfNat 1, Op.add, qOfNat 2, qOfNat 3), (qOfNat 1, Op.add, qOfNat 3, qOfNat 4), (qOfNat 1, Op.add, qOfNat 4, qOfNat 5)], [(qOfNat 1, Op.add, qOfNat 1, qOfNat 2), (qOfNat 1, Op.add, qOfNat 2, qOfNat 3), (qOfNat 1, Op.add, qOfNat 3, qOfNat 4), (qOfNat 1, Op.mul, qOfNat 4, qOfNat 4)], [(qOfNat 1, Op.add, qOfNat 1, qOfNat 2), (qOfNat 1, Op.add, qOfNat 2, qOfNat 3), (qOfNat 1, Op.add, qOfNat 3, qOfNat 4), (qOfNat 4, Op.sub, qOfNat 1, qOfNat 3)], [(qOfNat 1, Op.add, qOfNat 1, qOfNat 2), (qOfNat 1, Op.add, qOfNat 2, qOfNat 3), (qOfNat 1, Op.add, qOfNat 3, qOfNat 4), (qOfNat 4, Op.div, qOfNat 1, qOfNat 4)], [(qOfNat 1, Op.add, qOfNat 1, qOfNat 2), (qOfNat 1, Op.add, qOfNat 2, qOfNat 3), (qOfNat 1, Op.mul, qOfNat 3, qOfNat 3), (qOfNat 1, Op.add, qOfNat 3, qOfNat 4)], [(qOfNat 1, Op.add, qOfNat 1, qOfNat 2), (qOfNat 1, Op.add, qOfNat 2, qOfNat 3), (qOfNat 1, Op.mul, qOfNat 3, qOfNat 3), (qOfNat 3, Op.sub, qOfNat 1, qOfNat 2)], [(qOfNat 1, Op.add, qOfNat 1, qOfNat 2), (qOfNat 1, Op.add, qOfNat 2, qOfNat 3), (qOfNat 1, Op.mul, qOfNat 3, qOfNat 3), (qOfNat 3, Op.div, qOfNat 1, qOfNat 3)], [(qOfNat 1, Op.add, qOfNat 1, qOfNat 2), (qOfNat 1, Op.add, qOfNat 2, qOfNat 3), (qOfNat 3, Op.sub, qOfNat 1, qOfNat 2), (qOfNat 1, Op.mul, qOfNat 2, qOfNat 2)], [(qOfNat 1, Op.add, qOfNat 1, qOfNat 2), (qOfNat 1, Op.add, qOfNat 2, qOfNat 3), (qOfNat 3, Op.sub, qOfNat 1, qOfNat 2), (qOfNat 2, Op.sub, qOfNat 1, qOfNat 1)], [(qOfNat 1, Op.add, qOfNat 1, qOfNat 2), (qOfNat 1, Op.add, qOfNat 2, qOfNat 3), (qOfNat 3, Op.sub, qOfNat 1, qOfNat 2), (qOfNat 2, Op.div, qOfNat 1, qOfNat 2)], [(qOfNat 1, Op.add, qOfNat 1, qOfNat 2), (qOfNat 1, Op.add, qOfNat 2, qOfNat 3), (qOfNat 3, Op.div, qOfNat 1, qOfNat 3), (qOfNat 1, Op.add, qOfNat 3, qOfNat 4)], [(qOfNat 1, Op.add, qOfNat 1, qOfNat 2), (qOfNat 1, Op.add, qOfNat 2, qOfNat 3), (qOfNat 3, Op.div, qOfNat 1, qOfNat 3), (qOfNat 3, Op.sub, qOfNat 1, qOfNat 2)], [(qOfNat 1, Op.add, qOfNat 1, qOfNat 2), (qOfNat 1, Op.mul, qOfNat 2, qOfNat 2), (qOfNat 1, Op.add, qOfNat 2, qOfNat 3), (qOfNat 1, Op.add, qOfNat 3, qOfNat 4)], [(qOfNat 1, Op.add, qOfNat 1, qOfNat 2), (qOfNat 1, Op.mul, qOfNat 2, qOfNat 2), (qOfNat 1, Op.add, qOfNat 2, qOfNat 3), (qOfNat 1, Op.mul, qOfNat 3, qOfNat 3)], [(qOfNat 1, Op.add, qOfNat 1, qOfNat 2), (qOfNat 1, Op.mul, qOfNat 2, qOfNat 2), (qOfNat 1, Op.add, qOfNat 2, qOfNat 3), (qOfNat 3, Op.div, qOfNat 1, qOfNat 3)], [(qOfNat 1, Op.add, qOfNat 1, qOfNat 2), (qOfNat 1, Op.mul, qOfNat 2, qOfNat 2), (qOfNat 2, Op.div, qOfNat 1, qOfNat 2), (qOfNat 1, Op.add, qOfNat 2, qOfNat 3)], [(qOfNat 1, Op.add, qOfNat 1, qOfNat 2), (qOfNat 1, Op.mul, qOfNat 2, qOfNat 2), (qOfNat 2, Op.div, qOfNat 1, qOfNat 2), (qOfNat 2, Op.sub, qOfNat 1, qOfNat 1)], [(qOfNat 1, Op.add, qOfNat 1, qOfNat 2), (qOfNat 2, Op.div, qOfNat 1, qOfNat 2), (qOfNat 1, Op.add, qOfNat 2, qOfNat 3), (qOfNat 1, Op.add, qOfNat 3, qOfNat 4)], [(qOfNat 1, Op.add, qOfNat 1, qOfNat 2), (qOfNat 2, Op.div, qOfNat 1, qOfNat 2), (qOfNat 1, Op.add, qOfNat 2, qOfNat 3), (qOfNat 1, Op.mul, qOfNat 3, qOfNat 3)], [(qOfNat 1, Op.add, qOfNat 1, qOfNat 2), (qOfNat 2, Op.div, qOfNat 1, qOfNat 2), (qOfNat 1, Op.add, qOfNat 2, qOfNat 3), (qOfNat 3, Op.div, qOfNat 1, qOfNat 3)], [(qOfNat 1, Op.add, qOfNat 1, qOfNat 2), (qOfNat 1, Op.mul, qOfNat 1, qOfNat 1), (qOfNat 1, Op.div, qOfNat 1, qOfNat 1), (qOfNat 2, Op.add, qOfNat 1, qOfNat 3), (qOfNat 1, Op.add, qOfNat 3, qOfNat 4)], [(qOfNat 1, Op.add, qOfNat 1, qOfNat 2), (qOfNat 1, Op.mul, qOfNat 1, qOfNat 1), (qOfNat 1, Op.div, qOfNat 1, qOfNat 1), (qOfNat 2, Op.add, qOfNat 1, qOfNat 3), (qOfNat 1, Op.mul, qOfNat 3, qOfNat 3)], [(qOfNat 1, Op.add, qOfNat 1, qOfNat 2), (qOfNat 1, Op.mul, qOfNat 1, qOfNat 1), (qOfNat 1, Op.div, qOfNat 1, qOfNat 1), (qOfNat 2, Op.add, qOfNat 1, qOfNat 3), (qOfNat 3, Op.sub, qOfNat 1, qOfNat 2)], [(qOfNat 1, Op.add, qOfNat 1, qOfNat 2), (qOfNat 1, Op.mul, qOfNat 1, qOfNat 1), (qOfNat 1, Op.div, qOfNat 1, qOfNat 1), (qOfNat 2, Op.add, qOfNat 1, qOfNat 3), (qOfNat 3, Op.div, qOfNat 1, qOfNat 3)], [(qOfNat 1, Op.add, qOfNat 1, qOfNat 2), (qOfNat 1, Op.mul, qOfNat 1, qOfNat 1), (qOfNat 1, Op.div, qOfNat 1, qOfNat 1), (qOfNat 2, Op.mul, qOfNat 1, qOfNat 2), (qOfNat 1, Op.add, qOfNat 2, qOfNat 3)], [(qOfNat 1, Op.add, qOfNat 1, qOfNat 2), (qOfNat 1, Op.mul, qOfNat 1, qOfNat 1), (qOfNat 1, Op.div, qOfNat 1, qOfNat 1), (qOfNat 2, Op.mul, qOfNat 1, qOfNat 2), (qOfNat 2, Op.sub, qOfNat 1, qOfNat 1)], [(qOfNat 1, Op.add, qOfNat 1, qOfNat 2), (qOfNat 1, Op.mul, qOfNat 1, qOfNat 1), (qOfNat 1, Op.div, qOfNat 1, qOfNat 1), (qOfNat 2, Op.mul, qOfNat 1, qOfNat 2), (qOfNat 2, Op.div, qOfNat 1, qOfNat 2)], [(qOfNat 1, Op.add, qOfNat 1, qOfNat 2), (qOfNat 1, Op.mul, qOfNat 1, qOfNat 1), (qOfNat 1, Op.div, qOfNat 1, qOfNat 1), (qOfNat 2, Op.div, qOfNat 1, qOfNat 2), (qOfNat 1, Op.add, qOfNat 2, qOfNat 3)], [(qOfNat 1, Op.add, qOfNat 1, qOfNat 2), (qOfNat 1, Op.mul, qOfNat 1, qOfNat 1), (qOfNat 1, Op.div, qOfNat 1, qOfNat 1), (qOfNat 2, Op.div, qOfNat 1, qOfNat 2), (qOfNat 2, Op.sub, qOfNat 1, qOfNat 1)], [(qOfNat 1, Op.add, qOfNat 1, qOfNat 2), (qOfNat 1, Op.mul, qOfNat 1, qOfNat 1), (qOfNat 1, Op.add, qOfNat 2, qOfNat 3), (qOfNat 1, Op.div, qOfNat 1, qOfNat 1), (qOfNat 3, Op.add, qOfNat 1, qOfNat 4)], [(qOfNat 1, Op.add, qOfNat 1, qOfNat 2), (qOfNat 1, Op.mul, qOfNat 1, qOfNat 1), (qOfNat 1, Op.add, qOfNat 2, qOfNat 3), (qOfNat 1, Op.div, qOfNat 1, qOfNat 1), (qOfNat 3, Op.sub, qOfNat 1, qOfNat 2)], [(qOfNat 1, Op.add, qOfNat 1, qOfNat 2), (qOfNat 1, Op.mul, qOfNat 1, qOfNat 1), (qOfNat 1, Op.add, qOfNat 2, qOfNat 3), (qOfNat 1, Op.div, qOfNat 1, qOfNat 1), (qOfNat 3, Op.mul, qOfNat 1, qOfNat 3)], [(qOfNat 1, Op.add, qOfNat 1, qOfNat 2), (qOfNat 1, Op.mul, qOfNat 1, qOfNat 1), (qOfNat 1, Op.add, qOfNat 2, qOfNat 3), (qOfNat 1, Op.div, qOfNat 1, qOfNat 1), (qOfNat 3, Op.div, qOfNat 1, qOfNat 3)], [(qOfNat 1, Op.add, qOfNat 1, qOfNat 2), (qOfNat 1, Op.mul, qOfNat 1, qOfNat 1), (qOfNat 1, Op.add, qOfNat 2, qOfNat 3), (qOfNat 1, Op.add, qOfNat 3, qOfNat 4), (qOfNat 1, Op.add, qOfNat 4, qOfNat 5)], [(qOfNat 1, Op.add, qOfNat 1, qOfNat 2), (qOfNat 1, Op.mul, qOfNat 1, qOfNat 1), (qOfNat 1, Op.add, qOfNat 2, qOfNat 3), (qOfNat 1, Op.add, qOfNat 3, qOfNat 4), (qOfNat 1, Op.mul, qOfNat 4, qOfNat 4)], [(qOfNat 1, Op.add, qOfNat 1, qOfNat 2), (qOfNat 1, Op.mul, qOfNat 1, qOfNat 1), (qOfNat 1, Op.add, qOfNat 2, qOfNat 3), (qOfNat 1, Op.add, qOfNat 3, qOfNat 4), (qOfNat 4, Op.sub, qOfNat 1, qOfNat 3)], [(qOfNat 1, Op.add, qOfNat 1, qOfNat 2), (qOfNat 1, Op.mul, qOfNat 1, qOfNat 1), (qOfNat 1, Op.add, qOfNat 2, qOfNat 3), (qOfNat 1, Op.add, qOfNat 3, qOfNat 4), (qOfNat 4, Op.div, qOfNat 1, qOfNat 4)], [(qOfNat 1, Op.add, qOfNat 1, qOfNat 2), (qOfNat 1, Op.mul, qOfNat 1, qOfNat 1), (qOfNat 1, Op.add, qOfNat 2, qOfNat 3), (qOfNat 1, Op.mul, qOfNat 3, qOfNat 3), (qOfNat 1, Op.add, qOfNat 3, qOfNat 4)], [(qOfNat 1, Op.add, qOfNat 1, qOfNat 2), (qOfNat 1, Op.mul, qOfNat 1, qOfNat 1), (qOfNat 1, Op.add, qOfNat 2, qOfNat 3), (qOfNat 1, Op.mul, qOfNat 3, qOfNat 3), (qOfNat 3, Op.sub, qOfNat 1, qOfNat 2)], [(qOfNat 1, Op.add, qOfNat 1, qOfNat 2), (qOfNat 1, Op.mul, qOfNat 1, qOfNat 1), (qOfNat 1, Op.add, qOfNat 2, qOfNat 3), (qOfNat 1, Op.mul, qOfNat 3, qOfNat 3), (qOfNat 3, Op.div, qOfNat 1, qOfNat 3)], [(qOfNat 1, Op.add, qOfNat 1, qOfNat 2), (qOfNat 1, Op.mul, qOfNat 1, qOfNat 1), (qOfNat 1, Op.add, qOfNat 2, qOfNat 3), (qOfNat 3, Op.sub, qOfNat 1, qOfNat 2), (qOfNat 1, Op.mul, qOfNat 2, qOfNat 2)], [(qOfNat 1, Op.add, qOfNat 1, qOfNat 2), (qOfNat 1, Op.mul, qOfNat 1, qOfNat 1), (qOfNat 1, Op.add, qOfNat 2, qOfNat 3), (qOfNat 3, Op.sub, qOfNat 1, qOfNat 2), (qOfNat 2, Op.sub, qOfNat 1, qOfNat 1)], [(qOfNat 1, Op.add, qOfNat 1, qOfNat 2), (qOfNat 1, Op.mul, qOfNat 1, qOfNat 1), (qOfNat 1, Op.add, qOfNat 2, qOfNat 3), (qOfNat 3, Op.sub, qOfNat 1, qOfNat 2), (qOfNat 2, Op.div, qOfNat 1, qOfNat 2)], [(qOfNat 1, Op.add, qOfNat 1, qOfNat 2), (qOfNat 1, Op.mul, qOfNat 1, qOfNat 1), (qOfNat 1, Op.add, qOfNat 2, qOfNat 3), (qOfNat 3, Op.div, qOfNat 1, qOfNat 3), (qOfNat 1, Op.add, qOfNat 3, qOfNat 4)], [(qOfNat 1, Op.add, qOfNat 1, qOfNat 2), (qOfNat 1, Op.mul, qOfNat 1, qOfNat 1), (qOfNat 1, Op.add, qOfNat 2, qOfNat 3), (qOfNat 3, Op.div, qOfNat 1, qOfNat 3), (qOfNat 3, Op.sub, qOfNat 1, qOfNat 2)], [(qOfNat 1, Op.add, qOfNat 1, qOfNat 2), (qOfNat 1, Op.mul, qOfNat 1, qOfNat 1), (qOfNat 1, Op.mul, qOfNat 2, qOfNat 2), (qOfNat 1, Op.div, qOfNat 1, qOfNat 1), (qOfNat 2, Op.add, qOfNat 1, qOfNat 3)], [(qOfNat 1, Op.add, qOfNat 1, qOfNat 2), (qOfNat 1, Op.mul, qOfNat 1, qOfNat 1), (qOfNat 1, Op.mul, qOfNat 2, qOfNat 2), (qOfNat 1, Op.div, qOfNat 1, qOfNat 1), (qOfNat 2, Op.sub, qOfNat 1, qOfNat 1)], [(qOfNat 1, Op.add, qOfNat 1, qOfNat 2), (qOfNat 1, Op.mul, qOfNat 1, qOfNat 1), (qOfNat 1, Op.mul, qOfNat 2, qOfNat 2), (qOfNat 1, Op.div, qOfNat 1, qOfNat 1), (qOfNat 2, Op.div, qOfNat 1, qOfNat 2)], [(qOfNat 1, Op.add, qOfNat 1, qOfNat 2), (qOfNat 1, Op.mul, qOfNat 1, qOfNat 1), (qOfNat 1, Op.mul, qOfNat 2, qOfNat 2), (qOfNat 1, Op.add, qOfNat 2, qOfNat 3), (qOfNat 1, Op.add, qOfNat 3, qOfNat 4)], [(qOfNat 1, Op.add, qOfNat 1, qOfNat 2), (qOfNat 1, Op.mul, qOfNat 1, qOfNat 1), (qOfNat 1, Op.mul, qOfNat 2, qOfNat 2), (qOfNat 1, Op.add, qOfNat 2, qOfNat 3), (qOfNat 1, Op.mul, qOfNat 3, qOfNat 3)], [(qOfNat 1, Op.add, qOfNat 1, qOfNat 2), (qOfNat 1, Op.mul, qOfNat 1, qOfNat 1), (qOfNat 1, Op.mul, qOfNat 2, qOfNat 2), (qOfNat 1, Op.add, qOfNat 2, qOfNat 3), (qOfNat 3, Op.div, qOfNat 1, qOfNat 3)], [(qOfNat 1, Op.add, qOfNat 1, qOfNat 2), (qOfNat 1, Op.mul, qOfNat 1, qOfNat 1), (qOfNat 1, Op.mul, qOfNat 2, qOfNat 2), (qOfNat 2, Op.div, qOfNat 1, qOfNat 2), (qOfNat 1, Op.add, qOfNat 2, qOfNat 3)], [(qOfNat 1, Op.add, qOfNat 1, qOfNat 2), (qOfNat 1, Op.mul, qOfNat 1, qOfNat 1), (qOfNat 1, Op.mul, qOfNat 2, qOfNat 2), (qOfNat 2, Op.div, qOfNat 1, qOfNat 2), (qOfNat 2, Op.sub, qOfNat 1, qOfNat 1)], [(qOfNat 1, Op.add, qOfNat 1, qOfNat 2), (qOfNat 1, Op.mul, qOfNat 1, qOfNat 1), (qOfNat 2, Op.div, qOfNat 1, qOfNat 2), (qOfNat 1, Op.add, qOfNat 2, qOfNat 3), (qOfNat 1, Op.add, qOfNat 3, qOfNat 4)], [(qOfNat 1, Op.add, qOfNat 1, qOfNat 2), (qOfNat 1, Op.mul, qOfNat 1, qOfNat 1), (qOfNat 2, Op.div, qOfNat 1, qOfNat 2), (qOfNat 1, Op.add, qOfNat 2, qOfNat 3), (qOfNat 1, Op.mul, qOfNat 3, qOfNat 3)], [(qOfNat 1, Op.add, qOfNat 1, qOfNat 2), (qOfNat 1, Op.mul, qOfNat 1, qOfNat 1), (qOfNat 2, Op.div, qOfNat 1, qOfNat 2), (qOfNat 1, Op.add, qOfNat 2, qOfNat 3), (qOfNat 3, Op.div, qOfNat 1, qOfNat 3)], [(qOfNat 1, Op.add, qOfNat 1, qOfNat 2), (qOfNat 1, Op.div, qOfNat 1, qOfNat 1), (qOfNat 1, Op.add, qOfNat 2, qOfNat 3), (qOfNat 1, Op.add, qOfNat 3, qOfNat 4), (qOfNat 1, Op.add, qOfNat 4, qOfNat 5)], [(qOfNat 1, Op.add, qOfNat 1, qOfNat 2), (qOfNat 1, Op.div, qOfNat 1, qOfNat 1), (qOfNat 1, Op.add, qOfNat 2, qOfNat 3), (qOfNat 1, Op.add, qOfNat 3, qOfNat 4), (qOfNat 1, Op.mul, qOfNat 4, qOfNat 4)], [(qOfNat 1, Op.add, qOfNat 1, qOfNat 2), (qOfNat 1, Op.div, qOfNat 1, qOfNat 1), (qOfNat 1, Op.add, qOfNat 2, qOfNat 3), (qOfNat 1, Op.add, qOfNat 3, qOfNat 4), (qOfNat 4, Op.sub, qOfNat 1, qOfNat 3)], [(qOfNat 1, Op.add, qOfNat 1, qOfNat 2), (qOfNat 1, Op.div, qOfNat 1, qOfNat 1), (qOfNat 1, Op.add, qOfNat 2, qOfNat 3), (qOfNat 1, Op.add, qOfNat 3, qOfNat 4), (qOfNat 4, Op.div, qOfNat 1, qOfNat 4)], [(qOfNat 1, Op.add, qOfNat 1, qOfNat 2), (qOfNat 1, Op.div, qOfNat 1, qOfNat 1), (qOfNat 1, Op.add, qOfNat 2, qOfNat 3), (qOfNat 1, Op.mul, qOfNat 3, qOfNat 3), (qOfNat 1, Op.add, qOfNat 3, qOfNat 4)], [(qOfNat 1, Op.add, qOfNat 1, qOfNat 2), (qOfNat 1, Op.div, qOfNat 1, qOfNat 1), (qOfNat 1, Op.add, qOfNat 2, qOfNat 3), (qOfNat 1, Op.mul, qOfNat 3, qOfNat 3), (qOfNat 3, Op.sub, qOfNat 1, qOfNat 2)], [(qOfNat 1, Op.add, qOfNat 1, qOfNat 2), (qOfNat 1, Op.div, qOfNat 1, qOfNat 1), (qOfNat 1, Op.add, qOfNat 2, qOfNat 3), (qOfNat 1, Op.mul, qOfNat 3, qOfNat 3), (qOfNat 3, Op.div, qOfNat 1, qOfNat 3)], [(qOfNat 1, Op.add, qOfNat 1, qOfNat 2), (qOfNat 1, Op.div, qOfNat 1, qOfNat 1), (qOfNat 1, Op.add, qOfNat 2, qOfNat 3), (qOfNat 3, Op.sub, qOfNat 1, qOfNat 2), (qOfNat 1, Op.mul, qOfNat 2, qOfNat 2)], [(qOfNat 1, Op.add, qOfNat 1, qOfNat 2), (qOfNat 1, Op.div, qOfNat 1, qOfNat 1), (qOfNat 1, Op.add, qOfNat 2, qOfNat 3), (qOfNat 3, Op.sub, qOfNat 1, qOfNat 2), (qOfNat 2, Op.sub, qOfNat 1, qOfNat 1)], [(qOfNat 1, Op.add, qOfNat 1, qOfNat 2), (qOfNat 1, Op.div, qOfNat 1, qOfNat 1), (qOfNat 1, Op.add, qOfNat 2, qOfNat 3), (qOfNat 3, Op.sub, qOfNat 1, qOfNat 2), (qOfNat 2, Op.div, qOfNat 1, qOfNat 2)], [(qOfNat 1, Op.add, qOfNat 1, qOfNat 2), (qOfNat 1, Op.div, qOfNat 1, qOfNat 1), (qOfNat 1, Op.add, qOfNat 2, qOfNat 3), (qOfNat 3, Op.div, qOfNat 1, qOfNat 3), (qOfNat 1, Op.add, qOfNat 3, qOfNat 4)], [(qOfNat 1, Op.add, qOfNat 1, qOfNat 2), (qOfNat 1, Op.div, qOfNat 1, qOfNat 1), (qOfNat 1, Op.add, qOfNat 2, qOfNat 3), (qOfNat 3, Op.div, qOfNat 1, qOfNat 3), (qOfNat 3, Op.sub, qOfNat 1, qOfNat 2)], [(qOfNat 1, Op.add, qOfNat 1, qOfNat 2), (qOfNat 1, Op.div, qOfNat 1, qOfNat 1), (qOfNat 1, Op.mul, qOfNat 2, qOfNat 2), (qOfNat 1, Op.add, qOfNat 2, qOfNat 3), (qOfNat 1, Op.add, qOfNat 3, qOfNat 4)], [(qOfNat 1, Op.add, qOfNat 1, qOfNat 2), (qOfNat 1, Op.div, qOfNat 1, qOfNat 1), (qOfNat 1, Op.mul, qOfNat 2, qOfNat 2), (qOfNat 1, Op.add, qOfNat 2, qOfNat 3), (qOfNat 1, Op.mul, qOfNat 3, qOfNat 3)], [(qOfNat 1, Op.add, qOfNat 1, qOfNat 2), (qOfNat 1, Op.div, qOfNat 1, qOfNat 1), (qOfNat 1, Op.mul, qOfNat 2, qOfNat 2), (qOfNat 1, Op.add, qOfNat 2, qOfNat 3), (qOfNat 3, Op.div, qOfNat 1, qOfNat 3)], [(qOfNat 1, Op.add, qOfNat 1, qOfNat 2), (qOfNat 1, Op.div, qOfNat 1, qOfNat 1), (qOfNat 1, Op.mul, qOfNat 2, qOfNat 2), (qOfNat 2, Op.div, qOfNat 1, qOfNat 2), (qOfNat 1, Op.add, qOfNat 2, qOfNat 3)], [(qOfNat 1, Op.add, qOfNat 1, qOfNat 2), (qOfNat 1, Op.div, qOfNat 1, qOfNat 1), (qOfNat 1, Op.mul, qOfNat 2, qOfNat 2), (qOfNat 2, Op.div, qOfNat 1, qOfNat 2), (qOfNat 2, Op.sub, qOfNat 1, qOfNat 1)], [(qOfNat 1, Op.add, qOfNat 1, qOfNat 2), (qOfNat 1, Op.div, qOfNat 1, qOfNat 1), (qOfNat 2, Op.div, qOfNat 1, qOfNat 2), (qOfNat 1, Op.add, qOfNat 2, qOfNat 3), (qOfNat 1, Op.add, qOfNat 3, qOfNat 4)], [(qOfNat 1, Op.add, qOfNat 1, qOfNat 2), (qOfNat 1, Op.div, qOfNat 1, qOfNat 1), (qOfNat 2, Op.div, qOfNat 1, qOfNat 2), (qOfNat 1, Op.add, qOfNat 2, qOfNat 3), (qOfNat 1, Op.mul, qOfNat 3, qOfNat 3)], [(qOfNat 1, Op.add, qOfNat 1, qOfNat 2), (qOfNat 1, Op.div, qOfNat 1, qOfNat 1), (qOfNat 2, Op.div, qOfNat 1, qOfNat 2), (qOfNat 1, Op.add, qOfNat 2, qOfNat 3), (qOfNat 3, Op.div, qOfNat 1, qOfNat 3)], [(qOfNat 1, Op.add, qOfNat 1, qOfNat 2), (qOfNat 1, Op.add, qOfNat 2, qOfNat 3), (qOfNat 1, Op.add, qOfNat 3, qOfNat 4), (qOfNat 1, Op.add, qOfNat 4, qOfNat 5), (qOfNat 1, Op.add, qOfNat 5, qOfNat 6)], [(qOfNat 1, Op.add, qOfNat 1, qOfNat 2), (qOfNat 1, Op.add, qOfNat 2, qOfNat 3), (qOfNat 1, Op.add, qOfNat 3, qOfNat 4), (qOfNat 1, Op.add, qOfNat 4, qOfNat 5), (qOfNat 1, Op.mul, qOfNat 5, qOfNat 5)], [(qOfNat 1, Op.add, qOfNat 1, qOfNat 2), (qOfNat 1, Op.add, qOfNat 2, qOfNat 3), (qOfNat 1, Op.add, qOfNat 3, qOfNat 4), (qOfNat 1, Op.add, qOfNat 4, qOfNat 5), (qOfNat 5, Op.sub, qOfNat 1, qOfNat 4)], [(qOfNat 1, Op.add, qOfNat 1, qOfNat 2), (qOfNat 1, Op.add, qOfNat 2, qOfNat 3), (qOfNat 1, Op.add, qOfNat 3, qOfNat 4), (qOfNat 1, Op.add, qOfNat 4, qOfNat 5), (qOfNat 5, Op.div, qOfNat 1, qOfNat 5)], [(qOfNat 1, Op.add, qOfNat 1, qOfNat 2), (qOfNat 1, Op.add, qOfNat 2, qOfNat 3), (qOfNat 1, Op.add, qOfNat 3, qOfNat 4), (qOfNat 1, Op.mul, qOfNat 4, qOfNat 4), (qOfNat 1, Op.add, qOfNat 4, qOfNat 5)], [(qOfNat 1, Op.add, qOfNat 1, qOfNat 2), (qOfNat 1, Op.add, qOfNat 2, qOfNat 3), (qOfNat 1, Op.add, qOfNat 3, qOfNat 4), (qOfNat 1, Op.mul, qOfNat 4, qOfNat 4), (qOfNat 4, Op.sub, qOfNat 1, qOfNat 3)], [(qOfNat 1, Op.add, qOfNat 1, qOfNat 2), (qOfNat 1, Op.add, qOfNat 2, qOfNat 3), (qOfNat 1, Op.add, qOfNat 3, qOfNat 4), (qOfNat 1, Op.mul, qOfNat 4, qOfNat 4), (qOfNat 4, Op.div, qOfNat 1, qOfNat 4)], [(qOfNat 1, Op.add, qOfNat 1, qOfNat 2), (qOfNat 1, Op.add, qOfNat 2, qOfNat 3), (qOfNat 1, Op.add, qOfNat 3, qOfNat 4), (qOfNat 4, Op.sub, qOfNat 1, qOfNat 3), (qOfNat 1, Op.mul, qOfNat 3, qOfNat 3)], [(qOfNat 1, Op.add, qOfNat 1, qOfNat 2), (qOfNat 1, Op.add, qOfNat 2, qOfNat 3), (qOfNat 1, Op.add, qOfNat 3, qOfNat 4), (qOfNat 4, Op.sub, qOfNat 1, qOfNat 3), (qOfNat 3, Op.sub, qOfNat 1, qOfNat 2)], [(qOfNat 1, Op.add, qOfNat 1, qOfNat 2), (qOfNat 1, Op.add, qOfNat 2, qOfNat 3), (qOfNat 1, Op.add, qOfNat 3, qOfNat 4), (qOfNat 4, Op.sub, qOfNat 1, qOfNat 3), (qOfNat 3, Op.div, qOfNat 1, qOfNat 3)], [(qOfNat 1, Op.add, qOfNat 1, qOfNat 2), (qOfNat 1, Op.add, qOfNat 2, qOfNat 3), (qOfNat 1, Op.add, qOfNat 3, qOfNat 4), (qOfNat 4, Op.div, qOfNat 1, qOfNat 4), (qOfNat 1, Op.add, qOfNat 4, qOfNat 5)], [(qOfNat 1, Op.add, qOfNat 1, qOfNat 2), (qOfNat 1, Op.add, qOfNat 2, qOfNat 3), (qOfNat 1, Op.add, qOfNat 3, qOfNat 4), (qOfNat 4, Op.div, qOfNat 1, qOfNat 4), (qOfNat 4, Op.sub, qOfNat 1, qOfNat 3)], [(qOfNat 1, Op.add, qOfNat 1, qOfNat 2), (qOfNat 1, Op.add, qOfNat 2, qOfNat 3), (qOfNat 1, Op.mul, qOfNat 3, qOfNat 3), (qOfNat 1, Op.add, qOfNat 3, qOfNat 4), (qOfNat 1, Op.add, qOfNat 4, qOfNat 5)], [(qOfNat 1, Op.add, qOfNat 1, qOfNat 2), (qOfNat 1, Op.add, qOfNat 2, qOfNat 3), (qOfNat 1, Op.mul, qOfNat 3, qOfNat 3), (qOfNat 1, Op.add, qOfNat 3, qOfNat 4), (qOfNat 1, Op.mul, qOfNat 4, qOfNat 4)], [(qOfNat 1, Op.add, qOfNat 1, qOfNat 2), (qOfNat 1, Op.add, qOfNat 2, qOfNat 3), (qOfNat 1, Op.mul, qOfNat 3, qOfNat 3), (qOfNat 1, Op.add, qOfNat 3, qOfNat 4), (qOfNat 4, Op.div, qOfNat 1, qOfNat 4)], [(qOfNat 1, Op.add, qOfNat 1, qOfNat 2), (qOfNat 1, Op.add, qOfNat 2, qOfNat 3), (qOfNat 1, Op.mul, qOfNat 3, qOfNat 3), (qOfNat 3, Op.sub, qOfNat 1, qOfNat 2), (qOfNat 1, Op.mul, qOfNat 2, qOfNat 2)], [(qOfNat 1, Op.add, qOfNat 1, qOfNat 2), (qOfNat 1, Op.add, qOfNat 2, qOfNat 3), (qOfNat 1, Op.mul, qOfNat 3, qOfNat 3), (qOfNat 3, Op.sub, qOfNat 1, qOfNat 2), (qOfNat 2, Op.sub, qOfNat 1, qOfNat 1)], [(qOfNat 1, Op.add, qOfNat 1, qOfNat 2), (qOfNat 1, Op.add, qOfNat 2, qOfNat 3), (qOfNat 1, Op.mul, qOfNat 3, qOfNat 3), (qOfNat 3, Op.sub, qOfNat 1, qOfNat 2), (qOfNat 2, Op.div, qOfNat 1, qOfNat 2)], [(qOfNat 1, Op.add, qOfNat 1, qOfNat 2), (qOfNat 1, Op.add, qOfNat 2, qOfNat 3), (qOfNat 1, Op.mul, qOfNat 3, qOfNat 3), (qOfNat 3, Op.div, qOfNat 1, qOfNat 3), (qOfNat 1, Op.add, qOfNat 3, qOfNat 4)], [(qOfNat 1, Op.add, qOfNat 1, qOfNat 2), (qOfNat 1, Op.add, qOfNat 2, qOfNat 3), (qOfNat 1, Op.mul, qOfNat 3, qOfNat 3), (qOfNat 3, Op.div, qOfNat 1, qOfNat 3), (qOfNat 3, Op.sub, qOfNat 1, qOfNat 2)]]
/-- Queue contents of the breadth-first loop on selection [1, 1, 1, 1, 1, 1], target 6, after 70 iterations. -/
def traceQ7 : List BState :=
  [(qOfNat 4, [qOfNat 1, qOfNat 4], [(qOfNat 1, Op.add, qOfNat 1, qOfNat 2), (qOfNat 2, Op.div, qOfNat 1, qOfNat 2), (qOfNat 1, Op.add, qOfNat 2, qOfNat 3), (qOfNat 1, Op.add, qOfNat 3, qOfNat 4)]), (qOfNat 3, [qOfNat 1, qOfNat 3], [(qOfNat 1, Op.add, qOfNat 1, qOfNat 2), (qOfNat 2, Op.div, qOfNat 1, qOfNat 2), (qOfNat 1, Op.add, qOfNat 2, qOfNat 3), (qOfNat 1, Op.mul, qOfNat 3, qOfNat 3)]), (qOfNat 3, [qOfNat 1, qOfNat 3], [(qOfNat 1, Op.add, qOfNat 1, qOfNat 2), (qOfNat 2, Op.div, qOfNat 1, qOfNat 2), (qOfNat 1, Op.add, qOfNat 2, qOfNat 3), (qOfNat 3, Op.div, qOfNat 1, qOfNat 3)]), (qOfNat 4, [qOfNat 4], [(qOfNat 1, Op.add, qOfNat 1, qOfNat 2), (qOfNat 1, Op.mul, qOfNat 1, qOfNat 1), (qOfNat 1, Op.div, qOfNat 1, qOfNat 1), (qOfNat 2, Op.add, qOfNat 1, qOfNat 3), (qOfNat 1, Op.add, qOfNat 3, qOfNat 4)]), (qOfNat 3, [qOfNat 3], [(qOfNat 1, Op.add, qOfNat 1, qOfNat 2), (qOfNat 1, Op.mul, qOfNat 1, qOfNat 1), (qOfNat 1, Op.div, qOfNat 1, qOfNat 1), (qOfNat 2, Op.add, qOfNat 1, qOfNat 3), (qOfNat 1, Op.mul, qOfNat 3, qOfNat 3)]), (qOfNat 2, [qOfNat 2], [(qOfNat 1, Op.add, qOfNat 1, qOfNat 2), (qOfNat 1, Op.mul, qOfNat 1, qOfNat 1), (qOfNat 1, Op.div, qOfNat 1, qOfNat 1), (qOfNat 2, Op.add, qOfNat 1, qOfNat 3), (qOfNat 3, Op.sub, qOfNat 1, qOfNat 2)]), (qOfNat 3, [qOfNat 3], [(qOfNat 1, Op.add, qOfNat 1, qOfNat 2), (qOfNat 1, Op.mul, qOfNat 1, qOfNat 1), (qOfNat 1, Op.div, qOfNat 1, qOfNat 1), (qOfNat 2, Op.add, qOfNat 1, qOfNat 3), (qOfNat 3, Op.div, qOfNat 1, qOfNat 3)]), (qOfNat 3, [qOfNat 3], [(qOfNat 1, Op.add, qOfNat 1, qOfNat 2), (qOfNat 1, Op.mul, qOfNat 1, qOfNat 1), (qOfNat 1, Op.div, qOfNat 1, qOfNat 1), (qOfNat 2, Op.mul, qOfNat 1, qOfNat 2), (qOfNat 1, Op.add, qOfNat 2, qOfNat 3)]), (qOfNat 1, [qOfNat 1], [(qOfNat 1, Op.add, qOfNat 1, qOfNat 2), (qOfNat 1, Op.mul, qOfNat 1, qOfNat 1), (qOfNat 1, Op.div, qOfNat 1, qOfNat 1), (qOfNat 2, Op.mul, qOfNat 1, qOfNat 2), (qOfNat 2, Op.sub, qOfNat 1, qOfNat 1)]), (qOfNat 2, [qOfNat 2], [(qOfNat 1, Op.add, qOfNat 1, qOfNat 2), (qOfNat 1, Op.mul, qOfNat 1, qOfNat 1), (qOfNat 1, Op.div, qOfNat 1, qOfNat 1), (qOfNat 2, Op.mul, qOfNat 1, qOfNat 2), (qOfNat 2, Op.div, qOfNat 1, qOfNat 2)]), (qOfNat 3, [qOfNat 3], [(qOfNat 1, Op.add, qOfNat 1, qOfNat 2), (qOfNat 1, Op.mul, qOfNat 1, qOfNat 1), (qOfNat 1, Op.div, qOfNat 1, qOfNat 1), (qOfNat 2, Op.div, qOfNat 1, qOfNat 2), (qOfNat 1, Op.add, qOfNat 2, qOfNat 3)]), (qOfNat 1, [qOfNat 1], [(qOfNat 1, Op.add, qOfNat 1, qOfNat 2), (qOfNat 1, Op.mul, qOfNat 1, qOfNat 1), (qOfNat 1, Op.div, qOfNat 1, qOfNat 1), (qOfNat 2, Op.div, qOfNat 1, qOfNat 2), (qOfNat 2, Op.sub, qOfNat 1, qOfNat 1)]), (qOfNat 4, [qOfNat 4], [(qOfNat 1, Op.add, qOfNat 1, qOfNat 2), (qOfNat 1, Op.mul, qOfNat 1, qOfNat 1), (qOfNat 1, Op.add, qOfNat 2, qOfNat 3), (qOfNat 1, Op.div, qOfNat 1, qOfNat 1), (qOfNat 3, Op.add, qOfNat 1, qOfNat 4)]), (qOfNat 2, [qOfNat 2], [(qOfNat 1, Op.add, qOfNat 1, qOfNat 2), (qOfNat 1, Op.mul, qOfNat 1, qOfNat 1), (qOfNat 1, Op.add, qOfNat 2, qOfNat 3), (qOfNat 1, Op.div, qOfNat 1, qOfNat 1), (qOfNat 3, Op.sub, qOfNat 1, qOfNat 2)]), (qOfNat 3, [qOfNat 3], [(qOfNat 1, Op.add, qOfNat 1, qOfNat 2), (qOfNat 1, Op.mul, qOfNat 1, qOfNat 1), (qOfNat 1, Op.add, qOfNat 2, qOfNat 3), (qOfNat 1, Op.div, qOfNat 1, qOfNat 1), (qOfNat 3, Op.mul, qOfNat 1, qOfNat 3)]), (qOfNat 3, [qOfNat 3], [(qOfNat 1, Op.add, qOfNat 1, qOfNat 2), (qOfNat 1, Op.mul, qOfNat 1, qOfNat 1), (qOfNat 1, Op.add, qOfNat 2, qOfNat 3), (qOfNat 1, Op.div, qOfNat 1, qOfNat 1), (qOfNat 3, Op.div, qOfNat 1, qOfNat 3)]), (qOfNat 5, [qOfNat 5], [(qOfNat 1, Op.add, qOfNat 1, qOfNat 2), (qOfNat 1, Op.mul, qOfNat 1, qOfNat 1), (qOfNat 1, Op.add, qOfNat 2, qOfNat 3), (qOfNat 1, Op.add, qOfNat 3, qOfNat 4), (qOfNat 1, Op.add, qOfNat 4, qOfNat 5)]), (qOfNat 4, [qOfNat 4], [(qOfNat 1, Op.add, qOfNat 1, qOfNat 2), (qOfNat 1, Op.mul, qOfNat 1, qOfNat 1), (qOfNat 1, Op.add, qOfNat 2, qOfNat 3), (qOfNat 1, Op.add, qOfNat 3, qOfNat 4), (qOfNat 1, Op.mul, qOfNat 4, qOfNat 4)]), (qOfNat 3, [qOfNat 3], [(qOfNat 1, Op.add, qOfNat 1, qOfNat 2), (qOfNat 1, Op.mul, qOfNat 1, qOfNat 1), (qOfNat 1, Op.add, qOfNat 2, qOfNat 3), (qOfNat 1, Op.add, qOfNat 3, qOfNat 4), (qOfNat 4, Op.sub, qOfNat 1, qOfNat 3)]), (qOfNat 4, [qOfNat 4], [(qOfNat 1, Op.add, qOfNat 1, qOfNat 2), (qOfNat 1, Op.mul, qOfNat 1, qOfNat 1), (qOfNat 1, Op.add, qOfNat 2, qOfNat 3), (qOfNat 1, Op.add, qOfNat 3, qOfNat 4), (qOfNat 4, Op.div, qOfNat 1, qOfNat 4)]), (qOfNat 4, [qOfNat 4], [(qOfNat 1, Op.add, qOfNat 1, qOfNat 2), (qOfNat 1, Op.mul, qOfNat 1, qOfNat 1), (qOfNat 1, Op.add, qOfNat 2, qOfNat 3), (qOfNat 1, Op.mul, qOfNat 3, qOfNat 3), (qOfNat 1, Op.add, qOfNat 3, qOfNat 4)]), (qOfNat 2, [qOfNat 2], [(qOfNat 1, Op.add, qOfNat 1, qOfNat 2), (qOfNat 1, Op.mul, qOfNat 1, qOfNat 1), (qOfNat 1, Op.add, qOfNat 2, qOfNat 3), (qOfNat 1, Op.mul, qOfNat 3, qOfNat 3), (qOfNat 3, Op.sub, qOfNat 1, qOfNat 2)]), (qOfNat 3, [qOfNat 3], [(qOfNat 1, Op.add, qOfNat 1, qOfNat 2), (qOfNat 1, Op.mul, qOfNat 1, qOfNat 1), (qOfNat 1, Op.add, qOfNat 2, qOfNat 3), (qOfNat 1, Op.mul, qOfNat 3, qOfNat 3), (qOfNat 3, Op.div, qOfNat 1, qOfNat 3)]), (qOfNat 2, [qOfNat 2], [(qOfNat 1, Op.add, qOfNat 1, qOfNat 2), (qOfNat 1, Op.mul, qOfNat 1, qOfNat 1), (qOfNat 1, Op.add, qOfNat 2, qOfNat 3), (qOfNat 3, Op.sub, qOfNat 1, qOfNat 2), (qOfNat 1, Op.mul, qOfNat 2, qOfNat 2)]), (qOfNat 1, [qOfNat 1], [(qOfNat 1, Op.add, qOfNat 1, qOfNat 2), (qOfNat 1, Op.mul, qOfNat 1, qOfNat 1), (qOfNat 1, Op.add, qOfNat 2, qOfNat 3), (qOfNat 3, Op.sub, qOfNat 1, qOfNat 2), (qOfNat 2, Op.sub, qOfNat 1, qOfNat 1)]), (qOfNat 2, [qOfNat 2], [(qOfNat 1, Op.add, qOfNat 1, qOfNat 2), (qOfNat 1, Op.mul, qOfNat 1, qOfNat 1), (qOfNat 1, Op.add, qOfNat 2, qOfNat 3), (qOfNat 3, Op.sub, qOfNat 1, qOfNat 2), (qOfNat 2, Op.div, qOfNat 1, qOfNat 2)]), (qOfNat 4, [qOfNat 4], [(qOfNat 1, Op.add, qOfNat 1, qOfNat 2), (qOfNat 1, Op.mul, qOfNat 1, qOfNat 1), (qOfNat 1, Op.add, qOfNat 2, qOfNat 3), (qOfNat 3, Op.div, qOfNat 1, qOfNat 3), (qOfNat 1, Op.add, qOfNat 3, qOfNat 4)]), (qOfNat 2, [qOfNat 2], [(qOfNat 1, Op.add, qOfNat 1, qOfNat 2), (qOfNat 1, Op.mul, qOfNat 1, qOfNat 1), (qOfNat 1, Op.add, qOfNat 2, qOfNat 3), (qOfNat 3, Op.div, qOfNat 1, qOfNat 3), (qOfNat 3, Op.sub, qOfNat 1, qOfNat 2)]), (qOfNat 3, [qOfNat 3], [(qOfNat 1, Op.add, qOfNat 1, qOfNat 2), (qOfNat 1, Op.mul, qOfNat 1, qOfNat 1), (qOfNat 1, Op.mul, qOfNat 2, qOfNat 2), (qOfNat 1, Op.div, qOfNat 1, qOfNat 1), (qOfNat 2, Op.add, qOfNat 1, qOfNat 3)]), (qOfNat 1, [qOfNat 1], [(qOfNat 1, Op.add, qOfNat 1, qOfNat 2), (qOfNat 1, Op.mul, qOfNat 1, qOfNat 1), (qOfNat 1, Op.mul, qOfNat 2, qOfNat 2), (qOfNat 1, Op.div, qOfNat 1, qOfNat 1), (qOfNat 2, Op.sub, qOfNat 1, qOfNat 1)]), (qOfNat 2, [qOfNat 2], [(qOfNat 1, Op.add, qOfNat 1, qOfNat 2), (qOfNat 1, Op.mul, qOfNat 1, qOfNat 1), (qOfNat 1, Op.mul, qOfNat 2, qOfNat 2), (qOfNat 1, Op.div, qOfNat 1, qOfNat 1), (qOfNat 2, Op.div, qOfNat 1, qOfNat 2)]), (qOfNat 4, [qOfNat 4], [(qOfNat 1, Op.add, qOfNat 1, qOfNat 2), (qOfNat 1, Op.mul, qOfNat 1, qOfNat 1), (qOfNat 1, Op.mul, qOfNat 2, qOfNat 2), (qOfNat 1, Op.add, qOfNat 2, qOfNat 3), (qOfNat 1, Op.add, qOfNat 3, qOfNat 4)]), (qOfNat 3, [qOfNat 3], [(qOfNat 1, Op.add, qOfNat 1, qOfNat 2), (qOfNat 1, Op.mul, qOfNat 1, qOfNat 1), (qOfNat 1, Op.mul, qOfNat 2, qOfNat 2), (qOfNat 1, Op.add, qOfNat 2, qOfNat 3), (qOfNat 1, Op.mul, qOfNat 3, qOfNat 3)]), (qOfNat 3, [qOfNat 3], [(qOfNat 1, Op.add, qOfNat 1, qOfNat 2), (qOfNat 1, Op.mul, qOfNat 1, qOfNat 1), (qOfNat 1, Op.mul, qOfNat 2, qOfNat 2), (qOfNat 1, Op.add, qOfNat 2, qOfNat 3), (qOfNat 3, Op.div, qOfNat 1, qOfNat 3)]), (qOfNat 3, [qOfNat 3], [(qOfNat 1, Op.add, qOfNat 1, qOfNat 2), (qOfNat 1, Op.mul, qOfNat 1, qOfNat 1), (qOfNat 1, Op.mul, qOfNat 2, qOfNat 2), (qOfNat 2, Op.div, qOfNat 1, qOfNat 2), (qOfNat 1, Op.add, qOfNat 2, qOfNat 3)]), (qOfNat 1, [qOfNat 1], [(qOfNat 1, Op.add, qOfNat 1, qOfNat 2), (qOfNat 1, Op.mul, qOfNat 1, qOfNat 1), (qOfNat 1, Op.mul, qOfNat 2, qOfNat 2), (qOfNat 2, Op.div, qOfNat 1, qOfNat 2), (qOfNat 2, Op.sub, qOfNat 1, qOfNat 1)]), (qOfNat 4, [qOfNat 4], [(qOfNat 1, Op.add, qOfNat 1, qOfNat 2), (qOfNat 1, Op.mul, qOfNat 1, qOfNat 1), (qOfNat 2, Op.div, qOfNat 1, qOfNat 2), (qOfNat 1, Op.add, qOfNat 2, qOfNat 3), (qOfNat 1, Op.add, qOfNat 3, qOfNat 4)]), (qOfNat 3, [qOfNat 3], [(qOfNat 1, Op.add, qOfNat 1, qOfNat 2), (qOfNat 1, Op.mul, qOfNat 1, qOfNat 1), (qOfNat 2, Op.div, qOfNat 1, qOfNat 2), (qOfNat 1, Op.add, qOfNat 2, qOfNat 3), (qOfNat 1, Op.mul, qOfNat 3, qOfNat 3)]), (qOfNat 3, [qOfNat 3], [(qOfNat 1, Op.add, qOfNat 1, qOfNat 2), (qOfNat 1, Op.mul, qOfNat 1, qOfNat 1), (qOfNat 2, Op.div, qOfNat 1, qOfNat 2), (qOfNat 1, Op.add, qOfNat 2, qOfNat 3), (qOfNat 3, Op.div, qOfNat 1, qOfNat 3)]), (qOfNat 5, [qOfNat 5], [(qOfNat 1, Op.add, qOfNat 1, qOfNat 2), (qOfNat 1, Op.div, qOfNat 1, qOfNat 1), (qOfNat 1, Op.add, qOfNat 2, qOfNat 3), (qOfNat 1, Op.add, qOfNat 3, qOfNat 4), (qOfNat 1, Op.add, qOfNat 4, qOfNat 5)]), (qOfNat 4, [qOfNat 4], [(qOfNat 1, Op.add, qOfNat 1, qOfNat 2), (qOfNat 1, Op.div, qOfNat 1, qOfNat 1), (qOfNat 1, Op.add, qOfNat 2, qOfNat 3), (qOfNat 1, Op.add, qOfNat 3, qOfNat 4), (qOfNat 1, Op.mul, qOfNat 4, qOfNat 4)]), (qOfNat 3, [qOfNat 3], [(qOfNat 1, Op.add, qOfNat 1, qOfNat 2), (qOfNat 1, Op.div, qOfNat 1, qOfNat 1), (qOfNat 1, Op.add, qOfNat 2, qOfNat 3), (qOfNat 1, Op.add, qOfNat 3, qOfNat 4), (qOfNat 4, Op.sub, qOfNat 1, qOfNat 3)]), (qOfNat 4, [qOfNat 4], [(qOfNat 1, Op.add, qOfNat 1, qOfNat 2), (qOfNat 1, Op.div, qOfNat 1, qOfNat 1), (qOfNat 1, Op.add, qOfNat 2, qOfNat 3), (qOfNat 1, Op.add, qOfNat 3, qOfNat 4), (qOfNat 4, Op.div, qOfNat 1, qOfNat 4)]), (qOfNat 4, [qOfNat 4], [(qOfNat 1, Op.add, qOfNat 1, qOfNat 2), (qOfNat 1, Op.div, qOfNat 1, qOfNat 1), (qOfNat 1, Op.add, qOfNat 2, qOfNat 3), (qOfNat 1, Op.mul, qOfNat 3, qOfNat 3), (qOfNat 1, Op.add, qOfNat 3, qOfNat 4)]), (qOfNat 2, [qOfNat 2], [(qOfNat 1, Op.add, qOfNat 1, qOfNat 2), (qOfNat 1, Op.div, qOfNat 1, qOfNat 1), (qOfNat 1, Op.add, qOfNat 2, qOfNat 3), (qOfNat 1, Op.mul, qOfNat 3, qOfNat 3), (qOfNat 3, Op.sub, qOfNat 1, qOfNat 2)]), (qOfNat 3, [qOfNat 3], [(qOfNat 1, Op.add, qOfNat 1, qOfNat 2), (qOfNat 1, Op.div, qOfNat 1, qOfNat 1), (qOfNat 1, Op.add, qOfNat 2, qOfNat 3), (qOfNat 1, Op.mul, qOfNat 3, qOfNat 3), (qOfNat 3, Op.div, qOfNat 1, qOfNat 3)]), (qOfNat 2, [qOfNat 2], [(qOfNat 1, Op.add, qOfNat 1, qOfNat 2), (qOfNat 1, Op.div, qOfNat 1, qOfNat 1), (qOfNat 1, Op.add, qOfNat 2, qOfNat 3), (qOfNat 3, Op.sub, qOfNat 1, qOfNat 2), (qOfNat 1, Op.mul, qOfNat 2, qOfNat 2)]), (qOfNat 1, [qOfNat 1], [(qOfNat 1, Op.add, qOfNat 1, qOfNat 2), (qOfNat 1, Op.div, qOfNat 1, qOfNat 1), (qOfNat 1, Op.add, qOfNat 2, qOfNat 3), (qOfNat 3, Op.sub, qOfNat 1, qOfNat 2), (qOfNat 2, Op.sub, qOfNat 1, qOfNat 1)]), (qOfNat 2, [qOfNat 2], [(qOfNat 1, Op.add, qOfNat 1, qOfNat 2), (qOfNat 1, Op.div, qOfNat 1, qOfNat 1), (qOfNat 1, Op.add, qOfNat 2, qOfNat 3), (qOfNat 3, Op.sub, qOfNat 1, qOfNat 2), (qOfNat 2, Op.div, qOfNat 1, qOfNat 2)]), (qOfNat 4, [qOfNat 4], [(qOfNat 1, Op.add, qOfNat 1, qOfNat 2), (qOfNat 1, Op.div, qOfNat 1, qOfNat 1), (qOfNat 1, Op.add, qOfNat 2, qOfNat 3), (qOfNat 3, Op.div, qOfNat 1, qOfNat 3), (qOfNat 1, Op.add, qOfNat 3, qOfNat 4)]), (qOfNat 2, [qOfNat 2], [(qOfNat 1, Op.add, qOfNat 1, qOfNat 2), (qOfNat 1, Op.div, qOfNat 1, qOfNat 1), (qOfNat 1, Op.add, qOfNat 2, qOfNat 3), (qOfNat 3, Op.div, qOfNat 1, qOfNat 3), (qOfNat 3, Op.sub, qOfNat 1, qOfNat 2)]), (qOfNat 4, [qOfNat 4], [(qOfNat 1, Op.add, qOfNat 1, qOfNat 2), (qOfNat 1, Op.div, qOfNat 1, qOfNat 1), (qOfNat 1, Op.mul, qOfNat 2, qOfNat 2), (qOfNat 1, Op.add, qOfNat 2, qOfNat 3), (qOfNat 1, Op.add, qOfNat 3, qOfNat 4)]), (qOfNat 3, [qOfNat 3], [(qOfNat 1, Op.add, qOfNat 1, qOfNat 2), (qOfNat 1, Op.div, qOfNat 1, qOfNat 1), (qOfNat 1, Op.mul, qOfNat 2, qOfNat 2), (qOfNat 1, Op.add, qOfNat 2, qOfNat 3), (qOfNat 1, Op.mul, qOfNat 3, qOfNat 3)]), (qOfNat 3, [qOfNat 3], [(qOfNat 1, Op.add, qOfNat 1, qOfNat 2), (qOfNat 1, Op.div, qOfNat 1, qOfNat 1), (qOfNat 1, Op.mul, qOfNat 2, qOfNat 2), (qOfNat 1, Op.add, qOfNat 2, qOfNat 3), (qOfNat 3, Op.div, qOfNat 1, qOfNat 3)]), (qOfNat 3, [qOfNat 3], [(qOfNat 1, Op.add, qOfNat 1, qOfNat 2), (qOfNat 1, Op.div, qOfNat 1, qOfNat 1), (qOfNat 1, Op.mul, qOfNat 2, qOfNat 2), (qOfNat 2, Op.div, qOfNat 1, qOfNat 2), (qOfNat 1, Op.add, qOfNat 2, qOfNat 3)]), (qOfNat 1, [qOfNat 1], [(qOfNat 1, Op.add, qOfNat 1, qOfNat 2), (qOfNat 1, Op.div, qOfNat 1, qOfNat 1), (qOfNat 1, Op.mul, qOfNat 2, qOfNat 2), (qOfNat 2, Op.div, qOfNat 1, qOfNat 2), (qOfNat 2, Op.sub, qOfNat 1, qOfNat 1)]), (qOfNat 4, [qOfNat 4], [(qOfNat 1, Op.add, qOfNat 1, qOfNat 2), (qOfNat 1, Op.div, qOfNat 1, qOfNat 1), (qOfNat 2, Op.div, qOfNat 1, qOfNat 2), (qOfNat 1, Op.add, qOfNat 2, qOfNat 3), (qOfNat 1, Op.add, qOfNat 3, qOfNat 4)]), (qOfNat 3, [qOfNat 3], [(qOfNat 1, Op.add, qOfNat 1, qOfNat 2), (qOfNat 1, Op.div, qOfNat 1, qOfNat 1), (qOfNat 2, Op.div, qOfNat 1, qOfNat 2), (qOfNat 1, Op.add, qOfNat 2, qOfNat 3), (qOfNat 1, Op.mul, qOfNat 3, qOfNat 3)]), (qOfNat 3, [qOfNat 3], [(qOfNat 1, Op.add, qOfNat 1, qOfNat 2), (qOfNat 1, Op.div, qOfNat 1, qOfNat 1), (qOfNat 2, Op.div, qOfNat 1, qOfNat 2), (qOfNat 1, Op.add, qOfNat 2, qOfNat 3), (qOfNat 3, Op.div, qOfNat 1, qOfNat 3)]), (qOfNat 6, [qOfNat 6], [(qOfNat 1, Op.add, qOfNat 1, qOfNat 2), (qOfNat 1, Op.add, qOfNat 2, qOfNat 3), (qOfNat 1, Op.add, qOfNat 3, qOfNat 4), (qOfNat 1, Op.add, qOfNat 4, qOfNat 5), (qOfNat 1, Op.add, qOfNat 5, qOfNat 6)]), (qOfNat 5, [qOfNat 5], [(qOfNat 1, Op.add, qOfNat 1, qOfNat 2), (qOfNat 1, Op.add, qOfNat 2, qOfNat 3), (qOfNat 1, Op.add, qOfNat 3, qOfNat 4), (qOfNat 1, Op.add, qOfNat 4, qOfNat 5), (qOfNat 1, Op.mul, qOfNat 5, qOfNat 5)]), (qOfNat 4, [qOfNat 4], [(qOfNat 1, Op.add, qOfNat 1, qOfNat 2), (qOfNat 1, Op.add, qOfNat 2, qOfNat 3), (qOfNat 1, Op.add, qOfNat 3, qOfNat 4), (qOfNat 1, Op.add, qOfNat 4, qOfNat 5), (qOfNat 5, Op.sub, qOfNat 1, qOfNat 4)]), (qOfNat 5, [qOfNat 5], [(qOfNat 1, Op.add, qOfNat 1, qOfNat 2), (qOfNat 1, Op.add, qOfNat 2, qOfNat 3), (qOfNat 1, Op.add, qOfNat 3, qOfNat 4), (qOfNat 1, Op.add, qOfNat 4, qOfNat 5), (qOfNat 5, Op.div, qOfNat 1, qOfNat 5)]), (qOfNat 5, [qOfNat 5], [(qOfNat 1, Op.add, qOfNat 1, qOfNat 2), (qOfNat 1, Op.add, qOfNat 2, qOfNat 3), (qOfNat 1, Op.add, qOfNat 3, qOfNat 4), (qOfNat 1, Op.mul, qOfNat 4, qOfNat 4), (qOfNat 1, Op.add, qOfNat 4, qOfNat 5)]), (qOfNat 3, [qOfNat 3], [(qOfNat 1, Op.add, qOfNat 1, qOfNat 2), (qOfNat 1, Op.add, qOfNat 2, qOfNat 3), (qOfNat 1, Op.add, qOfNat 3, qOfNat 4), (qOfNat 1, Op.mul, qOfNat 4, qOfNat 4), (qOfNat 4, Op.sub, qOfNat 1, qOfNat 3)]), (qOfNat 4, [qOfNat 4], [(qOfNat 1, Op.add, qOfNat 1, qOfNat 2), (qOfNat 1, Op.add, qOfNat 2, qOfNat 3), (qOfNat 1, Op.add, qOfNat 3, qOfNat 4), (qOfNat 1, Op.mul, qOfNat 4, qOfNat 4), (qOfNat 4, Op.div, qOfNat 1, qOfNat 4)]), (qOfNat 3, [qOfNat 3], [(qOfNat 1, Op.add, qOfNat 1, qOfNat 2), (qOfNat 1, Op.add, qOfNat 2, qOfNat 3), (qOfNat 1, Op.add, qOfNat 3, qOfNat 4), (qOfNat 4, Op.sub, qOfNat 1, qOfNat 3), (qOfNat 1, Op.mul, qOfNat 3, qOfNat 3)]), (qOfNat 2, [qOfNat 2], [(qOfNat 1, Op.add, qOfNat 1, qOfNat 2), (qOfNat 1, Op.add, qOfNat 2, qOfNat 3), (qOfNat 1, Op.add, qOfNat 3, qOfNat 4), (qOfNat 4, Op.sub, qOfNat 1, qOfNat 3), (qOfNat 3, Op.sub, qOfNat 1, qOfNat 2)]), (qOfNat 3, [qOfNat 3], [(qOfNat 1, Op.add, qOfNat 1, qOfNat 2), (qOfNat 1, Op.add, qOfNat 2, qOfNat 3), (qOfNat 1, Op.add, qOfNat 3, qOfNat 4), (qOfNat 4, Op.sub, qOfNat 1, qOfNat 3), (qOfNat 3, Op.div, qOfNat 1, qOfNat 3)]), (qOfNat 5, [qOfNat 5], [(qOfNat 1, Op.add, qOfNat 1, qOfNat 2), (qOfNat 1, Op.add, qOfNat 2, qOfNat 3), (qOfNat 1, Op.add, qOfNat 3, qOfNat 4), (qOfNat 4, Op.div, qOfNat 1, qOfNat 4), (qOfNat 1, Op.add, qOfNat 4, qOfNat 5)]), (qOfNat 3, [qOfNat 3], [(qOfNat 1, Op.add, qOfNat 1, qOfNat 2), (qOfNat 1, Op.add, qOfNat 2, qOfNat 3), (qOfNat 1, Op.add, qOfNat 3, qOfNat 4), (qOfNat 4, Op.div, qOfNat 1, qOfNat 4), (qOfNat 4, Op.sub, qOfNat 1, qOfNat 3)]), (qOfNat 5, [qOfNat 5], [(qOfNat 1, Op.add, qOfNat 1, qOfNat 2), (qOfNat 1, Op.add, qOfNat 2, qOfNat 3), (qOfNat 1, Op.mul, qOfNat 3, qOfNat 3), (qOfNat 1, Op.add, qOfNat 3, qOfNat 4), (qOfNat 1, Op.add, qOfNat 4, qOfNat 5)]), (qOfNat 4, [qOfNat 4], [(qOfNat 1, Op.add, qOfNat 1, qOfNat 2), (qOfNat 1, Op.add, qOfNat 2, qOfNat 3), (qOfNat 1, Op.mul, qOfNat 3, qOfNat 3), (qOfNat 1, Op.add, qOfNat 3, qOfNat 4), (qOfNat 1, Op.mul, qOfNat 4, qOfNat 4)]), (qOfNat 4, [qOfNat 4], [(qOfNat 1, Op.add, qOfNat 1, qOfNat 2), (qOfNat 1, Op.add, qOfNat 2, qOfNat 3), (qOfNat 1, Op.mul, qOfNat 3, qOfNat 3), (qOfNat 1, Op.add, qOfNat 3, qOfNat 4), (qOfNat 4, Op.div, qOfNat 1, qOfNat 4)]), (qOfNat 2, [qOfNat 2], [(qOfNat 1, Op.add, qOfNat 1, qOfNat 2), (qOfNat 1, Op.add, qOfNat 2, qOfNat 3), (qOfNat 1, Op.mul, qOfNat 3, qOfNat 3), (qOfNat 3, Op.sub, qOfNat 1, qOfNat 2), (qOfNat 1, Op.mul, qOfNat 2, qOfNat 2)]), (qOfNat 1, [qOfNat 1], [(qOfNat 1, Op.add, qOfNat 1, qOfNat 2), (qOfNat 1, Op.add, qOfNat 2, qOfNat 3), (qOfNat 1, Op.mul, qOfNat 3, qOfNat 3), (qOfNat 3, Op.sub, qOfNat 1, qOfNat 2), (qOfNat 2, Op.sub, qOfNat 1, qOfNat 1)]), (qOfNat 2, [qOfNat 2], [(qOfNat 1, Op.add, qOfNat 1, qOfNat 2), (qOfNat 1, Op.add, qOfNat 2, qOfNat 3), (qOfNat 1, Op.mul, qOfNat 3, qOfNat 3), (qOfNat 3, Op.sub, qOfNat 1, qOfNat 2), (qOfNat 2, Op.div, qOfNat 1, qOfNat 2)]), (qOfNat 4, [qOfNat 4], [(qOfNat 1, Op.add, qOfNat 1, qOfNat 2), (qOfNat 1, Op.add, qOfNat 2, qOfNat 3), (qOfNat 1, Op.mul, qOfNat 3, qOfNat 3), (qOfNat 3, Op.div, qOfNat 1, qOfNat 3), (qOfNat 1, Op.add, qOfNat 3, qOfNat 4)]), (qOfNat 2, [qOfNat 2], [(qOfNat 1, Op.add, qOfNat 1, qOfNat 2), (qOfNat 1, Op.add, qOfNat 2, qOfNat 3), (qOfNat 1, Op.mul, qOfNat 3, qOfNat 3), (qOfNat 3, Op.div, qOfNat 1, qOfNat 3), (qOfNat 3, Op.sub, qOfNat 1, qOfNat 2)]), (qOfNat 1, [qOfNat 1], [(qOfNat 1, Op.add, qOfNat 1, qOfNat 2), (qOfNat 1, Op.add, qOfNat 2, qOfNat 3), (qOfNat 3, Op.sub, qOfNat 1, qOfNat 2), (qOfNat 1, Op.mul, qOfNat 2, qOfNat 2), (qOfNat 2, Op.sub, qOfNat 1, qOfNat 1)]), (qOfNat 2, [qOfNat 2], [(qOfNat 1, Op.add, qOfNat 1, qOfNat 2), (qOfNat 1, Op.add, qOfNat 2, qOfNat 3), (qOfNat 3, Op.sub, qOfNat 1, qOfNat 2), (qOfNat 1, Op.mul, qOfNat 2, qOfNat 2), (qOfNat 2, Op.div, qOfNat 1, qOfNat 2)]), (qOfNat 1, [qOfNat 1], [(qOfNat 1, Op.add, qOfNat 1, qOfNat 2), (qOfNat 1, Op.add, qOfNat 2, qOfNat 3), (qOfNat 3, Op.sub, qOfNat 1, qOfNat 2), (qOfNat 2, Op.div, qOfNat 1, qOfNat 2), (qOfNat 2, Op.sub, qOfNat 1, qOfNat 1)]), (qOfNat 5, [qOfNat 5], [(qOfNat 1, Op.add, qOfNat 1, qOfNat 2), (qOfNat 1, Op.add, qOfNat 2, qOfNat 3), (qOfNat 3, Op.div, qOfNat 1, qOfNat 3), (qOfNat 1, Op.add, qOfNat 3, qOfNat 4), (qOfNat 1, Op.add, qOfNat 4, qOfNat 5)]), (qOfNat 4, [qOfNat 4], [(qOfNat 1, Op.add, qOfNat 1, qOfNat 2), (qOfNat 1, Op.add, qOfNat 2, qOfNat 3), (qOfNat 3, Op.div, qOfNat 1, qOfNat 3), (qOfNat 1, Op.add, qOfNat 3, qOfNat 4), (qOfNat 1, Op.mul, qOfNat 4, qOfNat 4)]), (qOfNat 4, [qOfNat 4], [(qOfNat 1, Op.add, qOfNat 1, qOfNat 2), (qOfNat 1, Op.add, qOfNat 2, qOfNat 3), (qOfNat 3, Op.div, qOfNat 1, qOfNat 3), (qOfNat 1, Op.add, qOfNat 3, qOfNat 4), (qOfNat 4, Op.div, qOfNat 1, qOfNat 4)]), (qOfNat 2, [qOfNat 2], [(qOfNat 1, Op.add, qOfNat 1, qOfNat 2), (qOfNat 1, Op.add, qOfNat 2, qOfNat 3), (qOfNat 3, Op.div, qOfNat 1, qOfNat 3), (qOfNat 3, Op.sub, qOfNat 1, qOfNat 2), (qOfNat 1, Op.mul, qOfNat 2, qOfNat 2)]), (qOfNat 1, [qOfNat 1], [(qOfNat 1, Op.add, qOfNat 1, qOfNat 2), (qOfNat 1, Op.add, qOfNat 2, qOfNat 3), (qOfNat 3, Op.div, qOfNat 1, qOfNat 3), (qOfNat 3, Op.sub, qOfNat 1, qOfNat 2), (qOfNat 2, Op.sub, qOfNat 1, qOfNat 1)]), (qOfNat 2, [qOfNat 2], [(qOfNat 1, Op.add, qOfNat 1, qOfNat 2), (qOfNat 1, Op.add, qOfNat 2, qOfNat 3), (qOfNat 3, Op.div, qOfNat 1, qOfNat 3), (qOfNat 3, Op.sub, qOfNat 1, qOfNat 2), (qOfNat 2, Op.div, qOfNat 1, qOfNat 2)]), (qOfNat 5, [qOfNat 5], [(qOfNat 1, Op.add, qOfNat 1, qOfNat 2), (qOfNat 1, Op.mul, qOfNat 2, qOfNat 2), (qOfNat 1, Op.add, qOfNat 2, qOfNat 3), (qOfNat 1, Op.add, qOfNat 3, qOfNat 4), (qOfNat 1, Op.add, qOfNat 4, qOfNat 5)]), (qOfNat 4, [qOfNat 4], [(qOfNat 1, Op.add, qOfNat 1, qOfNat 2), (qOfNat 1, Op.mul, qOfNat 2, qOfNat 2), (qOfNat 1, Op.add, qOfNat 2, qOfNat 3), (qOfNat 1, Op.add, qOfNat 3, qOfNat 4), (qOfNat 1, Op.mul, qOfNat 4, qOfNat 4)]), (qOfNat 3, [qOfNat 3], [(qOfNat 1, Op.add, qOfNat 1, qOfNat 2), (qOfNat 1, Op.mul, qOfNat 2, qOfNat 2), (qOfNat 1, Op.add, qOfNat 2, qOfNat 3), (qOfNat 1, Op.add, qOfNat 3, qOfNat 4), (qOfNat 4, Op.sub, qOfNat 1, qOfNat 3)]), (qOfNat 4, [qOfNat 4], [(qOfNat 1, Op.add, qOfNat 1, qOfNat 2), (qOfNat 1, Op.mul, qOfNat 2, qOfNat 2), (qOfNat 1, Op.add, qOfNat 2, qOfNat 3), (qOfNat 1, Op.add, qOfNat 3, qOfNat 4), (qOfNat 4, Op.div, qOfNat 1, qOfNat 4)]), (qOfNat 4, [qOfNat 4], [(qOfNat 1, Op.add, qOfNat 1, qOfNat 2), (qOfNat 1, Op.mul, qOfNat 2, qOfNat 2), (qOfNat 1, Op.add, qOfNat 2, qOfNat 3), (qOfNat 1, Op.mul, qOfNat 3, qOfNat 3), (qOfNat 1, Op.add, qOfNat 3, qOfNat 4)]), (qOfNat 3, [qOfNat 3], [(qOfNat 1, Op.add, qOfNat 1, qOfNat 2), (qOfNat 1, Op.mul, qOfNat 2, qOfNat 2), (qOfNat 1, Op.add, qOfNat 2, qOfNat 3), (qOfNat 1, Op.mul, qOfNat 3, qOfNat 3), (qOfNat 3, Op.div, qOfNat 1, qOfNat 3)]), (qOfNat 4, [qOfNat 4], [(qOfNat 1, Op.add, qOfNat 1, qOfNat 2), (qOfNat 1, Op.mul, qOfNat 2, qOfNat 2), (qOfNat 1, Op.add, qOfNat 2, qOfNat 3), (qOfNat 3, Op.div, qOfNat 1, qOfNat 3), (qOfNat 1, Op.add, qOfNat 3, qOfNat 4)]), (qOfNat 4, [qOfNat 4], [(qOfNat 1, Op.add, qOfNat 1, qOfNat 2), (qOfNat 1, Op.mul, qOfNat 2, qOfNat 2), (qOfNat 2, Op.div, qOfNat 1, qOfNat 2), (qOfNat 1, Op.add, qOfNat 2, qOfNat 3), (qOfNat 1, Op.add, qOfNat 3, qOfNat 4)]), (qOfNat 3, [qOfNat 3], [(qOfNat 1, Op.add, qOfNat 1, qOfNat 2), (qOfNat 1, Op.mul, qOfNat 2, qOfNat 2), (qOfNat 2, Op.div, qOfNat 1, qOfNat 2), (qOfNat 1, Op.add, qOfNat 2, qOfNat 3), (qOfNat 1, Op.mul, qOfNat 3, qOfNat 3)]), (qOfNat 3, [qOfNat 3], [(qOfNat 1, Op.add, qOfNat 1, qOfNat 2), (qOfNat 1, Op.mul, qOfNat 2, qOfNat 2), (qOfNat 2, Op.div, qOfNat 1, qOfNat 2), (qOfNat 1, Op.add, qOfNat 2, qOfNat 3), (qOfNat 3, Op.div, qOfNat 1, qOfNat 3)])]

/-- Seen path fingerprints of the same run after 70 iterations. -/
def traceU7 : List (List Oper) :=
  [[(qOfNat 1, Op.add, qOfNat 1, qOfNat 2)], [(qOfNat 1, Op.mul, qOfNat 1, qOfNat 1)], [(qOfNat 1, Op.div, qOfNat 1, qOfNat 1)], [(qOfNat 1, Op.add, qOfNat 1, qOfNat 2), (qOfNat 1, Op.mul, qOfNat 1, qOfNat 1)], [(qOfNat 1, Op.add, qOfNat 1, qOfNat 2), (qOfNat 1, Op.div, qOfNat 1, qOfNat 1)], [(qOfNat 1, Op.add, qOfNat 1, qOfNat 2), (qOfNat 1, Op.add, qOfNat 2, qOfNat 3)], [(qOfNat 1, Op.add, qOfNat 1, qOfNat 2), (qOfNat 1, Op.mul, qOfNat 2, qOfNat 2)], [(qOfNat 1, Op.add, qOfNat 1, qOfNat 2), (qOfNat 2, Op.sub, qOfNat 1, qOfNat 1)], [(qOfNat 1, Op.add, qOfNat 1, qOfNat 2), (qOfNat 2, Op.div, qOfNat 1, qOfNat 2)], [(qOfNat 1, Op.mul, qOfNat 1, qOfNat 1), (qOfNat 1, Op.div, qOfNat 1, qOfNat 1)], [(qOfNat 1, Op.add, qOfNat 1, qOfNat 2), (qOfNat 1, Op.mul, qOfNat 1, qOfNat 1), (qOfNat 1, Op.div, qOfNat 1, qOfNat 1)], [(qOfNat 1, Op.add, qOfNat 1, qOfNat 2), (qOfNat 1, Op.mul, qOfNat 1, qOfNat 1), (qOfNat 1, Op.add, qOfNat 2, qOfNat 3)], [(qOfNat 1, Op.add, qOfNat 1, qOfNat 2), (qOfNat 1, Op.mul, qOfNat 1, qOfNat 1), (qOfNat 1, Op.mul, qOfNat 2, qOfNat 2)], [(qOfNat 1, Op.add, qOfNat 1, qOfNat 2), (qOfNat 1, Op.mul, qOfNat 1, qOfNat 1), (qOfNat 2, Op.sub, qOfNat 1, qOfNat 1)], [(qOfNat 1, Op.add, qOfNat 1, qOfNat 2), (qOfNat 1, Op.mul, qOfNat 1, qOfNat 1), (qOfNat 2, Op.div, qOfNat 1, qOfNat 2)], [(qOfNat 1, Op.add, qOfNat 1, qOfNat 2), (qOfNat 1, Op.div, qOfNat 1, qOfNat 1), (qOfNat 1, Op.add, qOfNat 2, qOfNat 3)], [(qOfNat 1, Op.add, qOfNat 1, qOfNat 2), (qOfNat 1, Op.div, qOfNat 1, qOfNat 1), (qOfNat 1, Op.mul, qOfNat 2, qOfNat 2)], [(qOfNat 1, Op.add, qOfNat 1, qOfNat 2), (qOfNat 1, Op.div, qOfNat 1, qOfNat 1), (qOfNat 2, Op.sub, qOfNat 1, qOfNat 1)], [(qOfNat 1, Op.add, qOfNat 1, qOfNat 2), (qOfNat 1, Op.div, qOfNat 1, qOfNat 1), (qOfNat 2, Op.div, qOfNat 1, qOfNat 2)], [(qOfNat 1, Op.add, qOfNat 1, qOfNat 2), (qOfNat 1, Op.add, qOfNat 2, qOfNat 3), (qOfNat 1, Op.add, qOfNat 3, qOfNat 4)], [(qOfNat 1, Op.add, qOfNat 1, qOfNat 2), (qOfNat 1, Op.add, qOfNat 2, qOfNat 3), (qOfNat 1, Op.mul, qOfNat 3, qOfNat 3)], [(qOfNat 1, Op.add, qOfNat 1, qOfNat 2), (qOfNat 1, Op.add, qOfNat 2, qOfNat 3), (qOfNat 3, Op.sub, qOfNat 1, qOfNat 2)], [(qOfNat 1, Op.add, qOfNat 1, qOfNat 2), (qOfNat 1, Op.add, qOfNat 2, qOfNat 3), (qOfNat 3, Op.div, qOfNat 1, qOfNat 3)], [(qOfNat 1, Op.add, qOfNat 1, qOfNat 2), (qOfNat 1, Op.mul, qOfNat 2, qOfNat 2), (qOfNat 1, Op.add, qOfNat 2, qOfNat 3)], [(qOfNat 1, Op.add, qOfNat 1, qOfNat 2), (qOfNat 1, Op.mul, qOfNat 2, qOfNat 2), (qOfNat 2, Op.sub, qOfNat 1, qOfNat 1)], [(qOfNat 1, Op.add, qOfNat 1, qOfNat 2), (qOfNat 1, Op.mul, qOfNat 2, qOfNat 2), (qOfNat 2, Op.div, qOfNat 1, qOfNat 2)], [(qOfNat 1, Op.add, qOfNat 1, qOfNat 2), (qOfNat 2, Op.div, qOfNat 1, qOfNat 2), (qOfNat 1, Op.add, qOfNat 2, qOfNat 3)], [(qOfNat 1, Op.add, qOfNat 1, qOfNat 2), (qOfNat 2, Op.div, qOfNat 1, qOfNat 2), (qOfNat 2, Op.sub, qOfNat 1, qOfNat 1)], [(qOfNat 1, Op.add, qOfNat 1, qOfNat 2), (qOfNat 1, Op.mul, qOfNat 1, qOfNat 1), (qOfNat 1, Op.div, qOfNat 1, qOfNat 1), (qOfNat 2, Op.add, qOfNat 1, qOfNat 3)], [(qOfNat 1, Op.add, qOfNat 1, qOfNat 2), (qOfNat 1, Op.mul, qOfNat 1, qOfNat 1), (qOfNat 1, Op.div, qOfNat 1, qOfNat 1), (qOfNat 2, Op.sub, qOfNat 1, qOfNat 1)], [(qOfNat 1, Op.add, qOfNat 1, qOfNat 2), (qOfNat 1, Op.mul, qOfNat 1, qOfNat 1), (qOfNat 1, Op.div, qOfNat 1, qOfNat 1), (qOfNat 2, Op.mul, qOfNat 1, qOfNat 2)], [(qOfNat 1, Op.add, qOfNat 1, qOfNat 2), (qOfNat 1, Op.mul, qOfNat 1, qOfNat 1), (qOfNat 1, Op.div, qOfNat 1, qOfNat 1), (qOfNat 2, Op.div, qOfNat 1, qOfNat 2)], [(qOfNat 1, Op.add, qOfNat 1, qOfNat 2), (qOfNat 1, Op.mul, qOfNat 1, qOfNat 1), (qOfNat 1, Op.add, qOfNat 2, qOfNat 3), (qOfNat 1, Op.div, qOfNat 1, qOfNat 1)], [(qOfNat 1, Op.add, qOfNat 1, qOfNat 2), (qOfNat 1, Op.mul, qOfNat 1, qOfNat 1), (qOfNat 1, Op.add, qOfNat 2, qOfNat 3), (qOfNat 1, Op.add, qOfNat 3, qOfNat 4)], [(qOfNat 1, Op.add, qOfNat 1, qOfNat 2), (qOfNat 1, Op.mul, qOfNat 1, qOfNat 1), (qOfNat 1, Op.add, qOfNat 2, qOfNat 3), (qOfNat 1, Op.mul, qOfNat 3, qOfNat 3)], [(qOfNat 1, Op.add, qOfNat 1, qOfNat 2), (qOfNat 1, Op.mul, qOfNat 1, qOfNat 1), (qOfNat 1, Op.add, qOfNat 2, qOfNat 3), (qOfNat 3, Op.sub, qOfNat 1, qOfNat 2)], [(qOfNat 1, Op.add, qOfNat 1, qOfNat 2), (qOfNat 1, Op.mul, qOfNat 1, qOfNat 1), (qOfNat 1, Op.add, qOfNat 2, qOfNat 3), (qOfNat 3, Op.div, qOfNat 1, qOfNat 3)], [(qOfNat 1, Op.add, qOfNat 1, qOfNat 2), (qOfNat 1, Op.mul, qOfNat 1, qOfNat 1), (qOfNat 1, Op.mul, qOfNat 2, qOfNat 2), (qOfNat 1, Op.div, qOfNat 1, qOfNat 1)], [(qOfNat 1, Op.add, qOfNat 1, qOfNat 2), (qOfNat 1, Op.mul, qOfNat 1, qOfNat 1), (qOfNat 1, Op.mul, qOfNat 2, qOfNat 2), (qOfNat 1, Op.add, qOfNat 2, qOfNat 3)], [(qOfNat 1, Op.add, qOfNat 1, qOfNat 2), (qOfNat 1, Op.mul, qOfNat 1, qOfNat 1), (qOfNat 1, Op.mul, qOfNat 2, qOfNat 2), (qOfNat 2, Op.sub, qOfNat 1, qOfNat 1)], [(qOfNat 1, Op.add, qOfNat 1, qOfNat 2), (qOfNat 1, Op.mul, qOfNat 1, qOfNat 1), (qOfNat 1, Op.mul, qOfNat 2, qOfNat 2), (qOfNat 2, Op.div, qOfNat 1, qOfNat 2)], [(qOfNat 1, Op.add, qOfNat 1, qOfNat 2), (qOfNat 1, Op.mul, qOfNat 1, qOfNat 1), (qOfNat 2, Op.div, qOfNat 1, qOfNat 2), (qOfNat 1, Op.add, qOfNat 2, qOfNat 3)], [(qOfNat 1, Op.add, qOfNat 1, qOfNat 2), (qOfNat 1, Op.mul, qOfNat 1, qOfNat 1), (qOfNat 2, Op.div, qOfNat 1, qOfNat 2), (qOfNat 2, Op.sub, qOfNat 1, qOfNat 1)], [(qOfNat 1, Op.add, qOfNat 1, qOfNat 2), (qOfNat 1, Op.div, qOfNat 1, qOfNat 1), (qOfNat 1, Op.add, qOfNat 2, qOfNat 3), (qOfNat 1, Op.add, qOfNat 3, qOfNat 4)], [(qOfNat 1, Op.add, qOfNat 1, qOfNat 2), (qOfNat 1, Op.div, qOfNat 1, qOfNat 1), (qOfNat 1, Op.add, qOfNat 2, qOfNat 3), (qOfNat 1, Op.mul, qOfNat 3, qOfNat 3)], [(qOfNat 1, Op.add, qOfNat 1, qOfNat 2), (qOfNat 1, Op.div, qOfNat 1, qOfNat 1), (qOfNat 1, Op.add, qOfNat 2, qOfNat 3), (qOfNat 3, Op.sub, qOfNat 1, qOfNat 2)], [(qOfNat 1, Op.add, qOfNat 1, qOfNat 2), (qOfNat 1, Op.div, qOfNat 1, qOfNat 1), (qOfNat 1, Op.add, qOfNat 2, qOfNat 3), (qOfNat 3, Op.div, qOfNat 1, qOfNat 3)], [(qOfNat 1, Op.add, qOfNat 1, qOfNat 2), (qOfNat 1, Op.div, qOfNat 1, qOfNat 1), (qOfNat 1, Op.mul, qOfNat 2, qOfNat 2), (qOfNat 1, Op.add, qOfNat 2, qOfNat 3)], [(qOfNat 1, Op.add, qOfNat 1, qOfNat 2), (qOfNat 1, Op.div, qOfNat 1, qOfNat 1), (qOfNat 1, Op.mul, qOfNat 2, qOfNat 2), (qOfNat 2, Op.sub, qOfNat 1, qOfNat 1)], [(qOfNat 1, Op.add, qOfNat 1, qOfNat 2), (qOfNat 1, Op.div, qOfNat 1, qOfNat 1), (qOfNat 1, Op.mul, qOfNat 2, qOfNat 2), (qOfNat 2, Op.div, qOfNat 1, qOfNat 2)], [(qOfNat 1, Op.add, qOfNat 1, qOfNat 2), (qOfNat 1, Op.div, qOfNat 1, qOfNat 1), (qOfNat 2, Op.div, qOfNat 1, qOfNat 2), (qOfNat 1, Op.add, qOfNat 2, qOfNat 3)], [(qOfNat 1, Op.add, qOfNat 1, qOfNat 2), (qOfNat 1, Op.div, qOfNat 1, qOfNat 1), (qOfNat 2, Op.div, qOfNat 1, qOfNat 2), (qOfNat 2, Op.sub, qOfNat 1, qOfNat 1)], [(qOfNat 1, Op.add, qOfNat 1, qOfNat 2), (qOfNat 1, Op.add, qOfNat 2, qOfNat 3), (qOfNat 1, Op.add, qOfNat 3, qOfNat 4), (qOfNat 1, Op.add, qOfNat 4, qOfNat 5)], [(qOfNat 1, Op.add, qOfNat 1, qOfNat 2), (qOfNat 1, Op.add, qOfNat 2, qOfNat 3), (qOfNat 1, Op.add, qOfNat 3, qOfNat 4), (qOfNat 1, Op.mul, qOfNat 4, qOfNat 4)], [(qOfNat 1, Op.add, qOfNat 1, qOfNat 2), (qOfNat 1, Op.add, qOfNat 2, qOfNat 3), (qOfNat 1, Op.add, qOfNat 3, qOfNat 4), (qOfNat 4, Op.sub, qOfNat 1, qOfNat 3)], [(qOfNat 1, Op.add, qOfNat 1, qOfNat 2), (qOfNat 1, Op.add, qOfNat 2, qOfNat 3), (qOfNat 1, Op.add, qOfNat 3, qOfNat 4), (qOfNat 4, Op.div, qOfNat 1, qOfNat 4)], [(qOfNat 1, Op.add, qOfNat 1, qOfNat 2), (qOfNat 1, Op.add, qOfNat 2, qOfNat 3), (qOfNat 1, Op.mul, qOfNat 3, qOfNat 3), (qOfNat 1, Op.add, qOfNat 3, qOfNat 4)], [(qOfNat 1, Op.add, qOfNat 1, qOfNat 2), (qOfNat 1, Op.add, qOfNat 2, qOfNat 3), (qOfNat 1, Op.mul, qOfNat 3, qOfNat 3), (qOfNat 3, Op.sub, qOfNat 1, qOfNat 2)], [(qOfNat 1, Op.add, qOfNat 1, qOfNat 2), (qOfNat 1, Op.add, qOfNat 2, qOfNat 3), (qOfNat 1, Op.mul, qOfNat 3, qOfNat 3), (qOfNat 3, Op.div, qOfNat 1, qOfNat 3)], [(qOfNat 1, Op.add, qOfNat 1, qOfNat 2), (qOfNat 1, Op.add, qOfNat 2, qOfNat 3), (qOfNat 3, Op.sub, qOfNat 1, qOfNat 2), (qOfNat 1, Op.mul, qOfNat 2, qOfNat 2)], [(qOfNat 1, Op.add, qOfNat 1, qOfNat 2), (qOfNat 1, Op.add, qOfNat 2, qOfNat 3), (qOfNat 3, Op.sub, qOfNat 1, qOfNat 2), (qOfNat 2, Op.sub, qOfNat 1, qOfNat 1)], [(qOfNat 1, Op.add, qOfNat 1, qOfNat 2), (qOfNat 1, Op.add, qOfNat 2, qOfNat 3), (qOfNat 3, Op.sub, qOfNat 1, qOfNat 2), (qOfNat 2, Op.div, qOfNat 1, qOfNat 2)], [(qOfNat 1, Op.add, qOfNat 1, qOfNat 2), (qOfNat 1, Op.add, qOfNat 2, qOfNat 3), (qOfNat 3, Op.div, qOfNat 1, qOfNat 3), (qOfNat 1, Op.add, qOfNat 3, qOfNat 4)], [(qOfNat 1, Op.add, qOfNat 1, qOfNat 2), (qOfNat 1, Op.add, qOfNat 2, qOfNat 3), (qOfNat 3, Op.div, qOfNat 1, qOfNat 3), (qOfNat 3, Op.sub, qOfNat 1, qOfNat 2)], [(qOfNat 1, Op.add, qOfNat 1, qOfNat 2), (qOfNat 1, Op.mul, qOfNat 2, qOfNat 2), (qOfNat 1, Op.add, qOfNat 2, qOfNat 3), (qOfNat 1, Op.add, qOfNat 3, qOfNat 4)], [(qOfNat 1, Op.add, qOfNat 1, qOfNat 2), (qOfNat 1, Op.mul, qOfNat 2, qOfNat 2), (qOfNat 1, Op.add, qOfNat 2, qOfNat 3), (qOfNat 1, Op.mul, qOfNat 3, qOfNat 3)], [(qOfNat 1, Op.add, qOfNat 1, qOfNat 2), (qOfNat 1, Op.mul, qOfNat 2, qOfNat 2), (qOfNat 1, Op.add, qOfNat 2, qOfNat 3), (qOfNat 3, Op.div, qOfNat 1, qOfNat 3)], [(qOfNat 1, Op.add, qOfNat 1, qOfNat 2), (qOfNat 1, Op.mul, qOfNat 2, qOfNat 2), (qOfNat 2, Op.div, qOfNat 1, qOfNat 2), (qOfNat 1, Op.add, qOfNat 2, qOfNat 3)], [(qOfNat 1, Op.add, qOfNat 1, qOfNat 2), (qOfNat 1, Op.mul, qOfNat 2, qOfNat 2), (qOfNat 2, Op.div, qOfNat 1, qOfNat 2), (qOfNat 2, Op.sub, qOfNat 1, qOfNat 1)], [(qOfNat 1, Op.add, qOfNat 1, qOfNat 2), (qOfNat 2, Op.div, qOfNat 1, qOfNat 2), (qOfNat 1, Op.add, qOfNat 2, qOfNat 3), (qOfNat 1, Op.add, qOfNat 3, qOfNat 4)], [(qOfNat 1, Op.add, qOfNat 1, qOfNat 2), (qOfNat 2, Op.div, qOfNat 1, qOfNat 2), (qOfNat 1, Op.add, qOfNat 2, qOfNat 3), (qOfNat 1, Op.mul, qOfNat 3, qOfNat 3)], [(qOfNat 1, Op.add, qOfNat 1, qOfNat 2), (qOfNat 2, Op.div, qOfNat 1, qOfNat 2), (qOfNat 1, Op.add, qOfNat 2, qOfNat 3), (qOfNat 3, Op.div, qOfNat 1, qOfNat 3)], [(qOfNat 1, Op.add, qOfNat 1, qOfNat 2), (qOfNat 1, Op.mul, qOfNat 1, qOfNat 1), (qOfNat 1, Op.div, qOfNat 1, qOfNat 1), (qOfNat 2, Op.add, qOfNat 1, qOfNat 3), (qOfNat 1, Op.add, qOfNat 3, qOfNat 4)], [(qOfNat 1, Op.add, qOfNat 1, qOfNat 2), (qOfNat 1, Op.mul, qOfNat 1, qOfNat 1), (qOfNat 1, Op.div, qOfNat 1, qOfNat 1), (qOfNat 2, Op.add, qOfNat 1, qOfNat 3), (qOfNat 1, Op.mul, qOfNat 3, qOfNat 3)], [(qOfNat 1, Op.add, qOfNat 1, qOfNat 2), (qOfNat 1, Op.mul, qOfNat 1, qOfNat 1), (qOfNat 1, Op.div, qOfNat 1, qOfNat 1), (qOfNat 2, Op.add, qOfNat 1, qOfNat 3), (qOfNat 3, Op.sub, qOfNat 1, qOfNat 2)], [(qOfNat 1, Op.add, qOfNat 1, qOfNat 2), (qOfNat 1, Op.mul, qOfNat 1, qOfNat 1), (qOfNat 1, Op.div, qOfNat 1, qOfNat 1), (qOfNat 2, Op.add, qOfNat 1, qOfNat 3), (qOfNat 3, Op.div, qOfNat 1, qOfNat 3)], [(qOfNat 1, Op.add, qOfNat 1, qOfNat 2), (qOfNat 1, Op.mul, qOfNat 1, qOfNat 1), (qOfNat 1, Op.div, qOfNat 1, qOfNat 1), (qOfNat 2, Op.mul, qOfNat 1, qOfNat 2), (qOfNat 1, Op.add, qOfNat 2, qOfNat 3)], [(qOfNat 1, Op.add, qOfNat 1, qOfNat 2), (qOfNat 1, Op.mul, qOfNat 1, qOfNat 1), (qOfNat 1, Op.div, qOfNat 1, qOfNat 1), (qOfNat 2, Op.mul, qOfNat 1, qOfNat 2), (qOfNat 2, Op.sub, qOfNat 1, qOfNat 1)], [(qOfNat 1, Op.add, qOfNat 1, qOfNat 2), (qOfNat 1, Op.mul, qOfNat 1, qOfNat 1), (qOfNat 1, Op.div, qOfNat 1, qOfNat 1), (qOfNat 2, Op.mul, qOfNat 1, qOfNat 2), (qOfNat 2, Op.div, qOfNat 1, qOfNat 2)], [(qOfNat 1, Op.add, qOfNat 1, qOfNat 2), (qOfNat 1, Op.mul, qOfNat 1, qOfNat 1), (qOfNat 1, Op.div, qOfNat 1, qOfNat 1), (qOfNat 2, Op.div, qOfNat 1, qOfNat 2), (qOfNat 1, Op.add, qOfNat 2, qOfNat 3)], [(qOfNat 1, Op.add, qOfNat 1, qOfNat 2), (qOfNat 1, Op.mul, qOfNat 1, qOfNat 1), (qOfNat 1, Op.div, qOfNat 1, qOfNat 1), (qOfNat 2, Op.div, qOfNat 1, qOfNat 2), (qOfNat 2, Op.sub, qOfNat 1, qOfNat 1)], [(qOfNat 1, Op.add, qOfNat 1, qOfNat 2), (qOfNat 1, Op.mul, qOfNat 1, qOfNat 1), (qOfNat 1, Op.add, qOfNat 2, qOfNat 3), (qOfNat 1, Op.div, qOfNat 1, qOfNat 1), (qOfNat 3, Op.add, qOfNat 1, qOfNat 4)], [(qOfNat 1, Op.add, qOfNat 1, qOfNat 2), (qOfNat 1, Op.mul, qOfNat 1, qOfNat 1), (qOfNat 1, Op.add, qOfNat 2, qOfNat 3), (qOfNat 1, Op.div, qOfNat 1, qOfNat 1), (qOfNat 3, Op.sub, qOfNat 1, qOfNat 2)], [(qOfNat 1, Op.add, qOfNat 1, qOfNat 2), (qOfNat 1, Op.mul, qOfNat 1, qOfNat 1), (qOfNat 1, Op.add, qOfNat 2, qOfNat 3), (qOfNat 1, Op.div, qOfNat 1, qOfNat 1), (qOfNat 3, Op.mul, qOfNat 1, qOfNat 3)], [(qOfNat 1, Op.add, qOfNat 1, qOfNat 2), (qOfNat 1, Op.mul, qOfNat 1, qOfNat 1), (qOfNat 1, Op.add, qOfNat 2, qOfNat 3), (qOfNat 1, Op.div, qOfNat 1, qOfNat 1), (qOfNat 3, Op.div, qOfNat 1, qOfNat 3)], [(qOfNat 1, Op.add, qOfNat 1, qOfNat 2), (qOfNat 1, Op.mul, qOfNat 1, qOfNat 1), (qOfNat 1, Op.add, qOfNat 2, qOfNat 3), (qOfNat 1, Op.add, qOfNat 3, qOfNat 4), (qOfNat 1, Op.add, qOfNat 4, qOfNat 5)], [(qOfNat 1, Op.add, qOfNat 1, qOfNat 2), (qOfNat 1, Op.mul, qOfNat 1, qOfNat 1), (qOfNat 1, Op.add, qOfNat 2, qOfNat 3), (qOfNat 1, Op.add, qOfNat 3, qOfNat 4), (qOfNat 1, Op.mul, qOfNat 4, qOfNat 4)], [(qOfNat 1, Op.add, qOfNat 1, qOfNat 2), (qOfNat 1, Op.mul, qOfNat 1, qOfNat 1), (qOfNat 1, Op.add, qOfNat 2, qOfNat 3), (qOfNat 1, Op.add, qOfNat 3, qOfNat 4), (qOfNat 4, Op.sub, qOfNat 1, qOfNat 3)], [(qOfNat 1, Op.add, qOfNat 1, qOfNat 2), (qOfNat 1, Op.mul, qOfNat 1, qOfNat 1), (qOfNat 1, Op.add, qOfNat 2, qOfNat 3), (qOfNat 1, Op.add, qOfNat 3, qOfNat 4), (qOfNat 4, Op.div, qOfNat 1, qOfNat 4)], [(qOfNat 1, Op.add, qOfNat 1, qOfNat 2), (qOfNat 1, Op.mul, qOfNat 1, qOfNat 1), (qOfNat 1, Op.add, qOfNat 2, qOfNat 3), (qOfNat 1, Op.mul, qOfNat 3, qOfNat 3), (qOfNat 1, Op.add, qOfNat 3, qOfNat 4)], [(qOfNat 1, Op.add, qOfNat 1, qOfNat 2), (qOfNat 1, Op.mul, qOfNat 1, qOfNat 1), (qOfNat 1, Op.add, qOfNat 2, qOfNat 3), (qOfNat 1, Op.mul, qOfNat 3, qOfNat 3), (qOfNat 3, Op.sub, qOfNat 1, qOfNat 2)], [(qOfNat 1, Op.add, qOfNat 1, qOfNat 2), (qOfNat 1, Op.mul, qOfNat 1, qOfNat 1), (qOfNat 1, Op.add, qOfNat 2, qOfNat 3), (qOfNat 1, Op.mul, qOfNat 3, qOfNat 3), (qOfNat 3, Op.div, qOfNat 1, qOfNat 3)], [(qOfNat 1, Op.add, qOfNat 1, qOfNat 2), (qOfNat 1, Op.mul, qOfNat 1, qOfNat 1), (qOfNat 1, Op.add, qOfNat 2, qOfNat 3), (qOfNat 3, Op.sub, qOfNat 1, qOfNat 2), (qOfNat 1, Op.mul, qOfNat 2, qOfNat 2)], [(qOfNat 1, Op.add, qOfNat 1, qOfNat 2), (qOfNat 1, Op.mul, qOfNat 1, qOfNat 1), (qOfNat 1, Op.add, qOfNat 2, qOfNat 3), (qOfNat 3, Op.sub, qOfNat 1, qOfNat 2), (qOfNat 2, Op.sub, qOfNat 1, qOfNat 1)], [(qOfNat 1, Op.add, qOfNat 1, qOfNat 2), (qOfNat 1, Op.mul, qOfNat 1, qOfNat 1), (qOfNat 1, Op.add, qOfNat 2, qOfNat 3), (qOfNat 3, Op.sub, qOfNat 1, qOfNat 2), (qOfNat 2, Op.div, qOfNat 1, qOfNat 2)], [(qOfNat 1, Op.add, qOfNat 1, qOfNat 2), (qOfNat 1, Op.mul, qOfNat 1, qOfNat 1), (qOfNat 1, Op.add, qOfNat 2, qOfNat 3), (qOfNat 3, Op.div, qOfNat 1, qOfNat 3), (qOfNat 1, Op.add, qOfNat 3, qOfNat 4)], [(qOfNat 1, Op.add, qOfNat 1, qOfNat 2), (qOfNat 1, Op.mul, qOfNat 1, qOfNat 1), (qOfNat 1, Op.add, qOfNat 2, qOfNat 3), (qOfNat 3, Op.div, qOfNat 1, qOfNat 3), (qOfNat 3, Op.sub, qOfNat 1, qOfNat 2)], [(qOfNat 1, Op.add, qOfNat 1, qOfNat 2), (qOfNat 1, Op.mul, qOfNat 1, qOfNat 1), (qOfNat 1, Op.mul, qOfNat 2, qOfNat 2), (qOfNat 1, Op.div, qOfNat 1, qOfNat 1), (qOfNat 2, Op.add, qOfNat 1, qOfNat 3)], [(qOfNat 1, Op.add, qOfNat 1, qOfNat 2), (qOfNat 1, Op.mul, qOfNat 1, qOfNat 1), (qOfNat 1, Op.mul, qOfNat 2, qOfNat 2), (qOfNat 1, Op.div, qOfNat 1, qOfNat 1), (qOfNat 2, Op.sub, qOfNat 1, qOfNat 1)], [(qOfNat 1, Op.add, qOfNat 1, qOfNat 2), (qOfNat 1, Op.mul, qOfNat 1, qOfNat 1), (qOfNat 1, Op.mul, qOfNat 2, qOfNat 2), (qOfNat 1, Op.div, qOfNat 1, qOfNat 1), (qOfNat 2, Op.div, qOfNat 1, qOfNat 2)], [(qOfNat 1, Op.add, qOfNat 1, qOfNat 2), (qOfNat 1, Op.mul, qOfNat 1, qOfNat 1), (qOfNat 1, Op.mul, qOfNat 2, qOfNat 2), (qOfNat 1, Op.add, qOfNat 2, qOfNat 3), (qOfNat 1, Op.add, qOfNat 3, qOfNat 4)], [(qOfNat 1, Op.add, qOfNat 1, qOfNat 2), (qOfNat 1, Op.mul, qOfNat 1, qOfNat 1), (qOfNat 1, Op.mul, qOfNat 2, qOfNat 2), (qOfNat 1, Op.add, qOfNat 2, qOfNat 3), (qOfNat 1, Op.mul, qOfNat 3, qOfNat 3)], [(qOfNat 1, Op.add, qOfNat 1, qOfNat 2), (qOfNat 1, Op.mul, qOfNat 1, qOfNat 1), (qOfNat 1, Op.mul, qOfNat 2, qOfNat 2), (qOfNat 1, Op.add, qOfNat 2, qOfNat 3), (qOfNat 3, Op.div, qOfNat 1, qOfNat 3)], [(qOfNat 1, Op.add, qOfNat 1, qOfNat 2), (qOfNat 1, Op.mul, qOfNat 1, qOfNat 1), (qOfNat 1, Op.mul, qOfNat 2, qOfNat 2), (qOfNat 2, Op.div, qOfNat 1, qOfNat 2), (qOfNat 1, Op.add, qOfNat 2, qOfNat 3)], [(qOfNat 1, Op.add, qOfNat 1, qOfNat 2), (qOfNat 1, Op.mul, qOfNat 1, qOfNat 1), (qOfNat 1, Op.mul, qOfNat 2, qOfNat 2), (qOfNat 2, Op.div, qOfNat 1, qOfNat 2), (qOfNat 2, Op.sub, qOfNat 1, qOfNat 1)], [(qOfNat 1, Op.add, qOfNat 1, qOfNat 2), (qOfNat 1, Op.mul, qOfNat 1, qOfNat 1), (qOfNat 2, Op.div, qOfNat 1, qOfNat 2), (qOfNat 1, Op.add, qOfNat 2, qOfNat 3), (qOfNat 1, Op.add, qOfNat 3, qOfNat 4)], [(qOfNat 1, Op.add, qOfNat 1, qOfNat 2), (qOfNat 1, Op.mul, qOfNat 1, qOfNat 1), (qOfNat 2, Op.div, qOfNat 1, qOfNat 2), (qOfNat 1, Op.add, qOfNat 2, qOfNat 3), (qOfNat 1, Op.mul, qOfNat 3, qOfNat 3)], [(qOfNat 1, Op.add, qOfNat 1, qOfNat 2), (qOfNat 1, Op.mul, qOfNat 1, qOfNat 1), (qOfNat 2, Op.div, qOfNat 1, qOfNat 2), (qOfNat 1, Op.add, qOfNat 2, qOfNat 3), (qOfNat 3, Op.div, qOfNat 1, qOfNat 3)], [(qOfNat 1, Op.add, qOfNat 1, qOfNat 2), (qOfNat 1, Op.div, qOfNat 1, qOfNat 1), (qOfNat 1, Op.add, qOfNat 2, qOfNat 3), (qOfNat 1, Op.add, qOfNat 3, qOfNat 4), (qOfNat 1, Op.add, qOfNat 4, qOfNat 5)], [(qOfNat 1, Op.add, qOfNat 1, qOfNat 2), (qOfNat 1, Op.div, qOfNat 1, qOfNat 1), (qOfNat 1, Op.add, qOfNat 2, qOfNat 3), (qOfNat 1, Op.add, qOfNat 3, qOfNat 4), (qOfNat 1, Op.mul, qOfNat 4, qOfNat 4)], [(qOfNat 1, Op.add, qOfNat 1, qOfNat 2), (qOfNat 1, Op.div, qOfNat 1, qOfNat 1), (qOfNat 1, Op.add, qOfNat 2, qOfNat 3), (qOfNat 1, Op.add, qOfNat 3, qOfNat 4), (qOfNat 4, Op.sub, qOfNat 1, qOfNat 3)], [(qOfNat 1, Op.add, qOfNat 1, qOfNat 2), (qOfNat 1, Op.div, qOfNat 1, qOfNat 1), (qOfNat 1, Op.add, qOfNat 2, qOfNat 3), (qOfNat 1, Op.add, qOfNat 3, qOfNat 4), (qOfNat 4, Op.div, qOfNat 1, qOfNat 4)], [(qOfNat 1, Op.add, qOfNat 1, qOfNat 2), (qOfNat 1, Op.div, qOfNat 1, qOfNat 1), (qOfNat 1, Op.add, qOfNat 2, qOfNat 3), (qOfNat 1, Op.mul, qOfNat 3, qOfNat 3), (qOfNat 1, Op.add, qOfNat 3, qOfNat 4)], [(qOfNat 1, Op.add, qOfNat 1, qOfNat 2), (qOfNat 1, Op.div, qOfNat 1, qOfNat 1), (qOfNat 1, Op.add, qOfNat 2, qOfNat 3), (qOfNat 1, Op.mul, qOfNat 3, qOfNat 3), (qOfNat 3, Op.sub, qOfNat 1, qOfNat 2)], [(qOfNat 1, Op.add, qOfNat 1, qOfNat 2), (qOfNat 1, Op.div, qOfNat 1, qOfNat 1), (qOfNat 1, Op.add, qOfNat 2, qOfNat 3), (qOfNat 1, Op.mul, qOfNat 3, qOfNat 3), (qOfNat 3, Op.div, qOfNat 1, qOfNat 3)], [(qOfNat 1, Op.add, qOfNat 1, qOfNat 2), (qOfNat 1, Op.div, qOfNat 1, qOfNat 1), (qOfNat 1, Op.add, qOfNat 2, qOfNat 3), (qOfNat 3, Op.sub, qOfNat 1, qOfNat 2), (qOfNat 1, Op.mul, qOfNat 2, qOfNat 2)], [(qOfNat 1, Op.add, qOfNat 1, qOfNat 2), (qOfNat 1, Op.div, qOfNat 1, qOfNat 1), (qOfNat 1, Op.add, qOfNat 2, qOfNat 3), (qOfNat 3, Op.sub, qOfNat 1, qOfNat 2), (qOfNat 2, Op.sub, qOfNat 1, qOfNat 1)], [(qOfNat 1, Op.add, qOfNat 1, qOfNat 2), (qOfNat 1, Op.div, qOfNat 1, qOfNat 1), (qOfNat 1, Op.add, qOfNat 2, qOfNat 3), (qOfNat 3, Op.sub, qOfNat 1, qOfNat 2), (qOfNat 2, Op.div, qOfNat 1, qOfNat 2)], [(qOfNat 1, Op.add, qOfNat 1, qOfNat 2), (qOfNat 1, Op.div, qOfNat 1, qOfNat 1), (qOfNat 1, Op.add, qOfNat 2, qOfNat 3), (qOfNat 3, Op.div, qOfNat 1, qOfNat 3), (qOfNat 1, Op.add, qOfNat 3, qOfNat 4)], [(qOfNat 1, Op.add, qOfNat 1, qOfNat 2), (qOfNat 1, Op.div, qOfNat 1, qOfNat 1), (qOfNat 1, Op.add, qOfNat 2, qOfNat 3), (qOfNat 3, Op.div, qOfNat 1, qOfNat 3), (qOfNat 3, Op.sub, qOfNat 1, qOfNat 2)], [(qOfNat 1, Op.add, qOfNat 1, qOfNat 2), (qOfNat 1, Op.div, qOfNat 1, qOfNat 1), (qOfNat 1, Op.mul, qOfNat 2, qOfNat 2), (qOfNat 1, Op.add, qOfNat 2, qOfNat 3), (qOfNat 1, Op.add, qOfNat 3, qOfNat 4)], [(qOfNat 1, Op.add, qOfNat 1, qOfNat 2), (qOfNat 1, Op.div, qOfNat 1, qOfNat 1), (qOfNat 1, Op.mul, qOfNat 2, qOfNat 2), (qOfNat 1, Op.add, qOfNat 2, qOfNat 3), (qOfNat 1, Op.mul, qOfNat 3, qOfNat 3)], [(qOfNat 1, Op.add, qOfNat 1, qOfNat 2), (qOfNat 1, Op.div, qOfNat 1, qOfNat 1), (qOfNat 1, Op.mul, qOfNat 2, qOfNat 2), (qOfNat 1, Op.add, qOfNat 2, qOfNat 3), (qOfNat 3, Op.div, qOfNat 1, qOfNat 3)], [(qOfNat 1, Op.add, qOfNat 1, qOfNat 2), (qOfNat 1, Op.div, qOfNat 1, qOfNat 1), (qOfNat 1, Op.mul, qOfNat 2, qOfNat 2), (qOfNat 2, Op.div, qOfNat 1, qOfNat 2), (qOfNat 1, Op.add, qOfNat 2, qOfNat 3)], [(qOfNat 1, Op.add, qOfNat 1, qOfNat 2), (qOfNat 1, Op.div, qOfNat 1, qOfNat 1), (qOfNat 1, Op.mul, qOfNat 2, qOfNat 2), (qOfNat 2, Op.div, qOfNat 1, qOfNat 2), (qOfNat 2, Op.sub, qOfNat 1, qOfNat 1)], [(qOfNat 1, Op.add, qOfNat 1, qOfNat 2), (qOfNat 1, Op.div, qOfNat 1, qOfNat 1), (qOfNat 2, Op.div, qOfNat 1, qOfNat 2), (qOfNat 1, Op.add, qOfNat 2, qOfNat 3), (qOfNat 1, Op.add, qOfNat 3, qOfNat 4)], [(qOfNat 1, Op.add, qOfNat 1, qOfNat 2), (qOfNat 1, Op.div, qOfNat 1, qOfNat 1), (qOfNat 2, Op.div, qOfNat 1, qOfNat 2), (qOfNat 1, Op.add, qOfNat 2, qOfNat 3), (qOfNat 1, Op.mul, qOfNat 3, qOfNat 3)], [(qOfNat 1, Op.add, qOfNat 1, qOfNat 2), (qOfNat 1, Op.div, qOfNat 1, qOfNat 1), (qOfNat 2, Op.div, qOfNat 1, qOfNat 2), (qOfNat 1, Op.add, qOfNat 2, qOfNat 3), (qOfNat 3, Op.div, qOfNat 1, qOfNat 3)], [(qOfNat 1, Op.add, qOfNat 1, qOfNat 2), (qOfNat 1, Op.add, qOfNat 2, qOfNat 3), (qOfNat 1, Op.add, qOfNat 3, qOfNat 4), (qOfNat 1, Op.add, qOfNat 4, qOfNat 5), (qOfNat 1, Op.add, qOfNat 5, qOfNat 6)], [(qOfNat 1, Op.add, qOfNat 1, qOfNat 2), (qOfNat 1, Op.add, qOfNat 2, qOfNat 3), (qOfNat 1, Op.add, qOfNat 3, qOfNat 4), (qOfNat 1, Op.add, qOfNat 4, qOfNat 5), (qOfNat 1, Op.mul, qOfNat 5, qOfNat 5)], [(qOfNat 1, Op.add, qOfNat 1, qOfNat 2), (qOfNat 1, Op.add, qOfNat 2, qOfNat 3), (qOfNat 1, Op.add, qOfNat 3, qOfNat 4), (qOfNat 1, Op.add, qOfNat 4, qOfNat 5), (qOfNat 5, Op.sub, qOfNat 1, qOfNat 4)], [(qOfNat 1, Op.add, qOfNat 1, qOfNat 2), (qOfNat 1, Op.add, qOfNat 2, qOfNat 3), (qOfNat 1, Op.add, qOfNat 3, qOfNat 4), (qOfNat 1, Op.add, qOfNat 4, qOfNat 5), (qOfNat 5, Op.div, qOfNat 1, qOfNat 5)], [(qOfNat 1, Op.add, qOfNat 1, qOfNat 2), (qOfNat 1, Op.add, qOfNat 2, qOfNat 3), (qOfNat 1, Op.add, qOfNat 3, qOfNat 4), (qOfNat 1, Op.mul, qOfNat 4, qOfNat 4), (qOfNat 1, Op.add, qOfNat 4, qOfNat 5)], [(qOfNat 1, Op.add, qOfNat 1, qOfNat 2), (qOfNat 1, Op.add, qOfNat 2, qOfNat 3), (qOfNat 1, Op.add, qOfNat 3, qOfNat 4), (qOfNat 1, Op.mul, qOfNat 4, qOfNat 4), (qOfNat 4, Op.sub, qOfNat 1, qOfNat 3)], [(qOfNat 1, Op.add, qOfNat 1, qOfNat 2), (qOfNat 1, Op.add, qOfNat 2, qOfNat 3), (qOfNat 1, Op.add, qOfNat 3, qOfNat 4), (qOfNat 1, Op.mul, qOfNat 4, qOfNat 4), (qOfNat 4, Op.div, qOfNat 1, qOfNat 4)], [(qOfNat 1, Op.add, qOfNat 1, qOfNat 2), (qOfNat 1, Op.add, qOfNat 2, qOfNat 3), (qOfNat 1, Op.add, qOfNat 3, qOfNat 4), (qOfNat 4, Op.sub, qOfNat 1, qOfNat 3), (qOfNat 1, Op.mul, qOfNat 3, qOfNat 3)], [(qOfNat 1, Op.add, qOfNat 1, qOfNat 2), (qOfNat 1, Op.add, qOfNat 2, qOfNat 3), (qOfNat 1, Op.add, qOfNat 3, qOfNat 4), (qOfNat 4, Op.sub, qOfNat 1, qOfNat 3), (qOfNat 3, Op.sub, qOfNat 1, qOfNat 2)], [(qOfNat 1, Op.add, qOfNat 1, qOfNat 2), (qOfNat 1, Op.add, qOfNat 2, qOfNat 3), (qOfNat 1, Op.add, qOfNat 3, qOfNat 4), (qOfNat 4, Op.sub, qOfNat 1, qOfNat 3), (qOfNat 3, Op.div, qOfNat 1, qOfNat 3)], [(qOfNat 1, Op.add, qOfNat 1, qOfNat 2), (qOfNat 1, Op.add, qOfNat 2, qOfNat 3), (qOfNat 1, Op.add, qOfNat 3, qOfNat 4), (qOfNat 4, Op.div, qOfNat 1, qOfNat 4), (qOfNat 1, Op.add, qOfNat 4, qOfNat 5)], [(qOfNat 1, Op.add, qOfNat 1, qOfNat 2), (qOfNat 1, Op.add, qOfNat 2, qOfNat 3), (qOfNat 1, Op.add, qOfNat 3, qOfNat 4), (qOfNat 4, Op.div, qOfNat 1, qOfNat 4), (qOfNat 4, Op.sub, qOfNat 1, qOfNat 3)], [(qOfNat 1, Op.add, qOfNat 1, qOfNat 2), (qOfNat 1, Op.add, qOfNat 2, qOfNat 3), (qOfNat 1, Op.mul, qOfNat 3, qOfNat 3), (qOfNat 1, Op.add, qOfNat 3, qOfNat 4), (qOfNat 1, Op.add, qOfNat 4, qOfNat 5)], [(qOfNat 1, Op.add, qOfNat 1, qOfNat 2), (qOfNat 1, Op.add, qOfNat 2, qOfNat 3), (qOfNat 1, Op.mul, qOfNat 3, qOfNat 3), (qOfNat 1, Op.add, qOfNat 3, qOfNat 4), (qOfNat 1, Op.mul, qOfNat 4, qOfNat 4)], [(qOfNat 1, Op.add, qOfNat 1, qOfNat 2), (qOfNat 1, Op.add, qOfNat 2, qOfNat 3), (qOfNat 1, Op.mul, qOfNat 3, qOfNat 3), (qOfNat 1, Op.add, qOfNat 3, qOfNat 4), (qOfNat 4, Op.div, qOfNat 1, qOfNat 4)], [(qOfNat 1, Op.add, qOfNat 1, qOfNat 2), (qOfNat 1, Op.add, qOfNat 2, qOfNat 3), (qOfNat 1, Op.mul, qOfNat 3, qOfNat 3), (qOfNat 3, Op.sub, qOfNat 1, qOfNat 2), (qOfNat 1, Op.mul, qOfNat 2, qOfNat 2)], [(qOfNat 1, Op.add, qOfNat 1, qOfNat 2), (qOfNat 1, Op.add, qOfNat 2, qOfNat 3), (qOfNat 1, Op.mul, qOfNat 3, qOfNat 3), (qOfNat 3, Op.sub, qOfNat 1, qOfNat 2), (qOfNat 2, Op.sub, qOfNat 1, qOfNat 1)], [(qOfNat 1, Op.add, qOfNat 1, qOfNat 2), (qOfNat 1, Op.add, qOfNat 2, qOfNat 3), (qOfNat 1, Op.mul, qOfNat 3, qOfNat 3), (qOfNat 3, Op.sub, qOfNat 1, qOfNat 2), (qOfNat 2, Op.div, qOfNat 1, qOfNat 2)], [(qOfNat 1, Op.add, qOfNat 1, qOfNat 2), (qOfNat 1, Op.add, qOfNat 2, qOfNat 3), (qOfNat 1, Op.mul, qOfNat 3, qOfNat 3), (qOfNat 3, Op.div, qOfNat 1, qOfNat 3), (qOfNat 1, Op.add, qOfNat 3, qOfNat 4)], [(qOfNat 1, Op.add, qOfNat 1, qOfNat 2), (qOfNat 1, Op.add, qOfNat 2, qOfNat 3), (qOfNat 1, Op.mul, qOfNat 3, qOfNat 3), (qOfNat 3, Op.div, qOfNat 1, qOfNat 3), (qOfNat 3, Op.sub, qOfNat 1, qOfNat 2)], [(qOfNat 1, Op.add, qOfNat 1, qOfNat 2), (qOfNat 1, Op.add, qOfNat 2, qOfNat 3), (qOfNat 3, Op.sub, qOfNat 1, qOfNat 2), (qOfNat 1, Op.mul, qOfNat 2, qOfNat 2), (qOfNat 2, Op.sub, qOfNat 1, qOfNat 1)], [(qOfNat 1, Op.add, qOfNat 1, qOfNat 2), (qOfNat 1, Op.add, qOfNat 2, qOfNat 3), (qOfNat 3, Op.sub, qOfNat 1, qOfNat 2), (qOfNat 1, Op.mul, qOfNat 2, qOfNat 2), (qOfNat 2, Op.div, qOfNat 1, qOfNat 2)], [(qOfNat 1, Op.add, qOfNat 1, qOfNat 2), (qOfNat 1, Op.add, qOfNat 2, qOfNat 3), (qOfNat 3, Op.sub, qOfNat 1, qOfNat 2), (qOfNat 2, Op.div, qOfNat 1, qOfNat 2), (qOfNat 2, Op.sub, qOfNat 1, qOfNat 1)], [(qOfNat 1, Op.add, qOfNat 1, qOfNat 2), (qOfNat 1, Op.add, qOfNat 2, qOfNat 3), (qOfNat 3, Op.div, qOfNat 1, qOfNat 3), (qOfNat 1, Op.add, qOfNat 3, qOfNat 4), (qOfNat 1, Op.add, qOfNat 4, qOfNat 5)], [(qOfNat 1, Op.add, qOfNat 1, qOfNat 2), (qOfNat 1, Op.add, qOfNat 2, qOfNat 3), (qOfNat 3, Op.div, qOfNat 1, qOfNat 3), (qOfNat 1, Op.add, qOfNat 3, qOfNat 4), (qOfNat 1, Op.mul, qOfNat 4, qOfNat 4)], [(qOfNat 1, Op.add, qOfNat 1, qOfNat 2), (qOfNat 1, Op.add, qOfNat 2, qOfNat 3), (qOfNat 3, Op.div, qOfNat 1, qOfNat 3), (qOfNat 1, Op.add, qOfNat 3, qOfNat 4), (qOfNat 4, Op.div, qOfNat 1, qOfNat 4)], [(qOfNat 1, Op.add, qOfNat 1, qOfNat 2), (qOfNat 1, Op.add, qOfNat 2, qOfNat 3), (qOfNat 3, Op.div, qOfNat 1, qOfNat 3), (qOfNat 3, Op.sub, qOfNat 1, qOfNat 2), (qOfNat 1, Op.mul, qOfNat 2, qOfNat 2)], [(qOfNat 1, Op.add, qOfNat 1, qOfNat 2), (qOfNat 1, Op.add, qOfNat 2, qOfNat 3), (qOfNat 3, Op.div, qOfNat 1, qOfNat 3), (qOfNat 3, Op.sub, qOfNat 1, qOfNat 2), (qOfNat 2, Op.sub, qOfNat 1, qOfNat 1)], [(qOfNat 1, Op.add, qOfNat 1, qOfNat 2), (qOfNat 1, Op.add, qOfNat 2, qOfNat 3), (qOfNat 3, Op.div, qOfNat 1, qOfNat 3), (qOfNat 3, Op.sub, qOfNat 1, qOfNat 2), (qOfNat 2, Op.div, qOfNat 1, qOfNat 2)], [(qOfNat 1, Op.add, qOfNat 1, qOfNat 2), (qOfNat 1, Op.mul, qOfNat 2, qOfNat 2), (qOfNat 1, Op.add, qOfNat 2, qOfNat 3), (qOfNat 1, Op.add, qOfNat 3, qOfNat 4), (qOfNat 1, Op.add, qOfNat 4, qOfNat 5)], [(qOfNat 1, Op.add, qOfNat 1, qOfNat 2), (qOfNat 1, Op.mul, qOfNat 2, qOfNat 2), (qOfNat 1, Op.add, qOfNat 2, qOfNat 3), (qOfNat 1, Op.add, qOfNat 3, qOfNat 4), (qOfNat 1, Op.mul, qOfNat 4, qOfNat 4)], [(qOfNat 1, Op.add, qOfNat 1, qOfNat 2), (qOfNat 1, Op.mul, qOfNat 2, qOfNat 2), (qOfNat 1, Op.add, qOfNat 2, qOfNat 3), (qOfNat 1, Op.add, qOfNat 3, qOfNat 4), (qOfNat 4, Op.sub, qOfNat 1, qOfNat 3)], [(qOfNat 1, Op.add, qOfNat 1, qOfNat 2), (qOfNat 1, Op.mul, qOfNat 2, qOfNat 2), (qOfNat 1, Op.add, qOfNat 2, qOfNat 3), (qOfNat 1, Op.add, qOfNat 3, qOfNat 4), (qOfNat 4, Op.div, qOfNat 1, qOfNat 4)], [(qOfNat 1, Op.add, qOfNat 1, qOfNat 2), (qOfNat 1, Op.mul, qOfNat 2, qOfNat 2), (qOfNat 1, Op.add, qOfNat 2, qOfNat 3), (qOfNat 1, Op.mul, qOfNat 3, qOfNat 3), (qOfNat 1, Op.add, qOfNat 3, qOfNat 4)], [(qOfNat 1, Op.add, qOfNat 1, qOfNat 2), (qOfNat 1, Op.mul, qOfNat 2, qOfNat 2), (qOfNat 1, Op.add, qOfNat 2, qOfNat 3), (qOfNat 1, Op.mul, qOfNat 3, qOfNat 3), (qOfNat 3, Op.div, qOfNat 1, qOfNat 3)], [(qOfNat 1, Op.add, qOfNat 1, qOfNat 2), (qOfNat 1, Op.mul, qOfNat 2, qOfNat 2), (qOfNat 1, Op.add, qOfNat 2, qOfNat 3), (qOfNat 3, Op.div, qOfNat 1, qOfNat 3), (qOfNat 1, Op.add, qOfNat 3, qOfNat 4)], [(qOfNat 1, Op.add, qOfNat 1, qOfNat 2), (qOfNat 1, Op.mul, qOfNat 2, qOfNat 2), (qOfNat 2, Op.div, qOfNat 1, qOfNat 2), (qOfNat 1, Op.add, qOfNat 2, qOfNat 3), (qOfNat 1, Op.add, qOfNat 3, qOfNat 4)], [(qOfNat 1, Op.add, qOfNat 1, qOfNat 2), (qOfNat 1, Op.mul, qOfNat 2, qOfNat 2), (qOfNat 2, Op.div, qOfNat 1, qOfNat 2), (qOfNat 1, Op.add, qOfNat 2, qOfNat 3), (qOfNat 1, Op.mul, qOfNat 3, qOfNat 3)], [(qOfNat 1, Op.add, qOfNat 1, qOfNat 2), (qOfNat 1, Op.mul, qOfNat 2, qOfNat 2), (qOfNat 2, Op.div, qOfNat 1, qOfNat 2), (qOfNat 1, Op.add, qOfNat 2, qOfNat 3), (qOfNat 3, Op.div, qOfNat 1, qOfNat 3)]]
/-- Queue contents of the breadth-first loop on selection [1, 1, 1, 1, 1, 1], target 6, after 80 iterations. -/
def traceQ8 : List BState :=
  [(qOfNat 3, [qOfNat 3], [(qOfNat 1, Op.add, qOfNat 1, qOfNat 2), (qOfNat 1, Op.mul, qOfNat 1, qOfNat 1), (qOfNat 1, Op.div, qOfNat 1, qOfNat 1), (qOfNat 2, Op.div, qOfNat 1, qOfNat 2), (qOfNat 1, Op.add, qOfNat 2, qOfNat 3)]), (qOfNat 1, [qOfNat 1], [(qOfNat 1, Op.add, qOfNat 1, qOfNat 2), (qOfNat 1, Op.mul, qOfNat 1, qOfNat 1), (qOfNat 1, Op.div, qOfNat 1, qOfNat 1), (qOfNat 2, Op.div, qOfNat 1, qOfNat 2), (qOfNat 2, Op.sub, qOfNat 1, qOfNat 1)]), (qOfNat 4, [qOfNat 4], [(qOfNat 1, Op.add, qOfNat 1, qOfNat 2), (qOfNat 1, Op.mul, qOfNat 1, qOfNat 1), (qOfNat 1, Op.add, qOfNat 2, qOfNat 3), (qOfNat 1, Op.div, qOfNat 1, qOfNat 1), (qOfNat 3, Op.add, qOfNat 1, qOfNat 4)]), (qOfNat 2, [qOfNat 2], [(qOfNat 1, Op.add, qOfNat 1, qOfNat 2), (qOfNat 1, Op.mul, qOfNat 1, qOfNat 1), (qOfNat 1, Op.add, qOfNat 2, qOfNat 3), (qOfNat 1, Op.div, qOfNat 1, qOfNat 1), (qOfNat 3, Op.sub, qOfNat 1, qOfNat 2)]), (qOfNat 3, [qOfNat 3], [(qOfNat 1, Op.add, qOfNat 1, qOfNat 2), (qOfNat 1, Op.mul, qOfNat 1, qOfNat 1), (qOfNat 1, Op.add, qOfNat 2, qOfNat 3), (qOfNat 1, Op.div, qOfNat 1, qOfNat 1), (qOfNat 3, Op.mul, qOfNat 1, qOfNat 3)]), (qOfNat 3, [qOfNat 3], [(qOfNat 1, Op.add, qOfNat 1, qOfNat 2), (qOfNat 1, Op.mul, qOfNat 1, qOfNat 1), (qOfNat 1, Op.add, qOfNat 2, qOfNat 3), (qOfNat 1, Op.div, qOfNat 1, qOfNat 1), (qOfNat 3, Op.div, qOfNat 1, qOfNat 3)]), (qOfNat 5, [qOfNat 5], [(qOfNat 1, Op.add, qOfNat 1, qOfNat 2), (qOfNat 1, Op.mul, qOfNat 1, qOfNat 1), (qOfNat 1, Op.add, qOfNat 2, qOfNat 3), (qOfNat 1, Op.add, qOfNat 3, qOfNat 4), (qOfNat 1, Op.add, qOfNat 4, qOfNat 5)]), (qOfNat 4, [qOfNat 4], [(qOfNat 1, Op.add, qOfNat 1, qOfNat 2), (qOfNat 1, Op.mul, qOfNat 1, qOfNat 1), (qOfNat 1, Op.add, qOfNat 2, qOfNat 3), (qOfNat 1, Op.add, qOfNat 3, qOfNat 4), (qOfNat 1, Op.mul, qOfNat 4, qOfNat 4)]), (qOfNat 3, [qOfNat 3], [(qOfNat 1, Op.add, qOfNat 1, qOfNat 2), (qOfNat 1, Op.mul, qOfNat 1, qOfNat 1), (qOfNat 1, Op.add, qOfNat 2, qOfNat 3), (qOfNat 1, Op.add, qOfNat 3, qOfNat 4), (qOfNat 4, Op.sub, qOfNat 1, qOfNat 3)]), (qOfNat 4, [qOfNat 4], [(qOfNat 1, Op.add, qOfNat 1, qOfNat 2), (qOfNat 1, Op.mul, qOfNat 1, qOfNat 1), (qOfNat 1, Op.add, qOfNat 2, qOfNat 3), (qOfNat 1, Op.add, qOfNat 3, qOfNat 4), (qOfNat 4, Op.div, qOfNat 1, qOfNat 4)]), (qOfNat 4, [qOfNat 4], [(qOfNat 1, Op.add, qOfNat 1, qOfNat 2), (qOfNat 1, Op.mul, qOfNat 1, qOfNat 1), (qOfNat 1, Op.add, qOfNat 2, qOfNat 3), (qOfNat 1, Op.mul, qOfNat 3, qOfNat 3), (qOfNat 1, Op.add, qOfNat 3, qOfNat 4)]), (qOfNat 2, [qOfNat 2], [(qOfNat 1, Op.add, qOfNat 1, qOfNat 2), (qOfNat 1, Op.mul, qOfNat 1, qOfNat 1), (qOfNat 1, Op.add, qOfNat 2, qOfNat 3), (qOfNat 1, Op.mul, qOfNat 3, qOfNat 3), (qOfNat 3, Op.sub, qOfNat 1, qOfNat 2)]), (qOfNat 3, [qOfNat 3], [(qOfNat 1, Op.add, qOfNat 1, qOfNat 2), (qOfNat 1, Op.mul, qOfNat 1, qOfNat 1), (qOfNat 1, Op.add, qOfNat 2, qOfNat 3), (qOfNat 1, Op.mul, qOfNat 3, qOfNat 3), (qOfNat 3, Op.div, qOfNat 1, qOfNat 3)]), (qOfNat 2, [qOfNat 2], [(qOfNat 1, Op.add, qOfNat 1, qOfNat 2), (qOfNat 1, Op.mul, qOfNat 1, qOfNat 1), (qOfNat 1, Op.add, qOfNat 2, qOfNat 3), (qOfNat 3, Op.sub, qOfNat 1, qOfNat 2), (qOfNat 1, Op.mul, qOfNat 2, qOfNat 2)]), (qOfNat 1, [qOfNat 1], [(qOfNat 1, Op.add, qOfNat 1, qOfNat 2), (qOfNat 1, Op.mul, qOfNat 1, qOfNat 1), (qOfNat 1, Op.add, qOfNat 2, qOfNat 3), (qOfNat 3, Op.sub, qOfNat 1, qOfNat 2), (qOfNat 2, Op.sub, qOfNat 1, qOfNat 1)]), (qOfNat 2, [qOfNat 2], [(qOfNat 1, Op.add, qOfNat 1, qOfNat 2), (qOfNat 1, Op.mul, qOfNat 1, qOfNat 1), (qOfNat 1, Op.add, qOfNat 2, qOfNat 3), (qOfNat 3, Op.sub, qOfNat 1, qOfNat 2), (qOfNat 2, Op.div, qOfNat 1, qOfNat 2)]), (qOfNat 4, [qOfNat 4], [(qOfNat 1, Op.add, qOfNat 1, qOfNat 2), (qOfNat 1, Op.mul, qOfNat 1, qOfNat 1), (qOfNat 1, Op.add, qOfNat 2, qOfNat 3), (qOfNat 3, Op.div, qOfNat 1, qOfNat 3), (qOfNat 1, Op.add, qOfNat 3, qOfNat 4)]), (qOfNat 2, [qOfNat 2], [(qOfNat 1, Op.add, qOfNat 1, qOfNat 2), (qOfNat 1, Op.mul, qOfNat 1, qOfNat 1), (qOfNat 1, Op.add, qOfNat 2, qOfNat 3), (qOfNat 3, Op.div, qOfNat 1, qOfNat 3), (qOfNat 3, Op.sub, qOfNat 1, qOfNat 2)]), (qOfNat 3, [qOfNat 3], [(qOfNat 1, Op.add, qOfNat 1, qOfNat 2), (qOfNat 1, Op.mul, qOfNat 1, qOfNat 1), (qOfNat 1, Op.mul, qOfNat 2, qOfNat 2), (qOfNat 1, Op.div, qOfNat 1, qOfNat 1), (qOfNat 2, Op.add, qOfNat 1, qOfNat 3)]), (qOfNat 1, [qOfNat 1], [(qOfNat 1, Op.add, qOfNat 1, qOfNat 2), (qOfNat 1, Op.mul, qOfNat 1, qOfNat 1), (qOfNat 1, Op.mul, qOfNat 2, qOfNat 2), (qOfNat 1, Op.div, qOfNat 1, qOfNat 1), (qOfNat 2, Op.sub, qOfNat 1, qOfNat 1)]), (qOfNat 2, [qOfNat 2], [(qOfNat 1, Op.add, qOfNat 1, qOfNat 2), (qOfNat 1, Op.mul, qOfNat 1, qOfNat 1), (qOfNat 1, Op.mul, qOfNat 2, qOfNat 2), (qOfNat 1, Op.div, qOfNat 1, qOfNat 1), (qOfNat 2, Op.div, qOfNat 1, qOfNat 2)]), (qOfNat 4, [qOfNat 4], [(qOfNat 1, Op.add, qOfNat 1, qOfNat 2), (qOfNat 1, Op.mul, qOfNat 1, qOfNat 1), (qOfNat 1, Op.mul, qOfNat 2, qOfNat 2), (qOfNat 1, Op.add, qOfNat 2, qOfNat 3), (qOfNat 1, Op.add, qOfNat 3, qOfNat 4)]), (qOfNat 3, [qOfNat 3], [(qOfNat 1, Op.add, qOfNat 1, qOfNat 2), (qOfNat 1, Op.mul, qOfNat 1, qOfNat 1), (qOfNat 1, Op.mul, qOfNat 2, qOfNat 2), (qOfNat 1, Op.add, qOfNat 2, qOfNat 3), (qOfNat 1, Op.mul, qOfNat 3, qOfNat 3)]), (qOfNat 3, [qOfNat 3], [(qOfNat 1, Op.add, qOfNat 1, qOfNat 2), (qOfNat 1, Op.mul, qOfNat 1, qOfNat 1), (qOfNat 1, Op.mul, qOfNat 2, qOfNat 2), (qOfNat 1, Op.add, qOfNat 2, qOfNat 3), (qOfNat 3, Op.div, qOfNat 1, qOfNat 3)]), (qOfNat 3, [qOfNat 3], [(qOfNat 1, Op.add, qOfNat 1, qOfNat 2), (qOfNat 1, Op.mul, qOfNat 1, qOfNat 1), (qOfNat 1, Op.mul, qOfNat 2, qOfNat 2), (qOfNat 2, Op.div, qOfNat 1, qOfNat 2), (qOfNat 1, Op.add, qOfNat 2, qOfNat 3)]), (qOfNat 1, [qOfNat 1], [(qOfNat 1, Op.add, qOfNat 1, qOfNat 2), (qOfNat 1, Op.mul, qOfNat 1, qOfNat 1), (qOfNat 1, Op.mul, qOfNat 2, qOfNat 2), (qOfNat 2, Op.div, qOfNat 1, qOfNat 2), (qOfNat 2, Op.sub, qOfNat 1, qOfNat 1)]), (qOfNat 4, [qOfNat 4], [(qOfNat 1, Op.add, qOfNat 1, qOfNat 2), (qOfNat 1, Op.mul, qOfNat 1, qOfNat 1), (qOfNat 2, Op.div, qOfNat 1, qOfNat 2), (qOfNat 1, Op.add, qOfNat 2, qOfNat 3), (qOfNat 1, Op.add, qOfNat 3, qOfNat 4)]), (qOfNat 3, [qOfNat 3], [(qOfNat 1, Op.add, qOfNat 1, qOfNat 2), (qOfNat 1, Op.mul, qOfNat 1, qOfNat 1), (qOfNat 2, Op.div, qOfNat 1, qOfNat 2), (qOfNat 1, Op.add, qOfNat 2, qOfNat 3), (qOfNat 1, Op.mul, qOfNat 3, qOfNat 3)]), (qOfNat 3, [qOfNat 3], [(qOfNat 1, Op.add, qOfNat 1, qOfNat 2), (qOfNat 1, Op.mul, qOfNat 1, qOfNat 1), (qOfNat 2, Op.div, qOfNat 1, qOfNat 2), (qOfNat 1, Op.add, qOfNat 2, qOfNat 3), (qOfNat 3, Op.div, qOfNat 1, qOfNat 3)]), (qOfNat 5, [qOfNat 5], [(qOfNat 1, Op.add, qOfNat 1, qOfNat 2), (qOfNat 1, Op.div, qOfNat 1, qOfNat 1), (qOfNat 1, Op.add, qOfNat 2, qOfNat 3), (qOfNat 1, Op.add, qOfNat 3, qOfNat 4), (qOfNat 1, Op.add, qOfNat 4, qOfNat 5)]), (qOfNat 4, [qOfNat 4], [(qOfNat 1, Op.add, qOfNat 1, qOfNat 2), (qOfNat 1, Op.div, qOfNat 1, qOfNat 1), (qOfNat 1, Op.add, qOfNat 2, qOfNat 3), (qOfNat 1, Op.add, qOfNat 3, qOfNat 4), (qOfNat 1, Op.mul, qOfNat 4, qOfNat 4)]), (qOfNat 3, [qOfNat 3], [(qOfNat 1, Op.add, qOfNat 1, qOfNat 2), (qOfNat 1, Op.div, qOfNat 1, qOfNat 1), (qOfNat 1, Op.add, qOfNat 2, qOfNat 3), (qOfNat 1, Op.add, qOfNat 3, qOfNat 4), (qOfNat 4, Op.sub, qOfNat 1, qOfNat 3)]), (qOfNat 4, [qOfNat 4], [(qOfNat 1, Op.add, qOfNat 1, qOfNat 2), (qOfNat 1, Op.div, qOfNat 1, qOfNat 1), (qOfNat 1, Op.add, qOfNat 2, qOfNat 3), (qOfNat 1, Op.add, qOfNat 3, qOfNat 4), (qOfNat 4, Op.div, qOfNat 1, qOfNat 4)]), (qOfNat 4, [qOfNat 4], [(qOfNat 1, Op.add, qOfNat 1, qOfNat 2), (qOfNat 1, Op.div, qOfNat 1, qOfNat 1), (qOfNat 1, Op.add, qOfNat 2, qOfNat 3), (qOfNat 1, Op.mul, qOfNat 3, qOfNat 3), (qOfNat 1, Op.add, qOfNat 3, qOfNat 4)]), (qOfNat 2, [qOfNat 2], [(qOfNat 1, Op.add, qOfNat 1, qOfNat 2), (qOfNat 1, Op.div, qOfNat 1, qOfNat 1), (qOfNat 1, Op.add, qOfNat 2, qOfNat 3), (qOfNat 1, Op.mul, qOfNat 3, qOfNat 3), (qOfNat 3, Op.sub, qOfNat 1, qOfNat 2)]), (qOfNat 3, [qOfNat 3], [(qOfNat 1, Op.add, qOfNat 1, qOfNat 2), (qOfNat 1, Op.div, qOfNat 1, qOfNat 1), (qOfNat 1, Op.add, qOfNat 2, qOfNat 3), (qOfNat 1, Op.mul, qOfNat 3, qOfNat 3), (qOfNat 3, Op.div, qOfNat 1, qOfNat 3)]), (qOfNat 2, [qOfNat 2], [(qOfNat 1, Op.add, qOfNat 1, qOfNat 2), (qOfNat 1, Op.div, qOfNat 1, qOfNat 1), (qOfNat 1, Op.add, qOfNat 2, qOfNat 3), (qOfNat 3, Op.sub, qOfNat 1, qOfNat 2), (qOfNat 1, Op.mul, qOfNat 2, qOfNat 2)]), (qOfNat 1, [qOfNat 1], [(qOfNat 1, Op.add, qOfNat 1, qOfNat 2), (qOfNat 1, Op.div, qOfNat 1, qOfNat 1), (qOfNat 1, Op.add, qOfNat 2, qOfNat 3), (qOfNat 3, Op.sub, qOfNat 1, qOfNat 2), (qOfNat 2, Op.sub, qOfNat 1, qOfNat 1)]), (qOfNat 2, [qOfNat 2], [(qOfNat 1, Op.add, qOfNat 1, qOfNat 2), (qOfNat 1, Op.div, qOfNat 1, qOfNat 1), (qOfNat 1, Op.add, qOfNat 2, qOfNat 3), (qOfNat 3, Op.sub, qOfNat 1, qOfNat 2), (qOfNat 2, Op.div, qOfNat 1, qOfNat 2)]), (qOfNat 4, [qOfNat 4], [(qOfNat 1, Op.add, qOfNat 1, qOfNat 2), (qOfNat 1, Op.div, qOfNat 1, qOfNat 1), (qOfNat 1, Op.add, qOfNat 2, qOfNat 3), (qOfNat 3, Op.div, qOfNat 1, qOfNat 3), (qOfNat 1, Op.add, qOfNat 3, qOfNat 4)]), (qOfNat 2, [qOfNat 2], [(qOfNat 1, Op.add, qOfNat 1, qOfNat 2), (qOfNat 1, Op.div, qOfNat 1, qOfNat 1), (qOfNat 1, Op.add, qOfNat 2, qOfNat 3), (qOfNat 3, Op.div, qOfNat 1, qOfNat 3), (qOfNat 3, Op.sub, qOfNat 1, qOfNat 2)]), (qOfNat 4, [qOfNat 4], [(qOfNat 1, Op.add, qOfNat 1, qOfNat 2), (qOfNat 1, Op.div, qOfNat 1, qOfNat 1), (qOfNat 1, Op.mul, qOfNat 2, qOfNat 2), (qOfNat 1, Op.add, qOfNat 2, qOfNat 3), (qOfNat 1, Op.add, qOfNat 3, qOfNat 4)]), (qOfNat 3, [qOfNat 3], [(qOfNat 1, Op.add, qOfNat 1, qOfNat 2), (qOfNat 1, Op.div, qOfNat 1, qOfNat 1), (qOfNat 1, Op.mul, qOfNat 2, qOfNat 2), (qOfNat 1, Op.add, qOfNat 2, qOfNat 3), (qOfNat 1, Op.mul, qOfNat 3, qOfNat 3)]), (qOfNat 3, [qOfNat 3], [(qOfNat 1, Op.add, qOfNat 1, qOfNat 2), (qOfNat 1, Op.div, qOfNat 1, qOfNat 1), (qOfNat 1, Op.mul, qOfNat 2, qOfNat 2), (qOfNat 1, Op.add, qOfNat 2, qOfNat 3), (qOfNat 3, Op.div, qOfNat 1, qOfNat 3)]), (qOfNat 3, [qOfNat 3], [(qOfNat 1, Op.add, qOfNat 1, qOfNat 2), (qOfNat 1, Op.div, qOfNat 1, qOfNat 1), (qOfNat 1, Op.mul, qOfNat 2, qOfNat 2), (qOfNat 2, Op.div, qOfNat 1, qOfNat 2), (qOfNat 1, Op.add, qOfNat 2, qOfNat 3)]), (qOfNat 1, [qOfNat 1], [(qOfNat 1, Op.add, qOfNat 1, qOfNat 2), (qOfNat 1, Op.div, qOfNat 1, qOfNat 1), (qOfNat 1, Op.mul, qOfNat 2, qOfNat 2), (qOfNat 2, Op.div, qOfNat 1, qOfNat 2), (qOfNat 2, Op.sub, qOfNat 1, qOfNat 1)]), (qOfNat 4, [qOfNat 4], [(qOfNat 1, Op.add, qOfNat 1, qOfNat 2), (qOfNat 1, Op.div, qOfNat 1, qOfNat 1), (qOfNat 2, Op.div, qOfNat 1, qOfNat 2), (qOfNat 1, Op.add, qOfNat 2, qOfNat 3), (qOfNat 1, Op.add, qOfNat 3, qOfNat 4)]), (qOfNat 3, [qOfNat 3], [(qOfNat 1, Op.add, qOfNat 1, qOfNat 2), (qOfNat 1, Op.div, qOfNat 1, qOfNat 1), (qOfNat 2, Op.div, qOfNat 1, qOfNat 2), (qOfNat 1, Op.add, qOfNat 2, qOfNat 3), (qOfNat 1, Op.mul, qOfNat 3, qOfNat 3)]), (qOfNat 3, [qOfNat 3], [(qOfNat 1, Op.add, qOfNat 1, qOfNat 2), (qOfNat 1, Op.div, qOfNat 1, qOfNat 1), (qOfNat 2, Op.div, qOfNat 1, qOfNat 2), (qOfNat 1, Op.add, qOfNat 2, qOfNat 3), (qOfNat 3, Op.div, qOfNat 1, qOfNat 3)]), (qOfNat 6, [qOfNat 6], [(qOfNat 1, Op.add, qOfNat 1, qOfNat 2), (qOfNat 1, Op.add, qOfNat 2, qOfNat 3), (qOfNat 1, Op.add, qOfNat 3, qOfNat 4), (qOfNat 1, Op.add, qOfNat 4, qOfNat 5), (qOfNat 1, Op.add, qOfNat 5, qOfNat 6)]), (qOfNat 5, [qOfNat 5], [(qOfNat 1, Op.add, qOfNat 1, qOfNat 2), (qOfNat 1, Op.add, qOfNat 2, qOfNat 3), (qOfNat 1, Op.add, qOfNat 3, qOfNat 4), (qOfNat 1, Op.add, qOfNat 4, qOfNat 5), (qOfNat 1, Op.mul, qOfNat 5, qOfNat 5)]), (qOfNat 4, [qOfNat 4], [(qOfNat 1, Op.add, qOfNat 1, qOfNat 2), (qOfNat 1, Op.add, qOfNat 2, qOfNat 3), (qOfNat 1, Op.add, qOfNat 3, qOfNat 4), (qOfNat 1, Op.add, qOfNat 4, qOfNat 5), (qOfNat 5, Op.sub, qOfNat 1, qOfNat 4)]), (qOfNat 5, [qOfNat 5], [(qOfNat 1, Op.add, qOfNat 1, qOfNat 2), (qOfNat 1, Op.add, qOfNat 2, qOfNat 3), (qOfNat 1, Op.add, qOfNat 3, qOfNat 4), (qOfNat 1, Op.add, qOfNat 4, qOfNat 5), (qOfNat 5, Op.div, qOfNat 1, qOfNat 5)]), (qOfNat 5, [qOfNat 5], [(qOfNat 1, Op.add, qOfNat 1, qOfNat 2), (qOfNat 1, Op.add, qOfNat 2, qOfNat 3), (qOfNat 1, Op.add, qOfNat 3, qOfNat 4), (qOfNat 1, Op.mul, qOfNat 4, qOfNat 4), (qOfNat 1, Op.add, qOfNat 4, qOfNat 5)]), (qOfNat 3, [qOfNat 3], [(qOfNat 1, Op.add, qOfNat 1, qOfNat 2), (qOfNat 1, Op.add, qOfNat 2, qOfNat 3), (qOfNat 1, Op.add, qOfNat 3, qOfNat 4), (qOfNat 1, Op.mul, qOfNat 4, qOfNat 4), (qOfNat 4, Op.sub, qOfNat 1, qOfNat 3)]), (qOfNat 4, [qOfNat 4], [(qOfNat 1, Op.add, qOfNat 1, qOfNat 2), (qOfNat 1, Op.add, qOfNat 2, qOfNat 3), (qOfNat 1, Op.add, qOfNat 3, qOfNat 4), (qOfNat 1, Op.mul, qOfNat 4, qOfNat 4), (qOfNat 4, Op.div, qOfNat 1, qOfNat 4)]), (qOfNat 3, [qOfNat 3], [(qOfNat 1, Op.add, qOfNat 1, qOfNat 2), (qOfNat 1, Op.add, qOfNat 2, qOfNat 3), (qOfNat 1, Op.add, qOfNat 3, qOfNat 4), (qOfNat 4, Op.sub, qOfNat 1, qOfNat 3), (qOfNat 1, Op.mul, qOfNat 3, qOfNat 3)]), (qOfNat 2, [qOfNat 2], [(qOfNat 1, Op.add, qOfNat 1, qOfNat 2), (qOfNat 1, Op.add, qOfNat 2, qOfNat 3), (qOfNat 1, Op.add, qOfNat 3, qOfNat 4), (qOfNat 4, Op.sub, qOfNat 1, qOfNat 3), (qOfNat 3, Op.sub, qOfNat 1, qOfNat 2)]), (qOfNat 3, [qOfNat 3], [(qOfNat 1, Op.add, qOfNat 1, qOfNat 2), (qOfNat 1, Op.add, qOfNat 2, qOfNat 3), (qOfNat 1, Op.add, qOfNat 3, qOfNat 4), (qOfNat 4, Op.sub, qOfNat 1, qOfNat 3), (qOfNat 3, Op.div, qOfNat 1, qOfNat 3)]), (qOfNat 5, [qOfNat 5], [(qOfNat 1, Op.add, qOfNat 1, qOfNat 2), (qOfNat 1, Op.add, qOfNat 2, qOfNat 3), (qOfNat 1, Op.add, qOfNat 3, qOfNat 4), (qOfNat 4, Op.div, qOfNat 1, qOfNat 4), (qOfNat 1, Op.add, qOfNat 4, qOfNat 5)]), (qOfNat 3, [qOfNat 3], [(qOfNat 1, Op.add, qOfNat 1, qOfNat 2), (qOfNat 1, Op.add, qOfNat 2, qOfNat 3), (qOfNat 1, Op.add, qOfNat 3, qOfNat 4), (qOfNat 4, Op.div, qOfNat 1, qOfNat 4), (qOfNat 4, Op.sub, qOfNat 1, qOfNat 3)]), (qOfNat 5, [qOfNat 5], [(qOfNat 1, Op.add, qOfNat 1, qOfNat 2), (qOfNat 1, Op.add, qOfNat 2, qOfNat 3), (qOfNat 1, Op.mul, qOfNat 3, qOfNat 3), (qOfNat 1, Op.add, qOfNat 3, qOfNat 4), (qOfNat 1, Op.add, qOfNat 4, qOfNat 5)]), (qOfNat 4, [qOfNat 4], [(qOfNat 1, Op.add, qOfNat 1, qOfNat 2), (qOfNat 1, Op.add, qOfNat 2, qOfNat 3), (qOfNat 1, Op.mul, qOfNat 3, qOfNat 3), (qOfNat 1, Op.add, qOfNat 3, qOfNat 4), (qOfNat 1, Op.mul, qOfNat 4, qOfNat 4)]), (qOfNat 4, [qOfNat 4], [(qOfNat 1, Op.add, qOfNat 1, qOfNat 2), (qOfNat 1, Op.add, qOfNat 2, qOfNat 3), (qOfNat 1, Op.mul, qOfNat 3, qOfNat 3), (qOfNat 1, Op.add, qOfNat 3, qOfNat 4), (qOfNat 4, Op.div, qOfNat 1, qOfNat 4)]), (qOfNat 2, [qOfNat 2], [(qOfNat 1, Op.add, qOfNat 1, qOfNat 2), (qOfNat 1, Op.add, qOfNat 2, qOfNat 3), (qOfNat 1, Op.mul, qOfNat 3, qOfNat 3), (qOfNat 3, Op.sub, qOfNat 1, qOfNat 2), (qOfNat 1, Op.mul, qOfNat 2, qOfNat 2)]), (qOfNat 1, [qOfNat 1], [(qOfNat 1, Op.add, qOfNat 1, qOfNat 2), (qOfNat 1, Op.add, qOfNat 2, qOfNat 3), (qOfNat 1, Op.mul, qOfNat 3, qOfNat 3), (qOfNat 3, Op.sub, qOfNat 1, qOfNat 2), (qOfNat 2, Op.sub, qOfNat 1, qOfNat 1)]), (qOfNat 2, [qOfNat 2], [(qOfNat 1, Op.add, qOfNat 1, qOfNat 2), (qOfNat 1, Op.add, qOfNat 2, qOfNat 3), (qOfNat 1, Op.mul, qOfNat 3, qOfNat 3), (qOfNat 3, Op.sub, qOfNat 1, qOfNat 2), (qOfNat 2, Op.div, qOfNat 1, qOfNat 2)]), (qOfNat 4, [qOfNat 4], [(qOfNat 1, Op.add, qOfNat 1, qOfNat 2), (qOfNat 1, Op.add, qOfNat 2, qOfNat 3), (qOfNat 1, Op.mul, qOfNat 3, qOfNat 3), (qOfNat 3, Op.div, qOfNat 1, qOfNat 3), (qOfNat 1, Op.add, qOfNat 3, qOfNat 4)]), (qOfNat 2, [qOfNat 2], [(qOfNat 1, Op.add, qOfNat 1, qOfNat 2), (qOfNat 1, Op.add, qOfNat 2, qOfNat 3), (qOfNat 1, Op.mul, qOfNat 3, qOfNat 3), (qOfNat 3, Op.div, qOfNat 1, qOfNat 3), (qOfNat 3, Op.sub, qOfNat 1, qOfNat 2)]), (qOfNat 1, [qOfNat 1], [(qOfNat 1, Op.add, qOfNat 1, qOfNat 2), (qOfNat 1, Op.add, qOfNat 2, qOfNat 3), (qOfNat 3, Op.sub, qOfNat 1, qOfNat 2), (qOfNat 1, Op.mul, qOfNat 2, qOfNat 2), (qOfNat 2, Op.sub, qOfNat 1, qOfNat 1)]), (qOfNat 2, [qOfNat 2], [(qOfNat 1, Op.add, qOfNat 1, qOfNat 2), (qOfNat 1, Op.add, qOfNat 2, qOfNat 3), (qOfNat 3, Op.sub, qOfNat 1, qOfNat 2), (qOfNat 1, Op.mul, qOfNat 2, qOfNat 2), (qOfNat 2, Op.div, qOfNat 1, qOfNat 2)]), (qOfNat 1, [qOfNat 1], [(qOfNat 1, Op.add, qOfNat 1, qOfNat 2), (qOfNat 1, Op.add, qOfNat 2, qOfNat 3), (qOfNat 3, Op.sub, qOfNat 1, qOfNat 2), (qOfNat 2, Op.div, qOfNat 1, qOfNat 2), (qOfNat 2, Op.sub, qOfNat 1, qOfNat 1)]), (qOfNat 5, [qOfNat 5], [(qOfNat 1, Op.add, qOfNat 1, qOfNat 2), (qOfNat 1, Op.add, qOfNat 2, qOfNat 3), (qOfNat 3, Op.div, qOfNat 1, qOfNat 3), (qOfNat 1, Op.add, qOfNat 3, qOfNat 4), (qOfNat 1, Op.add, qOfNat 4, qOfNat 5)]), (qOfNat 4, [qOfNat 4], [(qOfNat 1, Op.add, qOfNat 1, qOfNat 2), (qOfNat 1, Op.add, qOfNat 2, qOfNat 3), (qOfNat 3, Op.div, qOfNat 1, qOfNat 3), (qOfNat 1, Op.add, qOfNat 3, qOfNat 4), (qOfNat 1, Op.mul, qOfNat 4, qOfNat 4)]), (qOfNat 4, [qOfNat 4], [(qOfNat 1, Op.add, qOfNat 1, qOfNat 2), (qOfNat 1, Op.add, qOfNat 2, qOfNat 3), (qOfNat 3, Op.div, qOfNat 1, qOfNat 3), (qOfNat 1, Op.add, qOfNat 3, qOfNat 4), (qOfNat 4, Op.div, qOfNat 1, qOfNat 4)]), (qOfNat 2, [qOfNat 2], [(qOfNat 1, Op.add, qOfNat 1, qOfNat 2), (qOfNat 1, Op.add, qOfNat 2, qOfNat 3), (qOfNat 3, Op.div, qOfNat 1, qOfNat 3), (qOfNat 3, Op.sub, qOfNat 1, qOfNat 2), (qOfNat 1, Op.mul, qOfNat 2, qOfNat 2)]), (qOfNat 1, [qOfNat 1], [(qOfNat 1, Op.add, qOfNat 1, qOfNat 2), (qOfNat 1, Op.add, qOfNat 2, qOfNat 3), (qOfNat 3, Op.div, qOfNat 1, qOfNat 3), (qOfNat 3, Op.sub, qOfNat 1, qOfNat 2), (qOfNat 2, Op.sub, qOfNat 1, qOfNat 1)]), (qOfNat 2, [qOfNat 2], [(qOfNat 1, Op.add, qOfNat 1, qOfNat 2), (qOfNat 1, Op.add, qOfNat 2, qOfNat 3), (qOfNat 3, Op.div, qOfNat 1, qOfNat 3), (qOfNat 3, Op.sub, qOfNat 1, qOfNat 2), (qOfNat 2, Op.div, qOfNat 1, qOfNat 2)]), (qOfNat 5, [qOfNat 5], [(qOfNat 1, Op.add, qOfNat 1, qOfNat 2), (qOfNat 1, Op.mul, qOfNat 2, qOfNat 2), (qOfNat 1, Op.add, qOfNat 2, qOfNat 3), (qOfNat 1, Op.add, qOfNat 3, qOfNat 4), (qOfNat 1, Op.add, qOfNat 4, qOfNat 5)]), (qOfNat 4, [qOfNat 4], [(qOfNat 1, Op.add, qOfNat 1, qOfNat 2), (qOfNat 1, Op.mul, qOfNat 2, qOfNat 2), (qOfNat 1, Op.add, qOfNat 2, qOfNat 3), (qOfNat 1, Op.add, qOfNat 3, qOfNat 4), (qOfNat 1, Op.mul, qOfNat 4, qOfNat 4)]), (qOfNat 3, [qOfNat 3], [(qOfNat 1, Op.add, qOfNat 1, qOfNat 2), (qOfNat 1, Op.mul, qOfNat 2, qOfNat 2), (qOfNat 1, Op.add, qOfNat 2, qOfNat 3), (qOfNat 1, Op.add, qOfNat 3, qOfNat 4), (qOfNat 4, Op.sub, qOfNat 1, qOfNat 3)]), (qOfNat 4, [qOfNat 4], [(qOfNat 1, Op.add, qOfNat 1, qOfNat 2), (qOfNat 1, Op.mul, qOfNat 2, qOfNat 2), (qOfNat 1, Op.add, qOfNat 2, qOfNat 3), (qOfNat 1, Op.add, qOfNat 3, qOfNat 4), (qOfNat 4, Op.div, qOfNat 1, qOfNat 4)]), (qOfNat 4, [qOfNat 4], [(qOfNat 1, Op.add, qOfNat 1, qOfNat 2), (qOfNat 1, Op.mul, qOfNat 2, qOfNat 2), (qOfNat 1, Op.add, qOfNat 2, qOfNat 3), (qOfNat 1, Op.mul, qOfNat 3, qOfNat 3), (qOfNat 1, Op.add, qOfNat 3, qOfNat 4)]), (qOfNat 3, [qOfNat 3], [(qOfNat 1, Op.add, qOfNat 1, qOfNat 2), (qOfNat 1, Op.mul, qOfNat 2, qOfNat 2), (qOfNat 1, Op.add, qOfNat 2, qOfNat 3), (qOfNat 1, Op.mul, qOfNat 3, qOfNat 3), (qOfNat 3, Op.div, qOfNat 1, qOfNat 3)]), (qOfNat 4, [qOfNat 4], [(qOfNat 1, Op.add, qOfNat 1, qOfNat 2), (qOfNat 1, Op.mul, qOfNat 2, qOfNat 2), (qOfNat 1, Op.add, qOfNat 2, qOfNat 3), (qOfNat 3, Op.div, qOfNat 1, qOfNat 3), (qOfNat 1, Op.add, qOfNat 3, qOfNat 4)]), (qOfNat 4, [qOfNat 4], [(qOfNat 1, Op.add, qOfNat 1, qOfNat 2), (qOfNat 1, Op.mul, qOfNat 2, qOfNat 2), (qOfNat 2, Op.div, qOfNat 1, qOfNat 2), (qOfNat 1, Op.add, qOfNat 2, qOfNat 3), (qOfNat 1, Op.add, qOfNat 3, qOfNat 4)]), (qOfNat 3, [qOfNat 3], [(qOfNat 1, Op.add, qOfNat 1, qOfNat 2), (qOfNat 1, Op.mul, qOfNat 2, qOfNat 2), (qOfNat 2, Op.div, qOfNat 1, qOfNat 2), (qOfNat 1, Op.add, qOfNat 2, qOfNat 3), (qOfNat 1, Op.mul, qOfNat 3, qOfNat 3)]), (qOfNat 3, [qOfNat 3], [(qOfNat 1, Op.add, qOfNat 1, qOfNat 2), (qOfNat 1, Op.mul, qOfNat 2, qOfNat 2), (qOfNat 2, Op.div, qOfNat 1, qOfNat 2), (qOfNat 1, Op.add, qOfNat 2, qOfNat 3), (qOfNat 3, Op.div, qOfNat 1, qOfNat 3)]), (qOfNat 5, [qOfNat 5], [(qOfNat 1, Op.add, qOfNat 1, qOfNat 2), (qOfNat 2, Op.div, qOfNat 1, qOfNat 2), (qOfNat 1, Op.add, qOfNat 2, qOfNat 3), (qOfNat 1, Op.add, qOfNat 3, qOfNat 4), (qOfNat 1, Op.add, qOfNat 4, qOfNat 5)]), (qOfNat 4, [qOfNat 4], [(qOfNat 1, Op.add, qOfNat 1, qOfNat 2), (qOfNat 2, Op.div, qOfNat 1, qOfNat 2), (qOfNat 1, Op.add, qOfNat 2, qOfNat 3), (qOfNat 1, Op.add, qOfNat 3, qOfNat 4), (qOfNat 1, Op.mul, qOfNat 4, qOfNat 4)]), (qOfNat 3, [qOfNat 3], [(qOfNat 1, Op.add, qOfNat 1, qOfNat 2), (qOfNat 2, Op.div, qOfNat 1, qOfNat 2), (qOfNat 1, Op.add, qOfNat 2, qOfNat 3), (qOfNat 1, Op.add, qOfNat 3, qOfNat 4), (qOfNat 4, Op.sub, qOfNat 1, qOfNat 3)]), (qOfNat 4, [qOfNat 4], [(qOfNat 1, Op.add, qOfNat 1, qOfNat 2), (qOfNat 2, Op.div, qOfNat 1, qOfNat 2), (qOfNat 1, Op.add, qOfNat 2, qOfNat 3), (qOfNat 1, Op.add, qOfNat 3, qOfNat 4), (qOfNat 4, Op.div, qOfNat 1, qOfNat 4)]), (qOfNat 4, [qOfNat 4], [(qOfNat 1, Op.add, qOfNat 1, qOfNat 2), (qOfNat 2, Op.div, qOfNat 1, qOfNat 2), (qOfNat 1, Op.add, qOfNat 2, qOfNat 3), (qOfNat 1, Op.mul, qOfNat 3, qOfNat 3), (qOfNat 1, Op.add, qOfNat 3, qOfNat 4)]), (qOfNat 3, [qOfNat 3], [(qOfNat 1, Op.add, qOfNat 1, qOfNat 2), (qOfNat 2, Op.div, qOfNat 1, qOfNat 2), (qOfNat 1, Op.add, qOfNat 2, qOfNat 3), (qOfNat 1, Op.mul, qOfNat 3, qOfNat 3), (qOfNat 3, Op.div, qOfNat 1, qOfNat 3)]), (qOfNat 4, [qOfNat 4], [(qOfNat 1, Op.add, qOfNat 1, qOfNat 2), (qOfNat 2, Op.div, qOfNat 1, qOfNat 2), (qOfNat 1, Op.add, qOfNat 2, qOfNat 3), (qOfNat 3, Op.div, qOfNat 1, qOfNat 3), (qOfNat 1, Op.add, qOfNat 3, qOfNat 4)])]

/-- Seen path fingerprints of the same run after 80 iterations. -/
def traceU8 : List (List Oper) :=
  [[(qOfNat 1, Op.add, qOfNat 1, qOfNat 2)], [(qOfNat 1, Op.mul, qOfNat 1, qOfNat 1)], [(qOfNat 1, Op.div, qOfNat 1, qOfNat 1)], [(qOfNat 1, Op.add, qOfNat 1, qOfNat 2), (qOfNat 1, Op.mul, qOfNat 1, qOfNat 1)], [(qOfNat 1, Op.add, qOfNat 1, qOfNat 2), (qOfNat 1, Op.div, qOfNat 1, qOfNat 1)], [(qOfNat 1, Op.add, qOfNat 1, qOfNat 2), (qOfNat 1, Op.add, qOfNat 2, qOfNat 3)], [(qOfNat 1, Op.add, qOfNat 1, qOfNat 2), (qOfNat 1, Op.mul, qOfNat 2, qOfNat 2)], [(qOfNat 1, Op.add, qOfNat 1, qOfNat 2), (qOfNat 2, Op.sub, qOfNat 1, qOfNat 1)], [(qOfNat 1, Op.add, qOfNat 1, qOfNat 2), (qOfNat 2, Op.div, qOfNat 1, qOfNat 2)], [(qOfNat 1, Op.mul, qOfNat 1, qOfNat 1), (qOfNat 1, Op.div, qOfNat 1, qOfNat 1)], [(qOfNat 1, Op.add, qOfNat 1, qOfNat 2), (qOfNat 1, Op.mul, qOfNat 1, qOfNat 1), (qOfNat 1, Op.div, qOfNat 1, qOfNat 1)], [(qOfNat 1, Op.add, qOfNat 1, qOfNat 2), (qOfNat 1, Op.mul, qOfNat 1, qOfNat 1), (qOfNat 1, Op.add, qOfNat 2, qOfNat 3)], [(qOfNat 1, Op.add, qOfNat 1, qOfNat 2), (qOfNat 1, Op.mul, qOfNat 1, qOfNat 1), (qOfNat 1, Op.mul, qOfNat 2, qOfNat 2)], [(qOfNat 1, Op.add, qOfNat 1, qOfNat 2), (qOfNat 1, Op.mul, qOfNat 1, qOfNat 1), (qOfNat 2, Op.sub, qOfNat 1, qOfNat 1)], [(qOfNat 1, Op.add, qOfNat 1, qOfNat 2), (qOfNat 1, Op.mul, qOfNat 1, qOfNat 1), (qOfNat 2, Op.div, qOfNat 1, qOfNat 2)], [(qOfNat 1, Op.add, qOfNat 1, qOfNat 2), (qOfNat 1, Op.div, qOfNat 1, qOfNat 1), (qOfNat 1, Op.add, qOfNat 2, qOfNat 3)], [(qOfNat 1, Op.add, qOfNat 1, qOfNat 2), (qOfNat 1, Op.div, qOfNat 1, qOfNat 1), (qOfNat 1, Op.mul, qOfNat 2, qOfNat 2)], [(qOfNat 1, Op.add, qOfNat 1, qOfNat 2), (qOfNat 1, Op.div, qOfNat 1, qOfNat 1), (qOfNat 2, Op.sub, qOfNat 1, qOfNat 1)], [(qOfNat 1, Op.add, qOfNat 1, qOfNat 2), (qOfNat 1, Op.div, qOfNat 1, qOfNat 1), (qOfNat 2, Op.div, qOfNat 1, qOfNat 2)], [(qOfNat 1, Op.add, qOfNat 1, qOfNat 2), (qOfNat 1, Op.add, qOfNat 2, qOfNat 3), (qOfNat 1, Op.add, qOfNat 3, qOfNat 4)], [(qOfNat 1, Op.add, qOfNat 1, qOfNat 2), (qOfNat 1, Op.add, qOfNat 2, qOfNat 3), (qOfNat 1, Op.mul, qOfNat 3, qOfNat 3)], [(qOfNat 1, Op.add, qOfNat 1, qOfNat 2), (qOfNat 1, Op.add, qOfNat 2, qOfNat 3), (qOfNat 3, Op.sub, qOfNat 1, qOfNat 2)], [(qOfNat 1, Op.add, qOfNat 1, qOfNat 2), (qOfNat 1, Op.add, qOfNat 2, qOfNat 3), (qOfNat 3, Op.div, qOfNat 1, qOfNat 3)], [(qOfNat 1, Op.add, qOfNat 1, qOfNat 2), (qOfNat 1, Op.mul, qOfNat 2, qOfNat 2), (qOfNat 1, Op.add, qOfNat 2, qOfNat 3)], [(qOfNat 1, Op.add, qOfNat 1, qOfNat 2), (qOfNat 1, Op.mul, qOfNat 2, qOfNat 2), (qOfNat 2, Op.sub, qOfNat 1, qOfNat 1)], [(qOfNat 1, Op.add, qOfNat 1, qOfNat 2), (qOfNat 1, Op.mul, qOfNat 2, qOfNat 2), (qOfNat 2, Op.div, qOfNat 1, qOfNat 2)], [(qOfNat 1, Op.add, qOfNat 1, qOfNat 2), (qOfNat 2, Op.div, qOfNat 1, qOfNat 2), (qOfNat 1, Op.add, qOfNat 2, qOfNat 3)], [(qOfNat 1, Op.add, qOfNat 1, qOfNat 2), (qOfNat 2, Op.div, qOfNat 1, qOfNat 2), (qOfNat 2, Op.sub, qOfNat 1, qOfNat 1)], [(qOfNat 1, Op.add, qOfNat 1, qOfNat 2), (qOfNat 1, Op.mul, qOfNat 1, qOfNat 1), (qOfNat 1, Op.div, qOfNat 1, qOfNat 1), (qOfNat 2, Op.add, qOfNat 1, qOfNat 3)], [(qOfNat 1, Op.add, qOfNat 1, qOfNat 2), (qOfNat 1, Op.mul, qOfNat 1, qOfNat 1), (qOfNat 1, Op.div, qOfNat 1, qOfNat 1), (qOfNat 2, Op.sub, qOfNat 1, qOfNat 1)], [(qOfNat 1, Op.add, qOfNat 1, qOfNat 2), (qOfNat 1, Op.mul, qOfNat 1, qOfNat 1), (qOfNat 1, Op.div, qOfNat 1, qOfNat 1), (qOfNat 2, Op.mul, qOfNat 1, qOfNat 2)], [(qOfNat 1, Op.add, qOfNat 1, qOfNat 2), (qOfNat 1, Op.mul, qOfNat 1, qOfNat 1), (qOfNat 1, Op.div, qOfNat 1, qOfNat 1), (qOfNat 2, Op.div, qOfNat 1, qOfNat 2)], [(qOfNat 1, Op.add, qOfNat 1, qOfNat 2), (qOfNat 1, Op.mul, qOfNat 1, qOfNat 1), (qOfNat 1, Op.add, qOfNat 2, qOfNat 3), (qOfNat 1, Op.div, qOfNat 1, qOfNat 1)], [(qOfNat 1, Op.add, qOfNat 1, qOfNat 2), (qOfNat 1, Op.mul, qOfNat 1, qOfNat 1), (qOfNat 1, Op.add, qOfNat 2, qOfNat 3), (qOfNat 1, Op.add, qOfNat 3, qOfNat 4)], [(qOfNat 1, Op.add, qOfNat 1, qOfNat 2), (qOfNat 1, Op.mul, qOfNat 1, qOfNat 1), (qOfNat 1, Op.add, qOfNat 2, qOfNat 3), (qOfNat 1, Op.mul, qOfNat 3, qOfNat 3)], [(qOfNat 1, Op.add, qOfNat 1, qOfNat 2), (qOfNat 1, Op.mul, qOfNat 1, qOfNat 1), (qOfNat 1, Op.add, qOfNat 2, qOfNat 3), (qOfNat 3, Op.sub, qOfNat 1, qOfNat 2)], [(qOfNat 1, Op.add, qOfNat 1, qOfNat 2), (qOfNat 1, Op.mul, qOfNat 1, qOfNat 1), (qOfNat 1, Op.add, qOfNat 2, qOfNat 3), (qOfNat 3, Op.div, qOfNat 1, qOfNat 3)], [(qOfNat 1, Op.add, qOfNat 1, qOfNat 2), (qOfNat 1, Op.mul, qOfNat 1, qOfNat 1), (qOfNat 1, Op.mul, qOfNat 2, qOfNat 2), (qOfNat 1, Op.div, qOfNat 1, qOfNat 1)], [(qOfNat 1, Op.add, qOfNat 1, qOfNat 2), (qOfNat 1, Op.mul, qOfNat 1, qOfNat 1), (qOfNat 1, Op.mul, qOfNat 2, qOfNat 2), (qOfNat 1, Op.add, qOfNat 2, qOfNat 3)], [(qOfNat 1, Op.add, qOfNat 1, qOfNat 2), (qOfNat 1, Op.mul, qOfNat 1, qOfNat 1), (qOfNat 1, Op.mul, qOfNat 2, qOfNat 2), (qOfNat 2, Op.sub, qOfNat 1, qOfNat 1)], [(qOfNat 1, Op.add, qOfNat 1, qOfNat 2), (qOfNat 1, Op.mul, qOfNat 1, qOfNat 1), (qOfNat 1, Op.mul, qOfNat 2, qOfNat 2), (qOfNat 2, Op.div, qOfNat 1, qOfNat 2)], [(qOfNat 1, Op.add, qOfNat 1, qOfNat 2), (qOfNat 1, Op.mul, qOfNat 1, qOfNat 1), (qOfNat 2, Op.div, qOfNat 1, qOfNat 2), (qOfNat 1, Op.add, qOfNat 2, qOfNat 3)], [(qOfNat 1, Op.add, qOfNat 1, qOfNat 2), (qOfNat 1, Op.mul, qOfNat 1, qOfNat 1), (qOfNat 2, Op.div, qOfNat 1, qOfNat 2), (qOfNat 2, Op.sub, qOfNat 1, qOfNat 1)], [(qOfNat 1, Op.add, qOfNat 1, qOfNat 2), (qOfNat 1, Op.div, qOfNat 1, qOfNat 1), (qOfNat 1, Op.add, qOfNat 2, qOfNat 3), (qOfNat 1, Op.add, qOfNat 3, qOfNat 4)], [(qOfNat 1, Op.add, qOfNat 1, qOfNat 2), (qOfNat 1, Op.div, qOfNat 1, qOfNat 1), (qOfNat 1, Op.add, qOfNat 2, qOfNat 3), (qOfNat 1, Op.mul, qOfNat 3, qOfNat 3)], [(qOfNat 1, Op.add, qOfNat 1, qOfNat 2), (qOfNat 1, Op.div, qOfNat 1, qOfNat 1), (qOfNat 1, Op.add, qOfNat 2, qOfNat 3), (qOfNat 3, Op.sub, qOfNat 1, qOfNat 2)], [(qOfNat 1, Op.add, qOfNat 1, qOfNat 2), (qOfNat 1, Op.div, qOfNat 1, qOfNat 1), (qOfNat 1, Op.add, qOfNat 2, qOfNat 3), (qOfNat 3, Op.div, qOfNat 1, qOfNat 3)], [(qOfNat 1, Op.add, qOfNat 1, qOfNat 2), (qOfNat 1, Op.div, qOfNat 1, qOfNat 1), (qOfNat 1, Op.mul, qOfNat 2, qOfNat 2), (qOfNat 1, Op.add, qOfNat 2, qOfNat 3)], [(qOfNat 1, Op.add, qOfNat 1, qOfNat 2), (qOfNat 1, Op.div, qOfNat 1, qOfNat 1), (qOfNat 1, Op.mul, qOfNat 2, qOfNat 2), (qOfNat 2, Op.sub, qOfNat 1, qOfNat 1)], [(qOfNat 1, Op.add, qOfNat 1, qOfNat 2), (qOfNat 1, Op.div, qOfNat 1, qOfNat 1), (qOfNat 1, Op.mul, qOfNat 2, qOfNat 2), (qOfNat 2, Op.div, qOfNat 1, qOfNat 2)], [(qOfNat 1, Op.add, qOfNat 1, qOfNat 2), (qOfNat 1, Op.div, qOfNat 1, qOfNat 1), (qOfNat 2, Op.div, qOfNat 1, qOfNat 2), (qOfNat 1, Op.add, qOfNat 2, qOfNat 3)], [(qOfNat 1, Op.add, qOfNat 1, qOfNat 2), (qOfNat 1, Op.div, qOfNat 1, qOfNat 1), (qOfNat 2, Op.div, qOfNat 1, qOfNat 2), (qOfNat 2, Op.sub, qOfNat 1, qOfNat 1)], [(qOfNat 1, Op.add, qOfNat 1, qOfNat 2), (qOfNat 1, Op.add, qOfNat 2, qOfNat 3), (qOfNat 1, Op.add, qOfNat 3, qOfNat 4), (qOfNat 1, Op.add, qOfNat 4, qOfNat 5)], [(qOfNat 1, Op.add, qOfNat 1, qOfNat 2), (qOfNat 1, Op.add, qOfNat 2, qOfNat 3), (qOfNat 1, Op.add, qOfNat 3, qOfNat 4), (qOfNat 1, Op.mul, qOfNat 4, qOfNat 4)], [(qOfNat 1, Op.add, qOfNat 1, qOfNat 2), (qOfNat 1, Op.add, qOfNat 2, qOfNat 3), (qOfNat 1, Op.add, qOfNat 3, qOfNat 4), (qOfNat 4, Op.sub, qOfNat 1, qOfNat 3)], [(qOfNat 1, Op.add, qOfNat 1, qOfNat 2), (qOfNat 1, Op.add, qOfNat 2, qOfNat 3), (qOfNat 1, Op.add, qOfNat 3, qOfNat 4), (qOfNat 4, Op.div, qOfNat 1, qOfNat 4)], [(qOfNat 1, Op.add, qOfNat 1, qOfNat 2), (qOfNat 1, Op.add, qOfNat 2, qOfNat 3), (qOfNat 1, Op.mul, qOfNat 3, qOfNat 3), (qOfNat 1, Op.add, qOfNat 3, qOfNat 4)], [(qOfNat 1, Op.add, qOfNat 1, qOfNat 2), (qOfNat 1, Op.add, qOfNat 2, qOfNat 3), (qOfNat 1, Op.mul, qOfNat 3, qOfNat 3), (qOfNat 3, Op.sub, qOfNat 1, qOfNat 2)], [(qOfNat 1, Op.add, qOfNat 1, qOfNat 2), (qOfNat 1, Op.add, qOfNat 2, qOfNat 3), (qOfNat 1, Op.mul, qOfNat 3, qOfNat 3), (qOfNat 3, Op.div, qOfNat 1, qOfNat 3)], [(qOfNat 1, Op.add, qOfNat 1, qOfNat 2), (qOfNat 1, Op.add, qOfNat 2, qOfNat 3), (qOfNat 3, Op.sub, qOfNat 1, qOfNat 2), (qOfNat 1, Op.mul, qOfNat 2, qOfNat 2)], [(qOfNat 1, Op.add, qOfNat 1, qOfNat 2), (qOfNat 1, Op.add, qOfNat 2, qOfNat 3), (qOfNat 3, Op.sub, qOfNat 1, qOfNat 2), (qOfNat 2, Op.sub, qOfNat 1, qOfNat 1)], [(qOfNat 1, Op.add, qOfNat 1, qOfNat 2), (qOfNat 1, Op.add, qOfNat 2, qOfNat 3), (qOfNat 3, Op.sub, qOfNat 1, qOfNat 2), (qOfNat 2, Op.div, qOfNat 1, qOfNat 2)], [(qOfNat 1, Op.add, qOfNat 1, qOfNat 2), (qOfNat 1, Op.add, qOfNat 2, qOfNat 3), (qOfNat 3, Op.div, qOfNat 1, qOfNat 3), (qOfNat 1, Op.add, qOfNat 3, qOfNat 4)], [(qOfNat 1, Op.add, qOfNat 1, qOfNat 2), (qOfNat 1, Op.add, qOfNat 2, qOfNat 3), (qOfNat 3, Op.div, qOfNat 1, qOfNat 3), (qOfNat 3, Op.sub, qOfNat 1, qOfNat 2)], [(qOfNat 1, Op.add, qOfNat 1, qOfNat 2), (qOfNat 1, Op.mul, qOfNat 2, qOfNat 2), (qOfNat 1, Op.add, qOfNat 2, qOfNat 3), (qOfNat 1, Op.add, qOfNat 3, qOfNat 4)], [(qOfNat 1, Op.add, qOfNat 1, qOfNat 2), (qOfNat 1, Op.mul, qOfNat 2, qOfNat 2), (qOfNat 1, Op.add, qOfNat 2, qOfNat 3), (qOfNat 1, Op.mul, qOfNat 3, qOfNat 3)], [(qOfNat 1, Op.add, qOfNat 1, qOfNat 2), (qOfNat 1, Op.mul, qOfNat 2, qOfNat 2), (qOfNat 1, Op.add, qOfNat 2, qOfNat 3), (qOfNat 3, Op.div, qOfNat 1, qOfNat 3)], [(qOfNat 1, Op.add, qOfNat 1, qOfNat 2), (qOfNat 1, Op.mul, qOfNat 2, qOfNat 2), (qOfNat 2, Op.div, qOfNat 1, qOfNat 2), (qOfNat 1, Op.add, qOfNat 2, qOfNat 3)], [(qOfNat 1, Op.add, qOfNat 1, qOfNat 2), (qOfNat 1, Op.mul, qOfNat 2, qOfNat 2), (qOfNat 2, Op.div, qOfNat 1, qOfNat 2), (qOfNat 2, Op.sub, qOfNat 1, qOfNat 1)], [(qOfNat 1, Op.add, qOfNat 1, qOfNat 2), (qOfNat 2, Op.div, qOfNat 1, qOfNat 2), (qOfNat 1, Op.add, qOfNat 2, qOfNat 3), (qOfNat 1, Op.add, qOfNat 3, qOfNat 4)], [(qOfNat 1, Op.add, qOfNat 1, qOfNat 2), (qOfNat 2, Op.div, qOfNat 1, qOfNat 2), (qOfNat 1, Op.add, qOfNat 2, qOfNat 3), (qOfNat 1, Op.mul, qOfNat 3, qOfNat 3)], [(qOfNat 1, Op.add, qOfNat 1, qOfNat 2), (qOfNat 2, Op.div, qOfNat 1, qOfNat 2), (qOfNat 1, Op.add, qOfNat 2, qOfNat 3), (qOfNat 3, Op.div, qOfNat 1, qOfNat 3)], [(qOfNat 1, Op.add, qOfNat 1, qOfNat 2), (qOfNat 1, Op.mul, qOfNat 1, qOfNat 1), (qOfNat 1, Op.div, qOfNat 1, qOfNat 1), (qOfNat 2, Op.add, qOfNat 1, qOfNat 3), (qOfNat 1, Op.add, qOfNat 3, qOfNat 4)], [(qOfNat 1, Op.add, qOfNat 1, qOfNat 2), (qOfNat 1, Op.mul, qOfNat 1, qOfNat 1), (qOfNat 1, Op.div, qOfNat 1, qOfNat 1), (qOfNat 2, Op.add, qOfNat 1, qOfNat 3), (qOfNat 1, Op.mul, qOfNat 3, qOfNat 3)], [(qOfNat 1, Op.add, qOfNat 1, qOfNat 2), (qOfNat 1, Op.mul, qOfNat 1, qOfNat 1), (qOfNat 1, Op.div, qOfNat 1, qOfNat 1), (qOfNat 2, Op.add, qOfNat 1, qOfNat 3), (qOfNat 3, Op.sub, qOfNat 1, qOfNat 2)], [(qOfNat 1, Op.add, qOfNat 1, qOfNat 2), (qOfNat 1, Op.mul, qOfNat 1, qOfNat 1), (qOfNat 1, Op.div, qOfNat 1, qOfNat 1), (qOfNat 2, Op.add, qOfNat 1, qOfNat 3), (qOfNat 3, Op.div, qOfNat 1, qOfNat 3)], [(qOfNat 1, Op.add, qOfNat 1, qOfNat 2), (qOfNat 1, Op.mul, qOfNat 1, qOfNat 1), (qOfNat 1, Op.div, qOfNat 1, qOfNat 1), (qOfNat 2, Op.mul, qOfNat 1, qOfNat 2), (qOfNat 1, Op.add, qOfNat 2, qOfNat 3)], [(qOfNat 1, Op.add, qOfNat 1, qOfNat 2), (qOfNat 1, Op.mul, qOfNat 1, qOfNat 1), (qOfNat 1, Op.div, qOfNat 1, qOfNat 1), (qOfNat 2, Op.mul, qOfNat 1, qOfNat 2), (qOfNat 2, Op.sub, qOfNat 1, qOfNat 1)], [(qOfNat 1, Op.add, qOfNat 1, qOfNat 2), (qOfNat 1, Op.mul, qOfNat 1, qOfNat 1), (qOfNat 1, Op.div, qOfNat 1, qOfNat 1), (qOfNat 2, Op.mul, qOfNat 1, qOfNat 2), (qOfNat 2, Op.div, qOfNat 1, qOfNat 2)], [(qOfNat 1, Op.add, qOfNat 1, qOfNat 2), (qOfNat 1, Op.mul, qOfNat 1, qOfNat 1), (qOfNat 1, Op.div, qOfNat 1, qOfNat 1), (qOfNat 2, Op.div, qOfNat 1, qOfNat 2), (qOfNat 1, Op.add, qOfNat 2, qOfNat 3)], [(qOfNat 1, Op.add, qOfNat 1, qOfNat 2), (qOfNat 1, Op.mul, qOfNat 1, qOfNat 1), (qOfNat 1, Op.div, qOfNat 1, qOfNat 1), (qOfNat 2, Op.div, qOfNat 1, qOfNat 2), (qOfNat 2, Op.sub, qOfNat 1, qOfNat 1)], [(qOfNat 1, Op.add, qOfNat 1, qOfNat 2), (qOfNat 1, Op.mul, qOfNat 1, qOfNat 1), (qOfNat 1, Op.add, qOfNat 2, qOfNat 3), (qOfNat 1, Op.div, qOfNat 1, qOfNat 1), (qOfNat 3, Op.add, qOfNat 1, qOfNat 4)], [(qOfNat 1, Op.add, qOfNat 1, qOfNat 2), (qOfNat 1, Op.mul, qOfNat 1, qOfNat 1), (qOfNat 1, Op.add, qOfNat 2, qOfNat 3), (qOfNat 1, Op.div, qOfNat 1, qOfNat 1), (qOfNat 3, Op.sub, qOfNat 1, qOfNat 2)], [(qOfNat 1, Op.add, qOfNat 1, qOfNat 2), (qOfNat 1, Op.mul, qOfNat 1, qOfNat 1), (qOfNat 1, Op.add, qOfNat 2, qOfNat 3), (qOfNat 1, Op.div, qOfNat 1, qOfNat 1), (qOfNat 3, Op.mul, qOfNat 1, qOfNat 3)], [(qOfNat 1, Op.add, qOfNat 1, qOfNat 2), (qOfNat 1, Op.mul, qOfNat 1, qOfNat 1), (qOfNat 1, Op.add, qOfNat 2, qOfNat 3), (qOfNat 1, Op.div, qOfNat 1, qOfNat 1), (qOfNat 3, Op.div, qOfNat 1, qOfNat 3)], [(qOfNat 1, Op.add, qOfNat 1, qOfNat 2), (qOfNat 1, Op.mul, qOfNat 1, qOfNat 1), (qOfNat 1, Op.add, qOfNat 2, qOfNat 3), (qOfNat 1, Op.add, qOfNat 3, qOfNat 4), (qOfNat 1, Op.add, qOfNat 4, qOfNat 5)], [(qOfNat 1, Op.add, qOfNat 1, qOfNat 2), (qOfNat 1, Op.mul, qOfNat 1, qOfNat 1), (qOfNat 1, Op.add, qOfNat 2, qOfNat 3), (qOfNat 1, Op.add, qOfNat 3, qOfNat 4), (qOfNat 1, Op.mul, qOfNat 4, qOfNat 4)], [(qOfNat 1, Op.add, qOfNat 1, qOfNat 2), (qOfNat 1, Op.mul, qOfNat 1, qOfNat 1), (qOfNat 1, Op.add, qOfNat 2, qOfNat 3), (qOfNat 1, Op.add, qOfNat 3, qOfNat 4), (qOfNat 4, Op.sub, qOfNat 1, qOfNat 3)], [(qOfNat 1, Op.add, qOfNat 1, qOfNat 2), (qOfNat 1, Op.mul, qOfNat 1, qOfNat 1), (qOfNat 1, Op.add, qOfNat 2, qOfNat 3), (qOfNat 1, Op.add, qOfNat 3, qOfNat 4), (qOfNat 4, Op.div, qOfNat 1, qOfNat 4)], [(qOfNat 1, Op.add, qOfNat 1, qOfNat 2), (qOfNat 1, Op.mul, qOfNat 1, qOfNat 1), (qOfNat 1, Op.add, qOfNat 2, qOfNat 3), (qOfNat 1, Op.mul, qOfNat 3, qOfNat 3), (qOfNat 1, Op.add, qOfNat 3, qOfNat 4)], [(qOfNat 1, Op.add, qOfNat 1, qOfNat 2), (qOfNat 1, Op.mul, qOfNat 1, qOfNat 1), (qOfNat 1, Op.add, qOfNat 2, qOfNat 3), (qOfNat 1, Op.mul, qOfNat 3, qOfNat 3), (qOfNat 3, Op.sub, qOfNat 1, qOfNat 2)], [(qOfNat 1, Op.add, qOfNat 1, qOfNat 2), (qOfNat 1, Op.mul, qOfNat 1, qOfNat 1), (qOfNat 1, Op.add, qOfNat 2, qOfNat 3), (qOfNat 1, Op.mul, qOfNat 3, qOfNat 3), (qOfNat 3, Op.div, qOfNat 1, qOfNat 3)], [(qOfNat 1, Op.add, qOfNat 1, qOfNat 2), (qOfNat 1, Op.mul, qOfNat 1, qOfNat 1), (qOfNat 1, Op.add, qOfNat 2, qOfNat 3), (qOfNat 3, Op.sub, qOfNat 1, qOfNat 2), (qOfNat 1, Op.mul, qOfNat 2, qOfNat 2)], [(qOfNat 1, Op.add, qOfNat 1, qOfNat 2), (qOfNat 1, Op.mul, qOfNat 1, qOfNat 1), (qOfNat 1, Op.add, qOfNat 2, qOfNat 3), (qOfNat 3, Op.sub, qOfNat 1, qOfNat 2), (qOfNat 2, Op.sub, qOfNat 1, qOfNat 1)], [(qOfNat 1, Op.add, qOfNat 1, qOfNat 2), (qOfNat 1, Op.mul, qOfNat 1, qOfNat 1), (qOfNat 1, Op.add, qOfNat 2, qOfNat 3), (qOfNat 3, Op.sub, qOfNat 1, qOfNat 2), (qOfNat 2, Op.div, qOfNat 1, qOfNat 2)], [(qOfNat 1, Op.add, qOfNat 1, qOfNat 2), (qOfNat 1, Op.mul, qOfNat 1, qOfNat 1), (qOfNat 1, Op.add, qOfNat 2, qOfNat 3), (qOfNat 3, Op.div, qOfNat 1, qOfNat 3), (qOfNat 1, Op.add, qOfNat 3, qOfNat 4)], [(qOfNat 1, Op.add, qOfNat 1, qOfNat 2), (qOfNat 1, Op.mul, qOfNat 1, qOfNat 1), (qOfNat 1, Op.add, qOfNat 2, qOfNat 3), (qOfNat 3, Op.div, qOfNat 1, qOfNat 3), (qOfNat 3, Op.sub, qOfNat 1, qOfNat 2)], [(qOfNat 1, Op.add, qOfNat 1, qOfNat 2), (qOfNat 1, Op.mul, qOfNat 1, qOfNat 1), (qOfNat 1, Op.mul, qOfNat 2, qOfNat 2), (qOfNat 1, Op.div, qOfNat 1, qOfNat 1), (qOfNat 2, Op.add, qOfNat 1, qOfNat 3)], [(qOfNat 1, Op.add, qOfNat 1, qOfNat 2), (qOfNat 1, Op.mul, qOfNat 1, qOfNat 1), (qOfNat 1, Op.mul, qOfNat 2, qOfNat 2), (qOfNat 1, Op.div, qOfNat 1, qOfNat 1), (qOfNat 2, Op.sub, qOfNat 1, qOfNat 1)], [(qOfNat 1, Op.add, qOfNat 1, qOfNat 2), (qOfNat 1, Op.mul, qOfNat 1, qOfNat 1), (qOfNat 1, Op.mul, qOfNat 2, qOfNat 2), (qOfNat 1, Op.div, qOfNat 1, qOfNat 1), (qOfNat 2, Op.div, qOfNat 1, qOfNat 2)], [(qOfNat 1, Op.add, qOfNat 1, qOfNat 2), (qOfNat 1, Op.mul, qOfNat 1, qOfNat 1), (qOfNat 1, Op.mul, qOfNat 2, qOfNat 2), (qOfNat 1, Op.add, qOfNat 2, qOfNat 3), (qOfNat 1, Op.add, qOfNat 3, qOfNat 4)], [(qOfNat 1, Op.add, qOfNat 1, qOfNat 2), (qOfNat 1, Op.mul, qOfNat 1, qOfNat 1), (qOfNat 1, Op.mul, qOfNat 2, qOfNat 2), (qOfNat 1, Op.add, qOfNat 2, qOfNat 3), (qOfNat 1, Op.mul, qOfNat 3, qOfNat 3)], [(qOfNat 1, Op.add, qOfNat 1, qOfNat 2), (qOfNat 1, Op.mul, qOfNat 1, qOfNat 1), (qOfNat 1, Op.mul, qOfNat 2, qOfNat 2), (qOfNat 1, Op.add, qOfNat 2, qOfNat 3), (qOfNat 3, Op.div, qOfNat 1, qOfNat 3)], [(qOfNat 1, Op.add, qOfNat 1, qOfNat 2), (qOfNat 1, Op.mul, qOfNat 1, qOfNat 1), (qOfNat 1, Op.mul, qOfNat 2, qOfNat 2), (qOfNat 2, Op.div, qOfNat 1, qOfNat 2), (qOfNat 1, Op.add, qOfNat 2, qOfNat 3)], [(qOfNat 1, Op.add, qOfNat 1, qOfNat 2), (qOfNat 1, Op.mul, qOfNat 1, qOfNat 1), (qOfNat 1, Op.mul, qOfNat 2, qOfNat 2), (qOfNat 2, Op.div, qOfNat 1, qOfNat 2), (qOfNat 2, Op.sub, qOfNat 1, qOfNat 1)], [(qOfNat 1, Op.add, qOfNat 1, qOfNat 2), (qOfNat 1, Op.mul, qOfNat 1, qOfNat 1), (qOfNat 2, Op.div, qOfNat 1, qOfNat 2), (qOfNat 1, Op.add, qOfNat 2, qOfNat 3), (qOfNat 1, Op.add, qOfNat 3, qOfNat 4)], [(qOfNat 1, Op.add, qOfNat 1, qOfNat 2), (qOfNat 1, Op.mul, qOfNat 1, qOfNat 1), (qOfNat 2, Op.div, qOfNat 1, qOfNat 2), (qOfNat 1, Op.add, qOfNat 2, qOfNat 3), (qOfNat 1, Op.mul, qOfNat 3, qOfNat 3)], [(qOfNat 1, Op.add, qOfNat 1, qOfNat 2), (qOfNat 1, Op.mul, qOfNat 1, qOfNat 1), (qOfNat 2, Op.div, qOfNat 1, qOfNat 2), (qOfNat 1, Op.add, qOfNat 2, qOfNat 3), (qOfNat 3, Op.div, qOfNat 1, qOfNat 3)], [(qOfNat 1, Op.add, qOfNat 1, qOfNat 2), (qOfNat 1, Op.div, qOfNat 1, qOfNat 1), (qOfNat 1, Op.add, qOfNat 2, qOfNat 3), (qOfNat 1, Op.add, qOfNat 3, qOfNat 4), (qOfNat 1, Op.add, qOfNat 4, qOfNat 5)], [(qOfNat 1, Op.add, qOfNat 1, qOfNat 2), (qOfNat 1, Op.div, qOfNat 1, qOfNat 1), (qOfNat 1, Op.add, qOfNat 2, qOfNat 3), (qOfNat 1, Op.add, qOfNat 3, qOfNat 4), (qOfNat 1, Op.mul, qOfNat 4, qOfNat 4)], [(qOfNat 1, Op.add, qOfNat 1, qOfNat 2), (qOfNat 1, Op.div, qOfNat 1, qOfNat 1), (qOfNat 1, Op.add, qOfNat 2, qOfNat 3), (qOfNat 1, Op.add, qOfNat 3, qOfNat 4), (qOfNat 4, Op.sub, qOfNat 1, qOfNat 3)], [(qOfNat 1, Op.add, qOfNat 1, qOfNat 2), (qOfNat 1, Op.div, qOfNat 1, qOfNat 1), (qOfNat 1, Op.add, qOfNat 2, qOfNat 3), (qOfNat 1, Op.add, qOfNat 3, qOfNat 4), (qOfNat 4, Op.div, qOfNat 1, qOfNat 4)], [(qOfNat 1, Op.add, qOfNat 1, qOfNat 2), (qOfNat 1, Op.div, qOfNat 1, qOfNat 1), (qOfNat 1, Op.add, qOfNat 2, qOfNat 3), (qOfNat 1, Op.mul, qOfNat 3, qOfNat 3), (qOfNat 1, Op.add, qOfNat 3, qOfNat 4)], [(qOfNat 1, Op.add, qOfNat 1, qOfNat 2), (qOfNat 1, Op.div, qOfNat 1, qOfNat 1), (qOfNat 1, Op.add, qOfNat 2, qOfNat 3), (qOfNat 1, Op.mul, qOfNat 3, qOfNat 3), (qOfNat 3, Op.sub, qOfNat 1, qOfNat 2)], [(qOfNat 1, Op.add, qOfNat 1, qOfNat 2), (qOfNat 1, Op.div, qOfNat 1, qOfNat 1), (qOfNat 1, Op.add, qOfNat 2, qOfNat 3), (qOfNat 1, Op.mul, qOfNat 3, qOfNat 3), (qOfNat 3, Op.div, qOfNat 1, qOfNat 3)], [(qOfNat 1, Op.add, qOfNat 1, qOfNat 2), (qOfNat 1, Op.div, qOfNat 1, qOfNat 1), (qOfNat 1, Op.add, qOfNat 2, qOfNat 3), (qOfNat 3, Op.sub, qOfNat 1, qOfNat 2), (qOfNat 1, Op.mul, qOfNat 2, qOfNat 2)], [(qOfNat 1, Op.add, qOfNat 1, qOfNat 2), (qOfNat 1, Op.div, qOfNat 1, qOfNat 1), (qOfNat 1, Op.add, qOfNat 2, qOfNat 3), (qOfNat 3, Op.sub, qOfNat 1, qOfNat 2), (qOfNat 2, Op.sub, qOfNat 1, qOfNat 1)], [(qOfNat 1, Op.add, qOfNat 1, qOfNat 2), (qOfNat 1, Op.div, qOfNat 1, qOfNat 1), (qOfNat 1, Op.add, qOfNat 2, qOfNat 3), (qOfNat 3, Op.sub, qOfNat 1, qOfNat 2), (qOfNat 2, Op.div, qOfNat 1, qOfNat 2)], [(qOfNat 1, Op.add, qOfNat 1, qOfNat 2), (qOfNat 1, Op.div, qOfNat 1, qOfNat 1), (qOfNat 1, Op.add, qOfNat 2, qOfNat 3), (qOfNat 3, Op.div, qOfNat 1, qOfNat 3), (qOfNat 1, Op.add, qOfNat 3, qOfNat 4)], [(qOfNat 1, Op.add, qOfNat 1, qOfNat 2), (qOfNat 1, Op.div, qOfNat 1, qOfNat 1), (qOfNat 1, Op.add, qOfNat 2, qOfNat 3), (qOfNat 3, Op.div, qOfNat 1, qOfNat 3), (qOfNat 3, Op.sub, qOfNat 1, qOfNat 2)], [(qOfNat 1, Op.add, qOfNat 1, qOfNat 2), (qOfNat 1, Op.div, qOfNat 1, qOfNat 1), (qOfNat 1, Op.mul, qOfNat 2, qOfNat 2), (qOfNat 1, Op.add, qOfNat 2, qOfNat 3), (qOfNat 1, Op.add, qOfNat 3, qOfNat 4)], [(qOfNat 1, Op.add, qOfNat 1, qOfNat 2), (qOfNat 1, Op.div, qOfNat 1, qOfNat 1), (qOfNat 1, Op.mul, qOfNat 2, qOfNat 2), (qOfNat 1, Op.add, qOfNat 2, qOfNat 3), (qOfNat 1, Op.mul, qOfNat 3, qOfNat 3)], [(qOfNat 1, Op.add, qOfNat 1, qOfNat 2), (qOfNat 1, Op.div, qOfNat 1, qOfNat 1), (qOfNat 1, Op.mul, qOfNat 2, qOfNat 2), (qOfNat 1, Op.add, qOfNat 2, qOfNat 3), (qOfNat 3, Op.div, qOfNat 1, qOfNat 3)], [(qOfNat 1, Op.add, qOfNat 1, qOfNat 2), (qOfNat 1, Op.div, qOfNat 1, qOfNat 1), (qOfNat 1, Op.mul, qOfNat 2, qOfNat 2), (qOfNat 2, Op.div, qOfNat 1, qOfNat 2), (qOfNat 1, Op.add, qOfNat 2, qOfNat 3)], [(qOfNat 1, Op.add, qOfNat 1, qOfNat 2), (qOfNat 1, Op.div, qOfNat 1, qOfNat 1), (qOfNat 1, Op.mul, qOfNat 2, qOfNat 2), (qOfNat 2, Op.div, qOfNat 1, qOfNat 2), (qOfNat 2, Op.sub, qOfNat 1, qOfNat 1)], [(qOfNat 1, Op.add, qOfNat 1, qOfNat 2), (qOfNat 1, Op.div, qOfNat 1, qOfNat 1), (qOfNat 2, Op.div, qOfNat 1, qOfNat 2), (qOfNat 1, Op.add, qOfNat 2, qOfNat 3), (qOfNat 1, Op.add, qOfNat 3, qOfNat 4)], [(qOfNat 1, Op.add, qOfNat 1, qOfNat 2), (qOfNat 1, Op.div, qOfNat 1, qOfNat 1), (qOfNat 2, Op.div, qOfNat 1, qOfNat 2), (qOfNat 1, Op.add, qOfNat 2, qOfNat 3), (qOfNat 1, Op.mul, qOfNat 3, qOfNat 3)], [(qOfNat 1, Op.add, qOfNat 1, qOfNat 2), (qOfNat 1, Op.div, qOfNat 1, qOfNat 1), (qOfNat 2, Op.div, qOfNat 1, qOfNat 2), (qOfNat 1, Op.add, qOfNat 2, qOfNat 3), (qOfNat 3, Op.div, qOfNat 1, qOfNat 3)], [(qOfNat 1, Op.add, qOfNat 1, qOfNat 2), (qOfNat 1, Op.add, qOfNat 2, qOfNat 3), (qOfNat 1, Op.add, qOfNat 3, qOfNat 4), (qOfNat 1, Op.add, qOfNat 4, qOfNat 5), (qOfNat 1, Op.add, qOfNat 5, qOfNat 6)], [(qOfNat 1, Op.add, qOfNat 1, qOfNat 2), (qOfNat 1, Op.add, qOfNat 2, qOfNat 3), (qOfNat 1, Op.add, qOfNat 3, qOfNat 4), (qOfNat 1, Op.add, qOfNat 4, qOfNat 5), (qOfNat 1, Op.mul, qOfNat 5, qOfNat 5)], [(qOfNat 1, Op.add, qOfNat 1, qOfNat 2), (qOfNat 1, Op.add, qOfNat 2, qOfNat 3), (qOfNat 1, Op.add, qOfNat 3, qOfNat 4), (qOfNat 1, Op.add, qOfNat 4, qOfNat 5), (qOfNat 5, Op.sub, qOfNat 1, qOfNat 4)], [(qOfNat 1, Op.add, qOfNat 1, qOfNat 2), (qOfNat 1, Op.add, qOfNat 2, qOfNat 3), (qOfNat 1, Op.add, qOfNat 3, qOfNat 4), (qOfNat 1, Op.add, qOfNat 4, qOfNat 5), (qOfNat 5, Op.div, qOfNat 1, qOfNat 5)], [(qOfNat 1, Op.add, qOfNat 1, qOfNat 2), (qOfNat 1, Op.add, qOfNat 2, qOfNat 3), (qOfNat 1, Op.add, qOfNat 3, qOfNat 4), (qOfNat 1, Op.mul, qOfNat 4, qOfNat 4), (qOfNat 1, Op.add, qOfNat 4, qOfNat 5)], [(qOfNat 1, Op.add, qOfNat 1, qOfNat 2), (qOfNat 1, Op.add, qOfNat 2, qOfNat 3), (qOfNat 1, Op.add, qOfNat 3, qOfNat 4), (qOfNat 1, Op.mul, qOfNat 4, qOfNat 4), (qOfNat 4, Op.sub, qOfNat 1, qOfNat 3)], [(qOfNat 1, Op.add, qOfNat 1, qOfNat 2), (qOfNat 1, Op.add, qOfNat 2, qOfNat 3), (qOfNat 1, Op.add, qOfNat 3, qOfNat 4), (qOfNat 1, Op.mul, qOfNat 4, qOfNat 4), (qOfNat 4, Op.div, qOfNat 1, qOfNat 4)], [(qOfNat 1, Op.add, qOfNat 1, qOfNat 2), (qOfNat 1, Op.add, qOfNat 2, qOfNat 3), (qOfNat 1, Op.add, qOfNat 3, qOfNat 4), (qOfNat 4, Op.sub, qOfNat 1, qOfNat 3), (qOfNat 1, Op.mul, qOfNat 3, qOfNat 3)], [(qOfNat 1, Op.add, qOfNat 1, qOfNat 2), (qOfNat 1, Op.add, qOfNat 2, qOfNat 3), (qOfNat 1, Op.add, qOfNat 3, qOfNat 4), (qOfNat 4, Op.sub, qOfNat 1, qOfNat 3), (qOfNat 3, Op.sub, qOfNat 1, qOfNat 2)], [(qOfNat 1, Op.add, qOfNat 1, qOfNat 2), (qOfNat 1, Op.add, qOfNat 2, qOfNat 3), (qOfNat 1, Op.add, qOfNat 3, qOfNat 4), (qOfNat 4, Op.sub, qOfNat 1, qOfNat 3), (qOfNat 3, Op.div, qOfNat 1, qOfNat 3)], [(qOfNat 1, Op.add, qOfNat 1, qOfNat 2), (qOfNat 1, Op.add, qOfNat 2, qOfNat 3), (qOfNat 1, Op.add, qOfNat 3, qOfNat 4), (qOfNat 4, Op.div, qOfNat 1, qOfNat 4), (qOfNat 1, Op.add, qOfNat 4, qOfNat 5)], [(qOfNat 1, Op.add, qOfNat 1, qOfNat 2), (qOfNat 1, Op.add, qOfNat 2, qOfNat 3), (qOfNat 1, Op.add, qOfNat 3, qOfNat 4), (qOfNat 4, Op.div, qOfNat 1, qOfNat 4), (qOfNat 4, Op.sub, qOfNat 1, qOfNat 3)], [(qOfNat 1, Op.add, qOfNat 1, qOfNat 2), (qOfNat 1, Op.add, qOfNat 2, qOfNat 3), (qOfNat 1, Op.mul, qOfNat 3, qOfNat 3), (qOfNat 1, Op.add, qOfNat 3, qOfNat 4), (qOfNat 1, Op.add, qOfNat 4, qOfNat 5)], [(qOfNat 1, Op.add, qOfNat 1, qOfNat 2), (qOfNat 1, Op.add, qOfNat 2, qOfNat 3), (qOfNat 1, Op.mul, qOfNat 3, qOfNat 3), (qOfNat 1, Op.add, qOfNat 3, qOfNat 4), (qOfNat 1, Op.mul, qOfNat 4, qOfNat 4)], [(qOfNat 1, Op.add, qOfNat 1, qOfNat 2), (qOfNat 1, Op.add, qOfNat 2, qOfNat 3), (qOfNat 1, Op.mul, qOfNat 3, qOfNat 3), (qOfNat 1, Op.add, qOfNat 3, qOfNat 4), (qOfNat 4, Op.div, qOfNat 1, qOfNat 4)], [(qOfNat 1, Op.add, qOfNat 1, qOfNat 2), (qOfNat 1, Op.add, qOfNat 2, qOfNat 3), (qOfNat 1, Op.mul, qOfNat 3, qOfNat 3), (qOfNat 3, Op.sub, qOfNat 1, qOfNat 2), (qOfNat 1, Op.mul, qOfNat 2, qOfNat 2)], [(qOfNat 1, Op.add, qOfNat 1, qOfNat 2), (qOfNat 1, Op.add, qOfNat 2, qOfNat 3), (qOfNat 1, Op.mul, qOfNat 3, qOfNat 3), (qOfNat 3, Op.sub, qOfNat 1, qOfNat 2), (qOfNat 2, Op.sub, qOfNat 1, qOfNat 1)], [(qOfNat 1, Op.add, qOfNat 1, qOfNat 2), (qOfNat 1, Op.add, qOfNat 2, qOfNat 3), (qOfNat 1, Op.mul, qOfNat 3, qOfNat 3), (qOfNat 3, Op.sub, qOfNat 1, qOfNat 2), (qOfNat 2, Op.div, qOfNat 1, qOfNat 2)], [(qOfNat 1, Op.add, qOfNat 1, qOfNat 2), (qOfNat 1, Op.add, qOfNat 2, qOfNat 3), (qOfNat 1, Op.mul, qOfNat 3, qOfNat 3), (qOfNat 3, Op.div, qOfNat 1, qOfNat 3), (qOfNat 1, Op.add, qOfNat 3, qOfNat 4)], [(qOfNat 1, Op.add, qOfNat 1, qOfNat 2), (qOfNat 1, Op.add, qOfNat 2, qOfNat 3), (qOfNat 1, Op.mul, qOfNat 3, qOfNat 3), (qOfNat 3, Op.div, qOfNat 1, qOfNat 3), (qOfNat 3, Op.sub, qOfNat 1, qOfNat 2)], [(qOfNat 1, Op.add, qOfNat 1, qOfNat 2), (qOfNat 1, Op.add, qOfNat 2, qOfNat 3), (qOfNat 3, Op.sub, qOfNat 1, qOfNat 2), (qOfNat 1, Op.mul, qOfNat 2, qOfNat 2), (qOfNat 2, Op.sub, qOfNat 1, qOfNat 1)], [(qOfNat 1, Op.add, qOfNat 1, qOfNat 2), (qOfNat 1, Op.add, qOfNat 2, qOfNat 3), (qOfNat 3, Op.sub, qOfNat 1, qOfNat 2), (qOfNat 1, Op.mul, qOfNat 2, qOfNat 2), (qOfNat 2, Op.div, qOfNat 1, qOfNat 2)], [(qOfNat 1, Op.add, qOfNat 1, qOfNat 2), (qOfNat 1, Op.add, qOfNat 2, qOfNat 3), (qOfNat 3, Op.sub, qOfNat 1, qOfNat 2), (qOfNat 2, Op.div, qOfNat 1, qOfNat 2), (qOfNat 2, Op.sub, qOfNat 1, qOfNat 1)], [(qOfNat 1, Op.add, qOfNat 1, qOfNat 2), (qOfNat 1, Op.add, qOfNat 2, qOfNat 3), (qOfNat 3, Op.div, qOfNat 1, qOfNat 3), (qOfNat 1, Op.add, qOfNat 3, qOfNat 4), (qOfNat 1, Op.add, qOfNat 4, qOfNat 5)], [(qOfNat 1, Op.add, qOfNat 1, qOfNat 2), (qOfNat 1, Op.add, qOfNat 2, qOfNat 3), (qOfNat 3, Op.div, qOfNat 1, qOfNat 3), (qOfNat 1, Op.add, qOfNat 3, qOfNat 4), (qOfNat 1, Op.mul, qOfNat 4, qOfNat 4)], [(qOfNat 1, Op.add, qOfNat 1, qOfNat 2), (qOfNat 1, Op.add, qOfNat 2, qOfNat 3), (qOfNat 3, Op.div, qOfNat 1, qOfNat 3), (qOfNat 1, Op.add, qOfNat 3, qOfNat 4), (qOfNat 4, Op.div, qOfNat 1, qOfNat 4)], [(qOfNat 1, Op.add, qOfNat 1, qOfNat 2), (qOfNat 1, Op.add, qOfNat 2, qOfNat 3), (qOfNat 3, Op.div, qOfNat 1, qOfNat 3), (qOfNat 3, Op.sub, qOfNat 1, qOfNat 2), (qOfNat 1, Op.mul, qOfNat 2, qOfNat 2)], [(qOfNat 1, Op.add, qOfNat 1, qOfNat 2), (qOfNat 1, Op.add, qOfNat 2, qOfNat 3), (qOfNat 3, Op.div, qOfNat 1, qOfNat 3), (qOfNat 3, Op.sub, qOfNat 1, qOfNat 2), (qOfNat 2, Op.sub, qOfNat 1, qOfNat 1)], [(qOfNat 1, Op.add, qOfNat 1, qOfNat 2), (qOfNat 1, Op.add, qOfNat 2, qOfNat 3), (qOfNat 3, Op.div, qOfNat 1, qOfNat 3), (qOfNat 3, Op.sub, qOfNat 1, qOfNat 2), (qOfNat 2, Op.div, qOfNat 1, qOfNat 2)], [(qOfNat 1, Op.add, qOfNat 1, qOfNat 2), (qOfNat 1, Op.mul, qOfNat 2, qOfNat 2), (qOfNat 1, Op.add, qOfNat 2, qOfNat 3), (qOfNat 1, Op.add, qOfNat 3, qOfNat 4), (qOfNat 1, Op.add, qOfNat 4, qOfNat 5)], [(qOfNat 1, Op.add, qOfNat 1, qOfNat 2), (qOfNat 1, Op.mul, qOfNat 2, qOfNat 2), (qOfNat 1, Op.add, qOfNat 2, qOfNat 3), (qOfNat 1, Op.add, qOfNat 3, qOfNat 4), (qOfNat 1, Op.mul, qOfNat 4, qOfNat 4)], [(qOfNat 1, Op.add, qOfNat 1, qOfNat 2), (qOfNat 1, Op.mul, qOfNat 2, qOfNat 2), (qOfNat 1, Op.add, qOfNat 2, qOfNat 3), (qOfNat 1, Op.add, qOfNat 3, qOfNat 4), (qOfNat 4, Op.sub, qOfNat 1, qOfNat 3)], [(qOfNat 1, Op.add, qOfNat 1, qOfNat 2), (qOfNat 1, Op.mul, qOfNat 2, qOfNat 2), (qOfNat 1, Op.add, qOfNat 2, qOfNat 3), (qOfNat 1, Op.add, qOfNat 3, qOfNat 4), (qOfNat 4, Op.div, qOfNat 1, qOfNat 4)], [(qOfNat 1, Op.add, qOfNat 1, qOfNat 2), (qOfNat 1, Op.mul, qOfNat 2, qOfNat 2), (qOfNat 1, Op.add, qOfNat 2, qOfNat 3), (qOfNat 1, Op.mul, qOfNat 3, qOfNat 3), (qOfNat 1, Op.add, qOfNat 3, qOfNat 4)], [(qOfNat 1, Op.add, qOfNat 1, qOfNat 2), (qOfNat 1, Op.mul, qOfNat 2, qOfNat 2), (qOfNat 1, Op.add, qOfNat 2, qOfNat 3), (qOfNat 1, Op.mul, qOfNat 3, qOfNat 3), (qOfNat 3, Op.div, qOfNat 1, qOfNat 3)], [(qOfNat 1, Op.add, qOfNat 1, qOfNat 2), (qOfNat 1, Op.mul, qOfNat 2, qOfNat 2), (qOfNat 1, Op.add, qOfNat 2, qOfNat 3), (qOfNat 3, Op.div, qOfNat 1, qOfNat 3), (qOfNat 1, Op.add, qOfNat 3, qOfNat 4)], [(qOfNat 1, Op.add, qOfNat 1, qOfNat 2), (qOfNat 1, Op.mul, qOfNat 2, qOfNat 2), (qOfNat 2, Op.div, qOfNat 1, qOfNat 2), (qOfNat 1, Op.add, qOfNat 2, qOfNat 3), (qOfNat 1, Op.add, qOfNat 3, qOfNat 4)], [(qOfNat 1, Op.add, qOfNat 1, qOfNat 2), (qOfNat 1, Op.mul, qOfNat 2, qOfNat 2), (qOfNat 2, Op.div, qOfNat 1, qOfNat 2), (qOfNat 1, Op.add, qOfNat 2, qOfNat 3), (qOfNat 1, Op.mul, qOfNat 3, qOfNat 3)], [(qOfNat 1, Op.add, qOfNat 1, qOfNat 2), (qOfNat 1, Op.mul, qOfNat 2, qOfNat 2), (qOfNat 2, Op.div, qOfNat 1, qOfNat 2), (qOfNat 1, Op.add, qOfNat 2, qOfNat 3), (qOfNat 3, Op.div, qOfNat 1, qOfNat 3)], [(qOfNat 1, Op.add, qOfNat 1, qOfNat 2), (qOfNat 2, Op.div, qOfNat 1, qOfNat 2), (qOfNat 1, Op.add, qOfNat 2, qOfNat 3), (qOfNat 1, Op.add, qOfNat 3, qOfNat 4), (qOfNat 1, Op.add, qOfNat 4, qOfNat 5)], [(qOfNat 1, Op.add, qOfNat 1, qOfNat 2), (qOfNat 2, Op.div, qOfNat 1, qOfNat 2), (qOfNat 1, Op.add, qOfNat 2, qOfNat 3), (qOfNat 1, Op.add, qOfNat 3, qOfNat 4), (qOfNat 1, Op.mul, qOfNat 4, qOfNat 4)], [(qOfNat 1, Op.add, qOfNat 1, qOfNat 2), (qOfNat 2, Op.div, qOfNat 1, qOfNat 2), (qOfNat 1, Op.add, qOfNat 2, qOfNat 3), (qOfNat 1, Op.add, qOfNat 3, qOfNat 4), (qOfNat 4, Op.sub, qOfNat 1, qOfNat 3)], [(qOfNat 1, Op.add, qOfNat 1, qOfNat 2), (qOfNat 2, Op.div, qOfNat 1, qOfNat 2), (qOfNat 1, Op.add, qOfNat 2, qOfNat 3), (qOfNat 1, Op.add, qOfNat 3, qOfNat 4), (qOfNat 4, Op.div, qOfNat 1, qOfNat 4)], [(qOfNat 1, Op.add, qOfNat 1, qOfNat 2), (qOfNat 2, Op.div, qOfNat 1, qOfNat 2), (qOfNat 1, Op.add, qOfNat 2, qOfNat 3), (qOfNat 1, Op.mul, qOfNat 3, qOfNat 3), (qOfNat 1, Op.add, qOfNat 3, qOfNat 4)], [(qOfNat 1, Op.add, qOfNat 1, qOfNat 2), (qOfNat 2, Op.div, qOfNat 1, qOfNat 2), (qOfNat 1, Op.add, qOfNat 2, qOfNat 3), (qOfNat 1, Op.mul, qOfNat 3, qOfNat 3), (qOfNat 3, Op.div, qOfNat 1, qOfNat 3)], [(qOfNat 1, Op.add, qOfNat 1, qOfNat 2), (qOfNat 2, Op.div, qOfNat 1, qOfNat 2), (qOfNat 1, Op.add, qOfNat 2, qOfNat 3), (qOfNat 3, Op.div, qOfNat 1, qOfNat 3), (qOfNat 1, Op.add, qOfNat 3, qOfNat 4)]]
/-- Queue contents of the breadth-first loop on selection [1, 1, 1, 1, 1, 1], target 6, after 90 iterations. -/
def traceQ9 : List BState :=
  [(qOfNat 4, [qOfNat 4], [(qOfNat 1, Op.add, qOfNat 1, qOfNat 2), (qOfNat 1, Op.mul, qOfNat 1, qOfNat 1), (qOfNat 1, Op.add, qOfNat 2, qOfNat 3), (qOfNat 1, Op.mul, qOfNat 3, qOfNat 3), (qOfNat 1, Op.add, qOfNat 3, qOfNat 4)]), (qOfNat 2, [qOfNat 2], [(qOfNat 1, Op.add, qOfNat 1, qOfNat 2), (qOfNat 1, Op.mul, qOfNat 1, qOfNat 1), (qOfNat 1, Op.add, qOfNat 2, qOfNat 3), (qOfNat 1, Op.mul, qOfNat 3, qOfNat 3), (qOfNat 3, Op.sub, qOfNat 1, qOfNat 2)]), (qOfNat 3, [qOfNat 3], [(qOfNat 1, Op.add, qOfNat 1, qOfNat 2), (qOfNat 1, Op.mul, qOfNat 1, qOfNat 1), (qOfNat 1, Op.add, qOfNat 2, qOfNat 3), (qOfNat 1, Op.mul, qOfNat 3, qOfNat 3), (qOfNat 3, Op.div, qOfNat 1, qOfNat 3)]), (qOfNat 2, [qOfNat 2], [(qOfNat 1, Op.add, qOfNat 1, qOfNat 2), (qOfNat 1, Op.mul, qOfNat 1, qOfNat 1), (qOfNat 1, Op.add, qOfNat 2, qOfNat 3), (qOfNat 3, Op.sub, qOfNat 1, qOfNat 2), (qOfNat 1, Op.mul, qOfNat 2, qOfNat 2)]), (qOfNat 1, [qOfNat 1], [(qOfNat 1, Op.add, qOfNat 1, qOfNat 2), (qOfNat 1, Op.mul, qOfNat 1, qOfNat 1), (qOfNat 1, Op.add, qOfNat 2, qOfNat 3), (qOfNat 3, Op.sub, qOfNat 1, qOfNat 2), (qOfNat 2, Op.sub, qOfNat 1, qOfNat 1)]), (qOfNat 2, [qOfNat 2], [(qOfNat 1, Op.add, qOfNat 1, qOfNat 2), (qOfNat 1, Op.mul, qOfNat 1, qOfNat 1), (qOfNat 1, Op.add, qOfNat 2, qOfNat 3), (qOfNat 3, Op.sub, qOfNat 1, qOfNat 2), (qOfNat 2, Op.div, qOfNat 1, qOfNat 2)]), (qOfNat 4, [qOfNat 4], [(qOfNat 1, Op.add, qOfNat 1, qOfNat 2), (qOfNat 1, Op.mul, qOfNat 1, qOfNat 1), (qOfNat 1, Op.add, qOfNat 2, qOfNat 3), (qOfNat 3, Op.div, qOfNat 1, qOfNat 3), (qOfNat 1, Op.add, qOfNat 3, qOfNat 4)]), (qOfNat 2, [qOfNat 2], [(qOfNat 1, Op.add, qOfNat 1, qOfNat 2), (qOfNat 1, Op.mul, qOfNat 1, qOfNat 1), (qOfNat 1, Op.add, qOfNat 2, qOfNat 3), (qOfNat 3, Op.div, qOfNat 1, qOfNat 3), (qOfNat 3, Op.sub, qOfNat 1, qOfNat 2)]), (qOfNat 3, [qOfNat 3], [(qOfNat 1, Op.add, qOfNat 1, qOfNat 2), (qOfNat 1, Op.mul, qOfNat 1, qOfNat 1), (qOfNat 1, Op.mul, qOfNat 2, qOfNat 2), (qOfNat 1, Op.div, qOfNat 1, qOfNat 1), (qOfNat 2, Op.add, qOfNat 1, qOfNat 3)]), (qOfNat 1, [qOfNat 1], [(qOfNat 1, Op.add, qOfNat 1, qOfNat 2), (qOfNat 1, Op.mul, qOfNat 1, qOfNat 1), (qOfNat 1, Op.mul, qOfNat 2, qOfNat 2), (qOfNat 1, Op.div, qOfNat 1, qOfNat 1), (qOfNat 2, Op.sub, qOfNat 1, qOfNat 1)]), (qOfNat 2, [qOfNat 2], [(qOfNat 1, Op.add, qOfNat 1, qOfNat 2), (qOfNat 1, Op.mul, qOfNat 1, qOfNat 1), (qOfNat 1, Op.mul, qOfNat 2, qOfNat 2), (qOfNat 1, Op.div, qOfNat 1, qOfNat 1), (qOfNat 2, Op.div, qOfNat 1, qOfNat 2)]), (qOfNat 4, [qOfNat 4], [(qOfNat 1, Op.add, qOfNat 1, qOfNat 2), (qOfNat 1, Op.mul, qOfNat 1, qOfNat 1), (qOfNat 1, Op.mul, qOfNat 2, qOfNat 2), (qOfNat 1, Op.add, qOfNat 2, qOfNat 3), (qOfNat 1, Op.add, qOfNat 3, qOfNat 4)]), (qOfNat 3, [qOfNat 3], [(qOfNat 1, Op.add, qOfNat 1, qOfNat 2), (qOfNat 1, Op.mul, qOfNat 1, qOfNat 1), (qOfNat 1, Op.mul, qOfNat 2, qOfNat 2), (qOfNat 1, Op.add, qOfNat 2, qOfNat 3), (qOfNat 1, Op.mul, qOfNat 3, qOfNat 3)]), (qOfNat 3, [qOfNat 3], [(qOfNat 1, Op.add, qOfNat 1, qOfNat 2), (qOfNat 1, Op.mul, qOfNat 1, qOfNat 1), (qOfNat 1, Op.mul, qOfNat 2, qOfNat 2), (qOfNat 1, Op.add, qOfNat 2, qOfNat 3), (qOfNat 3, Op.div, qOfNat 1, qOfNat 3)]), (qOfNat 3, [qOfNat 3], [(qOfNat 1, Op.add, qOfNat 1, qOfNat 2), (qOfNat 1, Op.mul, qOfNat 1, qOfNat 1), (qOfNat 1, Op.mul, qOfNat 2, qOfNat 2), (qOfNat 2, Op.div, qOfNat 1, qOfNat 2), (qOfNat 1, Op.add, qOfNat 2, qOfNat 3)]), (qOfNat 1, [qOfNat 1], [(qOfNat 1, Op.add, qOfNat 1, qOfNat 2), (qOfNat 1, Op.mul, qOfNat 1, qOfNat 1), (qOfNat 1, Op.mul, qOfNat 2, qOfNat 2), (qOfNat 2, Op.div, qOfNat 1, qOfNat 2), (qOfNat 2, Op.sub, qOfNat 1, qOfNat 1)]), (qOfNat 4, [qOfNat 4], [(qOfNat 1, Op.add, qOfNat 1, qOfNat 2), (qOfNat 1, Op.mul, qOfNat 1, qOfNat 1), (qOfNat 2, Op.div, qOfNat 1, qOfNat 2), (qOfNat 1, Op.add, qOfNat 2, qOfNat 3), (qOfNat 1, Op.add, qOfNat 3, qOfNat 4)]), (qOfNat 3, [qOfNat 3], [(qOfNat 1, Op.add, qOfNat 1, qOfNat 2), (qOfNat 1, Op.mul, qOfNat 1, qOfNat 1), (qOfNat 2, Op.div, qOfNat 1, qOfNat 2), (qOfNat 1, Op.add, qOfNat 2, qOfNat 3), (qOfNat 1, Op.mul, qOfNat 3, qOfNat 3)]), (qOfNat 3, [qOfNat 3], [(qOfNat 1, Op.add, qOfNat 1, qOfNat 2), (qOfNat 1, Op.mul, qOfNat 1, qOfNat 1), (qOfNat 2, Op.div, qOfNat 1, qOfNat 2), (qOfNat 1, Op.add, qOfNat 2, qOfNat 3), (qOfNat 3, Op.div, qOfNat 1, qOfNat 3)]), (qOfNat 5, [qOfNat 5], [(qOfNat 1, Op.add, qOfNat 1, qOfNat 2), (qOfNat 1, Op.div, qOfNat 1, qOfNat 1), (qOfNat 1, Op.add, qOfNat 2, qOfNat 3), (qOfNat 1, Op.add, qOfNat 3, qOfNat 4), (qOfNat 1, Op.add, qOfNat 4, qOfNat 5)]), (qOfNat 4, [qOfNat 4], [(qOfNat 1, Op.add, qOfNat 1, qOfNat 2), (qOfNat 1, Op.div, qOfNat 1, qOfNat 1), (qOfNat 1, Op.add, qOfNat 2, qOfNat 3), (qOfNat 1, Op.add, qOfNat 3, qOfNat 4), (qOfNat 1, Op.mul, qOfNat 4, qOfNat 4)]), (qOfNat 3, [qOfNat 3], [(qOfNat 1, Op.add, qOfNat 1, qOfNat 2), (qOfNat 1, Op.div, qOfNat 1, qOfNat 1), (qOfNat 1, Op.add, qOfNat 2, qOfNat 3), (qOfNat 1, Op.add, qOfNat 3, qOfNat 4), (qOfNat 4, Op.sub, qOfNat 1, qOfNat 3)]), (qOfNat 4, [qOfNat 4], [(qOfNat 1, Op.add, qOfNat 1, qOfNat 2), (qOfNat 1, Op.div, qOfNat 1, qOfNat 1), (qOfNat 1, Op.add, qOfNat 2, qOfNat 3), (qOfNat 1, Op.add, qOfNat 3, qOfNat 4), (qOfNat 4, Op.div, qOfNat 1, qOfNat 4)]), (qOfNat 4, [qOfNat 4], [(qOfNat 1, Op.add, qOfNat 1, qOfNat 2), (qOfNat 1, Op.div, qOfNat 1, qOfNat 1), (qOfNat 1, Op.add, qOfNat 2, qOfNat 3), (qOfNat 1, Op.mul, qOfNat 3, qOfNat 3), (qOfNat 1, Op.add, qOfNat 3, qOfNat 4)]), (qOfNat 2, [qOfNat 2], [(qOfNat 1, Op.add, qOfNat 1, qOfNat 2), (qOfNat 1, Op.div, qOfNat 1, qOfNat 1), (qOfNat 1, Op.add, qOfNat 2, qOfNat 3), (qOfNat 1, Op.mul, qOfNat 3, qOfNat 3), (qOfNat 3, Op.sub, qOfNat 1, qOfNat 2)]), (qOfNat 3, [qOfNat 3], [(qOfNat 1, Op.add, qOfNat 1, qOfNat 2), (qOfNat 1, Op.div, qOfNat 1, qOfNat 1), (qOfNat 1, Op.add, qOfNat 2, qOfNat 3), (qOfNat 1, Op.mul, qOfNat 3, qOfNat 3), (qOfNat 3, Op.div, qOfNat 1, qOfNat 3)]), (qOfNat 2, [qOfNat 2], [(qOfNat 1, Op.add, qOfNat 1, qOfNat 2), (qOfNat 1, Op.div, qOfNat 1, qOfNat 1), (qOfNat 1, Op.add, qOfNat 2, qOfNat 3), (qOfNat 3, Op.sub, qOfNat 1, qOfNat 2), (qOfNat 1, Op.mul, qOfNat 2, qOfNat 2)]), (qOfNat 1, [qOfNat 1], [(qOfNat 1, Op.add, qOfNat 1, qOfNat 2), (qOfNat 1, Op.div, qOfNat 1, qOfNat 1), (qOfNat 1, Op.add, qOfNat 2, qOfNat 3), (qOfNat 3, Op.sub, qOfNat 1, qOfNat 2), (qOfNat 2, Op.sub, qOfNat 1, qOfNat 1)]), (qOfNat 2, [qOfNat 2], [(qOfNat 1, Op.add, qOfNat 1, qOfNat 2), (qOfNat 1, Op.div, qOfNat 1, qOfNat 1), (qOfNat 1, Op.add, qOfNat 2, qOfNat 3), (qOfNat 3, Op.sub, qOfNat 1, qOfNat 2), (qOfNat 2, Op.div, qOfNat 1, qOfNat 2)]), (qOfNat 4, [qOfNat 4], [(qOfNat 1, Op.add, qOfNat 1, qOfNat 2), (qOfNat 1, Op.div, qOfNat 1, qOfNat 1), (qOfNat 1, Op.add, qOfNat 2, qOfNat 3), (qOfNat 3, Op.div, qOfNat 1, qOfNat 3), (qOfNat 1, Op.add, qOfNat 3, qOfNat 4)]), (qOfNat 2, [qOfNat 2], [(qOfNat 1, Op.add, qOfNat 1, qOfNat 2), (qOfNat 1, Op.div, qOfNat 1, qOfNat 1), (qOfNat 1, Op.add, qOfNat 2, qOfNat 3), (qOfNat 3, Op.div, qOfNat 1, qOfNat 3), (qOfNat 3, Op.sub, qOfNat 1, qOfNat 2)]), (qOfNat 4, [qOfNat 4], [(qOfNat 1, Op.add, qOfNat 1, qOfNat 2), (qOfNat 1, Op.div, qOfNat 1, qOfNat 1), (qOfNat 1, Op.mul, qOfNat 2, qOfNat 2), (qOfNat 1, Op.add, qOfNat 2, qOfNat 3), (qOfNat 1, Op.add, qOfNat 3, qOfNat 4)]), (qOfNat 3, [qOfNat 3], [(qOfNat 1, Op.add, qOfNat 1, qOfNat 2), (qOfNat 1, Op.div, qOfNat 1, qOfNat 1), (qOfNat 1, Op.mul, qOfNat 2, qOfNat 2), (qOfNat 1, Op.add, qOfNat 2, qOfNat 3), (qOfNat 1, Op.mul, qOfNat 3, qOfNat 3)]), (qOfNat 3, [qOfNat 3], [(qOfNat 1, Op.add, qOfNat 1, qOfNat 2), (qOfNat 1, Op.div, qOfNat 1, qOfNat 1), (qOfNat 1, Op.mul, qOfNat 2, qOfNat 2), (qOfNat 1, Op.add, qOfNat 2, qOfNat 3), (qOfNat 3, Op.div, qOfNat 1, qOfNat 3)]), (qOfNat 3, [qOfNat 3], [(qOfNat 1, Op.add, qOfNat 1, qOfNat 2), (qOfNat 1, Op.div, qOfNat 1, qOfNat 1), (qOfNat 1, Op.mul, qOfNat 2, qOfNat 2), (qOfNat 2, Op.div, qOfNat 1, qOfNat 2), (qOfNat 1, Op.add, qOfNat 2, qOfNat 3)]), (qOfNat 1, [qOfNat 1], [(qOfNat 1, Op.add, qOfNat 1, qOfNat 2), (qOfNat 1, Op.div, qOfNat 1, qOfNat 1), (qOfNat 1, Op.mul, qOfNat 2, qOfNat 2), (qOfNat 2, Op.div, qOfNat 1, qOfNat 2), (qOfNat 2, Op.sub, qOfNat 1, qOfNat 1)]), (qOfNat 4, [qOfNat 4], [(qOfNat 1, Op.add, qOfNat 1, qOfNat 2), (qOfNat 1, Op.div, qOfNat 1, qOfNat 1), (qOfNat 2, Op.div, qOfNat 1, qOfNat 2), (qOfNat 1, Op.add, qOfNat 2, qOfNat 3), (qOfNat 1, Op.add, qOfNat 3, qOfNat 4)]), (qOfNat 3, [qOfNat 3], [(qOfNat 1, Op.add, qOfNat 1, qOfNat 2), (qOfNat 1, Op.div, qOfNat 1, qOfNat 1), (qOfNat 2, Op.div, qOfNat 1, qOfNat 2), (qOfNat 1, Op.add, qOfNat 2, qOfNat 3), (qOfNat 1, Op.mul, qOfNat 3, qOfNat 3)]), (qOfNat 3, [qOfNat 3], [(qOfNat 1, Op.add, qOfNat 1, qOfNat 2), (qOfNat 1, Op.div, qOfNat 1, qOfNat 1), (qOfNat 2, Op.div, qOfNat 1, qOfNat 2), (qOfNat 1, Op.add, qOfNat 2, qOfNat 3), (qOfNat 3, Op.div, qOfNat 1, qOfNat 3)]), (qOfNat 6, [qOfNat 6], [(qOfNat 1, Op.add, qOfNat 1, qOfNat 2), (qOfNat 1, Op.add, qOfNat 2, qOfNat 3), (qOfNat 1, Op.add, qOfNat 3, qOfNat 4), (qOfNat 1, Op.add, qOfNat 4, qOfNat 5), (qOfNat 1, Op.add, qOfNat 5, qOfNat 6)]), (qOfNat 5, [qOfNat 5], [(qOfNat 1, Op.add, qOfNat 1, qOfNat 2), (qOfNat 1, Op.add, qOfNat 2, qOfNat 3), (qOfNat 1, Op.add, qOfNat 3, qOfNat 4), (qOfNat 1, Op.add, qOfNat 4, qOfNat 5), (qOfNat 1, Op.mul, qOfNat 5, qOfNat 5)]), (qOfNat 4, [qOfNat 4], [(qOfNat 1, Op.add, qOfNat 1, qOfNat 2), (qOfNat 1, Op.add, qOfNat 2, qOfNat 3), (qOfNat 1, Op.add, qOfNat 3, qOfNat 4), (qOfNat 1, Op.add, qOfNat 4, qOfNat 5), (qOfNat 5, Op.sub, qOfNat 1, qOfNat 4)]), (qOfNat 5, [qOfNat 5], [(qOfNat 1, Op.add, qOfNat 1, qOfNat 2), (qOfNat 1, Op.add, qOfNat 2, qOfNat 3), (qOfNat 1, Op.add, qOfNat 3, qOfNat 4), (qOfNat 1, Op.add, qOfNat 4, qOfNat 5), (qOfNat 5, Op.div, qOfNat 1, qOfNat 5)]), (qOfNat 5, [qOfNat 5], [(qOfNat 1, Op.add, qOfNat 1, qOfNat 2), (qOfNat 1, Op.add, qOfNat 2, qOfNat 3), (qOfNat 1, Op.add, qOfNat 3, qOfNat 4), (qOfNat 1, Op.mul, qOfNat 4, qOfNat 4), (qOfNat 1, Op.add, qOfNat 4, qOfNat 5)]), (qOfNat 3, [qOfNat 3], [(qOfNat 1, Op.add, qOfNat 1, qOfNat 2), (qOfNat 1, Op.add, qOfNat 2, qOfNat 3), (qOfNat 1, Op.add, qOfNat 3, qOfNat 4), (qOfNat 1, Op.mul, qOfNat 4, qOfNat 4), (qOfNat 4, Op.sub, qOfNat 1, qOfNat 3)]), (qOfNat 4, [qOfNat 4], [(qOfNat 1, Op.add, qOfNat 1, qOfNat 2), (qOfNat 1, Op.add, qOfNat 2, qOfNat 3), (qOfNat 1, Op.add, qOfNat 3, qOfNat 4), (qOfNat 1, Op.mul, qOfNat 4, qOfNat 4), (qOfNat 4, Op.div, qOfNat 1, qOfNat 4)]), (qOfNat 3, [qOfNat 3], [(qOfNat 1, Op.add, qOfNat 1, qOfNat 2), (qOfNat 1, Op.add, qOfNat 2, qOfNat 3), (qOfNat 1, Op.add, qOfNat 3, qOfNat 4), (qOfNat 4, Op.sub, qOfNat 1, qOfNat 3), (qOfNat 1, Op.mul, qOfNat 3, qOfNat 3)]), (qOfNat 2, [qOfNat 2], [(qOfNat 1, Op.add, qOfNat 1, qOfNat 2), (qOfNat 1, Op.add, qOfNat 2, qOfNat 3), (qOfNat 1, Op.add, qOfNat 3, qOfNat 4), (qOfNat 4, Op.sub, qOfNat 1, qOfNat 3), (qOfNat 3, Op.sub, qOfNat 1, qOfNat 2)]), (qOfNat 3, [qOfNat 3], [(qOfNat 1, Op.add, qOfNat 1, qOfNat 2), (qOfNat 1, Op.add, qOfNat 2, qOfNat 3), (qOfNat 1, Op.add, qOfNat 3, qOfNat 4), (qOfNat 4, Op.sub, qOfNat 1, qOfNat 3), (qOfNat 3, Op.div, qOfNat 1, qOfNat 3)]), (qOfNat 5, [qOfNat 5], [(qOfNat 1, Op.add, qOfNat 1, qOfNat 2), (qOfNat 1, Op.add, qOfNat 2, qOfNat 3), (qOfNat 1, Op.add, qOfNat 3, qOfNat 4), (qOfNat 4, Op.div, qOfNat 1, qOfNat 4), (qOfNat 1, Op.add, qOfNat 4, qOfNat 5)]), (qOfNat 3, [qOfNat 3], [(qOfNat 1, Op.add, qOfNat 1, qOfNat 2), (qOfNat 1, Op.add, qOfNat 2, qOfNat 3), (qOfNat 1, Op.add, qOfNat 3, qOfNat 4), (qOfNat 4, Op.div, qOfNat 1, qOfNat 4), (qOfNat 4, Op.sub, qOfNat 1, qOfNat 3)]), (qOfNat 5, [qOfNat 5], [(qOfNat 1, Op.add, qOfNat 1, qOfNat 2), (qOfNat 1, Op.add, qOfNat 2, qOfNat 3), (qOfNat 1, Op.mul, qOfNat 3, qOfNat 3), (qOfNat 1, Op.add, qOfNat 3, qOfNat 4), (qOfNat 1, Op.add, qOfNat 4, qOfNat 5)]), (qOfNat 4, [qOfNat 4], [(qOfNat 1, Op.add, qOfNat 1, qOfNat 2), (qOfNat 1, Op.add, qOfNat 2, qOfNat 3), (qOfNat 1, Op.mul, qOfNat 3, qOfNat 3), (qOfNat 1, Op.add, qOfNat 3, qOfNat 4), (qOfNat 1, Op.mul, qOfNat 4, qOfNat 4)]), (qOfNat 4, [qOfNat 4], [(qOfNat 1, Op.add, qOfNat 1, qOfNat 2), (qOfNat 1, Op.add, qOfNat 2, qOfNat 3), (qOfNat 1, Op.mul, qOfNat 3, qOfNat 3), (qOfNat 1, Op.add, qOfNat 3, qOfNat 4), (qOfNat 4, Op.div, qOfNat 1, qOfNat 4)]), (qOfNat 2, [qOfNat 2], [(qOfNat 1, Op.add, qOfNat 1, qOfNat 2), (qOfNat 1, Op.add, qOfNat 2, qOfNat 3), (qOfNat 1, Op.mul, qOfNat 3, qOfNat 3), (qOfNat 3, Op.sub, qOfNat 1, qOfNat 2), (qOfNat 1, Op.mul, qOfNat 2, qOfNat 2)]), (qOfNat 1, [qOfNat 1], [(qOfNat 1, Op.add, qOfNat 1, qOfNat 2), (qOfNat 1, Op.add, qOfNat 2, qOfNat 3), (qOfNat 1, Op.mul, qOfNat 3, qOfNat 3), (qOfNat 3, Op.sub, qOfNat 1, qOfNat 2), (qOfNat 2, Op.sub, qOfNat 1, qOfNat 1)]), (qOfNat 2, [qOfNat 2], [(qOfNat 1, Op.add, qOfNat 1, qOfNat 2), (qOfNat 1, Op.add, qOfNat 2, qOfNat 3), (qOfNat 1, Op.mul, qOfNat 3, qOfNat 3), (qOfNat 3, Op.sub, qOfNat 1, qOfNat 2), (qOfNat 2, Op.div, qOfNat 1, qOfNat 2)]), (qOfNat 4, [qOfNat 4], [(qOfNat 1, Op.add, qOfNat 1, qOfNat 2), (qOfNat 1, Op.add, qOfNat 2, qOfNat 3), (qOfNat 1, Op.mul, qOfNat 3, qOfNat 3), (qOfNat 3, Op.div, qOfNat 1, qOfNat 3), (qOfNat 1, Op.add, qOfNat 3, qOfNat 4)]), (qOfNat 2, [qOfNat 2], [(qOfNat 1, Op.add, qOfNat 1, qOfNat 2), (qOfNat 1, Op.add, qOfNat 2, qOfNat 3), (qOfNat 1, Op.mul, qOfNat 3, qOfNat 3), (qOfNat 3, Op.div, qOfNat 1, qOfNat 3), (qOfNat 3, Op.sub, qOfNat 1, qOfNat 2)]), (qOfNat 1, [qOfNat 1], [(qOfNat 1, Op.add, qOfNat 1, qOfNat 2), (qOfNat 1, Op.add, qOfNat 2, qOfNat 3), (qOfNat 3, Op.sub, qOfNat 1, qOfNat 2), (qOfNat 1, Op.mul, qOfNat 2, qOfNat 2), (qOfNat 2, Op.sub, qOfNat 1, qOfNat 1)]), (qOfNat 2, [qOfNat 2], [(qOfNat 1, Op.add, qOfNat 1, qOfNat 2), (qOfNat 1, Op.add, qOfNat 2, qOfNat 3), (qOfNat 3, Op.sub, qOfNat 1, qOfNat 2), (qOfNat 1, Op.mul, qOfNat 2, qOfNat 2), (qOfNat 2, Op.div, qOfNat 1, qOfNat 2)]), (qOfNat 1, [qOfNat 1], [(qOfNat 1, Op.add, qOfNat 1, qOfNat 2), (qOfNat 1, Op.add, qOfNat 2, qOfNat 3), (qOfNat 3, Op.sub, qOfNat 1, qOfNat 2), (qOfNat 2, Op.div, qOfNat 1, qOfNat 2), (qOfNat 2, Op.sub, qOfNat 1, qOfNat 1)]), (qOfNat 5, [qOfNat 5], [(qOfNat 1, Op.add, qOfNat 1, qOfNat 2), (qOfNat 1, Op.add, qOfNat 2, qOfNat 3), (qOfNat 3, Op.div, qOfNat 1, qOfNat 3), (qOfNat 1, Op.add, qOfNat 3, qOfNat 4), (qOfNat 1, Op.add, qOfNat 4, qOfNat 5)]), (qOfNat 4, [qOfNat 4], [(qOfNat 1, Op.add, qOfNat 1, qOfNat 2), (qOfNat 1, Op.add, qOfNat 2, qOfNat 3), (qOfNat 3, Op.div, qOfNat 1, qOfNat 3), (qOfNat 1, Op.add, qOfNat 3, qOfNat 4), (qOfNat 1, Op.mul, qOfNat 4, qOfNat 4)]), (qOfNat 4, [qOfNat 4], [(qOfNat 1, Op.add, qOfNat 1, qOfNat 2), (qOfNat 1, Op.add, qOfNat 2, qOfNat 3), (qOfNat 3, Op.div, qOfNat 1, qOfNat 3), (qOfNat 1, Op.add, qOfNat 3, qOfNat 4), (qOfNat 4, Op.div, qOfNat 1, qOfNat 4)]), (qOfNat 2, [qOfNat 2], [(qOfNat 1, Op.add, qOfNat 1, qOfNat 2), (qOfNat 1, Op.add, qOfNat 2, qOfNat 3), (qOfNat 3, Op.div, qOfNat 1, qOfNat 3), (qOfNat 3, Op.sub, qOfNat 1, qOfNat 2), (qOfNat 1, Op.mul, qOfNat 2, qOfNat 2)]), (qOfNat 1, [qOfNat 1], [(qOfNat 1, Op.add, qOfNat 1, qOfNat 2), (qOfNat 1, Op.add, qOfNat 2, qOfNat 3), (qOfNat 3, Op.div, qOfNat 1, qOfNat 3), (qOfNat 3, Op.sub, qOfNat 1, qOfNat 2), (qOfNat 2, Op.sub, qOfNat 1, qOfNat 1)]), (qOfNat 2, [qOfNat 2], [(qOfNat 1, Op.add, qOfNat 1, qOfNat 2), (qOfNat 1, Op.add, qOfNat 2, qOfNat 3), (qOfNat 3, Op.div, qOfNat 1, qOfNat 3), (qOfNat 3, Op.sub, qOfNat 1, qOfNat 2), (qOfNat 2, Op.div, qOfNat 1, qOfNat 2)]), (qOfNat 5, [qOfNat 5], [(qOfNat 1, Op.add, qOfNat 1, qOfNat 2), (qOfNat 1, Op.mul, qOfNat 2, qOfNat 2), (qOfNat 1, Op.add, qOfNat 2, qOfNat 3), (qOfNat 1, Op.add, qOfNat 3, qOfNat 4), (qOfNat 1, Op.add, qOfNat 4, qOfNat 5)]), (qOfNat 4, [qOfNat 4], [(qOfNat 1, Op.add, qOfNat 1, qOfNat 2), (qOfNat 1, Op.mul, qOfNat 2, qOfNat 2), (qOfNat 1, Op.add, qOfNat 2, qOfNat 3), (qOfNat 1, Op.add, qOfNat 3, qOfNat 4), (qOfNat 1, Op.mul, qOfNat 4, qOfNat 4)]), (qOfNat 3, [qOfNat 3], [(qOfNat 1, Op.add, qOfNat 1, qOfNat 2), (qOfNat 1, Op.mul, qOfNat 2, qOfNat 2), (qOfNat 1, Op.add, qOfNat 2, qOfNat 3), (qOfNat 1, Op.add, qOfNat 3, qOfNat 4), (qOfNat 4, Op.sub, qOfNat 1, qOfNat 3)]), (qOfNat 4, [qOfNat 4], [(qOfNat 1, Op.add, qOfNat 1, qOfNat 2), (qOfNat 1, Op.mul, qOfNat 2, qOfNat 2), (qOfNat 1, Op.add, qOfNat 2, qOfNat 3), (qOfNat 1, Op.add, qOfNat 3, qOfNat 4), (qOfNat 4, Op.div, qOfNat 1, qOfNat 4)]), (qOfNat 4, [qOfNat 4], [(qOfNat 1, Op.add, qOfNat 1, qOfNat 2), (qOfNat 1, Op.mul, qOfNat 2, qOfNat 2), (qOfNat 1, Op.add, qOfNat 2, qOfNat 3), (qOfNat 1, Op.mul, qOfNat 3, qOfNat 3), (qOfNat 1, Op.add, qOfNat 3, qOfNat 4)]), (qOfNat 3, [qOfNat 3], [(qOfNat 1, Op.add, qOfNat 1, qOfNat 2), (qOfNat 1, Op.mul, qOfNat 2, qOfNat 2), (qOfNat 1, Op.add, qOfNat 2, qOfNat 3), (qOfNat 1, Op.mul, qOfNat 3, qOfNat 3), (qOfNat 3, Op.div, qOfNat 1, qOfNat 3)]), (qOfNat 4, [qOfNat 4], [(qOfNat 1, Op.add, qOfNat 1, qOfNat 2), (qOfNat 1, Op.mul, qOfNat 2, qOfNat 2), (qOfNat 1, Op.add, qOfNat 2, qOfNat 3), (qOfNat 3, Op.div, qOfNat 1, qOfNat 3), (qOfNat 1, Op.add, qOfNat 3, qOfNat 4)]), (qOfNat 4, [qOfNat 4], [(qOfNat 1, Op.add, qOfNat 1, qOfNat 2), (qOfNat 1, Op.mul, qOfNat 2, qOfNat 2), (qOfNat 2, Op.div, qOfNat 1, qOfNat 2), (qOfNat 1, Op.add, qOfNat 2, qOfNat 3), (qOfNat 1, Op.add, qOfNat 3, qOfNat 4)]), (qOfNat 3, [qOfNat 3], [(qOfNat 1, Op.add, qOfNat 1, qOfNat 2), (qOfNat 1, Op.mul, qOfNat 2, qOfNat 2), (qOfNat 2, Op.div, qOfNat 1, qOfNat 2), (qOfNat 1, Op.add, qOfNat 2, qOfNat 3), (qOfNat 1, Op.mul, qOfNat 3, qOfNat 3)]), (qOfNat 3, [qOfNat 3], [(qOfNat 1, Op.add, qOfNat 1, qOfNat 2), (qOfNat 1, Op.mul, qOfNat 2, qOfNat 2), (qOfNat 2, Op.div, qOfNat 1, qOfNat 2), (qOfNat 1, Op.add, qOfNat 2, qOfNat 3), (qOfNat 3, Op.div, qOfNat 1, qOfNat 3)]), (qOfNat 5, [qOfNat 5], [(qOfNat 1, Op.add, qOfNat 1, qOfNat 2), (qOfNat 2, Op.div, qOfNat 1, qOfNat 2), (qOfNat 1, Op.add, qOfNat 2, qOfNat 3), (qOfNat 1, Op.add, qOfNat 3, qOfNat 4), (qOfNat 1, Op.add, qOfNat 4, qOfNat 5)]), (qOfNat 4, [qOfNat 4], [(qOfNat 1, Op.add, qOfNat 1, qOfNat 2), (qOfNat 2, Op.div, qOfNat 1, qOfNat 2), (qOfNat 1, Op.add, qOfNat 2, qOfNat 3), (qOfNat 1, Op.add, qOfNat 3, qOfNat 4), (qOfNat 1, Op.mul, qOfNat 4, qOfNat 4)]), (qOfNat 3, [qOfNat 3], [(qOfNat 1, Op.add, qOfNat 1, qOfNat 2), (qOfNat 2, Op.div, qOfNat 1, qOfNat 2), (qOfNat 1, Op.add, qOfNat 2, qOfNat 3), (qOfNat 1, Op.add, qOfNat 3, qOfNat 4), (qOfNat 4, Op.sub, qOfNat 1, qOfNat 3)]), (qOfNat 4, [qOfNat 4], [(qOfNat 1, Op.add, qOfNat 1, qOfNat 2), (qOfNat 2, Op.div, qOfNat 1, qOfNat 2), (qOfNat 1, Op.add, qOfNat 2, qOfNat 3), (qOfNat 1, Op.add, qOfNat 3, qOfNat 4), (qOfNat 4, Op.div, qOfNat 1, qOfNat 4)]), (qOfNat 4, [qOfNat 4], [(qOfNat 1, Op.add, qOfNat 1, qOfNat 2), (qOfNat 2, Op.div, qOfNat 1, qOfNat 2), (qOfNat 1, Op.add, qOfNat 2, qOfNat 3), (qOfNat 1, Op.mul, qOfNat 3, qOfNat 3), (qOfNat 1, Op.add, qOfNat 3, qOfNat 4)]), (qOfNat 3, [qOfNat 3], [(qOfNat 1, Op.add, qOfNat 1, qOfNat 2), (qOfNat 2, Op.div, qOfNat 1, qOfNat 2), (qOfNat 1, Op.add, qOfNat 2, qOfNat 3), (qOfNat 1, Op.mul, qOfNat 3, qOfNat 3), (qOfNat 3, Op.div, qOfNat 1, qOfNat 3)]), (qOfNat 4, [qOfNat 4], [(qOfNat 1, Op.add, qOfNat 1, qOfNat 2), (qOfNat 2, Op.div, qOfNat 1, qOfNat 2), (qOfNat 1, Op.add, qOfNat 2, qOfNat 3), (qOfNat 3, Op.div, qOfNat 1, qOfNat 3), (qOfNat 1, Op.add, qOfNat 3, qOfNat 4)])]

/-- Seen path fingerprints of the same run after 90 iterations. -/
def traceU9 : List (List Oper) :=
  [[(qOfNat 1, Op.add, qOfNat 1, qOfNat 2)], [(qOfNat 1, Op.mul, qOfNat 1, qOfNat 1)], [(qOfNat 1, Op.div, qOfNat 1, qOfNat 1)], [(qOfNat 1, Op.add, qOfNat 1, qOfNat 2), (qOfNat 1, Op.mul, qOfNat 1, qOfNat 1)], [(qOfNat 1, Op.add, qOfNat 1, qOfNat 2), (qOfNat 1, Op.div, qOfNat 1, qOfNat 1)], [(qOfNat 1, Op.add, qOfNat 1, qOfNat 2), (qOfNat 1, Op.add, qOfNat 2, qOfNat 3)], [(qOfNat 1, Op.add, qOfNat 1, qOfNat 2), (qOfNat 1, Op.mul, qOfNat 2, qOfNat 2)], [(qOfNat 1, Op.add, qOfNat 1, qOfNat 2), (qOfNat 2, Op.sub, qOfNat 1, qOfNat 1)], [(qOfNat 1, Op.add, qOfNat 1, qOfNat 2), (qOfNat 2, Op.div, qOfNat 1, qOfNat 2)], [(qOfNat 1, Op.mul, qOfNat 1, qOfNat 1), (qOfNat 1, Op.div, qOfNat 1, qOfNat 1)], [(qOfNat 1, Op.add, qOfNat 1, qOfNat 2), (qOfNat 1, Op.mul, qOfNat 1, qOfNat 1), (qOfNat 1, Op.div, qOfNat 1, qOfNat 1)], [(qOfNat 1, Op.add, qOfNat 1, qOfNat 2), (qOfNat 1, Op.mul, qOfNat 1, qOfNat 1), (qOfNat 1, Op.add, qOfNat 2, qOfNat 3)], [(qOfNat 1, Op.add, qOfNat 1, qOfNat 2), (qOfNat 1, Op.mul, qOfNat 1, qOfNat 1), (qOfNat 1, Op.mul, qOfNat 2, qOfNat 2)], [(qOfNat 1, Op.add, qOfNat 1, qOfNat 2), (qOfNat 1, Op.mul, qOfNat 1, qOfNat 1), (qOfNat 2, Op.sub, qOfNat 1, qOfNat 1)], [(qOfNat 1, Op.add, qOfNat 1, qOfNat 2), (qOfNat 1, Op.mul, qOfNat 1, qOfNat 1), (qOfNat 2, Op.div, qOfNat 1, qOfNat 2)], [(qOfNat 1, Op.add, qOfNat 1, qOfNat 2), (qOfNat 1, Op.div, qOfNat 1, qOfNat 1), (qOfNat 1, Op.add, qOfNat 2, qOfNat 3)], [(qOfNat 1, Op.add, qOfNat 1, qOfNat 2), (qOfNat 1, Op.div, qOfNat 1, qOfNat 1), (qOfNat 1, Op.mul, qOfNat 2, qOfNat 2)], [(qOfNat 1, Op.add, qOfNat 1, qOfNat 2), (qOfNat 1, Op.div, qOfNat 1, qOfNat 1), (qOfNat 2, Op.sub, qOfNat 1, qOfNat 1)], [(qOfNat 1, Op.add, qOfNat 1, qOfNat 2), (qOfNat 1, Op.div, qOfNat 1, qOfNat 1), (qOfNat 2, Op.div, qOfNat 1, qOfNat 2)], [(qOfNat 1, Op.add, qOfNat 1, qOfNat 2), (qOfNat 1, Op.add, qOfNat 2, qOfNat 3), (qOfNat 1, Op.add, qOfNat 3, qOfNat 4)], [(qOfNat 1, Op.add, qOfNat 1, qOfNat 2), (qOfNat 1, Op.add, qOfNat 2, qOfNat 3), (qOfNat 1, Op.mul, qOfNat 3, qOfNat 3)], [(qOfNat 1, Op.add, qOfNat 1, qOfNat 2), (qOfNat 1, Op.add, qOfNat 2, qOfNat 3), (qOfNat 3, Op.sub, qOfNat 1, qOfNat 2)], [(qOfNat 1, Op.add, qOfNat 1, qOfNat 2), (qOfNat 1, Op.add, qOfNat 2, qOfNat 3), (qOfNat 3, Op.div, qOfNat 1, qOfNat 3)], [(qOfNat 1, Op.add, qOfNat 1, qOfNat 2), (qOfNat 1, Op.mul, qOfNat 2, qOfNat 2), (qOfNat 1, Op.add, qOfNat 2, qOfNat 3)], [(qOfNat 1, Op.add, qOfNat 1, qOfNat 2), (qOfNat 1, Op.mul, qOfNat 2, qOfNat 2), (qOfNat 2, Op.sub, qOfNat 1, qOfNat 1)], [(qOfNat 1, Op.add, qOfNat 1, qOfNat 2), (qOfNat 1, Op.mul, qOfNat 2, qOfNat 2), (qOfNat 2, Op.div, qOfNat 1, qOfNat 2)], [(qOfNat 1, Op.add, qOfNat 1, qOfNat 2), (qOfNat 2, Op.div, qOfNat 1, qOfNat 2), (qOfNat 1, Op.add, qOfNat 2, qOfNat 3)], [(qOfNat 1, Op.add, qOfNat 1, qOfNat 2), (qOfNat 2, Op.div, qOfNat 1, qOfNat 2), (qOfNat 2, Op.sub, qOfNat 1, qOfNat 1)], [(qOfNat 1, Op.add, qOfNat 1, qOfNat 2), (qOfNat 1, Op.mul, qOfNat 1, qOfNat 1), (qOfNat 1, Op.div, qOfNat 1, qOfNat 1), (qOfNat 2, Op.add, qOfNat 1, qOfNat 3)], [(qOfNat 1, Op.add, qOfNat 1, qOfNat 2), (qOfNat 1, Op.mul, qOfNat 1, qOfNat 1), (qOfNat 1, Op.div, qOfNat 1, qOfNat 1), (qOfNat 2, Op.sub, qOfNat 1, qOfNat 1)], [(qOfNat 1, Op.add, qOfNat 1, qOfNat 2), (qOfNat 1, Op.mul, qOfNat 1, qOfNat 1), (qOfNat 1, Op.div, qOfNat 1, qOfNat 1), (qOfNat 2, Op.mul, qOfNat 1, qOfNat 2)], [(qOfNat 1, Op.add, qOfNat 1, qOfNat 2), (qOfNat 1, Op.mul, qOfNat 1, qOfNat 1), (qOfNat 1, Op.div, qOfNat 1, qOfNat 1), (qOfNat 2, Op.div, qOfNat 1, qOfNat 2)], [(qOfNat 1, Op.add, qOfNat 1, qOfNat 2), (qOfNat 1, Op.mul, qOfNat 1, qOfNat 1), (qOfNat 1, Op.add, qOfNat 2, qOfNat 3), (qOfNat 1, Op.div, qOfNat 1, qOfNat 1)], [(qOfNat 1, Op.add, qOfNat 1, qOfNat 2), (qOfNat 1, Op.mul, qOfNat 1, qOfNat 1), (qOfNat 1, Op.add, qOfNat 2, qOfNat 3), (qOfNat 1, Op.add, qOfNat 3, qOfNat 4)], [(qOfNat 1, Op.add, qOfNat 1, qOfNat 2), (qOfNat 1, Op.mul, qOfNat 1, qOfNat 1), (qOfNat 1, Op.add, qOfNat 2, qOfNat 3), (qOfNat 1, Op.mul, qOfNat 3, qOfNat 3)], [(qOfNat 1, Op.add, qOfNat 1, qOfNat 2), (qOfNat 1, Op.mul, qOfNat 1, qOfNat 1), (qOfNat 1, Op.add, qOfNat 2, qOfNat 3), (qOfNat 3, Op.sub, qOfNat 1, qOfNat 2)], [(qOfNat 1, Op.add, qOfNat 1, qOfNat 2), (qOfNat 1, Op.mul, qOfNat 1, qOfNat 1), (qOfNat 1, Op.add, qOfNat 2, qOfNat 3), (qOfNat 3, Op.div, qOfNat 1, qOfNat 3)], [(qOfNat 1, Op.add, qOfNat 1, qOfNat 2), (qOfNat 1, Op.mul, qOfNat 1, qOfNat 1), (qOfNat 1, Op.mul, qOfNat 2, qOfNat 2), (qOfNat 1, Op.div, qOfNat 1, qOfNat 1)], [(qOfNat 1, Op.add, qOfNat 1, qOfNat 2), (qOfNat 1, Op.mul, qOfNat 1, qOfNat 1), (qOfNat 1, Op.mul, qOfNat 2, qOfNat 2), (qOfNat 1, Op.add, qOfNat 2, qOfNat 3)], [(qOfNat 1, Op.add, qOfNat 1, qOfNat 2), (qOfNat 1, Op.mul, qOfNat 1, qOfNat 1), (qOfNat 1, Op.mul, qOfNat 2, qOfNat 2), (qOfNat 2, Op.sub, qOfNat 1, qOfNat 1)], [(qOfNat 1, Op.add, qOfNat 1, qOfNat 2), (qOfNat 1, Op.mul, qOfNat 1, qOfNat 1), (qOfNat 1, Op.mul, qOfNat 2, qOfNat 2), (qOfNat 2, Op.div, qOfNat 1, qOfNat 2)], [(qOfNat 1, Op.add, qOfNat 1, qOfNat 2), (qOfNat 1, Op.mul, qOfNat 1, qOfNat 1), (qOfNat 2, Op.div, qOfNat 1, qOfNat 2), (qOfNat 1, Op.add, qOfNat 2, qOfNat 3)], [(qOfNat 1, Op.add, qOfNat 1, qOfNat 2), (qOfNat 1, Op.mul, qOfNat 1, qOfNat 1), (qOfNat 2, Op.div, qOfNat 1, qOfNat 2), (qOfNat 2, Op.sub, qOfNat 1, qOfNat 1)], [(qOfNat 1, Op.add, qOfNat 1, qOfNat 2), (qOfNat 1, Op.div, qOfNat 1, qOfNat 1), (qOfNat 1, Op.add, qOfNat 2, qOfNat 3), (qOfNat 1, Op.add, qOfNat 3, qOfNat 4)], [(qOfNat 1, Op.add, qOfNat 1, qOfNat 2), (qOfNat 1, Op.div, qOfNat 1, qOfNat 1), (qOfNat 1, Op.add, qOfNat 2, qOfNat 3), (qOfNat 1, Op.mul, qOfNat 3, qOfNat 3)], [(qOfNat 1, Op.add, qOfNat 1, qOfNat 2), (qOfNat 1, Op.div, qOfNat 1, qOfNat 1), (qOfNat 1, Op.add, qOfNat 2, qOfNat 3), (qOfNat 3, Op.sub, qOfNat 1, qOfNat 2)], [(qOfNat 1, Op.add, qOfNat 1, qOfNat 2), (qOfNat 1, Op.div, qOfNat 1, qOfNat 1), (qOfNat 1, Op.add, qOfNat 2, qOfNat 3), (qOfNat 3, Op.div, qOfNat 1, qOfNat 3)], [(qOfNat 1, Op.add, qOfNat 1, qOfNat 2), (qOfNat 1, Op.div, qOfNat 1, qOfNat 1), (qOfNat 1, Op.mul, qOfNat 2, qOfNat 2), (qOfNat 1, Op.add, qOfNat 2, qOfNat 3)], [(qOfNat 1, Op.add, qOfNat 1, qOfNat 2), (qOfNat 1, Op.div, qOfNat 1, qOfNat 1), (qOfNat 1, Op.mul, qOfNat 2, qOfNat 2), (qOfNat 2, Op.sub, qOfNat 1, qOfNat 1)], [(qOfNat 1, Op.add, qOfNat 1, qOfNat 2), (qOfNat 1, Op.div, qOfNat 1, qOfNat 1), (qOfNat 1, Op.mul, qOfNat 2, qOfNat 2), (qOfNat 2, Op.div, qOfNat 1, qOfNat 2)], [(qOfNat 1, Op.add, qOfNat 1, qOfNat 2), (qOfNat 1, Op.div, qOfNat 1, qOfNat 1), (qOfNat 2, Op.div, qOfNat 1, qOfNat 2), (qOfNat 1, Op.add, qOfNat 2, qOfNat 3)], [(qOfNat 1, Op.add, qOfNat 1, qOfNat 2), (qOfNat 1, Op.div, qOfNat 1, qOfNat 1), (qOfNat 2, Op.div, qOfNat 1, qOfNat 2), (qOfNat 2, Op.sub, qOfNat 1, qOfNat 1)], [(qOfNat 1, Op.add, qOfNat 1, qOfNat 2), (qOfNat 1, Op.add, qOfNat 2, qOfNat 3), (qOfNat 1, Op.add, qOfNat 3, qOfNat 4), (qOfNat 1, Op.add, qOfNat 4, qOfNat 5)], [(qOfNat 1, Op.add, qOfNat 1, qOfNat 2), (qOfNat 1, Op.add, qOfNat 2, qOfNat 3), (qOfNat 1, Op.add, qOfNat 3, qOfNat 4), (qOfNat 1, Op.mul, qOfNat 4, qOfNat 4)], [(qOfNat 1, Op.add, qOfNat 1, qOfNat 2), (qOfNat 1, Op.add, qOfNat 2, qOfNat 3), (qOfNat 1, Op.add, qOfNat 3, qOfNat 4), (qOfNat 4, Op.sub, qOfNat 1, qOfNat 3)], [(qOfNat 1, Op.add, qOfNat 1, qOfNat 2), (qOfNat 1, Op.add, qOfNat 2, qOfNat 3), (qOfNat 1, Op.add, qOfNat 3, qOfNat 4), (qOfNat 4, Op.div, qOfNat 1, qOfNat 4)], [(qOfNat 1, Op.add, qOfNat 1, qOfNat 2), (qOfNat 1, Op.add, qOfNat 2, qOfNat 3), (qOfNat 1, Op.mul, qOfNat 3, qOfNat 3), (qOfNat 1, Op.add, qOfNat 3, qOfNat 4)], [(qOfNat 1, Op.add, qOfNat 1, qOfNat 2), (qOfNat 1, Op.add, qOfNat 2, qOfNat 3), (qOfNat 1, Op.mul, qOfNat 3, qOfNat 3), (qOfNat 3, Op.sub, qOfNat 1, qOfNat 2)], [(qOfNat 1, Op.add, qOfNat 1, qOfNat 2), (qOfNat 1, Op.add, qOfNat 2, qOfNat 3), (qOfNat 1, Op.mul, qOfNat 3, qOfNat 3), (qOfNat 3, Op.div, qOfNat 1, qOfNat 3)], [(qOfNat 1, Op.add, qOfNat 1, qOfNat 2), (qOfNat 1, Op.add, qOfNat 2, qOfNat 3), (qOfNat 3, Op.sub, qOfNat 1, qOfNat 2), (qOfNat 1, Op.mul, qOfNat 2, qOfNat 2)], [(qOfNat 1, Op.add, qOfNat 1, qOfNat 2), (qOfNat 1, Op.add, qOfNat 2, qOfNat 3), (qOfNat 3, Op.sub, qOfNat 1, qOfNat 2), (qOfNat 2, Op.sub, qOfNat 1, qOfNat 1)], [(qOfNat 1, Op.add, qOfNat 1, qOfNat 2), (qOfNat 1, Op.add, qOfNat 2, qOfNat 3), (qOfNat 3, Op.sub, qOfNat 1, qOfNat 2), (qOfNat 2, Op.div, qOfNat 1, qOfNat 2)], [(qOfNat 1, Op.add, qOfNat 1, qOfNat 2), (qOfNat 1, Op.add, qOfNat 2, qOfNat 3), (qOfNat 3, Op.div, qOfNat 1, qOfNat 3), (qOfNat 1, Op.add, qOfNat 3, qOfNat 4)], [(qOfNat 1, Op.add, qOfNat 1, qOfNat 2), (qOfNat 1, Op.add, qOfNat 2, qOfNat 3), (qOfNat 3, Op.div, qOfNat 1, qOfNat 3), (qOfNat 3, Op.sub, qOfNat 1, qOfNat 2)], [(qOfNat 1, Op.add, qOfNat 1, qOfNat 2), (qOfNat 1, Op.mul, qOfNat 2, qOfNat 2), (qOfNat 1, Op.add, qOfNat 2, qOfNat 3), (qOfNat 1, Op.add, qOfNat 3, qOfNat 4)], [(qOfNat 1, Op.add, qOfNat 1, qOfNat 2), (qOfNat 1, Op.mul, qOfNat 2, qOfNat 2), (qOfNat 1, Op.add, qOfNat 2, qOfNat 3), (qOfNat 1, Op.mul, qOfNat 3, qOfNat 3)], [(qOfNat 1, Op.add, qOfNat 1, qOfNat 2), (qOfNat 1, Op.mul, qOfNat 2, qOfNat 2), (qOfNat 1, Op.add, qOfNat 2, qOfNat 3), (qOfNat 3, Op.div, qOfNat 1, qOfNat 3)], [(qOfNat 1, Op.add, qOfNat 1, qOfNat 2), (qOfNat 1, Op.mul, qOfNat 2, qOfNat 2), (qOfNat 2, Op.div, qOfNat 1, qOfNat 2), (qOfNat 1, Op.add, qOfNat 2, qOfNat 3)], [(qOfNat 1, Op.add, qOfNat 1, qOfNat 2), (qOfNat 1, Op.mul, qOfNat 2, qOfNat 2), (qOfNat 2, Op.div, qOfNat 1, qOfNat 2), (qOfNat 2, Op.sub, qOfNat 1, qOfNat 1)], [(qOfNat 1, Op.add, qOfNat 1, qOfNat 2), (qOfNat 2, Op.div, qOfNat 1, qOfNat 2), (qOfNat 1, Op.add, qOfNat 2, qOfNat 3), (qOfNat 1, Op.add, qOfNat 3, qOfNat 4)], [(qOfNat 1, Op.add, qOfNat 1, qOfNat 2), (qOfNat 2, Op.div, qOfNat 1, qOfNat 2), (qOfNat 1, Op.add, qOfNat 2, qOfNat 3), (qOfNat 1, Op.mul, qOfNat 3, qOfNat 3)], [(qOfNat 1, Op.add, qOfNat 1, qOfNat 2), (qOfNat 2, Op.div, qOfNat 1, qOfNat 2), (qOfNat 1, Op.add, qOfNat 2, qOfNat 3), (qOfNat 3, Op.div, qOfNat 1, qOfNat 3)], [(qOfNat 1, Op.add, qOfNat 1, qOfNat 2), (qOfNat 1, Op.mul, qOfNat 1, qOfNat 1), (qOfNat 1, Op.div, qOfNat 1, qOfNat 1), (qOfNat 2, Op.add, qOfNat 1, qOfNat 3), (qOfNat 1, Op.add, qOfNat 3, qOfNat 4)], [(qOfNat 1, Op.add, qOfNat 1, qOfNat 2), (qOfNat 1, Op.mul, qOfNat 1, qOfNat 1), (qOfNat 1, Op.div, qOfNat 1, qOfNat 1), (qOfNat 2, Op.add, qOfNat 1, qOfNat 3), (qOfNat 1, Op.mul, qOfNat 3, qOfNat 3)], [(qOfNat 1, Op.add, qOfNat 1, qOfNat 2), (qOfNat 1, Op.mul, qOfNat 1, qOfNat 1), (qOfNat 1, Op.div, qOfNat 1, qOfNat 1), (qOfNat 2, Op.add, qOfNat 1, qOfNat 3), (qOfNat 3, Op.sub, qOfNat 1, qOfNat 2)], [(qOfNat 1, Op.add, qOfNat 1, qOfNat 2), (qOfNat 1, Op.mul, qOfNat 1, qOfNat 1), (qOfNat 1, Op.div, qOfNat 1, qOfNat 1), (qOfNat 2, Op.add, qOfNat 1, qOfNat 3), (qOfNat 3, Op.div, qOfNat 1, qOfNat 3)], [(qOfNat 1, Op.add, qOfNat 1, qOfNat 2), (qOfNat 1, Op.mul, qOfNat 1, qOfNat 1), (qOfNat 1, Op.div, qOfNat 1, qOfNat 1), (qOfNat 2, Op.mul, qOfNat 1, qOfNat 2), (qOfNat 1, Op.add, qOfNat 2, qOfNat 3)], [(qOfNat 1, Op.add, qOfNat 1, qOfNat 2), (qOfNat 1, Op.mul, qOfNat 1, qOfNat 1), (qOfNat 1, Op.div, qOfNat 1, qOfNat 1), (qOfNat 2, Op.mul, qOfNat 1, qOfNat 2), (qOfNat 2, Op.sub, qOfNat 1, qOfNat 1)], [(qOfNat 1, Op.add, qOfNat 1, qOfNat 2), (qOfNat 1, Op.mul, qOfNat 1, qOfNat 1), (qOfNat 1, Op.div, qOfNat 1, qOfNat 1), (qOfNat 2, Op.mul, qOfNat 1, qOfNat 2), (qOfNat 2, Op.div, qOfNat 1, qOfNat 2)], [(qOfNat 1, Op.add, qOfNat 1, qOfNat 2), (qOfNat 1, Op.mul, qOfNat 1, qOfNat 1), (qOfNat 1, Op.div, qOfNat 1, qOfNat 1), (qOfNat 2, Op.div, qOfNat 1, qOfNat 2), (qOfNat 1, Op.add, qOfNat 2, qOfNat 3)], [(qOfNat 1, Op.add, qOfNat 1, qOfNat 2), (qOfNat 1, Op.mul, qOfNat 1, qOfNat 1), (qOfNat 1, Op.div, qOfNat 1, qOfNat 1), (qOfNat 2, Op.div, qOfNat 1, qOfNat 2), (qOfNat 2, Op.sub, qOfNat 1, qOfNat 1)], [(qOfNat 1, Op.add, qOfNat 1, qOfNat 2), (qOfNat 1, Op.mul, qOfNat 1, qOfNat 1), (qOfNat 1, Op.add, qOfNat 2, qOfNat 3), (qOfNat 1, Op.div, qOfNat 1, qOfNat 1), (qOfNat 3, Op.add, qOfNat 1, qOfNat 4)], [(qOfNat 1, Op.add, qOfNat 1, qOfNat 2), (qOfNat 1, Op.mul, qOfNat 1, qOfNat 1), (qOfNat 1, Op.add, qOfNat 2, qOfNat 3), (qOfNat 1, Op.div, qOfNat 1, qOfNat 1), (qOfNat 3, Op.sub, qOfNat 1, qOfNat 2)], [(qOfNat 1, Op.add, qOfNat 1, qOfNat 2), (qOfNat 1, Op.mul, qOfNat 1, qOfNat 1), (qOfNat 1, Op.add, qOfNat 2, qOfNat 3), (qOfNat 1, Op.div, qOfNat 1, qOfNat 1), (qOfNat 3, Op.mul, qOfNat 1, qOfNat 3)], [(qOfNat 1, Op.add, qOfNat 1, qOfNat 2), (qOfNat 1, Op.mul, qOfNat 1, qOfNat 1), (qOfNat 1, Op.add, qOfNat 2, qOfNat 3), (qOfNat 1, Op.div, qOfNat 1, qOfNat 1), (qOfNat 3, Op.div, qOfNat 1, qOfNat 3)], [(qOfNat 1, Op.add, qOfNat 1, qOfNat 2), (qOfNat 1, Op.mul, qOfNat 1, qOfNat 1), (qOfNat 1, Op.add, qOfNat 2, qOfNat 3), (qOfNat 1, Op.add, qOfNat 3, qOfNat 4), (qOfNat 1, Op.add, qOfNat 4, qOfNat 5)], [(qOfNat 1, Op.add, qOfNat 1, qOfNat 2), (qOfNat 1, Op.mul, qOfNat 1, qOfNat 1), (qOfNat 1, Op.add, qOfNat 2, qOfNat 3), (qOfNat 1, Op.add, qOfNat 3, qOfNat 4), (qOfNat 1, Op.mul, qOfNat 4, qOfNat 4)], [(qOfNat 1, Op.add, qOfNat 1, qOfNat 2), (qOfNat 1, Op.mul, qOfNat 1, qOfNat 1), (qOfNat 1, Op.add, qOfNat 2, qOfNat 3), (qOfNat 1, Op.add, qOfNat 3, qOfNat 4), (qOfNat 4, Op.sub, qOfNat 1, qOfNat 3)], [(qOfNat 1, Op.add, qOfNat 1, qOfNat 2), (qOfNat 1, Op.mul, qOfNat 1, qOfNat 1), (qOfNat 1, Op.add, qOfNat 2, qOfNat 3), (qOfNat 1, Op.add, qOfNat 3, qOfNat 4), (qOfNat 4, Op.div, qOfNat 1, qOfNat 4)], [(qOfNat 1, Op.add, qOfNat 1, qOfNat 2), (qOfNat 1, Op.mul, qOfNat 1, qOfNat 1), (qOfNat 1, Op.add, qOfNat 2, qOfNat 3), (qOfNat 1, Op.mul, qOfNat 3, qOfNat 3), (qOfNat 1, Op.add, qOfNat 3, qOfNat 4)], [(qOfNat 1, Op.add, qOfNat 1, qOfNat 2), (qOfNat 1, Op.mul, qOfNat 1, qOfNat 1), (qOfNat 1, Op.add, qOfNat 2, qOfNat 3), (qOfNat 1, Op.mul, qOfNat 3, qOfNat 3), (qOfNat 3, Op.sub, qOfNat 1, qOfNat 2)], [(qOfNat 1, Op.add, qOfNat 1, qOfNat 2), (qOfNat 1, Op.mul, qOfNat 1, qOfNat 1), (qOfNat 1, Op.add, qOfNat 2, qOfNat 3), (qOfNat 1, Op.mul, qOfNat 3, qOfNat 3), (qOfNat 3, Op.div, qOfNat 1, qOfNat 3)], [(qOfNat 1, Op.add, qOfNat 1, qOfNat 2), (qOfNat 1, Op.mul, qOfNat 1, qOfNat 1), (qOfNat 1, Op.add, qOfNat 2, qOfNat 3), (qOfNat 3, Op.sub, qOfNat 1, qOfNat 2), (qOfNat 1, Op.mul, qOfNat 2, qOfNat 2)], [(qOfNat 1, Op.add, qOfNat 1, qOfNat 2), (qOfNat 1, Op.mul, qOfNat 1, qOfNat 1), (qOfNat 1, Op.add, qOfNat 2, qOfNat 3), (qOfNat 3, Op.sub, qOfNat 1, qOfNat 2), (qOfNat 2, Op.sub, qOfNat 1, qOfNat 1)], [(qOfNat 1, Op.add, qOfNat 1, qOfNat 2), (qOfNat 1, Op.mul, qOfNat 1, qOfNat 1), (qOfNat 1, Op.add, qOfNat 2, qOfNat 3), (qOfNat 3, Op.sub, qOfNat 1, qOfNat 2), (qOfNat 2, Op.div, qOfNat 1, qOfNat 2)], [(qOfNat 1, Op.add, qOfNat 1, qOfNat 2), (qOfNat 1, Op.mul, qOfNat 1, qOfNat 1), (qOfNat 1, Op.add, qOfNat 2, qOfNat 3), (qOfNat 3, Op.div, qOfNat 1, qOfNat 3), (qOfNat 1, Op.add, qOfNat 3, qOfNat 4)], [(qOfNat 1, Op.add, qOfNat 1, qOfNat 2), (qOfNat 1, Op.mul, qOfNat 1, qOfNat 1), (qOfNat 1, Op.add, qOfNat 2, qOfNat 3), (qOfNat 3, Op.div, qOfNat 1, qOfNat 3), (qOfNat 3, Op.sub, qOfNat 1, qOfNat 2)], [(qOfNat 1, Op.add, qOfNat 1, qOfNat 2), (qOfNat 1, Op.mul, qOfNat 1, qOfNat 1), (qOfNat 1, Op.mul, qOfNat 2, qOfNat 2), (qOfNat 1, Op.div, qOfNat 1, qOfNat 1), (qOfNat 2, Op.add, qOfNat 1, qOfNat 3)], [(qOfNat 1, Op.add, qOfNat 1, qOfNat 2), (qOfNat 1, Op.mul, qOfNat 1, qOfNat 1), (qOfNat 1, Op.mul, qOfNat 2, qOfNat 2), (qOfNat 1, Op.div, qOfNat 1, qOfNat 1), (qOfNat 2, Op.sub, qOfNat 1, qOfNat 1)], [(qOfNat 1, Op.add, qOfNat 1, qOfNat 2), (qOfNat 1, Op.mul, qOfNat 1, qOfNat 1), (qOfNat 1, Op.mul, qOfNat 2, qOfNat 2), (qOfNat 1, Op.div, qOfNat 1, qOfNat 1), (qOfNat 2, Op.div, qOfNat 1, qOfNat 2)], [(qOfNat 1, Op.add, qOfNat 1, qOfNat 2), (qOfNat 1, Op.mul, qOfNat 1, qOfNat 1), (qOfNat 1, Op.mul, qOfNat 2, qOfNat 2), (qOfNat 1, Op.add, qOfNat 2, qOfNat 3), (qOfNat 1, Op.add, qOfNat 3, qOfNat 4)], [(qOfNat 1, Op.add, qOfNat 1, qOfNat 2), (qOfNat 1, Op.mul, qOfNat 1, qOfNat 1), (qOfNat 1, Op.mul, qOfNat 2, qOfNat 2), (qOfNat 1, Op.add, qOfNat 2, qOfNat 3), (qOfNat 1, Op.mul, qOfNat 3, qOfNat 3)], [(qOfNat 1, Op.add, qOfNat 1, qOfNat 2), (qOfNat 1, Op.mul, qOfNat 1, qOfNat 1), (qOfNat 1, Op.mul, qOfNat 2, qOfNat 2), (qOfNat 1, Op.add, qOfNat 2, qOfNat 3), (qOfNat 3, Op.div, qOfNat 1, qOfNat 3)], [(qOfNat 1, Op.add, qOfNat 1, qOfNat 2), (qOfNat 1, Op.mul, qOfNat 1, qOfNat 1), (qOfNat 1, Op.mul, qOfNat 2, qOfNat 2), (qOfNat 2, Op.div, qOfNat 1, qOfNat 2), (qOfNat 1, Op.add, qOfNat 2, qOfNat 3)], [(qOfNat 1, Op.add, qOfNat 1, qOfNat 2), (qOfNat 1, Op.mul, qOfNat 1, qOfNat 1), (qOfNat 1, Op.mul, qOfNat 2, qOfNat 2), (qOfNat 2, Op.div, qOfNat 1, qOfNat 2), (qOfNat 2, Op.sub, qOfNat 1, qOfNat 1)], [(qOfNat 1, Op.add, qOfNat 1, qOfNat 2), (qOfNat 1, Op.mul, qOfNat 1, qOfNat 1), (qOfNat 2, Op.div, qOfNat 1, qOfNat 2), (qOfNat 1, Op.add, qOfNat 2, qOfNat 3), (qOfNat 1, Op.add, qOfNat 3, qOfNat 4)], [(qOfNat 1, Op.add, qOfNat 1, qOfNat 2), (qOfNat 1, Op.mul, qOfNat 1, qOfNat 1), (qOfNat 2, Op.div, qOfNat 1, qOfNat 2), (qOfNat 1, Op.add, qOfNat 2, qOfNat 3), (qOfNat 1, Op.mul, qOfNat 3, qOfNat 3)], [(qOfNat 1, Op.add, qOfNat 1, qOfNat 2), (qOfNat 1, Op.mul, qOfNat 1, qOfNat 1), (qOfNat 2, Op.div, qOfNat 1, qOfNat 2), (qOfNat 1, Op.add, qOfNat 2, qOfNat 3), (qOfNat 3, Op.div, qOfNat 1, qOfNat 3)], [(qOfNat 1, Op.add, qOfNat 1, qOfNat 2), (qOfNat 1, Op.div, qOfNat 1, qOfNat 1), (qOfNat 1, Op.add, qOfNat 2, qOfNat 3), (qOfNat 1, Op.add, qOfNat 3, qOfNat 4), (qOfNat 1, Op.add, qOfNat 4, qOfNat 5)], [(qOfNat 1, Op.add, qOfNat 1, qOfNat 2), (qOfNat 1, Op.div, qOfNat 1, qOfNat 1), (qOfNat 1, Op.add, qOfNat 2, qOfNat 3), (qOfNat 1, Op.add, qOfNat 3, qOfNat 4), (qOfNat 1, Op.mul, qOfNat 4, qOfNat 4)], [(qOfNat 1, Op.add, qOfNat 1, qOfNat 2), (qOfNat 1, Op.div, qOfNat 1, qOfNat 1), (qOfNat 1, Op.add, qOfNat 2, qOfNat 3), (qOfNat 1, Op.add, qOfNat 3, qOfNat 4), (qOfNat 4, Op.sub, qOfNat 1, qOfNat 3)], [(qOfNat 1, Op.add, qOfNat 1, qOfNat 2), (qOfNat 1, Op.div, qOfNat 1, qOfNat 1), (qOfNat 1, Op.add, qOfNat 2, qOfNat 3), (qOfNat 1, Op.add, qOfNat 3, qOfNat 4), (qOfNat 4, Op.div, qOfNat 1, qOfNat 4)], [(qOfNat 1, Op.add, qOfNat 1, qOfNat 2), (qOfNat 1, Op.div, qOfNat 1, qOfNat 1), (qOfNat 1, Op.add, qOfNat 2, qOfNat 3), (qOfNat 1, Op.mul, qOfNat 3, qOfNat 3), (qOfNat 1, Op.add, qOfNat 3, qOfNat 4)], [(qOfNat 1, Op.add, qOfNat 1, qOfNat 2), (qOfNat 1, Op.div, qOfNat 1, qOfNat 1), (qOfNat 1, Op.add, qOfNat 2, qOfNat 3), (qOfNat 1, Op.mul, qOfNat 3, qOfNat 3), (qOfNat 3, Op.sub, qOfNat 1, qOfNat 2)], [(qOfNat 1, Op.add, qOfNat 1, qOfNat 2), (qOfNat 1, Op.div, qOfNat 1, qOfNat 1), (qOfNat 1, Op.add, qOfNat 2, qOfNat 3), (qOfNat 1, Op.mul, qOfNat 3, qOfNat 3), (qOfNat 3, Op.div, qOfNat 1, qOfNat 3)], [(qOfNat 1, Op.add, qOfNat 1, qOfNat 2), (qOfNat 1, Op.div, qOfNat 1, qOfNat 1), (qOfNat 1, Op.add, qOfNat 2, qOfNat 3), (qOfNat 3, Op.sub, qOfNat 1, qOfNat 2), (qOfNat 1, Op.mul, qOfNat 2, qOfNat 2)], [(qOfNat 1, Op.add, qOfNat 1, qOfNat 2), (qOfNat 1, Op.div, qOfNat 1, qOfNat 1), (qOfNat 1, Op.add, qOfNat 2, qOfNat 3), (qOfNat 3, Op.sub, qOfNat 1, qOfNat 2), (qOfNat 2, Op.sub, qOfNat 1, qOfNat 1)], [(qOfNat 1, Op.add, qOfNat 1, qOfNat 2), (qOfNat 1, Op.div, qOfNat 1, qOfNat 1), (qOfNat 1, Op.add, qOfNat 2, qOfNat 3), (qOfNat 3, Op.sub, qOfNat 1, qOfNat 2), (qOfNat 2, Op.div, qOfNat 1, qOfNat 2)], [(qOfNat 1, Op.add, qOfNat 1, qOfNat 2), (qOfNat 1, Op.div, qOfNat 1, qOfNat 1), (qOfNat 1, Op.add, qOfNat 2, qOfNat 3), (qOfNat 3, Op.div, qOfNat 1, qOfNat 3), (qOfNat 1, Op.add, qOfNat 3, qOfNat 4)], [(qOfNat 1, Op.add, qOfNat 1, qOfNat 2), (qOfNat 1, Op.div, qOfNat 1, qOfNat 1), (qOfNat 1, Op.add, qOfNat 2, qOfNat 3), (qOfNat 3, Op.div, qOfNat 1, qOfNat 3), (qOfNat 3, Op.sub, qOfNat 1, qOfNat 2)], [(qOfNat 1, Op.add, qOfNat 1, qOfNat 2), (qOfNat 1, Op.div, qOfNat 1, qOfNat 1), (qOfNat 1, Op.mul, qOfNat 2, qOfNat 2), (qOfNat 1, Op.add, qOfNat 2, qOfNat 3), (qOfNat 1, Op.add, qOfNat 3, qOfNat 4)], [(qOfNat 1, Op.add, qOfNat 1, qOfNat 2), (qOfNat 1, Op.div, qOfNat 1, qOfNat 1), (qOfNat 1, Op.mul, qOfNat 2, qOfNat 2), (qOfNat 1, Op.add, qOfNat 2, qOfNat 3), (qOfNat 1, Op.mul, qOfNat 3, qOfNat 3)], [(qOfNat 1, Op.add, qOfNat 1, qOfNat 2), (qOfNat 1, Op.div, qOfNat 1, qOfNat 1), (qOfNat 1, Op.mul, qOfNat 2, qOfNat 2), (qOfNat 1, Op.add, qOfNat 2, qOfNat 3), (qOfNat 3, Op.div, qOfNat 1, qOfNat 3)], [(qOfNat 1, Op.add, qOfNat 1, qOfNat 2), (qOfNat 1, Op.div, qOfNat 1, qOfNat 1), (qOfNat 1, Op.mul, qOfNat 2, qOfNat 2), (qOfNat 2, Op.div, qOfNat 1, qOfNat 2), (qOfNat 1, Op.add, qOfNat 2, qOfNat 3)], [(qOfNat 1, Op.add, qOfNat 1, qOfNat 2), (qOfNat 1, Op.div, qOfNat 1, qOfNat 1), (qOfNat 1, Op.mul, qOfNat 2, qOfNat 2), (qOfNat 2, Op.div, qOfNat 1, qOfNat 2), (qOfNat 2, Op.sub, qOfNat 1, qOfNat 1)], [(qOfNat 1, Op.add, qOfNat 1, qOfNat 2), (qOfNat 1, Op.div, qOfNat 1, qOfNat 1), (qOfNat 2, Op.div, qOfNat 1, qOfNat 2), (qOfNat 1, Op.add, qOfNat 2, qOfNat 3), (qOfNat 1, Op.add, qOfNat 3, qOfNat 4)], [(qOfNat 1, Op.add, qOfNat 1, qOfNat 2), (qOfNat 1, Op.div, qOfNat 1, qOfNat 1), (qOfNat 2, Op.div, qOfNat 1, qOfNat 2), (qOfNat 1, Op.add, qOfNat 2, qOfNat 3), (qOfNat 1, Op.mul, qOfNat 3, qOfNat 3)], [(qOfNat 1, Op.add, qOfNat 1, qOfNat 2), (qOfNat 1, Op.div, qOfNat 1, qOfNat 1), (qOfNat 2, Op.div, qOfNat 1, qOfNat 2), (qOfNat 1, Op.add, qOfNat 2, qOfNat 3), (qOfNat 3, Op.div, qOfNat 1, qOfNat 3)], [(qOfNat 1, Op.add, qOfNat 1, qOfNat 2), (qOfNat 1, Op.add, qOfNat 2, qOfNat 3), (qOfNat 1, Op.add, qOfNat 3, qOfNat 4), (qOfNat 1, Op.add, qOfNat 4, qOfNat 5), (qOfNat 1, Op.add, qOfNat 5, qOfNat 6)], [(qOfNat 1, Op.add, qOfNat 1, qOfNat 2), (qOfNat 1, Op.add, qOfNat 2, qOfNat 3), (qOfNat 1, Op.add, qOfNat 3, qOfNat 4), (qOfNat 1, Op.add, qOfNat 4, qOfNat 5), (qOfNat 1, Op.mul, qOfNat 5, qOfNat 5)], [(qOfNat 1, Op.add, qOfNat 1, qOfNat 2), (qOfNat 1, Op.add, qOfNat 2, qOfNat 3), (qOfNat 1, Op.add, qOfNat 3, qOfNat 4), (qOfNat 1, Op.add, qOfNat 4, qOfNat 5), (qOfNat 5, Op.sub, qOfNat 1, qOfNat 4)], [(qOfNat 1, Op.add, qOfNat 1, qOfNat 2), (qOfNat 1, Op.add, qOfNat 2, qOfNat 3), (qOfNat 1, Op.add, qOfNat 3, qOfNat 4), (qOfNat 1, Op.add, qOfNat 4, qOfNat 5), (qOfNat 5, Op.div, qOfNat 1, qOfNat 5)], [(qOfNat 1, Op.add, qOfNat 1, qOfNat 2), (qOfNat 1, Op.add, qOfNat 2, qOfNat 3), (qOfNat 1, Op.add, qOfNat 3, qOfNat 4), (qOfNat 1, Op.mul, qOfNat 4, qOfNat 4), (qOfNat 1, Op.add, qOfNat 4, qOfNat 5)], [(qOfNat 1, Op.add, qOfNat 1, qOfNat 2), (qOfNat 1, Op.add, qOfNat 2, qOfNat 3), (qOfNat 1, Op.add, qOfNat 3, qOfNat 4), (qOfNat 1, Op.mul, qOfNat 4, qOfNat 4), (qOfNat 4, Op.sub, qOfNat 1, qOfNat 3)], [(qOfNat 1, Op.add, qOfNat 1, qOfNat 2), (qOfNat 1, Op.add, qOfNat 2, qOfNat 3), (qOfNat 1, Op.add, qOfNat 3, qOfNat 4), (qOfNat 1, Op.mul, qOfNat 4, qOfNat 4), (qOfNat 4, Op.div, qOfNat 1, qOfNat 4)], [(qOfNat 1, Op.add, qOfNat 1, qOfNat 2), (qOfNat 1, Op.add, qOfNat 2, qOfNat 3), (qOfNat 1, Op.add, qOfNat 3, qOfNat 4), (qOfNat 4, Op.sub, qOfNat 1, qOfNat 3), (qOfNat 1, Op.mul, qOfNat 3, qOfNat 3)], [(qOfNat 1, Op.add, qOfNat 1, qOfNat 2), (qOfNat 1, Op.add, qOfNat 2, qOfNat 3), (qOfNat 1, Op.add, qOfNat 3, qOfNat 4), (qOfNat 4, Op.sub, qOfNat 1, qOfNat 3), (qOfNat 3, Op.sub, qOfNat 1, qOfNat 2)], [(qOfNat 1, Op.add, qOfNat 1, qOfNat 2), (qOfNat 1, Op.add, qOfNat 2, qOfNat 3), (qOfNat 1, Op.add, qOfNat 3, qOfNat 4), (qOfNat 4, Op.sub, qOfNat 1, qOfNat 3), (qOfNat 3, Op.div, qOfNat 1, qOfNat 3)], [(qOfNat 1, Op.add, qOfNat 1, qOfNat 2), (qOfNat 1, Op.add, qOfNat 2, qOfNat 3), (qOfNat 1, Op.add, qOfNat 3, qOfNat 4), (qOfNat 4, Op.div, qOfNat 1, qOfNat 4), (qOfNat 1, Op.add, qOfNat 4, qOfNat 5)], [(qOfNat 1, Op.add, qOfNat 1, qOfNat 2), (qOfNat 1, Op.add, qOfNat 2, qOfNat 3), (qOfNat 1, Op.add, qOfNat 3, qOfNat 4), (qOfNat 4, Op.div, qOfNat 1, qOfNat 4), (qOfNat 4, Op.sub, qOfNat 1, qOfNat 3)], [(qOfNat 1, Op.add, qOfNat 1, qOfNat 2), (qOfNat 1, Op.add, qOfNat 2, qOfNat 3), (qOfNat 1, Op.mul, qOfNat 3, qOfNat 3), (qOfNat 1, Op.add, qOfNat 3, qOfNat 4), (qOfNat 1, Op.add, qOfNat 4, qOfNat 5)], [(qOfNat 1, Op.add, qOfNat 1, qOfNat 2), (qOfNat 1, Op.add, qOfNat 2, qOfNat 3), (qOfNat 1, Op.mul, qOfNat 3, qOfNat 3), (qOfNat 1, Op.add, qOfNat 3, qOfNat 4), (qOfNat 1, Op.mul, qOfNat 4, qOfNat 4)], [(qOfNat 1, Op.add, qOfNat 1, qOfNat 2), (qOfNat 1, Op.add, qOfNat 2, qOfNat 3), (qOfNat 1, Op.mul, qOfNat 3, qOfNat 3), (qOfNat 1, Op.add, qOfNat 3, qOfNat 4), (qOfNat 4, Op.div, qOfNat 1, qOfNat 4)], [(qOfNat 1, Op.add, qOfNat 1, qOfNat 2), (qOfNat 1, Op.add, qOfNat 2, qOfNat 3), (qOfNat 1, Op.mul, qOfNat 3, qOfNat 3), (qOfNat 3, Op.sub, qOfNat 1, qOfNat 2), (qOfNat 1, Op.mul, qOfNat 2, qOfNat 2)], [(qOfNat 1, Op.add, qOfNat 1, qOfNat 2), (qOfNat 1, Op.add, qOfNat 2, qOfNat 3), (qOfNat 1, Op.mul, qOfNat 3, qOfNat 3), (qOfNat 3, Op.sub, qOfNat 1, qOfNat 2), (qOfNat 2, Op.sub, qOfNat 1, qOfNat 1)], [(qOfNat 1, Op.add, qOfNat 1, qOfNat 2), (qOfNat 1, Op.add, qOfNat 2, qOfNat 3), (qOfNat 1, Op.mul, qOfNat 3, qOfNat 3), (qOfNat 3, Op.sub, qOfNat 1, qOfNat 2), (qOfNat 2, Op.div, qOfNat 1, qOfNat 2)], [(qOfNat 1, Op.add, qOfNat 1, qOfNat 2), (qOfNat 1, Op.add, qOfNat 2, qOfNat 3), (qOfNat 1, Op.mul, qOfNat 3, qOfNat 3), (qOfNat 3, Op.div, qOfNat 1, qOfNat 3), (qOfNat 1, Op.add, qOfNat 3, qOfNat 4)], [(qOfNat 1, Op.add, qOfNat 1, qOfNat 2), (qOfNat 1, Op.add, qOfNat 2, qOfNat 3), (qOfNat 1, Op.mul, qOfNat 3, qOfNat 3), (qOfNat 3, Op.div, qOfNat 1, qOfNat 3), (qOfNat 3, Op.sub, qOfNat 1, qOfNat 2)], [(qOfNat 1, Op.add, qOfNat 1, qOfNat 2), (qOfNat 1, Op.add, qOfNat 2, qOfNat 3), (qOfNat 3, Op.sub, qOfNat 1, qOfNat 2), (qOfNat 1, Op.mul, qOfNat 2, qOfNat 2), (qOfNat 2, Op.sub, qOfNat 1, qOfNat 1)], [(qOfNat 1, Op.add, qOfNat 1, qOfNat 2), (qOfNat 1, Op.add, qOfNat 2, qOfNat 3), (qOfNat 3, Op.sub, qOfNat 1, qOfNat 2), (qOfNat 1, Op.mul, qOfNat 2, qOfNat 2), (qOfNat 2, Op.div, qOfNat 1, qOfNat 2)], [(qOfNat 1, Op.add, qOfNat 1, qOfNat 2), (qOfNat 1, Op.add, qOfNat 2, qOfNat 3), (qOfNat 3, Op.sub, qOfNat 1, qOfNat 2), (qOfNat 2, Op.div, qOfNat 1, qOfNat 2), (qOfNat 2, Op.sub, qOfNat 1, qOfNat 1)], [(qOfNat 1, Op.add, qOfNat 1, qOfNat 2), (qOfNat 1, Op.add, qOfNat 2, qOfNat 3), (qOfNat 3, Op.div, qOfNat 1, qOfNat 3), (qOfNat 1, Op.add, qOfNat 3, qOfNat 4), (qOfNat 1, Op.add, qOfNat 4, qOfNat 5)], [(qOfNat 1, Op.add, qOfNat 1, qOfNat 2), (qOfNat 1, Op.add, qOfNat 2, qOfNat 3), (qOfNat 3, Op.div, qOfNat 1, qOfNat 3), (qOfNat 1, Op.add, qOfNat 3, qOfNat 4), (qOfNat 1, Op.mul, qOfNat 4, qOfNat 4)], [(qOfNat 1, Op.add, qOfNat 1, qOfNat 2), (qOfNat 1, Op.add, qOfNat 2, qOfNat 3), (qOfNat 3, Op.div, qOfNat 1, qOfNat 3), (qOfNat 1, Op.add, qOfNat 3, qOfNat 4), (qOfNat 4, Op.div, qOfNat 1, qOfNat 4)], [(qOfNat 1, Op.add, qOfNat 1, qOfNat 2), (qOfNat 1, Op.add, qOfNat 2, qOfNat 3), (qOfNat 3, Op.div, qOfNat 1, qOfNat 3), (qOfNat 3, Op.sub, qOfNat 1, qOfNat 2), (qOfNat 1, Op.mul, qOfNat 2, qOfNat 2)], [(qOfNat 1, Op.add, qOfNat 1, qOfNat 2), (qOfNat 1, Op.add, qOfNat 2, qOfNat 3), (qOfNat 3, Op.div, qOfNat 1, qOfNat 3), (qOfNat 3, Op.sub, qOfNat 1, qOfNat 2), (qOfNat 2, Op.sub, qOfNat 1, qOfNat 1)], [(qOfNat 1, Op.add, qOfNat 1, qOfNat 2), (qOfNat 1, Op.add, qOfNat 2, qOfNat 3), (qOfNat 3, Op.div, qOfNat 1, qOfNat 3), (qOfNat 3, Op.sub, qOfNat 1, qOfNat 2), (qOfNat 2, Op.div, qOfNat 1, qOfNat 2)], [(qOfNat 1, Op.add, qOfNat 1, qOfNat 2), (qOfNat 1, Op.mul, qOfNat 2, qOfNat 2), (qOfNat 1, Op.add, qOfNat 2, qOfNat 3), (qOfNat 1, Op.add, qOfNat 3, qOfNat 4), (qOfNat 1, Op.add, qOfNat 4, qOfNat 5)], [(qOfNat 1, Op.add, qOfNat 1, qOfNat 2), (qOfNat 1, Op.mul, qOfNat 2, qOfNat 2), (qOfNat 1, Op.add, qOfNat 2, qOfNat 3), (qOfNat 1, Op.add, qOfNat 3, qOfNat 4), (qOfNat 1, Op.mul, qOfNat 4, qOfNat 4)], [(qOfNat 1, Op.add, qOfNat 1, qOfNat 2), (qOfNat 1, Op.mul, qOfNat 2, qOfNat 2), (qOfNat 1, Op.add, qOfNat 2, qOfNat 3), (qOfNat 1, Op.add, qOfNat 3, qOfNat 4), (qOfNat 4, Op.sub, qOfNat 1, qOfNat 3)], [(qOfNat 1, Op.add, qOfNat 1, qOfNat 2), (qOfNat 1, Op.mul, qOfNat 2, qOfNat 2), (qOfNat 1, Op.add, qOfNat 2, qOfNat 3), (qOfNat 1, Op.add, qOfNat 3, qOfNat 4), (qOfNat 4, Op.div, qOfNat 1, qOfNat 4)], [(qOfNat 1, Op.add, qOfNat 1, qOfNat 2), (qOfNat 1, Op.mul, qOfNat 2, qOfNat 2), (qOfNat 1, Op.add, qOfNat 2, qOfNat 3), (qOfNat 1, Op.mul, qOfNat 3, qOfNat 3), (qOfNat 1, Op.add, qOfNat 3, qOfNat 4)], [(qOfNat 1, Op.add, qOfNat 1, qOfNat 2), (qOfNat 1, Op.mul, qOfNat 2, qOfNat 2), (qOfNat 1, Op.add, qOfNat 2, qOfNat 3), (qOfNat 1, Op.mul, qOfNat 3, qOfNat 3), (qOfNat 3, Op.div, qOfNat 1, qOfNat 3)], [(qOfNat 1, Op.add, qOfNat 1, qOfNat 2), (qOfNat 1, Op.mul, qOfNat 2, qOfNat 2), (qOfNat 1, Op.add, qOfNat 2, qOfNat 3), (qOfNat 3, Op.div, qOfNat 1, qOfNat 3), (qOfNat 1, Op.add, qOfNat 3, qOfNat 4)], [(qOfNat 1, Op.add, qOfNat 1, qOfNat 2), (qOfNat 1, Op.mul, qOfNat 2, qOfNat 2), (qOfNat 2, Op.div, qOfNat 1, qOfNat 2), (qOfNat 1, Op.add, qOfNat 2, qOfNat 3), (qOfNat 1, Op.add, qOfNat 3, qOfNat 4)], [(qOfNat 1, Op.add, qOfNat 1, qOfNat 2), (qOfNat 1, Op.mul, qOfNat 2, qOfNat 2), (qOfNat 2, Op.div, qOfNat 1, qOfNat 2), (qOfNat 1, Op.add, qOfNat 2, qOfNat 3), (qOfNat 1, Op.mul, qOfNat 3, qOfNat 3)], [(qOfNat 1, Op.add, qOfNat 1, qOfNat 2), (qOfNat 1, Op.mul, qOfNat 2, qOfNat 2), (qOfNat 2, Op.div, qOfNat 1, qOfNat 2), (qOfNat 1, Op.add, qOfNat 2, qOfNat 3), (qOfNat 3, Op.div, qOfNat 1, qOfNat 3)], [(qOfNat 1, Op.add, qOfNat 1, qOfNat 2), (qOfNat 2, Op.div, qOfNat 1, qOfNat 2), (qOfNat 1, Op.add, qOfNat 2, qOfNat 3), (qOfNat 1, Op.add, qOfNat 3, qOfNat 4), (qOfNat 1, Op.add, qOfNat 4, qOfNat 5)], [(qOfNat 1, Op.add, qOfNat 1, qOfNat 2), (qOfNat 2, Op.div, qOfNat 1, qOfNat 2), (qOfNat 1, Op.add, qOfNat 2, qOfNat 3), (qOfNat 1, Op.add, qOfNat 3, qOfNat 4), (qOfNat 1, Op.mul, qOfNat 4, qOfNat 4)], [(qOfNat 1, Op.add, qOfNat 1, qOfNat 2), (qOfNat 2, Op.div, qOfNat 1, qOfNat 2), (qOfNat 1, Op.add, qOfNat 2, qOfNat 3), (qOfNat 1, Op.add, qOfNat 3, qOfNat 4), (qOfNat 4, Op.sub, qOfNat 1, qOfNat 3)], [(qOfNat 1, Op.add, qOfNat 1, qOfNat 2), (qOfNat 2, Op.div, qOfNat 1, qOfNat 2), (qOfNat 1, Op.add, qOfNat 2, qOfNat 3), (qOfNat 1, Op.add, qOfNat 3, qOfNat 4), (qOfNat 4, Op.div, qOfNat 1, qOfNat 4)], [(qOfNat 1, Op.add, qOfNat 1, qOfNat 2), (qOfNat 2, Op.div, qOfNat 1, qOfNat 2), (qOfNat 1, Op.add, qOfNat 2, qOfNat 3), (qOfNat 1, Op.mul, qOfNat 3, qOfNat 3), (qOfNat 1, Op.add, qOfNat 3, qOfNat 4)], [(qOfNat 1, Op.add, qOfNat 1, qOfNat 2), (qOfNat 2, Op.div, qOfNat 1, qOfNat 2), (qOfNat 1, Op.add, qOfNat 2, qOfNat 3), (qOfNat 1, Op.mul, qOfNat 3, qOfNat 3), (qOfNat 3, Op.div, qOfNat 1, qOfNat 3)], [(qOfNat 1, Op.add, qOfNat 1, qOfNat 2), (qOfNat 2, Op.div, qOfNat 1, qOfNat 2), (qOfNat 1, Op.add, qOfNat 2, qOfNat 3), (qOfNat 3, Op.div, qOfNat 1, qOfNat 3), (qOfNat 1, Op.add, qOfNat 3, qOfNat 4)]]
/-- Queue contents of the breadth-first loop on selection [1, 1, 1, 1, 1, 1], target 6, after 100 iterations. -/
def traceQ10 : List BState :=
  [(qOfNat 2, [qOfNat 2], [(qOfNat 1, Op.add, qOfNat 1, qOfNat 2), (qOfNat 1, Op.mul, qOfNat 1, qOfNat 1), (qOfNat 1, Op.mul, qOfNat 2, qOfNat 2), (qOfNat 1, Op.div, qOfNat 1, qOfNat 1), (qOfNat 2, Op.div, qOfNat 1, qOfNat 2)]), (qOfNat 4, [qOfNat 4], [(qOfNat 1, Op.add, qOfNat 1, qOfNat 2), (qOfNat 1, Op.mul, qOfNat 1, qOfNat 1), (qOfNat 1, Op.mul, qOfNat 2, qOfNat 2), (qOfNat 1, Op.add, qOfNat 2, qOfNat 3), (qOfNat 1, Op.add, qOfNat 3, qOfNat 4)]), (qOfNat 3, [qOfNat 3], [(qOfNat 1, Op.add, qOfNat 1, qOfNat 2), (qOfNat 1, Op.mul, qOfNat 1, qOfNat 1), (qOfNat 1, Op.mul, qOfNat 2, qOfNat 2), (qOfNat 1, Op.add, qOfNat 2, qOfNat 3), (qOfNat 1, Op.mul, qOfNat 3, qOfNat 3)]), (qOfNat 3, [qOfNat 3], [(qOfNat 1, Op.add, qOfNat 1, qOfNat 2), (qOfNat 1, Op.mul, qOfNat 1, qOfNat 1), (qOfNat 1, Op.mul, qOfNat 2, qOfNat 2), (qOfNat 1, Op.add, qOfNat 2, qOfNat 3), (qOfNat 3, Op.div, qOfNat 1, qOfNat 3)]), (qOfNat 3, [qOfNat 3], [(qOfNat 1, Op.add, qOfNat 1, qOfNat 2), (qOfNat 1, Op.mul, qOfNat 1, qOfNat 1), (qOfNat 1, Op.mul, qOfNat 2, qOfNat 2), (qOfNat 2, Op.div, qOfNat 1, qOfNat 2), (qOfNat 1, Op.add, qOfNat 2, qOfNat 3)]), (qOfNat 1, [qOfNat 1], [(qOfNat 1, Op.add, qOfNat 1, qOfNat 2), (qOfNat 1, Op.mul, qOfNat 1, qOfNat 1), (qOfNat 1, Op.mul, qOfNat 2, qOfNat 2), (qOfNat 2, Op.div, qOfNat 1, qOfNat 2), (qOfNat 2, Op.sub, qOfNat 1, qOfNat 1)]), (qOfNat 4, [qOfNat 4], [(qOfNat 1, Op.add, qOfNat 1, qOfNat 2), (qOfNat 1, Op.mul, qOfNat 1, qOfNat 1), (qOfNat 2, Op.div, qOfNat 1, qOfNat 2), (qOfNat 1, Op.add, qOfNat 2, qOfNat 3), (qOfNat 1, Op.add, qOfNat 3, qOfNat 4)]), (qOfNat 3, [qOfNat 3], [(qOfNat 1, Op.add, qOfNat 1, qOfNat 2), (qOfNat 1, Op.mul, qOfNat 1, qOfNat 1), (qOfNat 2, Op.div, qOfNat 1, qOfNat 2), (qOfNat 1, Op.add, qOfNat 2, qOfNat 3), (qOfNat 1, Op.mul, qOfNat 3, qOfNat 3)]), (qOfNat 3, [qOfNat 3], [(qOfNat 1, Op.add, qOfNat 1, qOfNat 2), (qOfNat 1, Op.mul, qOfNat 1, qOfNat 1), (qOfNat 2, Op.div, qOfNat 1, qOfNat 2), (qOfNat 1, Op.add, qOfNat 2, qOfNat 3), (qOfNat 3, Op.div, qOfNat 1, qOfNat 3)]), (qOfNat 5, [qOfNat 5], [(qOfNat 1, Op.add, qOfNat 1, qOfNat 2), (qOfNat 1, Op.div, qOfNat 1, qOfNat 1), (qOfNat 1, Op.add, qOfNat 2, qOfNat 3), (qOfNat 1, Op.add, qOfNat 3, qOfNat 4), (qOfNat 1, Op.add, qOfNat 4, qOfNat 5)]), (qOfNat 4, [qOfNat 4], [(qOfNat 1, Op.add, qOfNat 1, qOfNat 2), (qOfNat 1, Op.div, qOfNat 1, qOfNat 1), (qOfNat 1, Op.add, qOfNat 2, qOfNat 3), (qOfNat 1, Op.add, qOfNat 3, qOfNat 4), (qOfNat 1, Op.mul, qOfNat 4, qOfNat 4)]), (qOfNat 3, [qOfNat 3], [(qOfNat 1, Op.add, qOfNat 1, qOfNat 2), (qOfNat 1, Op.div, qOfNat 1, qOfNat 1), (qOfNat 1, Op.add, qOfNat 2, qOfNat 3), (qOfNat 1, Op.add, qOfNat 3, qOfNat 4), (qOfNat 4, Op.sub, qOfNat 1, qOfNat 3)]), (qOfNat 4, [qOfNat 4], [(qOfNat 1, Op.add, qOfNat 1, qOfNat 2), (qOfNat 1, Op.div, qOfNat 1, qOfNat 1), (qOfNat 1, Op.add, qOfNat 2, qOfNat 3), (qOfNat 1, Op.add, qOfNat 3, qOfNat 4), (qOfNat 4, Op.div, qOfNat 1, qOfNat 4)]), (qOfNat 4, [qOfNat 4], [(qOfNat 1, Op.add, qOfNat 1, qOfNat 2), (qOfNat 1, Op.div, qOfNat 1, qOfNat 1), (qOfNat 1, Op.add, qOfNat 2, qOfNat 3), (qOfNat 1, Op.mul, qOfNat 3, qOfNat 3), (qOfNat 1, Op.add, qOfNat 3, qOfNat 4)]), (qOfNat 2, [qOfNat 2], [(qOfNat 1, Op.add, qOfNat 1, qOfNat 2), (qOfNat 1, Op.div, qOfNat 1, qOfNat 1), (qOfNat 1, Op.add, qOfNat 2, qOfNat 3), (qOfNat 1, Op.mul, qOfNat 3, qOfNat 3), (qOfNat 3, Op.sub, qOfNat 1, qOfNat 2)]), (qOfNat 3, [qOfNat 3], [(qOfNat 1, Op.add, qOfNat 1, qOfNat 2), (qOfNat 1, Op.div, qOfNat 1, qOfNat 1), (qOfNat 1, Op.add, qOfNat 2, qOfNat 3), (qOfNat 1, Op.mul, qOfNat 3, qOfNat 3), (qOfNat 3, Op.div, qOfNat 1, qOfNat 3)]), (qOfNat 2, [qOfNat 2], [(qOfNat 1, Op.add, qOfNat 1, qOfNat 2), (qOfNat 1, Op.div, qOfNat 1, qOfNat 1), (qOfNat 1, Op.add, qOfNat 2, qOfNat 3), (qOfNat 3, Op.sub, qOfNat 1, qOfNat 2), (qOfNat 1, Op.mul, qOfNat 2, qOfNat 2)]), (qOfNat 1, [qOfNat 1], [(qOfNat 1, Op.add, qOfNat 1, qOfNat 2), (qOfNat 1, Op.div, qOfNat 1, qOfNat 1), (qOfNat 1, Op.add, qOfNat 2, qOfNat 3), (qOfNat 3, Op.sub, qOfNat 1, qOfNat 2), (qOfNat 2, Op.sub, qOfNat 1, qOfNat 1)]), (qOfNat 2, [qOfNat 2], [(qOfNat 1, Op.add, qOfNat 1, qOfNat 2), (qOfNat 1, Op.div, qOfNat 1, qOfNat 1), (qOfNat 1, Op.add, qOfNat 2, qOfNat 3), (qOfNat 3, Op.sub, qOfNat 1, qOfNat 2), (qOfNat 2, Op.div, qOfNat 1, qOfNat 2)]), (qOfNat 4, [qOfNat 4], [(qOfNat 1, Op.add, qOfNat 1, qOfNat 2), (qOfNat 1, Op.div, qOfNat 1, qOfNat 1), (qOfNat 1, Op.add, qOfNat 2, qOfNat 3), (qOfNat 3, Op.div, qOfNat 1, qOfNat 3), (qOfNat 1, Op.add, qOfNat 3, qOfNat 4)]), (qOfNat 2, [qOfNat 2], [(qOfNat 1, Op.add, qOfNat 1, qOfNat 2), (qOfNat 1, Op.div, qOfNat 1, qOfNat 1), (qOfNat 1, Op.add, qOfNat 2, qOfNat 3), (qOfNat 3, Op.div, qOfNat 1, qOfNat 3), (qOfNat 3, Op.sub, qOfNat 1, qOfNat 2)]), (qOfNat 4, [qOfNat 4], [(qOfNat 1, Op.add, qOfNat 1, qOfNat 2), (qOfNat 1, Op.div, qOfNat 1, qOfNat 1), (qOfNat 1, Op.mul, qOfNat 2, qOfNat 2), (qOfNat 1, Op.add, qOfNat 2, qOfNat 3), (qOfNat 1, Op.add, qOfNat 3, qOfNat 4)]), (qOfNat 3, [qOfNat 3], [(qOfNat 1, Op.add, qOfNat 1, qOfNat 2), (qOfNat 1, Op.div, qOfNat 1, qOfNat 1), (qOfNat 1, Op.mul, qOfNat 2, qOfNat 2), (qOfNat 1, Op.add, qOfNat 2, qOfNat 3), (qOfNat 1, Op.mul, qOfNat 3, qOfNat 3)]), (qOfNat 3, [qOfNat 3], [(qOfNat 1, Op.add, qOfNat 1, qOfNat 2), (qOfNat 1, Op.div, qOfNat 1, qOfNat 1), (qOfNat 1, Op.mul, qOfNat 2, qOfNat 2), (qOfNat 1, Op.add, qOfNat 2, qOfNat 3), (qOfNat 3, Op.div, qOfNat 1, qOfNat 3)]), (qOfNat 3, [qOfNat 3], [(qOfNat 1, Op.add, qOfNat 1, qOfNat 2), (qOfNat 1, Op.div, qOfNat 1, qOfNat 1), (qOfNat 1, Op.mul, qOfNat 2, qOfNat 2), (qOfNat 2, Op.div, qOfNat 1, qOfNat 2), (qOfNat 1, Op.add, qOfNat 2, qOfNat 3)]), (qOfNat 1, [qOfNat 1], [(qOfNat 1, Op.add, qOfNat 1, qOfNat 2), (qOfNat 1, Op.div, qOfNat 1, qOfNat 1), (qOfNat 1, Op.mul, qOfNat 2, qOfNat 2), (qOfNat 2, Op.div, qOfNat 1, qOfNat 2), (qOfNat 2, Op.sub, qOfNat 1, qOfNat 1)]), (qOfNat 4, [qOfNat 4], [(qOfNat 1, Op.add, qOfNat 1, qOfNat 2), (qOfNat 1, Op.div, qOfNat 1, qOfNat 1), (qOfNat 2, Op.div, qOfNat 1, qOfNat 2), (qOfNat 1, Op.add, qOfNat 2, qOfNat 3), (qOfNat 1, Op.add, qOfNat 3, qOfNat 4)]), (qOfNat 3, [qOfNat 3], [(qOfNat 1, Op.add, qOfNat 1, qOfNat 2), (qOfNat 1, Op.div, qOfNat 1, qOfNat 1), (qOfNat 2, Op.div, qOfNat 1, qOfNat 2), (qOfNat 1, Op.add, qOfNat 2, qOfNat 3), (qOfNat 1, Op.mul, qOfNat 3, qOfNat 3)]), (qOfNat 3, [qOfNat 3], [(qOfNat 1, Op.add, qOfNat 1, qOfNat 2), (qOfNat 1, Op.div, qOfNat 1, qOfNat 1), (qOfNat 2, Op.div, qOfNat 1, qOfNat 2), (qOfNat 1, Op.add, qOfNat 2, qOfNat 3), (qOfNat 3, Op.div, qOfNat 1, qOfNat 3)]), (qOfNat 6, [qOfNat 6], [(qOfNat 1, Op.add, qOfNat 1, qOfNat 2), (qOfNat 1, Op.add, qOfNat 2, qOfNat 3), (qOfNat 1, Op.add, qOfNat 3, qOfNat 4), (qOfNat 1, Op.add, qOfNat 4, qOfNat 5), (qOfNat 1, Op.add, qOfNat 5, qOfNat 6)]), (qOfNat 5, [qOfNat 5], [(qOfNat 1, Op.add, qOfNat 1, qOfNat 2), (qOfNat 1, Op.add, qOfNat 2, qOfNat 3), (qOfNat 1, Op.add, qOfNat 3, qOfNat 4), (qOfNat 1, Op.add, qOfNat 4, qOfNat 5), (qOfNat 1, Op.mul, qOfNat 5, qOfNat 5)]), (qOfNat 4, [qOfNat 4], [(qOfNat 1, Op.add, qOfNat 1, qOfNat 2), (qOfNat 1, Op.add, qOfNat 2, qOfNat 3), (qOfNat 1, Op.add, qOfNat 3, qOfNat 4), (qOfNat 1, Op.add, qOfNat 4, qOfNat 5), (qOfNat 5, Op.sub, qOfNat 1, qOfNat 4)]), (qOfNat 5, [qOfNat 5], [(qOfNat 1, Op.add, qOfNat 1, qOfNat 2), (qOfNat 1, Op.add, qOfNat 2, qOfNat 3), (qOfNat 1, Op.add, qOfNat 3, qOfNat 4), (qOfNat 1, Op.add, qOfNat 4, qOfNat 5), (qOfNat 5, Op.div, qOfNat 1, qOfNat 5)]), (qOfNat 5, [qOfNat 5], [(qOfNat 1, Op.add, qOfNat 1, qOfNat 2), (qOfNat 1, Op.add, qOfNat 2, qOfNat 3), (qOfNat 1, Op.add, qOfNat 3, qOfNat 4), (qOfNat 1, Op.mul, qOfNat 4, qOfNat 4), (qOfNat 1, Op.add, qOfNat 4, qOfNat 5)]), (qOfNat 3, [qOfNat 3], [(qOfNat 1, Op.add, qOfNat 1, qOfNat 2), (qOfNat 1, Op.add, qOfNat 2, qOfNat 3), (qOfNat 1, Op.add, qOfNat 3, qOfNat 4), (qOfNat 1, Op.mul, qOfNat 4, qOfNat 4), (qOfNat 4, Op.sub, qOfNat 1, qOfNat 3)]), (qOfNat 4, [qOfNat 4], [(qOfNat 1, Op.add, qOfNat 1, qOfNat 2), (qOfNat 1, Op.add, qOfNat 2, qOfNat 3), (qOfNat 1, Op.add, qOfNat 3, qOfNat 4), (qOfNat 1, Op.mul, qOfNat 4, qOfNat 4), (qOfNat 4, Op.div, qOfNat 1, qOfNat 4)]), (qOfNat 3, [qOfNat 3], [(qOfNat 1, Op.add, qOfNat 1, qOfNat 2), (qOfNat 1, Op.add, qOfNat 2, qOfNat 3), (qOfNat 1, Op.add, qOfNat 3, qOfNat 4), (qOfNat 4, Op.sub, qOfNat 1, qOfNat 3), (qOfNat 1, Op.mul, qOfNat 3, qOfNat 3)]), (qOfNat 2, [qOfNat 2], [(qOfNat 1, Op.add, qOfNat 1, qOfNat 2), (qOfNat 1, Op.add, qOfNat 2, qOfNat 3), (qOfNat 1, Op.add, qOfNat 3, qOfNat 4), (qOfNat 4, Op.sub, qOfNat 1, qOfNat 3), (qOfNat 3, Op.sub, qOfNat 1, qOfNat 2)]), (qOfNat 3, [qOfNat 3], [(qOfNat 1, Op.add, qOfNat 1, qOfNat 2), (qOfNat 1, Op.add, qOfNat 2, qOfNat 3), (qOfNat 1, Op.add, qOfNat 3, qOfNat 4), (qOfNat 4, Op.sub, qOfNat 1, qOfNat 3), (qOfNat 3, Op.div, qOfNat 1, qOfNat 3)]), (qOfNat 5, [qOfNat 5], [(qOfNat 1, Op.add, qOfNat 1, qOfNat 2), (qOfNat 1, Op.add, qOfNat 2, qOfNat 3), (qOfNat 1, Op.add, qOfNat 3, qOfNat 4), (qOfNat 4, Op.div, qOfNat 1, qOfNat 4), (qOfNat 1, Op.add, qOfNat 4, qOfNat 5)]), (qOfNat 3, [qOfNat 3], [(qOfNat 1, Op.add, qOfNat 1, qOfNat 2), (qOfNat 1, Op.add, qOfNat 2, qOfNat 3), (qOfNat 1, Op.add, qOfNat 3, qOfNat 4), (qOfNat 4, Op.div, qOfNat 1, qOfNat 4), (qOfNat 4, Op.sub, qOfNat 1, qOfNat 3)]), (qOfNat 5, [qOfNat 5], [(qOfNat 1, Op.add, qOfNat 1, qOfNat 2), (qOfNat 1, Op.add, qOfNat 2, qOfNat 3), (qOfNat 1, Op.mul, qOfNat 3, qOfNat 3), (qOfNat 1, Op.add, qOfNat 3, qOfNat 4), (qOfNat 1, Op.add, qOfNat 4, qOfNat 5)]), (qOfNat 4, [qOfNat 4], [(qOfNat 1, Op.add, qOfNat 1, qOfNat 2), (qOfNat 1, Op.add, qOfNat 2, qOfNat 3), (qOfNat 1, Op.mul, qOfNat 3, qOfNat 3), (qOfNat 1, Op.add, qOfNat 3, qOfNat 4), (qOfNat 1, Op.mul, qOfNat 4, qOfNat 4)]), (qOfNat 4, [qOfNat 4], [(qOfNat 1, Op.add, qOfNat 1, qOfNat 2), (qOfNat 1, Op.add, qOfNat 2, qOfNat 3), (qOfNat 1, Op.mul, qOfNat 3, qOfNat 3), (qOfNat 1, Op.add, qOfNat 3, qOfNat 4), (qOfNat 4, Op.div, qOfNat 1, qOfNat 4)]), (qOfNat 2, [qOfNat 2], [(qOfNat 1, Op.add, qOfNat 1, qOfNat 2), (qOfNat 1, Op.add, qOfNat 2, qOfNat 3), (qOfNat 1, Op.mul, qOfNat 3, qOfNat 3), (qOfNat 3, Op.sub, qOfNat 1, qOfNat 2), (qOfNat 1, Op.mul, qOfNat 2, qOfNat 2)]), (qOfNat 1, [qOfNat 1], [(qOfNat 1, Op.add, qOfNat 1, qOfNat 2), (qOfNat 1, Op.add, qOfNat 2, qOfNat 3), (qOfNat 1, Op.mul, qOfNat 3, qOfNat 3), (qOfNat 3, Op.sub, qOfNat 1, qOfNat 2), (qOfNat 2, Op.sub, qOfNat 1, qOfNat 1)]), (qOfNat 2, [qOfNat 2], [(qOfNat 1, Op.add, qOfNat 1, qOfNat 2), (qOfNat 1, Op.add, qOfNat 2, qOfNat 3), (qOfNat 1, Op.mul, qOfNat 3, qOfNat 3), (qOfNat 3, Op.sub, qOfNat 1, qOfNat 2), (qOfNat 2, Op.div, qOfNat 1, qOfNat 2)]), (qOfNat 4, [qOfNat 4], [(qOfNat 1, Op.add, qOfNat 1, qOfNat 2), (qOfNat 1, Op.add, qOfNat 2, qOfNat 3), (qOfNat 1, Op.mul, qOfNat 3, qOfNat 3), (qOfNat 3, Op.div, qOfNat 1, qOfNat 3), (qOfNat 1, Op.add, qOfNat 3, qOfNat 4)]), (qOfNat 2, [qOfNat 2], [(qOfNat 1, Op.add, qOfNat 1, qOfNat 2), (qOfNat 1, Op.add, qOfNat 2, qOfNat 3), (qOfNat 1, Op.mul, qOfNat 3, qOfNat 3), (qOfNat 3, Op.div, qOfNat 1, qOfNat 3), (qOfNat 3, Op.sub, qOfNat 1, qOfNat 2)]), (qOfNat 1, [qOfNat 1], [(qOfNat 1, Op.add, qOfNat 1, qOfNat 2), (qOfNat 1, Op.add, qOfNat 2, qOfNat 3), (qOfNat 3, Op.sub, qOfNat 1, qOfNat 2), (qOfNat 1, Op.mul, qOfNat 2, qOfNat 2), (qOfNat 2, Op.sub, qOfNat 1, qOfNat 1)]), (qOfNat 2, [qOfNat 2], [(qOfNat 1, Op.add, qOfNat 1, qOfNat 2), (qOfNat 1, Op.add, qOfNat 2, qOfNat 3), (qOfNat 3, Op.sub, qOfNat 1, qOfNat 2), (qOfNat 1, Op.mul, qOfNat 2, qOfNat 2), (qOfNat 2, Op.div, qOfNat 1, qOfNat 2)]), (qOfNat 1, [qOfNat 1], [(qOfNat 1, Op.add, qOfNat 1, qOfNat 2), (qOfNat 1, Op.add, qOfNat 2, qOfNat 3), (qOfNat 3, Op.sub, qOfNat 1, qOfNat 2), (qOfNat 2, Op.div, qOfNat 1, qOfNat 2), (qOfNat 2, Op.sub, qOfNat 1, qOfNat 1)]), (qOfNat 5, [qOfNat 5], [(qOfNat 1, Op.add, qOfNat 1, qOfNat 2), (qOfNat 1, Op.add, qOfNat 2, qOfNat 3), (qOfNat 3, Op.div, qOfNat 1, qOfNat 3), (qOfNat 1, Op.add, qOfNat 3, qOfNat 4), (qOfNat 1, Op.add, qOfNat 4, qOfNat 5)]), (qOfNat 4, [qOfNat 4], [(qOfNat 1, Op.add, qOfNat 1, qOfNat 2), (qOfNat 1, Op.add, qOfNat 2, qOfNat 3), (qOfNat 3, Op.div, qOfNat 1, qOfNat 3), (qOfNat 1, Op.add, qOfNat 3, qOfNat 4), (qOfNat 1, Op.mul, qOfNat 4, qOfNat 4)]), (qOfNat 4, [qOfNat 4], [(qOfNat 1, Op.add, qOfNat 1, qOfNat 2), (qOfNat 1, Op.add, qOfNat 2, qOfNat 3), (qOfNat 3, Op.div, qOfNat 1, qOfNat 3), (qOfNat 1, Op.add, qOfNat 3, qOfNat 4), (qOfNat 4, Op.div, qOfNat 1, qOfNat 4)]), (qOfNat 2, [qOfNat 2], [(qOfNat 1, Op.add, qOfNat 1, qOfNat 2), (qOfNat 1, Op.add, qOfNat 2, qOfNat 3), (qOfNat 3, Op.div, qOfNat 1, qOfNat 3), (qOfNat 3, Op.sub, qOfNat 1, qOfNat 2), (qOfNat 1, Op.mul, qOfNat 2, qOfNat 2)]), (qOfNat 1, [qOfNat 1], [(qOfNat 1, Op.add, qOfNat 1, qOfNat 2), (qOfNat 1, Op.add, qOfNat 2, qOfNat 3), (qOfNat 3, Op.div, qOfNat 1, qOfNat 3), (qOfNat 3, Op.sub, qOfNat 1, qOfNat 2), (qOfNat 2, Op.sub, qOfNat 1, qOfNat 1)]), (qOfNat 2, [qOfNat 2], [(qOfNat 1, Op.add, qOfNat 1, qOfNat 2), (qOfNat 1, Op.add, qOfNat 2, qOfNat 3), (qOfNat 3, Op.div, qOfNat 1, qOfNat 3), (qOfNat 3, Op.sub, qOfNat 1, qOfNat 2), (qOfNat 2, Op.div, qOfNat 1, qOfNat 2)]), (qOfNat 5, [qOfNat 5], [(qOfNat 1, Op.add, qOfNat 1, qOfNat 2), (qOfNat 1, Op.mul, qOfNat 2, qOfNat 2), (qOfNat 1, Op.add, qOfNat 2, qOfNat 3), (qOfNat 1, Op.add, qOfNat 3, qOfNat 4), (qOfNat 1, Op.add, qOfNat 4, qOfNat 5)]), (qOfNat 4, [qOfNat 4], [(qOfNat 1, Op.add, qOfNat 1, qOfNat 2), (qOfNat 1, Op.mul, qOfNat 2, qOfNat 2), (qOfNat 1, Op.add, qOfNat 2, qOfNat 3), (qOfNat 1, Op.add, qOfNat 3, qOfNat 4), (qOfNat 1, Op.mul, qOfNat 4, qOfNat 4)]), (qOfNat 3, [qOfNat 3], [(qOfNat 1, Op.add, qOfNat 1, qOfNat 2), (qOfNat 1, Op.mul, qOfNat 2, qOfNat 2), (qOfNat 1, Op.add, qOfNat 2, qOfNat 3), (qOfNat 1, Op.add, qOfNat 3, qOfNat 4), (qOfNat 4, Op.sub, qOfNat 1, qOfNat 3)]), (qOfNat 4, [qOfNat 4], [(qOfNat 1, Op.add, qOfNat 1, qOfNat 2), (qOfNat 1, Op.mul, qOfNat 2, qOfNat 2), (qOfNat 1, Op.add, qOfNat 2, qOfNat 3), (qOfNat 1, Op.add, qOfNat 3, qOfNat 4), (qOfNat 4, Op.div, qOfNat 1, qOfNat 4)]), (qOfNat 4, [qOfNat 4], [(qOfNat 1, Op.add, qOfNat 1, qOfNat 2), (qOfNat 1, Op.mul, qOfNat 2, qOfNat 2), (qOfNat 1, Op.add, qOfNat 2, qOfNat 3), (qOfNat 1, Op.mul, qOfNat 3, qOfNat 3), (qOfNat 1, Op.add, qOfNat 3, qOfNat 4)]), (qOfNat 3, [qOfNat 3], [(qOfNat 1, Op.add, qOfNat 1, qOfNat 2), (qOfNat 1, Op.mul, qOfNat 2, qOfNat 2), (qOfNat 1, Op.add, qOfNat 2, qOfNat 3), (qOfNat 1, Op.mul, qOfNat 3, qOfNat 3), (qOfNat 3, Op.div, qOfNat 1, qOfNat 3)]), (qOfNat 4, [qOfNat 4], [(qOfNat 1, Op.add, qOfNat 1, qOfNat 2), (qOfNat 1, Op.mul, qOfNat 2, qOfNat 2), (qOfNat 1, Op.add, qOfNat 2, qOfNat 3), (qOfNat 3, Op.div, qOfNat 1, qOfNat 3), (qOfNat 1, Op.add, qOfNat 3, qOfNat 4)]), (qOfNat 4, [qOfNat 4], [(qOfNat 1, Op.add, qOfNat 1, qOfNat 2), (qOfNat 1, Op.mul, qOfNat 2, qOfNat 2), (qOfNat 2, Op.div, qOfNat 1, qOfNat 2), (qOfNat 1, Op.add, qOfNat 2, qOfNat 3), (qOfNat 1, Op.add, qOfNat 3, qOfNat 4)]), (qOfNat 3, [qOfNat 3], [(qOfNat 1, Op.add, qOfNat 1, qOfNat 2), (qOfNat 1, Op.mul, qOfNat 2, qOfNat 2), (qOfNat 2, Op.div, qOfNat 1, qOfNat 2), (qOfNat 1, Op.add, qOfNat 2, qOfNat 3), (qOfNat 1, Op.mul, qOfNat 3, qOfNat 3)]), (qOfNat 3, [qOfNat 3], [(qOfNat 1, Op.add, qOfNat 1, qOfNat 2), (qOfNat 1, Op.mul, qOfNat 2, qOfNat 2), (qOfNat 2, Op.div, qOfNat 1, qOfNat 2), (qOfNat 1, Op.add, qOfNat 2, qOfNat 3), (qOfNat 3, Op.div, qOfNat 1, qOfNat 3)]), (qOfNat 5, [qOfNat 5], [(qOfNat 1, Op.add, qOfNat 1, qOfNat 2), (qOfNat 2, Op.div, qOfNat 1, qOfNat 2), (qOfNat 1, Op.add, qOfNat 2, qOfNat 3), (qOfNat 1, Op.add, qOfNat 3, qOfNat 4), (qOfNat 1, Op.add, qOfNat 4, qOfNat 5)]), (qOfNat 4, [qOfNat 4], [(qOfNat 1, Op.add, qOfNat 1, qOfNat 2), (qOfNat 2, Op.div, qOfNat 1, qOfNat 2), (qOfNat 1, Op.add, qOfNat 2, qOfNat 3), (qOfNat 1, Op.add, qOfNat 3, qOfNat 4), (qOfNat 1, Op.mul, qOfNat 4, qOfNat 4)]), (qOfNat 3, [qOfNat 3], [(qOfNat 1, Op.add, qOfNat 1, qOfNat 2), (qOfNat 2, Op.div, qOfNat 1, qOfNat 2), (qOfNat 1, Op.add, qOfNat 2, qOfNat 3), (qOfNat 1, Op.add, qOfNat 3, qOfNat 4), (qOfNat 4, Op.sub, qOfNat 1, qOfNat 3)]), (qOfNat 4, [qOfNat 4], [(qOfNat 1, Op.add, qOfNat 1, qOfNat 2), (qOfNat 2, Op.div, qOfNat 1, qOfNat 2), (qOfNat 1, Op.add, qOfNat 2, qOfNat 3), (qOfNat 1, Op.add, qOfNat 3, qOfNat 4), (qOfNat 4, Op.div, qOfNat 1, qOfNat 4)]), (qOfNat 4, [qOfNat 4], [(qOfNat 1, Op.add, qOfNat 1, qOfNat 2), (qOfNat 2, Op.div, qOfNat 1, qOfNat 2), (qOfNat 1, Op.add, qOfNat 2, qOfNat 3), (qOfNat 1, Op.mul, qOfNat 3, qOfNat 3), (qOfNat 1, Op.add, qOfNat 3, qOfNat 4)]), (qOfNat 3, [qOfNat 3], [(qOfNat 1, Op.add, qOfNat 1, qOfNat 2), (qOfNat 2, Op.div, qOfNat 1, qOfNat 2), (qOfNat 1, Op.add, qOfNat 2, qOfNat 3), (qOfNat 1, Op.mul, qOfNat 3, qOfNat 3), (qOfNat 3, Op.div, qOfNat 1, qOfNat 3)]), (qOfNat 4, [qOfNat 4], [(qOfNat 1, Op.add, qOfNat 1, qOfNat 2), (qOfNat 2, Op.div, qOfNat 1, qOfNat 2), (qOfNat 1, Op.add, qOfNat 2, qOfNat 3), (qOfNat 3, Op.div, qOfNat 1, qOfNat 3), (qOfNat 1, Op.add, qOfNat 3, qOfNat 4)])]

/-- Seen path fingerprints of the same run after 100 iterations. -/
def traceU10 : List (List Oper) :=
  [[(qOfNat 1, Op.add, qOfNat 1, qOfNat 2)], [(qOfNat 1, Op.mul, qOfNat 1, qOfNat 1)], [(qOfNat 1, Op.div, qOfNat 1, qOfNat 1)], [(qOfNat 1, Op.add, qOfNat 1, qOfNat 2), (qOfNat 1, Op.mul, qOfNat 1, qOfNat 1)], [(qOfNat 1, Op.add, qOfNat 1, qOfNat 2), (qOfNat 1, Op.div, qOfNat 1, qOfNat 1)], [(qOfNat 1, Op.add, qOfNat 1, qOfNat 2), (qOfNat 1, Op.add, qOfNat 2, qOfNat 3)], [(qOfNat 1, Op.add, qOfNat 1, qOfNat 2), (qOfNat 1, Op.mul, qOfNat 2, qOfNat 2)], [(qOfNat 1, Op.add, qOfNat 1, qOfNat 2), (qOfNat 2, Op.sub, qOfNat 1, qOfNat 1)], [(qOfNat 1, Op.add, qOfNat 1, qOfNat 2), (qOfNat 2, Op.div, qOfNat 1, qOfNat 2)], [(qOfNat 1, Op.mul, qOfNat 1, qOfNat 1), (qOfNat 1, Op.div, qOfNat 1, qOfNat 1)], [(qOfNat 1, Op.add, qOfNat 1, qOfNat 2), (qOfNat 1, Op.mul, qOfNat 1, qOfNat 1), (qOfNat 1, Op.div, qOfNat 1, qOfNat 1)], [(qOfNat 1, Op.add, qOfNat 1, qOfNat 2), (qOfNat 1, Op.mul, qOfNat 1, qOfNat 1), (qOfNat 1, Op.add, qOfNat 2, qOfNat 3)], [(qOfNat 1, Op.add, qOfNat 1, qOfNat 2), (qOfNat 1, Op.mul, qOfNat 1, qOfNat 1), (qOfNat 1, Op.mul, qOfNat 2, qOfNat 2)], [(qOfNat 1, Op.add, qOfNat 1, qOfNat 2), (qOfNat 1, Op.mul, qOfNat 1, qOfNat 1), (qOfNat 2, Op.sub, qOfNat 1, qOfNat 1)], [(qOfNat 1, Op.add, qOfNat 1, qOfNat 2), (qOfNat 1, Op.mul, qOfNat 1, qOfNat 1), (qOfNat 2, Op.div, qOfNat 1, qOfNat 2)], [(qOfNat 1, Op.add, qOfNat 1, qOfNat 2), (qOfNat 1, Op.div, qOfNat 1, qOfNat 1), (qOfNat 1, Op.add, qOfNat 2, qOfNat 3)], [(qOfNat 1, Op.add, qOfNat 1, qOfNat 2), (qOfNat 1, Op.div, qOfNat 1, qOfNat 1), (qOfNat 1, Op.mul, qOfNat 2, qOfNat 2)], [(qOfNat 1, Op.add, qOfNat 1, qOfNat 2), (qOfNat 1, Op.div, qOfNat 1, qOfNat 1), (qOfNat 2, Op.sub, qOfNat 1, qOfNat 1)], [(qOfNat 1, Op.add, qOfNat 1, qOfNat 2), (qOfNat 1, Op.div, qOfNat 1, qOfNat 1), (qOfNat 2, Op.div, qOfNat 1, qOfNat 2)], [(qOfNat 1, Op.add, qOfNat 1, qOfNat 2), (qOfNat 1, Op.add, qOfNat 2, qOfNat 3), (qOfNat 1, Op.add, qOfNat 3, qOfNat 4)], [(qOfNat 1, Op.add, qOfNat 1, qOfNat 2), (qOfNat 1, Op.add, qOfNat 2, qOfNat 3), (qOfNat 1, Op.mul, qOfNat 3, qOfNat 3)], [(qOfNat 1, Op.add, qOfNat 1, qOfNat 2), (qOfNat 1, Op.add, qOfNat 2, qOfNat 3), (qOfNat 3, Op.sub, qOfNat 1, qOfNat 2)], [(qOfNat 1, Op.add, qOfNat 1, qOfNat 2), (qOfNat 1, Op.add, qOfNat 2, qOfNat 3), (qOfNat 3, Op.div, qOfNat 1, qOfNat 3)], [(qOfNat 1, Op.add, qOfNat 1, qOfNat 2), (qOfNat 1, Op.mul, qOfNat 2, qOfNat 2), (qOfNat 1, Op.add, qOfNat 2, qOfNat 3)], [(qOfNat 1, Op.add, qOfNat 1, qOfNat 2), (qOfNat 1, Op.mul, qOfNat 2, qOfNat 2), (qOfNat 2, Op.sub, qOfNat 1, qOfNat 1)], [(qOfNat 1, Op.add, qOfNat 1, qOfNat 2), (qOfNat 1, Op.mul, qOfNat 2, qOfNat 2), (qOfNat 2, Op.div, qOfNat 1, qOfNat 2)], [(qOfNat 1, Op.add, qOfNat 1, qOfNat 2), (qOfNat 2, Op.div, qOfNat 1, qOfNat 2), (qOfNat 1, Op.add, qOfNat 2, qOfNat 3)], [(qOfNat 1, Op.add, qOfNat 1, qOfNat 2), (qOfNat 2, Op.div, qOfNat 1, qOfNat 2), (qOfNat 2, Op.sub, qOfNat 1, qOfNat 1)], [(qOfNat 1, Op.add, qOfNat 1, qOfNat 2), (qOfNat 1, Op.mul, qOfNat 1, qOfNat 1), (qOfNat 1, Op.div, qOfNat 1, qOfNat 1), (qOfNat 2, Op.add, qOfNat 1, qOfNat 3)], [(qOfNat 1, Op.add, qOfNat 1, qOfNat 2), (qOfNat 1, Op.mul, qOfNat 1, qOfNat 1), (qOfNat 1, Op.div, qOfNat 1, qOfNat 1), (qOfNat 2, Op.sub, qOfNat 1, qOfNat 1)], [(qOfNat 1, Op.add, qOfNat 1, qOfNat 2), (qOfNat 1, Op.mul, qOfNat 1, qOfNat 1), (qOfNat 1, Op.div, qOfNat 1, qOfNat 1), (qOfNat 2, Op.mul, qOfNat 1, qOfNat 2)], [(qOfNat 1, Op.add, qOfNat 1, qOfNat 2), (qOfNat 1, Op.mul, qOfNat 1, qOfNat 1), (qOfNat 1, Op.div, qOfNat 1, qOfNat 1), (qOfNat 2, Op.div, qOfNat 1, qOfNat 2)], [(qOfNat 1, Op.add, qOfNat 1, qOfNat 2), (qOfNat 1, Op.mul, qOfNat 1, qOfNat 1), (qOfNat 1, Op.add, qOfNat 2, qOfNat 3), (qOfNat 1, Op.div, qOfNat 1, qOfNat 1)], [(qOfNat 1, Op.add, qOfNat 1, qOfNat 2), (qOfNat 1, Op.mul, qOfNat 1, qOfNat 1), (qOfNat 1, Op.add, qOfNat 2, qOfNat 3), (qOfNat 1, Op.add, qOfNat 3, qOfNat 4)], [(qOfNat 1, Op.add, qOfNat 1, qOfNat 2), (qOfNat 1, Op.mul, qOfNat 1, qOfNat 1), (qOfNat 1, Op.add, qOfNat 2, qOfNat 3), (qOfNat 1, Op.mul, qOfNat 3, qOfNat 3)], [(qOfNat 1, Op.add, qOfNat 1, qOfNat 2), (qOfNat 1, Op.mul, qOfNat 1, qOfNat 1), (qOfNat 1, Op.add, qOfNat 2, qOfNat 3), (qOfNat 3, Op.sub, qOfNat 1, qOfNat 2)], [(qOfNat 1, Op.add, qOfNat 1, qOfNat 2), (qOfNat 1, Op.mul, qOfNat 1, qOfNat 1), (qOfNat 1, Op.add, qOfNat 2, qOfNat 3), (qOfNat 3, Op.div, qOfNat 1, qOfNat 3)], [(qOfNat 1, Op.add, qOfNat 1, qOfNat 2), (qOfNat 1, Op.mul, qOfNat 1, qOfNat 1), (qOfNat 1, Op.mul, qOfNat 2, qOfNat 2), (qOfNat 1, Op.div, qOfNat 1, qOfNat 1)], [(qOfNat 1, Op.add, qOfNat 1, qOfNat 2), (qOfNat 1, Op.mul, qOfNat 1, qOfNat 1), (qOfNat 1, Op.mul, qOfNat 2, qOfNat 2), (qOfNat 1, Op.add, qOfNat 2, qOfNat 3)], [(qOfNat 1, Op.add, qOfNat 1, qOfNat 2), (qOfNat 1, Op.mul, qOfNat 1, qOfNat 1), (qOfNat 1, Op.mul, qOfNat 2, qOfNat 2), (qOfNat 2, Op.sub, qOfNat 1, qOfNat 1)], [(qOfNat 1, Op.add, qOfNat 1, qOfNat 2), (qOfNat 1, Op.mul, qOfNat 1, qOfNat 1), (qOfNat 1, Op.mul, qOfNat 2, qOfNat 2), (qOfNat 2, Op.div, qOfNat 1, qOfNat 2)], [(qOfNat 1, Op.add, qOfNat 1, qOfNat 2), (qOfNat 1, Op.mul, qOfNat 1, qOfNat 1), (qOfNat 2, Op.div, qOfNat 1, qOfNat 2), (qOfNat 1, Op.add, qOfNat 2, qOfNat 3)], [(qOfNat 1, Op.add, qOfNat 1, qOfNat 2), (qOfNat 1, Op.mul, qOfNat 1, qOfNat 1), (qOfNat 2, Op.div, qOfNat 1, qOfNat 2), (qOfNat 2, Op.sub, qOfNat 1, qOfNat 1)], [(qOfNat 1, Op.add, qOfNat 1, qOfNat 2), (qOfNat 1, Op.div, qOfNat 1, qOfNat 1), (qOfNat 1, Op.add, qOfNat 2, qOfNat 3), (qOfNat 1, Op.add, qOfNat 3, qOfNat 4)], [(qOfNat 1, Op.add, qOfNat 1, qOfNat 2), (qOfNat 1, Op.div, qOfNat 1, qOfNat 1), (qOfNat 1, Op.add, qOfNat 2, qOfNat 3), (qOfNat 1, Op.mul, qOfNat 3, qOfNat 3)], [(qOfNat 1, Op.add, qOfNat 1, qOfNat 2), (qOfNat 1, Op.div, qOfNat 1, qOfNat 1), (qOfNat 1, Op.add, qOfNat 2, qOfNat 3), (qOfNat 3, Op.sub, qOfNat 1, qOfNat 2)], [(qOfNat 1, Op.add, qOfNat 1, qOfNat 2), (qOfNat 1, Op.div, qOfNat 1, qOfNat 1), (qOfNat 1, Op.add, qOfNat 2, qOfNat 3), (qOfNat 3, Op.div, qOfNat 1, qOfNat 3)], [(qOfNat 1, Op.add, qOfNat 1, qOfNat 2), (qOfNat 1, Op.div, qOfNat 1, qOfNat 1), (qOfNat 1, Op.mul, qOfNat 2, qOfNat 2), (qOfNat 1, Op.add, qOfNat 2, qOfNat 3)], [(qOfNat 1, Op.add, qOfNat 1, qOfNat 2), (qOfNat 1, Op.div, qOfNat 1, qOfNat 1), (qOfNat 1, Op.mul, qOfNat 2, qOfNat 2), (qOfNat 2, Op.sub, qOfNat 1, qOfNat 1)], [(qOfNat 1, Op.add, qOfNat 1, qOfNat 2), (qOfNat 1, Op.div, qOfNat 1, qOfNat 1), (qOfNat 1, Op.mul, qOfNat 2, qOfNat 2), (qOfNat 2, Op.div, qOfNat 1, qOfNat 2)], [(qOfNat 1, Op.add, qOfNat 1, qOfNat 2), (qOfNat 1, Op.div, qOfNat 1, qOfNat 1), (qOfNat 2, Op.div, qOfNat 1, qOfNat 2), (qOfNat 1, Op.add, qOfNat 2, qOfNat 3)], [(qOfNat 1, Op.add, qOfNat 1, qOfNat 2), (qOfNat 1, Op.div, qOfNat 1, qOfNat 1), (qOfNat 2, Op.div, qOfNat 1, qOfNat 2), (qOfNat 2, Op.sub, qOfNat 1, qOfNat 1)], [(qOfNat 1, Op.add, qOfNat 1, qOfNat 2), (qOfNat 1, Op.add, qOfNat 2, qOfNat 3), (qOfNat 1, Op.add, qOfNat 3, qOfNat 4), (qOfNat 1, Op.add, qOfNat 4, qOfNat 5)], [(qOfNat 1, Op.add, qOfNat 1, qOfNat 2), (qOfNat 1, Op.add, qOfNat 2, qOfNat 3), (qOfNat 1, Op.add, qOfNat 3, qOfNat 4), (qOfNat 1, Op.mul, qOfNat 4, qOfNat 4)], [(qOfNat 1, Op.add, qOfNat 1, qOfNat 2), (qOfNat 1, Op.add, qOfNat 2, qOfNat 3), (qOfNat 1, Op.add, qOfNat 3, qOfNat 4), (qOfNat 4, Op.sub, qOfNat 1, qOfNat 3)], [(qOfNat 1, Op.add, qOfNat 1, qOfNat 2), (qOfNat 1, Op.add, qOfNat 2, qOfNat 3), (qOfNat 1, Op.add, qOfNat 3, qOfNat 4), (qOfNat 4, Op.div, qOfNat 1, qOfNat 4)], [(qOfNat 1, Op.add, qOfNat 1, qOfNat 2), (qOfNat 1, Op.add, qOfNat 2, qOfNat 3), (qOfNat 1, Op.mul, qOfNat 3, qOfNat 3), (qOfNat 1, Op.add, qOfNat 3, qOfNat 4)], [(qOfNat 1, Op.add, qOfNat 1, qOfNat 2), (qOfNat 1, Op.add, qOfNat 2, qOfNat 3), (qOfNat 1, Op.mul, qOfNat 3, qOfNat 3), (qOfNat 3, Op.sub, qOfNat 1, qOfNat 2)], [(qOfNat 1, Op.add, qOfNat 1, qOfNat 2), (qOfNat 1, Op.add, qOfNat 2, qOfNat 3), (qOfNat 1, Op.mul, qOfNat 3, qOfNat 3), (qOfNat 3, Op.div, qOfNat 1, qOfNat 3)], [(qOfNat 1, Op.add, qOfNat 1, qOfNat 2), (qOfNat 1, Op.add, qOfNat 2, qOfNat 3), (qOfNat 3, Op.sub, qOfNat 1, qOfNat 2), (qOfNat 1, Op.mul, qOfNat 2, qOfNat 2)], [(qOfNat 1, Op.add, qOfNat 1, qOfNat 2), (qOfNat 1, Op.add, qOfNat 2, qOfNat 3), (qOfNat 3, Op.sub, qOfNat 1, qOfNat 2), (qOfNat 2, Op.sub, qOfNat 1, qOfNat 1)], [(qOfNat 1, Op.add, qOfNat 1, qOfNat 2), (qOfNat 1, Op.add, qOfNat 2, qOfNat 3), (qOfNat 3, Op.sub, qOfNat 1, qOfNat 2), (qOfNat 2, Op.div, qOfNat 1, qOfNat 2)], [(qOfNat 1, Op.add, qOfNat 1, qOfNat 2), (qOfNat 1, Op.add, qOfNat 2, qOfNat 3), (qOfNat 3, Op.div, qOfNat 1, qOfNat 3), (qOfNat 1, Op.add, qOfNat 3, qOfNat 4)], [(qOfNat 1, Op.add, qOfNat 1, qOfNat 2), (qOfNat 1, Op.add, qOfNat 2, qOfNat 3), (qOfNat 3, Op.div, qOfNat 1, qOfNat 3), (qOfNat 3, Op.sub, qOfNat 1, qOfNat 2)], [(qOfNat 1, Op.add, qOfNat 1, qOfNat 2), (qOfNat 1, Op.mul, qOfNat 2, qOfNat 2), (qOfNat 1, Op.add, qOfNat 2, qOfNat 3), (qOfNat 1, Op.add, qOfNat 3, qOfNat 4)], [(qOfNat 1, Op.add, qOfNat 1, qOfNat 2), (qOfNat 1, Op.mul, qOfNat 2, qOfNat 2), (qOfNat 1, Op.add, qOfNat 2, qOfNat 3), (qOfNat 1, Op.mul, qOfNat 3, qOfNat 3)], [(qOfNat 1, Op.add, qOfNat 1, qOfNat 2), (qOfNat 1, Op.mul, qOfNat 2, qOfNat 2), (qOfNat 1, Op.add, qOfNat 2, qOfNat 3), (qOfNat 3, Op.div, qOfNat 1, qOfNat 3)], [(qOfNat 1, Op.add, qOfNat 1, qOfNat 2), (qOfNat 1, Op.mul, qOfNat 2, qOfNat 2), (qOfNat 2, Op.div, qOfNat 1, qOfNat 2), (qOfNat 1, Op.add, qOfNat 2, qOfNat 3)], [(qOfNat 1, Op.add, qOfNat 1, qOfNat 2), (qOfNat 1, Op.mul, qOfNat 2, qOfNat 2), (qOfNat 2, Op.div, qOfNat 1, qOfNat 2), (qOfNat 2, Op.sub, qOfNat 1, qOfNat 1)], [(qOfNat 1, Op.add, qOfNat 1, qOfNat 2), (qOfNat 2, Op.div, qOfNat 1, qOfNat 2), (qOfNat 1, Op.add, qOfNat 2, qOfNat 3), (qOfNat 1, Op.add, qOfNat 3, qOfNat 4)], [(qOfNat 1, Op.add, qOfNat 1, qOfNat 2), (qOfNat 2, Op.div, qOfNat 1, qOfNat 2), (qOfNat 1, Op.add, qOfNat 2, qOfNat 3), (qOfNat 1, Op.mul, qOfNat 3, qOfNat 3)], [(qOfNat 1, Op.add, qOfNat 1, qOfNat 2), (qOfNat 2, Op.div, qOfNat 1, qOfNat 2), (qOfNat 1, Op.add, qOfNat 2, qOfNat 3), (qOfNat 3, Op.div, qOfNat 1, qOfNat 3)], [(qOfNat 1, Op.add, qOfNat 1, qOfNat 2), (qOfNat 1, Op.mul, qOfNat 1, qOfNat 1), (qOfNat 1, Op.div, qOfNat 1, qOfNat 1), (qOfNat 2, Op.add, qOfNat 1, qOfNat 3), (qOfNat 1, Op.add, qOfNat 3, qOfNat 4)], [(qOfNat 1, Op.add, qOfNat 1, qOfNat 2), (qOfNat 1, Op.mul, qOfNat 1, qOfNat 1), (qOfNat 1, Op.div, qOfNat 1, qOfNat 1), (qOfNat 2, Op.add, qOfNat 1, qOfNat 3), (qOfNat 1, Op.mul, qOfNat 3, qOfNat 3)], [(qOfNat 1, Op.add, qOfNat 1, qOfNat 2), (qOfNat 1, Op.mul, qOfNat 1, qOfNat 1), (qOfNat 1, Op.div, qOfNat 1, qOfNat 1), (qOfNat 2, Op.add, qOfNat 1, qOfNat 3), (qOfNat 3, Op.sub, qOfNat 1, qOfNat 2)], [(qOfNat 1, Op.add, qOfNat 1, qOfNat 2), (qOfNat 1, Op.mul, qOfNat 1, qOfNat 1), (qOfNat 1, Op.div, qOfNat 1, qOfNat 1), (qOfNat 2, Op.add, qOfNat 1, qOfNat 3), (qOfNat 3, Op.div, qOfNat 1, qOfNat 3)], [(qOfNat 1, Op.add, qOfNat 1, qOfNat 2), (qOfNat 1, Op.mul, qOfNat 1, qOfNat 1), (qOfNat 1, Op.div, qOfNat 1, qOfNat 1), (qOfNat 2, Op.mul, qOfNat 1, qOfNat 2), (qOfNat 1, Op.add, qOfNat 2, qOfNat 3)], [(qOfNat 1, Op.add, qOfNat 1, qOfNat 2), (qOfNat 1, Op.mul, qOfNat 1, qOfNat 1), (qOfNat 1, Op.div, qOfNat 1, qOfNat 1), (qOfNat 2, Op.mul, qOfNat 1, qOfNat 2), (qOfNat 2, Op.sub, qOfNat 1, qOfNat 1)], [(qOfNat 1, Op.add, qOfNat 1, qOfNat 2), (qOfNat 1, Op.mul, qOfNat 1, qOfNat 1), (qOfNat 1, Op.div, qOfNat 1, qOfNat 1), (qOfNat 2, Op.mul, qOfNat 1, qOfNat 2), (qOfNat 2, Op.div, qOfNat 1, qOfNat 2)], [(qOfNat 1, Op.add, qOfNat 1, qOfNat 2), (qOfNat 1, Op.mul, qOfNat 1, qOfNat 1), (qOfNat 1, Op.div, qOfNat 1, qOfNat 1), (qOfNat 2, Op.div, qOfNat 1, qOfNat 2), (qOfNat 1, Op.add, qOfNat 2, qOfNat 3)], [(qOfNat 1, Op.add, qOfNat 1, qOfNat 2), (qOfNat 1, Op.mul, qOfNat 1, qOfNat 1), (qOfNat 1, Op.div, qOfNat 1, qOfNat 1), (qOfNat 2, Op.div, qOfNat 1, qOfNat 2), (qOfNat 2, Op.sub, qOfNat 1, qOfNat 1)], [(qOfNat 1, Op.add, qOfNat 1, qOfNat 2), (qOfNat 1, Op.mul, qOfNat 1, qOfNat 1), (qOfNat 1, Op.add, qOfNat 2, qOfNat 3), (qOfNat 1, Op.div, qOfNat 1, qOfNat 1), (qOfNat 3, Op.add, qOfNat 1, qOfNat 4)], [(qOfNat 1, Op.add, qOfNat 1, qOfNat 2), (qOfNat 1, Op.mul, qOfNat 1, qOfNat 1), (qOfNat 1, Op.add, qOfNat 2, qOfNat 3), (qOfNat 1, Op.div, qOfNat 1, qOfNat 1), (qOfNat 3, Op.sub, qOfNat 1, qOfNat 2)], [(qOfNat 1, Op.add, qOfNat 1, qOfNat 2), (qOfNat 1, Op.mul, qOfNat 1, qOfNat 1), (qOfNat 1, Op.add, qOfNat 2, qOfNat 3), (qOfNat 1, Op.div, qOfNat 1, qOfNat 1), (qOfNat 3, Op.mul, qOfNat 1, qOfNat 3)], [(qOfNat 1, Op.add, qOfNat 1, qOfNat 2), (qOfNat 1, Op.mul, qOfNat 1, qOfNat 1), (qOfNat 1, Op.add, qOfNat 2, qOfNat 3), (qOfNat 1, Op.div, qOfNat 1, qOfNat 1), (qOfNat 3, Op.div, qOfNat 1, qOfNat 3)], [(qOfNat 1, Op.add, qOfNat 1, qOfNat 2), (qOfNat 1, Op.mul, qOfNat 1, qOfNat 1), (qOfNat 1, Op.add, qOfNat 2, qOfNat 3), (qOfNat 1, Op.add, qOfNat 3, qOfNat 4), (qOfNat 1, Op.add, qOfNat 4, qOfNat 5)], [(qOfNat 1, Op.add, qOfNat 1, qOfNat 2), (qOfNat 1, Op.mul, qOfNat 1, qOfNat 1), (qOfNat 1, Op.add, qOfNat 2, qOfNat 3), (qOfNat 1, Op.add, qOfNat 3, qOfNat 4), (qOfNat 1, Op.mul, qOfNat 4, qOfNat 4)], [(qOfNat 1, Op.add, qOfNat 1, qOfNat 2), (qOfNat 1, Op.mul, qOfNat 1, qOfNat 1), (qOfNat 1, Op.add, qOfNat 2, qOfNat 3), (qOfNat 1, Op.add, qOfNat 3, qOfNat 4), (qOfNat 4, Op.sub, qOfNat 1, qOfNat 3)], [(qOfNat 1, Op.add, qOfNat 1, qOfNat 2), (qOfNat 1, Op.mul, qOfNat 1, qOfNat 1), (qOfNat 1, Op.add, qOfNat 2, qOfNat 3), (qOfNat 1, Op.add, qOfNat 3, qOfNat 4), (qOfNat 4, Op.div, qOfNat 1, qOfNat 4)], [(qOfNat 1, Op.add, qOfNat 1, qOfNat 2), (qOfNat 1, Op.mul, qOfNat 1, qOfNat 1), (qOfNat 1, Op.add, qOfNat 2, qOfNat 3), (qOfNat 1, Op.mul, qOfNat 3, qOfNat 3), (qOfNat 1, Op.add, qOfNat 3, qOfNat 4)], [(qOfNat 1, Op.add, qOfNat 1, qOfNat 2), (qOfNat 1, Op.mul, qOfNat 1, qOfNat 1), (qOfNat 1, Op.add, qOfNat 2, qOfNat 3), (qOfNat 1, Op.mul, qOfNat 3, qOfNat 3), (qOfNat 3, Op.sub, qOfNat 1, qOfNat 2)], [(qOfNat 1, Op.add, qOfNat 1, qOfNat 2), (qOfNat 1, Op.mul, qOfNat 1, qOfNat 1), (qOfNat 1, Op.add, qOfNat 2, qOfNat 3), (qOfNat 1, Op.mul, qOfNat 3, qOfNat 3), (qOfNat 3, Op.div, qOfNat 1, qOfNat 3)], [(qOfNat 1, Op.add, qOfNat 1, qOfNat 2), (qOfNat 1, Op.mul, qOfNat 1, qOfNat 1), (qOfNat 1, Op.add, qOfNat 2, qOfNat 3), (qOfNat 3, Op.sub, qOfNat 1, qOfNat 2), (qOfNat 1, Op.mul, qOfNat 2, qOfNat 2)], [(qOfNat 1, Op.add, qOfNat 1, qOfNat 2), (qOfNat 1, Op.mul, qOfNat 1, qOfNat 1), (qOfNat 1, Op.add, qOfNat 2, qOfNat 3), (qOfNat 3, Op.sub, qOfNat 1, qOfNat 2), (qOfNat 2, Op.sub, qOfNat 1, qOfNat 1)], [(qOfNat 1, Op.add, qOfNat 1, qOfNat 2), (qOfNat 1, Op.mul, qOfNat 1, qOfNat 1), (qOfNat 1, Op.add, qOfNat 2, qOfNat 3), (qOfNat 3, Op.sub, qOfNat 1, qOfNat 2), (qOfNat 2, Op.div, qOfNat 1, qOfNat 2)], [(qOfNat 1, Op.add, qOfNat 1, qOfNat 2), (qOfNat 1, Op.mul, qOfNat 1, qOfNat 1), (qOfNat 1, Op.add, qOfNat 2, qOfNat 3), (qOfNat 3, Op.div, qOfNat 1, qOfNat 3), (qOfNat 1, Op.add, qOfNat 3, qOfNat 4)], [(qOfNat 1, Op.add, qOfNat 1, qOfNat 2), (qOfNat 1, Op.mul, qOfNat 1, qOfNat 1), (qOfNat 1, Op.add, qOfNat 2, qOfNat 3), (qOfNat 3, Op.div, qOfNat 1, qOfNat 3), (qOfNat 3, Op.sub, qOfNat 1, qOfNat 2)], [(qOfNat 1, Op.add, qOfNat 1, qOfNat 2), (qOfNat 1, Op.mul, qOfNat 1, qOfNat 1), (qOfNat 1, Op.mul, qOfNat 2, qOfNat 2), (qOfNat 1, Op.div, qOfNat 1, qOfNat 1), (qOfNat 2, Op.add, qOfNat 1, qOfNat 3)], [(qOfNat 1, Op.add, qOfNat 1, qOfNat 2), (qOfNat 1, Op.mul, qOfNat 1, qOfNat 1), (qOfNat 1, Op.mul, qOfNat 2, qOfNat 2), (qOfNat 1, Op.div, qOfNat 1, qOfNat 1), (qOfNat 2, Op.sub, qOfNat 1, qOfNat 1)], [(qOfNat 1, Op.add, qOfNat 1, qOfNat 2), (qOfNat 1, Op.mul, qOfNat 1, qOfNat 1), (qOfNat 1, Op.mul, qOfNat 2, qOfNat 2), (qOfNat 1, Op.div, qOfNat 1, qOfNat 1), (qOfNat 2, Op.div, qOfNat 1, qOfNat 2)], [(qOfNat 1, Op.add, qOfNat 1, qOfNat 2), (qOfNat 1, Op.mul, qOfNat 1, qOfNat 1), (qOfNat 1, Op.mul, qOfNat 2, qOfNat 2), (qOfNat 1, Op.add, qOfNat 2, qOfNat 3), (qOfNat 1, Op.add, qOfNat 3, qOfNat 4)], [(qOfNat 1, Op.add, qOfNat 1, qOfNat 2), (qOfNat 1, Op.mul, qOfNat 1, qOfNat 1), (qOfNat 1, Op.mul, qOfNat 2, qOfNat 2), (qOfNat 1, Op.add, qOfNat 2, qOfNat 3), (qOfNat 1, Op.mul, qOfNat 3, qOfNat 3)], [(qOfNat 1, Op.add, qOfNat 1, qOfNat 2), (qOfNat 1, Op.mul, qOfNat 1, qOfNat 1), (qOfNat 1, Op.mul, qOfNat 2, qOfNat 2), (qOfNat 1, Op.add, qOfNat 2, qOfNat 3), (qOfNat 3, Op.div, qOfNat 1, qOfNat 3)], [(qOfNat 1, Op.add, qOfNat 1, qOfNat 2), (qOfNat 1, Op.mul, qOfNat 1, qOfNat 1), (qOfNat 1, Op.mul, qOfNat 2, qOfNat 2), (qOfNat 2, Op.div, qOfNat 1, qOfNat 2), (qOfNat 1, Op.add, qOfNat 2, qOfNat 3)], [(qOfNat 1, Op.add, qOfNat 1, qOfNat 2), (qOfNat 1, Op.mul, qOfNat 1, qOfNat 1), (qOfNat 1, Op.mul, qOfNat 2, qOfNat 2), (qOfNat 2, Op.div, qOfNat 1, qOfNat 2), (qOfNat 2, Op.sub, qOfNat 1, qOfNat 1)], [(qOfNat 1, Op.add, qOfNat 1, qOfNat 2), (qOfNat 1, Op.mul, qOfNat 1, qOfNat 1), (qOfNat 2, Op.div, qOfNat 1, qOfNat 2), (qOfNat 1, Op.add, qOfNat 2, qOfNat 3), (qOfNat 1, Op.add, qOfNat 3, qOfNat 4)], [(qOfNat 1, Op.add, qOfNat 1, qOfNat 2), (qOfNat 1, Op.mul, qOfNat 1, qOfNat 1), (qOfNat 2, Op.div, qOfNat 1, qOfNat 2), (qOfNat 1, Op.add, qOfNat 2, qOfNat 3), (qOfNat 1, Op.mul, qOfNat 3, qOfNat 3)], [(qOfNat 1, Op.add, qOfNat 1, qOfNat 2), (qOfNat 1, Op.mul, qOfNat 1, qOfNat 1), (qOfNat 2, Op.div, qOfNat 1, qOfNat 2), (qOfNat 1, Op.add, qOfNat 2, qOfNat 3), (qOfNat 3, Op.div, qOfNat 1, qOfNat 3)], [(qOfNat 1, Op.add, qOfNat 1, qOfNat 2), (qOfNat 1, Op.div, qOfNat 1, qOfNat 1), (qOfNat 1, Op.add, qOfNat 2, qOfNat 3), (qOfNat 1, Op.add, qOfNat 3, qOfNat 4), (qOfNat 1, Op.add, qOfNat 4, qOfNat 5)], [(qOfNat 1, Op.add, qOfNat 1, qOfNat 2), (qOfNat 1, Op.div, qOfNat 1, qOfNat 1), (qOfNat 1, Op.add, qOfNat 2, qOfNat 3), (qOfNat 1, Op.add, qOfNat 3, qOfNat 4), (qOfNat 1, Op.mul, qOfNat 4, qOfNat 4)], [(qOfNat 1, Op.add, qOfNat 1, qOfNat 2), (qOfNat 1, Op.div, qOfNat 1, qOfNat 1), (qOfNat 1, Op.add, qOfNat 2, qOfNat 3), (qOfNat 1, Op.add, qOfNat 3, qOfNat 4), (qOfNat 4, Op.sub, qOfNat 1, qOfNat 3)], [(qOfNat 1, Op.add, qOfNat 1, qOfNat 2), (qOfNat 1, Op.div, qOfNat 1, qOfNat 1), (qOfNat 1, Op.add, qOfNat 2, qOfNat 3), (qOfNat 1, Op.add, qOfNat 3, qOfNat 4), (qOfNat 4, Op.div, qOfNat 1, qOfNat 4)], [(qOfNat 1, Op.add, qOfNat 1, qOfNat 2), (qOfNat 1, Op.div, qOfNat 1, qOfNat 1), (qOfNat 1, Op.add, qOfNat 2, qOfNat 3), (qOfNat 1, Op.mul, qOfNat 3, qOfNat 3), (qOfNat 1, Op.add, qOfNat 3, qOfNat 4)], [(qOfNat 1, Op.add, qOfNat 1, qOfNat 2), (qOfNat 1, Op.div, qOfNat 1, qOfNat 1), (qOfNat 1, Op.add, qOfNat 2, qOfNat 3), (qOfNat 1, Op.mul, qOfNat 3, qOfNat 3), (qOfNat 3, Op.sub, qOfNat 1, qOfNat 2)], [(qOfNat 1, Op.add, qOfNat 1, qOfNat 2), (qOfNat 1, Op.div, qOfNat 1, qOfNat 1), (qOfNat 1, Op.add, qOfNat 2, qOfNat 3), (qOfNat 1, Op.mul, qOfNat 3, qOfNat 3), (qOfNat 3, Op.div, qOfNat 1, qOfNat 3)], [(qOfNat 1, Op.add, qOfNat 1, qOfNat 2), (qOfNat 1, Op.div, qOfNat 1, qOfNat 1), (qOfNat 1, Op.add, qOfNat 2, qOfNat 3), (qOfNat 3, Op.sub, qOfNat 1, qOfNat 2), (qOfNat 1, Op.mul, qOfNat 2, qOfNat 2)], [(qOfNat 1, Op.add, qOfNat 1, qOfNat 2), (qOfNat 1, Op.div, qOfNat 1, qOfNat 1), (qOfNat 1, Op.add, qOfNat 2, qOfNat 3), (qOfNat 3, Op.sub, qOfNat 1, qOfNat 2), (qOfNat 2, Op.sub, qOfNat 1, qOfNat 1)], [(qOfNat 1, Op.add, qOfNat 1, qOfNat 2), (qOfNat 1, Op.div, qOfNat 1, qOfNat 1), (qOfNat 1, Op.add, qOfNat 2, qOfNat 3), (qOfNat 3, Op.sub, qOfNat 1, qOfNat 2), (qOfNat 2, Op.div, qOfNat 1, qOfNat 2)], [(qOfNat 1, Op.add, qOfNat 1, qOfNat 2), (qOfNat 1, Op.div, qOfNat 1, qOfNat 1), (qOfNat 1, Op.add, qOfNat 2, qOfNat 3), (qOfNat 3, Op.div, qOfNat 1, qOfNat 3), (qOfNat 1, Op.add, qOfNat 3, qOfNat 4)], [(qOfNat 1, Op.add, qOfNat 1, qOfNat 2), (qOfNat 1, Op.div, qOfNat 1, qOfNat 1), (qOfNat 1, Op.add, qOfNat 2, qOfNat 3), (qOfNat 3, Op.div, qOfNat 1, qOfNat 3), (qOfNat 3, Op.sub, qOfNat 1, qOfNat 2)], [(qOfNat 1, Op.add, qOfNat 1, qOfNat 2), (qOfNat 1, Op.div, qOfNat 1, qOfNat 1), (qOfNat 1, Op.mul, qOfNat 2, qOfNat 2), (qOfNat 1, Op.add, qOfNat 2, qOfNat 3), (qOfNat 1, Op.add, qOfNat 3, qOfNat 4)], [(qOfNat 1, Op.add, qOfNat 1, qOfNat 2), (qOfNat 1, Op.div, qOfNat 1, qOfNat 1), (qOfNat 1, Op.mul, qOfNat 2, qOfNat 2), (qOfNat 1, Op.add, qOfNat 2, qOfNat 3), (qOfNat 1, Op.mul, qOfNat 3, qOfNat 3)], [(qOfNat 1, Op.add, qOfNat 1, qOfNat 2), (qOfNat 1, Op.div, qOfNat 1, qOfNat 1), (qOfNat 1, Op.mul, qOfNat 2, qOfNat 2), (qOfNat 1, Op.add, qOfNat 2, qOfNat 3), (qOfNat 3, Op.div, qOfNat 1, qOfNat 3)], [(qOfNat 1, Op.add, qOfNat 1, qOfNat 2), (qOfNat 1, Op.div, qOfNat 1, qOfNat 1), (qOfNat 1, Op.mul, qOfNat 2, qOfNat 2), (qOfNat 2, Op.div, qOfNat 1, qOfNat 2), (qOfNat 1, Op.add, qOfNat 2, qOfNat 3)], [(qOfNat 1, Op.add, qOfNat 1, qOfNat 2), (qOfNat 1, Op.div, qOfNat 1, qOfNat 1), (qOfNat 1, Op.mul, qOfNat 2, qOfNat 2), (qOfNat 2, Op.div, qOfNat 1, qOfNat 2), (qOfNat 2, Op.sub, qOfNat 1, qOfNat 1)], [(qOfNat 1, Op.add, qOfNat 1, qOfNat 2), (qOfNat 1, Op.div, qOfNat 1, qOfNat 1), (qOfNat 2, Op.div, qOfNat 1, qOfNat 2), (qOfNat 1, Op.add, qOfNat 2, qOfNat 3), (qOfNat 1, Op.add, qOfNat 3, qOfNat 4)], [(qOfNat 1, Op.add, qOfNat 1, qOfNat 2), (qOfNat 1, Op.div, qOfNat 1, qOfNat 1), (qOfNat 2, Op.div, qOfNat 1, qOfNat 2), (qOfNat 1, Op.add, qOfNat 2, qOfNat 3), (qOfNat 1, Op.mul, qOfNat 3, qOfNat 3)], [(qOfNat 1, Op.add, qOfNat 1, qOfNat 2), (qOfNat 1, Op.div, qOfNat 1, qOfNat 1), (qOfNat 2, Op.div, qOfNat 1, qOfNat 2), (qOfNat 1, Op.add, qOfNat 2, qOfNat 3), (qOfNat 3, Op.div, qOfNat 1, qOfNat 3)], [(qOfNat 1, Op.add, qOfNat 1, qOfNat 2), (qOfNat 1, Op.add, qOfNat 2, qOfNat 3), (qOfNat 1, Op.add, qOfNat 3, qOfNat 4), (qOfNat 1, Op.add, qOfNat 4, qOfNat 5), (qOfNat 1, Op.add, qOfNat 5, qOfNat 6)], [(qOfNat 1, Op.add, qOfNat 1, qOfNat 2), (qOfNat 1, Op.add, qOfNat 2, qOfNat 3), (qOfNat 1, Op.add, qOfNat 3, qOfNat 4), (qOfNat 1, Op.add, qOfNat 4, qOfNat 5), (qOfNat 1, Op.mul, qOfNat 5, qOfNat 5)], [(qOfNat 1, Op.add, qOfNat 1, qOfNat 2), (qOfNat 1, Op.add, qOfNat 2, qOfNat 3), (qOfNat 1, Op.add, qOfNat 3, qOfNat 4), (qOfNat 1, Op.add, qOfNat 4, qOfNat 5), (qOfNat 5, Op.sub, qOfNat 1, qOfNat 4)], [(qOfNat 1, Op.add, qOfNat 1, qOfNat 2), (qOfNat 1, Op.add, qOfNat 2, qOfNat 3), (qOfNat 1, Op.add, qOfNat 3, qOfNat 4), (qOfNat 1, Op.add, qOfNat 4, qOfNat 5), (qOfNat 5, Op.div, qOfNat 1, qOfNat 5)], [(qOfNat 1, Op.add, qOfNat 1, qOfNat 2), (qOfNat 1, Op.add, qOfNat 2, qOfNat 3), (qOfNat 1, Op.add, qOfNat 3, qOfNat 4), (qOfNat 1, Op.mul, qOfNat 4, qOfNat 4), (qOfNat 1, Op.add, qOfNat 4, qOfNat 5)], [(qOfNat 1, Op.add, qOfNat 1, qOfNat 2), (qOfNat 1, Op.add, qOfNat 2, qOfNat 3), (qOfNat 1, Op.add, qOfNat 3, qOfNat 4), (qOfNat 1, Op.mul, qOfNat 4, qOfNat 4), (qOfNat 4, Op.sub, qOfNat 1, qOfNat 3)], [(qOfNat 1, Op.add, qOfNat 1, qOfNat 2), (qOfNat 1, Op.add, qOfNat 2, qOfNat 3), (qOfNat 1, Op.add, qOfNat 3, qOfNat 4), (qOfNat 1, Op.mul, qOfNat 4, qOfNat 4), (qOfNat 4, Op.div, qOfNat 1, qOfNat 4)], [(qOfNat 1, Op.add, qOfNat 1, qOfNat 2), (qOfNat 1, Op.add, qOfNat 2, qOfNat 3), (qOfNat 1, Op.add, qOfNat 3, qOfNat 4), (qOfNat 4, Op.sub, qOfNat 1, qOfNat 3), (qOfNat 1, Op.mul, qOfNat 3, qOfNat 3)], [(qOfNat 1, Op.add, qOfNat 1, qOfNat 2), (qOfNat 1, Op.add, qOfNat 2, qOfNat 3), (qOfNat 1, Op.add, qOfNat 3, qOfNat 4), (qOfNat 4, Op.sub, qOfNat 1, qOfNat 3), (qOfNat 3, Op.sub, qOfNat 1, qOfNat 2)], [(qOfNat 1, Op.add, qOfNat 1, qOfNat 2), (qOfNat 1, Op.add, qOfNat 2, qOfNat 3), (qOfNat 1, Op.add, qOfNat 3, qOfNat 4), (qOfNat 4, Op.sub, qOfNat 1, qOfNat 3), (qOfNat 3, Op.div, qOfNat 1, qOfNat 3)], [(qOfNat 1, Op.add, qOfNat 1, qOfNat 2), (qOfNat 1, Op.add, qOfNat 2, qOfNat 3), (qOfNat 1, Op.add, qOfNat 3, qOfNat 4), (qOfNat 4, Op.div, qOfNat 1, qOfNat 4), (qOfNat 1, Op.add, qOfNat 4, qOfNat 5)], [(qOfNat 1, Op.add, qOfNat 1, qOfNat 2), (qOfNat 1, Op.add, qOfNat 2, qOfNat 3), (qOfNat 1, Op.add, qOfNat 3, qOfNat 4), (qOfNat 4, Op.div, qOfNat 1, qOfNat 4), (qOfNat 4, Op.sub, qOfNat 1, qOfNat 3)], [(qOfNat 1, Op.add, qOfNat 1, qOfNat 2), (qOfNat 1, Op.add, qOfNat 2, qOfNat 3), (qOfNat 1, Op.mul, qOfNat 3, qOfNat 3), (qOfNat 1, Op.add, qOfNat 3, qOfNat 4), (qOfNat 1, Op.add, qOfNat 4, qOfNat 5)], [(qOfNat 1, Op.add, qOfNat 1, qOfNat 2), (qOfNat 1, Op.add, qOfNat 2, qOfNat 3), (qOfNat 1, Op.mul, qOfNat 3, qOfNat 3), (qOfNat 1, Op.add, qOfNat 3, qOfNat 4), (qOfNat 1, Op.mul, qOfNat 4, qOfNat 4)], [(qOfNat 1, Op.add, qOfNat 1, qOfNat 2), (qOfNat 1, Op.add, qOfNat 2, qOfNat 3), (qOfNat 1, Op.mul, qOfNat 3, qOfNat 3), (qOfNat 1, Op.add, qOfNat 3, qOfNat 4), (qOfNat 4, Op.div, qOfNat 1, qOfNat 4)], [(qOfNat 1, Op.add, qOfNat 1, qOfNat 2), (qOfNat 1, Op.add, qOfNat 2, qOfNat 3), (qOfNat 1, Op.mul, qOfNat 3, qOfNat 3), (qOfNat 3, Op.sub, qOfNat 1, qOfNat 2), (qOfNat 1, Op.mul, qOfNat 2, qOfNat 2)], [(qOfNat 1, Op.add, qOfNat 1, qOfNat 2), (qOfNat 1, Op.add, qOfNat 2, qOfNat 3), (qOfNat 1, Op.mul, qOfNat 3, qOfNat 3), (qOfNat 3, Op.sub, qOfNat 1, qOfNat 2), (qOfNat 2, Op.sub, qOfNat 1, qOfNat 1)], [(qOfNat 1, Op.add, qOfNat 1, qOfNat 2), (qOfNat 1, Op.add, qOfNat 2, qOfNat 3), (qOfNat 1, Op.mul, qOfNat 3, qOfNat 3), (qOfNat 3, Op.sub, qOfNat 1, qOfNat 2), (qOfNat 2, Op.div, qOfNat 1, qOfNat 2)], [(qOfNat 1, Op.add, qOfNat 1, qOfNat 2), (qOfNat 1, Op.add, qOfNat 2, qOfNat 3), (qOfNat 1, Op.mul, qOfNat 3, qOfNat 3), (qOfNat 3, Op.div, qOfNat 1, qOfNat 3), (qOfNat 1, Op.add, qOfNat 3, qOfNat 4)], [(qOfNat 1, Op.add, qOfNat 1, qOfNat 2), (qOfNat 1, Op.add, qOfNat 2, qOfNat 3), (qOfNat 1, Op.mul, qOfNat 3, qOfNat 3), (qOfNat 3, Op.div, qOfNat 1, qOfNat 3), (qOfNat 3, Op.sub, qOfNat 1, qOfNat 2)], [(qOfNat 1, Op.add, qOfNat 1, qOfNat 2), (qOfNat 1, Op.add, qOfNat 2, qOfNat 3), (qOfNat 3, Op.sub, qOfNat 1, qOfNat 2), (qOfNat 1, Op.mul, qOfNat 2, qOfNat 2), (qOfNat 2, Op.sub, qOfNat 1, qOfNat 1)], [(qOfNat 1, Op.add, qOfNat 1, qOfNat 2), (qOfNat 1, Op.add, qOfNat 2, qOfNat 3), (qOfNat 3, Op.sub, qOfNat 1, qOfNat 2), (qOfNat 1, Op.mul, qOfNat 2, qOfNat 2), (qOfNat 2, Op.div, qOfNat 1, qOfNat 2)], [(qOfNat 1, Op.add, qOfNat 1, qOfNat 2), (qOfNat 1, Op.add, qOfNat 2, qOfNat 3), (qOfNat 3, Op.sub, qOfNat 1, qOfNat 2), (qOfNat 2, Op.div, qOfNat 1, qOfNat 2), (qOfNat 2, Op.sub, qOfNat 1, qOfNat 1)], [(qOfNat 1, Op.add, qOfNat 1, qOfNat 2), (qOfNat 1, Op.add, qOfNat 2, qOfNat 3), (qOfNat 3, Op.div, qOfNat 1, qOfNat 3), (qOfNat 1, Op.add, qOfNat 3, qOfNat 4), (qOfNat 1, Op.add, qOfNat 4, qOfNat 5)], [(qOfNat 1, Op.add, qOfNat 1, qOfNat 2), (qOfNat 1, Op.add, qOfNat 2, qOfNat 3), (qOfNat 3, Op.div, qOfNat 1, qOfNat 3), (qOfNat 1, Op.add, qOfNat 3, qOfNat 4), (qOfNat 1, Op.mul, qOfNat 4, qOfNat 4)], [(qOfNat 1, Op.add, qOfNat 1, qOfNat 2), (qOfNat 1, Op.add, qOfNat 2, qOfNat 3), (qOfNat 3, Op.div, qOfNat 1, qOfNat 3), (qOfNat 1, Op.add, qOfNat 3, qOfNat 4), (qOfNat 4, Op.div, qOfNat 1, qOfNat 4)], [(qOfNat 1, Op.add, qOfNat 1, qOfNat 2), (qOfNat 1, Op.add, qOfNat 2, qOfNat 3), (qOfNat 3, Op.div, qOfNat 1, qOfNat 3), (qOfNat 3, Op.sub, qOfNat 1, qOfNat 2), (qOfNat 1, Op.mul, qOfNat 2, qOfNat 2)], [(qOfNat 1, Op.add, qOfNat 1, qOfNat 2), (qOfNat 1, Op.add, qOfNat 2, qOfNat 3), (qOfNat 3, Op.div, qOfNat 1, qOfNat 3), (qOfNat 3, Op.sub, qOfNat 1, qOfNat 2), (qOfNat 2, Op.sub, qOfNat 1, qOfNat 1)], [(qOfNat 1, Op.add, qOfNat 1, qOfNat 2), (qOfNat 1, Op.add, qOfNat 2, qOfNat 3), (qOfNat 3, Op.div, qOfNat 1, qOfNat 3), (qOfNat 3, Op.sub, qOfNat 1, qOfNat 2), (qOfNat 2, Op.div, qOfNat 1, qOfNat 2)], [(qOfNat 1, Op.add, qOfNat 1, qOfNat 2), (qOfNat 1, Op.mul, qOfNat 2, qOfNat 2), (qOfNat 1, Op.add, qOfNat 2, qOfNat 3), (qOfNat 1, Op.add, qOfNat 3, qOfNat 4), (qOfNat 1, Op.add, qOfNat 4, qOfNat 5)], [(qOfNat 1, Op.add, qOfNat 1, qOfNat 2), (qOfNat 1, Op.mul, qOfNat 2, qOfNat 2), (qOfNat 1, Op.add, qOfNat 2, qOfNat 3), (qOfNat 1, Op.add, qOfNat 3, qOfNat 4), (qOfNat 1, Op.mul, qOfNat 4, qOfNat 4)], [(qOfNat 1, Op.add, qOfNat 1, qOfNat 2), (qOfNat 1, Op.mul, qOfNat 2, qOfNat 2), (qOfNat 1, Op.add, qOfNat 2, qOfNat 3), (qOfNat 1, Op.add, qOfNat 3, qOfNat 4), (qOfNat 4, Op.sub, qOfNat 1, qOfNat 3)], [(qOfNat 1, Op.add, qOfNat 1, qOfNat 2), (qOfNat 1, Op.mul, qOfNat 2, qOfNat 2), (qOfNat 1, Op.add, qOfNat 2, qOfNat 3), (qOfNat 1, Op.add, qOfNat 3, qOfNat 4), (qOfNat 4, Op.div, qOfNat 1, qOfNat 4)], [(qOfNat 1, Op.add, qOfNat 1, qOfNat 2), (qOfNat 1, Op.mul, qOfNat 2, qOfNat 2), (qOfNat 1, Op.add, qOfNat 2, qOfNat 3), (qOfNat 1, Op.mul, qOfNat 3, qOfNat 3), (qOfNat 1, Op.add, qOfNat 3, qOfNat 4)], [(qOfNat 1, Op.add, qOfNat 1, qOfNat 2), (qOfNat 1, Op.mul, qOfNat 2, qOfNat 2), (qOfNat 1, Op.add, qOfNat 2, qOfNat 3), (qOfNat 1, Op.mul, qOfNat 3, qOfNat 3), (qOfNat 3, Op.div, qOfNat 1, qOfNat 3)], [(qOfNat 1, Op.add, qOfNat 1, qOfNat 2), (qOfNat 1, Op.mul, qOfNat 2, qOfNat 2), (qOfNat 1, Op.add, qOfNat 2, qOfNat 3), (qOfNat 3, Op.div, qOfNat 1, qOfNat 3), (qOfNat 1, Op.add, qOfNat 3, qOfNat 4)], [(qOfNat 1, Op.add, qOfNat 1, qOfNat 2), (qOfNat 1, Op.mul, qOfNat 2, qOfNat 2), (qOfNat 2, Op.div, qOfNat 1, qOfNat 2), (qOfNat 1, Op.add, qOfNat 2, qOfNat 3), (qOfNat 1, Op.add, qOfNat 3, qOfNat 4)], [(qOfNat 1, Op.add, qOfNat 1, qOfNat 2), (qOfNat 1, Op.mul, qOfNat 2, qOfNat 2), (qOfNat 2, Op.div, qOfNat 1, qOfNat 2), (qOfNat 1, Op.add, qOfNat 2, qOfNat 3), (qOfNat 1, Op.mul, qOfNat 3, qOfNat 3)], [(qOfNat 1, Op.add, qOfNat 1, qOfNat 2), (qOfNat 1, Op.mul, qOfNat 2, qOfNat 2), (qOfNat 2, Op.div, qOfNat 1, qOfNat 2), (qOfNat 1, Op.add, qOfNat 2, qOfNat 3), (qOfNat 3, Op.div, qOfNat 1, qOfNat 3)], [(qOfNat 1, Op.add, qOfNat 1, qOfNat 2), (qOfNat 2, Op.div, qOfNat 1, qOfNat 2), (qOfNat 1, Op.add, qOfNat 2, qOfNat 3), (qOfNat 1, Op.add, qOfNat 3, qOfNat 4), (qOfNat 1, Op.add, qOfNat 4, qOfNat 5)], [(qOfNat 1, Op.add, qOfNat 1, qOfNat 2), (qOfNat 2, Op.div, qOfNat 1, qOfNat 2), (qOfNat 1, Op.add, qOfNat 2, qOfNat 3), (qOfNat 1, Op.add, qOfNat 3, qOfNat 4), (qOfNat 1, Op.mul, qOfNat 4, qOfNat 4)], [(qOfNat 1, Op.add, qOfNat 1, qOfNat 2), (qOfNat 2, Op.div, qOfNat 1, qOfNat 2), (qOfNat 1, Op.add, qOfNat 2, qOfNat 3), (qOfNat 1, Op.add, qOfNat 3, qOfNat 4), (qOfNat 4, Op.sub, qOfNat 1, qOfNat 3)], [(qOfNat 1, Op.add, qOfNat 1, qOfNat 2), (qOfNat 2, Op.div, qOfNat 1, qOfNat 2), (qOfNat 1, Op.add, qOfNat 2, qOfNat 3), (qOfNat 1, Op.add, qOfNat 3, qOfNat 4), (qOfNat 4, Op.div, qOfNat 1, qOfNat 4)], [(qOfNat 1, Op.add, qOfNat 1, qOfNat 2), (qOfNat 2, Op.div, qOfNat 1, qOfNat 2), (qOfNat 1, Op.add, qOfNat 2, qOfNat 3), (qOfNat 1, Op.mul, qOfNat 3, qOfNat 3), (qOfNat 1, Op.add, qOfNat 3, qOfNat 4)], [(qOfNat 1, Op.add, qOfNat 1, qOfNat 2), (qOfNat 2, Op.div, qOfNat 1, qOfNat 2), (qOfNat 1, Op.add, qOfNat 2, qOfNat 3), (qOfNat 1, Op.mul, qOfNat 3, qOfNat 3), (qOfNat 3, Op.div, qOfNat 1, qOfNat 3)], [(qOfNat 1, Op.add, qOfNat 1, qOfNat 2), (qOfNat 2, Op.div, qOfNat 1, qOfNat 2), (qOfNat 1, Op.add, qOfNat 2, qOfNat 3), (qOfNat 3, Op.div, qOfNat 1, qOfNat 3), (qOfNat 1, Op.add, qOfNat 3, qOfNat 4)]]
/-- Queue contents of the breadth-first loop on selection [1, 1, 1, 1, 1, 1], target 6, after 110 iterations. -/
def traceQ11 : List BState :=
  [(qOfNat 4, [qOfNat 4], [(qOfNat 1, Op.add, qOfNat 1, qOfNat 2), (qOfNat 1, Op.div, qOfNat 1, qOfNat 1), (qOfNat 1, Op.add, qOfNat 2, qOfNat 3), (qOfNat 1, Op.add, qOfNat 3, qOfNat 4), (qOfNat 1, Op.mul, qOfNat 4, qOfNat 4)]), (qOfNat 3, [qOfNat 3], [(qOfNat 1, Op.add, qOfNat 1, qOfNat 2), (qOfNat 1, Op.div, qOfNat 1, qOfNat 1), (qOfNat 1, Op.add, qOfNat 2, qOfNat 3), (qOfNat 1, Op.add, qOfNat 3, qOfNat 4), (qOfNat 4, Op.sub, qOfNat 1, qOfNat 3)]), (qOfNat 4, [qOfNat 4], [(qOfNat 1, Op.add, qOfNat 1, qOfNat 2), (qOfNat 1, Op.div, qOfNat 1, qOfNat 1), (qOfNat 1, Op.add, qOfNat 2, qOfNat 3), (qOfNat 1, Op.add, qOfNat 3, qOfNat 4), (qOfNat 4, Op.div, qOfNat 1, qOfNat 4)]), (qOfNat 4, [qOfNat 4], [(qOfNat 1, Op.add, qOfNat 1, qOfNat 2), (qOfNat 1, Op.div, qOfNat 1, qOfNat 1), (qOfNat 1, Op.add, qOfNat 2, qOfNat 3), (qOfNat 1, Op.mul, qOfNat 3, qOfNat 3), (qOfNat 1, Op.add, qOfNat 3, qOfNat 4)]), (qOfNat 2, [qOfNat 2], [(qOfNat 1, Op.add, qOfNat 1, qOfNat 2), (qOfNat 1, Op.div, qOfNat 1, qOfNat 1), (qOfNat 1, Op.add, qOfNat 2, qOfNat 3), (qOfNat 1, Op.mul, qOfNat 3, qOfNat 3), (qOfNat 3, Op.sub, qOfNat 1, qOfNat 2)]), (qOfNat 3, [qOfNat 3], [(qOfNat 1, Op.add, qOfNat 1, qOfNat 2), (qOfNat 1, Op.div, qOfNat 1, qOfNat 1), (qOfNat 1, Op.add, qOfNat 2, qOfNat 3), (qOfNat 1, Op.mul, qOfNat 3, qOfNat 3), (qOfNat 3, Op.div, qOfNat 1, qOfNat 3)]), (qOfNat 2, [qOfNat 2], [(qOfNat 1, Op.add, qOfNat 1, qOfNat 2), (qOfNat 1, Op.div, qOfNat 1, qOfNat 1), (qOfNat 1, Op.add, qOfNat 2, qOfNat 3), (qOfNat 3, Op.sub, qOfNat 1, qOfNat 2), (qOfNat 1, Op.mul, qOfNat 2, qOfNat 2)]), (qOfNat 1, [qOfNat 1], [(qOfNat 1, Op.add, qOfNat 1, qOfNat 2), (qOfNat 1, Op.div, qOfNat 1, qOfNat 1), (qOfNat 1, Op.add, qOfNat 2, qOfNat 3), (qOfNat 3, Op.sub, qOfNat 1, qOfNat 2), (qOfNat 2, Op.sub, qOfNat 1, qOfNat 1)]), (qOfNat 2, [qOfNat 2], [(qOfNat 1, Op.add, qOfNat 1, qOfNat 2), (qOfNat 1, Op.div, qOfNat 1, qOfNat 1), (qOfNat 1, Op.add, qOfNat 2, qOfNat 3), (qOfNat 3, Op.sub, qOfNat 1, qOfNat 2), (qOfNat 2, Op.div, qOfNat 1, qOfNat 2)]), (qOfNat 4, [qOfNat 4], [(qOfNat 1, Op.add, qOfNat 1, qOfNat 2), (qOfNat 1, Op.div, qOfNat 1, qOfNat 1), (qOfNat 1, Op.add, qOfNat 2, qOfNat 3), (qOfNat 3, Op.div, qOfNat 1, qOfNat 3), (qOfNat 1, Op.add, qOfNat 3, qOfNat 4)]), (qOfNat 2, [qOfNat 2], [(qOfNat 1, Op.add, qOfNat 1, qOfNat 2), (qOfNat 1, Op.div, qOfNat 1, qOfNat 1), (qOfNat 1, Op.add, qOfNat 2, qOfNat 3), (qOfNat 3, Op.div, qOfNat 1, qOfNat 3), (qOfNat 3, Op.sub, qOfNat 1, qOfNat 2)]), (qOfNat 4, [qOfNat 4], [(qOfNat 1, Op.add, qOfNat 1, qOfNat 2), (qOfNat 1, Op.div, qOfNat 1, qOfNat 1), (qOfNat 1, Op.mul, qOfNat 2, qOfNat 2), (qOfNat 1, Op.add, qOfNat 2, qOfNat 3), (qOfNat 1, Op.add, qOfNat 3, qOfNat 4)]), (qOfNat 3, [qOfNat 3], [(qOfNat 1, Op.add, qOfNat 1, qOfNat 2), (qOfNat 1, Op.div, qOfNat 1, qOfNat 1), (qOfNat 1, Op.mul, qOfNat 2, qOfNat 2), (qOfNat 1, Op.add, qOfNat 2, qOfNat 3), (qOfNat 1, Op.mul, qOfNat 3, qOfNat 3)]), (qOfNat 3, [qOfNat 3], [(qOfNat 1, Op.add, qOfNat 1, qOfNat 2), (qOfNat 1, Op.div, qOfNat 1, qOfNat 1), (qOfNat 1, Op.mul, qOfNat 2, qOfNat 2), (qOfNat 1, Op.add, qOfNat 2, qOfNat 3), (qOfNat 3, Op.div, qOfNat 1, qOfNat 3)]), (qOfNat 3, [qOfNat 3], [(qOfNat 1, Op.add, qOfNat 1, qOfNat 2), (qOfNat 1, Op.div, qOfNat 1, qOfNat 1), (qOfNat 1, Op.mul, qOfNat 2, qOfNat 2), (qOfNat 2, Op.div, qOfNat 1, qOfNat 2), (qOfNat 1, Op.add, qOfNat 2, qOfNat 3)]), (qOfNat 1, [qOfNat 1], [(qOfNat 1, Op.add, qOfNat 1, qOfNat 2), (qOfNat 1, Op.div, qOfNat 1, qOfNat 1), (qOfNat 1, Op.mul, qOfNat 2, qOfNat 2), (qOfNat 2, Op.div, qOfNat 1, qOfNat 2), (qOfNat 2, Op.sub, qOfNat 1, qOfNat 1)]), (qOfNat 4, [qOfNat 4], [(qOfNat 1, Op.add, qOfNat 1, qOfNat 2), (qOfNat 1, Op.div, qOfNat 1, qOfNat 1), (qOfNat 2, Op.div, qOfNat 1, qOfNat 2), (qOfNat 1, Op.add, qOfNat 2, qOfNat 3), (qOfNat 1, Op.add, qOfNat 3, qOfNat 4)]), (qOfNat 3, [qOfNat 3], [(qOfNat 1, Op.add, qOfNat 1, qOfNat 2), (qOfNat 1, Op.div, qOfNat 1, qOfNat 1), (qOfNat 2, Op.div, qOfNat 1, qOfNat 2), (qOfNat 1, Op.add, qOfNat 2, qOfNat 3), (qOfNat 1, Op.mul, qOfNat 3, qOfNat 3)]), (qOfNat 3, [qOfNat 3], [(qOfNat 1, Op.add, qOfNat 1, qOfNat 2), (qOfNat 1, Op.div, qOfNat 1, qOfNat 1), (qOfNat 2, Op.div, qOfNat 1, qOfNat 2), (qOfNat 1, Op.add, qOfNat 2, qOfNat 3), (qOfNat 3, Op.div, qOfNat 1, qOfNat 3)]), (qOfNat 6, [qOfNat 6], [(qOfNat 1, Op.add, qOfNat 1, qOfNat 2), (qOfNat 1, Op.add, qOfNat 2, qOfNat 3), (qOfNat 1, Op.add, qOfNat 3, qOfNat 4), (qOfNat 1, Op.add, qOfNat 4, qOfNat 5), (qOfNat 1, Op.add, qOfNat 5, qOfNat 6)]), (qOfNat 5, [qOfNat 5], [(qOfNat 1, Op.add, qOfNat 1, qOfNat 2), (qOfNat 1, Op.add, qOfNat 2, qOfNat 3), (qOfNat 1, Op.add, qOfNat 3, qOfNat 4), (qOfNat 1, Op.add, qOfNat 4, qOfNat 5), (qOfNat 1, Op.mul, qOfNat 5, qOfNat 5)]), (qOfNat 4, [qOfNat 4], [(qOfNat 1, Op.add, qOfNat 1, qOfNat 2), (qOfNat 1, Op.add, qOfNat 2, qOfNat 3), (qOfNat 1, Op.add, qOfNat 3, qOfNat 4), (qOfNat 1, Op.add, qOfNat 4, qOfNat 5), (qOfNat 5, Op.sub, qOfNat 1, qOfNat 4)]), (qOfNat 5, [qOfNat 5], [(qOfNat 1, Op.add, qOfNat 1, qOfNat 2), (qOfNat 1, Op.add, qOfNat 2, qOfNat 3), (qOfNat 1, Op.add, qOfNat 3, qOfNat 4), (qOfNat 1, Op.add, qOfNat 4, qOfNat 5), (qOfNat 5, Op.div, qOfNat 1, qOfNat 5)]), (qOfNat 5, [qOfNat 5], [(qOfNat 1, Op.add, qOfNat 1, qOfNat 2), (qOfNat 1, Op.add, qOfNat 2, qOfNat 3), (qOfNat 1, Op.add, qOfNat 3, qOfNat 4), (qOfNat 1, Op.mul, qOfNat 4, qOfNat 4), (qOfNat 1, Op.add, qOfNat 4, qOfNat 5)]), (qOfNat 3, [qOfNat 3], [(qOfNat 1, Op.add, qOfNat 1, qOfNat 2), (qOfNat 1, Op.add, qOfNat 2, qOfNat 3), (qOfNat 1, Op.add, qOfNat 3, qOfNat 4), (qOfNat 1, Op.mul, qOfNat 4, qOfNat 4), (qOfNat 4, Op.sub, qOfNat 1, qOfNat 3)]), (qOfNat 4, [qOfNat 4], [(qOfNat 1, Op.add, qOfNat 1, qOfNat 2), (qOfNat 1, Op.add, qOfNat 2, qOfNat 3), (qOfNat 1, Op.add, qOfNat 3, qOfNat 4), (qOfNat 1, Op.mul, qOfNat 4, qOfNat 4), (qOfNat 4, Op.div, qOfNat 1, qOfNat 4)]), (qOfNat 3, [qOfNat 3], [(qOfNat 1, Op.add, qOfNat 1, qOfNat 2), (qOfNat 1, Op.add, qOfNat 2, qOfNat 3), (qOfNat 1, Op.add, qOfNat 3, qOfNat 4), (qOfNat 4, Op.sub, qOfNat 1, qOfNat 3), (qOfNat 1, Op.mul, qOfNat 3, qOfNat 3)]), (qOfNat 2, [qOfNat 2], [(qOfNat 1, Op.add, qOfNat 1, qOfNat 2), (qOfNat 1, Op.add, qOfNat 2, qOfNat 3), (qOfNat 1, Op.add, qOfNat 3, qOfNat 4), (qOfNat 4, Op.sub, qOfNat 1, qOfNat 3), (qOfNat 3, Op.sub, qOfNat 1, qOfNat 2)]), (qOfNat 3, [qOfNat 3], [(qOfNat 1, Op.add, qOfNat 1, qOfNat 2), (qOfNat 1, Op.add, qOfNat 2, qOfNat 3), (qOfNat 1, Op.add, qOfNat 3, qOfNat 4), (qOfNat 4, Op.sub, qOfNat 1, qOfNat 3), (qOfNat 3, Op.div, qOfNat 1, qOfNat 3)]), (qOfNat 5, [qOfNat 5], [(qOfNat 1, Op.add, qOfNat 1, qOfNat 2), (qOfNat 1, Op.add, qOfNat 2, qOfNat 3), (qOfNat 1, Op.add, qOfNat 3, qOfNat 4), (qOfNat 4, Op.div, qOfNat 1, qOfNat 4), (qOfNat 1, Op.add, qOfNat 4, qOfNat 5)]), (qOfNat 3, [qOfNat 3], [(qOfNat 1, Op.add, qOfNat 1, qOfNat 2), (qOfNat 1, Op.add, qOfNat 2, qOfNat 3), (qOfNat 1, Op.add, qOfNat 3, qOfNat 4), (qOfNat 4, Op.div, qOfNat 1, qOfNat 4), (qOfNat 4, Op.sub, qOfNat 1, qOfNat 3)]), (qOfNat 5, [qOfNat 5], [(qOfNat 1, Op.add, qOfNat 1, qOfNat 2), (qOfNat 1, Op.add, qOfNat 2, qOfNat 3), (qOfNat 1, Op.mul, qOfNat 3, qOfNat 3), (qOfNat 1, Op.add, qOfNat 3, qOfNat 4), (qOfNat 1, Op.add, qOfNat 4, qOfNat 5)]), (qOfNat 4, [qOfNat 4], [(qOfNat 1, Op.add, qOfNat 1, qOfNat 2), (qOfNat 1, Op.add, qOfNat 2, qOfNat 3), (qOfNat 1, Op.mul, qOfNat 3, qOfNat 3), (qOfNat 1, Op.add, qOfNat 3, qOfNat 4), (qOfNat 1, Op.mul, qOfNat 4, qOfNat 4)]), (qOfNat 4, [qOfNat 4], [(qOfNat 1, Op.add, qOfNat 1, qOfNat 2), (qOfNat 1, Op.add, qOfNat 2, qOfNat 3), (qOfNat 1, Op.mul, qOfNat 3, qOfNat 3), (qOfNat 1, Op.add, qOfNat 3, qOfNat 4), (qOfNat 4, Op.div, qOfNat 1, qOfNat 4)]), (qOfNat 2, [qOfNat 2], [(qOfNat 1, Op.add, qOfNat 1, qOfNat 2), (qOfNat 1, Op.add, qOfNat 2, qOfNat 3), (qOfNat 1, Op.mul, qOfNat 3, qOfNat 3), (qOfNat 3, Op.sub, qOfNat 1, qOfNat 2), (qOfNat 1, Op.mul, qOfNat 2, qOfNat 2)]), (qOfNat 1, [qOfNat 1], [(qOfNat 1, Op.add, qOfNat 1, qOfNat 2), (qOfNat 1, Op.add, qOfNat 2, qOfNat 3), (qOfNat 1, Op.mul, qOfNat 3, qOfNat 3), (qOfNat 3, Op.sub, qOfNat 1, qOfNat 2), (qOfNat 2, Op.sub, qOfNat 1, qOfNat 1)]), (qOfNat 2, [qOfNat 2], [(qOfNat 1, Op.add, qOfNat 1, qOfNat 2), (qOfNat 1, Op.add, qOfNat 2, qOfNat 3), (qOfNat 1, Op.mul, qOfNat 3, qOfNat 3), (qOfNat 3, Op.sub, qOfNat 1, qOfNat 2), (qOfNat 2, Op.div, qOfNat 1, qOfNat 2)]), (qOfNat 4, [qOfNat 4], [(qOfNat 1, Op.add, qOfNat 1, qOfNat 2), (qOfNat 1, Op.add, qOfNat 2, qOfNat 3), (qOfNat 1, Op.mul, qOfNat 3, qOfNat 3), (qOfNat 3, Op.div, qOfNat 1, qOfNat 3), (qOfNat 1, Op.add, qOfNat 3, qOfNat 4)]), (qOfNat 2, [qOfNat 2], [(qOfNat 1, Op.add, qOfNat 1, qOfNat 2), (qOfNat 1, Op.add, qOfNat 2, qOfNat 3), (qOfNat 1, Op.mul, qOfNat 3, qOfNat 3), (qOfNat 3, Op.div, qOfNat 1, qOfNat 3), (qOfNat 3, Op.sub, qOfNat 1, qOfNat 2)]), (qOfNat 1, [qOfNat 1], [(qOfNat 1, Op.add, qOfNat 1, qOfNat 2), (qOfNat 1, Op.add, qOfNat 2, qOfNat 3), (qOfNat 3, Op.sub, qOfNat 1, qOfNat 2), (qOfNat 1, Op.mul, qOfNat 2, qOfNat 2), (qOfNat 2, Op.sub, qOfNat 1, qOfNat 1)]), (qOfNat 2, [qOfNat 2], [(qOfNat 1, Op.add, qOfNat 1, qOfNat 2), (qOfNat 1, Op.add, qOfNat 2, qOfNat 3), (qOfNat 3, Op.sub, qOfNat 1, qOfNat 2), (qOfNat 1, Op.mul, qOfNat 2, qOfNat 2), (qOfNat 2, Op.div, qOfNat 1, qOfNat 2)]), (qOfNat 1, [qOfNat 1], [(qOfNat 1, Op.add, qOfNat 1, qOfNat 2), (qOfNat 1, Op.add, qOfNat 2, qOfNat 3), (qOfNat 3, Op.sub, qOfNat 1, qOfNat 2), (qOfNat 2, Op.div, qOfNat 1, qOfNat 2), (qOfNat 2, Op.sub, qOfNat 1, qOfNat 1)]), (qOfNat 5, [qOfNat 5], [(qOfNat 1, Op.add, qOfNat 1, qOfNat 2), (qOfNat 1, Op.add, qOfNat 2, qOfNat 3), (qOfNat 3, Op.div, qOfNat 1, qOfNat 3), (qOfNat 1, Op.add, qOfNat 3, qOfNat 4), (qOfNat 1, Op.add, qOfNat 4, qOfNat 5)]), (qOfNat 4, [qOfNat 4], [(qOfNat 1, Op.add, qOfNat 1, qOfNat 2), (qOfNat 1, Op.add, qOfNat 2, qOfNat 3), (qOfNat 3, Op.div, qOfNat 1, qOfNat 3), (qOfNat 1, Op.add, qOfNat 3, qOfNat 4), (qOfNat 1, Op.mul, qOfNat 4, qOfNat 4)]), (qOfNat 4, [qOfNat 4], [(qOfNat 1, Op.add, qOfNat 1, qOfNat 2), (qOfNat 1, Op.add, qOfNat 2, qOfNat 3), (qOfNat 3, Op.div, qOfNat 1, qOfNat 3), (qOfNat 1, Op.add, qOfNat 3, qOfNat 4), (qOfNat 4, Op.div, qOfNat 1, qOfNat 4)]), (qOfNat 2, [qOfNat 2], [(qOfNat 1, Op.add, qOfNat 1, qOfNat 2), (qOfNat 1, Op.add, qOfNat 2, qOfNat 3), (qOfNat 3, Op.div, qOfNat 1, qOfNat 3), (qOfNat 3, Op.sub, qOfNat 1, qOfNat 2), (qOfNat 1, Op.mul, qOfNat 2, qOfNat 2)]), (qOfNat 1, [qOfNat 1], [(qOfNat 1, Op.add, qOfNat 1, qOfNat 2), (qOfNat 1, Op.add, qOfNat 2, qOfNat 3), (qOfNat 3, Op.div, qOfNat 1, qOfNat 3), (qOfNat 3, Op.sub, qOfNat 1, qOfNat 2), (qOfNat 2, Op.sub, qOfNat 1, qOfNat 1)]), (qOfNat 2, [qOfNat 2], [(qOfNat 1, Op.add, qOfNat 1, qOfNat 2), (qOfNat 1, Op.add, qOfNat 2, qOfNat 3), (qOfNat 3, Op.div, qOfNat 1, qOfNat 3), (qOfNat 3, Op.sub, qOfNat 1, qOfNat 2), (qOfNat 2, Op.div, qOfNat 1, qOfNat 2)]), (qOfNat 5, [qOfNat 5], [(qOfNat 1, Op.add, qOfNat 1, qOfNat 2), (qOfNat 1, Op.mul, qOfNat 2, qOfNat 2), (qOfNat 1, Op.add, qOfNat 2, qOfNat 3), (qOfNat 1, Op.add, qOfNat 3, qOfNat 4), (qOfNat 1, Op.add, qOfNat 4, qOfNat 5)]), (qOfNat 4, [qOfNat 4], [(qOfNat 1, Op.add, qOfNat 1, qOfNat 2), (qOfNat 1, Op.mul, qOfNat 2, qOfNat 2), (qOfNat 1, Op.add, qOfNat 2, qOfNat 3), (qOfNat 1, Op.add, qOfNat 3, qOfNat 4), (qOfNat 1, Op.mul, qOfNat 4, qOfNat 4)]), (qOfNat 3, [qOfNat 3], [(qOfNat 1, Op.add, qOfNat 1, qOfNat 2), (qOfNat 1, Op.mul, qOfNat 2, qOfNat 2), (qOfNat 1, Op.add, qOfNat 2, qOfNat 3), (qOfNat 1, Op.add, qOfNat 3, qOfNat 4), (qOfNat 4, Op.sub, qOfNat 1, qOfNat 3)]), (qOfNat 4, [qOfNat 4], [(qOfNat 1, Op.add, qOfNat 1, qOfNat 2), (qOfNat 1, Op.mul, qOfNat 2, qOfNat 2), (qOfNat 1, Op.add, qOfNat 2, qOfNat 3), (qOfNat 1, Op.add, qOfNat 3, qOfNat 4), (qOfNat 4, Op.div, qOfNat 1, qOfNat 4)]), (qOfNat 4, [qOfNat 4], [(qOfNat 1, Op.add, qOfNat 1, qOfNat 2), (qOfNat 1, Op.mul, qOfNat 2, qOfNat 2), (qOfNat 1, Op.add, qOfNat 2, qOfNat 3), (qOfNat 1, Op.mul, qOfNat 3, qOfNat 3), (qOfNat 1, Op.add, qOfNat 3, qOfNat 4)]), (qOfNat 3, [qOfNat 3], [(qOfNat 1, Op.add, qOfNat 1, qOfNat 2), (qOfNat 1, Op.mul, qOfNat 2, qOfNat 2), (qOfNat 1, Op.add, qOfNat 2, qOfNat 3), (qOfNat 1, Op.mul, qOfNat 3, qOfNat 3), (qOfNat 3, Op.div, qOfNat 1, qOfNat 3)]), (qOfNat 4, [qOfNat 4], [(qOfNat 1, Op.add, qOfNat 1, qOfNat 2), (qOfNat 1, Op.mul, qOfNat 2, qOfNat 2), (qOfNat 1, Op.add, qOfNat 2, qOfNat 3), (qOfNat 3, Op.div, qOfNat 1, qOfNat 3), (qOfNat 1, Op.add, qOfNat 3, qOfNat 4)]), (qOfNat 4, [qOfNat 4], [(qOfNat 1, Op.add, qOfNat 1, qOfNat 2), (qOfNat 1, Op.mul, qOfNat 2, qOfNat 2), (qOfNat 2, Op.div, qOfNat 1, qOfNat 2), (qOfNat 1, Op.add, qOfNat 2, qOfNat 3), (qOfNat 1, Op.add, qOfNat 3, qOfNat 4)]), (qOfNat 3, [qOfNat 3], [(qOfNat 1, Op.add, qOfNat 1, qOfNat 2), (qOfNat 1, Op.mul, qOfNat 2, qOfNat 2), (qOfNat 2, Op.div, qOfNat 1, qOfNat 2), (qOfNat 1, Op.add, qOfNat 2, qOfNat 3), (qOfNat 1, Op.mul, qOfNat 3, qOfNat 3)]), (qOfNat 3, [qOfNat 3], [(qOfNat 1, Op.add, qOfNat 1, qOfNat 2), (qOfNat 1, Op.mul, qOfNat 2, qOfNat 2), (qOfNat 2, Op.div, qOfNat 1, qOfNat 2), (qOfNat 1, Op.add, qOfNat 2, qOfNat 3), (qOfNat 3, Op.div, qOfNat 1, qOfNat 3)]), (qOfNat 5, [qOfNat 5], [(qOfNat 1, Op.add, qOfNat 1, qOfNat 2), (qOfNat 2, Op.div, qOfNat 1, qOfNat 2), (qOfNat 1, Op.add, qOfNat 2, qOfNat 3), (qOfNat 1, Op.add, qOfNat 3, qOfNat 4), (qOfNat 1, Op.add, qOfNat 4, qOfNat 5)]), (qOfNat 4, [qOfNat 4], [(qOfNat 1, Op.add, qOfNat 1, qOfNat 2), (qOfNat 2, Op.div, qOfNat 1, qOfNat 2), (qOfNat 1, Op.add, qOfNat 2, qOfNat 3), (qOfNat 1, Op.add, qOfNat 3, qOfNat 4), (qOfNat 1, Op.mul, qOfNat 4, qOfNat 4)]), (qOfNat 3, [qOfNat 3], [(qOfNat 1, Op.add, qOfNat 1, qOfNat 2), (qOfNat 2, Op.div, qOfNat 1, qOfNat 2), (qOfNat 1, Op.add, qOfNat 2, qOfNat 3), (qOfNat 1, Op.add, qOfNat 3, qOfNat 4), (qOfNat 4, Op.sub, qOfNat 1, qOfNat 3)]), (qOfNat 4, [qOfNat 4], [(qOfNat 1, Op.add, qOfNat 1, qOfNat 2), (qOfNat 2, Op.div, qOfNat 1, qOfNat 2), (qOfNat 1, Op.add, qOfNat 2, qOfNat 3), (qOfNat 1, Op.add, qOfNat 3, qOfNat 4), (qOfNat 4, Op.div, qOfNat 1, qOfNat 4)]), (qOfNat 4, [qOfNat 4], [(qOfNat 1, Op.add, qOfNat 1, qOfNat 2), (qOfNat 2, Op.div, qOfNat 1, qOfNat 2), (qOfNat 1, Op.add, qOfNat 2, qOfNat 3), (qOfNat 1, Op.mul, qOfNat 3, qOfNat 3), (qOfNat 1, Op.add, qOfNat 3, qOfNat 4)]), (qOfNat 3, [qOfNat 3], [(qOfNat 1, Op.add, qOfNat 1, qOfNat 2), (qOfNat 2, Op.div, qOfNat 1, qOfNat 2), (qOfNat 1, Op.add, qOfNat 2, qOfNat 3), (qOfNat 1, Op.mul, qOfNat 3, qOfNat 3), (qOfNat 3, Op.div, qOfNat 1, qOfNat 3)]), (qOfNat 4, [qOfNat 4], [(qOfNat 1, Op.add, qOfNat 1, qOfNat 2), (qOfNat 2, Op.div, qOfNat 1, qOfNat 2), (qOfNat 1, Op.add, qOfNat 2, qOfNat 3), (qOfNat 3, Op.div, qOfNat 1, qOfNat 3), (qOfNat 1, Op.add, qOfNat 3, qOfNat 4)])]

/-- Seen path fingerprints of the same run after 110 iterations. -/
def traceU11 : List (List Oper) :=
  [[(qOfNat 1, Op.add, qOfNat 1, qOfNat 2)], [(qOfNat 1, Op.mul, qOfNat 1, qOfNat 1)], [(qOfNat 1, Op.div, qOfNat 1, qOfNat 1)], [(qOfNat 1, Op.add, qOfNat 1, qOfNat 2), (qOfNat 1, Op.mul, qOfNat 1, qOfNat 1)], [(qOfNat 1, Op.add, qOfNat 1, qOfNat 2), (qOfNat 1, Op.div, qOfNat 1, qOfNat 1)], [(qOfNat 1, Op.add, qOfNat 1, qOfNat 2), (qOfNat 1, Op.add, qOfNat 2, qOfNat 3)], [(qOfNat 1, Op.add, qOfNat 1, qOfNat 2), (qOfNat 1, Op.mul, qOfNat 2, qOfNat 2)], [(qOfNat 1, Op.add, qOfNat 1, qOfNat 2), (qOfNat 2, Op.sub, qOfNat 1, qOfNat 1)], [(qOfNat 1, Op.add, qOfNat 1, qOfNat 2), (qOfNat 2, Op.div, qOfNat 1, qOfNat 2)], [(qOfNat 1, Op.mul, qOfNat 1, qOfNat 1), (qOfNat 1, Op.div, qOfNat 1, qOfNat 1)], [(qOfNat 1, Op.add, qOfNat 1, qOfNat 2), (qOfNat 1, Op.mul, qOfNat 1, qOfNat 1), (qOfNat 1, Op.div, qOfNat 1, qOfNat 1)], [(qOfNat 1, Op.add, qOfNat 1, qOfNat 2), (qOfNat 1, Op.mul, qOfNat 1, qOfNat 1), (qOfNat 1, Op.add, qOfNat 2, qOfNat 3)], [(qOfNat 1, Op.add, qOfNat 1, qOfNat 2), (qOfNat 1, Op.mul, qOfNat 1, qOfNat 1), (qOfNat 1, Op.mul, qOfNat 2, qOfNat 2)], [(qOfNat 1, Op.add, qOfNat 1, qOfNat 2), (qOfNat 1, Op.mul, qOfNat 1, qOfNat 1), (qOfNat 2, Op.sub, qOfNat 1, qOfNat 1)], [(qOfNat 1, Op.add, qOfNat 1, qOfNat 2), (qOfNat 1, Op.mul, qOfNat 1, qOfNat 1), (qOfNat 2, Op.div, qOfNat 1, qOfNat 2)], [(qOfNat 1, Op.add, qOfNat 1, qOfNat 2), (qOfNat 1, Op.div, qOfNat 1, qOfNat 1), (qOfNat 1, Op.add, qOfNat 2, qOfNat 3)], [(qOfNat 1, Op.add, qOfNat 1, qOfNat 2), (qOfNat 1, Op.div, qOfNat 1, qOfNat 1), (qOfNat 1, Op.mul, qOfNat 2, qOfNat 2)], [(qOfNat 1, Op.add, qOfNat 1, qOfNat 2), (qOfNat 1, Op.div, qOfNat 1, qOfNat 1), (qOfNat 2, Op.sub, qOfNat 1, qOfNat 1)], [(qOfNat 1, Op.add, qOfNat 1, qOfNat 2), (qOfNat 1, Op.div, qOfNat 1, qOfNat 1), (qOfNat 2, Op.div, qOfNat 1, qOfNat 2)], [(qOfNat 1, Op.add, qOfNat 1, qOfNat 2), (qOfNat 1, Op.add, qOfNat 2, qOfNat 3), (qOfNat 1, Op.add, qOfNat 3, qOfNat 4)], [(qOfNat 1, Op.add, qOfNat 1, qOfNat 2), (qOfNat 1, Op.add, qOfNat 2, qOfNat 3), (qOfNat 1, Op.mul, qOfNat 3, qOfNat 3)], [(qOfNat 1, Op.add, qOfNat 1, qOfNat 2), (qOfNat 1, Op.add, qOfNat 2, qOfNat 3), (qOfNat 3, Op.sub, qOfNat 1, qOfNat 2)], [(qOfNat 1, Op.add, qOfNat 1, qOfNat 2), (qOfNat 1, Op.add, qOfNat 2, qOfNat 3), (qOfNat 3, Op.div, qOfNat 1, qOfNat 3)], [(qOfNat 1, Op.add, qOfNat 1, qOfNat 2), (qOfNat 1, Op.mul, qOfNat 2, qOfNat 2), (qOfNat 1, Op.add, qOfNat 2, qOfNat 3)], [(qOfNat 1, Op.add, qOfNat 1, qOfNat 2), (qOfNat 1, Op.mul, qOfNat 2, qOfNat 2), (qOfNat 2, Op.sub, qOfNat 1, qOfNat 1)], [(qOfNat 1, Op.add, qOfNat 1, qOfNat 2), (qOfNat 1, Op.mul, qOfNat 2, qOfNat 2), (qOfNat 2, Op.div, qOfNat 1, qOfNat 2)], [(qOfNat 1, Op.add, qOfNat 1, qOfNat 2), (qOfNat 2, Op.div, qOfNat 1, qOfNat 2), (qOfNat 1, Op.add, qOfNat 2, qOfNat 3)], [(qOfNat 1, Op.add, qOfNat 1, qOfNat 2), (qOfNat 2, Op.div, qOfNat 1, qOfNat 2), (qOfNat 2, Op.sub, qOfNat 1, qOfNat 1)], [(qOfNat 1, Op.add, qOfNat 1, qOfNat 2), (qOfNat 1, Op.mul, qOfNat 1, qOfNat 1), (qOfNat 1, Op.div, qOfNat 1, qOfNat 1), (qOfNat 2, Op.add, qOfNat 1, qOfNat 3)], [(qOfNat 1, Op.add, qOfNat 1, qOfNat 2), (qOfNat 1, Op.mul, qOfNat 1, qOfNat 1), (qOfNat 1, Op.div, qOfNat 1, qOfNat 1), (qOfNat 2, Op.sub, qOfNat 1, qOfNat 1)], [(qOfNat 1, Op.add, qOfNat 1, qOfNat 2), (qOfNat 1, Op.mul, qOfNat 1, qOfNat 1), (qOfNat 1, Op.div, qOfNat 1, qOfNat 1), (qOfNat 2, Op.mul, qOfNat 1, qOfNat 2)], [(qOfNat 1, Op.add, qOfNat 1, qOfNat 2), (qOfNat 1, Op.mul, qOfNat 1, qOfNat 1), (qOfNat 1, Op.div, qOfNat 1, qOfNat 1), (qOfNat 2, Op.div, qOfNat 1, qOfNat 2)], [(qOfNat 1, Op.add, qOfNat 1, qOfNat 2), (qOfNat 1, Op.mul, qOfNat 1, qOfNat 1), (qOfNat 1, Op.add, qOfNat 2, qOfNat 3), (qOfNat 1, Op.div, qOfNat 1, qOfNat 1)], [(qOfNat 1, Op.add, qOfNat 1, qOfNat 2), (qOfNat 1, Op.mul, qOfNat 1, qOfNat 1), (qOfNat 1, Op.add, qOfNat 2, qOfNat 3), (qOfNat 1, Op.add, qOfNat 3, qOfNat 4)], [(qOfNat 1, Op.add, qOfNat 1, qOfNat 2), (qOfNat 1, Op.mul, qOfNat 1, qOfNat 1), (qOfNat 1, Op.add, qOfNat 2, qOfNat 3), (qOfNat 1, Op.mul, qOfNat 3, qOfNat 3)], [(qOfNat 1, Op.add, qOfNat 1, qOfNat 2), (qOfNat 1, Op.mul, qOfNat 1, qOfNat 1), (qOfNat 1, Op.add, qOfNat 2, qOfNat 3), (qOfNat 3, Op.sub, qOfNat 1, qOfNat 2)], [(qOfNat 1, Op.add, qOfNat 1, qOfNat 2), (qOfNat 1, Op.mul, qOfNat 1, qOfNat 1), (qOfNat 1, Op.add, qOfNat 2, qOfNat 3), (qOfNat 3, Op.div, qOfNat 1, qOfNat 3)], [(qOfNat 1, Op.add, qOfNat 1, qOfNat 2), (qOfNat 1, Op.mul, qOfNat 1, qOfNat 1), (qOfNat 1, Op.mul, qOfNat 2, qOfNat 2), (qOfNat 1, Op.div, qOfNat 1, qOfNat 1)], [(qOfNat 1, Op.add, qOfNat 1, qOfNat 2), (qOfNat 1, Op.mul, qOfNat 1, qOfNat 1), (qOfNat 1, Op.mul, qOfNat 2, qOfNat 2), (qOfNat 1, Op.add, qOfNat 2, qOfNat 3)], [(qOfNat 1, Op.add, qOfNat 1, qOfNat 2), (qOfNat 1, Op.mul, qOfNat 1, qOfNat 1), (qOfNat 1, Op.mul, qOfNat 2, qOfNat 2), (qOfNat 2, Op.sub, qOfNat 1, qOfNat 1)], [(qOfNat 1, Op.add, qOfNat 1, qOfNat 2), (qOfNat 1, Op.mul, qOfNat 1, qOfNat 1), (qOfNat 1, Op.mul, qOfNat 2, qOfNat 2), (qOfNat 2, Op.div, qOfNat 1, qOfNat 2)], [(qOfNat 1, Op.add, qOfNat 1, qOfNat 2), (qOfNat 1, Op.mul, qOfNat 1, qOfNat 1), (qOfNat 2, Op.div, qOfNat 1, qOfNat 2), (qOfNat 1, Op.add, qOfNat 2, qOfNat 3)], [(qOfNat 1, Op.add, qOfNat 1, qOfNat 2), (qOfNat 1, Op.mul, qOfNat 1, qOfNat 1), (qOfNat 2, Op.div, qOfNat 1, qOfNat 2), (qOfNat 2, Op.sub, qOfNat 1, qOfNat 1)], [(qOfNat 1, Op.add, qOfNat 1, qOfNat 2), (qOfNat 1, Op.div, qOfNat 1, qOfNat 1), (qOfNat 1, Op.add, qOfNat 2, qOfNat 3), (qOfNat 1, Op.add, qOfNat 3, qOfNat 4)], [(qOfNat 1, Op.add, qOfNat 1, qOfNat 2), (qOfNat 1, Op.div, qOfNat 1, qOfNat 1), (qOfNat 1, Op.add, qOfNat 2, qOfNat 3), (qOfNat 1, Op.mul, qOfNat 3, qOfNat 3)], [(qOfNat 1, Op.add, qOfNat 1, qOfNat 2), (qOfNat 1, Op.div, qOfNat 1, qOfNat 1), (qOfNat 1, Op.add, qOfNat 2, qOfNat 3), (qOfNat 3, Op.sub, qOfNat 1, qOfNat 2)], [(qOfNat 1, Op.add, qOfNat 1, qOfNat 2), (qOfNat 1, Op.div, qOfNat 1, qOfNat 1), (qOfNat 1, Op.add, qOfNat 2, qOfNat 3), (qOfNat 3, Op.div, qOfNat 1, qOfNat 3)], [(qOfNat 1, Op.add, qOfNat 1, qOfNat 2), (qOfNat 1, Op.div, qOfNat 1, qOfNat 1), (qOfNat 1, Op.mul, qOfNat 2, qOfNat 2), (qOfNat 1, Op.add, qOfNat 2, qOfNat 3)], [(qOfNat 1, Op.add, qOfNat 1, qOfNat 2), (qOfNat 1, Op.div, qOfNat 1, qOfNat 1), (qOfNat 1, Op.mul, qOfNat 2, qOfNat 2), (qOfNat 2, Op.sub, qOfNat 1, qOfNat 1)], [(qOfNat 1, Op.add, qOfNat 1, qOfNat 2), (qOfNat 1, Op.div, qOfNat 1, qOfNat 1), (qOfNat 1, Op.mul, qOfNat 2, qOfNat 2), (qOfNat 2, Op.div, qOfNat 1, qOfNat 2)], [(qOfNat 1, Op.add, qOfNat 1, qOfNat 2), (qOfNat 1, Op.div, qOfNat 1, qOfNat 1), (qOfNat 2, Op.div, qOfNat 1, qOfNat 2), (qOfNat 1, Op.add, qOfNat 2, qOfNat 3)], [(qOfNat 1, Op.add, qOfNat 1, qOfNat 2), (qOfNat 1, Op.div, qOfNat 1, qOfNat 1), (qOfNat 2, Op.div, qOfNat 1, qOfNat 2), (qOfNat 2, Op.sub, qOfNat 1, qOfNat 1)], [(qOfNat 1, Op.add, qOfNat 1, qOfNat 2), (qOfNat 1, Op.add, qOfNat 2, qOfNat 3), (qOfNat 1, Op.add, qOfNat 3, qOfNat 4), (qOfNat 1, Op.add, qOfNat 4, qOfNat 5)], [(qOfNat 1, Op.add, qOfNat 1, qOfNat 2), (qOfNat 1, Op.add, qOfNat 2, qOfNat 3), (qOfNat 1, Op.add, qOfNat 3, qOfNat 4), (qOfNat 1, Op.mul, qOfNat 4, qOfNat 4)], [(qOfNat 1, Op.add, qOfNat 1, qOfNat 2), (qOfNat 1, Op.add, qOfNat 2, qOfNat 3), (qOfNat 1, Op.add, qOfNat 3, qOfNat 4), (qOfNat 4, Op.sub, qOfNat 1, qOfNat 3)], [(qOfNat 1, Op.add, qOfNat 1, qOfNat 2), (qOfNat 1, Op.add, qOfNat 2, qOfNat 3), (qOfNat 1, Op.add, qOfNat 3, qOfNat 4), (qOfNat 4, Op.div, qOfNat 1, qOfNat 4)], [(qOfNat 1, Op.add, qOfNat 1, qOfNat 2), (qOfNat 1, Op.add, qOfNat 2, qOfNat 3), (qOfNat 1, Op.mul, qOfNat 3, qOfNat 3), (qOfNat 1, Op.add, qOfNat 3, qOfNat 4)], [(qOfNat 1, Op.add, qOfNat 1, qOfNat 2), (qOfNat 1, Op.add, qOfNat 2, qOfNat 3), (qOfNat 1, Op.mul, qOfNat 3, qOfNat 3), (qOfNat 3, Op.sub, qOfNat 1, qOfNat 2)], [(qOfNat 1, Op.add, qOfNat 1, qOfNat 2), (qOfNat 1, Op.add, qOfNat 2, qOfNat 3), (qOfNat 1, Op.mul, qOfNat 3, qOfNat 3), (qOfNat 3, Op.div, qOfNat 1, qOfNat 3)], [(qOfNat 1, Op.add, qOfNat 1, qOfNat 2), (qOfNat 1, Op.add, qOfNat 2, qOfNat 3), (qOfNat 3, Op.sub, qOfNat 1, qOfNat 2), (qOfNat 1, Op.mul, qOfNat 2, qOfNat 2)], [(qOfNat 1, Op.add, qOfNat 1, qOfNat 2), (qOfNat 1, Op.add, qOfNat 2, qOfNat 3), (qOfNat 3, Op.sub, qOfNat 1, qOfNat 2), (qOfNat 2, Op.sub, qOfNat 1, qOfNat 1)], [(qOfNat 1, Op.add, qOfNat 1, qOfNat 2), (qOfNat 1, Op.add, qOfNat 2, qOfNat 3), (qOfNat 3, Op.sub, qOfNat 1, qOfNat 2), (qOfNat 2, Op.div, qOfNat 1, qOfNat 2)], [(qOfNat 1, Op.add, qOfNat 1, qOfNat 2), (qOfNat 1, Op.add, qOfNat 2, qOfNat 3), (qOfNat 3, Op.div, qOfNat 1, qOfNat 3), (qOfNat 1, Op.add, qOfNat 3, qOfNat 4)], [(qOfNat 1, Op.add, qOfNat 1, qOfNat 2), (qOfNat 1, Op.add, qOfNat 2, qOfNat 3), (qOfNat 3, Op.div, qOfNat 1, qOfNat 3), (qOfNat 3, Op.sub, qOfNat 1, qOfNat 2)], [(qOfNat 1, Op.add, qOfNat 1, qOfNat 2), (qOfNat 1, Op.mul, qOfNat 2, qOfNat 2), (qOfNat 1, Op.add, qOfNat 2, qOfNat 3), (qOfNat 1, Op.add, qOfNat 3, qOfNat 4)], [(qOfNat 1, Op.add, qOfNat 1, qOfNat 2), (qOfNat 1, Op.mul, qOfNat 2, qOfNat 2), (qOfNat 1, Op.add, qOfNat 2, qOfNat 3), (qOfNat 1, Op.mul, qOfNat 3, qOfNat 3)], [(qOfNat 1, Op.add, qOfNat 1, qOfNat 2), (qOfNat 1, Op.mul, qOfNat 2, qOfNat 2), (qOfNat 1, Op.add, qOfNat 2, qOfNat 3), (qOfNat 3, Op.div, qOfNat 1, qOfNat 3)], [(qOfNat 1, Op.add, qOfNat 1, qOfNat 2), (qOfNat 1, Op.mul, qOfNat 2, qOfNat 2), (qOfNat 2, Op.div, qOfNat 1, qOfNat 2), (qOfNat 1, Op.add, qOfNat 2, qOfNat 3)], [(qOfNat 1, Op.add, qOfNat 1, qOfNat 2), (qOfNat 1, Op.mul, qOfNat 2, qOfNat 2), (qOfNat 2, Op.div, qOfNat 1, qOfNat 2), (qOfNat 2, Op.sub, qOfNat 1, qOfNat 1)], [(qOfNat 1, Op.add, qOfNat 1, qOfNat 2), (qOfNat 2, Op.div, qOfNat 1, qOfNat 2), (qOfNat 1, Op.add, qOfNat 2, qOfNat 3), (qOfNat 1, Op.add, qOfNat 3, qOfNat 4)], [(qOfNat 1, Op.add, qOfNat 1, qOfNat 2), (qOfNat 2, Op.div, qOfNat 1, qOfNat 2), (qOfNat 1, Op.add, qOfNat 2, qOfNat 3), (qOfNat 1, Op.mul, qOfNat 3, qOfNat 3)], [(qOfNat 1, Op.add, qOfNat 1, qOfNat 2), (qOfNat 2, Op.div, qOfNat 1, qOfNat 2), (qOfNat 1, Op.add, qOfNat 2, qOfNat 3), (qOfNat 3, Op.div, qOfNat 1, qOfNat 3)], [(qOfNat 1, Op.add, qOfNat 1, qOfNat 2), (qOfNat 1, Op.mul, qOfNat 1, qOfNat 1), (qOfNat 1, Op.div, qOfNat 1, qOfNat 1), (qOfNat 2, Op.add, qOfNat 1, qOfNat 3), (qOfNat 1, Op.add, qOfNat 3, qOfNat 4)], [(qOfNat 1, Op.add, qOfNat 1, qOfNat 2), (qOfNat 1, Op.mul, qOfNat 1, qOfNat 1), (qOfNat 1, Op.div, qOfNat 1, qOfNat 1), (qOfNat 2, Op.add, qOfNat 1, qOfNat 3), (qOfNat 1, Op.mul, qOfNat 3, qOfNat 3)], [(qOfNat 1, Op.add, qOfNat 1, qOfNat 2), (qOfNat 1, Op.mul, qOfNat 1, qOfNat 1), (qOfNat 1, Op.div, qOfNat 1, qOfNat 1), (qOfNat 2, Op.add, qOfNat 1, qOfNat 3), (qOfNat 3, Op.sub, qOfNat 1, qOfNat 2)], [(qOfNat 1, Op.add, qOfNat 1, qOfNat 2), (qOfNat 1, Op.mul, qOfNat 1, qOfNat 1), (qOfNat 1, Op.div, qOfNat 1, qOfNat 1), (qOfNat 2, Op.add, qOfNat 1, qOfNat 3), (qOfNat 3, Op.div, qOfNat 1, qOfNat 3)], [(qOfNat 1, Op.add, qOfNat 1, qOfNat 2), (qOfNat 1, Op.mul, qOfNat 1, qOfNat 1), (qOfNat 1, Op.div, qOfNat 1, qOfNat 1), (qOfNat 2, Op.mul, qOfNat 1, qOfNat 2), (qOfNat 1, Op.add, qOfNat 2, qOfNat 3)], [(qOfNat 1, Op.add, qOfNat 1, qOfNat 2), (qOfNat 1, Op.mul, qOfNat 1, qOfNat 1), (qOfNat 1, Op.div, qOfNat 1, qOfNat 1), (qOfNat 2, Op.mul, qOfNat 1, qOfNat 2), (qOfNat 2, Op.sub, qOfNat 1, qOfNat 1)], [(qOfNat 1, Op.add, qOfNat 1, qOfNat 2), (qOfNat 1, Op.mul, qOfNat 1, qOfNat 1), (qOfNat 1, Op.div, qOfNat 1, qOfNat 1), (qOfNat 2, Op.mul, qOfNat 1, qOfNat 2), (qOfNat 2, Op.div, qOfNat 1, qOfNat 2)], [(qOfNat 1, Op.add, qOfNat 1, qOfNat 2), (qOfNat 1, Op.mul, qOfNat 1, qOfNat 1), (qOfNat 1, Op.div, qOfNat 1, qOfNat 1), (qOfNat 2, Op.div, qOfNat 1, qOfNat 2), (qOfNat 1, Op.add, qOfNat 2, qOfNat 3)], [(qOfNat 1, Op.add, qOfNat 1, qOfNat 2), (qOfNat 1, Op.mul, qOfNat 1, qOfNat 1), (qOfNat 1, Op.div, qOfNat 1, qOfNat 1), (qOfNat 2, Op.div, qOfNat 1, qOfNat 2), (qOfNat 2, Op.sub, qOfNat 1, qOfNat 1)], [(qOfNat 1, Op.add, qOfNat 1, qOfNat 2), (qOfNat 1, Op.mul, qOfNat 1, qOfNat 1), (qOfNat 1, Op.add, qOfNat 2, qOfNat 3), (qOfNat 1, Op.div, qOfNat 1, qOfNat 1), (qOfNat 3, Op.add, qOfNat 1, qOfNat 4)], [(qOfNat 1, Op.add, qOfNat 1, qOfNat 2), (qOfNat 1, Op.mul, qOfNat 1, qOfNat 1), (qOfNat 1, Op.add, qOfNat 2, qOfNat 3), (qOfNat 1, Op.div, qOfNat 1, qOfNat 1), (qOfNat 3, Op.sub, qOfNat 1, qOfNat 2)], [(qOfNat 1, Op.add, qOfNat 1, qOfNat 2), (qOfNat 1, Op.mul, qOfNat 1, qOfNat 1), (qOfNat 1, Op.add, qOfNat 2, qOfNat 3), (qOfNat 1, Op.div, qOfNat 1, qOfNat 1), (qOfNat 3, Op.mul, qOfNat 1, qOfNat 3)], [(qOfNat 1, Op.add, qOfNat 1, qOfNat 2), (qOfNat 1, Op.mul, qOfNat 1, qOfNat 1), (qOfNat 1, Op.add, qOfNat 2, qOfNat 3), (qOfNat 1, Op.div, qOfNat 1, qOfNat 1), (qOfNat 3, Op.div, qOfNat 1, qOfNat 3)], [(qOfNat 1, Op.add, qOfNat 1, qOfNat 2), (qOfNat 1, Op.mul, qOfNat 1, qOfNat 1), (qOfNat 1, Op.add, qOfNat 2, qOfNat 3), (qOfNat 1, Op.add, qOfNat 3, qOfNat 4), (qOfNat 1, Op.add, qOfNat 4, qOfNat 5)], [(qOfNat 1, Op.add, qOfNat 1, qOfNat 2), (qOfNat 1, Op.mul, qOfNat 1, qOfNat 1), (qOfNat 1, Op.add, qOfNat 2, qOfNat 3), (qOfNat 1, Op.add, qOfNat 3, qOfNat 4), (qOfNat 1, Op.mul, qOfNat 4, qOfNat 4)], [(qOfNat 1, Op.add, qOfNat 1, qOfNat 2), (qOfNat 1, Op.mul, qOfNat 1, qOfNat 1), (qOfNat 1, Op.add, qOfNat 2, qOfNat 3), (qOfNat 1, Op.add, qOfNat 3, qOfNat 4), (qOfNat 4, Op.sub, qOfNat 1, qOfNat 3)], [(qOfNat 1, Op.add, qOfNat 1, qOfNat 2), (qOfNat 1, Op.mul, qOfNat 1, qOfNat 1), (qOfNat 1, Op.add, qOfNat 2, qOfNat 3), (qOfNat 1, Op.add, qOfNat 3, qOfNat 4), (qOfNat 4, Op.div, qOfNat 1, qOfNat 4)], [(qOfNat 1, Op.add, qOfNat 1, qOfNat 2), (qOfNat 1, Op.mul, qOfNat 1, qOfNat 1), (qOfNat 1, Op.add, qOfNat 2, qOfNat 3), (qOfNat 1, Op.mul, qOfNat 3, qOfNat 3), (qOfNat 1, Op.add, qOfNat 3, qOfNat 4)], [(qOfNat 1, Op.add, qOfNat 1, qOfNat 2), (qOfNat 1, Op.mul, qOfNat 1, qOfNat 1), (qOfNat 1, Op.add, qOfNat 2, qOfNat 3), (qOfNat 1, Op.mul, qOfNat 3, qOfNat 3), (qOfNat 3, Op.sub, qOfNat 1, qOfNat 2)], [(qOfNat 1, Op.add, qOfNat 1, qOfNat 2), (qOfNat 1, Op.mul, qOfNat 1, qOfNat 1), (qOfNat 1, Op.add, qOfNat 2, qOfNat 3), (qOfNat 1, Op.mul, qOfNat 3, qOfNat 3), (qOfNat 3, Op.div, qOfNat 1, qOfNat 3)], [(qOfNat 1, Op.add, qOfNat 1, qOfNat 2), (qOfNat 1, Op.mul, qOfNat 1, qOfNat 1), (qOfNat 1, Op.add, qOfNat 2, qOfNat 3), (qOfNat 3, Op.sub, qOfNat 1, qOfNat 2), (qOfNat 1, Op.mul, qOfNat 2, qOfNat 2)], [(qOfNat 1, Op.add, qOfNat 1, qOfNat 2), (qOfNat 1, Op.mul, qOfNat 1, qOfNat 1), (qOfNat 1, Op.add, qOfNat 2, qOfNat 3), (qOfNat 3, Op.sub, qOfNat 1, qOfNat 2), (qOfNat 2, Op.sub, qOfNat 1, qOfNat 1)], [(qOfNat 1, Op.add, qOfNat 1, qOfNat 2), (qOfNat 1, Op.mul, qOfNat 1, qOfNat 1), (qOfNat 1, Op.add, qOfNat 2, qOfNat 3), (qOfNat 3, Op.sub, qOfNat 1, qOfNat 2), (qOfNat 2, Op.div, qOfNat 1, qOfNat 2)], [(qOfNat 1, Op.add, qOfNat 1, qOfNat 2), (qOfNat 1, Op.mul, qOfNat 1, qOfNat 1), (qOfNat 1, Op.add, qOfNat 2, qOfNat 3), (qOfNat 3, Op.div, qOfNat 1, qOfNat 3), (qOfNat 1, Op.add, qOfNat 3, qOfNat 4)], [(qOfNat 1, Op.add, qOfNat 1, qOfNat 2), (qOfNat 1, Op.mul, qOfNat 1, qOfNat 1), (qOfNat 1, Op.add, qOfNat 2, qOfNat 3), (qOfNat 3, Op.div, qOfNat 1, qOfNat 3), (qOfNat 3, Op.sub, qOfNat 1, qOfNat 2)], [(qOfNat 1, Op.add, qOfNat 1, qOfNat 2), (qOfNat 1, Op.mul, qOfNat 1, qOfNat 1), (qOfNat 1, Op.mul, qOfNat 2, qOfNat 2), (qOfNat 1, Op.div, qOfNat 1, qOfNat 1), (qOfNat 2, Op.add, qOfNat 1, qOfNat 3)], [(qOfNat 1, Op.add, qOfNat 1, qOfNat 2), (qOfNat 1, Op.mul, qOfNat 1, qOfNat 1), (qOfNat 1, Op.mul, qOfNat 2, qOfNat 2), (qOfNat 1, Op.div, qOfNat 1, qOfNat 1), (qOfNat 2, Op.sub, qOfNat 1, qOfNat 1)], [(qOfNat 1, Op.add, qOfNat 1, qOfNat 2), (qOfNat 1, Op.mul, qOfNat 1, qOfNat 1), (qOfNat 1, Op.mul, qOfNat 2, qOfNat 2), (qOfNat 1, Op.div, qOfNat 1, qOfNat 1), (qOfNat 2, Op.div, qOfNat 1, qOfNat 2)], [(qOfNat 1, Op.add, qOfNat 1, qOfNat 2), (qOfNat 1, Op.mul, qOfNat 1, qOfNat 1), (qOfNat 1, Op.mul, qOfNat 2, qOfNat 2), (qOfNat 1, Op.add, qOfNat 2, qOfNat 3), (qOfNat 1, Op.add, qOfNat 3, qOfNat 4)], [(qOfNat 1, Op.add, qOfNat 1, qOfNat 2), (qOfNat 1, Op.mul, qOfNat 1, qOfNat 1), (qOfNat 1, Op.mul, qOfNat 2, qOfNat 2), (qOfNat 1, Op.add, qOfNat 2, qOfNat 3), (qOfNat 1, Op.mul, qOfNat 3, qOfNat 3)], [(qOfNat 1, Op.add, qOfNat 1, qOfNat 2), (qOfNat 1, Op.mul, qOfNat 1, qOfNat 1), (qOfNat 1, Op.mul, qOfNat 2, qOfNat 2), (qOfNat 1, Op.add, qOfNat 2, qOfNat 3), (qOfNat 3, Op.div, qOfNat 1, qOfNat 3)], [(qOfNat 1, Op.add, qOfNat 1, qOfNat 2), (qOfNat 1, Op.mul, qOfNat 1, qOfNat 1), (qOfNat 1, Op.mul, qOfNat 2, qOfNat 2), (qOfNat 2, Op.div, qOfNat 1, qOfNat 2), (qOfNat 1, Op.add, qOfNat 2, qOfNat 3)], [(qOfNat 1, Op.add, qOfNat 1, qOfNat 2), (qOfNat 1, Op.mul, qOfNat 1, qOfNat 1), (qOfNat 1, Op.mul, qOfNat 2, qOfNat 2), (qOfNat 2, Op.div, qOfNat 1, qOfNat 2), (qOfNat 2, Op.sub, qOfNat 1, qOfNat 1)], [(qOfNat 1, Op.add, qOfNat 1, qOfNat 2), (qOfNat 1, Op.mul, qOfNat 1, qOfNat 1), (qOfNat 2, Op.div, qOfNat 1, qOfNat 2), (qOfNat 1, Op.add, qOfNat 2, qOfNat 3), (qOfNat 1, Op.add, qOfNat 3, qOfNat 4)], [(qOfNat 1, Op.add, qOfNat 1, qOfNat 2), (qOfNat 1, Op.mul, qOfNat 1, qOfNat 1), (qOfNat 2, Op.div, qOfNat 1, qOfNat 2), (qOfNat 1, Op.add, qOfNat 2, qOfNat 3), (qOfNat 1, Op.mul, qOfNat 3, qOfNat 3)], [(qOfNat 1, Op.add, qOfNat 1, qOfNat 2), (qOfNat 1, Op.mul, qOfNat 1, qOfNat 1), (qOfNat 2, Op.div, qOfNat 1, qOfNat 2), (qOfNat 1, Op.add, qOfNat 2, qOfNat 3), (qOfNat 3, Op.div, qOfNat 1, qOfNat 3)], [(qOfNat 1, Op.add, qOfNat 1, qOfNat 2), (qOfNat 1, Op.div, qOfNat 1, qOfNat 1), (qOfNat 1, Op.add, qOfNat 2, qOfNat 3), (qOfNat 1, Op.add, qOfNat 3, qOfNat 4), (qOfNat 1, Op.add, qOfNat 4, qOfNat 5)], [(qOfNat 1, Op.add, qOfNat 1, qOfNat 2), (qOfNat 1, Op.div, qOfNat 1, qOfNat 1), (qOfNat 1, Op.add, qOfNat 2, qOfNat 3), (qOfNat 1, Op.add, qOfNat 3, qOfNat 4), (qOfNat 1, Op.mul, qOfNat 4, qOfNat 4)], [(qOfNat 1, Op.add, qOfNat 1, qOfNat 2), (qOfNat 1, Op.div, qOfNat 1, qOfNat 1), (qOfNat 1, Op.add, qOfNat 2, qOfNat 3), (qOfNat 1, Op.add, qOfNat 3, qOfNat 4), (qOfNat 4, Op.sub, qOfNat 1, qOfNat 3)], [(qOfNat 1, Op.add, qOfNat 1, qOfNat 2), (qOfNat 1, Op.div, qOfNat 1, qOfNat 1), (qOfNat 1, Op.add, qOfNat 2, qOfNat 3), (qOfNat 1, Op.add, qOfNat 3, qOfNat 4), (qOfNat 4, Op.div, qOfNat 1, qOfNat 4)], [(qOfNat 1, Op.add, qOfNat 1, qOfNat 2), (qOfNat 1, Op.div, qOfNat 1, qOfNat 1), (qOfNat 1, Op.add, qOfNat 2, qOfNat 3), (qOfNat 1, Op.mul, qOfNat 3, qOfNat 3), (qOfNat 1, Op.add, qOfNat 3, qOfNat 4)], [(qOfNat 1, Op.add, qOfNat 1, qOfNat 2), (qOfNat 1, Op.div, qOfNat 1, qOfNat 1), (qOfNat 1, Op.add, qOfNat 2, qOfNat 3), (qOfNat 1, Op.mul, qOfNat 3, qOfNat 3), (qOfNat 3, Op.sub, qOfNat 1, qOfNat 2)], [(qOfNat 1, Op.add, qOfNat 1, qOfNat 2), (qOfNat 1, Op.div, qOfNat 1, qOfNat 1), (qOfNat 1, Op.add, qOfNat 2, qOfNat 3), (qOfNat 1, Op.mul, qOfNat 3, qOfNat 3), (qOfNat 3, Op.div, qOfNat 1, qOfNat 3)], [(qOfNat 1, Op.add, qOfNat 1, qOfNat 2), (qOfNat 1, Op.div, qOfNat 1, qOfNat 1), (qOfNat 1, Op.add, qOfNat 2, qOfNat 3), (qOfNat 3, Op.sub, qOfNat 1, qOfNat 2), (qOfNat 1, Op.mul, qOfNat 2, qOfNat 2)], [(qOfNat 1, Op.add, qOfNat 1, qOfNat 2), (qOfNat 1, Op.div, qOfNat 1, qOfNat 1), (qOfNat 1, Op.add, qOfNat 2, qOfNat 3), (qOfNat 3, Op.sub, qOfNat 1, qOfNat 2), (qOfNat 2, Op.sub, qOfNat 1, qOfNat 1)], [(qOfNat 1, Op.add, qOfNat 1, qOfNat 2), (qOfNat 1, Op.div, qOfNat 1, qOfNat 1), (qOfNat 1, Op.add, qOfNat 2, qOfNat 3), (qOfNat 3, Op.sub, qOfNat 1, qOfNat 2), (qOfNat 2, Op.div, qOfNat 1, qOfNat 2)], [(qOfNat 1, Op.add, qOfNat 1, qOfNat 2), (qOfNat 1, Op.div, qOfNat 1, qOfNat 1), (qOfNat 1, Op.add, qOfNat 2, qOfNat 3), (qOfNat 3, Op.div, qOfNat 1, qOfNat 3), (qOfNat 1, Op.add, qOfNat 3, qOfNat 4)], [(qOfNat 1, Op.add, qOfNat 1, qOfNat 2), (qOfNat 1, Op.div, qOfNat 1, qOfNat 1), (qOfNat 1, Op.add, qOfNat 2, qOfNat 3), (qOfNat 3, Op.div, qOfNat 1, qOfNat 3), (qOfNat 3, Op.sub, qOfNat 1, qOfNat 2)], [(qOfNat 1, Op.add, qOfNat 1, qOfNat 2), (qOfNat 1, Op.div, qOfNat 1, qOfNat 1), (qOfNat 1, Op.mul, qOfNat 2, qOfNat 2), (qOfNat 1, Op.add, qOfNat 2, qOfNat 3), (qOfNat 1, Op.add, qOfNat 3, qOfNat 4)], [(qOfNat 1, Op.add, qOfNat 1, qOfNat 2), (qOfNat 1, Op.div, qOfNat 1, qOfNat 1), (qOfNat 1, Op.mul, qOfNat 2, qOfNat 2), (qOfNat 1, Op.add, qOfNat 2, qOfNat 3), (qOfNat 1, Op.mul, qOfNat 3, qOfNat 3)], [(qOfNat 1, Op.add, qOfNat 1, qOfNat 2), (qOfNat 1, Op.div, qOfNat 1, qOfNat 1), (qOfNat 1, Op.mul, qOfNat 2, qOfNat 2), (qOfNat 1, Op.add, qOfNat 2, qOfNat 3), (qOfNat 3, Op.div, qOfNat 1, qOfNat 3)], [(qOfNat 1, Op.add, qOfNat 1, qOfNat 2), (qOfNat 1, Op.div, qOfNat 1, qOfNat 1), (qOfNat 1, Op.mul, qOfNat 2, qOfNat 2), (qOfNat 2, Op.div, qOfNat 1, qOfNat 2), (qOfNat 1, Op.add, qOfNat 2, qOfNat 3)], [(qOfNat 1, Op.add, qOfNat 1, qOfNat 2), (qOfNat 1, Op.div, qOfNat 1, qOfNat 1), (qOfNat 1, Op.mul, qOfNat 2, qOfNat 2), (qOfNat 2, Op.div, qOfNat 1, qOfNat 2), (qOfNat 2, Op.sub, qOfNat 1, qOfNat 1)], [(qOfNat 1, Op.add, qOfNat 1, qOfNat 2), (qOfNat 1, Op.div, qOfNat 1, qOfNat 1), (qOfNat 2, Op.div, qOfNat 1, qOfNat 2), (qOfNat 1, Op.add, qOfNat 2, qOfNat 3), (qOfNat 1, Op.add, qOfNat 3, qOfNat 4)], [(qOfNat 1, Op.add, qOfNat 1, qOfNat 2), (qOfNat 1, Op.div, qOfNat 1, qOfNat 1), (qOfNat 2, Op.div, qOfNat 1, qOfNat 2), (qOfNat 1, Op.add, qOfNat 2, qOfNat 3), (qOfNat 1, Op.mul, qOfNat 3, qOfNat 3)], [(qOfNat 1, Op.add, qOfNat 1, qOfNat 2), (qOfNat 1, Op.div, qOfNat 1, qOfNat 1), (qOfNat 2, Op.div, qOfNat 1, qOfNat 2), (qOfNat 1, Op.add, qOfNat 2, qOfNat 3), (qOfNat 3, Op.div, qOfNat 1, qOfNat 3)], [(qOfNat 1, Op.add, qOfNat 1, qOfNat 2), (qOfNat 1, Op.add, qOfNat 2, qOfNat 3), (qOfNat 1, Op.add, qOfNat 3, qOfNat 4), (qOfNat 1, Op.add, qOfNat 4, qOfNat 5), (qOfNat 1, Op.add, qOfNat 5, qOfNat 6)], [(qOfNat 1, Op.add, qOfNat 1, qOfNat 2), (qOfNat 1, Op.add, qOfNat 2, qOfNat 3), (qOfNat 1, Op.add, qOfNat 3, qOfNat 4), (qOfNat 1, Op.add, qOfNat 4, qOfNat 5), (qOfNat 1, Op.mul, qOfNat 5, qOfNat 5)], [(qOfNat 1, Op.add, qOfNat 1, qOfNat 2), (qOfNat 1, Op.add, qOfNat 2, qOfNat 3), (qOfNat 1, Op.add, qOfNat 3, qOfNat 4), (qOfNat 1, Op.add, qOfNat 4, qOfNat 5), (qOfNat 5, Op.sub, qOfNat 1, qOfNat 4)], [(qOfNat 1, Op.add, qOfNat 1, qOfNat 2), (qOfNat 1, Op.add, qOfNat 2, qOfNat 3), (qOfNat 1, Op.add, qOfNat 3, qOfNat 4), (qOfNat 1, Op.add, qOfNat 4, qOfNat 5), (qOfNat 5, Op.div, qOfNat 1, qOfNat 5)], [(qOfNat 1, Op.add, qOfNat 1, qOfNat 2), (qOfNat 1, Op.add, qOfNat 2, qOfNat 3), (qOfNat 1, Op.add, qOfNat 3, qOfNat 4), (qOfNat 1, Op.mul, qOfNat 4, qOfNat 4), (qOfNat 1, Op.add, qOfNat 4, qOfNat 5)], [(qOfNat 1, Op.add, qOfNat 1, qOfNat 2), (qOfNat 1, Op.add, qOfNat 2, qOfNat 3), (qOfNat 1, Op.add, qOfNat 3, qOfNat 4), (qOfNat 1, Op.mul, qOfNat 4, qOfNat 4), (qOfNat 4, Op.sub, qOfNat 1, qOfNat 3)], [(qOfNat 1, Op.add, qOfNat 1, qOfNat 2), (qOfNat 1, Op.add, qOfNat 2, qOfNat 3), (qOfNat 1, Op.add, qOfNat 3, qOfNat 4), (qOfNat 1, Op.mul, qOfNat 4, qOfNat 4), (qOfNat 4, Op.div, qOfNat 1, qOfNat 4)], [(qOfNat 1, Op.add, qOfNat 1, qOfNat 2), (qOfNat 1, Op.add, qOfNat 2, qOfNat 3), (qOfNat 1, Op.add, qOfNat 3, qOfNat 4), (qOfNat 4, Op.sub, qOfNat 1, qOfNat 3), (qOfNat 1, Op.mul, qOfNat 3, qOfNat 3)], [(qOfNat 1, Op.add, qOfNat 1, qOfNat 2), (qOfNat 1, Op.add, qOfNat 2, qOfNat 3), (qOfNat 1, Op.add, qOfNat 3, qOfNat 4), (qOfNat 4, Op.sub, qOfNat 1, qOfNat 3), (qOfNat 3, Op.sub, qOfNat 1, qOfNat 2)], [(qOfNat 1, Op.add, qOfNat 1, qOfNat 2), (qOfNat 1, Op.add, qOfNat 2, qOfNat 3), (qOfNat 1, Op.add, qOfNat 3, qOfNat 4), (qOfNat 4, Op.sub, qOfNat 1, qOfNat 3), (qOfNat 3, Op.div, qOfNat 1, qOfNat 3)], [(qOfNat 1, Op.add, qOfNat 1, qOfNat 2), (qOfNat 1, Op.add, qOfNat 2, qOfNat 3), (qOfNat 1, Op.add, qOfNat 3, qOfNat 4), (qOfNat 4, Op.div, qOfNat 1, qOfNat 4), (qOfNat 1, Op.add, qOfNat 4, qOfNat 5)], [(qOfNat 1, Op.add, qOfNat 1, qOfNat 2), (qOfNat 1, Op.add, qOfNat 2, qOfNat 3), (qOfNat 1, Op.add, qOfNat 3, qOfNat 4), (qOfNat 4, Op.div, qOfNat 1, qOfNat 4), (qOfNat 4, Op.sub, qOfNat 1, qOfNat 3)], [(qOfNat 1, Op.add, qOfNat 1, qOfNat 2), (qOfNat 1, Op.add, qOfNat 2, qOfNat 3), (qOfNat 1, Op.mul, qOfNat 3, qOfNat 3), (qOfNat 1, Op.add, qOfNat 3, qOfNat 4), (qOfNat 1, Op.add, qOfNat 4, qOfNat 5)], [(qOfNat 1, Op.add, qOfNat 1, qOfNat 2), (qOfNat 1, Op.add, qOfNat 2, qOfNat 3), (qOfNat 1, Op.mul, qOfNat 3, qOfNat 3), (qOfNat 1, Op.add, qOfNat 3, qOfNat 4), (qOfNat 1, Op.mul, qOfNat 4, qOfNat 4)], [(qOfNat 1, Op.add, qOfNat 1, qOfNat 2), (qOfNat 1, Op.add, qOfNat 2, qOfNat 3), (qOfNat 1, Op.mul, qOfNat 3, qOfNat 3), (qOfNat 1, Op.add, qOfNat 3, qOfNat 4), (qOfNat 4, Op.div, qOfNat 1, qOfNat 4)], [(qOfNat 1, Op.add, qOfNat 1, qOfNat 2), (qOfNat 1, Op.add, qOfNat 2, qOfNat 3), (qOfNat 1, Op.mul, qOfNat 3, qOfNat 3), (qOfNat 3, Op.sub, qOfNat 1, qOfNat 2), (qOfNat 1, Op.mul, qOfNat 2, qOfNat 2)], [(qOfNat 1, Op.add, qOfNat 1, qOfNat 2), (qOfNat 1, Op.add, qOfNat 2, qOfNat 3), (qOfNat 1, Op.mul, qOfNat 3, qOfNat 3), (qOfNat 3, Op.sub, qOfNat 1, qOfNat 2), (qOfNat 2, Op.sub, qOfNat 1, qOfNat 1)], [(qOfNat 1, Op.add, qOfNat 1, qOfNat 2), (qOfNat 1, Op.add, qOfNat 2, qOfNat 3), (qOfNat 1, Op.mul, qOfNat 3, qOfNat 3), (qOfNat 3, Op.sub, qOfNat 1, qOfNat 2), (qOfNat 2, Op.div, qOfNat 1, qOfNat 2)], [(qOfNat 1, Op.add, qOfNat 1, qOfNat 2), (qOfNat 1, Op.add, qOfNat 2, qOfNat 3), (qOfNat 1, Op.mul, qOfNat 3, qOfNat 3), (qOfNat 3, Op.div, qOfNat 1, qOfNat 3), (qOfNat 1, Op.add, qOfNat 3, qOfNat 4)], [(qOfNat 1, Op.add, qOfNat 1, qOfNat 2), (qOfNat 1, Op.add, qOfNat 2, qOfNat 3), (qOfNat 1, Op.mul, qOfNat 3, qOfNat 3), (qOfNat 3, Op.div, qOfNat 1, qOfNat 3), (qOfNat 3, Op.sub, qOfNat 1, qOfNat 2)], [(qOfNat 1, Op.add, qOfNat 1, qOfNat 2), (qOfNat 1, Op.add, qOfNat 2, qOfNat 3), (qOfNat 3, Op.sub, qOfNat 1, qOfNat 2), (qOfNat 1, Op.mul, qOfNat 2, qOfNat 2), (qOfNat 2, Op.sub, qOfNat 1, qOfNat 1)], [(qOfNat 1, Op.add, qOfNat 1, qOfNat 2), (qOfNat 1, Op.add, qOfNat 2, qOfNat 3), (qOfNat 3, Op.sub, qOfNat 1, qOfNat 2), (qOfNat 1, Op.mul, qOfNat 2, qOfNat 2), (qOfNat 2, Op.div, qOfNat 1, qOfNat 2)], [(qOfNat 1, Op.add, qOfNat 1, qOfNat 2), (qOfNat 1, Op.add, qOfNat 2, qOfNat 3), (qOfNat 3, Op.sub, qOfNat 1, qOfNat 2), (qOfNat 2, Op.div, qOfNat 1, qOfNat 2), (qOfNat 2, Op.sub, qOfNat 1, qOfNat 1)], [(qOfNat 1, Op.add, qOfNat 1, qOfNat 2), (qOfNat 1, Op.add, qOfNat 2, qOfNat 3), (qOfNat 3, Op.div, qOfNat 1, qOfNat 3), (qOfNat 1, Op.add, qOfNat 3, qOfNat 4), (qOfNat 1, Op.add, qOfNat 4, qOfNat 5)], [(qOfNat 1, Op.add, qOfNat 1, qOfNat 2), (qOfNat 1, Op.add, qOfNat 2, qOfNat 3), (qOfNat 3, Op.div, qOfNat 1, qOfNat 3), (qOfNat 1, Op.add, qOfNat 3, qOfNat 4), (qOfNat 1, Op.mul, qOfNat 4, qOfNat 4)], [(qOfNat 1, Op.add, qOfNat 1, qOfNat 2), (qOfNat 1, Op.add, qOfNat 2, qOfNat 3), (qOfNat 3, Op.div, qOfNat 1, qOfNat 3), (qOfNat 1, Op.add, qOfNat 3, qOfNat 4), (qOfNat 4, Op.div, qOfNat 1, qOfNat 4)], [(qOfNat 1, Op.add, qOfNat 1, qOfNat 2), (qOfNat 1, Op.add, qOfNat 2, qOfNat 3), (qOfNat 3, Op.div, qOfNat 1, qOfNat 3), (qOfNat 3, Op.sub, qOfNat 1, qOfNat 2), (qOfNat 1, Op.mul, qOfNat 2, qOfNat 2)], [(qOfNat 1, Op.add, qOfNat 1, qOfNat 2), (qOfNat 1, Op.add, qOfNat 2, qOfNat 3), (qOfNat 3, Op.div, qOfNat 1, qOfNat 3), (qOfNat 3, Op.sub, qOfNat 1, qOfNat 2), (qOfNat 2, Op.sub, qOfNat 1, qOfNat 1)], [(qOfNat 1, Op.add, qOfNat 1, qOfNat 2), (qOfNat 1, Op.add, qOfNat 2, qOfNat 3), (qOfNat 3, Op.div, qOfNat 1, qOfNat 3), (qOfNat 3, Op.sub, qOfNat 1, qOfNat 2), (qOfNat 2, Op.div, qOfNat 1, qOfNat 2)], [(qOfNat 1, Op.add, qOfNat 1, qOfNat 2), (qOfNat 1, Op.mul, qOfNat 2, qOfNat 2), (qOfNat 1, Op.add, qOfNat 2, qOfNat 3), (qOfNat 1, Op.add, qOfNat 3, qOfNat 4), (qOfNat 1, Op.add, qOfNat 4, qOfNat 5)], [(qOfNat 1, Op.add, qOfNat 1, qOfNat 2), (qOfNat 1, Op.mul, qOfNat 2, qOfNat 2), (qOfNat 1, Op.add, qOfNat 2, qOfNat 3), (qOfNat 1, Op.add, qOfNat 3, qOfNat 4), (qOfNat 1, Op.mul, qOfNat 4, qOfNat 4)], [(qOfNat 1, Op.add, qOfNat 1, qOfNat 2), (qOfNat 1, Op.mul, qOfNat 2, qOfNat 2), (qOfNat 1, Op.add, qOfNat 2, qOfNat 3), (qOfNat 1, Op.add, qOfNat 3, qOfNat 4), (qOfNat 4, Op.sub, qOfNat 1, qOfNat 3)], [(qOfNat 1, Op.add, qOfNat 1, qOfNat 2), (qOfNat 1, Op.mul, qOfNat 2, qOfNat 2), (qOfNat 1, Op.add, qOfNat 2, qOfNat 3), (qOfNat 1, Op.add, qOfNat 3, qOfNat 4), (qOfNat 4, Op.div, qOfNat 1, qOfNat 4)], [(qOfNat 1, Op.add, qOfNat 1, qOfNat 2), (qOfNat 1, Op.mul, qOfNat 2, qOfNat 2), (qOfNat 1, Op.add, qOfNat 2, qOfNat 3), (qOfNat 1, Op.mul, qOfNat 3, qOfNat 3), (qOfNat 1, Op.add, qOfNat 3, qOfNat 4)], [(qOfNat 1, Op.add, qOfNat 1, qOfNat 2), (qOfNat 1, Op.mul, qOfNat 2, qOfNat 2), (qOfNat 1, Op.add, qOfNat 2, qOfNat 3), (qOfNat 1, Op.mul, qOfNat 3, qOfNat 3), (qOfNat 3, Op.div, qOfNat 1, qOfNat 3)], [(qOfNat 1, Op.add, qOfNat 1, qOfNat 2), (qOfNat 1, Op.mul, qOfNat 2, qOfNat 2), (qOfNat 1, Op.add, qOfNat 2, qOfNat 3), (qOfNat 3, Op.div, qOfNat 1, qOfNat 3), (qOfNat 1, Op.add, qOfNat 3, qOfNat 4)], [(qOfNat 1, Op.add, qOfNat 1, qOfNat 2), (qOfNat 1, Op.mul, qOfNat 2, qOfNat 2), (qOfNat 2, Op.div, qOfNat 1, qOfNat 2), (qOfNat 1, Op.add, qOfNat 2, qOfNat 3), (qOfNat 1, Op.add, qOfNat 3, qOfNat 4)], [(qOfNat 1, Op.add, qOfNat 1, qOfNat 2), (qOfNat 1, Op.mul, qOfNat 2, qOfNat 2), (qOfNat 2, Op.div, qOfNat 1, qOfNat 2), (qOfNat 1, Op.add, qOfNat 2, qOfNat 3), (qOfNat 1, Op.mul, qOfNat 3, qOfNat 3)], [(qOfNat 1, Op.add, qOfNat 1, qOfNat 2), (qOfNat 1, Op.mul, qOfNat 2, qOfNat 2), (qOfNat 2, Op.div, qOfNat 1, qOfNat 2), (qOfNat 1, Op.add, qOfNat 2, qOfNat 3), (qOfNat 3, Op.div, qOfNat 1, qOfNat 3)], [(qOfNat 1, Op.add, qOfNat 1, qOfNat 2), (qOfNat 2, Op.div, qOfNat 1, qOfNat 2), (qOfNat 1, Op.add, qOfNat 2, qOfNat 3), (qOfNat 1, Op.add, qOfNat 3, qOfNat 4), (qOfNat 1, Op.add, qOfNat 4, qOfNat 5)], [(qOfNat 1, Op.add, qOfNat 1, qOfNat 2), (qOfNat 2, Op.div, qOfNat 1, qOfNat 2), (qOfNat 1, Op.add, qOfNat 2, qOfNat 3), (qOfNat 1, Op.add, qOfNat 3, qOfNat 4), (qOfNat 1, Op.mul, qOfNat 4, qOfNat 4)], [(qOfNat 1, Op.add, qOfNat 1, qOfNat 2), (qOfNat 2, Op.div, qOfNat 1, qOfNat 2), (qOfNat 1, Op.add, qOfNat 2, qOfNat 3), (qOfNat 1, Op.add, qOfNat 3, qOfNat 4), (qOfNat 4, Op.sub, qOfNat 1, qOfNat 3)], [(qOfNat 1, Op.add, qOfNat 1, qOfNat 2), (qOfNat 2, Op.div, qOfNat 1, qOfNat 2), (qOfNat 1, Op.add, qOfNat 2, qOfNat 3), (qOfNat 1, Op.add, qOfNat 3, qOfNat 4), (qOfNat 4, Op.div, qOfNat 1, qOfNat 4)], [(qOfNat 1, Op.add, qOfNat 1, qOfNat 2), (qOfNat 2, Op.div, qOfNat 1, qOfNat 2), (qOfNat 1, Op.add, qOfNat 2, qOfNat 3), (qOfNat 1, Op.mul, qOfNat 3, qOfNat 3), (qOfNat 1, Op.add, qOfNat 3, qOfNat 4)], [(qOfNat 1, Op.add, qOfNat 1, qOfNat 2), (qOfNat 2, Op.div, qOfNat 1, qOfNat 2), (qOfNat 1, Op.add, qOfNat 2, qOfNat 3), (qOfNat 1, Op.mul, qOfNat 3, qOfNat 3), (qOfNat 3, Op.div, qOfNat 1, qOfNat 3)], [(qOfNat 1, Op.add, qOfNat 1, qOfNat 2), (qOfNat 2, Op.div, qOfNat 1, qOfNat 2), (qOfNat 1, Op.add, qOfNat 2, qOfNat 3), (qOfNat 3, Op.div, qOfNat 1, qOfNat 3), (qOfNat 1, Op.add, qOfNat 3, qOfNat 4)]]
/-- Queue contents of the breadth-first loop on selection [1, 1, 1, 1, 1, 1], target 6, after 120 iterations. -/
def traceQ12 : List BState :=
  [(qOfNat 2, [qOfNat 2], [(qOfNat 1, Op.add, qOfNat 1, qOfNat 2), (qOfNat 1, Op.div, qOfNat 1, qOfNat 1), (qOfNat 1, Op.add, qOfNat 2, qOfNat 3), (qOfNat 3, Op.div, qOfNat 1, qOfNat 3), (qOfNat 3, Op.sub, qOfNat 1, qOfNat 2)]), (qOfNat 4, [qOfNat 4], [(qOfNat 1, Op.add, qOfNat 1, qOfNat 2), (qOfNat 1, Op.div, qOfNat 1, qOfNat 1), (qOfNat 1, Op.mul, qOfNat 2, qOfNat 2), (qOfNat 1, Op.add, qOfNat 2, qOfNat 3), (qOfNat 1, Op.add, qOfNat 3, qOfNat 4)]), (qOfNat 3, [qOfNat 3], [(qOfNat 1, Op.add, qOfNat 1, qOfNat 2), (qOfNat 1, Op.div, qOfNat 1, qOfNat 1), (qOfNat 1, Op.mul, qOfNat 2, qOfNat 2), (qOfNat 1, Op.add, qOfNat 2, qOfNat 3), (qOfNat 1, Op.mul, qOfNat 3, qOfNat 3)]), (qOfNat 3, [qOfNat 3], [(qOfNat 1, Op.add, qOfNat 1, qOfNat 2), (qOfNat 1, Op.div, qOfNat 1, qOfNat 1), (qOfNat 1, Op.mul, qOfNat 2, qOfNat 2), (qOfNat 1, Op.add, qOfNat 2, qOfNat 3), (qOfNat 3, Op.div, qOfNat 1, qOfNat 3)]), (qOfNat 3, [qOfNat 3], [(qOfNat 1, Op.add, qOfNat 1, qOfNat 2), (qOfNat 1, Op.div, qOfNat 1, qOfNat 1), (qOfNat 1, Op.mul, qOfNat 2, qOfNat 2), (qOfNat 2, Op.div, qOfNat 1, qOfNat 2), (qOfNat 1, Op.add, qOfNat 2, qOfNat 3)]), (qOfNat 1, [qOfNat 1], [(qOfNat 1, Op.add, qOfNat 1, qOfNat 2), (qOfNat 1, Op.div, qOfNat 1, qOfNat 1), (qOfNat 1, Op.mul, qOfNat 2, qOfNat 2), (qOfNat 2, Op.div, qOfNat 1, qOfNat 2), (qOfNat 2, Op.sub, qOfNat 1, qOfNat 1)]), (qOfNat 4, [qOfNat 4], [(qOfNat 1, Op.add, qOfNat 1, qOfNat 2), (qOfNat 1, Op.div, qOfNat 1, qOfNat 1), (qOfNat 2, Op.div, qOfNat 1, qOfNat 2), (qOfNat 1, Op.add, qOfNat 2, qOfNat 3), (qOfNat 1, Op.add, qOfNat 3, qOfNat 4)]), (qOfNat 3, [qOfNat 3], [(qOfNat 1, Op.add, qOfNat 1, qOfNat 2), (qOfNat 1, Op.div, qOfNat 1, qOfNat 1), (qOfNat 2, Op.div, qOfNat 1, qOfNat 2), (qOfNat 1, Op.add, qOfNat 2, qOfNat 3), (qOfNat 1, Op.mul, qOfNat 3, qOfNat 3)]), (qOfNat 3, [qOfNat 3], [(qOfNat 1, Op.add, qOfNat 1, qOfNat 2), (qOfNat 1, Op.div, qOfNat 1, qOfNat 1), (qOfNat 2, Op.div, qOfNat 1, qOfNat 2), (qOfNat 1, Op.add, qOfNat 2, qOfNat 3), (qOfNat 3, Op.div, qOfNat 1, qOfNat 3)]), (qOfNat 6, [qOfNat 6], [(qOfNat 1, Op.add, qOfNat 1, qOfNat 2), (qOfNat 1, Op.add, qOfNat 2, qOfNat 3), (qOfNat 1, Op.add, qOfNat 3, qOfNat 4), (qOfNat 1, Op.add, qOfNat 4, qOfNat 5), (qOfNat 1, Op.add, qOfNat 5, qOfNat 6)]), (qOfNat 5, [qOfNat 5], [(qOfNat 1, Op.add, qOfNat 1, qOfNat 2), (qOfNat 1, Op.add, qOfNat 2, qOfNat 3), (qOfNat 1, Op.add, qOfNat 3, qOfNat 4), (qOfNat 1, Op.add, qOfNat 4, qOfNat 5), (qOfNat 1, Op.mul, qOfNat 5, qOfNat 5)]), (qOfNat 4, [qOfNat 4], [(qOfNat 1, Op.add, qOfNat 1, qOfNat 2), (qOfNat 1, Op.add, qOfNat 2, qOfNat 3), (qOfNat 1, Op.add, qOfNat 3, qOfNat 4), (qOfNat 1, Op.add, qOfNat 4, qOfNat 5), (qOfNat 5, Op.sub, qOfNat 1, qOfNat 4)]), (qOfNat 5, [qOfNat 5], [(qOfNat 1, Op.add, qOfNat 1, qOfNat 2), (qOfNat 1, Op.add, qOfNat 2, qOfNat 3), (qOfNat 1, Op.add, qOfNat 3, qOfNat 4), (qOfNat 1, Op.add, qOfNat 4, qOfNat 5), (qOfNat 5, Op.div, qOfNat 1, qOfNat 5)]), (qOfNat 5, [qOfNat 5], [(qOfNat 1, Op.add, qOfNat 1, qOfNat 2), (qOfNat 1, Op.add, qOfNat 2, qOfNat 3), (qOfNat 1, Op.add, qOfNat 3, qOfNat 4), (qOfNat 1, Op.mul, qOfNat 4, qOfNat 4), (qOfNat 1, Op.add, qOfNat 4, qOfNat 5)]), (qOfNat 3, [qOfNat 3], [(qOfNat 1, Op.add, qOfNat 1, qOfNat 2), (qOfNat 1, Op.add, qOfNat 2, qOfNat 3), (qOfNat 1, Op.add, qOfNat 3, qOfNat 4), (qOfNat 1, Op.mul, qOfNat 4, qOfNat 4), (qOfNat 4, Op.sub, qOfNat 1, qOfNat 3)]), (qOfNat 4, [qOfNat 4], [(qOfNat 1, Op.add, qOfNat 1, qOfNat 2), (qOfNat 1, Op.add, qOfNat 2, qOfNat 3), (qOfNat 1, Op.add, qOfNat 3, qOfNat 4), (qOfNat 1, Op.mul, qOfNat 4, qOfNat 4), (qOfNat 4, Op.div, qOfNat 1, qOfNat 4)]), (qOfNat 3, [qOfNat 3], [(qOfNat 1, Op.add, qOfNat 1, qOfNat 2), (qOfNat 1, Op.add, qOfNat 2, qOfNat 3), (qOfNat 1, Op.add, qOfNat 3, qOfNat 4), (qOfNat 4, Op.sub, qOfNat 1, qOfNat 3), (qOfNat 1, Op.mul, qOfNat 3, qOfNat 3)]), (qOfNat 2, [qOfNat 2], [(qOfNat 1, Op.add, qOfNat 1, qOfNat 2), (qOfNat 1, Op.add, qOfNat 2, qOfNat 3), (qOfNat 1, Op.add, qOfNat 3, qOfNat 4), (qOfNat 4, Op.sub, qOfNat 1, qOfNat 3), (qOfNat 3, Op.sub, qOfNat 1, qOfNat 2)]), (qOfNat 3, [qOfNat 3], [(qOfNat 1, Op.add, qOfNat 1, qOfNat 2), (qOfNat 1, Op.add, qOfNat 2, qOfNat 3), (qOfNat 1, Op.add, qOfNat 3, qOfNat 4), (qOfNat 4, Op.sub, qOfNat 1, qOfNat 3), (qOfNat 3, Op.div, qOfNat 1, qOfNat 3)]), (qOfNat 5, [qOfNat 5], [(qOfNat 1, Op.add, qOfNat 1, qOfNat 2), (qOfNat 1, Op.add, qOfNat 2, qOfNat 3), (qOfNat 1, Op.add, qOfNat 3, qOfNat 4), (qOfNat 4, Op.div, qOfNat 1, qOfNat 4), (qOfNat 1, Op.add, qOfNat 4, qOfNat 5)]), (qOfNat 3, [qOfNat 3], [(qOfNat 1, Op.add, qOfNat 1, qOfNat 2), (qOfNat 1, Op.add, qOfNat 2, qOfNat 3), (qOfNat 1, Op.add, qOfNat 3, qOfNat 4), (qOfNat 4, Op.div, qOfNat 1, qOfNat 4), (qOfNat 4, Op.sub, qOfNat 1, qOfNat 3)]), (qOfNat 5, [qOfNat 5], [(qOfNat 1, Op.add, qOfNat 1, qOfNat 2), (qOfNat 1, Op.add, qOfNat 2, qOfNat 3), (qOfNat 1, Op.mul, qOfNat 3, qOfNat 3), (qOfNat 1, Op.add, qOfNat 3, qOfNat 4), (qOfNat 1, Op.add, qOfNat 4, qOfNat 5)]), (qOfNat 4, [qOfNat 4], [(qOfNat 1, Op.add, qOfNat 1, qOfNat 2), (qOfNat 1, Op.add, qOfNat 2, qOfNat 3), (qOfNat 1, Op.mul, qOfNat 3, qOfNat 3), (qOfNat 1, Op.add, qOfNat 3, qOfNat 4), (qOfNat 1, Op.mul, qOfNat 4, qOfNat 4)]), (qOfNat 4, [qOfNat 4], [(qOfNat 1, Op.add, qOfNat 1, qOfNat 2), (qOfNat 1, Op.add, qOfNat 2, qOfNat 3), (qOfNat 1, Op.mul, qOfNat 3, qOfNat 3), (qOfNat 1, Op.add, qOfNat 3, qOfNat 4), (qOfNat 4, Op.div, qOfNat 1, qOfNat 4)]), (qOfNat 2, [qOfNat 2], [(qOfNat 1, Op.add, qOfNat 1, qOfNat 2), (qOfNat 1, Op.add, qOfNat 2, qOfNat 3), (qOfNat 1, Op.mul, qOfNat 3, qOfNat 3), (qOfNat 3, Op.sub, qOfNat 1, qOfNat 2), (qOfNat 1, Op.mul, qOfNat 2, qOfNat 2)]), (qOfNat 1, [qOfNat 1], [(qOfNat 1, Op.add, qOfNat 1, qOfNat 2), (qOfNat 1, Op.add, qOfNat 2, qOfNat 3), (qOfNat 1, Op.mul, qOfNat 3, qOfNat 3), (qOfNat 3, Op.sub, qOfNat 1, qOfNat 2), (qOfNat 2, Op.sub, qOfNat 1, qOfNat 1)]), (qOfNat 2, [qOfNat 2], [(qOfNat 1, Op.add, qOfNat 1, qOfNat 2), (qOfNat 1, Op.add, qOfNat 2, qOfNat 3), (qOfNat 1, Op.mul, qOfNat 3, qOfNat 3), (qOfNat 3, Op.sub, qOfNat 1, qOfNat 2), (qOfNat 2, Op.div, qOfNat 1, qOfNat 2)]), (qOfNat 4, [qOfNat 4], [(qOfNat 1, Op.add, qOfNat 1, qOfNat 2), (qOfNat 1, Op.add, qOfNat 2, qOfNat 3), (qOfNat 1, Op.mul, qOfNat 3, qOfNat 3), (qOfNat 3, Op.div, qOfNat 1, qOfNat 3), (qOfNat 1, Op.add, qOfNat 3, qOfNat 4)]), (qOfNat 2, [qOfNat 2], [(qOfNat 1, Op.add, qOfNat 1, qOfNat 2), (qOfNat 1, Op.add, qOfNat 2, qOfNat 3), (qOfNat 1, Op.mul, qOfNat 3, qOfNat 3), (qOfNat 3, Op.div, qOfNat 1, qOfNat 3), (qOfNat 3, Op.sub, qOfNat 1, qOfNat 2)]), (qOfNat 1, [qOfNat 1], [(qOfNat 1, Op.add, qOfNat 1, qOfNat 2), (qOfNat 1, Op.add, qOfNat 2, qOfNat 3), (qOfNat 3, Op.sub, qOfNat 1, qOfNat 2), (qOfNat 1, Op.mul, qOfNat 2, qOfNat 2), (qOfNat 2, Op.sub, qOfNat 1, qOfNat 1)]), (qOfNat 2, [qOfNat 2], [(qOfNat 1, Op.add, qOfNat 1, qOfNat 2), (qOfNat 1, Op.add, qOfNat 2, qOfNat 3), (qOfNat 3, Op.sub, qOfNat 1, qOfNat 2), (qOfNat 1, Op.mul, qOfNat 2, qOfNat 2), (qOfNat 2, Op.div, qOfNat 1, qOfNat 2)]), (qOfNat 1, [qOfNat 1], [(qOfNat 1, Op.add, qOfNat 1, qOfNat 2), (qOfNat 1, Op.add, qOfNat 2, qOfNat 3), (qOfNat 3, Op.sub, qOfNat 1, qOfNat 2), (qOfNat 2, Op.div, qOfNat 1, qOfNat 2), (qOfNat 2, Op.sub, qOfNat 1, qOfNat 1)]), (qOfNat 5, [qOfNat 5], [(qOfNat 1, Op.add, qOfNat 1, qOfNat 2), (qOfNat 1, Op.add, qOfNat 2, qOfNat 3), (qOfNat 3, Op.div, qOfNat 1, qOfNat 3), (qOfNat 1, Op.add, qOfNat 3, qOfNat 4), (qOfNat 1, Op.add, qOfNat 4, qOfNat 5)]), (qOfNat 4, [qOfNat 4], [(qOfNat 1, Op.add, qOfNat 1, qOfNat 2), (qOfNat 1, Op.add, qOfNat 2, qOfNat 3), (qOfNat 3, Op.div, qOfNat 1, qOfNat 3), (qOfNat 1, Op.add, qOfNat 3, qOfNat 4), (qOfNat 1, Op.mul, qOfNat 4, qOfNat 4)]), (qOfNat 4, [qOfNat 4], [(qOfNat 1, Op.add, qOfNat 1, qOfNat 2), (qOfNat 1, Op.add, qOfNat 2, qOfNat 3), (qOfNat 3, Op.div, qOfNat 1, qOfNat 3), (qOfNat 1, Op.add, qOfNat 3, qOfNat 4), (qOfNat 4, Op.div, qOfNat 1, qOfNat 4)]), (qOfNat 2, [qOfNat 2], [(qOfNat 1, Op.add, qOfNat 1, qOfNat 2), (qOfNat 1, Op.add, qOfNat 2, qOfNat 3), (qOfNat 3, Op.div, qOfNat 1, qOfNat 3), (qOfNat 3, Op.sub, qOfNat 1, qOfNat 2), (qOfNat 1, Op.mul, qOfNat 2, qOfNat 2)]), (qOfNat 1, [qOfNat 1], [(qOfNat 1, Op.add, qOfNat 1, qOfNat 2), (qOfNat 1, Op.add, qOfNat 2, qOfNat 3), (qOfNat 3, Op.div, qOfNat 1, qOfNat 3), (qOfNat 3, Op.sub, qOfNat 1, qOfNat 2), (qOfNat 2, Op.sub, qOfNat 1, qOfNat 1)]), (qOfNat 2, [qOfNat 2], [(qOfNat 1, Op.add, qOfNat 1, qOfNat 2), (qOfNat 1, Op.add, qOfNat 2, qOfNat 3), (qOfNat 3, Op.div, qOfNat 1, qOfNat 3), (qOfNat 3, Op.sub, qOfNat 1, qOfNat 2), (qOfNat 2, Op.div, qOfNat 1, qOfNat 2)]), (qOfNat 5, [qOfNat 5], [(qOfNat 1, Op.add, qOfNat 1, qOfNat 2), (qOfNat 1, Op.mul, qOfNat 2, qOfNat 2), (qOfNat 1, Op.add, qOfNat 2, qOfNat 3), (qOfNat 1, Op.add, qOfNat 3, qOfNat 4), (qOfNat 1, Op.add, qOfNat 4, qOfNat 5)]), (qOfNat 4, [qOfNat 4], [(qOfNat 1, Op.add, qOfNat 1, qOfNat 2), (qOfNat 1, Op.mul, qOfNat 2, qOfNat 2), (qOfNat 1, Op.add, qOfNat 2, qOfNat 3), (qOfNat 1, Op.add, qOfNat 3, qOfNat 4), (qOfNat 1, Op.mul, qOfNat 4, qOfNat 4)]), (qOfNat 3, [qOfNat 3], [(qOfNat 1, Op.add, qOfNat 1, qOfNat 2), (qOfNat 1, Op.mul, qOfNat 2, qOfNat 2), (qOfNat 1, Op.add, qOfNat 2, qOfNat 3), (qOfNat 1, Op.add, qOfNat 3, qOfNat 4), (qOfNat 4, Op.sub, qOfNat 1, qOfNat 3)]), (qOfNat 4, [qOfNat 4], [(qOfNat 1, Op.add, qOfNat 1, qOfNat 2), (qOfNat 1, Op.mul, qOfNat 2, qOfNat 2), (qOfNat 1, Op.add, qOfNat 2, qOfNat 3), (qOfNat 1, Op.add, qOfNat 3, qOfNat 4), (qOfNat 4, Op.div, qOfNat 1, qOfNat 4)]), (qOfNat 4, [qOfNat 4], [(qOfNat 1, Op.add, qOfNat 1, qOfNat 2), (qOfNat 1, Op.mul, qOfNat 2, qOfNat 2), (qOfNat 1, Op.add, qOfNat 2, qOfNat 3), (qOfNat 1, Op.mul, qOfNat 3, qOfNat 3), (qOfNat 1, Op.add, qOfNat 3, qOfNat 4)]), (qOfNat 3, [qOfNat 3], [(qOfNat 1, Op.add, qOfNat 1, qOfNat 2), (qOfNat 1, Op.mul, qOfNat 2, qOfNat 2), (qOfNat 1, Op.add, qOfNat 2, qOfNat 3), (qOfNat 1, Op.mul, qOfNat 3, qOfNat 3), (qOfNat 3, Op.div, qOfNat 1, qOfNat 3)]), (qOfNat 4, [qOfNat 4], [(qOfNat 1, Op.add, qOfNat 1, qOfNat 2), (qOfNat 1, Op.mul, qOfNat 2, qOfNat 2), (qOfNat 1, Op.add, qOfNat 2, qOfNat 3), (qOfNat 3, Op.div, qOfNat 1, qOfNat 3), (qOfNat 1, Op.add, qOfNat 3, qOfNat 4)]), (qOfNat 4, [qOfNat 4], [(qOfNat 1, Op.add, qOfNat 1, qOfNat 2), (qOfNat 1, Op.mul, qOfNat 2, qOfNat 2), (qOfNat 2, Op.div, qOfNat 1, qOfNat 2), (qOfNat 1, Op.add, qOfNat 2, qOfNat 3), (qOfNat 1, Op.add, qOfNat 3, qOfNat 4)]), (qOfNat 3, [qOfNat 3], [(qOfNat 1, Op.add, qOfNat 1, qOfNat 2), (qOfNat 1, Op.mul, qOfNat 2, qOfNat 2), (qOfNat 2, Op.div, qOfNat 1, qOfNat 2), (qOfNat 1, Op.add, qOfNat 2, qOfNat 3), (qOfNat 1, Op.mul, qOfNat 3, qOfNat 3)]), (qOfNat 3, [qOfNat 3], [(qOfNat 1, Op.add, qOfNat 1, qOfNat 2), (qOfNat 1, Op.mul, qOfNat 2, qOfNat 2), (qOfNat 2, Op.div, qOfNat 1, qOfNat 2), (qOfNat 1, Op.add, qOfNat 2, qOfNat 3), (qOfNat 3, Op.div, qOfNat 1, qOfNat 3)]), (qOfNat 5, [qOfNat 5], [(qOfNat 1, Op.add, qOfNat 1, qOfNat 2), (qOfNat 2, Op.div, qOfNat 1, qOfNat 2), (qOfNat 1, Op.add, qOfNat 2, qOfNat 3), (qOfNat 1, Op.add, qOfNat 3, qOfNat 4), (qOfNat 1, Op.add, qOfNat 4, qOfNat 5)]), (qOfNat 4, [qOfNat 4], [(qOfNat 1, Op.add, qOfNat 1, qOfNat 2), (qOfNat 2, Op.div, qOfNat 1, qOfNat 2), (qOfNat 1, Op.add, qOfNat 2, qOfNat 3), (qOfNat 1, Op.add, qOfNat 3, qOfNat 4), (qOfNat 1, Op.mul, qOfNat 4, qOfNat 4)]), (qOfNat 3, [qOfNat 3], [(qOfNat 1, Op.add, qOfNat 1, qOfNat 2), (qOfNat 2, Op.div, qOfNat 1, qOfNat 2), (qOfNat 1, Op.add, qOfNat 2, qOfNat 3), (qOfNat 1, Op.add, qOfNat 3, qOfNat 4), (qOfNat 4, Op.sub, qOfNat 1, qOfNat 3)]), (qOfNat 4, [qOfNat 4], [(qOfNat 1, Op.add, qOfNat 1, qOfNat 2), (qOfNat 2, Op.div, qOfNat 1, qOfNat 2), (qOfNat 1, Op.add, qOfNat 2, qOfNat 3), (qOfNat 1, Op.add, qOfNat 3, qOfNat 4), (qOfNat 4, Op.div, qOfNat 1, qOfNat 4)]), (qOfNat 4, [qOfNat 4], [(qOfNat 1, Op.add, qOfNat 1, qOfNat 2), (qOfNat 2, Op.div, qOfNat 1, qOfNat 2), (qOfNat 1, Op.add, qOfNat 2, qOfNat 3), (qOfNat 1, Op.mul, qOfNat 3, qOfNat 3), (qOfNat 1, Op.add, qOfNat 3, qOfNat 4)]), (qOfNat 3, [qOfNat 3], [(qOfNat 1, Op.add, qOfNat 1, qOfNat 2), (qOfNat 2, Op.div, qOfNat 1, qOfNat 2), (qOfNat 1, Op.add, qOfNat 2, qOfNat 3), (qOfNat 1, Op.mul, qOfNat 3, qOfNat 3), (qOfNat 3, Op.div, qOfNat 1, qOfNat 3)]), (qOfNat 4, [qOfNat 4], [(qOfNat 1, Op.add, qOfNat 1, qOfNat 2), (qOfNat 2, Op.div, qOfNat 1, qOfNat 2), (qOfNat 1, Op.add, qOfNat 2, qOfNat 3), (qOfNat 3, Op.div, qOfNat 1, qOfNat 3), (qOfNat 1, Op.add, qOfNat 3, qOfNat 4)])]

/-- Seen path fingerprints of the same run after 120 iterations. -/
def traceU12 : List (List Oper) :=
  [[(qOfNat 1, Op.add, qOfNat 1, qOfNat 2)], [(qOfNat 1, Op.mul, qOfNat 1, qOfNat 1)], [(qOfNat 1, Op.div, qOfNat 1, qOfNat 1)], [(qOfNat 1, Op.add, qOfNat 1, qOfNat 2), (qOfNat 1, Op.mul, qOfNat 1, qOfNat 1)], [(qOfNat 1, Op.add, qOfNat 1, qOfNat 2), (qOfNat 1, Op.div, qOfNat 1, qOfNat 1)], [(qOfNat 1, Op.add, qOfNat 1, qOfNat 2), (qOfNat 1, Op.add, qOfNat 2, qOfNat 3)], [(qOfNat 1, Op.add, qOfNat 1, qOfNat 2), (qOfNat 1, Op.mul, qOfNat 2, qOfNat 2)], [(qOfNat 1, Op.add, qOfNat 1, qOfNat 2), (qOfNat 2, Op.sub, qOfNat 1, qOfNat 1)], [(qOfNat 1, Op.add, qOfNat 1, qOfNat 2), (qOfNat 2, Op.div, qOfNat 1, qOfNat 2)], [(qOfNat 1, Op.mul, qOfNat 1, qOfNat 1), (qOfNat 1, Op.div, qOfNat 1, qOfNat 1)], [(qOfNat 1, Op.add, qOfNat 1, qOfNat 2), (qOfNat 1, Op.mul, qOfNat 1, qOfNat 1), (qOfNat 1, Op.div, qOfNat 1, qOfNat 1)], [(qOfNat 1, Op.add, qOfNat 1, qOfNat 2), (qOfNat 1, Op.mul, qOfNat 1, qOfNat 1), (qOfNat 1, Op.add, qOfNat 2, qOfNat 3)], [(qOfNat 1, Op.add, qOfNat 1, qOfNat 2), (qOfNat 1, Op.mul, qOfNat 1, qOfNat 1), (qOfNat 1, Op.mul, qOfNat 2, qOfNat 2)], [(qOfNat 1, Op.add, qOfNat 1, qOfNat 2), (qOfNat 1, Op.mul, qOfNat 1, qOfNat 1), (qOfNat 2, Op.sub, qOfNat 1, qOfNat 1)], [(qOfNat 1, Op.add, qOfNat 1, qOfNat 2), (qOfNat 1, Op.mul, qOfNat 1, qOfNat 1), (qOfNat 2, Op.div, qOfNat 1, qOfNat 2)], [(qOfNat 1, Op.add, qOfNat 1, qOfNat 2), (qOfNat 1, Op.div, qOfNat 1, qOfNat 1), (qOfNat 1, Op.add, qOfNat 2, qOfNat 3)], [(qOfNat 1, Op.add, qOfNat 1, qOfNat 2), (qOfNat 1, Op.div, qOfNat 1, qOfNat 1), (qOfNat 1, Op.mul, qOfNat 2, qOfNat 2)], [(qOfNat 1, Op.add, qOfNat 1, qOfNat 2), (qOfNat 1, Op.div, qOfNat 1, qOfNat 1), (qOfNat 2, Op.sub, qOfNat 1, qOfNat 1)], [(qOfNat 1, Op.add, qOfNat 1, qOfNat 2), (qOfNat 1, Op.div, qOfNat 1, qOfNat 1), (qOfNat 2, Op.div, qOfNat 1, qOfNat 2)], [(qOfNat 1, Op.add, qOfNat 1, qOfNat 2), (qOfNat 1, Op.add, qOfNat 2, qOfNat 3), (qOfNat 1, Op.add, qOfNat 3, qOfNat 4)], [(qOfNat 1, Op.add, qOfNat 1, qOfNat 2), (qOfNat 1, Op.add, qOfNat 2, qOfNat 3), (qOfNat 1, Op.mul, qOfNat 3, qOfNat 3)], [(qOfNat 1, Op.add, qOfNat 1, qOfNat 2), (qOfNat 1, Op.add, qOfNat 2, qOfNat 3), (qOfNat 3, Op.sub, qOfNat 1, qOfNat 2)], [(qOfNat 1, Op.add, qOfNat 1, qOfNat 2), (qOfNat 1, Op.add, qOfNat 2, qOfNat 3), (qOfNat 3, Op.div, qOfNat 1, qOfNat 3)], [(qOfNat 1, Op.add, qOfNat 1, qOfNat 2), (qOfNat 1, Op.mul, qOfNat 2, qOfNat 2), (qOfNat 1, Op.add, qOfNat 2, qOfNat 3)], [(qOfNat 1, Op.add, qOfNat 1, qOfNat 2), (qOfNat 1, Op.mul, qOfNat 2, qOfNat 2), (qOfNat 2, Op.sub, qOfNat 1, qOfNat 1)], [(qOfNat 1, Op.add, qOfNat 1, qOfNat 2), (qOfNat 1, Op.mul, qOfNat 2, qOfNat 2), (qOfNat 2, Op.div, qOfNat 1, qOfNat 2)], [(qOfNat 1, Op.add, qOfNat 1, qOfNat 2), (qOfNat 2, Op.div, qOfNat 1, qOfNat 2), (qOfNat 1, Op.add, qOfNat 2, qOfNat 3)], [(qOfNat 1, Op.add, qOfNat 1, qOfNat 2), (qOfNat 2, Op.div, qOfNat 1, qOfNat 2), (qOfNat 2, Op.sub, qOfNat 1, qOfNat 1)], [(qOfNat 1, Op.add, qOfNat 1, qOfNat 2), (qOfNat 1, Op.mul, qOfNat 1, qOfNat 1), (qOfNat 1, Op.div, qOfNat 1, qOfNat 1), (qOfNat 2, Op.add, qOfNat 1, qOfNat 3)], [(qOfNat 1, Op.add, qOfNat 1, qOfNat 2), (qOfNat 1, Op.mul, qOfNat 1, qOfNat 1), (qOfNat 1, Op.div, qOfNat 1, qOfNat 1), (qOfNat 2, Op.sub, qOfNat 1, qOfNat 1)], [(qOfNat 1, Op.add, qOfNat 1, qOfNat 2), (qOfNat 1, Op.mul, qOfNat 1, qOfNat 1), (qOfNat 1, Op.div, qOfNat 1, qOfNat 1), (qOfNat 2, Op.mul, qOfNat 1, qOfNat 2)], [(qOfNat 1, Op.add, qOfNat 1, qOfNat 2), (qOfNat 1, Op.mul, qOfNat 1, qOfNat 1), (qOfNat 1, Op.div, qOfNat 1, qOfNat 1), (qOfNat 2, Op.div, qOfNat 1, qOfNat 2)], [(qOfNat 1, Op.add, qOfNat 1, qOfNat 2), (qOfNat 1, Op.mul, qOfNat 1, qOfNat 1), (qOfNat 1, Op.add, qOfNat 2, qOfNat 3), (qOfNat 1, Op.div, qOfNat 1, qOfNat 1)], [(qOfNat 1, Op.add, qOfNat 1, qOfNat 2), (qOfNat 1, Op.mul, qOfNat 1, qOfNat 1), (qOfNat 1, Op.add, qOfNat 2, qOfNat 3), (qOfNat 1, Op.add, qOfNat 3, qOfNat 4)], [(qOfNat 1, Op.add, qOfNat 1, qOfNat 2), (qOfNat 1, Op.mul, qOfNat 1, qOfNat 1), (qOfNat 1, Op.add, qOfNat 2, qOfNat 3), (qOfNat 1, Op.mul, qOfNat 3, qOfNat 3)], [(qOfNat 1, Op.add, qOfNat 1, qOfNat 2), (qOfNat 1, Op.mul, qOfNat 1, qOfNat 1), (qOfNat 1, Op.add, qOfNat 2, qOfNat 3), (qOfNat 3, Op.sub, qOfNat 1, qOfNat 2)], [(qOfNat 1, Op.add, qOfNat 1, qOfNat 2), (qOfNat 1, Op.mul, qOfNat 1, qOfNat 1), (qOfNat 1, Op.add, qOfNat 2, qOfNat 3), (qOfNat 3, Op.div, qOfNat 1, qOfNat 3)], [(qOfNat 1, Op.add, qOfNat 1, qOfNat 2), (qOfNat 1, Op.mul, qOfNat 1, qOfNat 1), (qOfNat 1, Op.mul, qOfNat 2, qOfNat 2), (qOfNat 1, Op.div, qOfNat 1, qOfNat 1)], [(qOfNat 1, Op.add, qOfNat 1, qOfNat 2), (qOfNat 1, Op.mul, qOfNat 1, qOfNat 1), (qOfNat 1, Op.mul, qOfNat 2, qOfNat 2), (qOfNat 1, Op.add, qOfNat 2, qOfNat 3)], [(qOfNat 1, Op.add, qOfNat 1, qOfNat 2), (qOfNat 1, Op.mul, qOfNat 1, qOfNat 1), (qOfNat 1, Op.mul, qOfNat 2, qOfNat 2), (qOfNat 2, Op.sub, qOfNat 1, qOfNat 1)], [(qOfNat 1, Op.add, qOfNat 1, qOfNat 2), (qOfNat 1, Op.mul, qOfNat 1, qOfNat 1), (qOfNat 1, Op.mul, qOfNat 2, qOfNat 2), (qOfNat 2, Op.div, qOfNat 1, qOfNat 2)], [(qOfNat 1, Op.add, qOfNat 1, qOfNat 2), (qOfNat 1, Op.mul, qOfNat 1, qOfNat 1), (qOfNat 2, Op.div, qOfNat 1, qOfNat 2), (qOfNat 1, Op.add, qOfNat 2, qOfNat 3)], [(qOfNat 1, Op.add, qOfNat 1, qOfNat 2), (qOfNat 1, Op.mul, qOfNat 1, qOfNat 1), (qOfNat 2, Op.div, qOfNat 1, qOfNat 2), (qOfNat 2, Op.sub, qOfNat 1, qOfNat 1)], [(qOfNat 1, Op.add, qOfNat 1, qOfNat 2), (qOfNat 1, Op.div, qOfNat 1, qOfNat 1), (qOfNat 1, Op.add, qOfNat 2, qOfNat 3), (qOfNat 1, Op.add, qOfNat 3, qOfNat 4)], [(qOfNat 1, Op.add, qOfNat 1, qOfNat 2), (qOfNat 1, Op.div, qOfNat 1, qOfNat 1), (qOfNat 1, Op.add, qOfNat 2, qOfNat 3), (qOfNat 1, Op.mul, qOfNat 3, qOfNat 3)], [(qOfNat 1, Op.add, qOfNat 1, qOfNat 2), (qOfNat 1, Op.div, qOfNat 1, qOfNat 1), (qOfNat 1, Op.add, qOfNat 2, qOfNat 3), (qOfNat 3, Op.sub, qOfNat 1, qOfNat 2)], [(qOfNat 1, Op.add, qOfNat 1, qOfNat 2), (qOfNat 1, Op.div, qOfNat 1, qOfNat 1), (qOfNat 1, Op.add, qOfNat 2, qOfNat 3), (qOfNat 3, Op.div, qOfNat 1, qOfNat 3)], [(qOfNat 1, Op.add, qOfNat 1, qOfNat 2), (qOfNat 1, Op.div, qOfNat 1, qOfNat 1), (qOfNat 1, Op.mul, qOfNat 2, qOfNat 2), (qOfNat 1, Op.add, qOfNat 2, qOfNat 3)], [(qOfNat 1, Op.add, qOfNat 1, qOfNat 2), (qOfNat 1, Op.div, qOfNat 1, qOfNat 1), (qOfNat 1, Op.mul, qOfNat 2, qOfNat 2), (qOfNat 2, Op.sub, qOfNat 1, qOfNat 1)], [(qOfNat 1, Op.add, qOfNat 1, qOfNat 2), (qOfNat 1, Op.div, qOfNat 1, qOfNat 1), (qOfNat 1, Op.mul, qOfNat 2, qOfNat 2), (qOfNat 2, Op.div, qOfNat 1, qOfNat 2)], [(qOfNat 1, Op.add, qOfNat 1, qOfNat 2), (qOfNat 1, Op.div, qOfNat 1, qOfNat 1), (qOfNat 2, Op.div, qOfNat 1, qOfNat 2), (qOfNat 1, Op.add, qOfNat 2, qOfNat 3)], [(qOfNat 1, Op.add, qOfNat 1, qOfNat 2), (qOfNat 1, Op.div, qOfNat 1, qOfNat 1), (qOfNat 2, Op.div, qOfNat 1, qOfNat 2), (qOfNat 2, Op.sub, qOfNat 1, qOfNat 1)], [(qOfNat 1, Op.add, qOfNat 1, qOfNat 2), (qOfNat 1, Op.add, qOfNat 2, qOfNat 3), (qOfNat 1, Op.add, qOfNat 3, qOfNat 4), (qOfNat 1, Op.add, qOfNat 4, qOfNat 5)], [(qOfNat 1, Op.add, qOfNat 1, qOfNat 2), (qOfNat 1, Op.add, qOfNat 2, qOfNat 3), (qOfNat 1, Op.add, qOfNat 3, qOfNat 4), (qOfNat 1, Op.mul, qOfNat 4, qOfNat 4)], [(qOfNat 1, Op.add, qOfNat 1, qOfNat 2), (qOfNat 1, Op.add, qOfNat 2, qOfNat 3), (qOfNat 1, Op.add, qOfNat 3, qOfNat 4), (qOfNat 4, Op.sub, qOfNat 1, qOfNat 3)], [(qOfNat 1, Op.add, qOfNat 1, qOfNat 2), (qOfNat 1, Op.add, qOfNat 2, qOfNat 3), (qOfNat 1, Op.add, qOfNat 3, qOfNat 4), (qOfNat 4, Op.div, qOfNat 1, qOfNat 4)], [(qOfNat 1, Op.add, qOfNat 1, qOfNat 2), (qOfNat 1, Op.add, qOfNat 2, qOfNat 3), (qOfNat 1, Op.mul, qOfNat 3, qOfNat 3), (qOfNat 1, Op.add, qOfNat 3, qOfNat 4)], [(qOfNat 1, Op.add, qOfNat 1, qOfNat 2), (qOfNat 1, Op.add, qOfNat 2, qOfNat 3), (qOfNat 1, Op.mul, qOfNat 3, qOfNat 3), (qOfNat 3, Op.sub, qOfNat 1, qOfNat 2)], [(qOfNat 1, Op.add, qOfNat 1, qOfNat 2), (qOfNat 1, Op.add, qOfNat 2, qOfNat 3), (qOfNat 1, Op.mul, qOfNat 3, qOfNat 3), (qOfNat 3, Op.div, qOfNat 1, qOfNat 3)], [(qOfNat 1, Op.add, qOfNat 1, qOfNat 2), (qOfNat 1, Op.add, qOfNat 2, qOfNat 3), (qOfNat 3, Op.sub, qOfNat 1, qOfNat 2), (qOfNat 1, Op.mul, qOfNat 2, qOfNat 2)], [(qOfNat 1, Op.add, qOfNat 1, qOfNat 2), (qOfNat 1, Op.add, qOfNat 2, qOfNat 3), (qOfNat 3, Op.sub, qOfNat 1, qOfNat 2), (qOfNat 2, Op.sub, qOfNat 1, qOfNat 1)], [(qOfNat 1, Op.add, qOfNat 1, qOfNat 2), (qOfNat 1, Op.add, qOfNat 2, qOfNat 3), (qOfNat 3, Op.sub, qOfNat 1, qOfNat 2), (qOfNat 2, Op.div, qOfNat 1, qOfNat 2)], [(qOfNat 1, Op.add, qOfNat 1, qOfNat 2), (qOfNat 1, Op.add, qOfNat 2, qOfNat 3), (qOfNat 3, Op.div, qOfNat 1, qOfNat 3), (qOfNat 1, Op.add, qOfNat 3, qOfNat 4)], [(qOfNat 1, Op.add, qOfNat 1, qOfNat 2), (qOfNat 1, Op.add, qOfNat 2, qOfNat 3), (qOfNat 3, Op.div, qOfNat 1, qOfNat 3), (qOfNat 3, Op.sub, qOfNat 1, qOfNat 2)], [(qOfNat 1, Op.add, qOfNat 1, qOfNat 2), (qOfNat 1, Op.mul, qOfNat 2, qOfNat 2), (qOfNat 1, Op.add, qOfNat 2, qOfNat 3), (qOfNat 1, Op.add, qOfNat 3, qOfNat 4)], [(qOfNat 1, Op.add, qOfNat 1, qOfNat 2), (qOfNat 1, Op.mul, qOfNat 2, qOfNat 2), (qOfNat 1, Op.add, qOfNat 2, qOfNat 3), (qOfNat 1, Op.mul, qOfNat 3, qOfNat 3)], [(qOfNat 1, Op.add, qOfNat 1, qOfNat 2), (qOfNat 1, Op.mul, qOfNat 2, qOfNat 2), (qOfNat 1, Op.add, qOfNat 2, qOfNat 3), (qOfNat 3, Op.div, qOfNat 1, qOfNat 3)], [(qOfNat 1, Op.add, qOfNat 1, qOfNat 2), (qOfNat 1, Op.mul, qOfNat 2, qOfNat 2), (qOfNat 2, Op.div, qOfNat 1, qOfNat 2), (qOfNat 1, Op.add, qOfNat 2, qOfNat 3)], [(qOfNat 1, Op.add, qOfNat 1, qOfNat 2), (qOfNat 1, Op.mul, qOfNat 2, qOfNat 2), (qOfNat 2, Op.div, qOfNat 1, qOfNat 2), (qOfNat 2, Op.sub, qOfNat 1, qOfNat 1)], [(qOfNat 1, Op.add, qOfNat 1, qOfNat 2), (qOfNat 2, Op.div, qOfNat 1, qOfNat 2), (qOfNat 1, Op.add, qOfNat 2, qOfNat 3), (qOfNat 1, Op.add, qOfNat 3, qOfNat 4)], [(qOfNat 1, Op.add, qOfNat 1, qOfNat 2), (qOfNat 2, Op.div, qOfNat 1, qOfNat 2), (qOfNat 1, Op.add, qOfNat 2, qOfNat 3), (qOfNat 1, Op.mul, qOfNat 3, qOfNat 3)], [(qOfNat 1, Op.add, qOfNat 1, qOfNat 2), (qOfNat 2, Op.div, qOfNat 1, qOfNat 2), (qOfNat 1, Op.add, qOfNat 2, qOfNat 3), (qOfNat 3, Op.div, qOfNat 1, qOfNat 3)], [(qOfNat 1, Op.add, qOfNat 1, qOfNat 2), (qOfNat 1, Op.mul, qOfNat 1, qOfNat 1), (qOfNat 1, Op.div, qOfNat 1, qOfNat 1), (qOfNat 2, Op.add, qOfNat 1, qOfNat 3), (qOfNat 1, Op.add, qOfNat 3, qOfNat 4)], [(qOfNat 1, Op.add, qOfNat 1, qOfNat 2), (qOfNat 1, Op.mul, qOfNat 1, qOfNat 1), (qOfNat 1, Op.div, qOfNat 1, qOfNat 1), (qOfNat 2, Op.add, qOfNat 1, qOfNat 3), (qOfNat 1, Op.mul, qOfNat 3, qOfNat 3)], [(qOfNat 1, Op.add, qOfNat 1, qOfNat 2), (qOfNat 1, Op.mul, qOfNat 1, qOfNat 1), (qOfNat 1, Op.div, qOfNat 1, qOfNat 1), (qOfNat 2, Op.add, qOfNat 1, qOfNat 3), (qOfNat 3, Op.sub, qOfNat 1, qOfNat 2)], [(qOfNat 1, Op.add, qOfNat 1, qOfNat 2), (qOfNat 1, Op.mul, qOfNat 1, qOfNat 1), (qOfNat 1, Op.div, qOfNat 1, qOfNat 1), (qOfNat 2, Op.add, qOfNat 1, qOfNat 3), (qOfNat 3, Op.div, qOfNat 1, qOfNat 3)], [(qOfNat 1, Op.add, qOfNat 1, qOfNat 2), (qOfNat 1, Op.mul, qOfNat 1, qOfNat 1), (qOfNat 1, Op.div, qOfNat 1, qOfNat 1), (qOfNat 2, Op.mul, qOfNat 1, qOfNat 2), (qOfNat 1, Op.add, qOfNat 2, qOfNat 3)], [(qOfNat 1, Op.add, qOfNat 1, qOfNat 2), (qOfNat 1, Op.mul, qOfNat 1, qOfNat 1), (qOfNat 1, Op.div, qOfNat 1, qOfNat 1), (qOfNat 2, Op.mul, qOfNat 1, qOfNat 2), (qOfNat 2, Op.sub, qOfNat 1, qOfNat 1)], [(qOfNat 1, Op.add, qOfNat 1, qOfNat 2), (qOfNat 1, Op.mul, qOfNat 1, qOfNat 1), (qOfNat 1, Op.div, qOfNat 1, qOfNat 1), (qOfNat 2, Op.mul, qOfNat 1, qOfNat 2), (qOfNat 2, Op.div, qOfNat 1, qOfNat 2)], [(qOfNat 1, Op.add, qOfNat 1, qOfNat 2), (qOfNat 1, Op.mul, qOfNat 1, qOfNat 1), (qOfNat 1, Op.div, qOfNat 1, qOfNat 1), (qOfNat 2, Op.div, qOfNat 1, qOfNat 2), (qOfNat 1, Op.add, qOfNat 2, qOfNat 3)], [(qOfNat 1, Op.add, qOfNat 1, qOfNat 2), (qOfNat 1, Op.mul, qOfNat 1, qOfNat 1), (qOfNat 1, Op.div, qOfNat 1, qOfNat 1), (qOfNat 2, Op.div, qOfNat 1, qOfNat 2), (qOfNat 2, Op.sub, qOfNat 1, qOfNat 1)], [(qOfNat 1, Op.add, qOfNat 1, qOfNat 2), (qOfNat 1, Op.mul, qOfNat 1, qOfNat 1), (qOfNat 1, Op.add, qOfNat 2, qOfNat 3), (qOfNat 1, Op.div, qOfNat 1, qOfNat 1), (qOfNat 3, Op.add, qOfNat 1, qOfNat 4)], [(qOfNat 1, Op.add, qOfNat 1, qOfNat 2), (qOfNat 1, Op.mul, qOfNat 1, qOfNat 1), (qOfNat 1, Op.add, qOfNat 2, qOfNat 3), (qOfNat 1, Op.div, qOfNat 1, qOfNat 1), (qOfNat 3, Op.sub, qOfNat 1, qOfNat 2)], [(qOfNat 1, Op.add, qOfNat 1, qOfNat 2), (qOfNat 1, Op.mul, qOfNat 1, qOfNat 1), (qOfNat 1, Op.add, qOfNat 2, qOfNat 3), (qOfNat 1, Op.div, qOfNat 1, qOfNat 1), (qOfNat 3, Op.mul, qOfNat 1, qOfNat 3)], [(qOfNat 1, Op.add, qOfNat 1, qOfNat 2), (qOfNat 1, Op.mul, qOfNat 1, qOfNat 1), (qOfNat 1, Op.add, qOfNat 2, qOfNat 3), (qOfNat 1, Op.div, qOfNat 1, qOfNat 1), (qOfNat 3, Op.div, qOfNat 1, qOfNat 3)], [(qOfNat 1, Op.add, qOfNat 1, qOfNat 2), (qOfNat 1, Op.mul, qOfNat 1, qOfNat 1), (qOfNat 1, Op.add, qOfNat 2, qOfNat 3), (qOfNat 1, Op.add, qOfNat 3, qOfNat 4), (qOfNat 1, Op.add, qOfNat 4, qOfNat 5)], [(qOfNat 1, Op.add, qOfNat 1, qOfNat 2), (qOfNat 1, Op.mul, qOfNat 1, qOfNat 1), (qOfNat 1, Op.add, qOfNat 2, qOfNat 3), (qOfNat 1, Op.add, qOfNat 3, qOfNat 4), (qOfNat 1, Op.mul, qOfNat 4, qOfNat 4)], [(qOfNat 1, Op.add, qOfNat 1, qOfNat 2), (qOfNat 1, Op.mul, qOfNat 1, qOfNat 1), (qOfNat 1, Op.add, qOfNat 2, qOfNat 3), (qOfNat 1, Op.add, qOfNat 3, qOfNat 4), (qOfNat 4, Op.sub, qOfNat 1, qOfNat 3)], [(qOfNat 1, Op.add, qOfNat 1, qOfNat 2), (qOfNat 1, Op.mul, qOfNat 1, qOfNat 1), (qOfNat 1, Op.add, qOfNat 2, qOfNat 3), (qOfNat 1, Op.add, qOfNat 3, qOfNat 4), (qOfNat 4, Op.div, qOfNat 1, qOfNat 4)], [(qOfNat 1, Op.add, qOfNat 1, qOfNat 2), (qOfNat 1, Op.mul, qOfNat 1, qOfNat 1), (qOfNat 1, Op.add, qOfNat 2, qOfNat 3), (qOfNat 1, Op.mul, qOfNat 3, qOfNat 3), (qOfNat 1, Op.add, qOfNat 3, qOfNat 4)], [(qOfNat 1, Op.add, qOfNat 1, qOfNat 2), (qOfNat 1, Op.mul, qOfNat 1, qOfNat 1), (qOfNat 1, Op.add, qOfNat 2, qOfNat 3), (qOfNat 1, Op.mul, qOfNat 3, qOfNat 3), (qOfNat 3, Op.sub, qOfNat 1, qOfNat 2)], [(qOfNat 1, Op.add, qOfNat 1, qOfNat 2), (qOfNat 1, Op.mul, qOfNat 1, qOfNat 1), (qOfNat 1, Op.add, qOfNat 2, qOfNat 3), (qOfNat 1, Op.mul, qOfNat 3, qOfNat 3), (qOfNat 3, Op.div, qOfNat 1, qOfNat 3)], [(qOfNat 1, Op.add, qOfNat 1, qOfNat 2), (qOfNat 1, Op.mul, qOfNat 1, qOfNat 1), (qOfNat 1, Op.add, qOfNat 2, qOfNat 3), (qOfNat 3, Op.sub, qOfNat 1, qOfNat 2), (qOfNat 1, Op.mul, qOfNat 2, qOfNat 2)], [(qOfNat 1, Op.add, qOfNat 1, qOfNat 2), (qOfNat 1, Op.mul, qOfNat 1, qOfNat 1), (qOfNat 1, Op.add, qOfNat 2, qOfNat 3), (qOfNat 3, Op.sub, qOfNat 1, qOfNat 2), (qOfNat 2, Op.sub, qOfNat 1, qOfNat 1)], [(qOfNat 1, Op.add, qOfNat 1, qOfNat 2), (qOfNat 1, Op.mul, qOfNat 1, qOfNat 1), (qOfNat 1, Op.add, qOfNat 2, qOfNat 3), (qOfNat 3, Op.sub, qOfNat 1, qOfNat 2), (qOfNat 2, Op.div, qOfNat 1, qOfNat 2)], [(qOfNat 1, Op.add, qOfNat 1, qOfNat 2), (qOfNat 1, Op.mul, qOfNat 1, qOfNat 1), (qOfNat 1, Op.add, qOfNat 2, qOfNat 3), (qOfNat 3, Op.div, qOfNat 1, qOfNat 3), (qOfNat 1, Op.add, qOfNat 3, qOfNat 4)], [(qOfNat 1, Op.add, qOfNat 1, qOfNat 2), (qOfNat 1, Op.mul, qOfNat 1, qOfNat 1), (qOfNat 1, Op.add, qOfNat 2, qOfNat 3), (qOfNat 3, Op.div, qOfNat 1, qOfNat 3), (qOfNat 3, Op.sub, qOfNat 1, qOfNat 2)], [(qOfNat 1, Op.add, qOfNat 1, qOfNat 2), (qOfNat 1, Op.mul, qOfNat 1, qOfNat 1), (qOfNat 1, Op.mul, qOfNat 2, qOfNat 2), (qOfNat 1, Op.div, qOfNat 1, qOfNat 1), (qOfNat 2, Op.add, qOfNat 1, qOfNat 3)], [(qOfNat 1, Op.add, qOfNat 1, qOfNat 2), (qOfNat 1, Op.mul, qOfNat 1, qOfNat 1), (qOfNat 1, Op.mul, qOfNat 2, qOfNat 2), (qOfNat 1, Op.div, qOfNat 1, qOfNat 1), (qOfNat 2, Op.sub, qOfNat 1, qOfNat 1)], [(qOfNat 1, Op.add, qOfNat 1, qOfNat 2), (qOfNat 1, Op.mul, qOfNat 1, qOfNat 1), (qOfNat 1, Op.mul, qOfNat 2, qOfNat 2), (qOfNat 1, Op.div, qOfNat 1, qOfNat 1), (qOfNat 2, Op.div, qOfNat 1, qOfNat 2)], [(qOfNat 1, Op.add, qOfNat 1, qOfNat 2), (qOfNat 1, Op.mul, qOfNat 1, qOfNat 1), (qOfNat 1, Op.mul, qOfNat 2, qOfNat 2), (qOfNat 1, Op.add, qOfNat 2, qOfNat 3), (qOfNat 1, Op.add, qOfNat 3, qOfNat 4)], [(qOfNat 1, Op.add, qOfNat 1, qOfNat 2), (qOfNat 1, Op.mul, qOfNat 1, qOfNat 1), (qOfNat 1, Op.mul, qOfNat 2, qOfNat 2), (qOfNat 1, Op.add, qOfNat 2, qOfNat 3), (qOfNat 1, Op.mul, qOfNat 3, qOfNat 3)], [(qOfNat 1, Op.add, qOfNat 1, qOfNat 2), (qOfNat 1, Op.mul, qOfNat 1, qOfNat 1), (qOfNat 1, Op.mul, qOfNat 2, qOfNat 2), (qOfNat 1, Op.add, qOfNat 2, qOfNat 3), (qOfNat 3, Op.div, qOfNat 1, qOfNat 3)], [(qOfNat 1, Op.add, qOfNat 1, qOfNat 2), (qOfNat 1, Op.mul, qOfNat 1, qOfNat 1), (qOfNat 1, Op.mul, qOfNat 2, qOfNat 2), (qOfNat 2, Op.div, qOfNat 1, qOfNat 2), (qOfNat 1, Op.add, qOfNat 2, qOfNat 3)], [(qOfNat 1, Op.add, qOfNat 1, qOfNat 2), (qOfNat 1, Op.mul, qOfNat 1, qOfNat 1), (qOfNat 1, Op.mul, qOfNat 2, qOfNat 2), (qOfNat 2, Op.div, qOfNat 1, qOfNat 2), (qOfNat 2, Op.sub, qOfNat 1, qOfNat 1)], [(qOfNat 1, Op.add, qOfNat 1, qOfNat 2), (qOfNat 1, Op.mul, qOfNat 1, qOfNat 1), (qOfNat 2, Op.div, qOfNat 1, qOfNat 2), (qOfNat 1, Op.add, qOfNat 2, qOfNat 3), (qOfNat 1, Op.add, qOfNat 3, qOfNat 4)], [(qOfNat 1, Op.add, qOfNat 1, qOfNat 2), (qOfNat 1, Op.mul, qOfNat 1, qOfNat 1), (qOfNat 2, Op.div, qOfNat 1, qOfNat 2), (qOfNat 1, Op.add, qOfNat 2, qOfNat 3), (qOfNat 1, Op.mul, qOfNat 3, qOfNat 3)], [(qOfNat 1, Op.add, qOfNat 1, qOfNat 2), (qOfNat 1, Op.mul, qOfNat 1, qOfNat 1), (qOfNat 2, Op.div, qOfNat 1, qOfNat 2), (qOfNat 1, Op.add, qOfNat 2, qOfNat 3), (qOfNat 3, Op.div, qOfNat 1, qOfNat 3)], [(qOfNat 1, Op.add, qOfNat 1, qOfNat 2), (qOfNat 1, Op.div, qOfNat 1, qOfNat 1), (qOfNat 1, Op.add, qOfNat 2, qOfNat 3), (qOfNat 1, Op.add, qOfNat 3, qOfNat 4), (qOfNat 1, Op.add, qOfNat 4, qOfNat 5)], [(qOfNat 1, Op.add, qOfNat 1, qOfNat 2), (qOfNat 1, Op.div, qOfNat 1, qOfNat 1), (qOfNat 1, Op.add, qOfNat 2, qOfNat 3), (qOfNat 1, Op.add, qOfNat 3, qOfNat 4), (qOfNat 1, Op.mul, qOfNat 4, qOfNat 4)], [(qOfNat 1, Op.add, qOfNat 1, qOfNat 2), (qOfNat 1, Op.div, qOfNat 1, qOfNat 1), (qOfNat 1, Op.add, qOfNat 2, qOfNat 3), (qOfNat 1, Op.add, qOfNat 3, qOfNat 4), (qOfNat 4, Op.sub, qOfNat 1, qOfNat 3)], [(qOfNat 1, Op.add, qOfNat 1, qOfNat 2), (qOfNat 1, Op.div, qOfNat 1, qOfNat 1), (qOfNat 1, Op.add, qOfNat 2, qOfNat 3), (qOfNat 1, Op.add, qOfNat 3, qOfNat 4), (qOfNat 4, Op.div, qOfNat 1, qOfNat 4)], [(qOfNat 1, Op.add, qOfNat 1, qOfNat 2), (qOfNat 1, Op.div, qOfNat 1, qOfNat 1), (qOfNat 1, Op.add, qOfNat 2, qOfNat 3), (qOfNat 1, Op.mul, qOfNat 3, qOfNat 3), (qOfNat 1, Op.add, qOfNat 3, qOfNat 4)], [(qOfNat 1, Op.add, qOfNat 1, qOfNat 2), (qOfNat 1, Op.div, qOfNat 1, qOfNat 1), (qOfNat 1, Op.add, qOfNat 2, qOfNat 3), (qOfNat 1, Op.mul, qOfNat 3, qOfNat 3), (qOfNat 3, Op.sub, qOfNat 1, qOfNat 2)], [(qOfNat 1, Op.add, qOfNat 1, qOfNat 2), (qOfNat 1, Op.div, qOfNat 1, qOfNat 1), (qOfNat 1, Op.add, qOfNat 2, qOfNat 3), (qOfNat 1, Op.mul, qOfNat 3, qOfNat 3), (qOfNat 3, Op.div, qOfNat 1, qOfNat 3)], [(qOfNat 1, Op.add, qOfNat 1, qOfNat 2), (qOfNat 1, Op.div, qOfNat 1, qOfNat 1), (qOfNat 1, Op.add, qOfNat 2, qOfNat 3), (qOfNat 3, Op.sub, qOfNat 1, qOfNat 2), (qOfNat 1, Op.mul, qOfNat 2, qOfNat 2)], [(qOfNat 1, Op.add, qOfNat 1, qOfNat 2), (qOfNat 1, Op.div, qOfNat 1, qOfNat 1), (qOfNat 1, Op.add, qOfNat 2, qOfNat 3), (qOfNat 3, Op.sub, qOfNat 1, qOfNat 2), (qOfNat 2, Op.sub, qOfNat 1, qOfNat 1)], [(qOfNat 1, Op.add, qOfNat 1, qOfNat 2), (qOfNat 1, Op.div, qOfNat 1, qOfNat 1), (qOfNat 1, Op.add, qOfNat 2, qOfNat 3), (qOfNat 3, Op.sub, qOfNat 1, qOfNat 2), (qOfNat 2, Op.div, qOfNat 1, qOfNat 2)], [(qOfNat 1, Op.add, qOfNat 1, qOfNat 2), (qOfNat 1, Op.div, qOfNat 1, qOfNat 1), (qOfNat 1, Op.add, qOfNat 2, qOfNat 3), (qOfNat 3, Op.div, qOfNat 1, qOfNat 3), (qOfNat 1, Op.add, qOfNat 3, qOfNat 4)], [(qOfNat 1, Op.add, qOfNat 1, qOfNat 2), (qOfNat 1, Op.div, qOfNat 1, qOfNat 1), (qOfNat 1, Op.add, qOfNat 2, qOfNat 3), (qOfNat 3, Op.div, qOfNat 1, qOfNat 3), (qOfNat 3, Op.sub, qOfNat 1, qOfNat 2)], [(qOfNat 1, Op.add, qOfNat 1, qOfNat 2), (qOfNat 1, Op.div, qOfNat 1, qOfNat 1), (qOfNat 1, Op.mul, qOfNat 2, qOfNat 2), (qOfNat 1, Op.add, qOfNat 2, qOfNat 3), (qOfNat 1, Op.add, qOfNat 3, qOfNat 4)], [(qOfNat 1, Op.add, qOfNat 1, qOfNat 2), (qOfNat 1, Op.div, qOfNat 1, qOfNat 1), (qOfNat 1, Op.mul, qOfNat 2, qOfNat 2), (qOfNat 1, Op.add, qOfNat 2, qOfNat 3), (qOfNat 1, Op.mul, qOfNat 3, qOfNat 3)], [(qOfNat 1, Op.add, qOfNat 1, qOfNat 2), (qOfNat 1, Op.div, qOfNat 1, qOfNat 1), (qOfNat 1, Op.mul, qOfNat 2, qOfNat 2), (qOfNat 1, Op.add, qOfNat 2, qOfNat 3), (qOfNat 3, Op.div, qOfNat 1, qOfNat 3)], [(qOfNat 1, Op.add, qOfNat 1, qOfNat 2), (qOfNat 1, Op.div, qOfNat 1, qOfNat 1), (qOfNat 1, Op.mul, qOfNat 2, qOfNat 2), (qOfNat 2, Op.div, qOfNat 1, qOfNat 2), (qOfNat 1, Op.add, qOfNat 2, qOfNat 3)], [(qOfNat 1, Op.add, qOfNat 1, qOfNat 2), (qOfNat 1, Op.div, qOfNat 1, qOfNat 1), (qOfNat 1, Op.mul, qOfNat 2, qOfNat 2), (qOfNat 2, Op.div, qOfNat 1, qOfNat 2), (qOfNat 2, Op.sub, qOfNat 1, qOfNat 1)], [(qOfNat 1, Op.add, qOfNat 1, qOfNat 2), (qOfNat 1, Op.div, qOfNat 1, qOfNat 1), (qOfNat 2, Op.div, qOfNat 1, qOfNat 2), (qOfNat 1, Op.add, qOfNat 2, qOfNat 3), (qOfNat 1, Op.add, qOfNat 3, qOfNat 4)], [(qOfNat 1, Op.add, qOfNat 1, qOfNat 2), (qOfNat 1, Op.div, qOfNat 1, qOfNat 1), (qOfNat 2, Op.div, qOfNat 1, qOfNat 2), (qOfNat 1, Op.add, qOfNat 2, qOfNat 3), (qOfNat 1, Op.mul, qOfNat 3, qOfNat 3)], [(qOfNat 1, Op.add, qOfNat 1, qOfNat 2), (qOfNat 1, Op.div, qOfNat 1, qOfNat 1), (qOfNat 2, Op.div, qOfNat 1, qOfNat 2), (qOfNat 1, Op.add, qOfNat 2, qOfNat 3), (qOfNat 3, Op.div, qOfNat 1, qOfNat 3)], [(qOfNat 1, Op.add, qOfNat 1, qOfNat 2), (qOfNat 1, Op.add, qOfNat 2, qOfNat 3), (qOfNat 1, Op.add, qOfNat 3, qOfNat 4), (qOfNat 1, Op.add, qOfNat 4, qOfNat 5), (qOfNat 1, Op.add, qOfNat 5, qOfNat 6)], [(qOfNat 1, Op.add, qOfNat 1, qOfNat 2), (qOfNat 1, Op.add, qOfNat 2, qOfNat 3), (qOfNat 1, Op.add, qOfNat 3, qOfNat 4), (qOfNat 1, Op.add, qOfNat 4, qOfNat 5), (qOfNat 1, Op.mul, qOfNat 5, qOfNat 5)], [(qOfNat 1, Op.add, qOfNat 1, qOfNat 2), (qOfNat 1, Op.add, qOfNat 2, qOfNat 3), (qOfNat 1, Op.add, qOfNat 3, qOfNat 4), (qOfNat 1, Op.add, qOfNat 4, qOfNat 5), (qOfNat 5, Op.sub, qOfNat 1, qOfNat 4)], [(qOfNat 1, Op.add, qOfNat 1, qOfNat 2), (qOfNat 1, Op.add, qOfNat 2, qOfNat 3), (qOfNat 1, Op.add, qOfNat 3, qOfNat 4), (qOfNat 1, Op.add, qOfNat 4, qOfNat 5), (qOfNat 5, Op.div, qOfNat 1, qOfNat 5)], [(qOfNat 1, Op.add, qOfNat 1, qOfNat 2), (qOfNat 1, Op.add, qOfNat 2, qOfNat 3), (qOfNat 1, Op.add, qOfNat 3, qOfNat 4), (qOfNat 1, Op.mul, qOfNat 4, qOfNat 4), (qOfNat 1, Op.add, qOfNat 4, qOfNat 5)], [(qOfNat 1, Op.add, qOfNat 1, qOfNat 2), (qOfNat 1, Op.add, qOfNat 2, qOfNat 3), (qOfNat 1, Op.add, qOfNat 3, qOfNat 4), (qOfNat 1, Op.mul, qOfNat 4, qOfNat 4), (qOfNat 4, Op.sub, qOfNat 1, qOfNat 3)], [(qOfNat 1, Op.add, qOfNat 1, qOfNat 2), (qOfNat 1, Op.add, qOfNat 2, qOfNat 3), (qOfNat 1, Op.add, qOfNat 3, qOfNat 4), (qOfNat 1, Op.mul, qOfNat 4, qOfNat 4), (qOfNat 4, Op.div, qOfNat 1, qOfNat 4)], [(qOfNat 1, Op.add, qOfNat 1, qOfNat 2), (qOfNat 1, Op.add, qOfNat 2, qOfNat 3), (qOfNat 1, Op.add, qOfNat 3, qOfNat 4), (qOfNat 4, Op.sub, qOfNat 1, qOfNat 3), (qOfNat 1, Op.mul, qOfNat 3, qOfNat 3)], [(qOfNat 1, Op.add, qOfNat 1, qOfNat 2), (qOfNat 1, Op.add, qOfNat 2, qOfNat 3), (qOfNat 1, Op.add, qOfNat 3, qOfNat 4), (qOfNat 4, Op.sub, qOfNat 1, qOfNat 3), (qOfNat 3, Op.sub, qOfNat 1, qOfNat 2)], [(qOfNat 1, Op.add, qOfNat 1, qOfNat 2), (qOfNat 1, Op.add, qOfNat 2, qOfNat 3), (qOfNat 1, Op.add, qOfNat 3, qOfNat 4), (qOfNat 4, Op.sub, qOfNat 1, qOfNat 3), (qOfNat 3, Op.div, qOfNat 1, qOfNat 3)], [(qOfNat 1, Op.add, qOfNat 1, qOfNat 2), (qOfNat 1, Op.add, qOfNat 2, qOfNat 3), (qOfNat 1, Op.add, qOfNat 3, qOfNat 4), (qOfNat 4, Op.div, qOfNat 1, qOfNat 4), (qOfNat 1, Op.add, qOfNat 4, qOfNat 5)], [(qOfNat 1, Op.add, qOfNat 1, qOfNat 2), (qOfNat 1, Op.add, qOfNat 2, qOfNat 3), (qOfNat 1, Op.add, qOfNat 3, qOfNat 4), (qOfNat 4, Op.div, qOfNat 1, qOfNat 4), (qOfNat 4, Op.sub, qOfNat 1, qOfNat 3)], [(qOfNat 1, Op.add, qOfNat 1, qOfNat 2), (qOfNat 1, Op.add, qOfNat 2, qOfNat 3), (qOfNat 1, Op.mul, qOfNat 3, qOfNat 3), (qOfNat 1, Op.add, qOfNat 3, qOfNat 4), (qOfNat 1, Op.add, qOfNat 4, qOfNat 5)], [(qOfNat 1, Op.add, qOfNat 1, qOfNat 2), (qOfNat 1, Op.add, qOfNat 2, qOfNat 3), (qOfNat 1, Op.mul, qOfNat 3, qOfNat 3), (qOfNat 1, Op.add, qOfNat 3, qOfNat 4), (qOfNat 1, Op.mul, qOfNat 4, qOfNat 4)], [(qOfNat 1, Op.add, qOfNat 1, qOfNat 2), (qOfNat 1, Op.add, qOfNat 2, qOfNat 3), (qOfNat 1, Op.mul, qOfNat 3, qOfNat 3), (qOfNat 1, Op.add, qOfNat 3, qOfNat 4), (qOfNat 4, Op.div, qOfNat 1, qOfNat 4)], [(qOfNat 1, Op.add, qOfNat 1, qOfNat 2), (qOfNat 1, Op.add, qOfNat 2, qOfNat 3), (qOfNat 1, Op.mul, qOfNat 3, qOfNat 3), (qOfNat 3, Op.sub, qOfNat 1, qOfNat 2), (qOfNat 1, Op.mul, qOfNat 2, qOfNat 2)], [(qOfNat 1, Op.add, qOfNat 1, qOfNat 2), (qOfNat 1, Op.add, qOfNat 2, qOfNat 3), (qOfNat 1, Op.mul, qOfNat 3, qOfNat 3), (qOfNat 3, Op.sub, qOfNat 1, qOfNat 2), (qOfNat 2, Op.sub, qOfNat 1, qOfNat 1)], [(qOfNat 1, Op.add, qOfNat 1, qOfNat 2), (qOfNat 1, Op.add, qOfNat 2, qOfNat 3), (qOfNat 1, Op.mul, qOfNat 3, qOfNat 3), (qOfNat 3, Op.sub, qOfNat 1, qOfNat 2), (qOfNat 2, Op.div, qOfNat 1, qOfNat 2)], [(qOfNat 1, Op.add, qOfNat 1, qOfNat 2), (qOfNat 1, Op.add, qOfNat 2, qOfNat 3), (qOfNat 1, Op.mul, qOfNat 3, qOfNat 3), (qOfNat 3, Op.div, qOfNat 1, qOfNat 3), (qOfNat 1, Op.add, qOfNat 3, qOfNat 4)], [(qOfNat 1, Op.add, qOfNat 1, qOfNat 2), (qOfNat 1, Op.add, qOfNat 2, qOfNat 3), (qOfNat 1, Op.mul, qOfNat 3, qOfNat 3), (qOfNat 3, Op.div, qOfNat 1, qOfNat 3), (qOfNat 3, Op.sub, qOfNat 1, qOfNat 2)], [(qOfNat 1, Op.add, qOfNat 1, qOfNat 2), (qOfNat 1, Op.add, qOfNat 2, qOfNat 3), (qOfNat 3, Op.sub, qOfNat 1, qOfNat 2), (qOfNat 1, Op.mul, qOfNat 2, qOfNat 2), (qOfNat 2, Op.sub, qOfNat 1, qOfNat 1)], [(qOfNat 1, Op.add, qOfNat 1, qOfNat 2), (qOfNat 1, Op.add, qOfNat 2, qOfNat 3), (qOfNat 3, Op.sub, qOfNat 1, qOfNat 2), (qOfNat 1, Op.mul, qOfNat 2, qOfNat 2), (qOfNat 2, Op.div, qOfNat 1, qOfNat 2)], [(qOfNat 1, Op.add, qOfNat 1, qOfNat 2), (qOfNat 1, Op.add, qOfNat 2, qOfNat 3), (qOfNat 3, Op.sub, qOfNat 1, qOfNat 2), (qOfNat 2, Op.div, qOfNat 1, qOfNat 2), (qOfNat 2, Op.sub, qOfNat 1, qOfNat 1)], [(qOfNat 1, Op.add, qOfNat 1, qOfNat 2), (qOfNat 1, Op.add, qOfNat 2, qOfNat 3), (qOfNat 3, Op.div, qOfNat 1, qOfNat 3), (qOfNat 1, Op.add, qOfNat 3, qOfNat 4), (qOfNat 1, Op.add, qOfNat 4, qOfNat 5)], [(qOfNat 1, Op.add, qOfNat 1, qOfNat 2), (qOfNat 1, Op.add, qOfNat 2, qOfNat 3), (qOfNat 3, Op.div, qOfNat 1, qOfNat 3), (qOfNat 1, Op.add, qOfNat 3, qOfNat 4), (qOfNat 1, Op.mul, qOfNat 4, qOfNat 4)], [(qOfNat 1, Op.add, qOfNat 1, qOfNat 2), (qOfNat 1, Op.add, qOfNat 2, qOfNat 3), (qOfNat 3, Op.div, qOfNat 1, qOfNat 3), (qOfNat 1, Op.add, qOfNat 3, qOfNat 4), (qOfNat 4, Op.div, qOfNat 1, qOfNat 4)], [(qOfNat 1, Op.add, qOfNat 1, qOfNat 2), (qOfNat 1, Op.add, qOfNat 2, qOfNat 3), (qOfNat 3, Op.div, qOfNat 1, qOfNat 3), (qOfNat 3, Op.sub, qOfNat 1, qOfNat 2), (qOfNat 1, Op.mul, qOfNat 2, qOfNat 2)], [(qOfNat 1, Op.add, qOfNat 1, qOfNat 2), (qOfNat 1, Op.add, qOfNat 2, qOfNat 3), (qOfNat 3, Op.div, qOfNat 1, qOfNat 3), (qOfNat 3, Op.sub, qOfNat 1, qOfNat 2), (qOfNat 2, Op.sub, qOfNat 1, qOfNat 1)], [(qOfNat 1, Op.add, qOfNat 1, qOfNat 2), (qOfNat 1, Op.add, qOfNat 2, qOfNat 3), (qOfNat 3, Op.div, qOfNat 1, qOfNat 3), (qOfNat 3, Op.sub, qOfNat 1, qOfNat 2), (qOfNat 2, Op.div, qOfNat 1, qOfNat 2)], [(qOfNat 1, Op.add, qOfNat 1, qOfNat 2), (qOfNat 1, Op.mul, qOfNat 2, qOfNat 2), (qOfNat 1, Op.add, qOfNat 2, qOfNat 3), (qOfNat 1, Op.add, qOfNat 3, qOfNat 4), (qOfNat 1, Op.add, qOfNat 4, qOfNat 5)], [(qOfNat 1, Op.add, qOfNat 1, qOfNat 2), (qOfNat 1, Op.mul, qOfNat 2, qOfNat 2), (qOfNat 1, Op.add, qOfNat 2, qOfNat 3), (qOfNat 1, Op.add, qOfNat 3, qOfNat 4), (qOfNat 1, Op.mul, qOfNat 4, qOfNat 4)], [(qOfNat 1, Op.add, qOfNat 1, qOfNat 2), (qOfNat 1, Op.mul, qOfNat 2, qOfNat 2), (qOfNat 1, Op.add, qOfNat 2, qOfNat 3), (qOfNat 1, Op.add, qOfNat 3, qOfNat 4), (qOfNat 4, Op.sub, qOfNat 1, qOfNat 3)], [(qOfNat 1, Op.add, qOfNat 1, qOfNat 2), (qOfNat 1, Op.mul, qOfNat 2, qOfNat 2), (qOfNat 1, Op.add, qOfNat 2, qOfNat 3), (qOfNat 1, Op.add, qOfNat 3, qOfNat 4), (qOfNat 4, Op.div, qOfNat 1, qOfNat 4)], [(qOfNat 1, Op.add, qOfNat 1, qOfNat 2), (qOfNat 1, Op.mul, qOfNat 2, qOfNat 2), (qOfNat 1, Op.add, qOfNat 2, qOfNat 3), (qOfNat 1, Op.mul, qOfNat 3, qOfNat 3), (qOfNat 1, Op.add, qOfNat 3, qOfNat 4)], [(qOfNat 1, Op.add, qOfNat 1, qOfNat 2), (qOfNat 1, Op.mul, qOfNat 2, qOfNat 2), (qOfNat 1, Op.add, qOfNat 2, qOfNat 3), (qOfNat 1, Op.mul, qOfNat 3, qOfNat 3), (qOfNat 3, Op.div, qOfNat 1, qOfNat 3)], [(qOfNat 1, Op.add, qOfNat 1, qOfNat 2), (qOfNat 1, Op.mul, qOfNat 2, qOfNat 2), (qOfNat 1, Op.add, qOfNat 2, qOfNat 3), (qOfNat 3, Op.div, qOfNat 1, qOfNat 3), (qOfNat 1, Op.add, qOfNat 3, qOfNat 4)], [(qOfNat 1, Op.add, qOfNat 1, qOfNat 2), (qOfNat 1, Op.mul, qOfNat 2, qOfNat 2), (qOfNat 2, Op.div, qOfNat 1, qOfNat 2), (qOfNat 1, Op.add, qOfNat 2, qOfNat 3), (qOfNat 1, Op.add, qOfNat 3, qOfNat 4)], [(qOfNat 1, Op.add, qOfNat 1, qOfNat 2), (qOfNat 1, Op.mul, qOfNat 2, qOfNat 2), (qOfNat 2, Op.div, qOfNat 1, qOfNat 2), (qOfNat 1, Op.add, qOfNat 2, qOfNat 3), (qOfNat 1, Op.mul, qOfNat 3, qOfNat 3)], [(qOfNat 1, Op.add, qOfNat 1, qOfNat 2), (qOfNat 1, Op.mul, qOfNat 2, qOfNat 2), (qOfNat 2, Op.div, qOfNat 1, qOfNat 2), (qOfNat 1, Op.add, qOfNat 2, qOfNat 3), (qOfNat 3, Op.div, qOfNat 1, qOfNat 3)], [(qOfNat 1, Op.add, qOfNat 1, qOfNat 2), (qOfNat 2, Op.div, qOfNat 1, qOfNat 2), (qOfNat 1, Op.add, qOfNat 2, qOfNat 3), (qOfNat 1, Op.add, qOfNat 3, qOfNat 4), (qOfNat 1, Op.add, qOfNat 4, qOfNat 5)], [(qOfNat 1, Op.add, qOfNat 1, qOfNat 2), (qOfNat 2, Op.div, qOfNat 1, qOfNat 2), (qOfNat 1, Op.add, qOfNat 2, qOfNat 3), (qOfNat 1, Op.add, qOfNat 3, qOfNat 4), (qOfNat 1, Op.mul, qOfNat 4, qOfNat 4)], [(qOfNat 1, Op.add, qOfNat 1, qOfNat 2), (qOfNat 2, Op.div, qOfNat 1, qOfNat 2), (qOfNat 1, Op.add, qOfNat 2, qOfNat 3), (qOfNat 1, Op.add, qOfNat 3, qOfNat 4), (qOfNat 4, Op.sub, qOfNat 1, qOfNat 3)], [(qOfNat 1, Op.add, qOfNat 1, qOfNat 2), (qOfNat 2, Op.div, qOfNat 1, qOfNat 2), (qOfNat 1, Op.add, qOfNat 2, qOfNat 3), (qOfNat 1, Op.add, qOfNat 3, qOfNat 4), (qOfNat 4, Op.div, qOfNat 1, qOfNat 4)], [(qOfNat 1, Op.add, qOfNat 1, qOfNat 2), (qOfNat 2, Op.div, qOfNat 1, qOfNat 2), (qOfNat 1, Op.add, qOfNat 2, qOfNat 3), (qOfNat 1, Op.mul, qOfNat 3, qOfNat 3), (qOfNat 1, Op.add, qOfNat 3, qOfNat 4)], [(qOfNat 1, Op.add, qOfNat 1, qOfNat 2), (qOfNat 2, Op.div, qOfNat 1, qOfNat 2), (qOfNat 1, Op.add, qOfNat 2, qOfNat 3), (qOfNat 1, Op.mul, qOfNat 3, qOfNat 3), (qOfNat 3, Op.div, qOfNat 1, qOfNat 3)], [(qOfNat 1, Op.add, qOfNat 1, qOfNat 2), (qOfNat 2, Op.div, qOfNat 1, qOfNat 2), (qOfNat 1, Op.add, qOfNat 2, qOfNat 3), (qOfNat 3, Op.div, qOfNat 1, qOfNat 3), (qOfNat 1, Op.add, qOfNat 3, qOfNat 4)]]

/-- Iterations 0–10 of the breadth-first loop on selection [1, 1, 1, 1, 1, 1], target 6, first mode. -/
theorem bfsTrace0 :
    bfsRun 6 false false 10 9294114390625 [(qOfNat 0, [qOfNat 1, qOfNat 1, qOfNat 1, qOfNat 1, qOfNat 1, qOfNat 1], [])] [] none [] =
      BfsStepRes.continuing 9294114390615 traceQ1 traceU1 none [] := by
  rfl

/-- Iterations 10–20 of the breadth-first loop on selection [1, 1, 1, 1, 1, 1], target 6, first mode. -/
theorem bfsTrace1 :
    bfsRun 6 false false 10 9294114390615 traceQ1 traceU1 none [] =
      BfsStepRes.continuing 9294114390605 traceQ2 traceU2 none [] := by
  rfl

/-- Iterations 20–30 of the breadth-first loop on selection [1, 1, 1, 1, 1, 1], target 6, first mode. -/
theorem bfsTrace2 :
    bfsRun 6 false false 10 9294114390605 traceQ2 traceU2 none [] =
      BfsStepRes.continuing 9294114390595 traceQ3 traceU3 none [] := by
  rfl

/-- Iterations 30–40 of the breadth-first loop on selection [1, 1, 1, 1, 1, 1], target 6, first mode. -/
theorem bfsTrace3 :
    bfsRun 6 false false 10 9294114390595 traceQ3 traceU3 none [] =
      BfsStepRes.continuing 9294114390585 traceQ4 traceU4 none [] := by
  rfl

/-- Iterations 40–50 of the breadth-first loop on selection [1, 1, 1, 1, 1, 1], target 6, first mode. -/
theorem bfsTrace4 :
    bfsRun 6 false false 10 9294114390585 traceQ4 traceU4 none [] =
      BfsStepRes.continuing 9294114390575 traceQ5 traceU5 none [] := by
  rfl

/-- Iterations 50–60 of the breadth-first loop on selection [1, 1, 1, 1, 1, 1], target 6, first mode. -/
theorem bfsTrace5 :
    bfsRun 6 false false 10 9294114390575 traceQ5 traceU5 none [] =
      BfsStepRes.continuing 9294114390565 traceQ6 traceU6 none [] := by
  rfl

/-- Iterations 60–70 of the breadth-first loop on selection [1, 1, 1, 1, 1, 1], target 6, first mode. -/
theorem bfsTrace6 :
    bfsRun 6 false false 10 9294114390565 traceQ6 traceU6 none [] =
      BfsStepRes.continuing 9294114390555 traceQ7 traceU7 none [] := by
  rfl

/-- Iterations 70–80 of the breadth-first loop on selection [1, 1, 1, 1, 1, 1], target 6, first mode. -/
theorem bfsTrace7 :
    bfsRun 6 false false 10 9294114390555 traceQ7 traceU7 none [] =
      BfsStepRes.continuing 9294114390545 traceQ8 traceU8 none [] := by
  rfl

/-- Iterations 80–90 of the breadth-first loop on selection [1, 1, 1, 1, 1, 1], target 6, first mode. -/
theorem bfsTrace8 :
    bfsRun 6 false false 10 9294114390545 traceQ8 traceU8 none [] =
      BfsStepRes.continuing 9294114390535 traceQ9 traceU9 none [] := by
  rfl

/-- Iterations 90–100 of the breadth-first loop on selection [1, 1, 1, 1, 1, 1], target 6, first mode. -/
theorem bfsTrace9 :
    bfsRun 6 false false 10 9294114390535 traceQ9 traceU9 none [] =
      BfsStepRes.continuing 9294114390525 traceQ10 traceU10 none [] := by
  rfl

/-- Iterations 100–110 of the breadth-first loop on selection [1, 1, 1, 1, 1, 1], target 6, first mode. -/
theorem bfsTrace10 :
    bfsRun 6 false false 10 9294114390525 traceQ10 traceU10 none [] =
      BfsStepRes.continuing 9294114390515 traceQ11 traceU11 none [] := by
  rfl

/-- Iterations 110–120 of the breadth-first loop on selection [1, 1, 1, 1, 1, 1], target 6, first mode. -/
theorem bfsTrace11 :
    bfsRun 6 false false 10 9294114390515 traceQ11 traceU11 none [] =
      BfsStepRes.continuing 9294114390505 traceQ12 traceU12 none [] := by
  rfl

/-- Final iterations of the same run: the loop returns. -/
theorem bfsTrace12 :
    bfsRun 6 false false 10 9294114390505 traceQ12 traceU12 none [] =
      BfsStepRes.finished (some [[(qOfNat 1, Op.add, qOfNat 1, qOfNat 2), (qOfNat 1, Op.add, qOfNat 2, qOfNat 3), (qOfNat 1, Op.add, qOfNat 3, qOfNat 4), (qOfNat 1, Op.add, qOfNat 4, qOfNat 5), (qOfNat 1, Op.add, qOfNat 5, qOfNat 6)]]) := by
  rfl

/-- C1, counterexample: on the selection `[1, 1, 1, 1, 1, 1]` with
target `6`, the BFS solver in `first` mode returns a solution with
five operations, yet a valid four-operation sequence over the same
selection reaches the target (it needs the operation `1 + 1 = 2`
twice, and the frozenset path dedup of `solve_bfs` collapses every
path repeating an operation tuple into an already seen fingerprint, so
no such path is ever enqueued). -/
theorem bfs_first_not_globally_minimal :
    solve_bfs 6 [1, 1, 1, 1, 1, 1] false false =
        some [[((1 : ℚ), Op.add, 1, 2), ((1 : ℚ), Op.add, 2, 3), ((1 : ℚ), Op.add, 3, 4),
          ((1 : ℚ), Op.add, 4, 5), ((1 : ℚ), Op.add, 5, 6)]] ∧
      specValidSeq [1, 1, 1, 1, 1, 1] 6
        [((1 : ℚ), Op.add, 1, 2), ((1 : ℚ), Op.add, 1, 2), ((2 : ℚ), Op.add, 1, 3),
          ((2 : ℚ), Op.mul, 3, 6)] = true ∧
      ([((1 : ℚ), Op.add, 1, 2), ((1 : ℚ), Op.add, 1, 2), ((2 : ℚ), Op.add, 1, 3),
          ((2 : ℚ), Op.mul, 3, 6)] : List Oper).length <
        ([((1 : ℚ), Op.add, 1, 2), ((1 : ℚ), Op.add, 2, 3), ((1 : ℚ), Op.add, 3, 4),
          ((1 : ℚ), Op.add, 4, 5), ((1 : ℚ), Op.add, 5, 6)] : List Oper).length :=
  ⟨by
    have h0 : solve_bfs 6 [1, 1, 1, 1, 1, 1] false false =
        bfsAux 6 false false 9294114390625
          [(qOfNat 0, [qOfNat 1, qOfNat 1, qOfNat 1, qOfNat 1, qOfNat 1, qOfNat 1], [])]
          [] none [] := rfl
    exact h0.trans ((bfsAux_run_continuing bfsTrace0).trans
      ((bfsAux_run_continuing bfsTrace1).trans
      ((bfsAux_run_continuing bfsTrace2).trans
      ((bfsAux_run_continuing bfsTrace3).trans
      ((bfsAux_run_continuing bfsTrace4).trans
      ((bfsAux_run_continuing bfsTrace5).trans
      ((bfsAux_run_continuing bfsTrace6).trans
      ((bfsAux_run_continuing bfsTrace7).trans
      ((bfsAux_run_continuing bfsTrace8).trans
      ((bfsAux_run_continuing bfsTrace9).trans
      ((bfsAux_run_continuing bfsTrace10).trans
      ((bfsAux_run_continuing bfsTrace11).trans
      (bfsAux_run_finished bfsTrace12))))))))))))),
    by decide, by decide⟩
